import Mathlib

/-!
# banana-js: the fused parser and evaluator of `src/js-parser.c`

A shallow embedding of the recursive-descent interpreter of banana-js.  Every
function of `js-parser.c` is one definition below with the same name; the body
follows the C text branch by branch.

Conventions of the embedding

* `struct js` is the record `js`; a C function taking `struct js *pjs` is a
  state transformer `Parse α := js → Except js_error (α × js)`.
* `js_throw` (a `longjmp`) is the error `js_error.throw msg`.
* A `char *` pointing into a buffer is the list of bytes from that position on;
  a pair `(p, len)` denotes `p.take len`.
* A C `double` is the rational number it denotes, the zero of negative sign, an
  infinity or NaN (`double`): the rounding, overflow and underflow of IEEE-754
  arithmetic are not modelled.
* Strings are immutable once visible to a script, so string values carry their
  bytes; arrays, objects and functions are handles into `js.heap`.
* Recursion between the C functions goes through their forward declarations
  (`_parse_statement`, `_parse_additive_expression`, `js_parse_expression`):
  the record `Parsers` holds these three at the previous fuel level.  Unbounded
  C loops are instances of `js_loop`, which runs at most `n` iterations.
* The header `js.h` and the value / scope-stack library are not part of the
  sources at hand: their operations are modelled from the specification and
  marked as such.
-/

namespace BananaJs

/-! ## Data model -/

/-- Token kinds (`enum js_token_state` in `js.h`), named as `js-parser.c` uses them. -/
inductive js_token_state where
  | ts_null | ts_true | ts_false | ts_identifier | ts_number | ts_string
  | ts_function | ts_let | ts_if | ts_else | ts_while | ts_do | ts_for | ts_in | ts_of
  | ts_break | ts_continue | ts_return | ts_delete | ts_typeof
  | ts_left_bracket | ts_right_bracket | ts_left_brace | ts_right_brace
  | ts_left_parenthesis | ts_right_parenthesis
  | ts_comma | ts_semicolon | ts_colon | ts_question | ts_optional_chaining
  | ts_member_access | ts_spread
  | ts_assignment | ts_plus_assignment | ts_minus_assignment
  | ts_multiplication_assignment | ts_division_assignment | ts_mod_assignment
  | ts_plus_plus | ts_minus_minus | ts_plus | ts_minus
  | ts_multiplication | ts_division | ts_mod
  | ts_equal_to | ts_not_equal_to | ts_less_than | ts_less_than_or_equal_to
  | ts_greater_than | ts_greater_than_or_equal_to
  | ts_and | ts_or | ts_not | ts_end_of_file
  deriving DecidableEq, Repr

/-- A run of bytes; as a C pointer it is the buffer from the pointed position on. -/
abbrev Bytes := List Nat

/-- The bytes of an ASCII C string literal. -/
def sz (s : String) : Bytes := s.toList.map Char.toNat

/-- One entry of the token cache: kind, source range `[h, t)`, line, and the
pre-parsed number of a numeric literal. -/
structure js_token where
  stat : js_token_state
  h : Nat
  t : Nat
  line : Nat
  num : ℚ
  deriving DecidableEq

/-- Value kinds; `vt_undefined` is the kind the C code tests as `type == 0`. -/
inductive js_value_type where
  | vt_undefined | vt_null | vt_boolean | vt_number | vt_string
  | vt_array | vt_object | vt_function | vt_cfunction
  deriving DecidableEq, Repr

/-- C `double`.  A finite value is the rational number it denotes: the rounding,
overflow and underflow of IEEE-754 arithmetic are not modelled.  `fin 0` is the
zero of positive sign and `nzero` the zero of negative sign, `inf neg` is the
infinity of the given sign (`neg` true: negative), `nan` is NaN (one
representation: the default NaN that an invalid operation yields). -/
inductive double where
  | fin (q : ℚ)
  | nzero
  | inf (neg : Bool)
  | nan
  deriving DecidableEq

namespace double

/-- The sign bit of a value that is not NaN. -/
def sign : double → Bool
  | .fin q => decide (q < 0)
  | .nzero => true
  | .inf neg => neg
  | .nan => false

/-- The rational a finite value denotes (0 for the others). -/
def val : double → ℚ
  | .fin q => q
  | _ => 0

/-- The zero of the given sign. -/
def zero (neg : Bool) : double := if neg then .nzero else .fin 0

/-- The finite value `q` as a result of an operation whose zero results take the
sign `neg`. -/
def signed (neg : Bool) (q : ℚ) : double := if q = 0 then zero neg else .fin q

/-- IEEE-754 addition (round to nearest: an exact sum 0 of two values of unlike
sign is +0). -/
def add : double → double → double
  | .nan, _ => .nan
  | _, .nan => .nan
  | .inf a, .inf b => if a = b then .inf a else .nan
  | .inf a, _ => .inf a
  | _, .inf b => .inf b
  | .nzero, .nzero => .nzero
  | .nzero, .fin q => .fin q
  | .fin p, .nzero => .fin p
  | .fin p, .fin q => .fin (p + q)

/-- IEEE-754 subtraction: the addition of the negated right operand. -/
def sub : double → double → double
  | .nan, _ => .nan
  | _, .nan => .nan
  | .inf a, .inf b => if a = b then .nan else .inf a
  | .inf a, _ => .inf a
  | _, .inf b => .inf (!b)
  | .nzero, .nzero => .fin 0
  | .nzero, .fin q => if q = 0 then .nzero else .fin (-q)
  | .fin p, .nzero => .fin p
  | .fin p, .fin q => .fin (p - q)

/-- IEEE-754 multiplication: the sign of the result is the exclusive or of the
signs, an infinity times a zero is NaN. -/
def mul : double → double → double
  | .nan, _ => .nan
  | _, .nan => .nan
  | .inf a, .inf b => .inf (a != b)
  | .inf a, y => if y.val = 0 then .nan else .inf (a != y.sign)
  | x, .inf b => if x.val = 0 then .nan else .inf (x.sign != b)
  | x, y => signed (x.sign != y.sign) (x.val * y.val)

/-- IEEE-754 division: a finite value that is not a zero divided by a zero is an
infinity, a zero divided by a zero and an infinity divided by an infinity are NaN,
a finite value divided by an infinity is a zero. -/
def div : double → double → double
  | .nan, _ => .nan
  | _, .nan => .nan
  | .inf _, .inf _ => .nan
  | .inf a, y => .inf (a != y.sign)
  | x, .inf b => zero (x.sign != b)
  | x, y =>
    if y.val = 0 then
      if x.val = 0 then .nan else .inf (x.sign != y.sign)
    else
      signed (x.sign != y.sign) (x.val / y.val)

/-- C `<` on doubles: false when an operand is NaN; the two zeros are equal. -/
def lt : double → double → Bool
  | .nan, _ => false
  | _, .nan => false
  | .inf a, .inf b => a && !b
  | .inf a, _ => a
  | _, .inf b => !b
  | x, y => decide (x.val < y.val)

/-- C `<=` on doubles. -/
def le : double → double → Bool
  | .nan, _ => false
  | _, .nan => false
  | .inf a, .inf b => a || !b
  | .inf a, _ => a
  | _, .inf b => !b
  | x, y => decide (x.val ≤ y.val)

/-- C `==` on doubles: NaN equals nothing, the two zeros are equal. -/
def eq : double → double → Bool
  | .nan, _ => false
  | _, .nan => false
  | .inf a, .inf b => a == b
  | .inf _, _ => false
  | _, .inf _ => false
  | x, y => decide (x.val = y.val)

/-- C `!=` on doubles. -/
def ne (x y : double) : Bool := !eq x y

/-- C `fmod` on finite values with a divisor that is not a zero, as exact numbers:
`x - y * trunc (x / y)`. -/
def fmod_val (x y : ℚ) : ℚ := x - y * (Int.tdiv (x / y).num (x / y).den)

/-- C `fmod`: NaN when the dividend is an infinity or the divisor a zero, the
dividend when the divisor is an infinity; a result 0 has the sign of the dividend. -/
def fmod : double → double → double
  | .nan, _ => .nan
  | _, .nan => .nan
  | .inf _, _ => .nan
  | x, .inf _ => x
  | x, y => if y.val = 0 then .nan else signed x.sign (fmod_val x.val y.val)

/-- C `(size_t)x`: truncation toward zero, in the 64 bits of `size_t`.  Outside
the range of `size_t` C leaves the conversion undefined: here a negative number, an
infinity and NaN go to 0 and a number from 2^64 on is reduced modulo 2^64, so the
result is not the number converted and the round-trip test of line 414 fails. -/
def to_size : double → Nat
  | .fin q => (Int.tdiv q.num q.den).toNat % 2 ^ 64
  | _ => 0

instance : Coe ℚ double := ⟨.fin⟩
instance : NatCast double := ⟨fun n => .fin n⟩
instance (n : Nat) : OfNat double n := ⟨.fin n⟩
instance : Add double := ⟨add⟩
instance : Sub double := ⟨sub⟩
instance : Mul double := ⟨mul⟩
instance : Div double := ⟨div⟩
instance : LT double := ⟨fun x y => lt x y = true⟩
instance : LE double := ⟨fun x y => le x y = true⟩
instance (x y : double) : Decidable (x < y) := inferInstanceAs (Decidable (lt x y = true))
instance (x y : double) : Decidable (x ≤ y) := inferInstanceAs (Decidable (le x y = true))

end double

/-- Tagged values (`struct js_value`).  Arrays, objects and functions hold a
handle into the heap; a host function holds the identity of the callable. -/
inductive js_value where
  | undefined
  | null
  | boolean (b : Bool)
  | number (x : double)
  | string (s : Bytes)
  | array (a : Nat)
  | object (o : Nat)
  | function (f : Nat)
  | cfunction (c : Nat)
  deriving DecidableEq

/-- The `type` field of a value. -/
def js_value.type : js_value → js_value_type
  | .undefined => .vt_undefined
  | .null => .vt_null
  | .boolean _ => .vt_boolean
  | .number _ => .vt_number
  | .string _ => .vt_string
  | .array _ => .vt_array
  | .object _ => .vt_object
  | .function _ => .vt_function
  | .cfunction _ => .vt_cfunction

/-- A key → value map in insertion order (`js_value_map` of the value library). -/
abbrev js_value_map := List (Bytes × js_value)

/-- Heap cells behind the handles of arrays, objects and functions. -/
inductive js_managed where
  | array (p : List js_value)
  | object (p : js_value_map)
  | function (index : Nat) (closure : js_value_map)
  deriving DecidableEq

/-- One frame of the scope stack: the descriptor recorded by `js_stack_forward`,
the variables, and the parameters pushed at the call site that created it. -/
structure js_stack_frame where
  descr_h : Nat
  descr_t : Nat
  vars : js_value_map
  params : List js_value
  deriving DecidableEq

/-- The interpreter state (`struct js`), restricted to what `js-parser.c` reads
and writes.  The head of `stack` is the top frame. -/
structure js where
  src : Bytes
  tok_cache : List js_token
  tok_cache_idx : Nat
  parse_exec : Bool
  mark_break : Bool
  mark_continue : Bool
  mark_return : Bool
  heap : List js_managed
  stack : List js_stack_frame
  result : js_value
  deriving DecidableEq

/-- Ways a run stops without returning: a `js_throw`, a read outside a buffer
(`token_out_of_range` when it is a read of `tok_cache[tok_cache_idx]` with the
cursor outside the token array), or the iteration bound. -/
inductive js_error where
  | throw (msg : String)
  | out_of_range
  | token_out_of_range
  | out_of_fuel
  deriving DecidableEq

/-- State transformers with errors: the type of a C function on `struct js *`. -/
def Parse (α : Type) : Type := js → Except js_error (α × js)

instance : Monad Parse where
  pure a := fun s => .ok (a, s)
  bind m f := fun s =>
    match m s with
    | .ok (a, s1) => f a s1
    | .error e => .error e

/-- Host callables (`cfunction` pointers), indexed by identity. -/
abbrev Host := Nat → js → Except js_error js

/-- The C `js_throw`: leave through the error path with a message. -/
def js_throw {α : Type} (msg : String) : Parse α := fun _ => .error (.throw msg)

/-- Stop of the model itself (not a script error). -/
def js_stop {α : Type} (e : js_error) : Parse α := fun _ => .error e

/-- Read the state. -/
def js_get : Parse js := fun s => .ok (s, s)

/-- Update the state. -/
def js_modify (f : js → js) : Parse Unit := fun s => .ok ((), f s)

/-- A bounded loop: `body x` performs one iteration from loop state `x` and
answers `.inl x1` to go round again (C `continue` or the end of the loop body)
or `.inr a` to leave (C `break` or a false loop condition). -/
def js_loop {σ α : Type} (body : σ → Parse (σ ⊕ α)) : Nat → σ → Parse α
  | 0, _ => js_stop .out_of_fuel
  | k + 1, x => do
    match (← body x) with
    | .inl x1 => js_loop body k x1
    | .inr a => pure a

/-! ## Token cursor (`js-parser.c`, lines 13–77) -/

/-- The token under the cursor, when the cursor is inside the token cache. -/
def js.tok (s : js) : Option js_token := s.tok_cache.get? s.tok_cache_idx

/-- Field read `pjs->tok_cache[pjs->tok_cache_idx].f`: outside the cache the
read is out of range. -/
def _tok_field {α : Type} (f : js_token → α) : Parse α := fun s =>
  match s.tok with
  | some t => .ok (f t, s)
  | none => .error .token_out_of_range

/-- C `_get_token_state`: the kind under the cursor, `ts_end_of_file` past the end. -/
def _get_token_state : Parse js_token_state := fun s =>
  match s.tok with
  | some t => .ok (t.stat, s)
  | none => .ok (.ts_end_of_file, s)

/-- C `_get_token_head`: `pjs->src + tok.h`. -/
def _get_token_head : Parse Bytes := fun s =>
  match s.tok with
  | some t => .ok (s.src.drop t.h, s)
  | none => .error .token_out_of_range

/-- C `_get_token_length`: `tok.t - tok.h`. -/
def _get_token_length : Parse Nat := _tok_field fun t => t.t - t.h

/-- C `_get_token_line`. -/
def _get_token_line : Parse Nat := _tok_field fun t => t.line

/-- C `_get_token_string_head`: skip the opening quote. -/
def _get_token_string_head : Parse Bytes := do
  let p ← _get_token_head
  pure (p.drop 1)

/-- C `_get_token_string_length`: without the two quotes. -/
def _get_token_string_length : Parse Nat := do
  let n ← _get_token_length
  pure (n - 2)

/-- C `_get_token_number`. -/
def _get_token_number : Parse ℚ := _tok_field fun t => t.num

/-- C `_next_token`: advance the cursor, with no end check. -/
def _next_token : Parse Unit := js_modify fun s => { s with tok_cache_idx := s.tok_cache_idx + 1 }

/-- C `_accept`: advance iff the kind under the cursor is `stat`. -/
def _accept (stat : js_token_state) : Parse Bool := do
  if (← _get_token_state) = stat then
    _next_token
    pure true
  else
    pure false

/-- C macro `_expect`: accept or throw `msg`. -/
def _expect (stat : js_token_state) (msg : String) : Parse Unit := do
  if !(← _accept stat) then
    js_throw msg

/-- C `_require_exec`. -/
def _require_exec : Parse Bool := fun s =>
  .ok (s.parse_exec && !s.mark_break && !s.mark_continue && !s.mark_return, s)

/-- Assignment `pjs->tok_cache_idx = i`. -/
def set_tok_cache_idx (i : Nat) : Parse Unit := js_modify fun s => { s with tok_cache_idx := i }

/-- Assignment `pjs->parse_exec = b`. -/
def set_parse_exec (b : Bool) : Parse Unit := js_modify fun s => { s with parse_exec := b }

/-- Assignment `pjs->mark_break = b`. -/
def set_mark_break (b : Bool) : Parse Unit := js_modify fun s => { s with mark_break := b }

/-- Assignment `pjs->mark_continue = b`. -/
def set_mark_continue (b : Bool) : Parse Unit := js_modify fun s => { s with mark_continue := b }

/-- Assignment `pjs->mark_return = b`. -/
def set_mark_return (b : Bool) : Parse Unit := js_modify fun s => { s with mark_return := b }

/-- Assignment `pjs->result = v`. -/
def set_result (v : js_value) : Parse Unit := js_modify fun s => { s with result := v }

/-! ## Value library and scope stack (declared in `js.h`) -/

/-- Modelled from the spec: `js_value_map_put` of the value library, which is
declared in `js.h` only.  Keys are unique; a put on a present key overwrites
its value in place, a put on a new key appends it (insertion order). -/
def js_value_map_put : js_value_map → Bytes → js_value → js_value_map
  | [], k, v => [(k, v)]
  | (k1, v1) :: m, k, v => if k1 = k then (k, v) :: m else (k1, v1) :: js_value_map_put m k v

/-- Modelled from the spec: lookup in a `js_value_map`. -/
def js_value_map_get : js_value_map → Bytes → Option js_value
  | [], _ => none
  | (k1, v1) :: m, k => if k1 = k then some v1 else js_value_map_get m k

/-- Modelled from the spec: removal of a key from a `js_value_map`. -/
def js_value_map_erase : js_value_map → Bytes → js_value_map
  | [], _ => []
  | (k1, v1) :: m, k => if k1 = k then m else (k1, v1) :: js_value_map_erase m k

/-- Modelled from the spec: `js_stack_forward` (`frame_push(range)`), missing from
the sources: append a new empty frame recording the source range. -/
def js_stack_forward (h t : Nat) : Parse Unit :=
  js_modify fun s => { s with stack := ⟨h, t, [], []⟩ :: s.stack }

/-- Modelled from the spec: `js_stack_backward` (`frame_pop()`): remove the top
frame, discarding its bindings and its parameters. -/
def js_stack_backward : Parse Unit := fun s =>
  match s.stack with
  | [] => .error .out_of_range
  | _ :: rest => .ok ((), { s with stack := rest })

/-- Modelled from the spec: `js_stack_peek`, the top frame. -/
def js_stack_peek : Parse js_stack_frame := fun s =>
  match s.stack with
  | [] => .error .out_of_range
  | f :: _ => .ok (f, s)

/-- C `_stack_forward`: push a frame described by the token under the cursor. -/
def _stack_forward : Parse Unit := do
  let h ← _tok_field fun t => t.h
  let t ← _tok_field fun t => t.t
  js_stack_forward h t

/-- Modelled from the spec: `js_variable_declare` (`declare(name, value)`): bind
the name in the top frame, overwriting any prior binding there. -/
def js_variable_declare (k : Bytes) (kl : Nat) (v : js_value) : Parse Unit := fun s =>
  match s.stack with
  | [] => .error .out_of_range
  | f :: rest => .ok ((), { s with stack := { f with vars := js_value_map_put f.vars (k.take kl) v } :: rest })

/-- Search of the frames, top first, for the value bound to a key. -/
def stack_fetch : List js_stack_frame → Bytes → Option js_value
  | [], _ => none
  | f :: rest, k =>
    match js_value_map_get f.vars k with
    | some v => some v
    | none => stack_fetch rest k

/-- Update of the first frame, top first, that binds a key. -/
def stack_assign : List js_stack_frame → Bytes → js_value → Option (List js_stack_frame)
  | [], _, _ => none
  | f :: rest, k, v =>
    match js_value_map_get f.vars k with
    | some _ => some ({ f with vars := js_value_map_put f.vars k v } :: rest)
    | none => (stack_assign rest k v).map fun r => f :: r

/-- Removal of the first binding, top first, of a key. -/
def stack_erase : List js_stack_frame → Bytes → Option (List js_stack_frame)
  | [], _ => none
  | f :: rest, k =>
    match js_value_map_get f.vars k with
    | some _ => some ({ f with vars := js_value_map_erase f.vars k } :: rest)
    | none => (stack_erase rest k).map fun r => f :: r

/-- Modelled from the spec: `js_variable_fetch` (`fetch(name)`): walk the frames
top-down; fail if the name is absent. -/
def js_variable_fetch (k : Bytes) (kl : Nat) : Parse js_value := fun s =>
  match stack_fetch s.stack (k.take kl) with
  | some v => .ok (v, s)
  | none => .error (.throw "Variable not found")

/-- The closure map after the capture loop of `_call_result` (line 490) has put
the entries `vars` of the finished frame into `closure`. -/
def closure_capture (closure vars : js_value_map) : js_value_map :=
  vars.foldl (fun c kv => js_value_map_put c kv.1 kv.2) closure

/-- Modelled from the spec: the capture of a frame by a function value (section 3,
"Closures capture the current innermost frame's variables at the moment a function
value escapes a call"): every binding of `vars` is put into the closure map of the
function cell at `f`, as the loop of line 490 does on return. -/
def heap_capture (heap : List js_managed) (f : Nat) (vars : js_value_map) : List js_managed :=
  match heap.get? f with
  | some (.function index closure) => heap.set f (.function index (closure_capture closure vars))
  | _ => heap

/-- Modelled from the spec: `js_variable_assign` (`assign(name, value)`): update
the first frame that contains the name; fail if absent.  A function value escapes
by "assignment out of scope" (section 3) when the name is not bound in the top
frame, the innermost one: it then captures the variables of the top frame. -/
def js_variable_assign (k : Bytes) (kl : Nat) (v : js_value) : Parse Unit := fun s =>
  match stack_assign s.stack (k.take kl) v with
  | some st =>
    match v, s.stack with
    | .function f, frame :: _ =>
      if js_value_map_get frame.vars (k.take kl) = none then
        .ok ((), { s with heap := heap_capture s.heap f frame.vars, stack := st })
      else
        .ok ((), { s with stack := st })
    | _, _ => .ok ((), { s with stack := st })
  | none => .error (.throw "Variable not found")

/-- Modelled from the spec: `js_variable_erase` (`erase(name)`): remove the first
binding found; deleting an undeclared name fails. -/
def js_variable_erase (k : Bytes) (kl : Nat) : Parse Unit := fun s =>
  match stack_erase s.stack (k.take kl) with
  | some st => .ok ((), { s with stack := st })
  | none => .error (.throw "Variable not found")

/-- Modelled from the spec: `js_parameter_push`: append an actual to the
parameter buffer, which belongs to the frame pushed at the call site. -/
def js_parameter_push (v : js_value) : Parse Unit := fun s =>
  match s.stack with
  | [] => .error .out_of_range
  | f :: rest => .ok ((), { s with stack := { f with params := f.params ++ [v] } :: rest })

/-- Modelled from the spec: `js_parameter_length` (`parameter_length()`). -/
def js_parameter_length : Parse Nat := do
  let f ← js_stack_peek
  pure f.params.length

/-- Modelled from the spec: `js_parameter_get` (`parameter_get(i)`): positional
read of the parameter buffer; a position with no actual reads as null. -/
def js_parameter_get (i : Nat) : Parse js_value := do
  let f ← js_stack_peek
  pure (f.params.getD i .null)

/-- Modelled from the spec: allocation of a heap cell by the value allocator;
the new handle is the next free position of the heap. -/
def js_alloc (c : js_managed) : Parse Nat := fun s =>
  .ok (s.heap.length, { s with heap := s.heap ++ [c] })

/-- Modelled from the spec: `js_array` (`new_array()`), a new empty array. -/
def js_array : Parse js_value := do
  let a ← js_alloc (.array [])
  pure (.array a)

/-- Modelled from the spec: `js_object` (`new_object()`), a new empty object. -/
def js_object : Parse js_value := do
  let o ← js_alloc (.object [])
  pure (.object o)

/-- Modelled from the spec: `js_function` (`new_function(entry_index)`), a new
function value with the given entry token index and an empty closure. -/
def js_function (index : Nat) : Parse js_value := do
  let f ← js_alloc (.function index [])
  pure (.function f)

/-- Modelled from the spec: `js_string` (`new_string(bytes, len)`). -/
def js_string (p : Bytes) (len : Nat) : js_value := .string (p.take len)

/-- Modelled from the spec: `js_string_sz`, a string value from a C string. -/
def js_string_sz (s : String) : js_value := .string (sz s)

/-- Modelled from the spec: `js_value_type_name`, the kind name `typeof` yields. -/
def js_value_type_name : js_value_type → String
  | .vt_undefined => "undefined"
  | .vt_null => "null"
  | .vt_boolean => "boolean"
  | .vt_number => "number"
  | .vt_string => "string"
  | .vt_array => "array"
  | .vt_object => "object"
  | .vt_function => "function"
  | .vt_cfunction => "cfunction"

/-- The elements behind an array value (`v.value.array->p`, `->len`). -/
def js_array_cell (arr : js_value) : Parse (Nat × List js_value) := fun s =>
  match arr with
  | .array a =>
    match s.heap.get? a with
    | some (.array p) => .ok ((a, p), s)
    | _ => .error .out_of_range
  | _ => .error .out_of_range

/-- The entries behind an object value (`v.value.object->p`). -/
def js_object_cell (obj : js_value) : Parse (Nat × js_value_map) := fun s =>
  match obj with
  | .object o =>
    match s.heap.get? o with
    | some (.object p) => .ok ((o, p), s)
    | _ => .error .out_of_range
  | _ => .error .out_of_range

/-- The cell behind a function value (`v.value.function->index`, `->closure`). -/
def js_function_cell (fn : js_value) : Parse (Nat × Nat × js_value_map) := fun s =>
  match fn with
  | .function f =>
    match s.heap.get? f with
    | some (.function index closure) => .ok ((f, index, closure), s)
    | _ => .error .out_of_range
  | _ => .error .out_of_range

/-- Store a cell at a handle. -/
def js_heap_set (h : Nat) (c : js_managed) : Parse Unit :=
  js_modify fun s => { s with heap := s.heap.set h c }

/-- Modelled from the spec: `js_array_push`, append to the growable sequence. -/
def js_array_push (arr : js_value) (v : js_value) : Parse Unit := do
  let (a, p) ← js_array_cell arr
  js_heap_set a (.array (p ++ [v]))

/-- Modelled from the spec: `js_array_get`; a position past the end reads as null. -/
def js_array_get (arr : js_value) (i : Nat) : Parse js_value := do
  let (_, p) ← js_array_cell arr
  pure (p.getD i .null)

/-- Modelled from the spec: `js_array_put` (`array[i] = v`); a position past
the end grows the array, the gap reading as null. -/
def js_array_put (arr : js_value) (i : Nat) (v : js_value) : Parse Unit := do
  let (a, p) ← js_array_cell arr
  if i < p.length then
    js_heap_set a (.array (p.set i v))
  else
    js_heap_set a (.array (p ++ List.replicate (i - p.length) .null ++ [v]))

/-- Modelled from the spec: `js_object_put` (`obj.k = v`), keys unique. -/
def js_object_put (obj : js_value) (k : Bytes) (kl : Nat) (v : js_value) : Parse Unit := do
  let (o, p) ← js_object_cell obj
  js_heap_set o (.object (js_value_map_put p (k.take kl) v))

/-- Modelled from the spec: `js_object_get`; an absent key reads as null. -/
def js_object_get (obj : js_value) (k : Bytes) (kl : Nat) : Parse js_value := do
  let (_, p) ← js_object_cell obj
  pure ((js_value_map_get p (k.take kl)).getD .null)

/-- C `string_buffer_append` on the fresh copy made by `js_string`: the copy of
`l` followed by the bytes of `r`. -/
def js_string_concat (l r : Bytes) : js_value := .string (l ++ r)

/-- C `strncmp` on NUL-terminated buffers: a read past the end of the list reads
the terminator. -/
def strncmp : Bytes → Bytes → Nat → Int
  | _, _, 0 => 0
  | l, r, n + 1 =>
    if l.headD 0 ≠ r.headD 0 then (l.headD 0 : Int) - (r.headD 0 : Int)
    else if l.headD 0 = 0 then 0
    else strncmp l.tail r.tail n

/-- C `_strcmp`: `strncmp(lp, rp, llen > rlen ? llen : rlen)`. -/
def _strcmp (lp : Bytes) (llen : Nat) (rp : Bytes) (rlen : Nat) : Int :=
  strncmp (lp.take llen) (rp.take rlen) (if llen > rlen then llen else rlen)

/-! ## The parser / evaluator (`js-parser.c`, lines 79–1254) -/

/-- The three functions that `js-parser.c` reaches through a forward declaration
(`_parse_statement`, `_parse_additive_expression`) or through `js.h`
(`js_parse_expression`), at the previous fuel level. -/
structure Parsers where
  _parse_statement : Parse Unit
  _parse_additive_expression : Parse js_value
  js_parse_expression : Parse js_value

/-- The loop `while (_get_token_state(pjs) != ts_right_brace) _parse_statement(pjs);`
of lines 132–134, 160–162, 931–933 and 1154–1156. -/
def _parse_statements (n : Nat) (rec : Parsers) : Parse Unit :=
  js_loop (fun (_ : Unit) => do
    if (← _get_token_state) ≠ .ts_right_brace then
      rec._parse_statement
      pure (.inl ())
    else
      pure (.inr ())) n ()

/-- C `_parse_function` (lines 81–165): bind the formals from the parameter
buffer and run the body, or walk over both in skim mode. -/
def _parse_function (n : Nat) (rec : Parsers) : Parse Unit := do
  if (← _require_exec) then
    _expect .ts_left_parenthesis "Expect ("
    if !(← _accept .ts_right_parenthesis) then
      js_loop (fun (i : Nat) => do
        if (← _accept .ts_spread) then
          -- rest parameters
          if (← _get_token_state) ≠ .ts_identifier then
            js_throw "Expect variable name"
          let ident_h ← _get_token_head
          let ident_len ← _get_token_length
          _next_token
          let param ← js_array
          js_loop (fun (j : Nat) => do
            if j < (← js_parameter_length) then
              js_array_push param (← js_parameter_get j)
              pure (.inl (j + 1))
            else
              pure (.inr ())) n i
          js_variable_declare ident_h ident_len param
          _expect .ts_right_parenthesis "Expect )"
          pure (.inr ())
        else
          if (← _get_token_state) ≠ .ts_identifier then
            js_throw "Expect variable name"
          let ident_h ← _get_token_head
          let ident_len ← _get_token_length
          _next_token
          if (← _accept .ts_assignment) then
            js_variable_declare ident_h ident_len (← rec.js_parse_expression)
          else
            js_variable_declare ident_h ident_len .null
          let param ← js_parameter_get i
          if param.type ≠ .vt_null then
            js_variable_assign ident_h ident_len param
          if (← _accept .ts_comma) then
            pure (.inl (i + 1))
          else if (← _accept .ts_right_parenthesis) then
            pure (.inr ())
          else
            js_throw "Expect , or )") n 0
    _expect .ts_left_brace "Expect \x7b"
    _parse_statements n rec
    _next_token
  else
    _expect .ts_left_parenthesis "Expect ("
    if !(← _accept .ts_right_parenthesis) then
      js_loop (fun (_ : Unit) => do
        if (← _accept .ts_spread) then
          _expect .ts_identifier "Expect variable name"
          _expect .ts_right_parenthesis "Expect )"
          pure (.inr ())
        else
          _expect .ts_identifier "Expect variable name"
          if (← _accept .ts_assignment) then
            let _ ← rec.js_parse_expression
          if (← _accept .ts_comma) then
            pure (.inl ())
          else if (← _accept .ts_right_parenthesis) then
            pure (.inr ())
          else
            js_throw "Expect , or )") n ()
    _expect .ts_left_brace "Expect \x7b"
    _parse_statements n rec
    _next_token

/-- The loop `for (i = 0; i < spread.value.array->len; i++) f(js_array_get(pjs, spread, i));`
of lines 205–207 and 456–458. -/
def _for_each_spread (n : Nat) (spread : js_value) (f : js_value → Parse Unit) : Parse Unit :=
  js_loop (fun (i : Nat) => do
    let (_, p) ← js_array_cell spread
    if i < p.length then
      f (← js_array_get spread i)
      pure (.inl (i + 1))
    else
      pure (.inr ())) n 0

/-- C `_parse_value` (lines 167–314): a literal, an array or object literal or a
function literal. -/
def _parse_value (n : Nat) (rec : Parsers) : Parse js_value := do
  if (← _require_exec) then
    match (← _get_token_state) with
    | .ts_null =>
      _next_token
      pure .null
    | .ts_true =>
      _next_token
      pure (.boolean true)
    | .ts_false =>
      _next_token
      pure (.boolean false)
    | .ts_number =>
      let ret := js_value.number ((← _get_token_number) : ℚ)
      _next_token
      pure ret
    | .ts_string =>
      let ret := js_string (← _get_token_string_head) (← _get_token_string_length)
      _next_token
      pure ret
    | .ts_left_bracket =>
      _next_token
      let ret ← js_array
      if !(← _accept .ts_right_bracket) then
        js_loop (fun (_ : Unit) => do
          if (← _accept .ts_spread) then
            let spread ← rec.js_parse_expression
            if spread.type ≠ .vt_array then
              js_throw "Operator ... requires array operand"
            _for_each_spread n spread fun v => js_array_push ret v
          else
            js_array_push ret (← rec.js_parse_expression)
          if (← _accept .ts_comma) then
            pure (.inl ())
          else if (← _accept .ts_right_bracket) then
            pure (.inr ())
          else
            js_throw "Expect , or ]") n ()
      pure ret
    | .ts_left_brace =>
      _next_token
      let ret ← js_object
      if !(← _accept .ts_right_brace) then
        js_loop (fun (_ : Unit) => do
          let stat ← _get_token_state
          let (k, klen) ← (do
            if stat = .ts_string then
              pure ((← _get_token_string_head), (← _get_token_string_length))
            else if stat = .ts_identifier then
              pure ((← _get_token_head), (← _get_token_length))
            else
              js_throw "Expect string or identifier" : Parse (Bytes × Nat))
          _next_token
          _expect .ts_colon "Expect :"
          js_object_put ret k klen (← rec.js_parse_expression)
          if (← _accept .ts_comma) then
            pure (.inl ())
          else if (← _accept .ts_right_brace) then
            pure (.inr ())
          else
            js_throw "Expect , or \x7d") n ()
      pure ret
    | .ts_function =>
      _next_token
      let ret ← js_function (← js_get).tok_cache_idx
      -- only walk through, no exec
      set_parse_exec false
      _parse_function n rec
      set_parse_exec true
      pure ret
    | _ => js_throw "Not a value literal"
  else
    match (← _get_token_state) with
    | .ts_null | .ts_true | .ts_false | .ts_number | .ts_string =>
      _next_token
    | .ts_left_bracket =>
      _next_token
      if !(← _accept .ts_right_bracket) then
        js_loop (fun (_ : Unit) => do
          let _ ← _accept .ts_spread -- accept or not
          let _ ← rec.js_parse_expression
          if (← _accept .ts_comma) then
            pure (.inl ())
          else if (← _accept .ts_right_bracket) then
            pure (.inr ())
          else
            js_throw "Expect , or ]") n ()
    | .ts_left_brace =>
      _next_token
      if !(← _accept .ts_right_brace) then
        js_loop (fun (_ : Unit) => do
          let stat ← _get_token_state
          if stat ≠ .ts_string ∧ stat ≠ .ts_identifier then
            js_throw "Expect string or identifier"
          _next_token
          _expect .ts_colon "Expect :"
          let _ ← rec.js_parse_expression
          if (← _accept .ts_comma) then
            pure (.inl ())
          else if (← _accept .ts_right_brace) then
            pure (.inr ())
          else
            js_throw "Expect , or \x7d") n ()
    | .ts_function =>
      _next_token
      _parse_function n rec
    | _ => js_throw "Not a value literal"
    pure .undefined

/-- C `enum _value_accessor_type`. -/
inductive _value_accessor_type where
  | at_value | at_identifier | at_array_member | at_object_member | at_optional_member
  deriving DecidableEq, Repr

/-- C `struct _value_accessor`: `v` is the value or the holder, `p` the identifier
or key, `n` its length or the array index.  Fields the C code leaves unset are
zero here, as in the skim branch's `acc = {0}`. -/
structure _value_accessor where
  type : _value_accessor_type
  v : js_value
  p : Bytes
  n : Nat
  deriving DecidableEq

/-- C `_accessor_put` (lines 339–362). -/
def _accessor_put (acc : _value_accessor) (v : js_value) : Parse Unit :=
  match acc.type with
  | .at_value => js_throw "Can not put value to accessor value type"
  | .at_identifier => js_variable_assign acc.p acc.n v
  | .at_array_member => js_array_put acc.v acc.n v
  | .at_object_member => js_object_put acc.v acc.p acc.n v
  | .at_optional_member =>
    if acc.v.type = .vt_object then
      js_object_put acc.v acc.p acc.n v
    else
      js_throw "Not object"

/-- C `_accessor_get` (lines 364–383). -/
def _accessor_get (acc : _value_accessor) : Parse js_value :=
  match acc.type with
  | .at_value => pure acc.v
  | .at_identifier => js_variable_fetch acc.p acc.n
  | .at_array_member => js_array_get acc.v acc.n
  | .at_object_member => js_object_get acc.v acc.p acc.n
  | .at_optional_member =>
    if acc.v.type = .vt_object then
      js_object_get acc.v acc.p acc.n
    else
      pure .null

/-- Iteration `js_value_map_for_each(m, cap, k, kl, v, f)` over the entries of a
map that `f` does not modify. -/
def js_value_map_for_each (m : js_value_map) (f : Bytes → Nat → js_value → Parse Unit) :
    Parse Unit :=
  match m with
  | [] => pure ()
  | (k, v) :: rest => do
    f k k.length v
    js_value_map_for_each rest f

/-- The invocation `acc.v.value.cfunction(pjs)` of a host callable. -/
def js_call_cfunction (host : Host) (c : Nat) : Parse Unit := fun s =>
  match host c s with
  | .ok s1 => .ok ((), s1)
  | .error e => .error e

/-- Lines 449–470 of `_parse_accessor`: after the `(` of a call, evaluate the
arguments into the parameter buffer up to and including the `)`. -/
def _parse_call_arguments (n : Nat) (rec : Parsers) : Parse Unit := do
  if !(← _accept .ts_right_parenthesis) then
    js_loop (fun (_ : Unit) => do
      if (← _accept .ts_spread) then
        let spread ← rec.js_parse_expression
        if spread.type ≠ .vt_array then
          js_throw "Operator ... requires array operand"
        _for_each_spread n spread fun v => js_parameter_push v
      else
        js_parameter_push (← rec.js_parse_expression)
      if (← _accept .ts_comma) then
        pure (.inl ())
      else if (← _accept .ts_right_parenthesis) then
        pure (.inr ())
      else
        js_throw "Expect , or )") n ()

/-- Lines 471–482 of `_parse_accessor`: run the callee `callee` whose arguments
are in the parameter buffer.  For a script function the cursor jumps to the entry
token, the closure bindings are declared, `_parse_function` runs and the cursor
is restored. -/
def _call_callee (host : Host) (n : Nat) (rec : Parsers) (callee : js_value) : Parse Unit := do
  if callee.type = .vt_function then
    let tok_idx_backup := (← js_get).tok_cache_idx
    let (_, index, closure) ← js_function_cell callee
    set_tok_cache_idx index
    -- before executing function, put all closure variables into current stack
    js_value_map_for_each closure fun k kl v => js_variable_declare k kl v
    _parse_function n rec
    set_tok_cache_idx tok_idx_backup
  else
    match callee with
    | .cfunction c => js_call_cfunction host c
    | _ => js_throw "Must be function"

/-- Lines 484–493 of `_parse_accessor`: take the call's value from the result
slot, clear the slot, capture the finished frame into a returned function's
closure, pop the frame and clear `mark_return`. -/
def _call_result (acc : _value_accessor) : Parse _value_accessor := do
  let result := (← js_get).result
  let v := if result.type = .vt_undefined then js_value.null else result
  set_result .undefined
  -- if return value is function, put all variables in current stack into this function's closure
  if v.type = .vt_function then
    let frame ← js_stack_peek
    js_value_map_for_each frame.vars fun k kl w => do
      let (f, index, closure) ← js_function_cell v
      js_heap_set f (.function index (js_value_map_put closure (k.take kl) w))
  js_stack_backward
  set_mark_return false
  pure { acc with type := .at_value, v := v }

/-- C `_parse_accessor` (lines 387–537): a primary followed by any chain of
`[e]`, `.id`, `?.id` and `(args)`. -/
def _parse_accessor (host : Host) (n : Nat) (rec : Parsers) : Parse _value_accessor := do
  if (← _require_exec) then
    let acc ← (do
      if (← _accept .ts_left_parenthesis) then
        let v ← rec.js_parse_expression
        _expect .ts_right_parenthesis "Expect )"
        pure ⟨.at_value, v, [], 0⟩
      else if (← _get_token_state) = .ts_identifier then
        let p ← _get_token_head
        let len ← _get_token_length
        _next_token
        pure ⟨.at_identifier, .undefined, p, len⟩
      else
        let v ← _parse_value n rec
        pure ⟨.at_value, v, [], 0⟩ : Parse _value_accessor)
    js_loop (fun (acc : _value_accessor) => do
      if (← _accept .ts_left_bracket) then
        let acc := { acc with v := (← _accessor_get acc) }
        let idx ← rec._parse_additive_expression
        let acc ← (match acc.v, idx with
          | .array _, .number x =>
            if double.ne (x.to_size : Nat) x then
              js_throw "Invalid array index, must be positive integer"
            else
              pure { acc with type := .at_array_member, n := x.to_size }
          | .object _, .string str =>
            pure { acc with type := .at_object_member, p := str, n := str.length }
          | _, _ => js_throw "Must be array[number] or object[string]" : Parse _value_accessor)
        _expect .ts_right_bracket "Expect ]"
        pure (.inl acc)
      else if (← _accept .ts_member_access) then
        let acc := { acc with v := (← _accessor_get acc) }
        if acc.v.type = .vt_object ∧ (← _get_token_state) = .ts_identifier then
          let p ← _get_token_head
          let len ← _get_token_length
          _next_token
          pure (.inl { acc with type := .at_object_member, p := p, n := len })
        else
          js_throw "Must be object.identifier"
      else if (← _accept .ts_optional_chaining) then
        let acc := { acc with v := (← _accessor_get acc) }
        if (← _get_token_state) = .ts_identifier then
          let p ← _get_token_head
          let len ← _get_token_length
          _next_token
          pure (.inl { acc with type := .at_optional_member, p := p, n := len })
        else
          js_throw "Must be value?.identifier"
      else if (← _get_token_state) = .ts_left_parenthesis then
        let callee ← _accessor_get acc
        _stack_forward -- record function call stack descriptor '('
        _next_token
        _parse_call_arguments n rec
        _call_callee host n rec callee
        let acc ← _call_result acc
        pure (.inl acc)
      else
        pure (.inr acc)) n acc
  else
    if (← _accept .ts_left_parenthesis) then
      let _ ← rec.js_parse_expression
      _expect .ts_right_parenthesis "Expect )"
    else if (← _accept .ts_identifier) then
      pure ()
    else
      let _ ← _parse_value n rec
    js_loop (fun (_ : Unit) => do
      if (← _accept .ts_left_bracket) then
        let _ ← rec._parse_additive_expression
        _expect .ts_right_bracket "Expect ]"
        pure (.inl ())
      else if (← _accept .ts_member_access) then
        _expect .ts_identifier "Must be object.identifier"
        pure (.inl ())
      else if (← _accept .ts_optional_chaining) then
        _expect .ts_identifier "Must be object.identifier"
        pure (.inl ())
      else if (← _accept .ts_left_parenthesis) then
        if !(← _accept .ts_right_parenthesis) then
          js_loop (fun (_ : Unit) => do
            let _ ← _accept .ts_spread -- accept or not
            let _ ← rec.js_parse_expression
            if (← _accept .ts_comma) then
              pure (.inl ())
            else if (← _accept .ts_right_parenthesis) then
              pure (.inr ())
            else
              js_throw "Expect , or )") n ()
        pure (.inl ())
      else
        pure (.inr ())) n ()
    pure ⟨.at_value, .undefined, [], 0⟩

/-- C `_parse_access_call_expression` (lines 539–546). -/
def _parse_access_call_expression (host : Host) (n : Nat) (rec : Parsers) : Parse js_value := do
  if (← _require_exec) then
    _accessor_get (← _parse_accessor host n rec)
  else
    let _ ← _parse_accessor host n rec
    pure .undefined

/-- C `_parse_prefix_expression` (lines 548–585): `typeof`, `!`, unary `+` and `-`. -/
def _parse_prefix_expression (host : Host) (n : Nat) (rec : Parsers) : Parse js_value := do
  if (← _require_exec) then
    if (← _accept .ts_typeof) then
      let ret ← _parse_access_call_expression host n rec
      pure (js_string_sz (js_value_type_name ret.type))
    else if (← _accept .ts_not) then
      let ret ← _parse_access_call_expression host n rec
      match ret with
      | .boolean b => pure (.boolean (!b))
      | _ => js_throw "Operator ! requires boolean operand"
    else
      let stat ← _get_token_state
      let sign : ℚ ← (do
        if stat = .ts_plus then
          _next_token
          pure 1
        else if stat = .ts_minus then
          _next_token
          pure (-1)
        else
          pure 0 : Parse ℚ)
      let ret ← _parse_access_call_expression host n rec
      if sign ≠ 0 then
        match ret with
        | .number x => pure (.number ((sign : double) * x))
        | _ => js_throw "Prefix operators + - require number operand"
      else
        pure ret
  else
    let stat ← _get_token_state
    if stat = .ts_typeof ∨ stat = .ts_not ∨ stat = .ts_plus ∨ stat = .ts_minus then
      _next_token
    let _ ← _parse_access_call_expression host n rec
    pure .undefined

/-- C `_parse_multiplicative_expression` (lines 587–619): `*`, `/`, `%`. -/
def _parse_multiplicative_expression (host : Host) (n : Nat) (rec : Parsers) :
    Parse js_value := do
  if (← _require_exec) then
    let ret ← _parse_prefix_expression host n rec
    js_loop (fun (ret : js_value) => do
      let stat ← _get_token_state
      if stat = .ts_multiplication ∨ stat = .ts_division ∨ stat = .ts_mod then
        if ret.type ≠ .vt_number then
          js_throw "Operators * / % require left operand be number"
        _next_token
        let val_r ← _parse_prefix_expression host n rec
        match ret, val_r with
        | .number l, .number r =>
          if stat = .ts_multiplication then
            pure (.inl (.number (l * r)))
          else if stat = .ts_division then
            pure (.inl (.number (l / r)))
          else
            pure (.inl (.number (double.fmod l r)))
        | _, _ => js_throw "Operators * / % require right operand be number"
      else
        pure (.inr ret)) n ret
  else
    let _ ← _parse_prefix_expression host n rec
    js_loop (fun (_ : Unit) => do
      let stat ← _get_token_state
      if stat = .ts_multiplication ∨ stat = .ts_division ∨ stat = .ts_mod then
        _next_token
        let _ ← _parse_prefix_expression host n rec
        pure (.inl ())
      else
        pure (.inr ())) n ()
    pure .undefined

/-- C `_parse_additive_expression` (lines 622–665): `+` on numbers or strings,
`-` on numbers.  Once the left operand has passed its test, the right operand is
of the same kind exactly in the cases matched; the other cases are the C test
`val_r.type != ret.type`. -/
def _parse_additive_expression (host : Host) (n : Nat) (rec : Parsers) : Parse js_value := do
  if (← _require_exec) then
    let ret ← _parse_multiplicative_expression host n rec
    js_loop (fun (ret : js_value) => do
      let stat ← _get_token_state
      if stat = .ts_plus then
        if ret.type ≠ .vt_number ∧ ret.type ≠ .vt_string then
          js_throw "Operator + requires left operand be number or string"
        _next_token
        let val_r ← _parse_multiplicative_expression host n rec
        match ret, val_r with
        | .number l, .number r => pure (.inl (.number (l + r)))
        | .string l, .string r => pure (.inl (js_string_concat l r))
        | _, _ => js_throw "Operators + - require right operand be same type"
      else if stat = .ts_minus then
        if ret.type ≠ .vt_number then
          js_throw "Operator - requires left operand be number"
        _next_token
        let val_r ← _parse_multiplicative_expression host n rec
        match ret, val_r with
        | .number l, .number r => pure (.inl (.number (l - r)))
        | _, _ => js_throw "Operators + - require right operand be same type"
      else
        pure (.inr ret)) n ret
  else
    let _ ← _parse_multiplicative_expression host n rec
    js_loop (fun (_ : Unit) => do
      let stat ← _get_token_state
      if stat = .ts_plus ∨ stat = .ts_minus then
        _next_token
        let _ ← _parse_multiplicative_expression host n rec
        pure (.inl ())
      else
        pure (.inr ())) n ()
    pure .undefined

/-- The test `memcmp(&l, &r, sizeof(struct js_value)) == 0`: same kind and same
payload (values are taken to have one representation each). -/
def js_value_memcmp_eq (l r : js_value) : Bool := decide (l = r)

/-- Lines 682–694 of `_parse_relational_expression`: the equality of two values. -/
def js_value_eq (l r : js_value) : Bool :=
  if js_value_memcmp_eq l r then
    true
  else if l.type = r.type then
    match l, r with
    | .number x, .number y => double.eq x y
    | .string x, .string y => decide (_strcmp x x.length y y.length = 0)
    | _, _ => false
  else
    false

/-- C `_parse_relational_expression` (lines 671–740): one optional `==`, `!=`,
`<`, `<=`, `>` or `>=`. -/
def _parse_relational_expression (host : Host) (n : Nat) (rec : Parsers) : Parse js_value := do
  if (← _require_exec) then
    let ret ← _parse_additive_expression host n rec
    let stat ← _get_token_state
    if stat = .ts_equal_to ∨ stat = .ts_not_equal_to then
      _next_token
      let val_r ← _parse_additive_expression host n rec
      let eq := js_value_eq ret val_r
      if stat = .ts_equal_to then
        pure (.boolean eq)
      else
        pure (.boolean (!eq))
    else if stat = .ts_less_than ∨ stat = .ts_less_than_or_equal_to ∨ stat = .ts_greater_than
        ∨ stat = .ts_greater_than_or_equal_to then
      if ret.type ≠ .vt_number ∧ ret.type ≠ .vt_string then
        js_throw "Operators < <= > >= require left operand be number or string"
      _next_token
      let val_r ← _parse_additive_expression host n rec
      let (num_l, num_r) ← (match ret, val_r with
        | .number l, .number r => pure (l, r)
        | .string l, .string r =>
          pure ((((_strcmp l l.length r r.length : Int) : ℚ) : double), (0 : double))
        | _, _ => js_throw "Operators < <= > >= require right operand be same type" :
          Parse (double × double))
      if stat = .ts_less_than then
        pure (.boolean (decide (num_l < num_r)))
      else if stat = .ts_less_than_or_equal_to then
        pure (.boolean (decide (num_l ≤ num_r)))
      else if stat = .ts_greater_than then
        pure (.boolean (decide (num_l > num_r)))
      else
        pure (.boolean (decide (num_l ≥ num_r)))
    else
      pure ret
  else
    let _ ← _parse_additive_expression host n rec
    let stat ← _get_token_state
    if stat = .ts_equal_to ∨ stat = .ts_not_equal_to ∨ stat = .ts_less_than
        ∨ stat = .ts_less_than_or_equal_to ∨ stat = .ts_greater_than
        ∨ stat = .ts_greater_than_or_equal_to then
      _next_token
      let _ ← _parse_additive_expression host n rec
    pure .undefined

/-- C `_parse_logical_expression` (lines 742–772): `&&` and `||`, both operands
always parsed. -/
def _parse_logical_expression (host : Host) (n : Nat) (rec : Parsers) : Parse js_value := do
  if (← _require_exec) then
    let ret ← _parse_relational_expression host n rec
    js_loop (fun (ret : js_value) => do
      let stat ← _get_token_state
      if stat = .ts_and ∨ stat = .ts_or then
        if ret.type ≠ .vt_boolean then
          js_throw "Operators && || require left operand be boolean"
        _next_token
        let val_r ← _parse_relational_expression host n rec
        match ret, val_r with
        | .boolean l, .boolean r =>
          if stat = .ts_and then
            pure (.inl (.boolean (l && r)))
          else
            pure (.inl (.boolean (l || r)))
        | _, _ => js_throw "Operators && || require right operand be boolean"
      else
        pure (.inr ret)) n ret
  else
    let _ ← _parse_relational_expression host n rec
    js_loop (fun (_ : Unit) => do
      let stat ← _get_token_state
      if stat = .ts_and ∨ stat = .ts_or then
        _next_token
        let _ ← _parse_relational_expression host n rec
        pure (.inl ())
      else
        pure (.inr ())) n ()
    pure .undefined

/-- C `js_parse_expression` (lines 775–806): the ternary expression as root. -/
def js_parse_expression (host : Host) (n : Nat) (rec : Parsers) : Parse js_value := do
  if (← _require_exec) then
    let ret ← _parse_logical_expression host n rec
    if (← _accept .ts_question) then
      match ret with
      | .boolean true =>
        let ret ← _parse_logical_expression host n rec
        _expect .ts_colon "Expect :"
        set_parse_exec false
        let _ ← _parse_logical_expression host n rec
        set_parse_exec true
        pure ret
      | .boolean false =>
        set_parse_exec false
        let _ ← _parse_logical_expression host n rec
        set_parse_exec true
        _expect .ts_colon "Expect :"
        let ret ← _parse_logical_expression host n rec
        pure ret
      | _ => js_throw "Operator ?: requires condition operand be boolean"
    else
      pure ret
  else
    let _ ← _parse_logical_expression host n rec
    if (← _accept .ts_question) then
      let _ ← _parse_logical_expression host n rec
      _expect .ts_colon "Expect :"
      let _ ← _parse_logical_expression host n rec
    pure .undefined

/-- C `_parse_assignment_expression` (lines 808–873): an accessor, optionally
followed by an assignment operator and its right-hand side, or by `++` / `--`. -/
def _parse_assignment_expression (host : Host) (n : Nat) (rec : Parsers) : Parse Unit := do
  if (← _require_exec) then
    let acc ← _parse_accessor host n rec
    let stat ← _get_token_state
    if stat = .ts_assignment ∨ stat = .ts_plus_assignment ∨ stat = .ts_minus_assignment
        ∨ stat = .ts_multiplication_assignment ∨ stat = .ts_division_assignment
        ∨ stat = .ts_mod_assignment then
      _next_token
      let val ← js_parse_expression host n rec
      if stat = .ts_assignment then
        _accessor_put acc val
      else
        let varval ← _accessor_get acc
        if stat = .ts_plus_assignment then
          if varval.type ≠ .vt_number ∧ varval.type ≠ .vt_string then
            js_throw "Operator += requires left operand be number or string"
        else
          if varval.type ≠ .vt_number then
            js_throw "Operators -= *= /= %= require left operand be number"
        let varval ← (match varval, val with
          | .number l, .number r =>
            if stat = .ts_plus_assignment then
              pure (.number (l + r))
            else if stat = .ts_minus_assignment then
              pure (.number (l - r))
            else if stat = .ts_multiplication_assignment then
              pure (.number (l * r))
            else if stat = .ts_division_assignment then
              pure (.number (l / r))
            else -- ts_mod_assignment
              pure (.number (double.fmod l r))
          | .string l, .string r => pure (js_string_concat l r)
          | _, _ => js_throw "Operators += -= *= /= %= require right operand be same type" :
            Parse js_value)
        _accessor_put acc varval
    else if stat = .ts_plus_plus ∨ stat = .ts_minus_minus then
      let varval ← _accessor_get acc
      match varval with
      | .number x =>
        if stat = .ts_plus_plus then
          _accessor_put acc (.number (x + 1))
        else
          _accessor_put acc (.number (x - 1))
        _next_token
      | _ => js_throw "Operators ++ -- require operand be number"
  else
    let _ ← _parse_accessor host n rec
    let stat ← _get_token_state
    if stat = .ts_assignment ∨ stat = .ts_plus_assignment ∨ stat = .ts_minus_assignment
        ∨ stat = .ts_multiplication_assignment ∨ stat = .ts_division_assignment
        ∨ stat = .ts_mod_assignment then
      _next_token
      let _ ← js_parse_expression host n rec
    else if stat = .ts_plus_plus ∨ stat = .ts_minus_minus then
      _next_token

/-- C `_parse_declaration_expression` (lines 875–912): `let id [= e], ...`. -/
def _parse_declaration_expression (host : Host) (n : Nat) (rec : Parsers) : Parse Unit := do
  if (← _require_exec) then
    _expect .ts_let "Expect let"
    js_loop (fun (_ : Unit) => do
      if (← _get_token_state) ≠ .ts_identifier then
        js_throw "Expect variable name"
      let ident_h ← _get_token_head
      let ident_len ← _get_token_length
      _next_token
      if (← _accept .ts_assignment) then
        js_variable_declare ident_h ident_len (← js_parse_expression host n rec)
      else
        js_variable_declare ident_h ident_len .null
      if (← _accept .ts_comma) then
        pure (.inl ())
      else
        pure (.inr ())) n ()
  else
    _expect .ts_let "Expect let"
    js_loop (fun (_ : Unit) => do
      _expect .ts_identifier "Expect variable name"
      if (← _accept .ts_assignment) then
        let _ ← js_parse_expression host n rec
      if (← _accept .ts_comma) then
        pure (.inl ())
      else
        pure (.inr ())) n ()

/-- The local `enum { classic_for, for_in, for_of } for_type` of `_parse_statement`. -/
inductive _for_type where
  | classic_for | for_in | for_of
  deriving DecidableEq, Repr

/-- Lines 1023–1054 of `_parse_statement`: the classic `for` from the condition on. -/
def _parse_classic_for (host : Host) (n : Nat) (rec : Parsers) : Parse Unit := do
  let tok_idx_backup := (← js_get).tok_cache_idx
  js_loop (fun (_ : Unit) => do
    let s ← js_get
    if s.parse_exec && !s.mark_break then
      set_tok_cache_idx tok_idx_backup
      let cond ← (do
        if (← _accept .ts_semicolon) then
          pure true
        else
          let cond ← js_parse_expression host n rec
          match cond with
          | .boolean b =>
            _expect .ts_semicolon "Expect ;"
            pure b
          | _ => js_throw "Condition must be boolean" : Parse Bool)
      let tok_idx_backup_2 := (← js_get).tok_cache_idx
      set_parse_exec false -- first, skip the 3rd part
      if !(← _accept .ts_right_parenthesis) then
        _parse_assignment_expression host n rec
        _expect .ts_right_parenthesis "Expect )"
      set_parse_exec cond
      rec._parse_statement
      set_mark_continue false
      let tok_idx_backup_3 := (← js_get).tok_cache_idx
      set_tok_cache_idx tok_idx_backup_2 -- then, exec the 3rd pard
      if !(← _accept .ts_right_parenthesis) then
        _parse_assignment_expression host n rec
      set_tok_cache_idx tok_idx_backup_3
      pure (.inl ())
    else
      pure (.inr ())) n ()
  set_parse_exec true
  set_mark_break false
  set_mark_continue false

/-- Lines 1056–1103 of `_parse_statement`: `for (acc in|of e) body` from `e` on.
The loops read the container anew on every round, as the iteration macros do. -/
def _parse_for_in_of (host : Host) (n : Nat) (rec : Parsers) (for_type : _for_type)
    (acc : _value_accessor) : Parse Unit := do
  let val ← _parse_access_call_expression host n rec
  _expect .ts_right_parenthesis "Expect )"
  let tok_idx_backup := (← js_get).tok_cache_idx
  let loop_count ← (do
    if val.type = .vt_array then
      let loop_count ← js_loop (fun (x : Nat × Nat) => do
        let (_, p) ← js_array_cell val
        if x.1 < p.length then
          let v := p.getD x.1 .null
          if v.type ≠ .vt_null then -- skip null
            set_tok_cache_idx tok_idx_backup
            if for_type = .for_in then
              _accessor_put acc (.number (x.1 : ℚ))
            else
              _accessor_put acc v
            rec._parse_statement
            set_mark_continue false
            if (← js_get).mark_break then
              pure (.inr (x.2 + 1))
            else
              pure (.inl (x.1 + 1, x.2 + 1))
          else
            pure (.inl (x.1 + 1, x.2))
        else
          pure (.inr x.2)) n (0, 0)
      set_mark_break false
      pure loop_count
    else if val.type = .vt_object then
      let loop_count ← js_loop (fun (x : Nat × Nat) => do
        let (_, p) ← js_object_cell val
        if x.1 < p.length then
          let (k, v) := p.getD x.1 ([], .null)
          if v.type ≠ .vt_null then -- skip null
            set_tok_cache_idx tok_idx_backup
            if for_type = .for_in then
              _accessor_put acc (js_string k k.length)
            else
              _accessor_put acc v
            rec._parse_statement
            set_mark_continue false
            if (← js_get).mark_break then
              pure (.inr (x.2 + 1))
            else
              pure (.inl (x.1 + 1, x.2 + 1))
          else
            pure (.inl (x.1 + 1, x.2))
        else
          pure (.inr x.2)) n (0, 0)
      set_mark_break false
      pure loop_count
    else
      js_throw "For in/of loop require array or object" : Parse Nat)
  if loop_count = 0 then -- if loop didn't happen, still should walk through loop body
    set_parse_exec false
    rec._parse_statement
    set_parse_exec true

/-- Lines 951–966 of `_parse_statement`: the `while` statement after its keyword. -/
def _parse_while (host : Host) (n : Nat) (rec : Parsers) : Parse Unit := do
  _expect .ts_left_parenthesis "Expect ("
  let tok_idx_backup := (← js_get).tok_cache_idx -- backup token
  js_loop (fun (_ : Unit) => do
    let s ← js_get
    if s.parse_exec && !s.mark_break then
      set_tok_cache_idx tok_idx_backup -- restore token
      let cond ← js_parse_expression host n rec
      match cond with
      | .boolean b =>
        _expect .ts_right_parenthesis "Expect )"
        set_parse_exec b
        rec._parse_statement -- skip if cond == false
        set_mark_continue false -- if not set to false, next cond may be NULL
        pure (.inl ())
      | _ => js_throw "Condition must be boolean"
    else
      pure (.inr ())) n ()
  set_parse_exec true -- restore execute
  set_mark_break false
  set_mark_continue false

/-- Lines 968–983 of `_parse_statement`: the `do` statement after its keyword. -/
def _parse_do_while (host : Host) (n : Nat) (rec : Parsers) : Parse Unit := do
  let tok_idx_backup := (← js_get).tok_cache_idx
  js_loop (fun (_ : Unit) => do
    set_tok_cache_idx tok_idx_backup
    rec._parse_statement
    set_mark_continue false
    _expect .ts_while "Expect while"
    _expect .ts_left_parenthesis "Expect ("
    let cond ← js_parse_expression host n rec
    if cond.type ≠ .vt_undefined ∧ cond.type ≠ .vt_boolean then -- may be NULL due to 'break' mark
      js_throw "Condition must be boolean"
    _expect .ts_right_parenthesis "Expect )"
    if cond = .boolean true ∧ (← js_get).mark_break = false then
      pure (.inl ())
    else
      pure (.inr ())) n ()
  set_mark_break false
  set_mark_continue false
  _expect .ts_semicolon "Expect ;"

/-- C `_parse_statement` (lines 915–1248). -/
def _parse_statement (host : Host) (n : Nat) (rec : Parsers) : Parse Unit := do
  if (← _require_exec) then
    if (← _accept .ts_semicolon) then
      pure ()
    else if (← _get_token_state) = .ts_left_brace then -- DONT use _accept, _stack_forward will record token
      _stack_forward
      _next_token
      _parse_statements n rec
      js_stack_backward
      _next_token
    else if (← _accept .ts_if) then
      _expect .ts_left_parenthesis "Expect ("
      let cond ← js_parse_expression host n rec
      match cond with
      | .boolean b =>
        _expect .ts_right_parenthesis "Expect )"
        set_parse_exec b
        rec._parse_statement
        if (← _accept .ts_else) then
          set_parse_exec (!b)
          rec._parse_statement
        set_parse_exec true -- restore execute
      | _ => js_throw "Condition must be boolean"
    else if (← _accept .ts_while) then
      _parse_while host n rec
    else if (← _accept .ts_do) then
      _parse_do_while host n rec
    else if (← _get_token_state) = .ts_for then -- DONT use _accept, _stack_forward will record token
      _stack_forward
      _next_token
      _expect .ts_left_parenthesis "Expect ("
      let (for_type, acc) ← (do
        if (← _accept .ts_let) then
          let acc ← _parse_accessor host n rec
          if acc.type ≠ .at_identifier then
            js_throw "Expect identifier"
          if (← _accept .ts_assignment) then
            js_variable_declare acc.p acc.n (← js_parse_expression host n rec)
            _expect .ts_semicolon "Expect ;"
            pure (.classic_for, acc)
          else if (← _accept .ts_in) then
            js_variable_declare acc.p acc.n .null
            pure (.for_in, acc)
          else if (← _accept .ts_of) then
            js_variable_declare acc.p acc.n .null
            pure (.for_of, acc)
          else
            js_throw "Unknown for loop type"
        else if (← _accept .ts_semicolon) then
          pure (.classic_for, ⟨.at_value, .undefined, [], 0⟩)
        else
          let acc ← _parse_accessor host n rec
          if (← _accept .ts_assignment) then
            _accessor_put acc (← js_parse_expression host n rec)
            _expect .ts_semicolon "Expect ;"
            pure (.classic_for, acc)
          else if (← _accept .ts_in) then
            pure (.for_in, acc)
          else if (← _accept .ts_of) then
            pure (.for_of, acc)
          else
            js_throw "Unknown for loop type" : Parse (_for_type × _value_accessor))
      if for_type = .classic_for then
        _parse_classic_for host n rec
      else
        _parse_for_in_of host n rec for_type acc
      js_stack_backward
    else if (← _accept .ts_break) then
      set_mark_break true
      _expect .ts_semicolon "Expect ;"
    else if (← _accept .ts_continue) then
      set_mark_continue true
      _expect .ts_semicolon "Expect ;"
    else if (← _get_token_state) = .ts_function then
      _expect .ts_function "Expect 'function'"
      if (← _get_token_state) ≠ .ts_identifier then
        js_throw "Expect function name"
      let ident_h ← _get_token_head
      let ident_len ← _get_token_length
      _next_token
      js_variable_declare ident_h ident_len (← js_function (← js_get).tok_cache_idx)
      -- only walk through, no exec
      set_parse_exec false
      _parse_function n rec
      set_parse_exec true
    else if (← _accept .ts_return) then
      if !(← _accept .ts_semicolon) then
        set_result (← js_parse_expression host n rec)
        _expect .ts_semicolon "Expect ;"
      set_mark_return true
    else if (← _accept .ts_delete) then
      if (← _get_token_state) = .ts_identifier then
        js_variable_erase (← _get_token_head) (← _get_token_length)
      else
        js_throw "Expect identifier"
      _next_token
      _expect .ts_semicolon "Expect ;"
    else if (← _get_token_state) = .ts_let then
      _parse_declaration_expression host n rec
      _expect .ts_semicolon "Expect ;"
    else
      _parse_assignment_expression host n rec
      _expect .ts_semicolon "Expect ;"
  else
    if (← _accept .ts_semicolon) then
      pure ()
    else if (← _accept .ts_left_brace) then
      _parse_statements n rec
      _next_token
    else if (← _accept .ts_if) then
      _expect .ts_left_parenthesis "Expect ("
      let _ ← js_parse_expression host n rec
      _expect .ts_right_parenthesis "Expect )"
      rec._parse_statement
      if (← _accept .ts_else) then
        rec._parse_statement
    else if (← _accept .ts_while) then
      _expect .ts_left_parenthesis "Expect ("
      let _ ← js_parse_expression host n rec
      _expect .ts_right_parenthesis "Expect )"
      rec._parse_statement
    else if (← _accept .ts_do) then
      rec._parse_statement
      _expect .ts_while "Expect while"
      _expect .ts_left_parenthesis "Expect ("
      let _ ← js_parse_expression host n rec
      _expect .ts_right_parenthesis "Expect )"
      _expect .ts_semicolon "Expect ;"
    else if (← _accept .ts_for) then
      _expect .ts_left_parenthesis "Expect ("
      let for_type ← (do
        if (← _accept .ts_let) then
          _expect .ts_identifier "Expect identifier"
          if (← _accept .ts_assignment) then
            let _ ← js_parse_expression host n rec
            _expect .ts_semicolon "Expect ;"
            pure .classic_for
          else if (← _accept .ts_in) then
            pure .for_in
          else if (← _accept .ts_of) then
            pure .for_of
          else
            js_throw "Unknown for loop type"
        else if (← _accept .ts_semicolon) then
          pure .classic_for
        else
          let _ ← _parse_accessor host n rec
          if (← _accept .ts_assignment) then
            let _ ← js_parse_expression host n rec
            _expect .ts_semicolon "Expect ;"
            pure .classic_for
          else if (← _accept .ts_in) then
            pure .for_in
          else if (← _accept .ts_of) then
            pure .for_of
          else
            js_throw "Unknown for loop type" : Parse _for_type)
      if for_type = .classic_for then
        if !(← _accept .ts_semicolon) then
          let _ ← js_parse_expression host n rec
          _expect .ts_semicolon "Expect ;"
        if !(← _accept .ts_right_parenthesis) then
          _parse_assignment_expression host n rec
          _expect .ts_right_parenthesis "Expect )"
        rec._parse_statement
      else
        let _ ← _parse_access_call_expression host n rec
        _expect .ts_right_parenthesis "Expect )"
        rec._parse_statement
    else if (← _accept .ts_break) then
      _expect .ts_semicolon "Expect ;"
    else if (← _accept .ts_continue) then
      _expect .ts_semicolon "Expect ;"
    else if (← _get_token_state) = .ts_function then
      _expect .ts_function "Expect 'function'"
      _expect .ts_identifier "Expect function name"
      _parse_function n rec
    else if (← _accept .ts_return) then
      if !(← _accept .ts_semicolon) then
        let _ ← js_parse_expression host n rec
        _expect .ts_semicolon "Expect ;"
    else if (← _accept .ts_delete) then
      _expect .ts_identifier "Expect identifier"
      _expect .ts_semicolon "Expect ;"
    else if (← _get_token_state) = .ts_let then
      _parse_declaration_expression host n rec
      _expect .ts_semicolon "Expect ;"
    else
      _parse_assignment_expression host n rec
      _expect .ts_semicolon "Expect ;"

/-- The forward-declared functions with `n` levels of recursion available. -/
def parsers (host : Host) : Nat → Parsers
  | 0 => ⟨js_stop .out_of_fuel, js_stop .out_of_fuel, js_stop .out_of_fuel⟩
  | n + 1 =>
    ⟨_parse_statement host n (parsers host n),
     _parse_additive_expression host n (parsers host n),
     js_parse_expression host n (parsers host n)⟩

/-- C `js_parse_script` (lines 1250–1254). -/
def js_parse_script (host : Host) (n : Nat) : Parse Unit :=
  js_loop (fun (_ : Unit) => do
    if (← _get_token_state) ≠ .ts_end_of_file then
      _parse_statement host n (parsers host n)
      pure (.inl ())
    else
      pure (.inr ())) n ()

/-! ## Writing down programs

The scanner is an external collaborator of `js-parser.c`.  The definitions of this
section serve only to write the token arrays of example programs from their text. -/

/-- Modelled from the spec: the keyword kinds of the scanner contract. -/
def scan_keyword (w : Bytes) : js_token_state :=
  if w = sz "null" then .ts_null else if w = sz "true" then .ts_true
  else if w = sz "false" then .ts_false else if w = sz "function" then .ts_function
  else if w = sz "let" then .ts_let else if w = sz "if" then .ts_if
  else if w = sz "else" then .ts_else else if w = sz "while" then .ts_while
  else if w = sz "do" then .ts_do else if w = sz "for" then .ts_for
  else if w = sz "in" then .ts_in else if w = sz "of" then .ts_of
  else if w = sz "break" then .ts_break else if w = sz "continue" then .ts_continue
  else if w = sz "return" then .ts_return else if w = sz "delete" then .ts_delete
  else if w = sz "typeof" then .ts_typeof else .ts_identifier

/-- Modelled from the spec: the punctuation kinds of the scanner contract,
longest first. -/
def scan_punctuation : List (Bytes × js_token_state) :=
  [(sz "...", .ts_spread), (sz "?.", .ts_optional_chaining),
   (sz "+=", .ts_plus_assignment), (sz "-=", .ts_minus_assignment),
   (sz "*=", .ts_multiplication_assignment), (sz "/=", .ts_division_assignment),
   (sz "%=", .ts_mod_assignment), (sz "++", .ts_plus_plus), (sz "--", .ts_minus_minus),
   (sz "==", .ts_equal_to), (sz "!=", .ts_not_equal_to),
   (sz "<=", .ts_less_than_or_equal_to), (sz ">=", .ts_greater_than_or_equal_to),
   (sz "&&", .ts_and), (sz "||", .ts_or),
   (sz "[", .ts_left_bracket), (sz "]", .ts_right_bracket),
   (sz "\x7b", .ts_left_brace), (sz "\x7d", .ts_right_brace),
   (sz "(", .ts_left_parenthesis), (sz ")", .ts_right_parenthesis),
   (sz ",", .ts_comma), (sz ";", .ts_semicolon), (sz ":", .ts_colon),
   (sz "?", .ts_question), (sz ".", .ts_member_access), (sz "=", .ts_assignment),
   (sz "+", .ts_plus), (sz "-", .ts_minus), (sz "*", .ts_multiplication),
   (sz "/", .ts_division), (sz "%", .ts_mod), (sz "<", .ts_less_than),
   (sz ">", .ts_greater_than), (sz "!", .ts_not)]

/-- Whether a byte can be part of an identifier. -/
def scan_is_word (c : Nat) : Bool :=
  (97 ≤ c && c ≤ 122) || (65 ≤ c && c ≤ 90) || (48 ≤ c && c ≤ 57) || c = 95

/-- Whether a byte is a decimal digit. -/
def scan_is_digit (c : Nat) : Bool := 48 ≤ c && c ≤ 57

/-- The natural number written by a run of decimal digits. -/
def scan_digits (ds : Bytes) : Nat := ds.foldl (fun a d => 10 * a + (d - 48)) 0

/-- Modelled from the spec: the scanner, reduced to what the example programs
use: identifiers and keywords, unsigned decimal numbers, double-quoted strings
without escapes, punctuation and blanks.  `pos` is the offset of `rest` in the
source. -/
def scan_loop : Nat → Bytes → Nat → List js_token
  | 0, _, _ => []
  | _ + 1, [], _ => []
  | fuel + 1, c :: cs, pos =>
    if scan_is_digit c then
      let ds := (c :: cs).takeWhile scan_is_digit
      let rest := (c :: cs).drop ds.length
      match rest with
      | 46 :: rest1 =>
        let fs := rest1.takeWhile scan_is_digit
        let len := ds.length + 1 + fs.length
        ⟨.ts_number, pos, pos + len, 1,
          (scan_digits ds : ℚ) + (scan_digits fs : ℚ) / (10 ^ fs.length : ℚ)⟩
          :: scan_loop fuel (rest1.drop fs.length) (pos + len)
      | _ => ⟨.ts_number, pos, pos + ds.length, 1, (scan_digits ds : ℚ)⟩
          :: scan_loop fuel rest (pos + ds.length)
    else if scan_is_word c then
      let w := (c :: cs).takeWhile scan_is_word
      ⟨scan_keyword w, pos, pos + w.length, 1, 0⟩
        :: scan_loop fuel ((c :: cs).drop w.length) (pos + w.length)
    else if c = 34 then
      let body := cs.takeWhile fun d => d ≠ 34
      ⟨.ts_string, pos, pos + body.length + 2, 1, 0⟩
        :: scan_loop fuel (cs.drop (body.length + 1)) (pos + body.length + 2)
    else
      match scan_punctuation.find? fun x => x.1.isPrefixOf (c :: cs) with
      | some (w, stat) =>
        ⟨stat, pos, pos + w.length, 1, 0⟩
          :: scan_loop fuel ((c :: cs).drop w.length) (pos + w.length)
      | none => scan_loop fuel cs (pos + 1)

/-- The token array of a program text. -/
def js_scan (src : String) : List js_token := scan_loop (sz src).length (sz src) 0

/-- The state before a run: the program scanned, the cursor at the first token,
execute mode, no flag set, an empty heap, the global frame alone on the scope
stack (with an empty parameter buffer) and an undefined result slot. -/
def js_load (src : String) : js :=
  { src := sz src, tok_cache := js_scan src, tok_cache_idx := 0, parse_exec := true,
    mark_break := false, mark_continue := false, mark_return := false, heap := [],
    stack := [⟨0, 0, [], []⟩], result := .undefined }

/-- A run without host callables: every host identity fails as not callable. -/
def no_host : Host := fun _ _ => .error (.throw "Must be function")

/-- The value bound to a variable name in a state, searching the frames top-down. -/
def js.var (s : js) (name : String) : Option js_value := stack_fetch s.stack (sz name)

/-- The state in which a run ended, if it returned. -/
def js_final {α : Type} (r : Except js_error (α × js)) : Option js :=
  match r with
  | .ok (_, s) => some s
  | .error _ => none

/-- The value with which a run ended, if it returned. -/
def js_value_of {α : Type} (r : Except js_error (α × js)) : Option α :=
  match r with
  | .ok (a, _) => some a
  | .error _ => none

/-- The error with which a run stopped, if it did not return. -/
def js_error_of {α : Type} (r : Except js_error (α × js)) : Option js_error :=
  match r with
  | .ok _ => none
  | .error e => some e

/-! ## Relations between the state before and after a run -/

/-- A reflexive and transitive relation between the state before a run and the
state after it. -/
structure Rel where
  r : js → js → Prop
  refl : ∀ s, r s s
  trans : ∀ a b c, r a b → r b c → r a c

/-- Every normal return of `m` relates the state before and the state after by `R`. -/
structure Pres {α : Type} (R : Rel) (m : Parse α) : Prop where
  run : ∀ s a s1, m s = .ok (a, s1) → R.r s s1

/-- Every normal return of `m` yields a value in `V`. -/
structure Yields {α : Type} (V : α → Prop) (m : Parse α) : Prop where
  run : ∀ s a s1, m s = .ok (a, s1) → V a

/-- The three forward-declared functions preserve a relation. -/
structure Parsers.Pres (R : Rel) (rec : Parsers) : Prop where
  statement : BananaJs.Pres R rec._parse_statement
  additive : BananaJs.Pres R rec._parse_additive_expression
  expression : BananaJs.Pres R rec.js_parse_expression

/-- The value `_require_exec` computes in a state. -/
def js.exec (s : js) : Bool :=
  s.parse_exec && !s.mark_break && !s.mark_continue && !s.mark_return

/-- From a state in skim mode, nothing but the cursor differs afterwards. -/
def skim_rel : Rel where
  r s s1 := s.exec = false → s1 = { s with tok_cache_idx := s1.tok_cache_idx }
  refl _ := fun _ => rfl
  trans a b c hab hbc := by
    intro ha
    have h1 := hab ha
    have hb : b.exec = false := by rw [h1]; exact ha
    have h2 := hbc hb
    rw [h2, h1]

/-! ## Running example programs -/

deriving instance DecidableEq for Except

/-- Run `k` statements in a row. -/
def js_run (host : Host) (n : Nat) : Nat → Parse Unit
  | 0 => pure ()
  | k + 1 => do
    _parse_statement host n (parsers host n)
    js_run host n k

/-- Run `k` statements, then evaluate the expression at the cursor. -/
def js_eval_after (host : Host) (n k : Nat) : Parse js_value := do
  js_run host n k
  js_parse_expression host n (parsers host n)

/-- Overwrite the numbers of the numeric tokens, in order, by the given ones. -/
def js_set_numbers : List js_token → List ℚ → List js_token
  | [], _ => []
  | t :: ts, [] => t :: ts
  | t :: ts, x :: xs =>
    if t.stat = .ts_number then { t with num := x } :: js_set_numbers ts xs
    else t :: js_set_numbers ts (x :: xs)

/-- The state before a run of a program whose numeric literals have the given
values (the text of the literals is not read by the parser). -/
def js_load_with (src : String) (nums : List ℚ) : js :=
  { js_load src with tok_cache := js_set_numbers (js_scan src) nums }

/-- The counter program of the closure-capture property. -/
def closure_counter_src : String :=
  "let f = (function(){ let x = 0; return function(){ x += 1; return x; }; })(); f(); f(); f();"

/-- A classic `for` whose initialiser calls a function that executes `break`. -/
def for_init_break_src : String :=
  "function f(){ break; } for (let x = f(); ; ) ; let y = 1;"

/-- A statement to skim, in a state with `parse_exec` false. -/
def skim_example : js :=
  { js_load "x = [1, f(2), {a: y.z}] + (function(p){ return p; })(3); let q = 1;" with
    parse_exec := false }

/-- The state of `function f(){ return 5; } f()` when the arguments of the call
`f()` have been parsed: the call frame is on the stack and the cursor is after `)`. -/
def call_example : js :=
  { js_load "function f(){ return 5; } f()" with
    tok_cache_idx := 12
    heap := [.function 2 []]
    stack := [⟨27, 28, [], []⟩, ⟨0, 0, [(sz "f", .function 0)], []⟩] }

/-- A state at the end of a call whose callee left a function value in the result
slot: the call frame binds `x` and `y`, the function's closure holds an older `x`. -/
def capture_example : js :=
  { js_load "" with
    heap := [.function 3 [(sz "x", .number 0), (sz "w", .number 9)]]
    stack := [⟨0, 0, [(sz "x", .number 1), (sz "y", .number 2)], []⟩, ⟨0, 0, [], []⟩]
    result := .function 0 }

/-! ## Footprints and invariants -/

/-- Nothing but the cursor differs. -/
def cursor_rel : Rel where
  r s s1 := s1 = { s with tok_cache_idx := s1.tok_cache_idx }
  refl _ := rfl
  trans a b c hab hbc := by rw [hbc, hab]

/-- Nothing but the heap and the frames differs, and the frames keep their
parameter buffers. -/
def store_rel : Rel where
  r s s1 := s1 = { s with heap := s1.heap, stack := s1.stack } ∧
    s1.stack.map (fun fr => fr.params) = s.stack.map (fun fr => fr.params)
  refl _ := ⟨rfl, rfl⟩
  trans a b c hab hbc := by
    refine ⟨?_, hbc.2.trans hab.2⟩
    rw [hbc.1, hab.1]

/-- Nothing but `parse_exec`, the three flags and the result slot differs. -/
def flags_rel : Rel where
  r s s1 := s1 =
    { s with
      parse_exec := s1.parse_exec
      mark_break := s1.mark_break
      mark_continue := s1.mark_continue
      mark_return := s1.mark_return
      result := s1.result }
  refl _ := rfl
  trans a b c hab hbc := by rw [hbc, hab]

/-- Nothing differs. -/
def same_rel : Rel where
  r s s1 := s1 = s
  refl _ := rfl
  trans a b c hab hbc := by rw [hbc, hab]

/-- A primitive that reads the state only. -/
class ReadOnly {α : Type} (m : Parse α) : Prop where
  pres : Pres same_rel m

/-- A primitive that changes at most the cursor. -/
class CursorOnly {α : Type} (m : Parse α) : Prop where
  pres : Pres cursor_rel m

/-- A primitive that changes at most the heap and the variables of the frames. -/
class StoreOnly {α : Type} (m : Parse α) : Prop where
  pres : Pres store_rel m

/-- A primitive that changes at most `parse_exec`, the flags and the result slot. -/
class FlagsOnly {α : Type} (m : Parse α) : Prop where
  pres : Pres flags_rel m

/-- From a state in `A`, every normal return of `m` ends in a state in `B`. -/
structure Triple {α : Type} (A : js → Prop) (m : Parse α) (B : js → Prop) : Prop where
  run : ∀ s a s1, A s → m s = .ok (a, s1) → B s1

/-- What a function `g` of the parameter buffer sees in each frame, top first. -/
def js.frames {X : Type} (g : List js_value → X) (s : js) : List X :=
  s.stack.map fun fr => g fr.params

/-- The frames show `t`. -/
def Keeps {X : Type} (g : List js_value → X) (t : List X) (s : js) : Prop := s.frames g = t

/-- One frame is on top of frames that show `t`. -/
def KeepsBelow {X : Type} (g : List js_value → X) (t : List X) (s : js) : Prop :=
  ∃ x, s.frames g = x :: t

/-- The three forward-declared functions return with the frames as they found them. -/
structure Parsers.Keeps {X : Type} (g : List js_value → X) (rec : Parsers) : Prop where
  statement : ∀ t, Triple (BananaJs.Keeps g t) rec._parse_statement (BananaJs.Keeps g t)
  additive : ∀ t, Triple (BananaJs.Keeps g t) rec._parse_additive_expression (BananaJs.Keeps g t)
  expression : ∀ t, Triple (BananaJs.Keeps g t) rec.js_parse_expression (BananaJs.Keeps g t)

/-- A host callable returns with its call frame on top of the frames it was called
with, and these show what they showed. -/
structure HostKeeps {X : Type} (g : List js_value → X) (host : Host) : Prop where
  run : ∀ c t, Triple (KeepsBelow g t) (js_call_cfunction host c) (KeepsBelow g t)

/-- The result slot holds `undefined` unless `mark_return` is set. -/
def Clean (s : js) : Prop := s.mark_return = false → s.result = .undefined

/-- Every state. -/
def Any (_ : js) : Prop := True

/-- The three forward-declared functions return with the result slot `undefined`
unless `mark_return` is set, when they are entered so. -/
structure Parsers.Clean (rec : Parsers) : Prop where
  statement : Triple BananaJs.Clean rec._parse_statement BananaJs.Clean
  additive : Triple BananaJs.Clean rec._parse_additive_expression BananaJs.Clean
  expression : Triple BananaJs.Clean rec.js_parse_expression BananaJs.Clean

/-- An example host callable: it yields the number of its arguments. -/
def count_host : Host := fun _ s =>
  match s.stack with
  | [] => .error .out_of_range
  | fr :: _ => .ok { s with result := .number fr.params.length }

/-- The state before a run of a program that calls the host callable `count`,
bound in the global frame. -/
def count_example : js :=
  { js_load "{ let n = count(1, 2); } let m = count(3); return m;" with
    stack := [⟨0, 0, [(sz "count", .cfunction 0)], []⟩] }

/-- The program of the closure-independence property. -/
def closure_pair_src : String :=
  "let mk = function(n){ return function(){ return n; }; }; let f = mk(7); let g = mk(9); f() + g()"

/-- The token array of `closure_pair_src`, with the numbers `a` and `b` in place of
its two numeric literals. -/
def closure_pair_tokens (a b : ℚ) : List js_token :=
  [⟨.ts_let, 0, 3, 1, 0⟩, ⟨.ts_identifier, 4, 6, 1, 0⟩, ⟨.ts_assignment, 7, 8, 1, 0⟩,
   ⟨.ts_function, 9, 17, 1, 0⟩, ⟨.ts_left_parenthesis, 17, 18, 1, 0⟩,
   ⟨.ts_identifier, 18, 19, 1, 0⟩, ⟨.ts_right_parenthesis, 19, 20, 1, 0⟩,
   ⟨.ts_left_brace, 20, 21, 1, 0⟩, ⟨.ts_return, 22, 28, 1, 0⟩, ⟨.ts_function, 29, 37, 1, 0⟩,
   ⟨.ts_left_parenthesis, 37, 38, 1, 0⟩, ⟨.ts_right_parenthesis, 38, 39, 1, 0⟩,
   ⟨.ts_left_brace, 39, 40, 1, 0⟩, ⟨.ts_return, 41, 47, 1, 0⟩, ⟨.ts_identifier, 48, 49, 1, 0⟩,
   ⟨.ts_semicolon, 49, 50, 1, 0⟩, ⟨.ts_right_brace, 51, 52, 1, 0⟩,
   ⟨.ts_semicolon, 52, 53, 1, 0⟩, ⟨.ts_right_brace, 54, 55, 1, 0⟩,
   ⟨.ts_semicolon, 55, 56, 1, 0⟩, ⟨.ts_let, 57, 60, 1, 0⟩, ⟨.ts_identifier, 61, 62, 1, 0⟩,
   ⟨.ts_assignment, 63, 64, 1, 0⟩, ⟨.ts_identifier, 65, 67, 1, 0⟩,
   ⟨.ts_left_parenthesis, 67, 68, 1, 0⟩, ⟨.ts_number, 68, 69, 1, a⟩,
   ⟨.ts_right_parenthesis, 69, 70, 1, 0⟩, ⟨.ts_semicolon, 70, 71, 1, 0⟩,
   ⟨.ts_let, 72, 75, 1, 0⟩, ⟨.ts_identifier, 76, 77, 1, 0⟩, ⟨.ts_assignment, 78, 79, 1, 0⟩,
   ⟨.ts_identifier, 80, 82, 1, 0⟩, ⟨.ts_left_parenthesis, 82, 83, 1, 0⟩,
   ⟨.ts_number, 83, 84, 1, b⟩, ⟨.ts_right_parenthesis, 84, 85, 1, 0⟩,
   ⟨.ts_semicolon, 85, 86, 1, 0⟩, ⟨.ts_identifier, 87, 88, 1, 0⟩,
   ⟨.ts_left_parenthesis, 88, 89, 1, 0⟩, ⟨.ts_right_parenthesis, 89, 90, 1, 0⟩,
   ⟨.ts_plus, 91, 92, 1, 0⟩, ⟨.ts_identifier, 93, 94, 1, 0⟩,
   ⟨.ts_left_parenthesis, 94, 95, 1, 0⟩, ⟨.ts_right_parenthesis, 95, 96, 1, 0⟩]

/-- The bytes of `closure_pair_src`. -/
def closure_pair_bytes : Bytes :=
  [108, 101, 116, 32, 109, 107, 32, 61, 32, 102, 117, 110, 99, 116, 105, 111, 110, 40, 110, 41,
   123, 32, 114, 101, 116, 117, 114, 110, 32, 102, 117, 110, 99, 116, 105, 111, 110, 40, 41,
   123, 32, 114, 101, 116, 117, 114, 110, 32, 110, 59, 32, 125, 59, 32, 125, 59, 32, 108, 101,
   116, 32, 102, 32, 61, 32, 109, 107, 40, 55, 41, 59, 32, 108, 101, 116, 32, 103, 32, 61, 32,
   109, 107, 40, 57, 41, 59, 32, 102, 40, 41, 32, 43, 32, 103, 40, 41]

/-- A state of a run of `closure_pair_src` between two statements: the cursor, the
heap and the variables of the global frame. -/
def closure_pair_state (a b : ℚ) (idx : Nat) (heap : List js_managed) (vars : js_value_map) :
    js :=
  { src := closure_pair_bytes, tok_cache := closure_pair_tokens a b, tok_cache_idx := idx,
    parse_exec := true, mark_break := false, mark_continue := false, mark_return := false,
    heap := heap, stack := [⟨0, 0, vars, []⟩], result := .undefined }

/-- Run `k` statements, then evaluate the call expression at the cursor. -/
def js_call_after (host : Host) (n k : Nat) : Parse js_value := do
  js_run host n k
  _parse_access_call_expression host n (parsers host n)


/-- The state after the keyword of the statement `while (true) { break; }`. -/
def while_break_example : js :=
  { js_load "while (true) { break; }" with tok_cache_idx := 1 }

/-- The state has `parse_exec` set. -/
def ExecOn (s : js) : Prop := s.parse_exec = true

/-- The three forward-declared functions return with `parse_exec` set when they
are entered so. -/
structure Parsers.ExecOn (rec : Parsers) : Prop where
  statement : Triple BananaJs.ExecOn rec._parse_statement BananaJs.ExecOn
  additive : Triple BananaJs.ExecOn rec._parse_additive_expression BananaJs.ExecOn
  expression : Triple BananaJs.ExecOn rec.js_parse_expression BananaJs.ExecOn

/-- A host callable returns with `parse_exec` set when it is called so. -/
structure HostExecOn (host : Host) : Prop where
  run : ∀ c, Triple ExecOn (js_call_cfunction host c) ExecOn

/-- A run over the operands that follow the first one in a chain of `&&` and `||`,
from the state after the first operand: for each, the operator under the cursor, the
boolean the operand `R`, parsed from the token after the operator, yields, and the
state it leaves; after the last one no `&&` or `||` follows. -/
def logical_chain (R : Parse js_value) : js → List (js_token_state × Bool × js) → Prop
  | s, [] => _get_token_state s ≠ .ok (.ts_and, s) ∧ _get_token_state s ≠ .ok (.ts_or, s)
  | s, (op, r, s1) :: rest =>
    (op = .ts_and ∨ op = .ts_or) ∧ _get_token_state s = .ok (op, s) ∧
    R { s with tok_cache_idx := s.tok_cache_idx + 1 } = .ok (.boolean r, s1) ∧
    logical_chain R s1 rest

/-- The value of a chain of `&&` and `||`, folded from the left. -/
def logical_chain_value : Bool → List (js_token_state × Bool × js) → Bool
  | a, [] => a
  | a, (op, r, _) :: rest =>
    logical_chain_value (if op = .ts_and then a && r else a || r) rest

/-- The state after the last operand of a chain. -/
def logical_chain_end : js → List (js_token_state × Bool × js) → js
  | s, [] => s
  | _, (_, _, s1) :: rest => logical_chain_end s1 rest

/-- One round of a `do` loop whose body starts at token `b`, from state `s`: the
body leaves the state `r.1`; then, `mark_continue` cleared, `while` and `(` follow,
the condition yields the value `r.2.1`, undefined or a boolean, and leaves the state
`r.2.2`, where `)` follows. -/
def do_while_round (body : Parse Unit) (cond : Parse js_value) (b : Nat) (s : js)
    (r : js × js_value × js) : Prop :=
  body { s with tok_cache_idx := b } = .ok ((), r.1) ∧
  _get_token_state { r.1 with mark_continue := false }
    = .ok (.ts_while, { r.1 with mark_continue := false }) ∧
  _get_token_state { r.1 with mark_continue := false, tok_cache_idx := r.1.tok_cache_idx + 1 }
    = .ok (.ts_left_parenthesis,
        { r.1 with mark_continue := false, tok_cache_idx := r.1.tok_cache_idx + 1 }) ∧
  cond { r.1 with mark_continue := false, tok_cache_idx := r.1.tok_cache_idx + 2 }
    = .ok (r.2.1, r.2.2) ∧
  (r.2.1.type = .vt_undefined ∨ r.2.1.type = .vt_boolean) ∧
  _get_token_state r.2.2 = .ok (.ts_right_parenthesis, r.2.2)

/-- The test `cond.type != 0 && cond.value.boolean && !pjs->mark_break` of line 981
after a round. -/
def do_while_again (r : js × js_value × js) : Prop :=
  r.2.1 = .boolean true ∧ r.2.2.mark_break = false

/-- The rounds of a `do` loop, at least one: every round but the last passes the
test of line 981, the last one fails it. -/
def do_while_rounds (body : Parse Unit) (cond : Parse js_value) (b : Nat) :
    js → List (js × js_value × js) → Prop
  | _, [] => False
  | s, [r] => do_while_round body cond b s r ∧ ¬ do_while_again r
  | s, r :: r1 :: rest =>
    do_while_round body cond b s r ∧ do_while_again r ∧
    do_while_rounds body cond b { r.2.2 with tok_cache_idx := r.2.2.tok_cache_idx + 1 } (r1 :: rest)

/-- The state after the `)` of the last round. -/
def do_while_exit : js → List (js × js_value × js) → js
  | s, [] => s
  | _, [r] => { r.2.2 with tok_cache_idx := r.2.2.tok_cache_idx + 1 }
  | _, r :: r1 :: rest =>
    do_while_exit { r.2.2 with tok_cache_idx := r.2.2.tok_cache_idx + 1 } (r1 :: rest)

/-- The state before the expression `true ? 1 : 2`. -/
def ternary_example : js := js_load "true ? 1 : 2"

/-- The state before the expression `true && false || true`. -/
def logical_example : js := js_load "true && false || true"

/-- The state before the expression `null == null`. -/
def equality_example : js := js_load "null == null"

/-- The state after the keyword of the statement `do { break; } while (zzz);`. -/
def do_break_example : js :=
  { js_load "do { break; } while (zzz);" with tok_cache_idx := 1 }

/-- Lines 105–127 of `_parse_function`: the formal parameter, not a rest parameter,
at position `i` in execute mode, from its name to the `,` or `)` after it. -/
def _parse_formal (rec : Parsers) (i : Nat) : Parse (Nat ⊕ Unit) := do
  if (← _get_token_state) ≠ .ts_identifier then
    js_throw "Expect variable name"
  let ident_h ← _get_token_head
  let ident_len ← _get_token_length
  _next_token
  if (← _accept .ts_assignment) then
    js_variable_declare ident_h ident_len (← rec.js_parse_expression)
  else
    js_variable_declare ident_h ident_len .null
  let param ← js_parameter_get i
  if param.type ≠ .vt_null then
    js_variable_assign ident_h ident_len param
  if (← _accept .ts_comma) then
    pure (.inl (i + 1))
  else if (← _accept .ts_right_parenthesis) then
    pure (.inr ())
  else
    js_throw "Expect , or )"

/-- Lines 88–130 of `_parse_function`: the formal parameters in execute mode, from
the `(` on. -/
def _parse_formals (n : Nat) (rec : Parsers) : Parse Unit := do
  _expect .ts_left_parenthesis "Expect ("
  if !(← _accept .ts_right_parenthesis) then
    js_loop (fun (i : Nat) => do
      if (← _accept .ts_spread) then
        -- rest parameters
        if (← _get_token_state) ≠ .ts_identifier then
          js_throw "Expect variable name"
        let ident_h ← _get_token_head
        let ident_len ← _get_token_length
        _next_token
        let param ← js_array
        js_loop (fun (j : Nat) => do
          if j < (← js_parameter_length) then
            js_array_push param (← js_parameter_get j)
            pure (.inl (j + 1))
          else
            pure (.inr ())) n i
        js_variable_declare ident_h ident_len param
        _expect .ts_right_parenthesis "Expect )"
        pure (.inr ())
      else
        _parse_formal rec i) n 0

/-- A call `f(7)` of `function f(a = 5) ...` at the formal `a`: the cursor is on the
name, the frame of the call holds the actual 7. -/
def formal_example : js :=
  { js_load "function f(a = 5) { return a; } f(7)" with
    tok_cache_idx := 3
    stack := [⟨0, 0, [], [.number 7]⟩, ⟨0, 0, [(sz "f", .function 0)], []⟩]
    heap := [.function 2 []] }

/-- The program of the shadowing property: the inner function captures `x = 1` and
`y = 10` and has a formal named `x`. -/
def closure_shadow_src : String :=
  "let mk = function(x, y){ return function(x){ return x + y; }; }; let f = mk(1, 10); f(5)"

/-- The call `f(5)` of the shadowing program, just before the callee starts: the
frame of the call is pushed and holds the actual 5. -/
def closure_shadow_example : js :=
  { js_load closure_shadow_src with
    tok_cache_idx := 39
    stack := [⟨0, 0, [], [.number 5]⟩,
      ⟨0, 0, [(sz "mk", .function 0), (sz "f", .function 1)], []⟩]
    heap := [.function 4 [], .function 12 [(sz "x", .number 1), (sz "y", .number 10)]] }

/-- A run returns, and its value and final state satisfy `P`. -/
def Returns {α : Type} (r : Except js_error (α × js)) (P : α → js → Prop) : Prop :=
  match r with
  | .ok (a, s) => P a s
  | .error _ => False

instance Returns.decidable {α : Type} (r : Except js_error (α × js)) (P : α → js → Prop)
    [h : ∀ a s, Decidable (P a s)] : Decidable (Returns r P) :=
  match r with
  | .ok (a, s) => h a s
  | .error _ => isFalse (fun h => h)

/-- The rounds of the array loop of `_parse_for_in_of` (lines 1061–1076) from
position `i` in state `s`, the body starting at token `b`.  A round `none` passes
over a null element.  A round `some (s1, s2)` is at an element that is not null: the
loop variable is put, the index for `in` and the element for `of`, leaving `s1`, then
the body runs and leaves `s2`; when the body leaves `mark_break` set the round is the
last.  The rounds end when `i` is past the last element.  The array is read anew in
every round. -/
def for_array_rounds (body : Parse Unit) (for_type : _for_type) (acc : _value_accessor)
    (val : js_value) (b : Nat) : Nat → js → List (Option (js × js)) → Prop
  | i, s, [] =>
    Returns (js_array_cell val s) fun x _ => ¬ i < x.2.length
  | i, s, none :: rest =>
    Returns (js_array_cell val s) (fun x _ =>
      i < x.2.length ∧ (x.2.getD i .null).type = .vt_null) ∧
    for_array_rounds body for_type acc val b (i + 1) s rest
  | i, s, some (s1, s2) :: rest =>
    Returns (js_array_cell val s) (fun x _ =>
      i < x.2.length ∧ (x.2.getD i .null).type ≠ .vt_null ∧
      _accessor_put acc (if for_type = .for_in then .number (i : ℚ) else x.2.getD i .null)
        { s with tok_cache_idx := b } = .ok ((), s1)) ∧
    body s1 = .ok ((), s2) ∧
    if s2.mark_break = true then rest = []
    else for_array_rounds body for_type acc val b (i + 1) { s2 with mark_continue := false } rest

/-- The rounds of the object loop of `_parse_for_in_of` (lines 1078–1093), as
`for_array_rounds`: the loop variable takes the key as a string for `in` and the
value of the entry for `of`. -/
def for_object_rounds (body : Parse Unit) (for_type : _for_type) (acc : _value_accessor)
    (val : js_value) (b : Nat) : Nat → js → List (Option (js × js)) → Prop
  | i, s, [] =>
    Returns (js_object_cell val s) fun x _ => ¬ i < x.2.length
  | i, s, none :: rest =>
    Returns (js_object_cell val s) (fun x _ =>
      i < x.2.length ∧ (x.2.getD i ([], .null)).2.type = .vt_null) ∧
    for_object_rounds body for_type acc val b (i + 1) s rest
  | i, s, some (s1, s2) :: rest =>
    Returns (js_object_cell val s) (fun x _ =>
      i < x.2.length ∧ (x.2.getD i ([], .null)).2.type ≠ .vt_null ∧
      _accessor_put acc
        (if for_type = .for_in then
          js_string (x.2.getD i ([], .null)).1 (x.2.getD i ([], .null)).1.length
         else (x.2.getD i ([], .null)).2)
        { s with tok_cache_idx := b } = .ok ((), s1)) ∧
    body s1 = .ok ((), s2) ∧
    if s2.mark_break = true then rest = []
    else for_object_rounds body for_type acc val b (i + 1) { s2 with mark_continue := false } rest

/-- The state after the last of the rounds of a `for in` or `for of` loop. -/
def for_rounds_exit : js → List (Option (js × js)) → js
  | s, [] => s
  | s, none :: rest => for_rounds_exit s rest
  | _, some (_, s2) :: rest => for_rounds_exit { s2 with mark_continue := false } rest

/-- The number of rounds that ran the body (`loop_count`). -/
def for_rounds_count : List (Option (js × js)) → Nat
  | [] => 0
  | none :: rest => for_rounds_count rest
  | some _ :: rest => for_rounds_count rest + 1

/-- Lines 1098–1102 of `_parse_statement`: after the loop, when no round ran the
body, the body is walked through once in skim mode. -/
def for_in_of_finish (rec : Parsers) (loop_count : Nat) : Parse Unit := do
  if loop_count = 0 then -- if loop didn't happen, still should walk through loop body
    set_parse_exec false
    rec._parse_statement
    set_parse_exec true

/-- The program of the `for of` example: the sum of the values of an object. -/
def for_of_src : String :=
  "let o = {a:1, b:2}; let sum = 0; for (let v of o) { sum += v; } sum"

/-- The frames of the `for of` example when `v` and `sum` hold the given values. -/
def for_of_frames (v sum : js_value) : List js_stack_frame :=
  [⟨33, 36, [(sz "v", v)], []⟩, ⟨0, 0, [(sz "o", .object 0), (sz "sum", sum)], []⟩]

/-- The `for of` example at the container expression `o` of the loop header: the
frame of the loop is pushed and the loop variable `v` is declared in it. -/
def for_of_example : js :=
  { js_load for_of_src with
    tok_cache_idx := 23
    heap := [.object [(sz "a", .number 1), (sz "b", .number 2)]]
    stack := for_of_frames .null (.number 0) }

/-- The accessor of the loop variable `v` of the `for of` example. -/
def for_of_acc : _value_accessor :=
  ⟨.at_identifier, .undefined, (sz for_of_src).drop 42, 1⟩

/-- The program of the counting loop, here with the bound 3. -/
def for_x_src : String :=
  "let s = \"\"; for (let i = 0; i < 3; i += 1) \x7b s += \"x\"; \x7d"

/-- The token array of `for_x_src`, with the number `n` in place of the bound. -/
def for_x_tokens (n : ℚ) : List js_token :=
  [⟨.ts_let, 0, 3, 1, 0⟩, ⟨.ts_identifier, 4, 5, 1, 0⟩, ⟨.ts_assignment, 6, 7, 1, 0⟩,
   ⟨.ts_string, 8, 10, 1, 0⟩, ⟨.ts_semicolon, 10, 11, 1, 0⟩, ⟨.ts_for, 12, 15, 1, 0⟩,
   ⟨.ts_left_parenthesis, 16, 17, 1, 0⟩, ⟨.ts_let, 17, 20, 1, 0⟩,
   ⟨.ts_identifier, 21, 22, 1, 0⟩, ⟨.ts_assignment, 23, 24, 1, 0⟩,
   ⟨.ts_number, 25, 26, 1, 0⟩, ⟨.ts_semicolon, 26, 27, 1, 0⟩,
   ⟨.ts_identifier, 28, 29, 1, 0⟩, ⟨.ts_less_than, 30, 31, 1, 0⟩,
   ⟨.ts_number, 32, 33, 1, n⟩, ⟨.ts_semicolon, 33, 34, 1, 0⟩,
   ⟨.ts_identifier, 35, 36, 1, 0⟩, ⟨.ts_plus_assignment, 37, 39, 1, 0⟩,
   ⟨.ts_number, 40, 41, 1, 1⟩, ⟨.ts_right_parenthesis, 41, 42, 1, 0⟩,
   ⟨.ts_left_brace, 43, 44, 1, 0⟩, ⟨.ts_identifier, 45, 46, 1, 0⟩,
   ⟨.ts_plus_assignment, 47, 49, 1, 0⟩, ⟨.ts_string, 50, 53, 1, 0⟩,
   ⟨.ts_semicolon, 53, 54, 1, 0⟩, ⟨.ts_right_brace, 55, 56, 1, 0⟩]

/-- The bytes of `for_x_src`. -/
def for_x_bytes : Bytes :=
  [108, 101, 116, 32, 115, 32, 61, 32, 34, 34, 59, 32, 102, 111, 114, 32, 40, 108, 101, 116,
   32, 105, 32, 61, 32, 48, 59, 32, 105, 32, 60, 32, 51, 59, 32, 105, 32, 43, 61, 32, 49, 41,
   32, 123, 32, 115, 32, 43, 61, 32, 34, 120, 34, 59, 32, 125]

/-- A state of a run of the counting loop with bound `n`: the cursor, `parse_exec`
and the frames. -/
def for_x_state (n : ℚ) (idx : Nat) (exec : Bool) (stack : List js_stack_frame) : js :=
  { src := for_x_bytes, tok_cache := for_x_tokens n, tok_cache_idx := idx,
    parse_exec := exec, mark_break := false, mark_continue := false, mark_return := false,
    heap := [], stack := stack, result := .undefined }

/-- The frames of the counting loop inside the `for` statement when `i` holds `i`
and `s` holds `s`. -/
def for_x_frames (i : ℚ) (s : Bytes) : List js_stack_frame :=
  [⟨12, 15, [(sz "i", .number i)], []⟩, ⟨0, 0, [(sz "s", .string s)], []⟩]

/-- Lines 1026–1034 of `_parse_statement`: the condition of a classic `for` and the
`;` after it; an empty condition counts as true. -/
def classic_for_cond (host : Host) (n : Nat) (rec : Parsers) : Parse Bool := do
  if (← _accept .ts_semicolon) then
    pure true
  else
    let cond ← js_parse_expression host n rec
    match cond with
    | .boolean b =>
      _expect .ts_semicolon "Expect ;"
      pure b
    | _ => js_throw "Condition must be boolean"

/-- Lines 1036–1040 of `_parse_statement`: the step of a classic `for` is passed
over in skim mode, up to the `)` after it. -/
def classic_for_skim_step (host : Host) (n : Nat) (rec : Parsers) : Parse Unit := do
  set_parse_exec false -- first, skip the 3rd part
  if !(← _accept .ts_right_parenthesis) then
    _parse_assignment_expression host n rec
    _expect .ts_right_parenthesis "Expect )"

/-- Lines 1045–1047 of `_parse_statement`: the step of a classic `for`, after the
body. -/
def classic_for_step (host : Host) (n : Nat) (rec : Parsers) : Parse Unit := do
  if !(← _accept .ts_right_parenthesis) then
    _parse_assignment_expression host n rec

/-- One round of a classic `for` whose condition starts at token `b`, from state
`s`: the condition yields `r.1` and leaves `r.2.1`; the step is skimmed, leaving
`r.2.2.1`; the body runs with `parse_exec` set to the condition and leaves
`r.2.2.2.1`; then, `mark_continue` cleared and the cursor back at the step, the step
runs and leaves `r.2.2.2.2`. -/
def classic_for_round (host : Host) (n : Nat) (rec : Parsers) (b : Nat) (s : js)
    (r : Bool × js × js × js × js) : Prop :=
  classic_for_cond host n rec { s with tok_cache_idx := b } = .ok (r.1, r.2.1) ∧
  classic_for_skim_step host n rec r.2.1 = .ok ((), r.2.2.1) ∧
  rec._parse_statement { r.2.2.1 with parse_exec := r.1 } = .ok ((), r.2.2.2.1) ∧
  classic_for_step host n rec
    { r.2.2.2.1 with mark_continue := false, tok_cache_idx := r.2.1.tok_cache_idx }
    = .ok ((), r.2.2.2.2)

/-- The state after a round: the state the step left, the cursor at the end of the
body. -/
def classic_for_next (r : Bool × js × js × js × js) : js :=
  { r.2.2.2.2 with tok_cache_idx := r.2.2.2.1.tok_cache_idx }

/-- The rounds of a classic `for`: before each round the test
`parse_exec && !mark_break` of line 1024 holds, after the last it fails. -/
def classic_for_rounds (host : Host) (n : Nat) (rec : Parsers) (b : Nat) :
    js → List (Bool × js × js × js × js) → Prop
  | s, [] => (s.parse_exec && !s.mark_break) = false
  | s, r :: rest =>
    (s.parse_exec && !s.mark_break) = true ∧ classic_for_round host n rec b s r ∧
    classic_for_rounds host n rec b (classic_for_next r) rest

/-- The state after the last round. -/
def classic_for_exit : js → List (Bool × js × js × js × js) → js
  | s, [] => s
  | _, r :: rest => classic_for_exit (classic_for_next r) rest

/-- Lines 988–1021 of `_parse_statement`: the header of a `for` statement after its
`(`, up to the `;` after the initialization of a classic `for`, or up to `in` or
`of`. -/
def for_header (host : Host) (n : Nat) (rec : Parsers) : Parse (_for_type × _value_accessor) := do
  if (← _accept .ts_let) then
    let acc ← _parse_accessor host n rec
    if acc.type ≠ .at_identifier then
      js_throw "Expect identifier"
    if (← _accept .ts_assignment) then
      js_variable_declare acc.p acc.n (← js_parse_expression host n rec)
      _expect .ts_semicolon "Expect ;"
      pure (.classic_for, acc)
    else if (← _accept .ts_in) then
      js_variable_declare acc.p acc.n .null
      pure (.for_in, acc)
    else if (← _accept .ts_of) then
      js_variable_declare acc.p acc.n .null
      pure (.for_of, acc)
    else
      js_throw "Unknown for loop type"
  else if (← _accept .ts_semicolon) then
    pure (.classic_for, ⟨.at_value, .undefined, [], 0⟩)
  else
    let acc ← _parse_accessor host n rec
    if (← _accept .ts_assignment) then
      _accessor_put acc (← js_parse_expression host n rec)
      _expect .ts_semicolon "Expect ;"
      pure (.classic_for, acc)
    else if (← _accept .ts_in) then
      pure (.for_in, acc)
    else if (← _accept .ts_of) then
      pure (.for_of, acc)
    else
      js_throw "Unknown for loop type"

/-- A round of the counting loop in which the condition holds: `i` holds `k` and `s`
holds `str` before, `k + 1` and `str` with an `x` appended afterwards. -/
def for_x_round_true (n k : ℚ) (str : Bytes) : Bool × js × js × js × js :=
  (true, for_x_state n 16 true (for_x_frames k str),
    for_x_state n 20 false (for_x_frames k str),
    for_x_state n 26 true (for_x_frames k (str ++ [120])),
    for_x_state n 19 true (for_x_frames (k + 1) (str ++ [120])))

/-- The round of the counting loop in which the condition fails: body and step are
skimmed. -/
def for_x_round_false (n k : ℚ) (str : Bytes) : Bool × js × js × js × js :=
  (false, for_x_state n 16 true (for_x_frames k str),
    for_x_state n 20 false (for_x_frames k str),
    for_x_state n 26 false (for_x_frames k str),
    for_x_state n 19 false (for_x_frames k str))

/-- The rounds of the counting loop with bound `n` from the round in which `i`
holds `k`, when `j` rounds with a true condition remain. -/
def for_x_rounds (n : Nat) : Nat → Nat → List (Bool × js × js × js × js)
  | 0, k => [for_x_round_false n k (List.replicate k 120)]
  | j + 1, k => for_x_round_true n k (List.replicate k 120) :: for_x_rounds n j (k + 1)

/-- The program of the factorial property, here called with 5. -/
def fact_src : String :=
  "function fact(n) \x7b if (n <= 1) \x7b return 1; \x7d return n * fact(n - 1); \x7d fact(5)"

/-- The token array of `fact_src`, with the number `x` in place of the argument of
the call after the declaration. -/
def fact_tokens (x : ℚ) : List js_token :=
  [⟨.ts_function, 0, 8, 1, 0⟩, ⟨.ts_identifier, 9, 13, 1, 0⟩,
   ⟨.ts_left_parenthesis, 13, 14, 1, 0⟩, ⟨.ts_identifier, 14, 15, 1, 0⟩,
   ⟨.ts_right_parenthesis, 15, 16, 1, 0⟩, ⟨.ts_left_brace, 17, 18, 1, 0⟩,
   ⟨.ts_if, 19, 21, 1, 0⟩, ⟨.ts_left_parenthesis, 22, 23, 1, 0⟩,
   ⟨.ts_identifier, 23, 24, 1, 0⟩, ⟨.ts_less_than_or_equal_to, 25, 27, 1, 0⟩,
   ⟨.ts_number, 28, 29, 1, 1⟩, ⟨.ts_right_parenthesis, 29, 30, 1, 0⟩,
   ⟨.ts_left_brace, 31, 32, 1, 0⟩, ⟨.ts_return, 33, 39, 1, 0⟩,
   ⟨.ts_number, 40, 41, 1, 1⟩, ⟨.ts_semicolon, 41, 42, 1, 0⟩,
   ⟨.ts_right_brace, 43, 44, 1, 0⟩, ⟨.ts_return, 45, 51, 1, 0⟩,
   ⟨.ts_identifier, 52, 53, 1, 0⟩, ⟨.ts_multiplication, 54, 55, 1, 0⟩,
   ⟨.ts_identifier, 56, 60, 1, 0⟩, ⟨.ts_left_parenthesis, 60, 61, 1, 0⟩,
   ⟨.ts_identifier, 61, 62, 1, 0⟩, ⟨.ts_minus, 63, 64, 1, 0⟩,
   ⟨.ts_number, 65, 66, 1, 1⟩, ⟨.ts_right_parenthesis, 66, 67, 1, 0⟩,
   ⟨.ts_semicolon, 67, 68, 1, 0⟩, ⟨.ts_right_brace, 69, 70, 1, 0⟩,
   ⟨.ts_identifier, 71, 75, 1, 0⟩, ⟨.ts_left_parenthesis, 75, 76, 1, 0⟩,
   ⟨.ts_number, 76, 77, 1, x⟩, ⟨.ts_right_parenthesis, 77, 78, 1, 0⟩]

/-- The bytes of `fact_src`. -/
def fact_bytes : Bytes :=
  [102, 117, 110, 99, 116, 105, 111, 110, 32, 102, 97, 99, 116, 40, 110, 41, 32, 123, 32, 105,
   102, 32, 40, 110, 32, 60, 61, 32, 49, 41, 32, 123, 32, 114, 101, 116, 117, 114, 110, 32, 49,
   59, 32, 125, 32, 114, 101, 116, 117, 114, 110, 32, 110, 32, 42, 32, 102, 97, 99, 116, 40,
   110, 32, 45, 32, 49, 41, 59, 32, 125, 32, 102, 97, 99, 116, 40, 53, 41]

/-- A state of a run of the factorial program after the declaration of `fact`: the
cursor, `parse_exec`, `mark_return`, the result slot and the frames. -/
def fact_state (x : ℚ) (idx : Nat) (exec ret : Bool) (result : js_value)
    (stack : List js_stack_frame) : js :=
  { src := fact_bytes, tok_cache := fact_tokens x, tok_cache_idx := idx, parse_exec := exec,
    mark_break := false, mark_continue := false, mark_return := ret,
    heap := [.function 2 []], stack := stack, result := result }

/-- The frame of a call of `fact` with the actual `q`, after the formal is bound;
`h` and `t` are the bounds of the `(` of the call. -/
def fact_frame (h t : Nat) (q : ℚ) : js_stack_frame :=
  ⟨h, t, [(sz "n", .number q)], [.number q]⟩

/-- The global frame of the factorial program after the declaration. -/
def fact_global : js_stack_frame := ⟨0, 0, [(sz "fact", .function 0)], []⟩

/-- The token array of `1 + 2 * 3`, `1 * 2 + 3`, `1 - 2 - 3` and the like: three
numeric literals `a`, `b`, `c` of one character with the operators `o1` and `o2` of
one character between them. -/
def binary_tokens (o1 o2 : js_token_state) (a b c : ℚ) : List js_token :=
  [⟨.ts_number, 0, 1, 1, a⟩, ⟨o1, 2, 3, 1, 0⟩, ⟨.ts_number, 4, 5, 1, b⟩, ⟨o2, 6, 7, 1, 0⟩,
   ⟨.ts_number, 8, 9, 1, c⟩]

/-! ## Fragments of `_parse_value` and `_parse_accessor`

The rounds of the loops that `_parse_value` and `_parse_accessor` hold inline, as
functions of their own; the theorems `parse_value_array`, `parse_value_object`,
`parse_value_skim_array`, `parse_value_skim_object`, `parse_call_arguments_rounds`,
`parse_accessor_exec` and `parse_accessor_skim` tie them to the two functions. -/

/-- Lines 200–218 of `_parse_value`: one round of the loop of an array literal in
execute mode, an item (a spread or an expression) pushed onto `ret` and the `,` or
`]` after it. -/
def array_literal_round (n : Nat) (rec : Parsers) (ret : js_value) : Parse (Unit ⊕ Unit) := do
  if (← _accept .ts_spread) then
    let spread ← rec.js_parse_expression
    if spread.type ≠ .vt_array then
      js_throw "Operator ... requires array operand"
    _for_each_spread n spread fun v => js_array_push ret v
  else
    js_array_push ret (← rec.js_parse_expression)
  if (← _accept .ts_comma) then
    pure (.inl ())
  else if (← _accept .ts_right_bracket) then
    pure (.inr ())
  else
    js_throw "Expect , or ]"

/-- Lines 227–245 of `_parse_value`: one round of the loop of an object literal in
execute mode, a key, `:`, an expression put into `ret` and the `,` or closing brace
after it. -/
def object_literal_round (rec : Parsers) (ret : js_value) : Parse (Unit ⊕ Unit) := do
  let stat ← _get_token_state
  let (k, klen) ← (do
    if stat = .ts_string then
      pure ((← _get_token_string_head), (← _get_token_string_length))
    else if stat = .ts_identifier then
      pure ((← _get_token_head), (← _get_token_length))
    else
      js_throw "Expect string or identifier" : Parse (Bytes × Nat))
  _next_token
  _expect .ts_colon "Expect :"
  js_object_put ret k klen (← rec.js_parse_expression)
  if (← _accept .ts_comma) then
    pure (.inl ())
  else if (← _accept .ts_right_brace) then
    pure (.inr ())
  else
    js_throw "Expect , or \x7d"

/-- Lines 273–281 of `_parse_value`: one round of the loop of an array literal in
skim mode. -/
def skim_array_literal_round (rec : Parsers) : Parse (Unit ⊕ Unit) := do
  let _ ← _accept .ts_spread -- accept or not
  let _ ← rec.js_parse_expression
  if (← _accept .ts_comma) then
    pure (.inl ())
  else if (← _accept .ts_right_bracket) then
    pure (.inr ())
  else
    js_throw "Expect , or ]"

/-- Lines 289–301 of `_parse_value`: one round of the loop of an object literal in
skim mode. -/
def skim_object_literal_round (rec : Parsers) : Parse (Unit ⊕ Unit) := do
  let stat ← _get_token_state
  if stat ≠ .ts_string ∧ stat ≠ .ts_identifier then
    js_throw "Expect string or identifier"
  _next_token
  _expect .ts_colon "Expect :"
  let _ ← rec.js_parse_expression
  if (← _accept .ts_comma) then
    pure (.inl ())
  else if (← _accept .ts_right_brace) then
    pure (.inr ())
  else
    js_throw "Expect , or \x7d"

/-- Lines 452–469 of `_parse_accessor`: one round of the loop of a call argument
list in execute mode, an item (a spread or an expression) pushed onto the parameter
buffer and the `,` or `)` after it. -/
def call_arguments_round (n : Nat) (rec : Parsers) : Parse (Unit ⊕ Unit) := do
  if (← _accept .ts_spread) then
    let spread ← rec.js_parse_expression
    if spread.type ≠ .vt_array then
      js_throw "Operator ... requires array operand"
    _for_each_spread n spread fun v => js_parameter_push v
  else
    js_parameter_push (← rec.js_parse_expression)
  if (← _accept .ts_comma) then
    pure (.inl ())
  else if (← _accept .ts_right_parenthesis) then
    pure (.inr ())
  else
    js_throw "Expect , or )"

/-- Lines 521–529 of `_parse_accessor`: one round of the loop of a call argument
list in skim mode. -/
def skim_call_arguments_round (rec : Parsers) : Parse (Unit ⊕ Unit) := do
  let _ ← _accept .ts_spread -- accept or not
  let _ ← rec.js_parse_expression
  if (← _accept .ts_comma) then
    pure (.inl ())
  else if (← _accept .ts_right_parenthesis) then
    pure (.inr ())
  else
    js_throw "Expect , or )"

/-- Lines 391–406 of `_parse_accessor`: the primary of an accessor in execute
mode. -/
def accessor_primary (n : Nat) (rec : Parsers) : Parse _value_accessor := do
  if (← _accept .ts_left_parenthesis) then
    let v ← rec.js_parse_expression
    _expect .ts_right_parenthesis "Expect )"
    pure ⟨.at_value, v, [], 0⟩
  else if (← _get_token_state) = .ts_identifier then
    let p ← _get_token_head
    let len ← _get_token_length
    _next_token
    pure ⟨.at_identifier, .undefined, p, len⟩
  else
    let v ← _parse_value n rec
    pure ⟨.at_value, v, [], 0⟩

/-- Lines 409–424 of `_parse_accessor`: the postfix `[e]` in execute mode, after
its `[`. -/
def accessor_index (rec : Parsers) (acc : _value_accessor) :
    Parse (_value_accessor ⊕ _value_accessor) := do
  let acc := { acc with v := (← _accessor_get acc) }
  let idx ← rec._parse_additive_expression
  let acc ← (match acc.v, idx with
    | .array _, .number x =>
      if double.ne (x.to_size : Nat) x then
        js_throw "Invalid array index, must be positive integer"
      else
        pure { acc with type := .at_array_member, n := x.to_size }
    | .object _, .string str =>
      pure { acc with type := .at_object_member, p := str, n := str.length }
    | _, _ => js_throw "Must be array[number] or object[string]" : Parse _value_accessor)
  _expect .ts_right_bracket "Expect ]"
  pure (.inl acc)

/-- Lines 408–496 of `_parse_accessor`: one round of the loop over the postfixes
`[e]`, `.id`, `?.id` and `(args)` in execute mode. -/
def accessor_round (host : Host) (n : Nat) (rec : Parsers) (acc : _value_accessor) :
    Parse (_value_accessor ⊕ _value_accessor) := do
  if (← _accept .ts_left_bracket) then
    accessor_index rec acc
  else if (← _accept .ts_member_access) then
    let acc := { acc with v := (← _accessor_get acc) }
    if acc.v.type = .vt_object ∧ (← _get_token_state) = .ts_identifier then
      let p ← _get_token_head
      let len ← _get_token_length
      _next_token
      pure (.inl { acc with type := .at_object_member, p := p, n := len })
    else
      js_throw "Must be object.identifier"
  else if (← _accept .ts_optional_chaining) then
    let acc := { acc with v := (← _accessor_get acc) }
    if (← _get_token_state) = .ts_identifier then
      let p ← _get_token_head
      let len ← _get_token_length
      _next_token
      pure (.inl { acc with type := .at_optional_member, p := p, n := len })
    else
      js_throw "Must be value?.identifier"
  else if (← _get_token_state) = .ts_left_parenthesis then
    let callee ← _accessor_get acc
    _stack_forward -- record function call stack descriptor '('
    _next_token
    _parse_call_arguments n rec
    _call_callee host n rec callee
    let acc ← _call_result acc
    pure (.inl acc)
  else
    pure (.inr acc)

/-- Lines 509–535 of `_parse_accessor`: one round of the loop over the postfixes in
skim mode. -/
def skim_accessor_round (n : Nat) (rec : Parsers) : Parse (Unit ⊕ Unit) := do
  if (← _accept .ts_left_bracket) then
    let _ ← rec._parse_additive_expression
    _expect .ts_right_bracket "Expect ]"
    pure (.inl ())
  else if (← _accept .ts_member_access) then
    _expect .ts_identifier "Must be object.identifier"
    pure (.inl ())
  else if (← _accept .ts_optional_chaining) then
    _expect .ts_identifier "Must be object.identifier"
    pure (.inl ())
  else if (← _accept .ts_left_parenthesis) then
    if !(← _accept .ts_right_parenthesis) then
      js_loop (fun (_ : Unit) => skim_call_arguments_round rec) n ()
    pure (.inl ())
  else
    pure (.inr ())

/-- The program `let a = [7, 8, 9]; a[1]`. -/
def index_example_src : String := "let a = [7, 8, 9]; a[1]"

/-- The state of `index_example_src` after the declaration, with the cursor at
token `idx`. -/
def index_example (idx : Nat) : js :=
  { js_load index_example_src with
    tok_cache_idx := idx
    heap := [.array [.number 7, .number 8, .number 9]]
    stack := [⟨0, 0, [(sz "a", .array 0)], []⟩] }

/-- The program `let x = 1; x += 2;`. -/
def compound_example_src : String := "let x = 1; x += 2;"

/-- The state of `compound_example_src` after the declaration, with the cursor at
token `idx`. -/
def compound_example (idx : Nat) : js :=
  { js_load compound_example_src with
    tok_cache_idx := idx
    stack := [⟨0, 0, [(sz "x", .number 1)], []⟩] }

/-- The value of the variable `name` after a run of the program `src`. -/
def js_var_after (src name : String) : Option js_value :=
  (js_final (js_parse_script no_host 30 (js_load src))).bind fun s => s.var name

/-- Lines 90–104 of `_parse_function`: the rest formal `...name` in execute mode,
after its `...`, where `i` is the count of the formals before it. -/
def _parse_rest_formal (n : Nat) (i : Nat) : Parse (Nat ⊕ Unit) := do
  if (← _get_token_state) ≠ .ts_identifier then
    js_throw "Expect variable name"
  let ident_h ← _get_token_head
  let ident_len ← _get_token_length
  _next_token
  let param ← js_array
  js_loop (fun (j : Nat) => do
    if j < (← js_parameter_length) then
      js_array_push param (← js_parameter_get j)
      pure (.inl (j + 1))
    else
      pure (.inr ())) n i
  js_variable_declare ident_h ident_len param
  _expect .ts_right_parenthesis "Expect )"
  pure (.inr ())

/-- The program of the rest formal: two ordinary formals, then `...r`. -/
def rest_example_src : String :=
  "function f(a, b, ...r) \x7b return r; \x7d f(1, 2, 3, 4, 5)"

/-- The call `f(1, 2, 3, 4, 5)` of `rest_example_src` at the name of the rest
formal: the frame of the call holds the five actuals and the two formals bound
before. -/
def rest_example : js :=
  { js_load rest_example_src with
    tok_cache_idx := 8
    stack := [⟨0, 0, [(sz "b", .number 2), (sz "a", .number 1)],
        [.number 1, .number 2, .number 3, .number 4, .number 5]⟩,
      ⟨0, 0, [(sz "f", .function 0)], []⟩]
    heap := [.function 2 []] }

/-- The elements of the array that a run ended with as its value. -/
def js_array_of (r : Except js_error (js_value × js)) : Option (List js_value) :=
  match r with
  | .ok (.array a, s) =>
    match s.heap.get? a with
    | some (.array p) => some p
    | _ => none
  | _ => none

/-- The program of the spread property. -/
def spread_example_src : String :=
  "let xs = [1, 2, 3]; let ys = [0, ...xs, 4]; f(0, ...xs, 4)"

/-- A state of a run of `spread_example_src`: the cursor, the second heap cell (the
first one is the array `xs`) and the frames. -/
def spread_example (idx : Nat) (cell : List js_value) (stack : List js_stack_frame) : js :=
  { js_load spread_example_src with
    tok_cache_idx := idx
    heap := [.array [.number 1, .number 2, .number 3], .array cell]
    stack := stack }

/-- The array literal `[1,]` while it is read: the cursor and the elements of the
array under construction. -/
def trailing_comma_example (idx : Nat) (cell : List js_value) : js :=
  { js_load "[1,]" with
    tok_cache_idx := idx
    heap := [.array cell] }

/-- Not both of `mark_break` and `mark_continue` are set. -/
def NotBoth (s : js) : Prop := ¬ (s.mark_break = true ∧ s.mark_continue = true)

/-- The test of `_require_exec` holds: `parse_exec` is set and the three flags are
clear. -/
def Exec (s : js) : Prop := s.exec = true

/-- The three forward-declared functions return with not both of `mark_break` and
`mark_continue` set when they are entered so. -/
structure Parsers.NotBoth (rec : Parsers) : Prop where
  statement : Triple BananaJs.NotBoth rec._parse_statement BananaJs.NotBoth
  additive : Triple BananaJs.NotBoth rec._parse_additive_expression BananaJs.NotBoth
  expression : Triple BananaJs.NotBoth rec.js_parse_expression BananaJs.NotBoth

/-- A host callable returns with not both of `mark_break` and `mark_continue` set
when it is called so. -/
structure HostNotBoth (host : Host) : Prop where
  run : ∀ c, Triple NotBoth (js_call_cfunction host c) NotBoth

/-- A function that executes `break`, called in the expression of a `return`. -/
def break_then_return_src : String := "function f()\x7b break; \x7d return f();"

/-- A function that executes `continue`, called in the expression of a `return`. -/
def continue_then_return_src : String := "function f()\x7b continue; \x7d return f();"

/-- The three flags of a state: `mark_break`, `mark_continue`, `mark_return`. -/
def js.marks (s : js) : Bool × Bool × Bool := (s.mark_break, s.mark_continue, s.mark_return)

/-- An `if` whose first branch is skimmed and whose second branch holds a function
literal, which is skimmed as well. -/
def parse_exec_example_src : String :=
  "if (false) \x7b x = 1; \x7d else \x7b let f = function() \x7b \x7d; \x7d"

/-- A function whose body executes `break` outside a loop, called in a `while`. -/
def call_break_src : String :=
  "function f()\x7b break; \x7d let n = 0; while (true) \x7b f(); n += 1; \x7d"

/-- A function whose body executes `continue` outside a loop, called in a `while`. -/
def call_continue_src : String :=
  "function f()\x7b continue; \x7d let n = 0; let i = 0; while (i < 3) \x7b i += 1; f(); n += 1; \x7d"

/-- A state of the run of `function f(){ break; } f();` at the call `f()`: the
cursor, `mark_break` and the frames. -/
def call_break_example (idx : Nat) (b : Bool) (stack : List js_stack_frame) : js :=
  { js_load "function f()\x7b break; \x7d f();" with
    tok_cache_idx := idx
    mark_break := b
    heap := [.function 2 []]
    stack := stack }

/-- C `js_parser_print_error` (lines 1256–1261): what it reads from the token array
for its message, the line of the token under the cursor (`_get_token_line`) and the
kind under the cursor (`_get_token_state`); `err_file`, `err_line` and `err_msg`,
which it prints with them, are fields of their own. -/
def js_parser_print_error : Parse (Nat × js_token_state) := do
  let line ← _get_token_line
  let stat ← _get_token_state
  pure (line, stat)

/-- The program `let x = 1`, without the `;`, while it is run: the cursor and the
variables of the frame. -/
def missing_semicolon_example (idx : Nat) (vars : js_value_map) : js :=
  { js_load "let x = 1" with
    tok_cache_idx := idx
    stack := [⟨0, 0, vars, []⟩] }

/-- Lines 1025–1050 of `_parse_statement`: the `while` of a classic `for` whose
condition starts at token `b`, as the body of `js_loop`: the test of line 1025 and
one round, or the exit. -/
def classic_for_body (host : Host) (n : Nat) (rec : Parsers) (b : Nat) :
    Unit → Parse (Unit ⊕ Unit) := fun _ => do
  let s ← js_get
  if s.parse_exec && !s.mark_break then
    set_tok_cache_idx b
    let cond ← (do
      if (← _accept .ts_semicolon) then
        pure true
      else
        let cond ← js_parse_expression host n rec
        match cond with
        | .boolean b =>
          _expect .ts_semicolon "Expect ;"
          pure b
        | _ => js_throw "Condition must be boolean" : Parse Bool)
    let tok_idx_backup_2 := (← js_get).tok_cache_idx
    set_parse_exec false -- first, skip the 3rd part
    if !(← _accept .ts_right_parenthesis) then
      _parse_assignment_expression host n rec
      _expect .ts_right_parenthesis "Expect )"
    set_parse_exec cond
    rec._parse_statement
    set_mark_continue false
    let tok_idx_backup_3 := (← js_get).tok_cache_idx
    set_tok_cache_idx tok_idx_backup_2 -- then, exec the 3rd pard
    if !(← _accept .ts_right_parenthesis) then
      _parse_assignment_expression host n rec
    set_tok_cache_idx tok_idx_backup_3
    pure (.inl ())
  else
    pure (.inr ())

/-- A function whose body is a `for` without a condition that returns in its first
round, and a call of it. -/
def for_return_src : String :=
  "function f()\x7b for (;;) \x7b return 1; \x7d \x7d f();"

/-- The bytes of `for_return_src`. -/
def for_return_bytes : Bytes :=
  [102, 117, 110, 99, 116, 105, 111, 110, 32, 102, 40, 41, 123, 32, 102, 111, 114, 32, 40, 59,
   59, 41, 32, 123, 32, 114, 101, 116, 117, 114, 110, 32, 49, 59, 32, 125, 32, 125, 32, 102, 40,
   41, 59]

/-- The token array of `for_return_src`. -/
def for_return_tokens : List js_token :=
  [⟨.ts_function, 0, 8, 1, 0⟩, ⟨.ts_identifier, 9, 10, 1, 0⟩,
   ⟨.ts_left_parenthesis, 10, 11, 1, 0⟩, ⟨.ts_right_parenthesis, 11, 12, 1, 0⟩,
   ⟨.ts_left_brace, 12, 13, 1, 0⟩, ⟨.ts_for, 14, 17, 1, 0⟩,
   ⟨.ts_left_parenthesis, 18, 19, 1, 0⟩, ⟨.ts_semicolon, 19, 20, 1, 0⟩,
   ⟨.ts_semicolon, 20, 21, 1, 0⟩, ⟨.ts_right_parenthesis, 21, 22, 1, 0⟩,
   ⟨.ts_left_brace, 23, 24, 1, 0⟩, ⟨.ts_return, 25, 31, 1, 0⟩,
   ⟨.ts_number, 32, 33, 1, 1⟩, ⟨.ts_semicolon, 33, 34, 1, 0⟩,
   ⟨.ts_right_brace, 35, 36, 1, 0⟩, ⟨.ts_right_brace, 37, 38, 1, 0⟩,
   ⟨.ts_identifier, 39, 40, 1, 0⟩, ⟨.ts_left_parenthesis, 40, 41, 1, 0⟩,
   ⟨.ts_right_parenthesis, 41, 42, 1, 0⟩, ⟨.ts_semicolon, 42, 43, 1, 0⟩]

/-- A state of the run of `for_return_src` after the declaration of `f`: the cursor,
`parse_exec`, `mark_return`, the result slot and the frames. -/
def for_return_state (idx : Nat) (exec ret : Bool) (result : js_value)
    (stack : List js_stack_frame) : js :=
  { src := for_return_bytes, tok_cache := for_return_tokens, tok_cache_idx := idx,
    parse_exec := exec, mark_break := false, mark_continue := false, mark_return := ret,
    heap := [.function 2 []], stack := stack, result := result }

/-- The frames inside the `for` of `f` during the call: the frame of the `for`, the
frame of the call and the global frame. -/
def for_return_frames : List js_stack_frame :=
  [⟨14, 17, [], []⟩, ⟨40, 41, [], []⟩, ⟨0, 0, [(sz "f", .function 0)], []⟩]

/-- The number of tokens from the cursor to the end of the token array. -/
def js.remaining (s : js) : Nat := s.tok_cache.length - s.tok_cache_idx

/-- From a state in skim mode, a normal return of `m` leaves the state as it was but
for the cursor, which is not before where it was; and with fewer than `d` tokens
from the cursor to the end, `m` does not run into the iteration bound. -/
structure Skims {α : Type} (d : Nat) (m : Parse α) : Prop where
  run : ∀ s a s1, s.exec = false → m s = .ok (a, s1) →
    s1 = { s with tok_cache_idx := s1.tok_cache_idx } ∧ s.tok_cache_idx ≤ s1.tok_cache_idx
  fuel : ∀ s, s.exec = false → s.remaining < d → m s ≠ .error .out_of_fuel

/-- The same as `Skims (d + 1)`, from the states whose cursor is inside the token
array. -/
structure SkimsIn {α : Type} (d : Nat) (m : Parse α) : Prop where
  run : ∀ s a s1, s.exec = false → s.tok_cache_idx < s.tok_cache.length → m s = .ok (a, s1) →
    s1 = { s with tok_cache_idx := s1.tok_cache_idx } ∧ s.tok_cache_idx ≤ s1.tok_cache_idx
  fuel : ∀ s, s.exec = false → s.tok_cache_idx < s.tok_cache.length → s.remaining < d + 1 →
    m s ≠ .error .out_of_fuel

/-- From a state in skim mode, a normal return of `m` with a value in `Q` has
consumed a token: the cursor was inside the token array and is further on. -/
structure Consumes {α : Type} (Q : α → Prop) (m : Parse α) : Prop where
  run : ∀ s a s1, s.exec = false → m s = .ok (a, s1) → Q a →
    s.tok_cache_idx < s.tok_cache.length ∧ s.tok_cache_idx < s1.tok_cache_idx

/-- From a state in skim mode whose cursor is inside the token array, a normal
return of `m` with a value in `Q` has moved the cursor on. -/
structure ConsumesIn {α : Type} (Q : α → Prop) (m : Parse α) : Prop where
  run : ∀ s a s1, s.exec = false → s.tok_cache_idx < s.tok_cache.length →
    m s = .ok (a, s1) → Q a → s.tok_cache_idx < s1.tok_cache_idx

/-- A round of a loop that asks for another round. -/
def continues {σ α : Type} : σ ⊕ α → Prop
  | .inl _ => True
  | .inr _ => False

/-- The three forward-declared functions skim with fewer than `d` tokens left, and
each consumes a token when it returns. -/
structure Parsers.Skims (d : Nat) (rec : Parsers) : Prop where
  statement : BananaJs.Skims d rec._parse_statement
  additive : BananaJs.Skims d rec._parse_additive_expression
  expression : BananaJs.Skims d rec.js_parse_expression
  statement_consumes : Consumes (fun _ => True) rec._parse_statement
  additive_consumes : Consumes (fun _ => True) rec._parse_additive_expression
  expression_consumes : Consumes (fun _ => True) rec.js_parse_expression

/-- The state works on the token array `T`, its cursor does not exceed the token
count, and the entry index of every function cell of the heap does not exceed it
either. -/
structure InTokens (T : List js_token) (s : js) : Prop where
  tokens : s.tok_cache = T
  cursor : s.tok_cache_idx ≤ T.length
  cells : ∀ index closure, js_managed.function index closure ∈ s.heap → index ≤ T.length

/-- A state in `InTokens T` whose current kind is `k`. -/
structure AtToken (T : List js_token) (k : js_token_state) (s : js) : Prop where
  inv : InTokens T s
  kind : _get_token_state s = .ok (k, s)

/-- From a state in `InTokens T` whose current kind is `k`, `m` reads no token
outside the token array, and when it returns the state is in `InTokens T`. -/
structure Guarded {α : Type} (T : List js_token) (k : js_token_state) (m : Parse α) : Prop where
  run : ∀ s a s1, AtToken T k s → m s = .ok (a, s1) → InTokens T s1
  safe : ∀ s, AtToken T k s → m s ≠ .error .token_out_of_range

/-- The primitive `m` reads no token, keeps the token array and the cursor, and adds
no function cell to the heap but with the entry index of a cell that is there. -/
class Steady {α : Type} (m : Parse α) : Prop where
  run : ∀ s a s1, m s = .ok (a, s1) →
    s1.tok_cache = s.tok_cache ∧ s1.tok_cache_idx = s.tok_cache_idx ∧
    ∀ i c, js_managed.function i c ∈ s1.heap → ∃ c0, js_managed.function i c0 ∈ s.heap
  safe : ∀ s, m s ≠ .error .token_out_of_range

/-- The primitive `m` reads the token under the cursor: it is as a `Steady` one,
but it reads no token outside the token array only when the cursor is inside. -/
class Reads {α : Type} (m : Parse α) : Prop where
  run : ∀ s a s1, m s = .ok (a, s1) →
    s1.tok_cache = s.tok_cache ∧ s1.tok_cache_idx = s.tok_cache_idx ∧
    ∀ i c, js_managed.function i c ∈ s1.heap → ∃ c0, js_managed.function i c0 ∈ s.heap
  safe : ∀ s, s.tok_cache_idx < s.tok_cache.length → m s ≠ .error .token_out_of_range

/-- The host callables read no token outside the token array and keep a state in
`InTokens T`. -/
structure HostGuarded (T : List js_token) (host : Host) : Prop where
  run : ∀ c s s1, InTokens T s → host c s = .ok s1 → InTokens T s1
  safe : ∀ c s, InTokens T s → host c s ≠ .error .token_out_of_range

/-- The three forward-declared functions are guarded from every current kind. -/
structure Parsers.Guarded (T : List js_token) (rec : Parsers) : Prop where
  statement : ∀ k, BananaJs.Guarded T k rec._parse_statement
  additive : ∀ k, BananaJs.Guarded T k rec._parse_additive_expression
  expression : ∀ k, BananaJs.Guarded T k rec.js_parse_expression

/-- The rounds of a `js_loop` that go round again: the loop state and the state
after `j` rounds of `body` from the loop state `x` and the state `s`, when each of
these rounds returns normally and asks for another round. -/
def js_rounds {σ α : Type} (body : σ → Parse (σ ⊕ α)) : Nat → σ → js → Option (σ × js)
  | 0, x, s => some (x, s)
  | j + 1, x, s =>
    match body x s with
    | .ok (.inl x1, s1) => js_rounds body j x1 s1
    | _ => none

/-- Lines 953–963 of `_parse_statement`: the `while` of a `while` statement whose
condition starts at token `b`, as the body of `js_loop`: the test of line 953 and
one round, or the exit. -/
def while_body (host : Host) (n : Nat) (rec : Parsers) (b : Nat) :
    Unit → Parse (Unit ⊕ Unit) := fun _ => do
  let s ← js_get
  if s.parse_exec && !s.mark_break then
    set_tok_cache_idx b -- restore token
    let cond ← js_parse_expression host n rec
    match cond with
    | .boolean b =>
      _expect .ts_right_parenthesis "Expect )"
      set_parse_exec b
      rec._parse_statement -- skip if cond == false
      set_mark_continue false -- if not set to false, next cond may be NULL
      pure (.inl ())
    | _ => js_throw "Condition must be boolean"
  else
    pure (.inr ())

/-- Lines 969–980 of `_parse_statement`: one round of a `do` loop whose body starts
at token `b`, as the body of `js_loop`, with the test of line 980. -/
def do_while_body (host : Host) (n : Nat) (rec : Parsers) (b : Nat) :
    Unit → Parse (Unit ⊕ Unit) := fun _ => do
  set_tok_cache_idx b
  rec._parse_statement
  set_mark_continue false
  _expect .ts_while "Expect while"
  _expect .ts_left_parenthesis "Expect ("
  let cond ← js_parse_expression host n rec
  if cond.type ≠ .vt_undefined ∧ cond.type ≠ .vt_boolean then -- may be NULL due to 'break' mark
    js_throw "Condition must be boolean"
  _expect .ts_right_parenthesis "Expect )"
  if cond = .boolean true ∧ (← js_get).mark_break = false then
    pure (.inl ())
  else
    pure (.inr ())

/-- Lines 1061–1076 of `_parse_statement`: one round of the loop over the array
`val` of a `for in` or `for of` whose body starts at token `b`, as the body of
`js_loop`; the loop state is the position in the array and `loop_count`. -/
def for_array_body (rec : Parsers) (for_type : _for_type) (acc : _value_accessor)
    (val : js_value) (b : Nat) : Nat × Nat → Parse (Nat × Nat ⊕ Nat) := fun x => do
  let (_, p) ← js_array_cell val
  if x.1 < p.length then
    let v := p.getD x.1 .null
    if v.type ≠ .vt_null then -- skip null
      set_tok_cache_idx b
      if for_type = .for_in then
        _accessor_put acc (.number (x.1 : ℚ))
      else
        _accessor_put acc v
      rec._parse_statement
      set_mark_continue false
      if (← js_get).mark_break then
        pure (.inr (x.2 + 1))
      else
        pure (.inl (x.1 + 1, x.2 + 1))
    else
      pure (.inl (x.1 + 1, x.2))
  else
    pure (.inr x.2)

/-- Lines 1079–1094 of `_parse_statement`: one round of the loop over the object
`val` of a `for in` or `for of`, as `for_array_body`. -/
def for_object_body (rec : Parsers) (for_type : _for_type) (acc : _value_accessor)
    (val : js_value) (b : Nat) : Nat × Nat → Parse (Nat × Nat ⊕ Nat) := fun x => do
  let (_, p) ← js_object_cell val
  if x.1 < p.length then
    let (k, v) := p.getD x.1 ([], .null)
    if v.type ≠ .vt_null then -- skip null
      set_tok_cache_idx b
      if for_type = .for_in then
        _accessor_put acc (js_string k k.length)
      else
        _accessor_put acc v
      rec._parse_statement
      set_mark_continue false
      if (← js_get).mark_break then
        pure (.inr (x.2 + 1))
      else
        pure (.inl (x.1 + 1, x.2 + 1))
    else
      pure (.inl (x.1 + 1, x.2))
  else
    pure (.inr x.2)

/-- A `for of` whose body executes `break` in its second round. -/
def for_of_break_src : String := "let x; for (x of [1, 2, 3]) { if (x == 2) { break; } }"

/-- The state of that program inside the `for`, at token `idx`, with the heap
`heap`, `x` holding `v` and `mark_break` as given. -/
def for_of_break_state (idx : Nat) (heap : List js_managed) (v : js_value) (brk : Bool) : js :=
  { js_load for_of_break_src with
    tok_cache_idx := idx
    mark_break := brk
    heap := heap
    stack := [⟨7, 10, [], []⟩, ⟨0, 0, [(sz "x", v)], []⟩] }

set_option linter.unusedTactic false
set_option linter.unreachableTactic false
set_option linter.unusedVariables false

/-! ## Arithmetic of `double` on finite values -/

theorem double.zero_def : (0 : double) = .fin 0 := by
  show double.fin ((0 : Nat) : ℚ) = .fin 0
  rw [Nat.cast_zero]

theorem double.one_def : (1 : double) = .fin 1 := by
  show double.fin ((1 : Nat) : ℚ) = .fin 1
  rw [Nat.cast_one]

theorem double.fin_lt_fin (a b : ℚ) : (double.fin a < double.fin b) ↔ a < b := by
  show double.lt (.fin a) (.fin b) = true ↔ a < b
  simp only [double.lt, double.val, decide_eq_true_eq]

theorem double.fin_le_fin (a b : ℚ) : (double.fin a ≤ double.fin b) ↔ a ≤ b := by
  show double.le (.fin a) (.fin b) = true ↔ a ≤ b
  simp only [double.le, double.val, decide_eq_true_eq]

theorem double.decide_fin_lt (a b : ℚ) :
    decide (double.fin a < double.fin b) = decide (a < b) :=
  decide_eq_decide.mpr (double.fin_lt_fin a b)

theorem double.decide_fin_le (a b : ℚ) :
    decide (double.fin a ≤ double.fin b) = decide (a ≤ b) :=
  decide_eq_decide.mpr (double.fin_le_fin a b)

theorem double.fin_mul_fin (a b : ℚ) (ha : 0 ≤ a) (hb : 0 ≤ b) :
    double.fin a * double.fin b = double.fin (a * b) := by
  show double.mul (.fin a) (.fin b) = _
  have h1 : decide (a < 0) = false := decide_eq_false (not_lt.mpr ha)
  have h2 : decide (b < 0) = false := decide_eq_false (not_lt.mpr hb)
  simp only [double.mul, double.sign, double.val, h1, h2, double.signed, double.zero,
    bne_self_eq_false, Bool.false_eq_true, if_false]
  split
  · rename_i h
    rw [h]
  · rfl

/-! ## General rules -/

theorem pres_pure {α : Type} {R : Rel} {a : α} : Pres R (pure a : Parse α) := by
  constructor
  intro s b s1 hm
  cases hm
  exact R.refl s

theorem pres_bind {α β : Type} {R : Rel} {m : Parse α} {f : α → Parse β}
    (hm : Pres R m) (hf : ∀ a, Pres R (f a)) : Pres R (m >>= f) := by
  constructor
  intro s b s2 h
  simp only [bind] at h
  split at h
  · rename_i a s1 hms
    exact R.trans _ _ _ (hm.run s a s1 hms) ((hf a).run s1 b s2 h)
  · cases h

theorem pres_throw {α : Type} {R : Rel} {msg : String} : Pres R (js_throw msg : Parse α) := by
  constructor; intro s a s1 h; cases h

theorem pres_stop {α : Type} {R : Rel} {e : js_error} : Pres R (js_stop e : Parse α) := by
  constructor; intro s a s1 h; cases h

theorem pres_loop {σ α : Type} {R : Rel} {body : σ → Parse (σ ⊕ α)}
    (hb : ∀ x, Pres R (body x)) : ∀ n x, Pres R (js_loop body n x) := by
  intro n
  induction n with
  | zero => intro x; exact pres_stop
  | succ k ih =>
    intro x
    unfold js_loop
    apply pres_bind (hb x)
    intro r
    cases r with
    | inl x1 => exact ih x1
    | inr a => exact pres_pure

theorem pres_ite {α : Type} {R : Rel} {c : Prop} [Decidable c] {a b : Parse α}
    (ha : Pres R a) (hb : Pres R b) : Pres R (if c then a else b) := by
  split
  · exact ha
  · exact hb

theorem yields_ite {α : Type} {V : α → Prop} {c : Prop} [Decidable c] {a b : Parse α}
    (ha : Yields V a) (hb : Yields V b) : Yields V (if c then a else b) := by
  split
  · exact ha
  · exact hb

theorem yields_pure {α : Type} {V : α → Prop} {a : α} (h : V a) :
    Yields V (pure a : Parse α) := by
  constructor
  intro s b s1 hm
  cases hm
  exact h

theorem yields_bind {α β : Type} {V : β → Prop} {m : Parse α} {f : α → Parse β}
    (hf : ∀ a, Yields V (f a)) : Yields V (m >>= f) := by
  constructor
  intro s b s2 h
  simp only [bind] at h
  split at h
  · rename_i a s1 hms
    exact (hf a).run s1 b s2 h
  · cases h

theorem yields_throw {α : Type} {V : α → Prop} {msg : String} :
    Yields V (js_throw msg : Parse α) := by
  constructor; intro s a s1 h; cases h

/-- In a state where `_require_exec` is false a function of the shape
`if (_require_exec(pjs)) A else B` runs `B`. -/
theorem skim_branch {α : Type} (A B : Parse α) (s : js) (hs : s.exec = false) :
    (_require_exec >>= fun c => if c = true then A else B) s = B s := by
  have : (s.parse_exec && !s.mark_break && !s.mark_continue && !s.mark_return) = false := hs
  simp only [bind, _require_exec, this]
  rfl

theorem skim_dispatch {α : Type} {A B : Parse α} (hB : Pres skim_rel B) :
    Pres skim_rel (_require_exec >>= fun c => if c = true then A else B) := by
  constructor
  intro s a s1 h hs
  rw [skim_branch A B s hs] at h
  exact hB.run s a s1 h hs

theorem skim_next_token : Pres skim_rel _next_token := by
  constructor
  intro s a s1 h _
  simp only [_next_token, js_modify] at h
  cases h
  rfl

theorem skim_get_token_state : Pres skim_rel _get_token_state := by
  constructor
  intro s a s1 h _
  simp only [_get_token_state] at h
  split at h <;> cases h <;> rfl

theorem skim_accept (stat : js_token_state) : Pres skim_rel (_accept stat) := by
  unfold _accept
  apply pres_bind skim_get_token_state
  intro a
  split
  · exact pres_bind skim_next_token (fun _ => pres_pure)
  · exact pres_pure

theorem skim_expect (stat : js_token_state) (msg : String) :
    Pres skim_rel (_expect stat msg) := by
  unfold _expect
  apply pres_bind (skim_accept stat)
  intro a
  split
  · exact pres_throw
  · exact pres_pure

/-! ## Skim mode changes nothing but the cursor -/

theorem skim_parse_statements (n : Nat) (rec : Parsers) (h : rec.Pres skim_rel) :
    Pres skim_rel (_parse_statements n rec) := by
  unfold _parse_statements
  apply pres_loop
  intro _
  with_reducible repeat' (first
    | intro _
    | exact pres_pure | exact pres_throw | exact skim_get_token_state | exact skim_next_token
    | exact skim_accept _ | exact skim_expect _ _
    | exact h.statement | exact h.expression | exact h.additive
    | apply pres_loop | apply pres_bind | apply pres_ite | split)

theorem skim_parse_function (n : Nat) (rec : Parsers) (h : rec.Pres skim_rel) :
    Pres skim_rel (_parse_function n rec) := by
  unfold _parse_function
  apply skim_dispatch
  with_reducible repeat' (first
    | intro _
    | exact pres_pure | exact pres_throw | exact skim_get_token_state | exact skim_next_token
    | exact skim_accept _ | exact skim_expect _ _
    | exact h.statement | exact h.expression | exact h.additive
    | exact skim_parse_statements n rec h
    | apply pres_loop | apply pres_bind | apply pres_ite | split)

theorem skim_parse_value (n : Nat) (rec : Parsers) (h : rec.Pres skim_rel) :
    Pres skim_rel (_parse_value n rec) := by
  unfold _parse_value
  apply skim_dispatch
  with_reducible repeat' (first
    | intro _
    | exact pres_pure | exact pres_throw | exact skim_get_token_state | exact skim_next_token
    | exact skim_accept _ | exact skim_expect _ _
    | exact h.statement | exact h.expression | exact h.additive
    | exact skim_parse_statements n rec h
    | exact skim_parse_function n rec h
    | apply pres_loop | apply pres_bind | apply pres_ite | split)

theorem skim_parse_accessor (host : Host) (n : Nat) (rec : Parsers) (h : rec.Pres skim_rel) :
    Pres skim_rel (_parse_accessor host n rec) := by
  unfold _parse_accessor
  apply skim_dispatch
  with_reducible repeat' (first
    | intro _
    | exact pres_pure | exact pres_throw | exact skim_get_token_state | exact skim_next_token
    | exact skim_accept _ | exact skim_expect _ _
    | exact h.statement | exact h.expression | exact h.additive
    | exact skim_parse_statements n rec h
    | exact skim_parse_function n rec h
    | exact skim_parse_value n rec h
    | apply pres_loop | apply pres_bind | apply pres_ite | split)

theorem skim_parse_access_call_expression (host : Host) (n : Nat) (rec : Parsers) (h : rec.Pres skim_rel) :
    Pres skim_rel (_parse_access_call_expression host n rec) := by
  unfold _parse_access_call_expression
  apply skim_dispatch
  with_reducible repeat' (first
    | intro _
    | exact pres_pure | exact pres_throw | exact skim_get_token_state | exact skim_next_token
    | exact skim_accept _ | exact skim_expect _ _
    | exact h.statement | exact h.expression | exact h.additive
    | exact skim_parse_statements n rec h
    | exact skim_parse_function n rec h
    | exact skim_parse_value n rec h
    | exact skim_parse_accessor host n rec h
    | apply pres_loop | apply pres_bind | apply pres_ite | split)

theorem skim_parse_prefix_expression (host : Host) (n : Nat) (rec : Parsers) (h : rec.Pres skim_rel) :
    Pres skim_rel (_parse_prefix_expression host n rec) := by
  unfold _parse_prefix_expression
  apply skim_dispatch
  with_reducible repeat' (first
    | intro _
    | exact pres_pure | exact pres_throw | exact skim_get_token_state | exact skim_next_token
    | exact skim_accept _ | exact skim_expect _ _
    | exact h.statement | exact h.expression | exact h.additive
    | exact skim_parse_statements n rec h
    | exact skim_parse_function n rec h
    | exact skim_parse_value n rec h
    | exact skim_parse_accessor host n rec h
    | exact skim_parse_access_call_expression host n rec h
    | apply pres_loop | apply pres_bind | apply pres_ite | split)

theorem skim_parse_multiplicative_expression (host : Host) (n : Nat) (rec : Parsers) (h : rec.Pres skim_rel) :
    Pres skim_rel (_parse_multiplicative_expression host n rec) := by
  unfold _parse_multiplicative_expression
  apply skim_dispatch
  with_reducible repeat' (first
    | intro _
    | exact pres_pure | exact pres_throw | exact skim_get_token_state | exact skim_next_token
    | exact skim_accept _ | exact skim_expect _ _
    | exact h.statement | exact h.expression | exact h.additive
    | exact skim_parse_statements n rec h
    | exact skim_parse_function n rec h
    | exact skim_parse_value n rec h
    | exact skim_parse_accessor host n rec h
    | exact skim_parse_access_call_expression host n rec h
    | exact skim_parse_prefix_expression host n rec h
    | apply pres_loop | apply pres_bind | apply pres_ite | split)

theorem skim_parse_additive_expression (host : Host) (n : Nat) (rec : Parsers) (h : rec.Pres skim_rel) :
    Pres skim_rel (_parse_additive_expression host n rec) := by
  unfold _parse_additive_expression
  apply skim_dispatch
  with_reducible repeat' (first
    | intro _
    | exact pres_pure | exact pres_throw | exact skim_get_token_state | exact skim_next_token
    | exact skim_accept _ | exact skim_expect _ _
    | exact h.statement | exact h.expression | exact h.additive
    | exact skim_parse_statements n rec h
    | exact skim_parse_function n rec h
    | exact skim_parse_value n rec h
    | exact skim_parse_accessor host n rec h
    | exact skim_parse_access_call_expression host n rec h
    | exact skim_parse_prefix_expression host n rec h
    | exact skim_parse_multiplicative_expression host n rec h
    | apply pres_loop | apply pres_bind | apply pres_ite | split)

theorem skim_parse_relational_expression (host : Host) (n : Nat) (rec : Parsers) (h : rec.Pres skim_rel) :
    Pres skim_rel (_parse_relational_expression host n rec) := by
  unfold _parse_relational_expression
  apply skim_dispatch
  with_reducible repeat' (first
    | intro _
    | exact pres_pure | exact pres_throw | exact skim_get_token_state | exact skim_next_token
    | exact skim_accept _ | exact skim_expect _ _
    | exact h.statement | exact h.expression | exact h.additive
    | exact skim_parse_statements n rec h
    | exact skim_parse_function n rec h
    | exact skim_parse_value n rec h
    | exact skim_parse_accessor host n rec h
    | exact skim_parse_access_call_expression host n rec h
    | exact skim_parse_prefix_expression host n rec h
    | exact skim_parse_multiplicative_expression host n rec h
    | exact skim_parse_additive_expression host n rec h
    | apply pres_loop | apply pres_bind | apply pres_ite | split)

theorem skim_parse_logical_expression (host : Host) (n : Nat) (rec : Parsers) (h : rec.Pres skim_rel) :
    Pres skim_rel (_parse_logical_expression host n rec) := by
  unfold _parse_logical_expression
  apply skim_dispatch
  with_reducible repeat' (first
    | intro _
    | exact pres_pure | exact pres_throw | exact skim_get_token_state | exact skim_next_token
    | exact skim_accept _ | exact skim_expect _ _
    | exact h.statement | exact h.expression | exact h.additive
    | exact skim_parse_statements n rec h
    | exact skim_parse_function n rec h
    | exact skim_parse_value n rec h
    | exact skim_parse_accessor host n rec h
    | exact skim_parse_access_call_expression host n rec h
    | exact skim_parse_prefix_expression host n rec h
    | exact skim_parse_multiplicative_expression host n rec h
    | exact skim_parse_additive_expression host n rec h
    | exact skim_parse_relational_expression host n rec h
    | apply pres_loop | apply pres_bind | apply pres_ite | split)

theorem skim_js_parse_expression (host : Host) (n : Nat) (rec : Parsers) (h : rec.Pres skim_rel) :
    Pres skim_rel (js_parse_expression host n rec) := by
  unfold js_parse_expression
  apply skim_dispatch
  with_reducible repeat' (first
    | intro _
    | exact pres_pure | exact pres_throw | exact skim_get_token_state | exact skim_next_token
    | exact skim_accept _ | exact skim_expect _ _
    | exact h.statement | exact h.expression | exact h.additive
    | exact skim_parse_statements n rec h
    | exact skim_parse_function n rec h
    | exact skim_parse_value n rec h
    | exact skim_parse_accessor host n rec h
    | exact skim_parse_access_call_expression host n rec h
    | exact skim_parse_prefix_expression host n rec h
    | exact skim_parse_multiplicative_expression host n rec h
    | exact skim_parse_additive_expression host n rec h
    | exact skim_parse_relational_expression host n rec h
    | exact skim_parse_logical_expression host n rec h
    | apply pres_loop | apply pres_bind | apply pres_ite | split)

theorem skim_parse_assignment_expression (host : Host) (n : Nat) (rec : Parsers) (h : rec.Pres skim_rel) :
    Pres skim_rel (_parse_assignment_expression host n rec) := by
  unfold _parse_assignment_expression
  apply skim_dispatch
  with_reducible repeat' (first
    | intro _
    | exact pres_pure | exact pres_throw | exact skim_get_token_state | exact skim_next_token
    | exact skim_accept _ | exact skim_expect _ _
    | exact h.statement | exact h.expression | exact h.additive
    | exact skim_parse_statements n rec h
    | exact skim_parse_function n rec h
    | exact skim_parse_value n rec h
    | exact skim_parse_accessor host n rec h
    | exact skim_parse_access_call_expression host n rec h
    | exact skim_parse_prefix_expression host n rec h
    | exact skim_parse_multiplicative_expression host n rec h
    | exact skim_parse_additive_expression host n rec h
    | exact skim_parse_relational_expression host n rec h
    | exact skim_parse_logical_expression host n rec h
    | exact skim_js_parse_expression host n rec h
    | apply pres_loop | apply pres_bind | apply pres_ite | split)

theorem skim_parse_declaration_expression (host : Host) (n : Nat) (rec : Parsers) (h : rec.Pres skim_rel) :
    Pres skim_rel (_parse_declaration_expression host n rec) := by
  unfold _parse_declaration_expression
  apply skim_dispatch
  with_reducible repeat' (first
    | intro _
    | exact pres_pure | exact pres_throw | exact skim_get_token_state | exact skim_next_token
    | exact skim_accept _ | exact skim_expect _ _
    | exact h.statement | exact h.expression | exact h.additive
    | exact skim_parse_statements n rec h
    | exact skim_parse_function n rec h
    | exact skim_parse_value n rec h
    | exact skim_parse_accessor host n rec h
    | exact skim_parse_access_call_expression host n rec h
    | exact skim_parse_prefix_expression host n rec h
    | exact skim_parse_multiplicative_expression host n rec h
    | exact skim_parse_additive_expression host n rec h
    | exact skim_parse_relational_expression host n rec h
    | exact skim_parse_logical_expression host n rec h
    | exact skim_js_parse_expression host n rec h
    | exact skim_parse_assignment_expression host n rec h
    | apply pres_loop | apply pres_bind | apply pres_ite | split)

theorem skim_parse_statement (host : Host) (n : Nat) (rec : Parsers) (h : rec.Pres skim_rel) :
    Pres skim_rel (_parse_statement host n rec) := by
  unfold _parse_statement
  apply skim_dispatch
  with_reducible repeat' (first
    | intro _
    | exact pres_pure | exact pres_throw | exact skim_get_token_state | exact skim_next_token
    | exact skim_accept _ | exact skim_expect _ _
    | exact h.statement | exact h.expression | exact h.additive
    | exact skim_parse_statements n rec h
    | exact skim_parse_function n rec h
    | exact skim_parse_value n rec h
    | exact skim_parse_accessor host n rec h
    | exact skim_parse_access_call_expression host n rec h
    | exact skim_parse_prefix_expression host n rec h
    | exact skim_parse_multiplicative_expression host n rec h
    | exact skim_parse_additive_expression host n rec h
    | exact skim_parse_relational_expression host n rec h
    | exact skim_parse_logical_expression host n rec h
    | exact skim_js_parse_expression host n rec h
    | exact skim_parse_assignment_expression host n rec h
    | exact skim_parse_declaration_expression host n rec h
    | apply pres_loop | apply pres_bind | apply pres_ite | split)

theorem skim_parsers (host : Host) : ∀ n, (parsers host n).Pres skim_rel
  | 0 => ⟨pres_stop, pres_stop, pres_stop⟩
  | n + 1 =>
    ⟨skim_parse_statement host n _ (skim_parsers host n),
     skim_parse_additive_expression host n _ (skim_parsers host n),
     skim_js_parse_expression host n _ (skim_parsers host n)⟩

theorem skim_value_js_parse_expression (host : Host) (n : Nat) (rec : Parsers) (s s1 : js)
    (v : js_value) (hs : s.exec = false)
    (h : js_parse_expression host n rec s = .ok (v, s1)) : v = .undefined := by
  unfold js_parse_expression at h
  rw [skim_branch _ _ s hs] at h
  refine Yields.run (V := fun v => v = js_value.undefined) ?_ s v s1 h
  with_reducible repeat' (first
    | intro _ | exact yields_pure rfl | exact yields_throw
    | apply yields_bind | apply yields_ite | split)

theorem skim_value_parse_value (n : Nat) (rec : Parsers) (s s1 : js)
    (v : js_value) (hs : s.exec = false)
    (h : _parse_value n rec s = .ok (v, s1)) : v = .undefined := by
  unfold _parse_value at h
  rw [skim_branch _ _ s hs] at h
  refine Yields.run (V := fun v => v = js_value.undefined) ?_ s v s1 h
  with_reducible repeat' (first
    | intro _ | exact yields_pure rfl | exact yields_throw
    | apply yields_bind | apply yields_ite | split)

/-- C2: when `_require_exec` is false on entry, a call of `_parse_statement`,
`js_parse_expression`, `_parse_accessor`, `_parse_value` or `_parse_function` that
returns normally leaves every part of the interpreter state except the cursor
`tok_cache_idx` as it was (scope stack with the parameter buffers, heap, result
slot, `parse_exec` and the three flags), and `js_parse_expression` and
`_parse_value` return undefined. -/
theorem skim_changes_only_the_cursor (host : Host) (n : Nat) (s s1 : js)
    (hs : _require_exec s = .ok (false, s)) :
    (∀ a, _parse_statement host n (parsers host n) s = .ok (a, s1) →
      s1 = { s with tok_cache_idx := s1.tok_cache_idx }) ∧
    (∀ v, js_parse_expression host n (parsers host n) s = .ok (v, s1) →
      s1 = { s with tok_cache_idx := s1.tok_cache_idx } ∧ v = .undefined) ∧
    (∀ acc, _parse_accessor host n (parsers host n) s = .ok (acc, s1) →
      s1 = { s with tok_cache_idx := s1.tok_cache_idx }) ∧
    (∀ v, _parse_value n (parsers host n) s = .ok (v, s1) →
      s1 = { s with tok_cache_idx := s1.tok_cache_idx } ∧ v = .undefined) ∧
    (∀ a, _parse_function n (parsers host n) s = .ok (a, s1) →
      s1 = { s with tok_cache_idx := s1.tok_cache_idx }) := by
  have hx : s.exec = false := by
    simp only [_require_exec] at hs
    injection hs with hs
    exact congrArg Prod.fst hs
  have hp := skim_parsers host n
  refine ⟨?_, ?_, ?_, ?_, ?_⟩
  · intro a h
    exact (skim_parse_statement host n _ hp).run s a s1 h hx
  · intro v h
    exact ⟨(skim_js_parse_expression host n _ hp).run s v s1 h hx,
      skim_value_js_parse_expression host n _ s s1 v hx h⟩
  · intro acc h
    exact (skim_parse_accessor host n _ hp).run s acc s1 h hx
  · intro v h
    exact ⟨(skim_parse_value n _ hp).run s v s1 h hx, skim_value_parse_value n _ s s1 v hx h⟩
  · intro a h
    exact (skim_parse_function n _ hp).run s a s1 h hx

/-! ## The call mechanism -/

theorem bind_ok {α β : Type} {m : Parse α} {f : α → Parse β} {s s2 : js} {b : β}
    (h : (m >>= f) s = .ok (b, s2)) : ∃ a s1, m s = .ok (a, s1) ∧ f a s1 = .ok (b, s2) := by
  simp only [bind] at h
  split at h
  · rename_i a s1 hm
    exact ⟨a, s1, hm, h⟩
  · cases h

theorem js_value_map_get_put_same (m : js_value_map) (k : Bytes) (v : js_value) :
    js_value_map_get (js_value_map_put m k v) k = some v := by
  induction m with
  | nil => simp [js_value_map_put, js_value_map_get]
  | cons e m ih =>
    obtain ⟨k1, v1⟩ := e
    by_cases hk : k1 = k
    · simp [js_value_map_put, js_value_map_get, hk]
    · simp [js_value_map_put, js_value_map_get, hk, ih]

theorem js_value_map_get_put_other (m : js_value_map) (k k2 : Bytes) (v : js_value)
    (hne : k2 ≠ k) : js_value_map_get (js_value_map_put m k v) k2 = js_value_map_get m k2 := by
  induction m with
  | nil => simp [js_value_map_put, js_value_map_get, Ne.symm hne]
  | cons e m ih =>
    obtain ⟨k1, v1⟩ := e
    by_cases hk : k1 = k
    · subst hk
      simp [js_value_map_put, js_value_map_get, Ne.symm hne]
    · by_cases hk2 : k1 = k2
      · subst hk2
        simp [js_value_map_put, js_value_map_get, hk]
      · simp [js_value_map_put, js_value_map_get, hk, hk2, ih]

theorem closure_capture_get_of_not_mem (vars closure : js_value_map) (k : Bytes)
    (hk : k ∉ vars.map Prod.fst) :
    js_value_map_get (closure_capture closure vars) k = js_value_map_get closure k := by
  induction vars generalizing closure with
  | nil => rfl
  | cons e vars ih =>
    obtain ⟨k1, v1⟩ := e
    simp only [List.map_cons, List.mem_cons, not_or] at hk
    simp only [closure_capture, List.foldl_cons]
    have := ih (js_value_map_put closure k1 v1) hk.2
    simp only [closure_capture] at this
    rw [this]
    exact js_value_map_get_put_other _ _ _ _ hk.1

theorem closure_capture_get (vars closure : js_value_map) (k : Bytes) (v : js_value)
    (hnd : (vars.map Prod.fst).Nodup) (hmem : (k, v) ∈ vars) :
    js_value_map_get (closure_capture closure vars) k = some v := by
  induction vars generalizing closure with
  | nil => cases hmem
  | cons e vars ih =>
    obtain ⟨k1, v1⟩ := e
    simp only [List.map_cons, List.nodup_cons] at hnd
    simp only [closure_capture, List.foldl_cons]
    rcases List.mem_cons.1 hmem with heq | hin
    · cases heq
      have := closure_capture_get_of_not_mem vars (js_value_map_put closure k v) k hnd.1
      simp only [closure_capture] at this
      rw [this]
      exact js_value_map_get_put_same _ _ _
    · have := ih (js_value_map_put closure k1 v1) hnd.2 hin
      simp only [closure_capture] at this
      exact this

theorem capture_loop (g : Nat) (vars : js_value_map) :
    ∀ (s s1 : js) (index : Nat) (closure : js_value_map),
      s.heap.get? g = some (.function index closure) →
      js_value_map_for_each vars (fun k kl w => do
        let (f, index, closure) ← js_function_cell (.function g)
        js_heap_set f (.function index (js_value_map_put closure (k.take kl) w))) s = .ok ((), s1) →
      s1.heap.get? g = some (.function index (closure_capture closure vars)) ∧
        s1 = { s with heap := s1.heap } := by
  induction vars with
  | nil =>
    intro s s1 index closure hcell h
    simp only [js_value_map_for_each] at h
    cases h
    exact ⟨hcell, rfl⟩
  | cons e vars ih =>
    intro s s1 index closure hcell h
    obtain ⟨k1, v1⟩ := e
    simp only [js_value_map_for_each] at h
    obtain ⟨u, s2, h1, h2⟩ := bind_ok h
    obtain ⟨c, s3, h3, h4⟩ := bind_ok h1
    simp only [js_function_cell, hcell] at h3
    cases h3
    simp only [js_heap_set, js_modify] at h4
    cases h4
    have hlt : g < s.heap.length := by
      rcases Nat.lt_or_ge g s.heap.length with hlt | hge
      · exact hlt
      · rw [List.get?_eq_none.2 hge] at hcell
        cases hcell
    have hcell2 : ({ s with heap := s.heap.set g (.function index (js_value_map_put closure (k1.take k1.length) v1)) } : js).heap.get? g
        = some (.function index (js_value_map_put closure k1 v1)) := by
      simp [List.take_length, hlt]
    have := ih _ s1 index _ hcell2 h2
    refine ⟨?_, ?_⟩
    · rw [this.1]
      rfl
    · rw [this.2]


/-- C4: when a call's result is a function value `g`, `_call_result` puts every
binding (key and value) of the top scope frame, as the callee left it, into the
closure map of `g`, overwriting earlier entries of the same key and keeping the
others; when the result is not a function value the heap, hence every closure map,
is unchanged.  The frame's keys are distinct, as the keys of a map are. -/
theorem call_result_captures_frame (acc r : _value_accessor) (s s1 : js)
    (frame : js_stack_frame) (rest : List js_stack_frame)
    (hstack : s.stack = frame :: rest)
    (hkeys : (frame.vars.map Prod.fst).Nodup)
    (h : _call_result acc s = .ok (r, s1)) :
    (∀ g index closure, s.result = .function g →
      s.heap.get? g = some (.function index closure) →
      r.v = .function g ∧
      ∃ closure1, s1.heap.get? g = some (.function index closure1) ∧
        (∀ k v, (k, v) ∈ frame.vars → js_value_map_get closure1 k = some v) ∧
        (∀ k, k ∉ frame.vars.map Prod.fst →
          js_value_map_get closure1 k = js_value_map_get closure k)) ∧
    (s.result.type ≠ .vt_function → s1.heap = s.heap) := by
  unfold _call_result at h
  obtain ⟨s0, s2, h1, h⟩ := bind_ok h
  simp only [js_get] at h1
  cases h1
  obtain ⟨_, s2, h1, h⟩ := bind_ok h
  simp only [set_result, js_modify] at h1
  cases h1
  constructor
  · intro g index closure hres hcell
    simp only [hres, js_value.type, reduceCtorEq, if_false, if_true] at h
    obtain ⟨fr, s3, h1, h⟩ := bind_ok h
    simp only [js_stack_peek, hstack] at h1
    cases h1
    obtain ⟨_, s4, h1, h⟩ := bind_ok h
    obtain ⟨_, s5, h2, h⟩ := bind_ok h
    obtain ⟨_, s6, h3, h⟩ := bind_ok h
    cases h
    simp only [set_mark_return, js_modify] at h3
    cases h3
    simp only [js_stack_backward] at h2
    split at h2
    · cases h2
    cases h2
    refine ?_
    have hc := capture_loop g frame.vars _ s4 index closure ?_ h1
    swap
    · exact hcell
    refine ⟨rfl, closure_capture closure frame.vars, hc.1, ?_, ?_⟩
    · intro k v hmem
      exact closure_capture_get _ _ _ _ hkeys hmem
    · intro k hk
      exact closure_capture_get_of_not_mem _ _ _ hk
  · intro hne
    have hv : (if s.result.type = js_value_type.vt_undefined then js_value.null else s.result).type
        ≠ js_value_type.vt_function := by
      split
      · simp [js_value.type]
      · exact hne
    simp only [hv, if_false] at h
    obtain ⟨_, s4, h1, h⟩ := bind_ok h
    cases h1
    obtain ⟨_, s5, h2, h⟩ := bind_ok h
    obtain ⟨_, s6, h3, h⟩ := bind_ok h
    cases h
    simp only [set_mark_return, js_modify] at h3
    cases h3
    simp only [js_stack_backward] at h2
    split at h2
    · cases h2
    cases h2
    rfl


set_option maxRecDepth 100000 in
theorem call_result_captures_frame_witness :
    capture_example.stack =
      ⟨0, 0, [(sz "x", .number 1), (sz "y", .number 2)], []⟩ :: [⟨0, 0, [], []⟩] ∧
    _call_result ⟨.at_identifier, .undefined, [], 0⟩ capture_example =
      .ok (⟨.at_value, .function 0, [], 0⟩,
        { capture_example with
          heap := [.function 3 [(sz "x", .number 1), (sz "w", .number 9), (sz "y", .number 2)]]
          stack := [⟨0, 0, [], []⟩]
          result := .undefined }) ∧
    ∃ closure1,
      ([.function 3 [(sz "x", .number 1), (sz "w", .number 9), (sz "y", .number 2)]] :
        List js_managed).get? 0 = some (.function 3 closure1) ∧
      js_value_map_get closure1 (sz "x") = some (.number 1) ∧
      js_value_map_get closure1 (sz "y") = some (.number 2) ∧
      js_value_map_get closure1 (sz "w") = some (.number 9) := by
  have h := (call_result_captures_frame ⟨.at_identifier, .undefined, [], 0⟩
    ⟨.at_value, .function 0, [], 0⟩ capture_example
    { capture_example with
      heap := [.function 3 [(sz "x", .number 1), (sz "w", .number 9), (sz "y", .number 2)]]
      stack := [⟨0, 0, [], []⟩]
      result := .undefined }
    ⟨0, 0, [(sz "x", .number 1), (sz "y", .number 2)], []⟩ [⟨0, 0, [], []⟩]
    (by decide!) (by decide!) (by decide!)).1 0 3 [(sz "x", .number 0), (sz "w", .number 9)]
    (by decide!) (by decide!)
  obtain ⟨_, closure1, h1, h2, h3⟩ := h
  refine ⟨by decide!, by decide!, closure1, h1, h2 _ _ (by decide!), h2 _ _ (by decide!), ?_⟩
  rw [h3 (sz "w") (by decide!)]
  decide!


theorem capture_loop_frame (v : js_value) (vars : js_value_map) :
    ∀ (s s1 : js),
      js_value_map_for_each vars (fun k kl w => do
        let (f, index, closure) ← js_function_cell v
        js_heap_set f (.function index (js_value_map_put closure (k.take kl) w))) s = .ok ((), s1) →
      s1 = { s with heap := s1.heap } := by
  induction vars with
  | nil =>
    intro s s1 h
    simp only [js_value_map_for_each] at h
    cases h
    rfl
  | cons e vars ih =>
    intro s s1 h
    obtain ⟨k1, v1⟩ := e
    simp only [js_value_map_for_each] at h
    obtain ⟨u, s2, h1, h2⟩ := bind_ok h
    obtain ⟨c, s3, h3, h4⟩ := bind_ok h1
    have hs3 : s3 = s := by
      simp only [js_function_cell] at h3
      split at h3
      · split at h3
        · cases h3; rfl
        · cases h3
      · cases h3
    subst hs3
    simp only [js_heap_set, js_modify] at h4
    cases h4
    rw [ih _ s1 h2]

/-- What `_call_result` leaves behind, whatever the callee did. -/
theorem call_result_post (acc r : _value_accessor) (s s1 : js)
    (h : _call_result acc s = .ok (r, s1)) :
    r.type = .at_value ∧
    r.v = (if s.result.type = .vt_undefined then .null else s.result) ∧
    s1.result = .undefined ∧ s1.mark_return = false ∧
    s1.tok_cache_idx = s.tok_cache_idx ∧ s1.stack = s.stack.tail ∧
    s1.parse_exec = s.parse_exec ∧ s1.mark_break = s.mark_break ∧
    s1.mark_continue = s.mark_continue := by
  unfold _call_result at h
  obtain ⟨s0, s2, h1, h⟩ := bind_ok h
  simp only [js_get] at h1
  cases h1
  obtain ⟨_, s2, h1, h⟩ := bind_ok h
  simp only [set_result, js_modify] at h1
  cases h1
  have tail : ∀ (s4 : js), s4 = { s with result := .undefined, heap := s4.heap } →
      (do js_stack_backward
          set_mark_return false
          pure { acc with type := _value_accessor_type.at_value,
                          v := if s.result.type = .vt_undefined then .null else s.result } :
        Parse _value_accessor) s4 = .ok (r, s1) →
      r.type = .at_value ∧
      r.v = (if s.result.type = .vt_undefined then .null else s.result) ∧
      s1.result = .undefined ∧ s1.mark_return = false ∧
      s1.tok_cache_idx = s.tok_cache_idx ∧ s1.stack = s.stack.tail ∧
      s1.parse_exec = s.parse_exec ∧ s1.mark_break = s.mark_break ∧
      s1.mark_continue = s.mark_continue := by
    intro s4 hs4 h
    obtain ⟨_, s5, h2, h⟩ := bind_ok h
    obtain ⟨_, s6, h3, h⟩ := bind_ok h
    cases h
    simp only [set_mark_return, js_modify] at h3
    cases h3
    simp only [js_stack_backward] at h2
    split at h2
    · cases h2
    rename_i fr0 rest hst
    cases h2
    rw [hs4] at hst
    simp only at hst
    rw [hs4]
    simp [hst]
  by_cases hf : (if s.result.type = js_value_type.vt_undefined then js_value.null
      else s.result).type = js_value_type.vt_function
  · simp only [hf, if_true] at h
    obtain ⟨fr, s3, h1, h⟩ := bind_ok h
    have hs3 : s3 = { s with result := .undefined } := by
      simp only [js_stack_peek] at h1
      split at h1
      · cases h1
      · cases h1; rfl
    subst hs3
    obtain ⟨_, s4, h1, h⟩ := bind_ok h
    have h4 := capture_loop_frame _ _ _ _ h1
    exact tail s4 h4 h
  · simp only [hf, if_false] at h
    obtain ⟨_, s4, h1, h⟩ := bind_ok h
    cases h1
    exact tail _ rfl h


theorem bind_eq {α β : Type} {m : Parse α} {f : α → Parse β} {s s1 : js} {a : α}
    (h : m s = .ok (a, s1)) : (m >>= f) s = f a s1 := by
  simp only [bind, h]

theorem accept_ne {s : js} {k stat : js_token_state} (hk : _get_token_state s = .ok (k, s))
    (hne : k ≠ stat) : _accept stat s = .ok (false, s) := by
  unfold _accept
  rw [bind_eq hk]
  simp only [hne, if_false]
  rfl

theorem accept_eq {s : js} {stat : js_token_state} (hk : _get_token_state s = .ok (stat, s)) :
    _accept stat s = .ok (true, { s with tok_cache_idx := s.tok_cache_idx + 1 }) := by
  unfold _accept
  rw [bind_eq hk]
  simp only [if_true]
  rfl

theorem get_token_state_total (s : js) : ∃ k, _get_token_state s = .ok (k, s) := by
  unfold _get_token_state
  split
  · exact ⟨_, rfl⟩
  · exact ⟨_, rfl⟩

theorem accept_frame {stat : js_token_state} {s s1 : js} {c : Bool}
    (h : _accept stat s = .ok (c, s1)) : s1 = { s with tok_cache_idx := s1.tok_cache_idx } := by
  obtain ⟨k, hk⟩ := get_token_state_total s
  by_cases hks : k = stat
  · subst hks
    rw [accept_eq hk] at h
    cases h
    rfl
  · rw [accept_ne hk hks] at h
    cases h
    rfl

theorem expect_frame {stat : js_token_state} {msg : String} {s s1 : js}
    (h : _expect stat msg s = .ok ((), s1)) :
    s1 = { s with tok_cache_idx := s1.tok_cache_idx } := by
  unfold _expect at h
  obtain ⟨c, s2, hc, h⟩ := bind_ok h
  have := accept_frame hc
  split at h
  · cases h
  · cases h
    exact this

/-- The `return` statement in execute mode: `mark_return` is set; `return;`
leaves the result slot as it was, `return e;` stores the value of `e` in it. -/
theorem return_statement_sets_result (host : Host) (n : Nat) (rec : Parsers) (s s1 : js)
    (hexec : _require_exec s = .ok (true, s))
    (hk : _get_token_state s = .ok (.ts_return, s))
    (h : _parse_statement host n rec s = .ok ((), s1)) :
    s1.mark_return = true ∧
    (_get_token_state { s with tok_cache_idx := s.tok_cache_idx + 1 }
        = .ok (.ts_semicolon, { s with tok_cache_idx := s.tok_cache_idx + 1 }) →
      s1.result = s.result) ∧
    (∀ k, _get_token_state { s with tok_cache_idx := s.tok_cache_idx + 1 }
        = .ok (k, { s with tok_cache_idx := s.tok_cache_idx + 1 }) → k ≠ .ts_semicolon →
      ∃ v s2, js_parse_expression host n rec { s with tok_cache_idx := s.tok_cache_idx + 1 }
        = .ok (v, s2) ∧ s1.result = v) := by
  unfold _parse_statement at h
  rw [bind_eq hexec] at h
  simp only [if_true] at h
  rw [bind_eq (accept_ne hk (by decide))] at h
  simp only [Bool.false_eq_true, if_false] at h
  rw [bind_eq hk] at h
  simp only [reduceCtorEq, if_false] at h
  rw [bind_eq (accept_ne hk (by decide))] at h
  simp only [Bool.false_eq_true, if_false] at h
  rw [bind_eq (accept_ne hk (by decide))] at h
  simp only [Bool.false_eq_true, if_false] at h
  rw [bind_eq (accept_ne hk (by decide))] at h
  simp only [Bool.false_eq_true, if_false] at h
  rw [bind_eq hk] at h
  simp only [reduceCtorEq, if_false] at h
  rw [bind_eq (accept_ne hk (by decide))] at h
  simp only [Bool.false_eq_true, if_false] at h
  rw [bind_eq (accept_ne hk (by decide))] at h
  simp only [Bool.false_eq_true, if_false] at h
  rw [bind_eq hk] at h
  simp only [reduceCtorEq, if_false] at h
  rw [bind_eq (accept_eq hk)] at h
  simp only [if_true] at h
  obtain ⟨k, hk1⟩ := get_token_state_total { s with tok_cache_idx := s.tok_cache_idx + 1 }
  by_cases hks : k = .ts_semicolon
  · subst hks
    rw [bind_eq (accept_eq hk1)] at h
    simp only [Bool.not_true, Bool.false_eq_true, if_false] at h
    obtain ⟨_, s2, h1, h⟩ := bind_ok h
    cases h1
    simp only [set_mark_return, js_modify] at h
    cases h
    refine ⟨rfl, fun _ => rfl, ?_⟩
    intro k hk2 hne
    rw [hk1] at hk2
    cases hk2
    exact absurd rfl hne
  · rw [bind_eq (accept_ne hk1 hks)] at h
    simp only [Bool.not_false, if_true] at h
    obtain ⟨v, s2, hv, h⟩ := bind_ok h
    obtain ⟨_, s3, h1, h⟩ := bind_ok h
    simp only [set_result, js_modify] at h1
    cases h1
    obtain ⟨_, s4, h1, h⟩ := bind_ok h
    have hf := expect_frame h1
    simp only [set_mark_return, js_modify] at h
    cases h
    refine ⟨rfl, ?_, ?_⟩
    · intro hk2
      rw [hk1] at hk2
      cases hk2
      exact absurd rfl hks
    · intro k2 _ _
      refine ⟨v, s2, hv, ?_⟩
      rw [hf]


theorem script_call_post (host : Host) (n : Nat) (rec : Parsers)
    (acc r : _value_accessor) (s s1 : js) (f index : Nat) (closure : js_value_map)
    (hcell : s.heap.get? f = some (.function index closure))
    (h : (do _call_callee host n rec (.function f); _call_result acc : Parse _value_accessor) s
      = .ok (r, s1)) :
    ∃ s0 sb,
      (do set_tok_cache_idx index
          js_value_map_for_each closure fun k kl v => js_variable_declare k kl v :
        Parse Unit) s = .ok ((), s0) ∧
      _parse_function n rec s0 = .ok ((), sb) ∧
      r.type = .at_value ∧
      r.v = (if sb.result.type = .vt_undefined then .null else sb.result) ∧
      s1.result = .undefined ∧ s1.mark_return = false ∧
      s1.tok_cache_idx = s.tok_cache_idx := by
  obtain ⟨_, s2, hc, h⟩ := bind_ok h
  unfold _call_callee at hc
  simp only [js_value.type, if_true] at hc
  obtain ⟨s', s3, h1, hc⟩ := bind_ok hc
  simp only [js_get] at h1
  cases h1
  obtain ⟨cell, s3, h1, hc⟩ := bind_ok hc
  simp only [js_function_cell, hcell] at h1
  cases h1
  obtain ⟨_, s3, h1, hc⟩ := bind_ok hc
  obtain ⟨_, s4, h2, hc⟩ := bind_ok hc
  obtain ⟨_, s5, h3, hc⟩ := bind_ok hc
  simp only [set_tok_cache_idx, js_modify] at hc
  cases hc
  have hp := call_result_post _ _ _ _ h
  refine ⟨s4, s5, ?_, h3, hp.1, hp.2.1, hp.2.2.1, hp.2.2.2.1, hp.2.2.2.2.1⟩
  rw [bind_eq h1]
  exact h2

theorem while_clears_flags (host : Host) (n : Nat) (rec : Parsers) (s s1 : js)
    (h : _parse_while host n rec s = .ok ((), s1)) :
    s1.mark_break = false ∧ s1.mark_continue = false ∧ s1.parse_exec = true := by
  unfold _parse_while at h
  obtain ⟨_, s2, h1, h⟩ := bind_ok h
  obtain ⟨_, s3, h1, h⟩ := bind_ok h
  obtain ⟨_, s4, h1, h⟩ := bind_ok h
  obtain ⟨_, s5, h1, h⟩ := bind_ok h
  obtain ⟨_, s6, h2, h⟩ := bind_ok h
  simp only [set_parse_exec, set_mark_break, set_mark_continue, js_modify] at h1 h2 h
  cases h1; cases h2; cases h
  exact ⟨rfl, rfl, rfl⟩

theorem do_while_clears_flags (host : Host) (n : Nat) (rec : Parsers) (s s1 : js)
    (h : _parse_do_while host n rec s = .ok ((), s1)) :
    s1.mark_break = false ∧ s1.mark_continue = false := by
  unfold _parse_do_while at h
  obtain ⟨_, s2, h1, h⟩ := bind_ok h
  obtain ⟨_, s3, h1, h⟩ := bind_ok h
  obtain ⟨_, s4, h1, h⟩ := bind_ok h
  obtain ⟨_, s5, h2, h⟩ := bind_ok h
  simp only [set_mark_break, set_mark_continue, js_modify] at h1 h2
  cases h1; cases h2
  rw [expect_frame h]
  exact ⟨rfl, rfl⟩

theorem classic_for_clears_flags (host : Host) (n : Nat) (rec : Parsers) (s s1 : js)
    (h : _parse_classic_for host n rec s = .ok ((), s1)) :
    s1.mark_break = false ∧ s1.mark_continue = false ∧ s1.parse_exec = true := by
  unfold _parse_classic_for at h
  obtain ⟨_, s2, h1, h⟩ := bind_ok h
  obtain ⟨_, s3, h1, h⟩ := bind_ok h
  obtain ⟨_, s4, h1, h⟩ := bind_ok h
  obtain ⟨_, s5, h2, h⟩ := bind_ok h
  simp only [set_parse_exec, set_mark_break, set_mark_continue, js_modify] at h1 h2 h
  cases h1; cases h2; cases h
  exact ⟨rfl, rfl, rfl⟩

theorem for_in_of_clears_break (host : Host) (n : Nat) (rec : Parsers)
    (hrec : rec.Pres skim_rel) (for_type : _for_type)
    (acc : _value_accessor) (s s1 : js)
    (h : _parse_for_in_of host n rec for_type acc s = .ok ((), s1)) :
    s1.mark_break = false := by
  unfold _parse_for_in_of at h
  obtain ⟨val, s2, h1, h⟩ := bind_ok h
  obtain ⟨_, s3, h1, h⟩ := bind_ok h
  obtain ⟨_, s4, h1, h⟩ := bind_ok h
  obtain ⟨lc, s5, h1, h⟩ := bind_ok h
  have h5 : s5.mark_break = false := by
    split at h1
    · obtain ⟨_, s6, _, h1⟩ := bind_ok h1
      obtain ⟨_, s7, h2, h1⟩ := bind_ok h1
      simp only [set_mark_break, js_modify] at h2
      cases h2; cases h1
      rfl
    · split at h1
      · obtain ⟨_, s6, _, h1⟩ := bind_ok h1
        obtain ⟨_, s7, h2, h1⟩ := bind_ok h1
        simp only [set_mark_break, js_modify] at h2
        cases h2; cases h1
        rfl
      · cases h1
  split at h
  · obtain ⟨_, s6, h1, h⟩ := bind_ok h
    simp only [set_parse_exec, js_modify] at h1
    cases h1
    obtain ⟨_, s7, h1, h⟩ := bind_ok h
    have := hrec.statement.run _ _ _ h1 (by simp [js.exec])
    simp only [set_parse_exec, js_modify] at h
    cases h
    rw [this]
    exact h5
  · cases h
    exact h5


/-! ## Skim mode: an instance -/

set_option maxRecDepth 100000 in
theorem skim_changes_only_the_cursor_witness :
    _require_exec skim_example = .ok (false, skim_example) ∧
    _parse_statement no_host 50 (parsers no_host 50) skim_example =
      .ok ((), { skim_example with tok_cache_idx := 34 }) ∧
    ({ skim_example with tok_cache_idx := 34 } : js) =
      { skim_example with
        tok_cache_idx := ({ skim_example with tok_cache_idx := 34 } : js).tok_cache_idx } :=
  ⟨by decide!, by decide!,
    (skim_changes_only_the_cursor no_host 50 skim_example { skim_example with tok_cache_idx := 34 }
      (by decide!)).1 () (by decide!)⟩

/-! ## Example runs -/

set_option maxRecDepth 100000 in
/-- C1, at a failing input: after `function f(){ break; }` the statement
`for (let x = f(); ; ) ;` starts at token 8 in execute mode with no flag set.  Run
in execute mode it returns normally with the cursor at token 17, the `;` that ends
the initialiser's statement (the call left `mark_break` set, so the loop of line
1025 is never entered); run in skim mode from the same cursor it returns normally
with the cursor at token 20, after the body. -/
theorem for_init_break_exec_and_skim_cursors_differ :
    (js_final (js_run no_host 200 1 (js_load for_init_break_src))).map
      (fun s => (s.tok_cache_idx, s.parse_exec, s.mark_break, s.mark_continue, s.mark_return))
      = some (8, true, false, false, false) ∧
    (js_final (js_run no_host 200 2 (js_load for_init_break_src))).map
      (fun s => s.tok_cache_idx) = some 17 ∧
    (js_final ((do js_run no_host 200 1; set_parse_exec false; js_run no_host 200 1 : Parse Unit)
      (js_load for_init_break_src))).map (fun s => s.tok_cache_idx) = some 20 := by
  decide!

set_option maxRecDepth 100000 in
/-- C3, refuted as stated: in the counter program the third call `f()` does not
yield 3. -/
theorem closure_counter_third_call_is_not_three :
    js_value_of (js_eval_after no_host 200 3 (js_load closure_counter_src))
      ≠ some (.number 3) := by
  decide!

set_option maxRecDepth 100000 in
/-- C3, as amended: in the counter program each of the three calls `f()` yields
the number 1.  The closure holds the value `x` had when the inner function was
returned; every call declares `x` anew from that copy, and the update made by
`x += 1` goes with the call's frame. -/
theorem closure_counter_every_call_yields_one :
    js_value_of (js_eval_after no_host 200 1 (js_load closure_counter_src))
      = some (.number 1) ∧
    js_value_of (js_eval_after no_host 200 2 (js_load closure_counter_src))
      = some (.number 1) ∧
    js_value_of (js_eval_after no_host 200 3 (js_load closure_counter_src))
      = some (.number 1) := by
  decide!

set_option maxRecDepth 100000 in
/-- C9, at failing inputs: a `return` executed in the body of a `while` loop, or of
a classic `for` loop with a condition, makes the loop parse its condition once more
in skim mode, which yields undefined, and the call stops with the error
"Condition must be boolean" instead of yielding the returned value. -/
theorem return_inside_while_or_for_raises :
    js_error_of (js_eval_after no_host 200 1
      (js_load "function f(){ while (true) { return 1; } } f()"))
      = some (.throw "Condition must be boolean") ∧
    js_error_of (js_eval_after no_host 200 1
      (js_load "function f(){ for (let i = 0; i < 3; i += 1) { return 1; } } f()"))
      = some (.throw "Condition must be boolean") := by
  decide!

set_option maxRecDepth 100000 in
/-- C6, refuted as stated: the programs `break;`, `continue;` and `return 1;` run
to the end without error from a state with all flags clear, an undefined result
slot and an empty parameter buffer, and leave `mark_break`, `mark_continue`, and
`mark_return` with the result slot holding 1, respectively. -/
theorem top_level_break_continue_return_stay_set :
    (js_final (js_parse_script no_host 200 (js_load "break;"))).map
      (fun s => s.mark_break) = some true ∧
    (js_final (js_parse_script no_host 200 (js_load "continue;"))).map
      (fun s => s.mark_continue) = some true ∧
    (js_final (js_parse_script no_host 200 (js_load "return 1;"))).map
      (fun s => (s.mark_return, s.result)) = some (true, .number 1) := by
  decide!

/-! ## Footprints of the primitives -/

theorem pres_of_same {α : Type} {R : Rel} {m : Parse α} (h : Pres same_rel m) : Pres R m := by
  constructor
  intro s a s1 hm
  rw [h.run s a s1 hm]
  exact R.refl s

instance {α : Type} (m : Parse α) [ReadOnly m] : CursorOnly m := ⟨pres_of_same ReadOnly.pres⟩
instance {α : Type} (m : Parse α) [ReadOnly m] : StoreOnly m := ⟨pres_of_same ReadOnly.pres⟩
instance {α : Type} (m : Parse α) [ReadOnly m] : FlagsOnly m := ⟨pres_of_same ReadOnly.pres⟩

theorem pres_modify {R : Rel} {f : js → js} (h : ∀ s, R.r s (f s)) : Pres R (js_modify f) := by
  constructor
  intro s a s1 hm
  cases hm
  exact h s

instance {α : Type} (f : js_token → α) : ReadOnly (_tok_field f) :=
  ⟨⟨by
    intro s a s1 h
    simp only [_tok_field] at h
    split at h <;> cases h
    rfl⟩⟩

instance : ReadOnly _get_token_state :=
  ⟨⟨by
    intro s a s1 h
    simp only [_get_token_state] at h
    split at h <;> cases h <;> rfl⟩⟩

instance : ReadOnly _get_token_head :=
  ⟨⟨by
    intro s a s1 h
    simp only [_get_token_head] at h
    split at h <;> cases h
    rfl⟩⟩

instance : ReadOnly _get_token_length := by unfold _get_token_length; infer_instance
instance : ReadOnly _get_token_line := by unfold _get_token_line; infer_instance
instance : ReadOnly _get_token_number := by unfold _get_token_number; infer_instance

instance : CursorOnly _next_token := ⟨pres_modify fun _ => rfl⟩
instance (i : Nat) : CursorOnly (set_tok_cache_idx i) := ⟨pres_modify fun _ => rfl⟩
instance : ReadOnly _require_exec := ⟨⟨by intro s a s1 h; cases h; rfl⟩⟩
instance : ReadOnly js_get := ⟨⟨by intro s a s1 h; cases h; rfl⟩⟩

instance : ReadOnly js_stack_peek :=
  ⟨⟨by
    intro s a s1 h
    simp only [js_stack_peek] at h
    split at h <;> cases h
    rfl⟩⟩

instance (k : Bytes) (kl : Nat) : ReadOnly (js_variable_fetch k kl) :=
  ⟨⟨by
    intro s a s1 h
    simp only [js_variable_fetch] at h
    split at h <;> cases h
    rfl⟩⟩

instance (v : js_value) : ReadOnly (js_array_cell v) :=
  ⟨⟨by
    intro s a s1 h
    simp only [js_array_cell] at h
    split at h
    · split at h <;> cases h
      rfl
    · cases h⟩⟩

instance (v : js_value) : ReadOnly (js_object_cell v) :=
  ⟨⟨by
    intro s a s1 h
    simp only [js_object_cell] at h
    split at h
    · split at h <;> cases h
      rfl
    · cases h⟩⟩

instance (v : js_value) : ReadOnly (js_function_cell v) :=
  ⟨⟨by
    intro s a s1 h
    simp only [js_function_cell] at h
    split at h
    · split at h <;> cases h
      rfl
    · cases h⟩⟩

instance (b : Bool) : FlagsOnly (set_parse_exec b) := ⟨pres_modify fun _ => rfl⟩
instance (b : Bool) : FlagsOnly (set_mark_break b) := ⟨pres_modify fun _ => rfl⟩
instance (b : Bool) : FlagsOnly (set_mark_continue b) := ⟨pres_modify fun _ => rfl⟩
instance (b : Bool) : FlagsOnly (set_mark_return b) := ⟨pres_modify fun _ => rfl⟩
instance (v : js_value) : FlagsOnly (set_result v) := ⟨pres_modify fun _ => rfl⟩

instance (c : js_managed) : StoreOnly (js_alloc c) :=
  ⟨⟨by intro s a s1 h; cases h; exact ⟨rfl, rfl⟩⟩⟩

instance (h : Nat) (c : js_managed) : StoreOnly (js_heap_set h c) :=
  ⟨pres_modify fun _ => ⟨rfl, rfl⟩⟩

instance (k : Bytes) (kl : Nat) (v : js_value) : StoreOnly (js_variable_declare k kl v) :=
  ⟨⟨by
    intro s a s1 h
    simp only [js_variable_declare] at h
    split at h
    · cases h
    · rename_i f rest hst
      cases h
      exact ⟨rfl, by simp [hst]⟩⟩⟩

theorem stack_assign_params (k : Bytes) (v : js_value) :
    ∀ (st st1 : List js_stack_frame), stack_assign st k v = some st1 →
      st1.map (fun fr => fr.params) = st.map (fun fr => fr.params) := by
  intro st
  induction st with
  | nil => intro st1 h; cases h
  | cons f rest ih =>
    intro st1 h
    simp only [stack_assign] at h
    split at h
    · cases h; rfl
    · cases hr : stack_assign rest k v with
      | none => rw [hr] at h; cases h
      | some r =>
        rw [hr] at h
        cases h
        simp [ih r hr]

theorem stack_erase_params (k : Bytes) :
    ∀ (st st1 : List js_stack_frame), stack_erase st k = some st1 →
      st1.map (fun fr => fr.params) = st.map (fun fr => fr.params) := by
  intro st
  induction st with
  | nil => intro st1 h; cases h
  | cons f rest ih =>
    intro st1 h
    simp only [stack_erase] at h
    split at h
    · cases h; rfl
    · cases hr : stack_erase rest k with
      | none => rw [hr] at h; cases h
      | some r =>
        rw [hr] at h
        cases h
        simp [ih r hr]

theorem variable_assign_state (k : Bytes) (kl : Nat) (v : js_value) (s s1 : js)
    (h : js_variable_assign k kl v s = .ok ((), s1)) :
    ∃ st, stack_assign s.stack (k.take kl) v = some st ∧
      s1 = { s with heap := s1.heap, stack := st } ∧
      (s1.heap = s.heap ∨ ∃ f vars, s1.heap = heap_capture s.heap f vars) := by
  simp only [js_variable_assign] at h
  split at h
  · rename_i st hst
    refine ⟨st, hst, ?_⟩
    split at h
    · split at h
      · cases h
        exact ⟨rfl, .inr ⟨_, _, rfl⟩⟩
      · cases h
        exact ⟨rfl, .inl rfl⟩
    · cases h
      exact ⟨rfl, .inl rfl⟩
  · cases h

theorem variable_assign_safe (k : Bytes) (kl : Nat) (v : js_value) (s : js) :
    js_variable_assign k kl v s ≠ .error .token_out_of_range := by
  intro h
  simp only [js_variable_assign] at h
  split at h
  · split at h
    · split at h <;> cases h
    · cases h
  · cases h

theorem heap_capture_function (heap : List js_managed) (f : Nat) (vars : js_value_map)
    (i : Nat) (c : js_value_map) (h : js_managed.function i c ∈ heap_capture heap f vars) :
    ∃ c0, js_managed.function i c0 ∈ heap := by
  unfold heap_capture at h
  split at h
  · rename_i index closure hcell
    rcases List.mem_or_eq_of_mem_set h with hmem | hmem
    · exact ⟨c, hmem⟩
    · cases hmem
      exact ⟨closure, List.get?_mem hcell⟩
  · exact ⟨c, h⟩

instance (k : Bytes) (kl : Nat) (v : js_value) : StoreOnly (js_variable_assign k kl v) :=
  ⟨⟨by
    intro s a s1 h
    obtain ⟨st, hst, e, _⟩ := variable_assign_state k kl v s s1 h
    refine ⟨?_, ?_⟩
    · rw [e]
    · rw [e]
      exact stack_assign_params _ _ _ _ hst⟩⟩

instance (k : Bytes) (kl : Nat) : StoreOnly (js_variable_erase k kl) :=
  ⟨⟨by
    intro s a s1 h
    simp only [js_variable_erase] at h
    split at h
    · rename_i st hst
      cases h
      exact ⟨rfl, stack_erase_params _ _ _ hst⟩
    · cases h⟩⟩

/-! ## Rules for invariants -/

theorem triple_pure {α : Type} {A : js → Prop} {a : α} : Triple A (pure a : Parse α) A := by
  constructor
  intro s b s1 hA hm
  cases hm
  exact hA

theorem triple_bind {α β : Type} {A B C : js → Prop} {m : Parse α} {f : α → Parse β}
    (hm : Triple A m B) (hf : ∀ a, Triple B (f a) C) : Triple A (m >>= f) C := by
  constructor
  intro s b s2 hA h
  obtain ⟨a, s1, h1, h2⟩ := bind_ok h
  exact (hf a).run s1 b s2 (hm.run s a s1 hA h1) h2

theorem triple_throw {α : Type} {A B : js → Prop} {msg : String} :
    Triple A (js_throw msg : Parse α) B := by
  constructor; intro s a s1 _ h; cases h

theorem triple_stop {α : Type} {A B : js → Prop} {e : js_error} :
    Triple A (js_stop e : Parse α) B := by
  constructor; intro s a s1 _ h; cases h

theorem triple_ite {α : Type} {A B : js → Prop} {c : Prop} [Decidable c] {a b : Parse α}
    (ha : Triple A a B) (hb : Triple A b B) : Triple A (if c then a else b) B := by
  split
  · exact ha
  · exact hb

theorem triple_loop {σ α : Type} {A : js → Prop} {body : σ → Parse (σ ⊕ α)}
    (hb : ∀ x, Triple A (body x) A) : ∀ n x, Triple A (js_loop body n x) A := by
  intro n
  induction n with
  | zero => intro x; exact triple_stop
  | succ k ih =>
    intro x
    unfold js_loop
    apply triple_bind (hb x)
    intro r
    cases r with
    | inl x1 => exact ih x1
    | inr a => exact triple_pure

theorem triple_of_pres {α : Type} {R : Rel} {A : js → Prop} {m : Parse α}
    (hA : ∀ s s1, A s → R.r s s1 → A s1) (h : Pres R m) : Triple A m A := by
  constructor
  intro s a s1 hs hm
  exact hA s s1 hs (h.run s a s1 hm)

instance : ReadOnly _get_token_string_head := by
  constructor
  unfold _get_token_string_head
  with_reducible repeat' (first
    | intro _ | exact pres_pure | exact ReadOnly.pres | apply pres_bind | apply pres_ite | split)

instance : ReadOnly _get_token_string_length := by
  constructor
  unfold _get_token_string_length
  with_reducible repeat' (first
    | intro _ | exact pres_pure | exact ReadOnly.pres | apply pres_bind | apply pres_ite | split)

instance : ReadOnly js_parameter_length := by
  constructor
  unfold js_parameter_length
  with_reducible repeat' (first
    | intro _ | exact pres_pure | exact ReadOnly.pres | apply pres_bind | apply pres_ite | split)

instance (i : Nat) : ReadOnly (js_parameter_get i) := by
  constructor
  unfold js_parameter_get
  with_reducible repeat' (first
    | intro _ | exact pres_pure | exact ReadOnly.pres | apply pres_bind | apply pres_ite | split)

instance (v : js_value) (i : Nat) : ReadOnly (js_array_get v i) := by
  constructor
  unfold js_array_get
  with_reducible repeat' (first
    | intro _ | exact pres_pure | exact ReadOnly.pres | apply pres_bind | apply pres_ite | split)

instance (v : js_value) (k : Bytes) (kl : Nat) : ReadOnly (js_object_get v k kl) := by
  constructor
  unfold js_object_get
  with_reducible repeat' (first
    | intro _ | exact pres_pure | exact ReadOnly.pres | apply pres_bind | apply pres_ite | split)

instance (acc : _value_accessor) : ReadOnly (_accessor_get acc) := by
  constructor
  unfold _accessor_get
  with_reducible repeat' (first
    | intro _ | exact pres_pure | exact ReadOnly.pres | apply pres_bind | apply pres_ite | split)

instance (stat : js_token_state) : CursorOnly (_accept stat) := by
  constructor
  unfold _accept
  with_reducible repeat' (first
    | intro _ | exact pres_pure | exact CursorOnly.pres | apply pres_bind | apply pres_ite | split)

instance (stat : js_token_state) (msg : String) : CursorOnly (_expect stat msg) := by
  constructor
  unfold _expect
  with_reducible repeat' (first
    | intro _ | exact pres_pure | exact pres_throw | exact CursorOnly.pres
    | apply pres_bind | apply pres_ite | split)

instance : StoreOnly js_array := by
  constructor
  unfold js_array
  with_reducible repeat' (first
    | intro _ | exact pres_pure | exact StoreOnly.pres | apply pres_bind | apply pres_ite | split)

instance : StoreOnly js_object := by
  constructor
  unfold js_object
  with_reducible repeat' (first
    | intro _ | exact pres_pure | exact StoreOnly.pres | apply pres_bind | apply pres_ite | split)

instance (i : Nat) : StoreOnly (js_function i) := by
  constructor
  unfold js_function
  with_reducible repeat' (first
    | intro _ | exact pres_pure | exact StoreOnly.pres | apply pres_bind | apply pres_ite | split)

instance (a v : js_value) : StoreOnly (js_array_push a v) := by
  constructor
  unfold js_array_push
  with_reducible repeat' (first
    | intro _ | exact pres_pure | exact StoreOnly.pres | apply pres_bind | apply pres_ite | split)

instance (a v : js_value) (i : Nat) : StoreOnly (js_array_put a i v) := by
  constructor
  unfold js_array_put
  with_reducible repeat' (first
    | intro _ | exact pres_pure | exact StoreOnly.pres | apply pres_bind | apply pres_ite | split)

instance (o v : js_value) (k : Bytes) (kl : Nat) : StoreOnly (js_object_put o k kl v) := by
  constructor
  unfold js_object_put
  with_reducible repeat' (first
    | intro _ | exact pres_pure | exact StoreOnly.pres | apply pres_bind | apply pres_ite | split)

instance (acc : _value_accessor) (v : js_value) : StoreOnly (_accessor_put acc v) := by
  constructor
  unfold _accessor_put
  with_reducible repeat' (first
    | intro _ | exact pres_pure | exact pres_throw | exact StoreOnly.pres
    | apply pres_bind | apply pres_ite | split)

theorem triple_read_only {α : Type} {A : js → Prop} {m : Parse α} [ReadOnly m] :
    Triple A m A := by
  constructor
  intro s a s1 hs hm
  rw [(ReadOnly.pres (m := m)).run s a s1 hm]
  exact hs

theorem frames_of_cursor {X : Type} (g : List js_value → X) (s s1 : js)
    (h : cursor_rel.r s s1) : s1.frames g = s.frames g := by
  have h : s1 = { s with tok_cache_idx := s1.tok_cache_idx } := h
  rw [h]
  rfl

theorem frames_of_flags {X : Type} (g : List js_value → X) (s s1 : js)
    (h : flags_rel.r s s1) : s1.frames g = s.frames g := by
  have h : s1 =
      { s with
        parse_exec := s1.parse_exec
        mark_break := s1.mark_break
        mark_continue := s1.mark_continue
        mark_return := s1.mark_return
        result := s1.result } := h
  rw [h]
  rfl

theorem frames_of_store {X : Type} (g : List js_value → X) (s s1 : js)
    (h : store_rel.r s s1) : s1.frames g = s.frames g := by
  have h2 : s1.stack.map (fun fr => fr.params) = s.stack.map (fun fr => fr.params) := h.2
  have := congrArg (List.map g) h2
  simpa [js.frames, List.map_map, Function.comp] using this

theorem keeps_cursor {α X : Type} {g : List js_value → X} {t : List X} {m : Parse α}
    [CursorOnly m] : Triple (Keeps g t) m (Keeps g t) :=
  triple_of_pres (fun s s1 hs h => (frames_of_cursor g s s1 h).trans hs) CursorOnly.pres

theorem keeps_store {α X : Type} {g : List js_value → X} {t : List X} {m : Parse α}
    [StoreOnly m] : Triple (Keeps g t) m (Keeps g t) :=
  triple_of_pres (fun s s1 hs h => (frames_of_store g s s1 h).trans hs) StoreOnly.pres

theorem keeps_flags {α X : Type} {g : List js_value → X} {t : List X} {m : Parse α}
    [FlagsOnly m] : Triple (Keeps g t) m (Keeps g t) :=
  triple_of_pres (fun s s1 hs h => (frames_of_flags g s s1 h).trans hs) FlagsOnly.pres

theorem below_of_keeps {α X : Type} {g : List js_value → X} {t : List X} {m : Parse α}
    (h : ∀ t, Triple (Keeps g t) m (Keeps g t)) : Triple (KeepsBelow g t) m (KeepsBelow g t) := by
  constructor
  intro s a s1 hs hm
  obtain ⟨x, hx⟩ := hs
  exact ⟨x, (h (x :: t)).run s a s1 hx hm⟩

theorem below_cursor {α X : Type} {g : List js_value → X} {t : List X} {m : Parse α}
    [CursorOnly m] : Triple (KeepsBelow g t) m (KeepsBelow g t) :=
  below_of_keeps fun _ => keeps_cursor

theorem below_store {α X : Type} {g : List js_value → X} {t : List X} {m : Parse α}
    [StoreOnly m] : Triple (KeepsBelow g t) m (KeepsBelow g t) :=
  below_of_keeps fun _ => keeps_store

theorem below_flags {α X : Type} {g : List js_value → X} {t : List X} {m : Parse α}
    [FlagsOnly m] : Triple (KeepsBelow g t) m (KeepsBelow g t) :=
  below_of_keeps fun _ => keeps_flags

theorem keeps_stack_forward {X : Type} {g : List js_value → X} {t : List X} :
    Triple (Keeps g t) _stack_forward (KeepsBelow g t) := by
  constructor
  intro s a s1 hs hm
  unfold _stack_forward at hm
  obtain ⟨h, s2, h1, hm⟩ := bind_ok hm
  have e1 := (ReadOnly.pres (m := _tok_field fun t => t.h)).run s h s2 h1
  obtain ⟨t1, s3, h2, hm⟩ := bind_ok hm
  have e2 := (ReadOnly.pres (m := _tok_field fun t => t.t)).run s2 t1 s3 h2
  simp only [js_stack_forward, js_modify] at hm
  cases hm
  have e3 : s3 = s := e2.trans e1
  subst e3
  exact ⟨g [], by simp [js.frames] at hs ⊢; exact hs⟩

theorem below_stack_backward {X : Type} {g : List js_value → X} {t : List X} :
    Triple (KeepsBelow g t) js_stack_backward (Keeps g t) := by
  constructor
  intro s a s1 hs hm
  obtain ⟨x, hx⟩ := hs
  simp only [js_stack_backward] at hm
  split at hm
  · cases hm
  · rename_i fr rest hst
    cases hm
    simp only [js.frames, hst, List.map_cons, List.cons.injEq] at hx
    exact hx.2

theorem below_parameter_push {X : Type} {g : List js_value → X} {t : List X} {v : js_value} :
    Triple (KeepsBelow g t) (js_parameter_push v) (KeepsBelow g t) := by
  constructor
  intro s a s1 hs hm
  obtain ⟨x, hx⟩ := hs
  simp only [js_parameter_push] at hm
  split at hm
  · cases hm
  · rename_i fr rest hst
    cases hm
    simp only [js.frames, hst, List.map_cons, List.cons.injEq] at hx
    exact ⟨_, by simp only [js.frames, List.map_cons]; rw [hx.2]⟩

theorem below_call_result {X : Type} {g : List js_value → X} {t : List X}
    (acc : _value_accessor) : Triple (KeepsBelow g t) (_call_result acc) (Keeps g t) := by
  constructor
  intro s a s1 hs hm
  obtain ⟨x, hx⟩ := hs
  have hp := (call_result_post acc a s s1 hm).2.2.2.2.2.1
  simp only [Keeps, js.frames, hp] at hx ⊢
  cases hst : s.stack with
  | nil => rw [hst] at hx; cases hx
  | cons fr rest =>
    rw [hst] at hx
    simp only [List.map_cons, List.cons.injEq] at hx
    exact hx.2

theorem triple_bind_same {α β : Type} {A C : js → Prop} {m : Parse α} {f : α → Parse β}
    (hm : Triple A m A) (hf : ∀ a, Triple A (f a) C) : Triple A (m >>= f) C :=
  triple_bind hm hf

theorem for_each_spread_triple {A : js → Prop} {n : Nat} {spread : js_value}
    {f : js_value → Parse Unit} (hf : ∀ v, Triple A (f v) A) :
    Triple A (_for_each_spread n spread f) A := by
  unfold _for_each_spread
  apply triple_loop
  intro i
  with_reducible repeat' (first
    | intro _ | exact triple_pure | exact triple_read_only | exact hf _
    | apply triple_bind_same | apply triple_ite | split)

theorem map_for_each_triple {A : js → Prop} {f : Bytes → Nat → js_value → Parse Unit}
    (hf : ∀ k kl v, Triple A (f k kl v) A) :
    ∀ m, Triple A (js_value_map_for_each m f) A := by
  intro m
  induction m with
  | nil => exact triple_pure
  | cons e m ih =>
    obtain ⟨k, v⟩ := e
    unfold js_value_map_for_each
    exact triple_bind (hf _ _ _) (fun _ => ih)

/-! ## Every parse function returns with the frames it found -/

theorem frames_parse_statements {X : Type} (g : List js_value → X) (n : Nat) (rec : Parsers)
    (hrec : rec.Keeps g) (t : List X) :
    Triple (Keeps g t) (_parse_statements n rec) (Keeps g t) := by
  unfold _parse_statements
  with_reducible repeat' (first
    | intro _
    | exact triple_pure | exact triple_throw | exact triple_stop
    | exact triple_read_only
    | exact keeps_cursor | exact keeps_store | exact keeps_flags
    | exact below_cursor | exact below_store | exact below_flags
    | exact keeps_stack_forward | exact below_stack_backward | exact below_parameter_push
    | exact below_call_result _
    | exact hrec.statement _ | exact hrec.expression _ | exact hrec.additive _
    | exact below_of_keeps hrec.statement | exact below_of_keeps hrec.expression
    | exact below_of_keeps hrec.additive
    | apply for_each_spread_triple | apply map_for_each_triple | apply triple_loop
    | apply triple_bind keeps_stack_forward | apply triple_bind below_stack_backward
    | apply triple_bind (below_call_result _)
    | apply triple_bind_same | apply triple_ite | split)

theorem frames_parse_function {X : Type} (g : List js_value → X) (n : Nat) (rec : Parsers)
    (hrec : rec.Keeps g) (t : List X) :
    Triple (Keeps g t) (_parse_function n rec) (Keeps g t) := by
  unfold _parse_function
  with_reducible repeat' (first
    | intro _
    | exact triple_pure | exact triple_throw | exact triple_stop
    | exact triple_read_only
    | exact keeps_cursor | exact keeps_store | exact keeps_flags
    | exact below_cursor | exact below_store | exact below_flags
    | exact keeps_stack_forward | exact below_stack_backward | exact below_parameter_push
    | exact below_call_result _
    | exact hrec.statement _ | exact hrec.expression _ | exact hrec.additive _
    | exact below_of_keeps hrec.statement | exact below_of_keeps hrec.expression
    | exact below_of_keeps hrec.additive
    | exact frames_parse_statements g n rec hrec _ | exact below_of_keeps (frames_parse_statements g n rec hrec)
    | apply for_each_spread_triple | apply map_for_each_triple | apply triple_loop
    | apply triple_bind keeps_stack_forward | apply triple_bind below_stack_backward
    | apply triple_bind (below_call_result _)
    | apply triple_bind_same | apply triple_ite | split)

theorem frames_parse_value {X : Type} (g : List js_value → X) (n : Nat) (rec : Parsers)
    (hrec : rec.Keeps g) (t : List X) :
    Triple (Keeps g t) (_parse_value n rec) (Keeps g t) := by
  unfold _parse_value
  with_reducible repeat' (first
    | intro _
    | exact triple_pure | exact triple_throw | exact triple_stop
    | exact triple_read_only
    | exact keeps_cursor | exact keeps_store | exact keeps_flags
    | exact below_cursor | exact below_store | exact below_flags
    | exact keeps_stack_forward | exact below_stack_backward | exact below_parameter_push
    | exact below_call_result _
    | exact hrec.statement _ | exact hrec.expression _ | exact hrec.additive _
    | exact below_of_keeps hrec.statement | exact below_of_keeps hrec.expression
    | exact below_of_keeps hrec.additive
    | exact frames_parse_statements g n rec hrec _ | exact below_of_keeps (frames_parse_statements g n rec hrec)
    | exact frames_parse_function g n rec hrec _ | exact below_of_keeps (frames_parse_function g n rec hrec)
    | apply for_each_spread_triple | apply map_for_each_triple | apply triple_loop
    | apply triple_bind keeps_stack_forward | apply triple_bind below_stack_backward
    | apply triple_bind (below_call_result _)
    | apply triple_bind_same | apply triple_ite | split)

theorem frames_parse_call_arguments {X : Type} (g : List js_value → X) (n : Nat) (rec : Parsers)
    (hrec : rec.Keeps g) (t : List X) :
    Triple (KeepsBelow g t) (_parse_call_arguments n rec) (KeepsBelow g t) := by
  unfold _parse_call_arguments
  with_reducible repeat' (first
    | intro _
    | exact triple_pure | exact triple_throw | exact triple_stop
    | exact triple_read_only
    | exact keeps_cursor | exact keeps_store | exact keeps_flags
    | exact below_cursor | exact below_store | exact below_flags
    | exact keeps_stack_forward | exact below_stack_backward | exact below_parameter_push
    | exact below_call_result _
    | exact hrec.statement _ | exact hrec.expression _ | exact hrec.additive _
    | exact below_of_keeps hrec.statement | exact below_of_keeps hrec.expression
    | exact below_of_keeps hrec.additive
    | exact frames_parse_statements g n rec hrec _ | exact below_of_keeps (frames_parse_statements g n rec hrec)
    | exact frames_parse_function g n rec hrec _ | exact below_of_keeps (frames_parse_function g n rec hrec)
    | exact frames_parse_value g n rec hrec _ | exact below_of_keeps (frames_parse_value g n rec hrec)
    | apply for_each_spread_triple | apply map_for_each_triple | apply triple_loop
    | apply triple_bind keeps_stack_forward | apply triple_bind below_stack_backward
    | apply triple_bind (below_call_result _)
    | apply triple_bind_same | apply triple_ite | split)

theorem frames_call_callee {X : Type} (g : List js_value → X) (host : Host) (n : Nat) (rec : Parsers) (callee : js_value)
    (hrec : rec.Keeps g) (hhost : HostKeeps g host) (t : List X) :
    Triple (KeepsBelow g t) (_call_callee host n rec callee) (KeepsBelow g t) := by
  unfold _call_callee
  with_reducible repeat' (first
    | intro _
    | exact triple_pure | exact triple_throw | exact triple_stop
    | exact triple_read_only
    | exact keeps_cursor | exact keeps_store | exact keeps_flags
    | exact below_cursor | exact below_store | exact below_flags
    | exact keeps_stack_forward | exact below_stack_backward | exact below_parameter_push
    | exact below_call_result _
    | exact hrec.statement _ | exact hrec.expression _ | exact hrec.additive _
    | exact below_of_keeps hrec.statement | exact below_of_keeps hrec.expression
    | exact below_of_keeps hrec.additive
    | exact hhost.run _ _
    | exact frames_parse_statements g n rec hrec _ | exact below_of_keeps (frames_parse_statements g n rec hrec)
    | exact frames_parse_function g n rec hrec _ | exact below_of_keeps (frames_parse_function g n rec hrec)
    | exact frames_parse_value g n rec hrec _ | exact below_of_keeps (frames_parse_value g n rec hrec)
    | exact frames_parse_call_arguments g n rec hrec _
    | apply for_each_spread_triple | apply map_for_each_triple | apply triple_loop
    | apply triple_bind keeps_stack_forward | apply triple_bind below_stack_backward
    | apply triple_bind (below_call_result _)
    | apply triple_bind_same | apply triple_ite | split)

theorem frames_parse_accessor {X : Type} (g : List js_value → X) (host : Host) (n : Nat) (rec : Parsers)
    (hrec : rec.Keeps g) (hhost : HostKeeps g host) (t : List X) :
    Triple (Keeps g t) (_parse_accessor host n rec) (Keeps g t) := by
  unfold _parse_accessor
  with_reducible repeat' (first
    | intro _
    | exact triple_pure | exact triple_throw | exact triple_stop
    | exact triple_read_only
    | exact keeps_cursor | exact keeps_store | exact keeps_flags
    | exact below_cursor | exact below_store | exact below_flags
    | exact keeps_stack_forward | exact below_stack_backward | exact below_parameter_push
    | exact below_call_result _
    | exact hrec.statement _ | exact hrec.expression _ | exact hrec.additive _
    | exact below_of_keeps hrec.statement | exact below_of_keeps hrec.expression
    | exact below_of_keeps hrec.additive
    | exact hhost.run _ _
    | exact frames_parse_statements g n rec hrec _ | exact below_of_keeps (frames_parse_statements g n rec hrec)
    | exact frames_parse_function g n rec hrec _ | exact below_of_keeps (frames_parse_function g n rec hrec)
    | exact frames_parse_value g n rec hrec _ | exact below_of_keeps (frames_parse_value g n rec hrec)
    | exact frames_parse_call_arguments g n rec hrec _
    | exact frames_call_callee g host n rec _ hrec hhost _
    | apply for_each_spread_triple | apply map_for_each_triple | apply triple_loop
    | apply triple_bind keeps_stack_forward | apply triple_bind below_stack_backward
    | apply triple_bind (below_call_result _)
    | apply triple_bind_same | apply triple_ite | split)

theorem frames_parse_access_call_expression {X : Type} (g : List js_value → X) (host : Host) (n : Nat) (rec : Parsers)
    (hrec : rec.Keeps g) (hhost : HostKeeps g host) (t : List X) :
    Triple (Keeps g t) (_parse_access_call_expression host n rec) (Keeps g t) := by
  unfold _parse_access_call_expression
  with_reducible repeat' (first
    | intro _
    | exact triple_pure | exact triple_throw | exact triple_stop
    | exact triple_read_only
    | exact keeps_cursor | exact keeps_store | exact keeps_flags
    | exact below_cursor | exact below_store | exact below_flags
    | exact keeps_stack_forward | exact below_stack_backward | exact below_parameter_push
    | exact below_call_result _
    | exact hrec.statement _ | exact hrec.expression _ | exact hrec.additive _
    | exact below_of_keeps hrec.statement | exact below_of_keeps hrec.expression
    | exact below_of_keeps hrec.additive
    | exact hhost.run _ _
    | exact frames_parse_statements g n rec hrec _ | exact below_of_keeps (frames_parse_statements g n rec hrec)
    | exact frames_parse_function g n rec hrec _ | exact below_of_keeps (frames_parse_function g n rec hrec)
    | exact frames_parse_value g n rec hrec _ | exact below_of_keeps (frames_parse_value g n rec hrec)
    | exact frames_parse_call_arguments g n rec hrec _
    | exact frames_call_callee g host n rec _ hrec hhost _
    | exact frames_parse_accessor g host n rec hrec hhost _ | exact below_of_keeps (frames_parse_accessor g host n rec hrec hhost)
    | apply for_each_spread_triple | apply map_for_each_triple | apply triple_loop
    | apply triple_bind keeps_stack_forward | apply triple_bind below_stack_backward
    | apply triple_bind (below_call_result _)
    | apply triple_bind_same | apply triple_ite | split)

theorem frames_parse_prefix_expression {X : Type} (g : List js_value → X) (host : Host) (n : Nat) (rec : Parsers)
    (hrec : rec.Keeps g) (hhost : HostKeeps g host) (t : List X) :
    Triple (Keeps g t) (_parse_prefix_expression host n rec) (Keeps g t) := by
  unfold _parse_prefix_expression
  with_reducible repeat' (first
    | intro _
    | exact triple_pure | exact triple_throw | exact triple_stop
    | exact triple_read_only
    | exact keeps_cursor | exact keeps_store | exact keeps_flags
    | exact below_cursor | exact below_store | exact below_flags
    | exact keeps_stack_forward | exact below_stack_backward | exact below_parameter_push
    | exact below_call_result _
    | exact hrec.statement _ | exact hrec.expression _ | exact hrec.additive _
    | exact below_of_keeps hrec.statement | exact below_of_keeps hrec.expression
    | exact below_of_keeps hrec.additive
    | exact hhost.run _ _
    | exact frames_parse_statements g n rec hrec _ | exact below_of_keeps (frames_parse_statements g n rec hrec)
    | exact frames_parse_function g n rec hrec _ | exact below_of_keeps (frames_parse_function g n rec hrec)
    | exact frames_parse_value g n rec hrec _ | exact below_of_keeps (frames_parse_value g n rec hrec)
    | exact frames_parse_call_arguments g n rec hrec _
    | exact frames_call_callee g host n rec _ hrec hhost _
    | exact frames_parse_accessor g host n rec hrec hhost _ | exact below_of_keeps (frames_parse_accessor g host n rec hrec hhost)
    | exact frames_parse_access_call_expression g host n rec hrec hhost _ | exact below_of_keeps (frames_parse_access_call_expression g host n rec hrec hhost)
    | apply for_each_spread_triple | apply map_for_each_triple | apply triple_loop
    | apply triple_bind keeps_stack_forward | apply triple_bind below_stack_backward
    | apply triple_bind (below_call_result _)
    | apply triple_bind_same | apply triple_ite | split)

theorem frames_parse_multiplicative_expression {X : Type} (g : List js_value → X) (host : Host) (n : Nat) (rec : Parsers)
    (hrec : rec.Keeps g) (hhost : HostKeeps g host) (t : List X) :
    Triple (Keeps g t) (_parse_multiplicative_expression host n rec) (Keeps g t) := by
  unfold _parse_multiplicative_expression
  with_reducible repeat' (first
    | intro _
    | exact triple_pure | exact triple_throw | exact triple_stop
    | exact triple_read_only
    | exact keeps_cursor | exact keeps_store | exact keeps_flags
    | exact below_cursor | exact below_store | exact below_flags
    | exact keeps_stack_forward | exact below_stack_backward | exact below_parameter_push
    | exact below_call_result _
    | exact hrec.statement _ | exact hrec.expression _ | exact hrec.additive _
    | exact below_of_keeps hrec.statement | exact below_of_keeps hrec.expression
    | exact below_of_keeps hrec.additive
    | exact hhost.run _ _
    | exact frames_parse_statements g n rec hrec _ | exact below_of_keeps (frames_parse_statements g n rec hrec)
    | exact frames_parse_function g n rec hrec _ | exact below_of_keeps (frames_parse_function g n rec hrec)
    | exact frames_parse_value g n rec hrec _ | exact below_of_keeps (frames_parse_value g n rec hrec)
    | exact frames_parse_call_arguments g n rec hrec _
    | exact frames_call_callee g host n rec _ hrec hhost _
    | exact frames_parse_accessor g host n rec hrec hhost _ | exact below_of_keeps (frames_parse_accessor g host n rec hrec hhost)
    | exact frames_parse_access_call_expression g host n rec hrec hhost _ | exact below_of_keeps (frames_parse_access_call_expression g host n rec hrec hhost)
    | exact frames_parse_prefix_expression g host n rec hrec hhost _ | exact below_of_keeps (frames_parse_prefix_expression g host n rec hrec hhost)
    | apply for_each_spread_triple | apply map_for_each_triple | apply triple_loop
    | apply triple_bind keeps_stack_forward | apply triple_bind below_stack_backward
    | apply triple_bind (below_call_result _)
    | apply triple_bind_same | apply triple_ite | split)

theorem frames_parse_additive_expression {X : Type} (g : List js_value → X) (host : Host) (n : Nat) (rec : Parsers)
    (hrec : rec.Keeps g) (hhost : HostKeeps g host) (t : List X) :
    Triple (Keeps g t) (_parse_additive_expression host n rec) (Keeps g t) := by
  unfold _parse_additive_expression
  with_reducible repeat' (first
    | intro _
    | exact triple_pure | exact triple_throw | exact triple_stop
    | exact triple_read_only
    | exact keeps_cursor | exact keeps_store | exact keeps_flags
    | exact below_cursor | exact below_store | exact below_flags
    | exact keeps_stack_forward | exact below_stack_backward | exact below_parameter_push
    | exact below_call_result _
    | exact hrec.statement _ | exact hrec.expression _ | exact hrec.additive _
    | exact below_of_keeps hrec.statement | exact below_of_keeps hrec.expression
    | exact below_of_keeps hrec.additive
    | exact hhost.run _ _
    | exact frames_parse_statements g n rec hrec _ | exact below_of_keeps (frames_parse_statements g n rec hrec)
    | exact frames_parse_function g n rec hrec _ | exact below_of_keeps (frames_parse_function g n rec hrec)
    | exact frames_parse_value g n rec hrec _ | exact below_of_keeps (frames_parse_value g n rec hrec)
    | exact frames_parse_call_arguments g n rec hrec _
    | exact frames_call_callee g host n rec _ hrec hhost _
    | exact frames_parse_accessor g host n rec hrec hhost _ | exact below_of_keeps (frames_parse_accessor g host n rec hrec hhost)
    | exact frames_parse_access_call_expression g host n rec hrec hhost _ | exact below_of_keeps (frames_parse_access_call_expression g host n rec hrec hhost)
    | exact frames_parse_prefix_expression g host n rec hrec hhost _ | exact below_of_keeps (frames_parse_prefix_expression g host n rec hrec hhost)
    | exact frames_parse_multiplicative_expression g host n rec hrec hhost _ | exact below_of_keeps (frames_parse_multiplicative_expression g host n rec hrec hhost)
    | apply for_each_spread_triple | apply map_for_each_triple | apply triple_loop
    | apply triple_bind keeps_stack_forward | apply triple_bind below_stack_backward
    | apply triple_bind (below_call_result _)
    | apply triple_bind_same | apply triple_ite | split)

theorem frames_parse_relational_expression {X : Type} (g : List js_value → X) (host : Host) (n : Nat) (rec : Parsers)
    (hrec : rec.Keeps g) (hhost : HostKeeps g host) (t : List X) :
    Triple (Keeps g t) (_parse_relational_expression host n rec) (Keeps g t) := by
  unfold _parse_relational_expression
  with_reducible repeat' (first
    | intro _
    | exact triple_pure | exact triple_throw | exact triple_stop
    | exact triple_read_only
    | exact keeps_cursor | exact keeps_store | exact keeps_flags
    | exact below_cursor | exact below_store | exact below_flags
    | exact keeps_stack_forward | exact below_stack_backward | exact below_parameter_push
    | exact below_call_result _
    | exact hrec.statement _ | exact hrec.expression _ | exact hrec.additive _
    | exact below_of_keeps hrec.statement | exact below_of_keeps hrec.expression
    | exact below_of_keeps hrec.additive
    | exact hhost.run _ _
    | exact frames_parse_statements g n rec hrec _ | exact below_of_keeps (frames_parse_statements g n rec hrec)
    | exact frames_parse_function g n rec hrec _ | exact below_of_keeps (frames_parse_function g n rec hrec)
    | exact frames_parse_value g n rec hrec _ | exact below_of_keeps (frames_parse_value g n rec hrec)
    | exact frames_parse_call_arguments g n rec hrec _
    | exact frames_call_callee g host n rec _ hrec hhost _
    | exact frames_parse_accessor g host n rec hrec hhost _ | exact below_of_keeps (frames_parse_accessor g host n rec hrec hhost)
    | exact frames_parse_access_call_expression g host n rec hrec hhost _ | exact below_of_keeps (frames_parse_access_call_expression g host n rec hrec hhost)
    | exact frames_parse_prefix_expression g host n rec hrec hhost _ | exact below_of_keeps (frames_parse_prefix_expression g host n rec hrec hhost)
    | exact frames_parse_multiplicative_expression g host n rec hrec hhost _ | exact below_of_keeps (frames_parse_multiplicative_expression g host n rec hrec hhost)
    | exact frames_parse_additive_expression g host n rec hrec hhost _ | exact below_of_keeps (frames_parse_additive_expression g host n rec hrec hhost)
    | apply for_each_spread_triple | apply map_for_each_triple | apply triple_loop
    | apply triple_bind keeps_stack_forward | apply triple_bind below_stack_backward
    | apply triple_bind (below_call_result _)
    | apply triple_bind_same | apply triple_ite | split)

theorem frames_parse_logical_expression {X : Type} (g : List js_value → X) (host : Host) (n : Nat) (rec : Parsers)
    (hrec : rec.Keeps g) (hhost : HostKeeps g host) (t : List X) :
    Triple (Keeps g t) (_parse_logical_expression host n rec) (Keeps g t) := by
  unfold _parse_logical_expression
  with_reducible repeat' (first
    | intro _
    | exact triple_pure | exact triple_throw | exact triple_stop
    | exact triple_read_only
    | exact keeps_cursor | exact keeps_store | exact keeps_flags
    | exact below_cursor | exact below_store | exact below_flags
    | exact keeps_stack_forward | exact below_stack_backward | exact below_parameter_push
    | exact below_call_result _
    | exact hrec.statement _ | exact hrec.expression _ | exact hrec.additive _
    | exact below_of_keeps hrec.statement | exact below_of_keeps hrec.expression
    | exact below_of_keeps hrec.additive
    | exact hhost.run _ _
    | exact frames_parse_statements g n rec hrec _ | exact below_of_keeps (frames_parse_statements g n rec hrec)
    | exact frames_parse_function g n rec hrec _ | exact below_of_keeps (frames_parse_function g n rec hrec)
    | exact frames_parse_value g n rec hrec _ | exact below_of_keeps (frames_parse_value g n rec hrec)
    | exact frames_parse_call_arguments g n rec hrec _
    | exact frames_call_callee g host n rec _ hrec hhost _
    | exact frames_parse_accessor g host n rec hrec hhost _ | exact below_of_keeps (frames_parse_accessor g host n rec hrec hhost)
    | exact frames_parse_access_call_expression g host n rec hrec hhost _ | exact below_of_keeps (frames_parse_access_call_expression g host n rec hrec hhost)
    | exact frames_parse_prefix_expression g host n rec hrec hhost _ | exact below_of_keeps (frames_parse_prefix_expression g host n rec hrec hhost)
    | exact frames_parse_multiplicative_expression g host n rec hrec hhost _ | exact below_of_keeps (frames_parse_multiplicative_expression g host n rec hrec hhost)
    | exact frames_parse_additive_expression g host n rec hrec hhost _ | exact below_of_keeps (frames_parse_additive_expression g host n rec hrec hhost)
    | exact frames_parse_relational_expression g host n rec hrec hhost _ | exact below_of_keeps (frames_parse_relational_expression g host n rec hrec hhost)
    | apply for_each_spread_triple | apply map_for_each_triple | apply triple_loop
    | apply triple_bind keeps_stack_forward | apply triple_bind below_stack_backward
    | apply triple_bind (below_call_result _)
    | apply triple_bind_same | apply triple_ite | split)

theorem frames_js_parse_expression {X : Type} (g : List js_value → X) (host : Host) (n : Nat) (rec : Parsers)
    (hrec : rec.Keeps g) (hhost : HostKeeps g host) (t : List X) :
    Triple (Keeps g t) (js_parse_expression host n rec) (Keeps g t) := by
  unfold js_parse_expression
  with_reducible repeat' (first
    | intro _
    | exact triple_pure | exact triple_throw | exact triple_stop
    | exact triple_read_only
    | exact keeps_cursor | exact keeps_store | exact keeps_flags
    | exact below_cursor | exact below_store | exact below_flags
    | exact keeps_stack_forward | exact below_stack_backward | exact below_parameter_push
    | exact below_call_result _
    | exact hrec.statement _ | exact hrec.expression _ | exact hrec.additive _
    | exact below_of_keeps hrec.statement | exact below_of_keeps hrec.expression
    | exact below_of_keeps hrec.additive
    | exact hhost.run _ _
    | exact frames_parse_statements g n rec hrec _ | exact below_of_keeps (frames_parse_statements g n rec hrec)
    | exact frames_parse_function g n rec hrec _ | exact below_of_keeps (frames_parse_function g n rec hrec)
    | exact frames_parse_value g n rec hrec _ | exact below_of_keeps (frames_parse_value g n rec hrec)
    | exact frames_parse_call_arguments g n rec hrec _
    | exact frames_call_callee g host n rec _ hrec hhost _
    | exact frames_parse_accessor g host n rec hrec hhost _ | exact below_of_keeps (frames_parse_accessor g host n rec hrec hhost)
    | exact frames_parse_access_call_expression g host n rec hrec hhost _ | exact below_of_keeps (frames_parse_access_call_expression g host n rec hrec hhost)
    | exact frames_parse_prefix_expression g host n rec hrec hhost _ | exact below_of_keeps (frames_parse_prefix_expression g host n rec hrec hhost)
    | exact frames_parse_multiplicative_expression g host n rec hrec hhost _ | exact below_of_keeps (frames_parse_multiplicative_expression g host n rec hrec hhost)
    | exact frames_parse_additive_expression g host n rec hrec hhost _ | exact below_of_keeps (frames_parse_additive_expression g host n rec hrec hhost)
    | exact frames_parse_relational_expression g host n rec hrec hhost _ | exact below_of_keeps (frames_parse_relational_expression g host n rec hrec hhost)
    | exact frames_parse_logical_expression g host n rec hrec hhost _ | exact below_of_keeps (frames_parse_logical_expression g host n rec hrec hhost)
    | apply for_each_spread_triple | apply map_for_each_triple | apply triple_loop
    | apply triple_bind keeps_stack_forward | apply triple_bind below_stack_backward
    | apply triple_bind (below_call_result _)
    | apply triple_bind_same | apply triple_ite | split)

theorem frames_parse_assignment_expression {X : Type} (g : List js_value → X) (host : Host) (n : Nat) (rec : Parsers)
    (hrec : rec.Keeps g) (hhost : HostKeeps g host) (t : List X) :
    Triple (Keeps g t) (_parse_assignment_expression host n rec) (Keeps g t) := by
  unfold _parse_assignment_expression
  with_reducible repeat' (first
    | intro _
    | exact triple_pure | exact triple_throw | exact triple_stop
    | exact triple_read_only
    | exact keeps_cursor | exact keeps_store | exact keeps_flags
    | exact below_cursor | exact below_store | exact below_flags
    | exact keeps_stack_forward | exact below_stack_backward | exact below_parameter_push
    | exact below_call_result _
    | exact hrec.statement _ | exact hrec.expression _ | exact hrec.additive _
    | exact below_of_keeps hrec.statement | exact below_of_keeps hrec.expression
    | exact below_of_keeps hrec.additive
    | exact hhost.run _ _
    | exact frames_parse_statements g n rec hrec _ | exact below_of_keeps (frames_parse_statements g n rec hrec)
    | exact frames_parse_function g n rec hrec _ | exact below_of_keeps (frames_parse_function g n rec hrec)
    | exact frames_parse_value g n rec hrec _ | exact below_of_keeps (frames_parse_value g n rec hrec)
    | exact frames_parse_call_arguments g n rec hrec _
    | exact frames_call_callee g host n rec _ hrec hhost _
    | exact frames_parse_accessor g host n rec hrec hhost _ | exact below_of_keeps (frames_parse_accessor g host n rec hrec hhost)
    | exact frames_parse_access_call_expression g host n rec hrec hhost _ | exact below_of_keeps (frames_parse_access_call_expression g host n rec hrec hhost)
    | exact frames_parse_prefix_expression g host n rec hrec hhost _ | exact below_of_keeps (frames_parse_prefix_expression g host n rec hrec hhost)
    | exact frames_parse_multiplicative_expression g host n rec hrec hhost _ | exact below_of_keeps (frames_parse_multiplicative_expression g host n rec hrec hhost)
    | exact frames_parse_additive_expression g host n rec hrec hhost _ | exact below_of_keeps (frames_parse_additive_expression g host n rec hrec hhost)
    | exact frames_parse_relational_expression g host n rec hrec hhost _ | exact below_of_keeps (frames_parse_relational_expression g host n rec hrec hhost)
    | exact frames_parse_logical_expression g host n rec hrec hhost _ | exact below_of_keeps (frames_parse_logical_expression g host n rec hrec hhost)
    | exact frames_js_parse_expression g host n rec hrec hhost _ | exact below_of_keeps (frames_js_parse_expression g host n rec hrec hhost)
    | apply for_each_spread_triple | apply map_for_each_triple | apply triple_loop
    | apply triple_bind keeps_stack_forward | apply triple_bind below_stack_backward
    | apply triple_bind (below_call_result _)
    | apply triple_bind_same | apply triple_ite | split)

theorem frames_parse_declaration_expression {X : Type} (g : List js_value → X) (host : Host) (n : Nat) (rec : Parsers)
    (hrec : rec.Keeps g) (hhost : HostKeeps g host) (t : List X) :
    Triple (Keeps g t) (_parse_declaration_expression host n rec) (Keeps g t) := by
  unfold _parse_declaration_expression
  with_reducible repeat' (first
    | intro _
    | exact triple_pure | exact triple_throw | exact triple_stop
    | exact triple_read_only
    | exact keeps_cursor | exact keeps_store | exact keeps_flags
    | exact below_cursor | exact below_store | exact below_flags
    | exact keeps_stack_forward | exact below_stack_backward | exact below_parameter_push
    | exact below_call_result _
    | exact hrec.statement _ | exact hrec.expression _ | exact hrec.additive _
    | exact below_of_keeps hrec.statement | exact below_of_keeps hrec.expression
    | exact below_of_keeps hrec.additive
    | exact hhost.run _ _
    | exact frames_parse_statements g n rec hrec _ | exact below_of_keeps (frames_parse_statements g n rec hrec)
    | exact frames_parse_function g n rec hrec _ | exact below_of_keeps (frames_parse_function g n rec hrec)
    | exact frames_parse_value g n rec hrec _ | exact below_of_keeps (frames_parse_value g n rec hrec)
    | exact frames_parse_call_arguments g n rec hrec _
    | exact frames_call_callee g host n rec _ hrec hhost _
    | exact frames_parse_accessor g host n rec hrec hhost _ | exact below_of_keeps (frames_parse_accessor g host n rec hrec hhost)
    | exact frames_parse_access_call_expression g host n rec hrec hhost _ | exact below_of_keeps (frames_parse_access_call_expression g host n rec hrec hhost)
    | exact frames_parse_prefix_expression g host n rec hrec hhost _ | exact below_of_keeps (frames_parse_prefix_expression g host n rec hrec hhost)
    | exact frames_parse_multiplicative_expression g host n rec hrec hhost _ | exact below_of_keeps (frames_parse_multiplicative_expression g host n rec hrec hhost)
    | exact frames_parse_additive_expression g host n rec hrec hhost _ | exact below_of_keeps (frames_parse_additive_expression g host n rec hrec hhost)
    | exact frames_parse_relational_expression g host n rec hrec hhost _ | exact below_of_keeps (frames_parse_relational_expression g host n rec hrec hhost)
    | exact frames_parse_logical_expression g host n rec hrec hhost _ | exact below_of_keeps (frames_parse_logical_expression g host n rec hrec hhost)
    | exact frames_js_parse_expression g host n rec hrec hhost _ | exact below_of_keeps (frames_js_parse_expression g host n rec hrec hhost)
    | exact frames_parse_assignment_expression g host n rec hrec hhost _ | exact below_of_keeps (frames_parse_assignment_expression g host n rec hrec hhost)
    | apply for_each_spread_triple | apply map_for_each_triple | apply triple_loop
    | apply triple_bind keeps_stack_forward | apply triple_bind below_stack_backward
    | apply triple_bind (below_call_result _)
    | apply triple_bind_same | apply triple_ite | split)

theorem frames_parse_classic_for {X : Type} (g : List js_value → X) (host : Host) (n : Nat) (rec : Parsers)
    (hrec : rec.Keeps g) (hhost : HostKeeps g host) (t : List X) :
    Triple (Keeps g t) (_parse_classic_for host n rec) (Keeps g t) := by
  unfold _parse_classic_for
  with_reducible repeat' (first
    | intro _
    | exact triple_pure | exact triple_throw | exact triple_stop
    | exact triple_read_only
    | exact keeps_cursor | exact keeps_store | exact keeps_flags
    | exact below_cursor | exact below_store | exact below_flags
    | exact keeps_stack_forward | exact below_stack_backward | exact below_parameter_push
    | exact below_call_result _
    | exact hrec.statement _ | exact hrec.expression _ | exact hrec.additive _
    | exact below_of_keeps hrec.statement | exact below_of_keeps hrec.expression
    | exact below_of_keeps hrec.additive
    | exact hhost.run _ _
    | exact frames_parse_statements g n rec hrec _ | exact below_of_keeps (frames_parse_statements g n rec hrec)
    | exact frames_parse_function g n rec hrec _ | exact below_of_keeps (frames_parse_function g n rec hrec)
    | exact frames_parse_value g n rec hrec _ | exact below_of_keeps (frames_parse_value g n rec hrec)
    | exact frames_parse_call_arguments g n rec hrec _
    | exact frames_call_callee g host n rec _ hrec hhost _
    | exact frames_parse_accessor g host n rec hrec hhost _ | exact below_of_keeps (frames_parse_accessor g host n rec hrec hhost)
    | exact frames_parse_access_call_expression g host n rec hrec hhost _ | exact below_of_keeps (frames_parse_access_call_expression g host n rec hrec hhost)
    | exact frames_parse_prefix_expression g host n rec hrec hhost _ | exact below_of_keeps (frames_parse_prefix_expression g host n rec hrec hhost)
    | exact frames_parse_multiplicative_expression g host n rec hrec hhost _ | exact below_of_keeps (frames_parse_multiplicative_expression g host n rec hrec hhost)
    | exact frames_parse_additive_expression g host n rec hrec hhost _ | exact below_of_keeps (frames_parse_additive_expression g host n rec hrec hhost)
    | exact frames_parse_relational_expression g host n rec hrec hhost _ | exact below_of_keeps (frames_parse_relational_expression g host n rec hrec hhost)
    | exact frames_parse_logical_expression g host n rec hrec hhost _ | exact below_of_keeps (frames_parse_logical_expression g host n rec hrec hhost)
    | exact frames_js_parse_expression g host n rec hrec hhost _ | exact below_of_keeps (frames_js_parse_expression g host n rec hrec hhost)
    | exact frames_parse_assignment_expression g host n rec hrec hhost _ | exact below_of_keeps (frames_parse_assignment_expression g host n rec hrec hhost)
    | exact frames_parse_declaration_expression g host n rec hrec hhost _ | exact below_of_keeps (frames_parse_declaration_expression g host n rec hrec hhost)
    | apply for_each_spread_triple | apply map_for_each_triple | apply triple_loop
    | apply triple_bind keeps_stack_forward | apply triple_bind below_stack_backward
    | apply triple_bind (below_call_result _)
    | apply triple_bind_same | apply triple_ite | split)

theorem frames_parse_for_in_of {X : Type} (g : List js_value → X) (host : Host) (n : Nat) (rec : Parsers) (for_type : _for_type) (acc : _value_accessor)
    (hrec : rec.Keeps g) (hhost : HostKeeps g host) (t : List X) :
    Triple (Keeps g t) (_parse_for_in_of host n rec for_type acc) (Keeps g t) := by
  unfold _parse_for_in_of
  with_reducible repeat' (first
    | intro _
    | exact triple_pure | exact triple_throw | exact triple_stop
    | exact triple_read_only
    | exact keeps_cursor | exact keeps_store | exact keeps_flags
    | exact below_cursor | exact below_store | exact below_flags
    | exact keeps_stack_forward | exact below_stack_backward | exact below_parameter_push
    | exact below_call_result _
    | exact hrec.statement _ | exact hrec.expression _ | exact hrec.additive _
    | exact below_of_keeps hrec.statement | exact below_of_keeps hrec.expression
    | exact below_of_keeps hrec.additive
    | exact hhost.run _ _
    | exact frames_parse_statements g n rec hrec _ | exact below_of_keeps (frames_parse_statements g n rec hrec)
    | exact frames_parse_function g n rec hrec _ | exact below_of_keeps (frames_parse_function g n rec hrec)
    | exact frames_parse_value g n rec hrec _ | exact below_of_keeps (frames_parse_value g n rec hrec)
    | exact frames_parse_call_arguments g n rec hrec _
    | exact frames_call_callee g host n rec _ hrec hhost _
    | exact frames_parse_accessor g host n rec hrec hhost _ | exact below_of_keeps (frames_parse_accessor g host n rec hrec hhost)
    | exact frames_parse_access_call_expression g host n rec hrec hhost _ | exact below_of_keeps (frames_parse_access_call_expression g host n rec hrec hhost)
    | exact frames_parse_prefix_expression g host n rec hrec hhost _ | exact below_of_keeps (frames_parse_prefix_expression g host n rec hrec hhost)
    | exact frames_parse_multiplicative_expression g host n rec hrec hhost _ | exact below_of_keeps (frames_parse_multiplicative_expression g host n rec hrec hhost)
    | exact frames_parse_additive_expression g host n rec hrec hhost _ | exact below_of_keeps (frames_parse_additive_expression g host n rec hrec hhost)
    | exact frames_parse_relational_expression g host n rec hrec hhost _ | exact below_of_keeps (frames_parse_relational_expression g host n rec hrec hhost)
    | exact frames_parse_logical_expression g host n rec hrec hhost _ | exact below_of_keeps (frames_parse_logical_expression g host n rec hrec hhost)
    | exact frames_js_parse_expression g host n rec hrec hhost _ | exact below_of_keeps (frames_js_parse_expression g host n rec hrec hhost)
    | exact frames_parse_assignment_expression g host n rec hrec hhost _ | exact below_of_keeps (frames_parse_assignment_expression g host n rec hrec hhost)
    | exact frames_parse_declaration_expression g host n rec hrec hhost _ | exact below_of_keeps (frames_parse_declaration_expression g host n rec hrec hhost)
    | exact frames_parse_classic_for g host n rec hrec hhost _ | exact below_of_keeps (frames_parse_classic_for g host n rec hrec hhost)
    | apply for_each_spread_triple | apply map_for_each_triple | apply triple_loop
    | apply triple_bind keeps_stack_forward | apply triple_bind below_stack_backward
    | apply triple_bind (below_call_result _)
    | apply triple_bind_same | apply triple_ite | split)

theorem frames_parse_while {X : Type} (g : List js_value → X) (host : Host) (n : Nat) (rec : Parsers)
    (hrec : rec.Keeps g) (hhost : HostKeeps g host) (t : List X) :
    Triple (Keeps g t) (_parse_while host n rec) (Keeps g t) := by
  unfold _parse_while
  with_reducible repeat' (first
    | intro _
    | exact triple_pure | exact triple_throw | exact triple_stop
    | exact triple_read_only
    | exact keeps_cursor | exact keeps_store | exact keeps_flags
    | exact below_cursor | exact below_store | exact below_flags
    | exact keeps_stack_forward | exact below_stack_backward | exact below_parameter_push
    | exact below_call_result _
    | exact hrec.statement _ | exact hrec.expression _ | exact hrec.additive _
    | exact below_of_keeps hrec.statement | exact below_of_keeps hrec.expression
    | exact below_of_keeps hrec.additive
    | exact hhost.run _ _
    | exact frames_parse_statements g n rec hrec _ | exact below_of_keeps (frames_parse_statements g n rec hrec)
    | exact frames_parse_function g n rec hrec _ | exact below_of_keeps (frames_parse_function g n rec hrec)
    | exact frames_parse_value g n rec hrec _ | exact below_of_keeps (frames_parse_value g n rec hrec)
    | exact frames_parse_call_arguments g n rec hrec _
    | exact frames_call_callee g host n rec _ hrec hhost _
    | exact frames_parse_accessor g host n rec hrec hhost _ | exact below_of_keeps (frames_parse_accessor g host n rec hrec hhost)
    | exact frames_parse_access_call_expression g host n rec hrec hhost _ | exact below_of_keeps (frames_parse_access_call_expression g host n rec hrec hhost)
    | exact frames_parse_prefix_expression g host n rec hrec hhost _ | exact below_of_keeps (frames_parse_prefix_expression g host n rec hrec hhost)
    | exact frames_parse_multiplicative_expression g host n rec hrec hhost _ | exact below_of_keeps (frames_parse_multiplicative_expression g host n rec hrec hhost)
    | exact frames_parse_additive_expression g host n rec hrec hhost _ | exact below_of_keeps (frames_parse_additive_expression g host n rec hrec hhost)
    | exact frames_parse_relational_expression g host n rec hrec hhost _ | exact below_of_keeps (frames_parse_relational_expression g host n rec hrec hhost)
    | exact frames_parse_logical_expression g host n rec hrec hhost _ | exact below_of_keeps (frames_parse_logical_expression g host n rec hrec hhost)
    | exact frames_js_parse_expression g host n rec hrec hhost _ | exact below_of_keeps (frames_js_parse_expression g host n rec hrec hhost)
    | exact frames_parse_assignment_expression g host n rec hrec hhost _ | exact below_of_keeps (frames_parse_assignment_expression g host n rec hrec hhost)
    | exact frames_parse_declaration_expression g host n rec hrec hhost _ | exact below_of_keeps (frames_parse_declaration_expression g host n rec hrec hhost)
    | exact frames_parse_classic_for g host n rec hrec hhost _ | exact below_of_keeps (frames_parse_classic_for g host n rec hrec hhost)
    | exact frames_parse_for_in_of g host n rec _ _ hrec hhost _ | exact below_of_keeps (frames_parse_for_in_of g host n rec _ _ hrec hhost)
    | apply for_each_spread_triple | apply map_for_each_triple | apply triple_loop
    | apply triple_bind keeps_stack_forward | apply triple_bind below_stack_backward
    | apply triple_bind (below_call_result _)
    | apply triple_bind_same | apply triple_ite | split)

theorem frames_parse_do_while {X : Type} (g : List js_value → X) (host : Host) (n : Nat) (rec : Parsers)
    (hrec : rec.Keeps g) (hhost : HostKeeps g host) (t : List X) :
    Triple (Keeps g t) (_parse_do_while host n rec) (Keeps g t) := by
  unfold _parse_do_while
  with_reducible repeat' (first
    | intro _
    | exact triple_pure | exact triple_throw | exact triple_stop
    | exact triple_read_only
    | exact keeps_cursor | exact keeps_store | exact keeps_flags
    | exact below_cursor | exact below_store | exact below_flags
    | exact keeps_stack_forward | exact below_stack_backward | exact below_parameter_push
    | exact below_call_result _
    | exact hrec.statement _ | exact hrec.expression _ | exact hrec.additive _
    | exact below_of_keeps hrec.statement | exact below_of_keeps hrec.expression
    | exact below_of_keeps hrec.additive
    | exact hhost.run _ _
    | exact frames_parse_statements g n rec hrec _ | exact below_of_keeps (frames_parse_statements g n rec hrec)
    | exact frames_parse_function g n rec hrec _ | exact below_of_keeps (frames_parse_function g n rec hrec)
    | exact frames_parse_value g n rec hrec _ | exact below_of_keeps (frames_parse_value g n rec hrec)
    | exact frames_parse_call_arguments g n rec hrec _
    | exact frames_call_callee g host n rec _ hrec hhost _
    | exact frames_parse_accessor g host n rec hrec hhost _ | exact below_of_keeps (frames_parse_accessor g host n rec hrec hhost)
    | exact frames_parse_access_call_expression g host n rec hrec hhost _ | exact below_of_keeps (frames_parse_access_call_expression g host n rec hrec hhost)
    | exact frames_parse_prefix_expression g host n rec hrec hhost _ | exact below_of_keeps (frames_parse_prefix_expression g host n rec hrec hhost)
    | exact frames_parse_multiplicative_expression g host n rec hrec hhost _ | exact below_of_keeps (frames_parse_multiplicative_expression g host n rec hrec hhost)
    | exact frames_parse_additive_expression g host n rec hrec hhost _ | exact below_of_keeps (frames_parse_additive_expression g host n rec hrec hhost)
    | exact frames_parse_relational_expression g host n rec hrec hhost _ | exact below_of_keeps (frames_parse_relational_expression g host n rec hrec hhost)
    | exact frames_parse_logical_expression g host n rec hrec hhost _ | exact below_of_keeps (frames_parse_logical_expression g host n rec hrec hhost)
    | exact frames_js_parse_expression g host n rec hrec hhost _ | exact below_of_keeps (frames_js_parse_expression g host n rec hrec hhost)
    | exact frames_parse_assignment_expression g host n rec hrec hhost _ | exact below_of_keeps (frames_parse_assignment_expression g host n rec hrec hhost)
    | exact frames_parse_declaration_expression g host n rec hrec hhost _ | exact below_of_keeps (frames_parse_declaration_expression g host n rec hrec hhost)
    | exact frames_parse_classic_for g host n rec hrec hhost _ | exact below_of_keeps (frames_parse_classic_for g host n rec hrec hhost)
    | exact frames_parse_for_in_of g host n rec _ _ hrec hhost _ | exact below_of_keeps (frames_parse_for_in_of g host n rec _ _ hrec hhost)
    | exact frames_parse_while g host n rec hrec hhost _ | exact below_of_keeps (frames_parse_while g host n rec hrec hhost)
    | apply for_each_spread_triple | apply map_for_each_triple | apply triple_loop
    | apply triple_bind keeps_stack_forward | apply triple_bind below_stack_backward
    | apply triple_bind (below_call_result _)
    | apply triple_bind_same | apply triple_ite | split)

set_option maxHeartbeats 4000000 in
theorem frames_parse_statement {X : Type} (g : List js_value → X) (host : Host) (n : Nat) (rec : Parsers)
    (hrec : rec.Keeps g) (hhost : HostKeeps g host) (t : List X) :
    Triple (Keeps g t) (_parse_statement host n rec) (Keeps g t) := by
  unfold _parse_statement
  with_reducible repeat' (first
    | intro _
    | exact triple_pure | exact triple_throw | exact triple_stop
    | exact triple_read_only
    | exact keeps_cursor | exact keeps_store | exact keeps_flags
    | exact below_cursor | exact below_store | exact below_flags
    | exact keeps_stack_forward | exact below_stack_backward | exact below_parameter_push
    | exact below_call_result _
    | exact hrec.statement _ | exact hrec.expression _ | exact hrec.additive _
    | exact below_of_keeps hrec.statement | exact below_of_keeps hrec.expression
    | exact below_of_keeps hrec.additive
    | exact hhost.run _ _
    | exact frames_parse_statements g n rec hrec _ | exact below_of_keeps (frames_parse_statements g n rec hrec)
    | exact frames_parse_function g n rec hrec _ | exact below_of_keeps (frames_parse_function g n rec hrec)
    | exact frames_parse_value g n rec hrec _ | exact below_of_keeps (frames_parse_value g n rec hrec)
    | exact frames_parse_call_arguments g n rec hrec _
    | exact frames_call_callee g host n rec _ hrec hhost _
    | exact frames_parse_accessor g host n rec hrec hhost _ | exact below_of_keeps (frames_parse_accessor g host n rec hrec hhost)
    | exact frames_parse_access_call_expression g host n rec hrec hhost _ | exact below_of_keeps (frames_parse_access_call_expression g host n rec hrec hhost)
    | exact frames_parse_prefix_expression g host n rec hrec hhost _ | exact below_of_keeps (frames_parse_prefix_expression g host n rec hrec hhost)
    | exact frames_parse_multiplicative_expression g host n rec hrec hhost _ | exact below_of_keeps (frames_parse_multiplicative_expression g host n rec hrec hhost)
    | exact frames_parse_additive_expression g host n rec hrec hhost _ | exact below_of_keeps (frames_parse_additive_expression g host n rec hrec hhost)
    | exact frames_parse_relational_expression g host n rec hrec hhost _ | exact below_of_keeps (frames_parse_relational_expression g host n rec hrec hhost)
    | exact frames_parse_logical_expression g host n rec hrec hhost _ | exact below_of_keeps (frames_parse_logical_expression g host n rec hrec hhost)
    | exact frames_js_parse_expression g host n rec hrec hhost _ | exact below_of_keeps (frames_js_parse_expression g host n rec hrec hhost)
    | exact frames_parse_assignment_expression g host n rec hrec hhost _ | exact below_of_keeps (frames_parse_assignment_expression g host n rec hrec hhost)
    | exact frames_parse_declaration_expression g host n rec hrec hhost _ | exact below_of_keeps (frames_parse_declaration_expression g host n rec hrec hhost)
    | exact frames_parse_classic_for g host n rec hrec hhost _ | exact below_of_keeps (frames_parse_classic_for g host n rec hrec hhost)
    | exact frames_parse_for_in_of g host n rec _ _ hrec hhost _ | exact below_of_keeps (frames_parse_for_in_of g host n rec _ _ hrec hhost)
    | exact frames_parse_while g host n rec hrec hhost _ | exact below_of_keeps (frames_parse_while g host n rec hrec hhost)
    | exact frames_parse_do_while g host n rec hrec hhost _ | exact below_of_keeps (frames_parse_do_while g host n rec hrec hhost)
    | apply for_each_spread_triple | apply map_for_each_triple | apply triple_loop
    | apply triple_bind keeps_stack_forward | apply triple_bind below_stack_backward
    | apply triple_bind (below_call_result _)
    | apply triple_bind_same | apply triple_ite | split)

/-! ## Every parse function leaves the result slot undefined unless `mark_return` is set -/

theorem clean_cursor {α : Type} {m : Parse α} [CursorOnly m] : Triple Clean m Clean :=
  triple_of_pres (fun s s1 hs h => by
    have h : s1 = { s with tok_cache_idx := s1.tok_cache_idx } := h
    rw [h]
    exact hs) CursorOnly.pres

theorem clean_store {α : Type} {m : Parse α} [StoreOnly m] : Triple Clean m Clean :=
  triple_of_pres (fun s s1 hs h => by
    have h : s1 = { s with heap := s1.heap, stack := s1.stack } := h.1
    rw [h]
    exact hs) StoreOnly.pres

theorem clean_modify {f : js → js} (h : ∀ s, (f s).mark_return = s.mark_return ∧
    (f s).result = s.result) : Triple Clean (js_modify f) Clean := by
  constructor
  intro s a s1 hs hm
  cases hm
  intro hr
  rw [(h s).2]
  exact hs ((h s).1.symm.trans hr)

theorem clean_parse_exec (b : Bool) : Triple Clean (set_parse_exec b) Clean :=
  clean_modify fun _ => ⟨rfl, rfl⟩

theorem clean_mark_break (b : Bool) : Triple Clean (set_mark_break b) Clean :=
  clean_modify fun _ => ⟨rfl, rfl⟩

theorem clean_mark_continue (b : Bool) : Triple Clean (set_mark_continue b) Clean :=
  clean_modify fun _ => ⟨rfl, rfl⟩

theorem clean_stack_forward : Triple Clean _stack_forward Clean := by
  unfold _stack_forward
  apply triple_bind_same triple_read_only
  intro h
  apply triple_bind_same triple_read_only
  intro t
  exact clean_modify fun _ => ⟨rfl, rfl⟩

theorem clean_stack_backward : Triple Clean js_stack_backward Clean := by
  constructor
  intro s a s1 hs hm
  simp only [js_stack_backward] at hm
  split at hm
  · cases hm
  · cases hm
    exact hs

theorem clean_parameter_push (v : js_value) : Triple Clean (js_parameter_push v) Clean := by
  constructor
  intro s a s1 hs hm
  simp only [js_parameter_push] at hm
  split at hm
  · cases hm
  · cases hm
    exact hs

theorem clean_mark_return {A : js → Prop} : Triple A (set_mark_return true) Clean := by
  constructor
  intro s a s1 _ hm
  cases hm
  intro hr
  cases hr

theorem triple_any {α : Type} {A : js → Prop} {m : Parse α} : Triple A m Any :=
  ⟨fun _ _ _ _ _ => trivial⟩

theorem any_set_result (v : js_value) : Triple Clean (set_result v) Any := triple_any

theorem any_call_callee (host : Host) (n : Nat) (rec : Parsers) (callee : js_value) :
    Triple Clean (_call_callee host n rec callee) Any := triple_any

theorem clean_call_result (acc : _value_accessor) : Triple Any (_call_result acc) Clean := by
  constructor
  intro s a s1 _ hm
  have hp := call_result_post acc a s s1 hm
  intro _
  exact hp.2.2.1

theorem clean_parse_statements (n : Nat) (rec : Parsers)
    (hrec : rec.Clean) :
    Triple Clean (_parse_statements n rec) Clean := by
  unfold _parse_statements
  with_reducible repeat' (first
    | intro _
    | exact triple_pure | exact triple_throw | exact triple_stop
    | exact triple_read_only | exact triple_any
    | exact clean_cursor | exact clean_store
    | exact clean_parse_exec _ | exact clean_mark_break _ | exact clean_mark_continue _
    | exact clean_stack_forward | exact clean_stack_backward | exact clean_parameter_push _
    | exact clean_mark_return | exact clean_call_result _
    | exact hrec.statement | exact hrec.expression | exact hrec.additive
    | apply for_each_spread_triple | apply map_for_each_triple | apply triple_loop
    | apply triple_bind (any_set_result _) | apply triple_bind (any_call_callee _ _ _ _)
    | apply triple_bind (clean_call_result _)
    | apply triple_bind_same | apply triple_ite | split)

theorem clean_parse_function (n : Nat) (rec : Parsers)
    (hrec : rec.Clean) :
    Triple Clean (_parse_function n rec) Clean := by
  unfold _parse_function
  with_reducible repeat' (first
    | intro _
    | exact triple_pure | exact triple_throw | exact triple_stop
    | exact triple_read_only | exact triple_any
    | exact clean_cursor | exact clean_store
    | exact clean_parse_exec _ | exact clean_mark_break _ | exact clean_mark_continue _
    | exact clean_stack_forward | exact clean_stack_backward | exact clean_parameter_push _
    | exact clean_mark_return | exact clean_call_result _
    | exact hrec.statement | exact hrec.expression | exact hrec.additive
    | exact clean_parse_statements n rec hrec
    | apply for_each_spread_triple | apply map_for_each_triple | apply triple_loop
    | apply triple_bind (any_set_result _) | apply triple_bind (any_call_callee _ _ _ _)
    | apply triple_bind (clean_call_result _)
    | apply triple_bind_same | apply triple_ite | split)

theorem clean_parse_value (n : Nat) (rec : Parsers)
    (hrec : rec.Clean) :
    Triple Clean (_parse_value n rec) Clean := by
  unfold _parse_value
  with_reducible repeat' (first
    | intro _
    | exact triple_pure | exact triple_throw | exact triple_stop
    | exact triple_read_only | exact triple_any
    | exact clean_cursor | exact clean_store
    | exact clean_parse_exec _ | exact clean_mark_break _ | exact clean_mark_continue _
    | exact clean_stack_forward | exact clean_stack_backward | exact clean_parameter_push _
    | exact clean_mark_return | exact clean_call_result _
    | exact hrec.statement | exact hrec.expression | exact hrec.additive
    | exact clean_parse_statements n rec hrec
    | exact clean_parse_function n rec hrec
    | apply for_each_spread_triple | apply map_for_each_triple | apply triple_loop
    | apply triple_bind (any_set_result _) | apply triple_bind (any_call_callee _ _ _ _)
    | apply triple_bind (clean_call_result _)
    | apply triple_bind_same | apply triple_ite | split)

theorem clean_parse_call_arguments (n : Nat) (rec : Parsers)
    (hrec : rec.Clean) :
    Triple Clean (_parse_call_arguments n rec) Clean := by
  unfold _parse_call_arguments
  with_reducible repeat' (first
    | intro _
    | exact triple_pure | exact triple_throw | exact triple_stop
    | exact triple_read_only | exact triple_any
    | exact clean_cursor | exact clean_store
    | exact clean_parse_exec _ | exact clean_mark_break _ | exact clean_mark_continue _
    | exact clean_stack_forward | exact clean_stack_backward | exact clean_parameter_push _
    | exact clean_mark_return | exact clean_call_result _
    | exact hrec.statement | exact hrec.expression | exact hrec.additive
    | exact clean_parse_statements n rec hrec
    | exact clean_parse_function n rec hrec
    | exact clean_parse_value n rec hrec
    | apply for_each_spread_triple | apply map_for_each_triple | apply triple_loop
    | apply triple_bind (any_set_result _) | apply triple_bind (any_call_callee _ _ _ _)
    | apply triple_bind (clean_call_result _)
    | apply triple_bind_same | apply triple_ite | split)

theorem clean_parse_accessor (host : Host) (n : Nat) (rec : Parsers)
    (hrec : rec.Clean) :
    Triple Clean (_parse_accessor host n rec) Clean := by
  unfold _parse_accessor
  with_reducible repeat' (first
    | intro _
    | exact triple_pure | exact triple_throw | exact triple_stop
    | exact triple_read_only | exact triple_any
    | exact clean_cursor | exact clean_store
    | exact clean_parse_exec _ | exact clean_mark_break _ | exact clean_mark_continue _
    | exact clean_stack_forward | exact clean_stack_backward | exact clean_parameter_push _
    | exact clean_mark_return | exact clean_call_result _
    | exact hrec.statement | exact hrec.expression | exact hrec.additive
    | exact clean_parse_statements n rec hrec
    | exact clean_parse_function n rec hrec
    | exact clean_parse_value n rec hrec
    | exact clean_parse_call_arguments n rec hrec
    | apply for_each_spread_triple | apply map_for_each_triple | apply triple_loop
    | apply triple_bind (any_set_result _) | apply triple_bind (any_call_callee _ _ _ _)
    | apply triple_bind (clean_call_result _)
    | apply triple_bind_same | apply triple_ite | split)

theorem clean_parse_access_call_expression (host : Host) (n : Nat) (rec : Parsers)
    (hrec : rec.Clean) :
    Triple Clean (_parse_access_call_expression host n rec) Clean := by
  unfold _parse_access_call_expression
  with_reducible repeat' (first
    | intro _
    | exact triple_pure | exact triple_throw | exact triple_stop
    | exact triple_read_only | exact triple_any
    | exact clean_cursor | exact clean_store
    | exact clean_parse_exec _ | exact clean_mark_break _ | exact clean_mark_continue _
    | exact clean_stack_forward | exact clean_stack_backward | exact clean_parameter_push _
    | exact clean_mark_return | exact clean_call_result _
    | exact hrec.statement | exact hrec.expression | exact hrec.additive
    | exact clean_parse_statements n rec hrec
    | exact clean_parse_function n rec hrec
    | exact clean_parse_value n rec hrec
    | exact clean_parse_call_arguments n rec hrec
    | exact clean_parse_accessor host n rec hrec
    | apply for_each_spread_triple | apply map_for_each_triple | apply triple_loop
    | apply triple_bind (any_set_result _) | apply triple_bind (any_call_callee _ _ _ _)
    | apply triple_bind (clean_call_result _)
    | apply triple_bind_same | apply triple_ite | split)

theorem clean_parse_prefix_expression (host : Host) (n : Nat) (rec : Parsers)
    (hrec : rec.Clean) :
    Triple Clean (_parse_prefix_expression host n rec) Clean := by
  unfold _parse_prefix_expression
  with_reducible repeat' (first
    | intro _
    | exact triple_pure | exact triple_throw | exact triple_stop
    | exact triple_read_only | exact triple_any
    | exact clean_cursor | exact clean_store
    | exact clean_parse_exec _ | exact clean_mark_break _ | exact clean_mark_continue _
    | exact clean_stack_forward | exact clean_stack_backward | exact clean_parameter_push _
    | exact clean_mark_return | exact clean_call_result _
    | exact hrec.statement | exact hrec.expression | exact hrec.additive
    | exact clean_parse_statements n rec hrec
    | exact clean_parse_function n rec hrec
    | exact clean_parse_value n rec hrec
    | exact clean_parse_call_arguments n rec hrec
    | exact clean_parse_accessor host n rec hrec
    | exact clean_parse_access_call_expression host n rec hrec
    | apply for_each_spread_triple | apply map_for_each_triple | apply triple_loop
    | apply triple_bind (any_set_result _) | apply triple_bind (any_call_callee _ _ _ _)
    | apply triple_bind (clean_call_result _)
    | apply triple_bind_same | apply triple_ite | split)

theorem clean_parse_multiplicative_expression (host : Host) (n : Nat) (rec : Parsers)
    (hrec : rec.Clean) :
    Triple Clean (_parse_multiplicative_expression host n rec) Clean := by
  unfold _parse_multiplicative_expression
  with_reducible repeat' (first
    | intro _
    | exact triple_pure | exact triple_throw | exact triple_stop
    | exact triple_read_only | exact triple_any
    | exact clean_cursor | exact clean_store
    | exact clean_parse_exec _ | exact clean_mark_break _ | exact clean_mark_continue _
    | exact clean_stack_forward | exact clean_stack_backward | exact clean_parameter_push _
    | exact clean_mark_return | exact clean_call_result _
    | exact hrec.statement | exact hrec.expression | exact hrec.additive
    | exact clean_parse_statements n rec hrec
    | exact clean_parse_function n rec hrec
    | exact clean_parse_value n rec hrec
    | exact clean_parse_call_arguments n rec hrec
    | exact clean_parse_accessor host n rec hrec
    | exact clean_parse_access_call_expression host n rec hrec
    | exact clean_parse_prefix_expression host n rec hrec
    | apply for_each_spread_triple | apply map_for_each_triple | apply triple_loop
    | apply triple_bind (any_set_result _) | apply triple_bind (any_call_callee _ _ _ _)
    | apply triple_bind (clean_call_result _)
    | apply triple_bind_same | apply triple_ite | split)

theorem clean_parse_additive_expression (host : Host) (n : Nat) (rec : Parsers)
    (hrec : rec.Clean) :
    Triple Clean (_parse_additive_expression host n rec) Clean := by
  unfold _parse_additive_expression
  with_reducible repeat' (first
    | intro _
    | exact triple_pure | exact triple_throw | exact triple_stop
    | exact triple_read_only | exact triple_any
    | exact clean_cursor | exact clean_store
    | exact clean_parse_exec _ | exact clean_mark_break _ | exact clean_mark_continue _
    | exact clean_stack_forward | exact clean_stack_backward | exact clean_parameter_push _
    | exact clean_mark_return | exact clean_call_result _
    | exact hrec.statement | exact hrec.expression | exact hrec.additive
    | exact clean_parse_statements n rec hrec
    | exact clean_parse_function n rec hrec
    | exact clean_parse_value n rec hrec
    | exact clean_parse_call_arguments n rec hrec
    | exact clean_parse_accessor host n rec hrec
    | exact clean_parse_access_call_expression host n rec hrec
    | exact clean_parse_prefix_expression host n rec hrec
    | exact clean_parse_multiplicative_expression host n rec hrec
    | apply for_each_spread_triple | apply map_for_each_triple | apply triple_loop
    | apply triple_bind (any_set_result _) | apply triple_bind (any_call_callee _ _ _ _)
    | apply triple_bind (clean_call_result _)
    | apply triple_bind_same | apply triple_ite | split)

theorem clean_parse_relational_expression (host : Host) (n : Nat) (rec : Parsers)
    (hrec : rec.Clean) :
    Triple Clean (_parse_relational_expression host n rec) Clean := by
  unfold _parse_relational_expression
  with_reducible repeat' (first
    | intro _
    | exact triple_pure | exact triple_throw | exact triple_stop
    | exact triple_read_only | exact triple_any
    | exact clean_cursor | exact clean_store
    | exact clean_parse_exec _ | exact clean_mark_break _ | exact clean_mark_continue _
    | exact clean_stack_forward | exact clean_stack_backward | exact clean_parameter_push _
    | exact clean_mark_return | exact clean_call_result _
    | exact hrec.statement | exact hrec.expression | exact hrec.additive
    | exact clean_parse_statements n rec hrec
    | exact clean_parse_function n rec hrec
    | exact clean_parse_value n rec hrec
    | exact clean_parse_call_arguments n rec hrec
    | exact clean_parse_accessor host n rec hrec
    | exact clean_parse_access_call_expression host n rec hrec
    | exact clean_parse_prefix_expression host n rec hrec
    | exact clean_parse_multiplicative_expression host n rec hrec
    | exact clean_parse_additive_expression host n rec hrec
    | apply for_each_spread_triple | apply map_for_each_triple | apply triple_loop
    | apply triple_bind (any_set_result _) | apply triple_bind (any_call_callee _ _ _ _)
    | apply triple_bind (clean_call_result _)
    | apply triple_bind_same | apply triple_ite | split)

theorem clean_parse_logical_expression (host : Host) (n : Nat) (rec : Parsers)
    (hrec : rec.Clean) :
    Triple Clean (_parse_logical_expression host n rec) Clean := by
  unfold _parse_logical_expression
  with_reducible repeat' (first
    | intro _
    | exact triple_pure | exact triple_throw | exact triple_stop
    | exact triple_read_only | exact triple_any
    | exact clean_cursor | exact clean_store
    | exact clean_parse_exec _ | exact clean_mark_break _ | exact clean_mark_continue _
    | exact clean_stack_forward | exact clean_stack_backward | exact clean_parameter_push _
    | exact clean_mark_return | exact clean_call_result _
    | exact hrec.statement | exact hrec.expression | exact hrec.additive
    | exact clean_parse_statements n rec hrec
    | exact clean_parse_function n rec hrec
    | exact clean_parse_value n rec hrec
    | exact clean_parse_call_arguments n rec hrec
    | exact clean_parse_accessor host n rec hrec
    | exact clean_parse_access_call_expression host n rec hrec
    | exact clean_parse_prefix_expression host n rec hrec
    | exact clean_parse_multiplicative_expression host n rec hrec
    | exact clean_parse_additive_expression host n rec hrec
    | exact clean_parse_relational_expression host n rec hrec
    | apply for_each_spread_triple | apply map_for_each_triple | apply triple_loop
    | apply triple_bind (any_set_result _) | apply triple_bind (any_call_callee _ _ _ _)
    | apply triple_bind (clean_call_result _)
    | apply triple_bind_same | apply triple_ite | split)

theorem clean_js_parse_expression (host : Host) (n : Nat) (rec : Parsers)
    (hrec : rec.Clean) :
    Triple Clean (js_parse_expression host n rec) Clean := by
  unfold js_parse_expression
  with_reducible repeat' (first
    | intro _
    | exact triple_pure | exact triple_throw | exact triple_stop
    | exact triple_read_only | exact triple_any
    | exact clean_cursor | exact clean_store
    | exact clean_parse_exec _ | exact clean_mark_break _ | exact clean_mark_continue _
    | exact clean_stack_forward | exact clean_stack_backward | exact clean_parameter_push _
    | exact clean_mark_return | exact clean_call_result _
    | exact hrec.statement | exact hrec.expression | exact hrec.additive
    | exact clean_parse_statements n rec hrec
    | exact clean_parse_function n rec hrec
    | exact clean_parse_value n rec hrec
    | exact clean_parse_call_arguments n rec hrec
    | exact clean_parse_accessor host n rec hrec
    | exact clean_parse_access_call_expression host n rec hrec
    | exact clean_parse_prefix_expression host n rec hrec
    | exact clean_parse_multiplicative_expression host n rec hrec
    | exact clean_parse_additive_expression host n rec hrec
    | exact clean_parse_relational_expression host n rec hrec
    | exact clean_parse_logical_expression host n rec hrec
    | apply for_each_spread_triple | apply map_for_each_triple | apply triple_loop
    | apply triple_bind (any_set_result _) | apply triple_bind (any_call_callee _ _ _ _)
    | apply triple_bind (clean_call_result _)
    | apply triple_bind_same | apply triple_ite | split)

theorem clean_parse_assignment_expression (host : Host) (n : Nat) (rec : Parsers)
    (hrec : rec.Clean) :
    Triple Clean (_parse_assignment_expression host n rec) Clean := by
  unfold _parse_assignment_expression
  with_reducible repeat' (first
    | intro _
    | exact triple_pure | exact triple_throw | exact triple_stop
    | exact triple_read_only | exact triple_any
    | exact clean_cursor | exact clean_store
    | exact clean_parse_exec _ | exact clean_mark_break _ | exact clean_mark_continue _
    | exact clean_stack_forward | exact clean_stack_backward | exact clean_parameter_push _
    | exact clean_mark_return | exact clean_call_result _
    | exact hrec.statement | exact hrec.expression | exact hrec.additive
    | exact clean_parse_statements n rec hrec
    | exact clean_parse_function n rec hrec
    | exact clean_parse_value n rec hrec
    | exact clean_parse_call_arguments n rec hrec
    | exact clean_parse_accessor host n rec hrec
    | exact clean_parse_access_call_expression host n rec hrec
    | exact clean_parse_prefix_expression host n rec hrec
    | exact clean_parse_multiplicative_expression host n rec hrec
    | exact clean_parse_additive_expression host n rec hrec
    | exact clean_parse_relational_expression host n rec hrec
    | exact clean_parse_logical_expression host n rec hrec
    | exact clean_js_parse_expression host n rec hrec
    | apply for_each_spread_triple | apply map_for_each_triple | apply triple_loop
    | apply triple_bind (any_set_result _) | apply triple_bind (any_call_callee _ _ _ _)
    | apply triple_bind (clean_call_result _)
    | apply triple_bind_same | apply triple_ite | split)

theorem clean_parse_declaration_expression (host : Host) (n : Nat) (rec : Parsers)
    (hrec : rec.Clean) :
    Triple Clean (_parse_declaration_expression host n rec) Clean := by
  unfold _parse_declaration_expression
  with_reducible repeat' (first
    | intro _
    | exact triple_pure | exact triple_throw | exact triple_stop
    | exact triple_read_only | exact triple_any
    | exact clean_cursor | exact clean_store
    | exact clean_parse_exec _ | exact clean_mark_break _ | exact clean_mark_continue _
    | exact clean_stack_forward | exact clean_stack_backward | exact clean_parameter_push _
    | exact clean_mark_return | exact clean_call_result _
    | exact hrec.statement | exact hrec.expression | exact hrec.additive
    | exact clean_parse_statements n rec hrec
    | exact clean_parse_function n rec hrec
    | exact clean_parse_value n rec hrec
    | exact clean_parse_call_arguments n rec hrec
    | exact clean_parse_accessor host n rec hrec
    | exact clean_parse_access_call_expression host n rec hrec
    | exact clean_parse_prefix_expression host n rec hrec
    | exact clean_parse_multiplicative_expression host n rec hrec
    | exact clean_parse_additive_expression host n rec hrec
    | exact clean_parse_relational_expression host n rec hrec
    | exact clean_parse_logical_expression host n rec hrec
    | exact clean_js_parse_expression host n rec hrec
    | exact clean_parse_assignment_expression host n rec hrec
    | apply for_each_spread_triple | apply map_for_each_triple | apply triple_loop
    | apply triple_bind (any_set_result _) | apply triple_bind (any_call_callee _ _ _ _)
    | apply triple_bind (clean_call_result _)
    | apply triple_bind_same | apply triple_ite | split)

theorem clean_parse_classic_for (host : Host) (n : Nat) (rec : Parsers)
    (hrec : rec.Clean) :
    Triple Clean (_parse_classic_for host n rec) Clean := by
  unfold _parse_classic_for
  with_reducible repeat' (first
    | intro _
    | exact triple_pure | exact triple_throw | exact triple_stop
    | exact triple_read_only | exact triple_any
    | exact clean_cursor | exact clean_store
    | exact clean_parse_exec _ | exact clean_mark_break _ | exact clean_mark_continue _
    | exact clean_stack_forward | exact clean_stack_backward | exact clean_parameter_push _
    | exact clean_mark_return | exact clean_call_result _
    | exact hrec.statement | exact hrec.expression | exact hrec.additive
    | exact clean_parse_statements n rec hrec
    | exact clean_parse_function n rec hrec
    | exact clean_parse_value n rec hrec
    | exact clean_parse_call_arguments n rec hrec
    | exact clean_parse_accessor host n rec hrec
    | exact clean_parse_access_call_expression host n rec hrec
    | exact clean_parse_prefix_expression host n rec hrec
    | exact clean_parse_multiplicative_expression host n rec hrec
    | exact clean_parse_additive_expression host n rec hrec
    | exact clean_parse_relational_expression host n rec hrec
    | exact clean_parse_logical_expression host n rec hrec
    | exact clean_js_parse_expression host n rec hrec
    | exact clean_parse_assignment_expression host n rec hrec
    | exact clean_parse_declaration_expression host n rec hrec
    | apply for_each_spread_triple | apply map_for_each_triple | apply triple_loop
    | apply triple_bind (any_set_result _) | apply triple_bind (any_call_callee _ _ _ _)
    | apply triple_bind (clean_call_result _)
    | apply triple_bind_same | apply triple_ite | split)

theorem clean_parse_for_in_of (host : Host) (n : Nat) (rec : Parsers) (for_type : _for_type) (acc : _value_accessor)
    (hrec : rec.Clean) :
    Triple Clean (_parse_for_in_of host n rec for_type acc) Clean := by
  unfold _parse_for_in_of
  with_reducible repeat' (first
    | intro _
    | exact triple_pure | exact triple_throw | exact triple_stop
    | exact triple_read_only | exact triple_any
    | exact clean_cursor | exact clean_store
    | exact clean_parse_exec _ | exact clean_mark_break _ | exact clean_mark_continue _
    | exact clean_stack_forward | exact clean_stack_backward | exact clean_parameter_push _
    | exact clean_mark_return | exact clean_call_result _
    | exact hrec.statement | exact hrec.expression | exact hrec.additive
    | exact clean_parse_statements n rec hrec
    | exact clean_parse_function n rec hrec
    | exact clean_parse_value n rec hrec
    | exact clean_parse_call_arguments n rec hrec
    | exact clean_parse_accessor host n rec hrec
    | exact clean_parse_access_call_expression host n rec hrec
    | exact clean_parse_prefix_expression host n rec hrec
    | exact clean_parse_multiplicative_expression host n rec hrec
    | exact clean_parse_additive_expression host n rec hrec
    | exact clean_parse_relational_expression host n rec hrec
    | exact clean_parse_logical_expression host n rec hrec
    | exact clean_js_parse_expression host n rec hrec
    | exact clean_parse_assignment_expression host n rec hrec
    | exact clean_parse_declaration_expression host n rec hrec
    | exact clean_parse_classic_for host n rec hrec
    | apply for_each_spread_triple | apply map_for_each_triple | apply triple_loop
    | apply triple_bind (any_set_result _) | apply triple_bind (any_call_callee _ _ _ _)
    | apply triple_bind (clean_call_result _)
    | apply triple_bind_same | apply triple_ite | split)

theorem clean_parse_while (host : Host) (n : Nat) (rec : Parsers)
    (hrec : rec.Clean) :
    Triple Clean (_parse_while host n rec) Clean := by
  unfold _parse_while
  with_reducible repeat' (first
    | intro _
    | exact triple_pure | exact triple_throw | exact triple_stop
    | exact triple_read_only | exact triple_any
    | exact clean_cursor | exact clean_store
    | exact clean_parse_exec _ | exact clean_mark_break _ | exact clean_mark_continue _
    | exact clean_stack_forward | exact clean_stack_backward | exact clean_parameter_push _
    | exact clean_mark_return | exact clean_call_result _
    | exact hrec.statement | exact hrec.expression | exact hrec.additive
    | exact clean_parse_statements n rec hrec
    | exact clean_parse_function n rec hrec
    | exact clean_parse_value n rec hrec
    | exact clean_parse_call_arguments n rec hrec
    | exact clean_parse_accessor host n rec hrec
    | exact clean_parse_access_call_expression host n rec hrec
    | exact clean_parse_prefix_expression host n rec hrec
    | exact clean_parse_multiplicative_expression host n rec hrec
    | exact clean_parse_additive_expression host n rec hrec
    | exact clean_parse_relational_expression host n rec hrec
    | exact clean_parse_logical_expression host n rec hrec
    | exact clean_js_parse_expression host n rec hrec
    | exact clean_parse_assignment_expression host n rec hrec
    | exact clean_parse_declaration_expression host n rec hrec
    | exact clean_parse_classic_for host n rec hrec
    | exact clean_parse_for_in_of host n rec _ _ hrec
    | apply for_each_spread_triple | apply map_for_each_triple | apply triple_loop
    | apply triple_bind (any_set_result _) | apply triple_bind (any_call_callee _ _ _ _)
    | apply triple_bind (clean_call_result _)
    | apply triple_bind_same | apply triple_ite | split)

theorem clean_parse_do_while (host : Host) (n : Nat) (rec : Parsers)
    (hrec : rec.Clean) :
    Triple Clean (_parse_do_while host n rec) Clean := by
  unfold _parse_do_while
  with_reducible repeat' (first
    | intro _
    | exact triple_pure | exact triple_throw | exact triple_stop
    | exact triple_read_only | exact triple_any
    | exact clean_cursor | exact clean_store
    | exact clean_parse_exec _ | exact clean_mark_break _ | exact clean_mark_continue _
    | exact clean_stack_forward | exact clean_stack_backward | exact clean_parameter_push _
    | exact clean_mark_return | exact clean_call_result _
    | exact hrec.statement | exact hrec.expression | exact hrec.additive
    | exact clean_parse_statements n rec hrec
    | exact clean_parse_function n rec hrec
    | exact clean_parse_value n rec hrec
    | exact clean_parse_call_arguments n rec hrec
    | exact clean_parse_accessor host n rec hrec
    | exact clean_parse_access_call_expression host n rec hrec
    | exact clean_parse_prefix_expression host n rec hrec
    | exact clean_parse_multiplicative_expression host n rec hrec
    | exact clean_parse_additive_expression host n rec hrec
    | exact clean_parse_relational_expression host n rec hrec
    | exact clean_parse_logical_expression host n rec hrec
    | exact clean_js_parse_expression host n rec hrec
    | exact clean_parse_assignment_expression host n rec hrec
    | exact clean_parse_declaration_expression host n rec hrec
    | exact clean_parse_classic_for host n rec hrec
    | exact clean_parse_for_in_of host n rec _ _ hrec
    | exact clean_parse_while host n rec hrec
    | apply for_each_spread_triple | apply map_for_each_triple | apply triple_loop
    | apply triple_bind (any_set_result _) | apply triple_bind (any_call_callee _ _ _ _)
    | apply triple_bind (clean_call_result _)
    | apply triple_bind_same | apply triple_ite | split)

set_option maxHeartbeats 4000000 in
theorem clean_parse_statement (host : Host) (n : Nat) (rec : Parsers)
    (hrec : rec.Clean) :
    Triple Clean (_parse_statement host n rec) Clean := by
  unfold _parse_statement
  with_reducible repeat' (first
    | intro _
    | exact triple_pure | exact triple_throw | exact triple_stop
    | exact triple_read_only | exact triple_any
    | exact clean_cursor | exact clean_store
    | exact clean_parse_exec _ | exact clean_mark_break _ | exact clean_mark_continue _
    | exact clean_stack_forward | exact clean_stack_backward | exact clean_parameter_push _
    | exact clean_mark_return | exact clean_call_result _
    | exact hrec.statement | exact hrec.expression | exact hrec.additive
    | exact clean_parse_statements n rec hrec
    | exact clean_parse_function n rec hrec
    | exact clean_parse_value n rec hrec
    | exact clean_parse_call_arguments n rec hrec
    | exact clean_parse_accessor host n rec hrec
    | exact clean_parse_access_call_expression host n rec hrec
    | exact clean_parse_prefix_expression host n rec hrec
    | exact clean_parse_multiplicative_expression host n rec hrec
    | exact clean_parse_additive_expression host n rec hrec
    | exact clean_parse_relational_expression host n rec hrec
    | exact clean_parse_logical_expression host n rec hrec
    | exact clean_js_parse_expression host n rec hrec
    | exact clean_parse_assignment_expression host n rec hrec
    | exact clean_parse_declaration_expression host n rec hrec
    | exact clean_parse_classic_for host n rec hrec
    | exact clean_parse_for_in_of host n rec _ _ hrec
    | exact clean_parse_while host n rec hrec
    | exact clean_parse_do_while host n rec hrec
    | apply for_each_spread_triple | apply map_for_each_triple | apply triple_loop
    | apply triple_bind (any_set_result _) | apply triple_bind (any_call_callee _ _ _ _)
    | apply triple_bind (clean_call_result _)
    | apply triple_bind_same | apply triple_ite | split)

theorem frames_parsers {X : Type} (g : List js_value → X) (host : Host)
    (hhost : HostKeeps g host) : ∀ n, (parsers host n).Keeps g
  | 0 => ⟨fun _ => triple_stop, fun _ => triple_stop, fun _ => triple_stop⟩
  | n + 1 =>
    ⟨frames_parse_statement g host n _ (frames_parsers g host hhost n) hhost,
     frames_parse_additive_expression g host n _ (frames_parsers g host hhost n) hhost,
     frames_js_parse_expression g host n _ (frames_parsers g host hhost n) hhost⟩

theorem frames_js_parse_script {X : Type} (g : List js_value → X) (host : Host)
    (hhost : HostKeeps g host) (n : Nat) (t : List X) :
    Triple (Keeps g t) (js_parse_script host n) (Keeps g t) := by
  unfold js_parse_script
  apply triple_loop
  intro _
  with_reducible repeat' (first
    | intro _ | exact triple_pure | exact triple_read_only
    | exact frames_parse_statement g host n _ (frames_parsers g host hhost n) hhost _
    | apply triple_bind_same | apply triple_ite | split)

theorem clean_parsers (host : Host) : ∀ n, (parsers host n).Clean
  | 0 => ⟨triple_stop, triple_stop, triple_stop⟩
  | n + 1 =>
    ⟨clean_parse_statement host n _ (clean_parsers host n),
     clean_parse_additive_expression host n _ (clean_parsers host n),
     clean_js_parse_expression host n _ (clean_parsers host n)⟩

theorem clean_js_parse_script (host : Host) (n : Nat) :
    Triple Clean (js_parse_script host n) Clean := by
  unfold js_parse_script
  apply triple_loop
  intro _
  with_reducible repeat' (first
    | intro _ | exact triple_pure | exact triple_read_only
    | exact clean_parse_statement host n _ (clean_parsers host n)
    | apply triple_bind_same | apply triple_ite | split)

theorem host_ok {host : Host} {c : Nat} {s s1 : js} {a : Unit}
    (h : js_call_cfunction host c s = .ok (a, s1)) : host c s = .ok s1 := by
  unfold js_call_cfunction at h
  split at h
  · rename_i s2 heq
    cases h
    exact heq
  · cases h

theorem host_keeps_depth (host : Host)
    (hhost : ∀ c s s1, host c s = .ok s1 → s1.stack.length = s.stack.length) :
    HostKeeps (fun _ => ()) host := by
  constructor
  intro c t
  constructor
  intro s a s1 hs hm
  obtain ⟨x, hx⟩ := hs
  have hl := hhost c s s1 (host_ok hm)
  refine ⟨(), ?_⟩
  have e : ∀ l : List Unit, l = List.replicate l.length () := by
    intro l
    induction l with
    | nil => rfl
    | cons u r ih => simp only [List.length_cons, List.replicate_succ]; rw [← ih]
  rw [e (s1.frames _), ← hx, e (s.frames _)]
  simp only [js.frames, List.length_map, hl]

theorem host_keeps_params (host : Host)
    (hhost : ∀ c s s1, host c s = .ok s1 → s1.stack.length = s.stack.length ∧
      (s1.stack.map fun fr => fr.params).tail = (s.stack.map fun fr => fr.params).tail) :
    HostKeeps id host := by
  constructor
  intro c t
  constructor
  intro s a s1 hs hm
  obtain ⟨x, hx⟩ := hs
  obtain ⟨hl, ht⟩ := hhost c s s1 (host_ok hm)
  simp only [js.frames, id] at hx
  rw [hx, List.tail_cons] at ht
  cases hst : s1.stack with
  | nil =>
    rw [hst] at hl
    have := congrArg List.length hx
    simp only [List.length_map, List.length_cons, List.length_nil] at this hl
    omega
  | cons fr rest =>
    rw [hst] at ht
    refine ⟨fr.params, ?_⟩
    simp only [js.frames, id, hst, List.map_cons, List.tail_cons] at ht ⊢
    rw [ht]

/-! ## The scope stack and the parameter buffers across a run -/

theorem count_host_keeps (c : Nat) (s s1 : js) (h : count_host c s = .ok s1) :
    s1.stack.length = s.stack.length ∧
    (s1.stack.map fun fr => fr.params).tail = (s.stack.map fun fr => fr.params).tail := by
  unfold count_host at h
  split at h
  · cases h
  · cases h
    exact ⟨rfl, rfl⟩

/-- C7: with host callables that return with as many frames as they were called
with, every call of `_parse_statement` and of `js_parse_expression` that returns
normally leaves the scope stack with the number of frames it had on entry, and a
`js_parse_script` that returns normally from a stack holding the global frame alone
leaves one frame. -/
theorem statement_and_expression_keep_stack_depth (host : Host)
    (hhost : ∀ c s s1, host c s = .ok s1 → s1.stack.length = s.stack.length)
    (n : Nat) (s s1 : js) :
    (∀ a, _parse_statement host n (parsers host n) s = .ok (a, s1) →
      s1.stack.length = s.stack.length) ∧
    (∀ v, js_parse_expression host n (parsers host n) s = .ok (v, s1) →
      s1.stack.length = s.stack.length) ∧
    (s.stack.length = 1 → js_parse_script host n s = .ok ((), s1) →
      s1.stack.length = 1) := by
  have hk := host_keeps_depth host hhost
  have hp := frames_parsers (fun _ => ()) host hk n
  have len : ∀ s2 : js, s2.frames (fun _ => ()) = s.frames (fun _ => ()) →
      s2.stack.length = s.stack.length := by
    intro s2 e
    have := congrArg List.length e
    simpa only [js.frames, List.length_map] using this
  refine ⟨?_, ?_, ?_⟩
  · intro a h
    exact len s1 ((frames_parse_statement _ host n _ hp hk _).run s a s1 rfl h)
  · intro v h
    exact len s1 ((frames_js_parse_expression _ host n _ hp hk _).run s v s1 rfl h)
  · intro h1 h
    rw [← h1]
    exact len s1 ((frames_js_parse_script _ host hk n _).run s () s1 rfl h)

set_option maxRecDepth 100000 in
theorem statement_and_expression_keep_stack_depth_witness :
    (∀ c s s1, count_host c s = .ok s1 → s1.stack.length = s.stack.length) ∧
    _parse_statement count_host 50 (parsers count_host 50) count_example =
      .ok ((), { count_example with tok_cache_idx := 12 }) ∧
    ({ count_example with tok_cache_idx := 12 } : js).stack.length =
      count_example.stack.length :=
  ⟨fun c s s1 h => (count_host_keeps c s s1 h).1, by decide!,
    (statement_and_expression_keep_stack_depth count_host
      (fun c s s1 h => (count_host_keeps c s s1 h).1) 50 count_example
      { count_example with tok_cache_idx := 12 }).1 () (by decide!)⟩

/-- C6, amended: with host callables that return with as many frames as they were
called with and with the parameter buffers of the frames below their call frame as
they were, a `js_parse_script` that returns normally leaves the parameter buffer of
every frame as it was on entry (empty, if it was empty), and the result slot holds
undefined unless `mark_return` is set, if that was so on entry. -/
theorem script_keeps_parameter_buffers_and_clean_result (host : Host)
    (hhost : ∀ c s s1, host c s = .ok s1 → s1.stack.length = s.stack.length ∧
      (s1.stack.map fun fr => fr.params).tail = (s.stack.map fun fr => fr.params).tail)
    (n : Nat) (s s1 : js) (h : js_parse_script host n s = .ok ((), s1)) :
    (s1.stack.map fun fr => fr.params) = (s.stack.map fun fr => fr.params) ∧
    ((s.mark_return = false → s.result = .undefined) →
      s1.mark_return = false → s1.result = .undefined) := by
  refine ⟨?_, ?_⟩
  · have e := (frames_js_parse_script id host (host_keeps_params host hhost) n _).run
      s () s1 rfl h
    simpa only [js.frames, id] using e
  · intro hs
    exact (clean_js_parse_script host n).run s () s1 hs h

set_option maxRecDepth 100000 in
theorem script_keeps_parameter_buffers_and_clean_result_witness :
    (∀ c s s1, count_host c s = .ok s1 → s1.stack.length = s.stack.length ∧
      (s1.stack.map fun fr => fr.params).tail = (s.stack.map fun fr => fr.params).tail) ∧
    js_parse_script count_host 50 count_example =
      .ok ((),
        { count_example with
          tok_cache_idx := 23
          mark_return := true
          result := .number 1
          stack := [⟨0, 0, [(sz "count", .cfunction 0), (sz "m", .number 1)], []⟩] }) ∧
    ([⟨0, 0, [(sz "count", .cfunction 0), (sz "m", .number 1)], []⟩] :
        List js_stack_frame).map (fun fr => fr.params) =
      count_example.stack.map (fun fr => fr.params) :=
  ⟨count_host_keeps, by decide!,
    (script_keeps_parameter_buffers_and_clean_result count_host count_host_keeps 50
      count_example
      { count_example with
        tok_cache_idx := 23
        mark_return := true
        result := .number 1
        stack := [⟨0, 0, [(sz "count", .cfunction 0), (sz "m", .number 1)], []⟩] }
      (by decide!)).1⟩

/-! ## The value of a call -/

/-- C8: a completed call of a script function.  With the arguments parsed and the
cursor just after the call's `)`, the call runs `_parse_function` from the callee's
entry token with the closure bindings declared; the call's value is then the
content of the result slot as the body left it, or null when the slot is undefined;
afterwards the result slot holds undefined, `mark_return` is false and the cursor
is back just after the `)`.  The result slot is written by the `return` statement:
`return e;` stores the value of `e` and sets `mark_return`, `return;` sets
`mark_return` and leaves the slot as it was.  When the call is made with the result
slot undefined unless `mark_return` is set and the body ends with `mark_return`
false, no `return` having been reached, the call's value is null. -/
theorem script_call_yields_result_slot (host : Host) (n : Nat) (rec : Parsers) :
    (∀ (acc r : _value_accessor) (s s1 : js) (f index : Nat) (closure : js_value_map),
      s.heap.get? f = some (.function index closure) →
      (do _call_callee host n rec (.function f); _call_result acc : Parse _value_accessor) s
        = .ok (r, s1) →
      ∃ s0 sb,
        (do set_tok_cache_idx index
            js_value_map_for_each closure fun k kl v => js_variable_declare k kl v :
          Parse Unit) s = .ok ((), s0) ∧
        _parse_function n rec s0 = .ok ((), sb) ∧
        r.type = .at_value ∧
        r.v = (if sb.result.type = .vt_undefined then .null else sb.result) ∧
        s1.result = .undefined ∧ s1.mark_return = false ∧
        s1.tok_cache_idx = s.tok_cache_idx) ∧
    (∀ (s s1 : js), _require_exec s = .ok (true, s) →
      _get_token_state s = .ok (.ts_return, s) →
      _parse_statement host n rec s = .ok ((), s1) →
      s1.mark_return = true ∧
      (_get_token_state { s with tok_cache_idx := s.tok_cache_idx + 1 }
          = .ok (.ts_semicolon, { s with tok_cache_idx := s.tok_cache_idx + 1 }) →
        s1.result = s.result) ∧
      (∀ k, _get_token_state { s with tok_cache_idx := s.tok_cache_idx + 1 }
          = .ok (k, { s with tok_cache_idx := s.tok_cache_idx + 1 }) → k ≠ .ts_semicolon →
        ∃ v s2, js_parse_expression host n rec { s with tok_cache_idx := s.tok_cache_idx + 1 }
          = .ok (v, s2) ∧ s1.result = v)) ∧
    (∀ (acc r : _value_accessor) (s s1 : js) (f index : Nat) (closure : js_value_map),
      s.heap.get? f = some (.function index closure) →
      (s.mark_return = false → s.result = .undefined) →
      (do _call_callee host n (parsers host n) (.function f)
          _call_result acc : Parse _value_accessor) s = .ok (r, s1) →
      ∃ s0 sb,
        (do set_tok_cache_idx index
            js_value_map_for_each closure fun k kl v => js_variable_declare k kl v :
          Parse Unit) s = .ok ((), s0) ∧
        _parse_function n (parsers host n) s0 = .ok ((), sb) ∧
        (sb.mark_return = false → r.v = .null)) := by
  refine ⟨fun acc r s s1 f index closure hcell h =>
      script_call_post host n rec acc r s s1 f index closure hcell h,
    fun s s1 hexec hk h => return_statement_sets_result host n rec s s1 hexec hk h, ?_⟩
  intro acc r s s1 f index closure hcell hs h
  obtain ⟨s0, sb, h0, hb, _, hv, _⟩ :=
    script_call_post host n (parsers host n) acc r s s1 f index closure hcell h
  refine ⟨s0, sb, h0, hb, ?_⟩
  intro hr
  have c0 : Clean s0 :=
    (triple_bind_same clean_cursor
      (fun _ => map_for_each_triple (fun _ _ _ => clean_store) closure)).run s () s0 hs h0
  have cb : Clean sb := (clean_parse_function n _ (clean_parsers host n)).run s0 () sb c0 hb
  rw [hv, cb hr]
  rfl

set_option maxRecDepth 100000 in
theorem script_call_yields_result_slot_witness :
    call_example.heap.get? 0 = some (.function 2 []) ∧
    (do _call_callee no_host 50 (parsers no_host 50) (.function 0)
        _call_result ⟨.at_identifier, .undefined, [], 0⟩ : Parse _value_accessor) call_example
      = .ok (⟨.at_value, .number 5, [], 0⟩,
          { call_example with stack := [⟨0, 0, [(sz "f", .function 0)], []⟩] }) ∧
    ∃ s0 sb,
      (do set_tok_cache_idx 2
          js_value_map_for_each [] fun k kl v => js_variable_declare k kl v :
        Parse Unit) call_example = .ok ((), s0) ∧
      _parse_function 50 (parsers no_host 50) s0 = .ok ((), sb) ∧
      (⟨.at_value, .number 5, [], 0⟩ : _value_accessor).type = .at_value ∧
      (⟨.at_value, .number 5, [], 0⟩ : _value_accessor).v
        = (if sb.result.type = .vt_undefined then .null else sb.result) ∧
      ({ call_example with stack := [⟨0, 0, [(sz "f", .function 0)], []⟩] } : js).result
        = .undefined ∧
      ({ call_example with stack := [⟨0, 0, [(sz "f", .function 0)], []⟩] } : js).mark_return
        = false ∧
      ({ call_example with stack := [⟨0, 0, [(sz "f", .function 0)], []⟩] } : js).tok_cache_idx
        = call_example.tok_cache_idx :=
  ⟨by decide!, by decide!,
    (script_call_yields_result_slot no_host 50 (parsers no_host 50)).1
      ⟨.at_identifier, .undefined, [], 0⟩ ⟨.at_value, .number 5, [], 0⟩ call_example
      { call_example with stack := [⟨0, 0, [(sz "f", .function 0)], []⟩] } 0 2 []
      (by decide!) (by decide!)⟩

/-! ## Closures of separate calls -/

set_option maxRecDepth 100000 in
theorem closure_pair_scan :
    js_scan closure_pair_src = closure_pair_tokens 7 9 ∧
    sz closure_pair_src = closure_pair_bytes := by
  decide!

theorem closure_pair_load (a b : ℚ) :
    js_load_with closure_pair_src [a, b] = closure_pair_state a b 0 [] [] := by
  simp only [js_load_with, js_load, closure_pair_scan.1, closure_pair_scan.2]
  rfl

set_option maxRecDepth 100000 in
set_option smartUnfolding false in
theorem closure_pair_step1 (a b : ℚ) :
    _parse_statement no_host 60 (parsers no_host 60) (closure_pair_state a b 0 [] []) =
    .ok ((), closure_pair_state a b 20 [.function 4 []] [([109, 107], .function 0)]) := by
  rfl

set_option maxRecDepth 100000 in
set_option smartUnfolding false in
theorem closure_pair_step2 (a b : ℚ) :
    _parse_statement no_host 60 (parsers no_host 60)
      (closure_pair_state a b 20 [.function 4 []] [([109, 107], .function 0)]) =
    .ok ((), closure_pair_state a b 28 [.function 4 [], .function 10 [([110], .number a)]]
      [([109, 107], .function 0), ([102], .function 1)]) := by
  rfl

set_option maxRecDepth 100000 in
set_option smartUnfolding false in
theorem closure_pair_step3 (a b : ℚ) :
    _parse_statement no_host 60 (parsers no_host 60)
      (closure_pair_state a b 28 [.function 4 [], .function 10 [([110], .number a)]]
        [([109, 107], .function 0), ([102], .function 1)]) =
    .ok ((), closure_pair_state a b 36
      [.function 4 [], .function 10 [([110], .number a)], .function 10 [([110], .number b)]]
      [([109, 107], .function 0), ([102], .function 1), ([103], .function 2)]) := by
  rfl

set_option maxRecDepth 100000 in
set_option smartUnfolding false in
theorem closure_pair_step4 (a b : ℚ) :
    _parse_access_call_expression no_host 60 (parsers no_host 60)
      (closure_pair_state a b 36
        [.function 4 [], .function 10 [([110], .number a)], .function 10 [([110], .number b)]]
        [([109, 107], .function 0), ([102], .function 1), ([103], .function 2)]) =
    .ok (.number a, closure_pair_state a b 39
      [.function 4 [], .function 10 [([110], .number a)], .function 10 [([110], .number b)]]
      [([109, 107], .function 0), ([102], .function 1), ([103], .function 2)]) := by
  rfl

theorem js_run_step {host : Host} {n : Nat} {s s1 : js} (k : Nat)
    (h : _parse_statement host n (parsers host n) s = .ok ((), s1)) :
    js_run host n (k + 1) s = js_run host n k s1 := by
  show (_parse_statement host n (parsers host n) >>= fun _ => js_run host n k) s = _
  exact bind_eq h

theorem js_call_after_ok {host : Host} {n k : Nat} {s s1 s2 : js} {v : js_value}
    (h : js_run host n k s = .ok ((), s1))
    (h2 : _parse_access_call_expression host n (parsers host n) s1 = .ok (v, s2)) :
    js_value_of (js_call_after host n k s) = some v := by
  unfold js_call_after
  rw [bind_eq h, h2]
  rfl

set_option maxRecDepth 100000 in
/-- C5: after `let mk = function(n){ return function(){ return n; }; }; let f = mk(7);
let g = mk(9);` the expression `f() + g()` evaluates to 16; and with any numbers
`a` and `b` in place of 7 and 9, the call `f()` made after both calls of `mk` yields
`a`. -/
theorem closures_of_separate_calls_are_independent :
    js_value_of (js_eval_after no_host 200 3 (js_load closure_pair_src)) = some (.number 16) ∧
    ∀ a b : ℚ,
      js_value_of (js_call_after no_host 60 3 (js_load_with closure_pair_src [a, b])) =
        some (.number a) := by
  refine ⟨by decide!, ?_⟩
  intro a b
  rw [closure_pair_load]
  exact js_call_after_ok
    ((js_run_step 2 (closure_pair_step1 a b)).trans
      ((js_run_step 1 (closure_pair_step2 a b)).trans
        ((js_run_step 0 (closure_pair_step3 a b)).trans rfl)))
    (closure_pair_step4 a b)

/-! ## Every parse function leaves `parse_exec` set -/

theorem exec_on_cursor {α : Type} {m : Parse α} [CursorOnly m] : Triple ExecOn m ExecOn :=
  triple_of_pres (fun s s1 hs h => by
    have h : s1 = { s with tok_cache_idx := s1.tok_cache_idx } := h
    rw [h]
    exact hs) CursorOnly.pres

theorem exec_on_store {α : Type} {m : Parse α} [StoreOnly m] : Triple ExecOn m ExecOn :=
  triple_of_pres (fun s s1 hs h => by
    have h : s1 = { s with heap := s1.heap, stack := s1.stack } := h.1
    rw [h]
    exact hs) StoreOnly.pres

theorem exec_on_modify {f : js → js} (h : ∀ s, (f s).parse_exec = s.parse_exec) :
    Triple ExecOn (js_modify f) ExecOn := by
  constructor
  intro s a s1 hs hm
  cases hm
  exact (h s).trans hs

theorem exec_on_mark_break (b : Bool) : Triple ExecOn (set_mark_break b) ExecOn :=
  exec_on_modify fun _ => rfl

theorem exec_on_mark_continue (b : Bool) : Triple ExecOn (set_mark_continue b) ExecOn :=
  exec_on_modify fun _ => rfl

theorem exec_on_mark_return (b : Bool) : Triple ExecOn (set_mark_return b) ExecOn :=
  exec_on_modify fun _ => rfl

theorem exec_on_result (v : js_value) : Triple ExecOn (set_result v) ExecOn :=
  exec_on_modify fun _ => rfl

theorem exec_on_stack_forward : Triple ExecOn _stack_forward ExecOn := by
  unfold _stack_forward
  apply triple_bind_same triple_read_only
  intro h
  apply triple_bind_same triple_read_only
  intro t
  exact exec_on_modify fun _ => rfl

theorem exec_on_stack_backward : Triple ExecOn js_stack_backward ExecOn := by
  constructor
  intro s a s1 hs hm
  simp only [js_stack_backward] at hm
  split at hm
  · cases hm
  · cases hm
    exact hs

theorem exec_on_parameter_push (v : js_value) : Triple ExecOn (js_parameter_push v) ExecOn := by
  constructor
  intro s a s1 hs hm
  simp only [js_parameter_push] at hm
  split at hm
  · cases hm
  · cases hm
    exact hs

theorem exec_on_call_result (acc : _value_accessor) : Triple ExecOn (_call_result acc) ExecOn := by
  constructor
  intro s a s1 hs hm
  have hp := call_result_post acc a s s1 hm
  exact hp.2.2.2.2.2.2.1.trans hs

theorem exec_on_set_true {A : js → Prop} : Triple A (set_parse_exec true) ExecOn := by
  constructor
  intro s a s1 _ hm
  cases hm
  rfl

theorem any_set_parse_exec {A : js → Prop} (b : Bool) : Triple A (set_parse_exec b) Any :=
  triple_any

theorem any_loop {σ α : Type} {A : js → Prop} {body : σ → Parse (σ ⊕ α)} {n : Nat} {x : σ} :
    Triple A (js_loop body n x) Any := triple_any

theorem exec_on_parse_statements (n : Nat) (rec : Parsers)
    (hrec : rec.ExecOn) :
    Triple ExecOn (_parse_statements n rec) ExecOn := by
  unfold _parse_statements
  with_reducible repeat' (first
    | intro _
    | exact triple_pure | exact triple_throw | exact triple_stop
    | exact triple_read_only | exact triple_any
    | exact exec_on_cursor | exact exec_on_store
    | exact exec_on_mark_break _ | exact exec_on_mark_continue _
    | exact exec_on_mark_return _ | exact exec_on_result _
    | exact exec_on_stack_forward | exact exec_on_stack_backward
    | exact exec_on_parameter_push _ | exact exec_on_call_result _
    | exact exec_on_set_true
    | exact hrec.statement | exact hrec.expression | exact hrec.additive
    | apply for_each_spread_triple | apply map_for_each_triple
    | apply triple_loop
    | apply triple_bind exec_on_set_true | apply triple_bind (any_set_parse_exec _)
    | apply triple_bind_same | apply triple_ite | split)

theorem exec_on_parse_function (n : Nat) (rec : Parsers)
    (hrec : rec.ExecOn) :
    Triple ExecOn (_parse_function n rec) ExecOn := by
  unfold _parse_function
  with_reducible repeat' (first
    | intro _
    | exact triple_pure | exact triple_throw | exact triple_stop
    | exact triple_read_only | exact triple_any
    | exact exec_on_cursor | exact exec_on_store
    | exact exec_on_mark_break _ | exact exec_on_mark_continue _
    | exact exec_on_mark_return _ | exact exec_on_result _
    | exact exec_on_stack_forward | exact exec_on_stack_backward
    | exact exec_on_parameter_push _ | exact exec_on_call_result _
    | exact exec_on_set_true
    | exact hrec.statement | exact hrec.expression | exact hrec.additive
    | exact exec_on_parse_statements n rec hrec
    | apply for_each_spread_triple | apply map_for_each_triple
    | apply triple_loop
    | apply triple_bind exec_on_set_true | apply triple_bind (any_set_parse_exec _)
    | apply triple_bind_same | apply triple_ite | split)

theorem exec_on_parse_value (n : Nat) (rec : Parsers)
    (hrec : rec.ExecOn) :
    Triple ExecOn (_parse_value n rec) ExecOn := by
  unfold _parse_value
  with_reducible repeat' (first
    | intro _
    | exact triple_pure | exact triple_throw | exact triple_stop
    | exact triple_read_only | exact triple_any
    | exact exec_on_cursor | exact exec_on_store
    | exact exec_on_mark_break _ | exact exec_on_mark_continue _
    | exact exec_on_mark_return _ | exact exec_on_result _
    | exact exec_on_stack_forward | exact exec_on_stack_backward
    | exact exec_on_parameter_push _ | exact exec_on_call_result _
    | exact exec_on_set_true
    | exact hrec.statement | exact hrec.expression | exact hrec.additive
    | exact exec_on_parse_statements n rec hrec
    | exact exec_on_parse_function n rec hrec
    | apply for_each_spread_triple | apply map_for_each_triple
    | apply triple_loop
    | apply triple_bind exec_on_set_true | apply triple_bind (any_set_parse_exec _)
    | apply triple_bind_same | apply triple_ite | split)

theorem exec_on_parse_call_arguments (n : Nat) (rec : Parsers)
    (hrec : rec.ExecOn) :
    Triple ExecOn (_parse_call_arguments n rec) ExecOn := by
  unfold _parse_call_arguments
  with_reducible repeat' (first
    | intro _
    | exact triple_pure | exact triple_throw | exact triple_stop
    | exact triple_read_only | exact triple_any
    | exact exec_on_cursor | exact exec_on_store
    | exact exec_on_mark_break _ | exact exec_on_mark_continue _
    | exact exec_on_mark_return _ | exact exec_on_result _
    | exact exec_on_stack_forward | exact exec_on_stack_backward
    | exact exec_on_parameter_push _ | exact exec_on_call_result _
    | exact exec_on_set_true
    | exact hrec.statement | exact hrec.expression | exact hrec.additive
    | exact exec_on_parse_statements n rec hrec
    | exact exec_on_parse_function n rec hrec
    | exact exec_on_parse_value n rec hrec
    | apply for_each_spread_triple | apply map_for_each_triple
    | apply triple_loop
    | apply triple_bind exec_on_set_true | apply triple_bind (any_set_parse_exec _)
    | apply triple_bind_same | apply triple_ite | split)

theorem exec_on_call_callee (host : Host) (n : Nat) (rec : Parsers) (callee : js_value)
    (hrec : rec.ExecOn) (hhost : HostExecOn host) :
    Triple ExecOn (_call_callee host n rec callee) ExecOn := by
  unfold _call_callee
  with_reducible repeat' (first
    | intro _
    | exact triple_pure | exact triple_throw | exact triple_stop
    | exact triple_read_only | exact triple_any
    | exact exec_on_cursor | exact exec_on_store
    | exact exec_on_mark_break _ | exact exec_on_mark_continue _
    | exact exec_on_mark_return _ | exact exec_on_result _
    | exact exec_on_stack_forward | exact exec_on_stack_backward
    | exact exec_on_parameter_push _ | exact exec_on_call_result _
    | exact exec_on_set_true
    | exact hrec.statement | exact hrec.expression | exact hrec.additive
    | exact hhost.run _
    | exact exec_on_parse_statements n rec hrec
    | exact exec_on_parse_function n rec hrec
    | exact exec_on_parse_value n rec hrec
    | exact exec_on_parse_call_arguments n rec hrec
    | apply for_each_spread_triple | apply map_for_each_triple
    | apply triple_loop
    | apply triple_bind exec_on_set_true | apply triple_bind (any_set_parse_exec _)
    | apply triple_bind_same | apply triple_ite | split)

theorem exec_on_parse_accessor (host : Host) (n : Nat) (rec : Parsers)
    (hrec : rec.ExecOn) (hhost : HostExecOn host) :
    Triple ExecOn (_parse_accessor host n rec) ExecOn := by
  unfold _parse_accessor
  with_reducible repeat' (first
    | intro _
    | exact triple_pure | exact triple_throw | exact triple_stop
    | exact triple_read_only | exact triple_any
    | exact exec_on_cursor | exact exec_on_store
    | exact exec_on_mark_break _ | exact exec_on_mark_continue _
    | exact exec_on_mark_return _ | exact exec_on_result _
    | exact exec_on_stack_forward | exact exec_on_stack_backward
    | exact exec_on_parameter_push _ | exact exec_on_call_result _
    | exact exec_on_set_true
    | exact hrec.statement | exact hrec.expression | exact hrec.additive
    | exact hhost.run _
    | exact exec_on_parse_statements n rec hrec
    | exact exec_on_parse_function n rec hrec
    | exact exec_on_parse_value n rec hrec
    | exact exec_on_parse_call_arguments n rec hrec
    | exact exec_on_call_callee host n rec _ hrec hhost
    | apply for_each_spread_triple | apply map_for_each_triple
    | apply triple_loop
    | apply triple_bind exec_on_set_true | apply triple_bind (any_set_parse_exec _)
    | apply triple_bind_same | apply triple_ite | split)

theorem exec_on_parse_access_call_expression (host : Host) (n : Nat) (rec : Parsers)
    (hrec : rec.ExecOn) (hhost : HostExecOn host) :
    Triple ExecOn (_parse_access_call_expression host n rec) ExecOn := by
  unfold _parse_access_call_expression
  with_reducible repeat' (first
    | intro _
    | exact triple_pure | exact triple_throw | exact triple_stop
    | exact triple_read_only | exact triple_any
    | exact exec_on_cursor | exact exec_on_store
    | exact exec_on_mark_break _ | exact exec_on_mark_continue _
    | exact exec_on_mark_return _ | exact exec_on_result _
    | exact exec_on_stack_forward | exact exec_on_stack_backward
    | exact exec_on_parameter_push _ | exact exec_on_call_result _
    | exact exec_on_set_true
    | exact hrec.statement | exact hrec.expression | exact hrec.additive
    | exact hhost.run _
    | exact exec_on_parse_statements n rec hrec
    | exact exec_on_parse_function n rec hrec
    | exact exec_on_parse_value n rec hrec
    | exact exec_on_parse_call_arguments n rec hrec
    | exact exec_on_call_callee host n rec _ hrec hhost
    | exact exec_on_parse_accessor host n rec hrec hhost
    | apply for_each_spread_triple | apply map_for_each_triple
    | apply triple_loop
    | apply triple_bind exec_on_set_true | apply triple_bind (any_set_parse_exec _)
    | apply triple_bind_same | apply triple_ite | split)

theorem exec_on_parse_prefix_expression (host : Host) (n : Nat) (rec : Parsers)
    (hrec : rec.ExecOn) (hhost : HostExecOn host) :
    Triple ExecOn (_parse_prefix_expression host n rec) ExecOn := by
  unfold _parse_prefix_expression
  with_reducible repeat' (first
    | intro _
    | exact triple_pure | exact triple_throw | exact triple_stop
    | exact triple_read_only | exact triple_any
    | exact exec_on_cursor | exact exec_on_store
    | exact exec_on_mark_break _ | exact exec_on_mark_continue _
    | exact exec_on_mark_return _ | exact exec_on_result _
    | exact exec_on_stack_forward | exact exec_on_stack_backward
    | exact exec_on_parameter_push _ | exact exec_on_call_result _
    | exact exec_on_set_true
    | exact hrec.statement | exact hrec.expression | exact hrec.additive
    | exact hhost.run _
    | exact exec_on_parse_statements n rec hrec
    | exact exec_on_parse_function n rec hrec
    | exact exec_on_parse_value n rec hrec
    | exact exec_on_parse_call_arguments n rec hrec
    | exact exec_on_call_callee host n rec _ hrec hhost
    | exact exec_on_parse_accessor host n rec hrec hhost
    | exact exec_on_parse_access_call_expression host n rec hrec hhost
    | apply for_each_spread_triple | apply map_for_each_triple
    | apply triple_loop
    | apply triple_bind exec_on_set_true | apply triple_bind (any_set_parse_exec _)
    | apply triple_bind_same | apply triple_ite | split)

theorem exec_on_parse_multiplicative_expression (host : Host) (n : Nat) (rec : Parsers)
    (hrec : rec.ExecOn) (hhost : HostExecOn host) :
    Triple ExecOn (_parse_multiplicative_expression host n rec) ExecOn := by
  unfold _parse_multiplicative_expression
  with_reducible repeat' (first
    | intro _
    | exact triple_pure | exact triple_throw | exact triple_stop
    | exact triple_read_only | exact triple_any
    | exact exec_on_cursor | exact exec_on_store
    | exact exec_on_mark_break _ | exact exec_on_mark_continue _
    | exact exec_on_mark_return _ | exact exec_on_result _
    | exact exec_on_stack_forward | exact exec_on_stack_backward
    | exact exec_on_parameter_push _ | exact exec_on_call_result _
    | exact exec_on_set_true
    | exact hrec.statement | exact hrec.expression | exact hrec.additive
    | exact hhost.run _
    | exact exec_on_parse_statements n rec hrec
    | exact exec_on_parse_function n rec hrec
    | exact exec_on_parse_value n rec hrec
    | exact exec_on_parse_call_arguments n rec hrec
    | exact exec_on_call_callee host n rec _ hrec hhost
    | exact exec_on_parse_accessor host n rec hrec hhost
    | exact exec_on_parse_access_call_expression host n rec hrec hhost
    | exact exec_on_parse_prefix_expression host n rec hrec hhost
    | apply for_each_spread_triple | apply map_for_each_triple
    | apply triple_loop
    | apply triple_bind exec_on_set_true | apply triple_bind (any_set_parse_exec _)
    | apply triple_bind_same | apply triple_ite | split)

theorem exec_on_parse_additive_expression (host : Host) (n : Nat) (rec : Parsers)
    (hrec : rec.ExecOn) (hhost : HostExecOn host) :
    Triple ExecOn (_parse_additive_expression host n rec) ExecOn := by
  unfold _parse_additive_expression
  with_reducible repeat' (first
    | intro _
    | exact triple_pure | exact triple_throw | exact triple_stop
    | exact triple_read_only | exact triple_any
    | exact exec_on_cursor | exact exec_on_store
    | exact exec_on_mark_break _ | exact exec_on_mark_continue _
    | exact exec_on_mark_return _ | exact exec_on_result _
    | exact exec_on_stack_forward | exact exec_on_stack_backward
    | exact exec_on_parameter_push _ | exact exec_on_call_result _
    | exact exec_on_set_true
    | exact hrec.statement | exact hrec.expression | exact hrec.additive
    | exact hhost.run _
    | exact exec_on_parse_statements n rec hrec
    | exact exec_on_parse_function n rec hrec
    | exact exec_on_parse_value n rec hrec
    | exact exec_on_parse_call_arguments n rec hrec
    | exact exec_on_call_callee host n rec _ hrec hhost
    | exact exec_on_parse_accessor host n rec hrec hhost
    | exact exec_on_parse_access_call_expression host n rec hrec hhost
    | exact exec_on_parse_prefix_expression host n rec hrec hhost
    | exact exec_on_parse_multiplicative_expression host n rec hrec hhost
    | apply for_each_spread_triple | apply map_for_each_triple
    | apply triple_loop
    | apply triple_bind exec_on_set_true | apply triple_bind (any_set_parse_exec _)
    | apply triple_bind_same | apply triple_ite | split)

theorem exec_on_parse_relational_expression (host : Host) (n : Nat) (rec : Parsers)
    (hrec : rec.ExecOn) (hhost : HostExecOn host) :
    Triple ExecOn (_parse_relational_expression host n rec) ExecOn := by
  unfold _parse_relational_expression
  with_reducible repeat' (first
    | intro _
    | exact triple_pure | exact triple_throw | exact triple_stop
    | exact triple_read_only | exact triple_any
    | exact exec_on_cursor | exact exec_on_store
    | exact exec_on_mark_break _ | exact exec_on_mark_continue _
    | exact exec_on_mark_return _ | exact exec_on_result _
    | exact exec_on_stack_forward | exact exec_on_stack_backward
    | exact exec_on_parameter_push _ | exact exec_on_call_result _
    | exact exec_on_set_true
    | exact hrec.statement | exact hrec.expression | exact hrec.additive
    | exact hhost.run _
    | exact exec_on_parse_statements n rec hrec
    | exact exec_on_parse_function n rec hrec
    | exact exec_on_parse_value n rec hrec
    | exact exec_on_parse_call_arguments n rec hrec
    | exact exec_on_call_callee host n rec _ hrec hhost
    | exact exec_on_parse_accessor host n rec hrec hhost
    | exact exec_on_parse_access_call_expression host n rec hrec hhost
    | exact exec_on_parse_prefix_expression host n rec hrec hhost
    | exact exec_on_parse_multiplicative_expression host n rec hrec hhost
    | exact exec_on_parse_additive_expression host n rec hrec hhost
    | apply for_each_spread_triple | apply map_for_each_triple
    | apply triple_loop
    | apply triple_bind exec_on_set_true | apply triple_bind (any_set_parse_exec _)
    | apply triple_bind_same | apply triple_ite | split)

theorem exec_on_parse_logical_expression (host : Host) (n : Nat) (rec : Parsers)
    (hrec : rec.ExecOn) (hhost : HostExecOn host) :
    Triple ExecOn (_parse_logical_expression host n rec) ExecOn := by
  unfold _parse_logical_expression
  with_reducible repeat' (first
    | intro _
    | exact triple_pure | exact triple_throw | exact triple_stop
    | exact triple_read_only | exact triple_any
    | exact exec_on_cursor | exact exec_on_store
    | exact exec_on_mark_break _ | exact exec_on_mark_continue _
    | exact exec_on_mark_return _ | exact exec_on_result _
    | exact exec_on_stack_forward | exact exec_on_stack_backward
    | exact exec_on_parameter_push _ | exact exec_on_call_result _
    | exact exec_on_set_true
    | exact hrec.statement | exact hrec.expression | exact hrec.additive
    | exact hhost.run _
    | exact exec_on_parse_statements n rec hrec
    | exact exec_on_parse_function n rec hrec
    | exact exec_on_parse_value n rec hrec
    | exact exec_on_parse_call_arguments n rec hrec
    | exact exec_on_call_callee host n rec _ hrec hhost
    | exact exec_on_parse_accessor host n rec hrec hhost
    | exact exec_on_parse_access_call_expression host n rec hrec hhost
    | exact exec_on_parse_prefix_expression host n rec hrec hhost
    | exact exec_on_parse_multiplicative_expression host n rec hrec hhost
    | exact exec_on_parse_additive_expression host n rec hrec hhost
    | exact exec_on_parse_relational_expression host n rec hrec hhost
    | apply for_each_spread_triple | apply map_for_each_triple
    | apply triple_loop
    | apply triple_bind exec_on_set_true | apply triple_bind (any_set_parse_exec _)
    | apply triple_bind_same | apply triple_ite | split)

theorem exec_on_js_parse_expression (host : Host) (n : Nat) (rec : Parsers)
    (hrec : rec.ExecOn) (hhost : HostExecOn host) :
    Triple ExecOn (js_parse_expression host n rec) ExecOn := by
  unfold js_parse_expression
  with_reducible repeat' (first
    | intro _
    | exact triple_pure | exact triple_throw | exact triple_stop
    | exact triple_read_only | exact triple_any
    | exact exec_on_cursor | exact exec_on_store
    | exact exec_on_mark_break _ | exact exec_on_mark_continue _
    | exact exec_on_mark_return _ | exact exec_on_result _
    | exact exec_on_stack_forward | exact exec_on_stack_backward
    | exact exec_on_parameter_push _ | exact exec_on_call_result _
    | exact exec_on_set_true
    | exact hrec.statement | exact hrec.expression | exact hrec.additive
    | exact hhost.run _
    | exact exec_on_parse_statements n rec hrec
    | exact exec_on_parse_function n rec hrec
    | exact exec_on_parse_value n rec hrec
    | exact exec_on_parse_call_arguments n rec hrec
    | exact exec_on_call_callee host n rec _ hrec hhost
    | exact exec_on_parse_accessor host n rec hrec hhost
    | exact exec_on_parse_access_call_expression host n rec hrec hhost
    | exact exec_on_parse_prefix_expression host n rec hrec hhost
    | exact exec_on_parse_multiplicative_expression host n rec hrec hhost
    | exact exec_on_parse_additive_expression host n rec hrec hhost
    | exact exec_on_parse_relational_expression host n rec hrec hhost
    | exact exec_on_parse_logical_expression host n rec hrec hhost
    | apply for_each_spread_triple | apply map_for_each_triple
    | apply triple_loop
    | apply triple_bind exec_on_set_true | apply triple_bind (any_set_parse_exec _)
    | apply triple_bind_same | apply triple_ite | split)

theorem exec_on_parse_assignment_expression (host : Host) (n : Nat) (rec : Parsers)
    (hrec : rec.ExecOn) (hhost : HostExecOn host) :
    Triple ExecOn (_parse_assignment_expression host n rec) ExecOn := by
  unfold _parse_assignment_expression
  with_reducible repeat' (first
    | intro _
    | exact triple_pure | exact triple_throw | exact triple_stop
    | exact triple_read_only | exact triple_any
    | exact exec_on_cursor | exact exec_on_store
    | exact exec_on_mark_break _ | exact exec_on_mark_continue _
    | exact exec_on_mark_return _ | exact exec_on_result _
    | exact exec_on_stack_forward | exact exec_on_stack_backward
    | exact exec_on_parameter_push _ | exact exec_on_call_result _
    | exact exec_on_set_true
    | exact hrec.statement | exact hrec.expression | exact hrec.additive
    | exact hhost.run _
    | exact exec_on_parse_statements n rec hrec
    | exact exec_on_parse_function n rec hrec
    | exact exec_on_parse_value n rec hrec
    | exact exec_on_parse_call_arguments n rec hrec
    | exact exec_on_call_callee host n rec _ hrec hhost
    | exact exec_on_parse_accessor host n rec hrec hhost
    | exact exec_on_parse_access_call_expression host n rec hrec hhost
    | exact exec_on_parse_prefix_expression host n rec hrec hhost
    | exact exec_on_parse_multiplicative_expression host n rec hrec hhost
    | exact exec_on_parse_additive_expression host n rec hrec hhost
    | exact exec_on_parse_relational_expression host n rec hrec hhost
    | exact exec_on_parse_logical_expression host n rec hrec hhost
    | exact exec_on_js_parse_expression host n rec hrec hhost
    | apply for_each_spread_triple | apply map_for_each_triple
    | apply triple_loop
    | apply triple_bind exec_on_set_true | apply triple_bind (any_set_parse_exec _)
    | apply triple_bind_same | apply triple_ite | split)

theorem exec_on_parse_declaration_expression (host : Host) (n : Nat) (rec : Parsers)
    (hrec : rec.ExecOn) (hhost : HostExecOn host) :
    Triple ExecOn (_parse_declaration_expression host n rec) ExecOn := by
  unfold _parse_declaration_expression
  with_reducible repeat' (first
    | intro _
    | exact triple_pure | exact triple_throw | exact triple_stop
    | exact triple_read_only | exact triple_any
    | exact exec_on_cursor | exact exec_on_store
    | exact exec_on_mark_break _ | exact exec_on_mark_continue _
    | exact exec_on_mark_return _ | exact exec_on_result _
    | exact exec_on_stack_forward | exact exec_on_stack_backward
    | exact exec_on_parameter_push _ | exact exec_on_call_result _
    | exact exec_on_set_true
    | exact hrec.statement | exact hrec.expression | exact hrec.additive
    | exact hhost.run _
    | exact exec_on_parse_statements n rec hrec
    | exact exec_on_parse_function n rec hrec
    | exact exec_on_parse_value n rec hrec
    | exact exec_on_parse_call_arguments n rec hrec
    | exact exec_on_call_callee host n rec _ hrec hhost
    | exact exec_on_parse_accessor host n rec hrec hhost
    | exact exec_on_parse_access_call_expression host n rec hrec hhost
    | exact exec_on_parse_prefix_expression host n rec hrec hhost
    | exact exec_on_parse_multiplicative_expression host n rec hrec hhost
    | exact exec_on_parse_additive_expression host n rec hrec hhost
    | exact exec_on_parse_relational_expression host n rec hrec hhost
    | exact exec_on_parse_logical_expression host n rec hrec hhost
    | exact exec_on_js_parse_expression host n rec hrec hhost
    | exact exec_on_parse_assignment_expression host n rec hrec hhost
    | apply for_each_spread_triple | apply map_for_each_triple
    | apply triple_loop
    | apply triple_bind exec_on_set_true | apply triple_bind (any_set_parse_exec _)
    | apply triple_bind_same | apply triple_ite | split)

theorem exec_on_parse_classic_for (host : Host) (n : Nat) (rec : Parsers)
    (hrec : rec.ExecOn) (hhost : HostExecOn host) :
    Triple ExecOn (_parse_classic_for host n rec) ExecOn := by
  unfold _parse_classic_for
  with_reducible repeat' (first
    | intro _
    | exact triple_pure | exact triple_throw | exact triple_stop
    | exact triple_read_only | exact triple_any
    | exact exec_on_cursor | exact exec_on_store
    | exact exec_on_mark_break _ | exact exec_on_mark_continue _
    | exact exec_on_mark_return _ | exact exec_on_result _
    | exact exec_on_stack_forward | exact exec_on_stack_backward
    | exact exec_on_parameter_push _ | exact exec_on_call_result _
    | exact exec_on_set_true
    | exact hrec.statement | exact hrec.expression | exact hrec.additive
    | exact hhost.run _
    | exact exec_on_parse_statements n rec hrec
    | exact exec_on_parse_function n rec hrec
    | exact exec_on_parse_value n rec hrec
    | exact exec_on_parse_call_arguments n rec hrec
    | exact exec_on_call_callee host n rec _ hrec hhost
    | exact exec_on_parse_accessor host n rec hrec hhost
    | exact exec_on_parse_access_call_expression host n rec hrec hhost
    | exact exec_on_parse_prefix_expression host n rec hrec hhost
    | exact exec_on_parse_multiplicative_expression host n rec hrec hhost
    | exact exec_on_parse_additive_expression host n rec hrec hhost
    | exact exec_on_parse_relational_expression host n rec hrec hhost
    | exact exec_on_parse_logical_expression host n rec hrec hhost
    | exact exec_on_js_parse_expression host n rec hrec hhost
    | exact exec_on_parse_assignment_expression host n rec hrec hhost
    | exact exec_on_parse_declaration_expression host n rec hrec hhost
    | apply for_each_spread_triple | apply map_for_each_triple
    | apply triple_bind any_loop
    | apply triple_bind exec_on_set_true | apply triple_bind (any_set_parse_exec _)
    | apply triple_bind_same | apply triple_ite | split)

theorem exec_on_parse_for_in_of (host : Host) (n : Nat) (rec : Parsers) (for_type : _for_type) (acc : _value_accessor)
    (hrec : rec.ExecOn) (hhost : HostExecOn host) :
    Triple ExecOn (_parse_for_in_of host n rec for_type acc) ExecOn := by
  unfold _parse_for_in_of
  with_reducible repeat' (first
    | intro _
    | exact triple_pure | exact triple_throw | exact triple_stop
    | exact triple_read_only | exact triple_any
    | exact exec_on_cursor | exact exec_on_store
    | exact exec_on_mark_break _ | exact exec_on_mark_continue _
    | exact exec_on_mark_return _ | exact exec_on_result _
    | exact exec_on_stack_forward | exact exec_on_stack_backward
    | exact exec_on_parameter_push _ | exact exec_on_call_result _
    | exact exec_on_set_true
    | exact hrec.statement | exact hrec.expression | exact hrec.additive
    | exact hhost.run _
    | exact exec_on_parse_statements n rec hrec
    | exact exec_on_parse_function n rec hrec
    | exact exec_on_parse_value n rec hrec
    | exact exec_on_parse_call_arguments n rec hrec
    | exact exec_on_call_callee host n rec _ hrec hhost
    | exact exec_on_parse_accessor host n rec hrec hhost
    | exact exec_on_parse_access_call_expression host n rec hrec hhost
    | exact exec_on_parse_prefix_expression host n rec hrec hhost
    | exact exec_on_parse_multiplicative_expression host n rec hrec hhost
    | exact exec_on_parse_additive_expression host n rec hrec hhost
    | exact exec_on_parse_relational_expression host n rec hrec hhost
    | exact exec_on_parse_logical_expression host n rec hrec hhost
    | exact exec_on_js_parse_expression host n rec hrec hhost
    | exact exec_on_parse_assignment_expression host n rec hrec hhost
    | exact exec_on_parse_declaration_expression host n rec hrec hhost
    | exact exec_on_parse_classic_for host n rec hrec hhost
    | apply for_each_spread_triple | apply map_for_each_triple
    | apply triple_loop
    | apply triple_bind exec_on_set_true | apply triple_bind (any_set_parse_exec _)
    | apply triple_bind_same | apply triple_ite | split)

theorem exec_on_parse_while (host : Host) (n : Nat) (rec : Parsers)
    (hrec : rec.ExecOn) (hhost : HostExecOn host) :
    Triple ExecOn (_parse_while host n rec) ExecOn := by
  unfold _parse_while
  with_reducible repeat' (first
    | intro _
    | exact triple_pure | exact triple_throw | exact triple_stop
    | exact triple_read_only | exact triple_any
    | exact exec_on_cursor | exact exec_on_store
    | exact exec_on_mark_break _ | exact exec_on_mark_continue _
    | exact exec_on_mark_return _ | exact exec_on_result _
    | exact exec_on_stack_forward | exact exec_on_stack_backward
    | exact exec_on_parameter_push _ | exact exec_on_call_result _
    | exact exec_on_set_true
    | exact hrec.statement | exact hrec.expression | exact hrec.additive
    | exact hhost.run _
    | exact exec_on_parse_statements n rec hrec
    | exact exec_on_parse_function n rec hrec
    | exact exec_on_parse_value n rec hrec
    | exact exec_on_parse_call_arguments n rec hrec
    | exact exec_on_call_callee host n rec _ hrec hhost
    | exact exec_on_parse_accessor host n rec hrec hhost
    | exact exec_on_parse_access_call_expression host n rec hrec hhost
    | exact exec_on_parse_prefix_expression host n rec hrec hhost
    | exact exec_on_parse_multiplicative_expression host n rec hrec hhost
    | exact exec_on_parse_additive_expression host n rec hrec hhost
    | exact exec_on_parse_relational_expression host n rec hrec hhost
    | exact exec_on_parse_logical_expression host n rec hrec hhost
    | exact exec_on_js_parse_expression host n rec hrec hhost
    | exact exec_on_parse_assignment_expression host n rec hrec hhost
    | exact exec_on_parse_declaration_expression host n rec hrec hhost
    | exact exec_on_parse_classic_for host n rec hrec hhost
    | exact exec_on_parse_for_in_of host n rec _ _ hrec hhost
    | apply for_each_spread_triple | apply map_for_each_triple
    | apply triple_bind any_loop
    | apply triple_bind exec_on_set_true | apply triple_bind (any_set_parse_exec _)
    | apply triple_bind_same | apply triple_ite | split)

theorem exec_on_parse_do_while (host : Host) (n : Nat) (rec : Parsers)
    (hrec : rec.ExecOn) (hhost : HostExecOn host) :
    Triple ExecOn (_parse_do_while host n rec) ExecOn := by
  unfold _parse_do_while
  with_reducible repeat' (first
    | intro _
    | exact triple_pure | exact triple_throw | exact triple_stop
    | exact triple_read_only | exact triple_any
    | exact exec_on_cursor | exact exec_on_store
    | exact exec_on_mark_break _ | exact exec_on_mark_continue _
    | exact exec_on_mark_return _ | exact exec_on_result _
    | exact exec_on_stack_forward | exact exec_on_stack_backward
    | exact exec_on_parameter_push _ | exact exec_on_call_result _
    | exact exec_on_set_true
    | exact hrec.statement | exact hrec.expression | exact hrec.additive
    | exact hhost.run _
    | exact exec_on_parse_statements n rec hrec
    | exact exec_on_parse_function n rec hrec
    | exact exec_on_parse_value n rec hrec
    | exact exec_on_parse_call_arguments n rec hrec
    | exact exec_on_call_callee host n rec _ hrec hhost
    | exact exec_on_parse_accessor host n rec hrec hhost
    | exact exec_on_parse_access_call_expression host n rec hrec hhost
    | exact exec_on_parse_prefix_expression host n rec hrec hhost
    | exact exec_on_parse_multiplicative_expression host n rec hrec hhost
    | exact exec_on_parse_additive_expression host n rec hrec hhost
    | exact exec_on_parse_relational_expression host n rec hrec hhost
    | exact exec_on_parse_logical_expression host n rec hrec hhost
    | exact exec_on_js_parse_expression host n rec hrec hhost
    | exact exec_on_parse_assignment_expression host n rec hrec hhost
    | exact exec_on_parse_declaration_expression host n rec hrec hhost
    | exact exec_on_parse_classic_for host n rec hrec hhost
    | exact exec_on_parse_for_in_of host n rec _ _ hrec hhost
    | exact exec_on_parse_while host n rec hrec hhost
    | apply for_each_spread_triple | apply map_for_each_triple
    | apply triple_loop
    | apply triple_bind exec_on_set_true | apply triple_bind (any_set_parse_exec _)
    | apply triple_bind_same | apply triple_ite | split)

set_option maxHeartbeats 4000000 in
theorem exec_on_parse_statement (host : Host) (n : Nat) (rec : Parsers)
    (hrec : rec.ExecOn) (hhost : HostExecOn host) :
    Triple ExecOn (_parse_statement host n rec) ExecOn := by
  unfold _parse_statement
  with_reducible repeat' (first
    | intro _
    | exact triple_pure | exact triple_throw | exact triple_stop
    | exact triple_read_only | exact triple_any
    | exact exec_on_cursor | exact exec_on_store
    | exact exec_on_mark_break _ | exact exec_on_mark_continue _
    | exact exec_on_mark_return _ | exact exec_on_result _
    | exact exec_on_stack_forward | exact exec_on_stack_backward
    | exact exec_on_parameter_push _ | exact exec_on_call_result _
    | exact exec_on_set_true
    | exact hrec.statement | exact hrec.expression | exact hrec.additive
    | exact hhost.run _
    | exact exec_on_parse_statements n rec hrec
    | exact exec_on_parse_function n rec hrec
    | exact exec_on_parse_value n rec hrec
    | exact exec_on_parse_call_arguments n rec hrec
    | exact exec_on_call_callee host n rec _ hrec hhost
    | exact exec_on_parse_accessor host n rec hrec hhost
    | exact exec_on_parse_access_call_expression host n rec hrec hhost
    | exact exec_on_parse_prefix_expression host n rec hrec hhost
    | exact exec_on_parse_multiplicative_expression host n rec hrec hhost
    | exact exec_on_parse_additive_expression host n rec hrec hhost
    | exact exec_on_parse_relational_expression host n rec hrec hhost
    | exact exec_on_parse_logical_expression host n rec hrec hhost
    | exact exec_on_js_parse_expression host n rec hrec hhost
    | exact exec_on_parse_assignment_expression host n rec hrec hhost
    | exact exec_on_parse_declaration_expression host n rec hrec hhost
    | exact exec_on_parse_classic_for host n rec hrec hhost
    | exact exec_on_parse_for_in_of host n rec _ _ hrec hhost
    | exact exec_on_parse_while host n rec hrec hhost
    | exact exec_on_parse_do_while host n rec hrec hhost
    | apply for_each_spread_triple | apply map_for_each_triple
    | apply triple_loop
    | apply triple_bind exec_on_set_true | apply triple_bind (any_set_parse_exec _)
    | apply triple_bind_same | apply triple_ite | split)

/-! ## Running a function forwards -/

theorem run_bind {α β : Type} (m : Parse α) (f : α → Parse β) (s : js) :
    (m >>= f) s = match m s with
      | .ok (a, s1) => f a s1
      | .error e => .error e := rfl

theorem run_pure {α : Type} (a : α) (s : js) : (pure a : Parse α) s = .ok (a, s) := rfl

theorem run_throw {α : Type} (msg : String) (s : js) :
    (js_throw msg : Parse α) s = .error (.throw msg) := rfl

theorem run_stop {α : Type} (e : js_error) (s : js) : (js_stop e : Parse α) s = .error e := rfl

theorem run_ite {α : Type} (c : Prop) [Decidable c] (a b : Parse α) (s : js) :
    (if c then a else b) s = if c then a s else b s := by
  split <;> rfl

theorem run_get (s : js) : js_get s = .ok (s, s) := rfl

theorem run_modify (f : js → js) (s : js) : js_modify f s = .ok ((), f s) := rfl

theorem run_require_exec (s : js) : _require_exec s = .ok (s.exec, s) := rfl

theorem run_next_token (s : js) :
    _next_token s = .ok ((), { s with tok_cache_idx := s.tok_cache_idx + 1 }) := rfl

theorem run_set_tok_cache_idx (i : Nat) (s : js) :
    set_tok_cache_idx i s = .ok ((), { s with tok_cache_idx := i }) := rfl

theorem run_set_parse_exec (b : Bool) (s : js) :
    set_parse_exec b s = .ok ((), { s with parse_exec := b }) := rfl

theorem run_set_mark_break (b : Bool) (s : js) :
    set_mark_break b s = .ok ((), { s with mark_break := b }) := rfl

theorem run_set_mark_continue (b : Bool) (s : js) :
    set_mark_continue b s = .ok ((), { s with mark_continue := b }) := rfl

theorem run_set_mark_return (b : Bool) (s : js) :
    set_mark_return b s = .ok ((), { s with mark_return := b }) := rfl

theorem run_set_result (v : js_value) (s : js) :
    set_result v s = .ok ((), { s with result := v }) := rfl

theorem run_accept (stat : js_token_state) (s : js) :
    _accept stat s = match _get_token_state s with
      | .ok (k, s1) =>
        if k = stat then .ok (true, { s1 with tok_cache_idx := s1.tok_cache_idx + 1 })
        else .ok (false, s1)
      | .error e => .error e := by
  unfold _accept
  rw [run_bind]
  split <;> rename_i h
  · rename_i k s1
    by_cases hk : k = stat <;> simp [hk, h, run_bind, run_next_token, run_pure]
  · simp [h]

theorem run_expect (stat : js_token_state) (msg : String) (s : js) :
    _expect stat msg s = match _accept stat s with
      | .ok (true, s1) => .ok ((), s1)
      | .ok (false, _) => .error (.throw msg)
      | .error e => .error e := by
  unfold _expect
  rw [run_bind]
  split <;> rename_i h
  · rename_i c s1
    cases c <;> simp [h, run_throw, run_pure]
  · simp [h]

theorem get_token_state_of {s : js} {k : js_token_state} (s1 : js)
    (h : _get_token_state s = .ok (k, s)) (h1 : s1.tok_cache = s.tok_cache)
    (h2 : s1.tok_cache_idx = s.tok_cache_idx) : _get_token_state s1 = .ok (k, s1) := by
  unfold _get_token_state js.tok at h ⊢
  rw [h1, h2]
  cases hh : s.tok_cache.get? s.tok_cache_idx with
  | none =>
    rw [hh] at h
    injection h with h
    injection h with h _
    rw [h]
  | some t =>
    rw [hh] at h
    injection h with h
    injection h with h _
    show Except.ok (t.stat, s1) = _
    rw [h]

theorem run_loop {σ α : Type} (body : σ → Parse (σ ⊕ α)) (k : Nat) (x : σ) (s : js) :
    js_loop body (k + 1) x s = match body x s with
      | .ok (.inl x1, s1) => js_loop body k x1 s1
      | .ok (.inr a, s1) => .ok (a, s1)
      | .error e => .error e := by
  show (body x >>= fun r => match r with
    | .inl x1 => js_loop body k x1
    | .inr a => pure a) s = _
  rw [run_bind]
  split <;> rename_i h
  · rename_i r s1
    cases r <;> simp [h, run_pure]
  · simp [h]

theorem skim_state {α : Type} {m : Parse α} (h : Pres skim_rel m) {s s1 : js} {a : α}
    (hm : m s = .ok (a, s1)) (hs : s.exec = false) :
    s1 = { s with tok_cache_idx := s1.tok_cache_idx } :=
  h.run s a s1 hm hs

/-! ## The ternary expression -/

theorem host_exec_on (host : Host)
    (hhost : ∀ c s s1, host c s = .ok s1 → s.parse_exec = true → s1.parse_exec = true) :
    HostExecOn host := by
  constructor
  intro c
  constructor
  intro s a s1 hs hm
  exact hhost c s s1 (host_ok hm) hs

theorem exec_on_parsers (host : Host) (hhost : HostExecOn host) : ∀ n, (parsers host n).ExecOn
  | 0 => ⟨triple_stop, triple_stop, triple_stop⟩
  | n + 1 =>
    ⟨exec_on_parse_statement host n _ (exec_on_parsers host hhost n) hhost,
     exec_on_parse_additive_expression host n _ (exec_on_parsers host hhost n) hhost,
     exec_on_js_parse_expression host n _ (exec_on_parsers host hhost n) hhost⟩

theorem skim_value_parse_logical_expression (host : Host) (n : Nat) (rec : Parsers) (s s1 : js)
    (v : js_value) (hs : s.exec = false)
    (h : _parse_logical_expression host n rec s = .ok (v, s1)) : v = .undefined := by
  unfold _parse_logical_expression at h
  rw [skim_branch _ _ s hs] at h
  refine Yields.run (V := fun v => v = js_value.undefined) ?_ s v s1 h
  with_reducible repeat' (first
    | intro _ | exact yields_pure rfl | exact yields_throw
    | apply yields_bind | apply yields_ite | split)

/-- C18: the ternary `c ? a : b` in execute mode, after `c` has been evaluated and
a `?` follows.  A condition that is not a boolean raises an error.  When `c` is
true the result is the value of `a`, and `b` is parsed in skim mode: it yields
undefined and the state afterwards is the state `a` left, up to the cursor, with
`parse_exec` true.  When `c` is false, `a` is parsed in skim mode, changing nothing
but the cursor, and the result and the state are those of `b`, evaluated from the
state `c` left with the cursor after the `:`; host callables leaving `parse_exec`
set, `parse_exec` is true afterwards.  In both cases the cursor ends where the
parse of `b` ended. -/
theorem ternary_evaluates_one_branch (host : Host)
    (hhost : ∀ c s s1, host c s = .ok s1 → s.parse_exec = true → s1.parse_exec = true)
    (n : Nat) (s s1 : js) (c : js_value)
    (hexec : s.exec = true)
    (hc : _parse_logical_expression host n (parsers host n) s = .ok (c, s1))
    (hq : _get_token_state s1 = .ok (.ts_question, s1)) :
    ((∀ b, c ≠ .boolean b) →
      js_parse_expression host n (parsers host n) s =
        .error (.throw "Operator ?: requires condition operand be boolean")) ∧
    (c = .boolean true → ∀ a s2 x s3,
      _parse_logical_expression host n (parsers host n)
        { s1 with tok_cache_idx := s1.tok_cache_idx + 1 } = .ok (a, s2) →
      _get_token_state s2 = .ok (.ts_colon, s2) →
      _parse_logical_expression host n (parsers host n)
        { s2 with tok_cache_idx := s2.tok_cache_idx + 1, parse_exec := false } = .ok (x, s3) →
      x = .undefined ∧
      js_parse_expression host n (parsers host n) s =
        .ok (a, { s2 with tok_cache_idx := s3.tok_cache_idx, parse_exec := true })) ∧
    (c = .boolean false → ∀ x s2 b s3,
      _parse_logical_expression host n (parsers host n)
        { s1 with tok_cache_idx := s1.tok_cache_idx + 1, parse_exec := false } = .ok (x, s2) →
      _get_token_state { s1 with tok_cache_idx := s2.tok_cache_idx }
        = .ok (.ts_colon, { s1 with tok_cache_idx := s2.tok_cache_idx }) →
      _parse_logical_expression host n (parsers host n)
        { s1 with tok_cache_idx := s2.tok_cache_idx + 1 } = .ok (b, s3) →
      x = .undefined ∧
      s2 = { s1 with tok_cache_idx := s2.tok_cache_idx, parse_exec := false } ∧
      js_parse_expression host n (parsers host n) s = .ok (b, s3) ∧
      s3.parse_exec = true) := by
  have hpe := exec_on_parse_logical_expression host n _
    (exec_on_parsers host (host_exec_on host hhost) n) (host_exec_on host hhost)
  have hs_pe : s.parse_exec = true := by
    simp only [js.exec, Bool.and_eq_true] at hexec
    exact hexec.1.1.1
  have h1_pe : s1.parse_exec = true := hpe.run s c s1 hs_pe hc
  have hskim := skim_parse_logical_expression host n _ (skim_parsers host n)
  refine ⟨?_, ?_, ?_⟩
  · intro hb
    unfold js_parse_expression
    simp only [run_bind, run_require_exec, hexec, if_true, hc, run_accept, hq]
    split
    · exact absurd rfl (hb true)
    · exact absurd rfl (hb false)
    · rfl
  · intro hct a s2 x s3 ha hcolon hb
    subst hct
    have hx : ({ s2 with tok_cache_idx := s2.tok_cache_idx + 1, parse_exec := false } : js).exec
        = false := by simp [js.exec]
    have e3 := skim_state hskim hb hx
    refine ⟨skim_value_parse_logical_expression host n _ _ _ _ hx hb, ?_⟩
    unfold js_parse_expression
    simp only [run_bind, run_require_exec, hexec, if_true, hc, run_accept, hq, ha, run_expect,
      hcolon, run_set_parse_exec, hb, run_pure]
    rw [e3]
  · intro hcf x s2 b s3 ha hcolon hb
    subst hcf
    have hx : ({ s1 with tok_cache_idx := s1.tok_cache_idx + 1, parse_exec := false } : js).exec
        = false := by simp [js.exec]
    have e2 := skim_state hskim ha hx
    have e2' : ({ s2 with parse_exec := true } : js) = { s1 with tok_cache_idx := s2.tok_cache_idx } := by
      rw [e2]
      cases s1
      simp only at h1_pe
      subst h1_pe
      rfl
    refine ⟨skim_value_parse_logical_expression host n _ _ _ _ hx ha, e2, ?_, ?_⟩
    · unfold js_parse_expression
      simp only [run_bind, run_require_exec, hexec, if_true, hc, run_accept, hq, ha, run_expect,
        run_set_parse_exec, run_pure, e2', hcolon, hb]
    · have h0 : ({ s1 with tok_cache_idx := s2.tok_cache_idx + 1 } : js).parse_exec = true := h1_pe
      exact hpe.run _ b s3 h0 hb

/-! ## `&&` and `||` -/

/-- C19: `&&` and `||` in execute mode.  Along a chain of operators whose operands
yield booleans every operand is parsed, from the state its predecessor left,
whatever the value so far; the result is the conjunction or disjunction folded from
the left and the state is the one the last operand left.  An operand to the left of
an operator that is not a boolean raises an error (before the right operand is
parsed), and so does a right operand that is not a boolean. -/
theorem logical_operators_evaluate_both_operands (host : Host) (n : Nat) (rec : Parsers)
    (s s0 : js) (hexec : s.exec = true) :
    (∀ a ops, _parse_relational_expression host n rec s = .ok (.boolean a, s0) →
      logical_chain (_parse_relational_expression host n rec) s0 ops → ops.length < n →
      _parse_logical_expression host n rec s =
        .ok (.boolean (logical_chain_value a ops), logical_chain_end s0 ops)) ∧
    (∀ l op, _parse_relational_expression host n rec s = .ok (l, s0) →
      (∀ a, l ≠ .boolean a) → op = .ts_and ∨ op = .ts_or →
      _get_token_state s0 = .ok (op, s0) → 0 < n →
      _parse_logical_expression host n rec s =
        .error (.throw "Operators && || require left operand be boolean")) ∧
    (∀ a op r s1, _parse_relational_expression host n rec s = .ok (.boolean a, s0) →
      op = .ts_and ∨ op = .ts_or → _get_token_state s0 = .ok (op, s0) →
      _parse_relational_expression host n rec { s0 with tok_cache_idx := s0.tok_cache_idx + 1 }
        = .ok (r, s1) →
      (∀ b, r ≠ .boolean b) → 0 < n →
      _parse_logical_expression host n rec s =
        .error (.throw "Operators && || require right operand be boolean")) := by
  refine ⟨?_, ?_, ?_⟩
  · intro a ops h0 hch hfuel
    unfold _parse_logical_expression
    simp only [run_bind, run_ite, run_require_exec, hexec, if_true, h0]
    clear h0
    have hfuel1 : ops.length < n + 0 := hfuel
    clear hfuel
    revert hfuel1
    conv =>
      enter [2, 1, 2]
      rw [show n = n + 0 from rfl]
    generalize n + 0 = fuel
    revert fuel
    induction ops generalizing a s0 with
    | nil =>
      intro fuel hfuel
      obtain ⟨k, hk⟩ := get_token_state_total s0
      have hk1 : k ≠ .ts_and := fun e => hch.1 (e ▸ hk)
      have hk2 : k ≠ .ts_or := fun e => hch.2 (e ▸ hk)
      cases fuel with
      | zero => cases hfuel
      | succ m =>
        rw [run_loop]
        simp only [run_bind, run_ite, hk, hk1, hk2, or_self, if_false, run_pure,
          logical_chain_value, logical_chain_end]
    | cons e rest ih =>
      intro fuel hfuel
      obtain ⟨op, r, s1⟩ := e
      obtain ⟨hop, hk, hr, hrest⟩ := hch
      cases fuel with
      | zero => cases hfuel
      | succ m =>
        rw [run_loop]
        have hm : rest.length < m := by
          simp only [List.length_cons] at hfuel
          omega
        simp only [run_bind, run_ite, hk, hop, if_true, js_value.type, ne_eq, not_true_eq_false,
          if_false, run_pure, run_next_token, hr, logical_chain_value, logical_chain_end]
        rcases hop with h | h
        · subst h
          simp only [if_true, run_pure]
          exact ih _ _ hrest m hm
        · subst h
          have hne : ¬ (js_token_state.ts_or = js_token_state.ts_and) := by decide
          simp only [hne, if_false, run_pure]
          exact ih _ _ hrest m hm
  · intro l op h0 hl hop hk hn
    unfold _parse_logical_expression
    simp only [run_bind, run_ite, run_require_exec, hexec, if_true, h0]
    cases n with
    | zero => cases hn
    | succ m =>
      rw [run_loop]
      have ht : l.type ≠ .vt_boolean := by
        cases l <;> simp [js_value.type]
        exact hl _ rfl
      simp only [run_bind, run_ite, hk, hop, if_true, ht, ne_eq, not_false_eq_true, run_throw]
  · intro a op r s1 h0 hop hk hr hrb hn
    unfold _parse_logical_expression
    simp only [run_bind, run_ite, run_require_exec, hexec, if_true, h0]
    cases n with
    | zero => cases hn
    | succ m =>
      rw [run_loop]
      simp only [run_bind, run_ite, hk, hop, if_true, js_value.type, ne_eq, not_true_eq_false,
        if_false, run_pure, run_next_token, hr]
      cases r <;> first | rfl | exact absurd rfl (hrb _)

/-! ## Equality and ordering -/

theorem js_value_eq_of_type_ne (l r : js_value) (h : l.type ≠ r.type) : js_value_eq l r = false := by
  have hne : l ≠ r := fun e => h (by rw [e])
  simp [js_value_eq, js_value_memcmp_eq, hne, h]

theorem js_value_eq_handles (l r : js_value)
    (h : (∃ a, l = .null ∧ r = .null ∧ a = true) ∨ (∃ a b, l = .boolean a ∧ r = .boolean b) ∨
      (∃ a b, l = .array a ∧ r = .array b) ∨ (∃ a b, l = .object a ∧ r = .object b) ∨
      (∃ a b, l = .function a ∧ r = .function b)) :
    js_value_eq l r = decide (l = r) := by
  rcases h with ⟨a, rfl, rfl, _⟩ | ⟨a, b, rfl, rfl⟩ | ⟨a, b, rfl, rfl⟩ | ⟨a, b, rfl, rfl⟩ |
    ⟨a, b, rfl, rfl⟩ <;>
  · simp only [js_value_eq, js_value_memcmp_eq, js_value.type]
    split <;> simp_all

/-- C20: `l == r` and `l != r` in execute mode, `l` and `r` being the values of the
two operands: neither raises an error, `==` yields `js_value_eq l r` and `!=` its
negation; `js_value_eq` is false for values of different kinds, for two booleans it
is true iff they are the same boolean, for null and null it is true, and for two
arrays, two objects or two functions it is true iff the handles are the same.  The
operators `<`, `<=`, `>`, `>=` raise an error when the left operand is neither a
number nor a string (the right operand is then not parsed) and when the right
operand is not of the kind of the left one; two numbers are compared as numbers and
two strings by the sign of `_strcmp`. -/
theorem equality_never_raises_and_ordering_needs_numbers_or_strings
    (host : Host) (n : Nat) (rec : Parsers) (s s1 : js) (l : js_value) (k : js_token_state)
    (hexec : s.exec = true)
    (hl : _parse_additive_expression host n rec s = .ok (l, s1))
    (hk : _get_token_state s1 = .ok (k, s1)) :
    (∀ r s2, _parse_additive_expression host n rec
        { s1 with tok_cache_idx := s1.tok_cache_idx + 1 } = .ok (r, s2) →
      (k = .ts_equal_to → _parse_relational_expression host n rec s
        = .ok (.boolean (js_value_eq l r), s2)) ∧
      (k = .ts_not_equal_to → _parse_relational_expression host n rec s
        = .ok (.boolean (!js_value_eq l r), s2)) ∧
      (l.type ≠ r.type → js_value_eq l r = false) ∧
      (∀ a b, l = .boolean a → r = .boolean b → js_value_eq l r = decide (a = b)) ∧
      (l = .null → r = .null → js_value_eq l r = true) ∧
      (∀ a b, l = .array a → r = .array b → js_value_eq l r = decide (a = b)) ∧
      (∀ a b, l = .object a → r = .object b → js_value_eq l r = decide (a = b)) ∧
      (∀ a b, l = .function a → r = .function b → js_value_eq l r = decide (a = b))) ∧
    (k = .ts_less_than ∨ k = .ts_less_than_or_equal_to ∨ k = .ts_greater_than
        ∨ k = .ts_greater_than_or_equal_to →
      (l.type ≠ .vt_number ∧ l.type ≠ .vt_string →
        _parse_relational_expression host n rec s = .error (.throw
          "Operators < <= > >= require left operand be number or string")) ∧
      (∀ r s2, _parse_additive_expression host n rec
          { s1 with tok_cache_idx := s1.tok_cache_idx + 1 } = .ok (r, s2) →
        (l.type = .vt_number ∨ l.type = .vt_string → r.type ≠ l.type →
          _parse_relational_expression host n rec s = .error (.throw
            "Operators < <= > >= require right operand be same type")) ∧
        (∀ x y, l = .number x → r = .number y →
          _parse_relational_expression host n rec s = .ok (.boolean
            (if k = .ts_less_than then decide (x < y)
             else if k = .ts_less_than_or_equal_to then decide (x ≤ y)
             else if k = .ts_greater_than then decide (x > y)
             else decide (x ≥ y)), s2)) ∧
        (∀ x y, l = .string x → r = .string y →
          _parse_relational_expression host n rec s = .ok (.boolean
            (if k = .ts_less_than then decide (_strcmp x x.length y y.length < 0)
             else if k = .ts_less_than_or_equal_to then decide (_strcmp x x.length y y.length ≤ 0)
             else if k = .ts_greater_than then decide (_strcmp x x.length y y.length > 0)
             else decide (_strcmp x x.length y y.length ≥ 0)), s2)))) := by
  refine ⟨?_, ?_⟩
  · intro r s2 hr
    refine ⟨?_, ?_, js_value_eq_of_type_ne l r, ?_, ?_, ?_, ?_, ?_⟩
    · intro hk1
      subst hk1
      unfold _parse_relational_expression
      simp [run_bind, run_ite, run_require_exec, hexec, hl, hk, run_next_token, hr, run_pure]
    · intro hk1
      subst hk1
      unfold _parse_relational_expression
      simp [run_bind, run_ite, run_require_exec, hexec, hl, hk, run_next_token, hr, run_pure]
    · intro a b ha hb
      rw [js_value_eq_handles l r (Or.inr (Or.inl ⟨a, b, ha, hb⟩)), ha, hb]
      simp
    · intro ha hb
      rw [js_value_eq_handles l r (Or.inl ⟨true, ha, hb, rfl⟩), ha, hb]
      simp
    · intro a b ha hb
      rw [js_value_eq_handles l r (Or.inr (Or.inr (Or.inl ⟨a, b, ha, hb⟩))), ha, hb]
      simp
    · intro a b ha hb
      rw [js_value_eq_handles l r (Or.inr (Or.inr (Or.inr (Or.inl ⟨a, b, ha, hb⟩)))), ha, hb]
      simp
    · intro a b ha hb
      rw [js_value_eq_handles l r (Or.inr (Or.inr (Or.inr (Or.inr ⟨a, b, ha, hb⟩)))), ha, hb]
      simp
  · intro hord
    have hne : ¬ (k = .ts_equal_to ∨ k = .ts_not_equal_to) := by
      rcases hord with h | h | h | h <;> subst h <;> decide
    refine ⟨?_, ?_⟩
    · intro hlt
      unfold _parse_relational_expression
      simp only [run_bind, run_ite, run_require_exec, hexec, if_true, hl, hk, hne, if_false, hord,
        run_throw]
      rw [if_pos hlt]
    · intro r s2 hr
      refine ⟨?_, ?_, ?_⟩
      · intro hlt hrt
        have hlt' : ¬ (l.type ≠ .vt_number ∧ l.type ≠ .vt_string) := by
          rcases hlt with h | h <;> simp [h]
        unfold _parse_relational_expression
        simp only [run_bind, run_ite, run_require_exec, hexec, if_true, hl, hk, hne, if_false,
          hord, hlt', run_pure, run_next_token, hr]
        cases l <;> cases r <;>
          first
          | rfl
          | exact absurd rfl hrt
          | exact absurd hlt (by simp [js_value.type])
      · intro x y hx hy
        subst hx hy
        unfold _parse_relational_expression
        simp only [run_bind, run_ite, run_require_exec, hexec, if_true, hl, hk, hne, if_false,
          hord, js_value.type, run_pure, run_next_token, hr, ne_eq, not_true_eq_false, false_and]
        split_ifs <;> rfl
      · intro x y hx hy
        subst hx hy
        unfold _parse_relational_expression
        simp only [run_bind, run_ite, run_require_exec, hexec, if_true, hl, hk, hne, if_false,
          hord, js_value.type, run_pure, run_next_token, hr, ne_eq, not_true_eq_false, and_false]
        split_ifs <;> simp [double.zero_def, double.fin_lt_fin, double.fin_le_fin]

/-! ## The `do` loop -/

theorem do_while_round_run (host : Host) (n : Nat) (rec : Parsers) (b : Nat) (s : js)
    (r : js × js_value × js)
    (h : do_while_round rec._parse_statement (js_parse_expression host n rec) b s r) :
    (do
      set_tok_cache_idx b
      rec._parse_statement
      set_mark_continue false
      _expect .ts_while "Expect while"
      _expect .ts_left_parenthesis "Expect ("
      let cond ← js_parse_expression host n rec
      if cond.type ≠ .vt_undefined ∧ cond.type ≠ .vt_boolean then
        js_throw "Condition must be boolean"
      _expect .ts_right_parenthesis "Expect )"
      if cond = .boolean true ∧ (← js_get).mark_break = false then
        pure (.inl ())
      else
        pure (.inr ()) : Parse (Unit ⊕ Unit)) s =
    .ok (if r.2.1 = .boolean true ∧ r.2.2.mark_break = false then .inl () else .inr (),
      { r.2.2 with tok_cache_idx := r.2.2.tok_cache_idx + 1 }) := by
  obtain ⟨hb, hw, hp, hc, ht, hr⟩ := h
  have ht' : ¬ (r.2.1.type ≠ .vt_undefined ∧ r.2.1.type ≠ .vt_boolean) := by
    rcases ht with h | h <;> simp [h]
  simp only [run_bind, run_ite, run_set_tok_cache_idx, hb, run_set_mark_continue, run_expect,
    run_accept, hw, hp, if_true, hc, ht', if_false, run_pure, hr, run_get]
  split <;> rfl

/-- C17: the `do` loop.  A `_parse_do_while` that returns normally has run the body
from the token after `do`.  Every round runs the body from there, clears
`mark_continue`, and then parses the condition, so after a `continue` in the body
the condition is evaluated; the loop goes round again when the condition is true and
`mark_break` is not set, and else ends.  After the last round `mark_break` and
`mark_continue` are false and the cursor is after the `;` that follows the `)`.
When the body leaves `mark_break` set the condition is parsed in skim mode: it
yields undefined and changes nothing but the cursor, and the round is the last. -/
theorem do_while_runs_body_first_and_break_skims_condition (host : Host) (n : Nat) (s : js) :
    (∀ r, _parse_do_while host n (parsers host n) s = .ok r →
      ∃ s1, (parsers host n)._parse_statement s = .ok ((), s1)) ∧
    (∀ rounds,
      do_while_rounds (parsers host n)._parse_statement
        (js_parse_expression host n (parsers host n)) s.tok_cache_idx s rounds →
      rounds.length ≤ n →
      _get_token_state (do_while_exit s rounds) = .ok (.ts_semicolon, do_while_exit s rounds) →
      _parse_do_while host n (parsers host n) s =
        .ok ((),
          { do_while_exit s rounds with
            mark_break := false
            mark_continue := false
            tok_cache_idx := (do_while_exit s rounds).tok_cache_idx + 1 })) ∧
    (∀ s1 c s2, s1.mark_break = true →
      js_parse_expression host n (parsers host n)
        { s1 with mark_continue := false, tok_cache_idx := s1.tok_cache_idx + 2 } = .ok (c, s2) →
      c = .undefined ∧
      s2 = { s1 with mark_continue := false, tok_cache_idx := s2.tok_cache_idx } ∧
      ¬ do_while_again (s1, c, s2)) := by
  refine ⟨?_, ?_, ?_⟩
  · intro r h
    unfold _parse_do_while at h
    obtain ⟨s0, s', h1, h⟩ := bind_ok h
    cases h1
    obtain ⟨u, s2, hl, h⟩ := bind_ok h
    cases n with
    | zero => cases hl
    | succ m =>
      rw [run_loop] at hl
      split at hl
      · rename_i x1 s3 hb
        obtain ⟨_, s4, h1, hb⟩ := bind_ok hb
        cases h1
        obtain ⟨_, s5, h1, hb⟩ := bind_ok hb
        exact ⟨s5, h1⟩
      · rename_i a s3 hb
        obtain ⟨_, s4, h1, hb⟩ := bind_ok hb
        cases h1
        obtain ⟨_, s5, h1, hb⟩ := bind_ok hb
        exact ⟨s5, h1⟩
      · cases hl
  · intro rounds hr hlen hsemi
    have key : ∀ (fuel : Nat) (rounds : List (js × js_value × js)) (s0 : js),
        do_while_rounds (parsers host n)._parse_statement
          (js_parse_expression host n (parsers host n)) s.tok_cache_idx s0 rounds →
        rounds.length ≤ fuel →
        js_loop (fun (_ : Unit) => (do
          set_tok_cache_idx s.tok_cache_idx
          (parsers host n)._parse_statement
          set_mark_continue false
          _expect .ts_while "Expect while"
          _expect .ts_left_parenthesis "Expect ("
          let cond ← js_parse_expression host n (parsers host n)
          if cond.type ≠ .vt_undefined ∧ cond.type ≠ .vt_boolean then
            js_throw "Condition must be boolean"
          _expect .ts_right_parenthesis "Expect )"
          if cond = .boolean true ∧ (← js_get).mark_break = false then
            pure (.inl ())
          else
            pure (.inr ()) : Parse (Unit ⊕ Unit))) fuel () s0 =
        .ok ((), do_while_exit s0 rounds) := by
      intro fuel
      induction fuel with
      | zero =>
        intro rounds s0 hr hlen
        cases rounds with
        | nil => cases hr
        | cons r rest => cases hlen
      | succ m ih =>
        intro rounds s0 hr hlen
        cases rounds with
        | nil => cases hr
        | cons r rest =>
          cases rest with
          | nil =>
            obtain ⟨h1, h2⟩ := hr
            rw [run_loop, do_while_round_run host n _ _ s0 r h1,
              if_neg (show ¬ (r.2.1 = .boolean true ∧ r.2.2.mark_break = false) from h2)]
            rfl
          | cons r1 rest1 =>
            obtain ⟨h1, h2, h3⟩ := hr
            rw [run_loop, do_while_round_run host n _ _ s0 r h1,
              if_pos (show r.2.1 = .boolean true ∧ r.2.2.mark_break = false from h2)]
            exact ih (r1 :: rest1) _ h3 (by simpa using hlen)
    unfold _parse_do_while
    simp only [run_bind, run_get]
    rw [key n rounds s hr hlen]
    simp only [run_set_mark_break, run_set_mark_continue, run_expect, run_accept]
    have hsemi' := get_token_state_of
      { do_while_exit s rounds with mark_break := false, mark_continue := false } hsemi rfl rfl
    simp only [hsemi', if_true]
  · intro s1 c s2 hb hc
    have hx : ({ s1 with mark_continue := false, tok_cache_idx := s1.tok_cache_idx + 2 } : js).exec
        = false := by simp [js.exec, hb]
    have hv := skim_value_js_parse_expression host n _ _ _ _ hx hc
    have hs := skim_state (skim_js_parse_expression host n _ (skim_parsers host n)) hc hx
    refine ⟨hv, hs, ?_⟩
    intro h
    rw [hv] at h
    cases h.1

/-! ## Instances of the rules -/

set_option maxRecDepth 100000 in
theorem ternary_evaluates_one_branch_witness :
    ternary_example.exec = true ∧
    _parse_logical_expression no_host 50 (parsers no_host 50) ternary_example
      = .ok (.boolean true, { ternary_example with tok_cache_idx := 1 }) ∧
    js_parse_expression no_host 50 (parsers no_host 50) ternary_example
      = .ok (.number 1, { ternary_example with tok_cache_idx := 5 }) :=
  ⟨by decide!, by decide!,
    ((ternary_evaluates_one_branch no_host (fun _ _ _ h _ => by cases h) 50 ternary_example
      { ternary_example with tok_cache_idx := 1 } (.boolean true)
      (by decide!) (by decide!) (by decide!)).2.1 rfl (.number 1)
      { ternary_example with tok_cache_idx := 3 } .undefined
      { ternary_example with tok_cache_idx := 5, parse_exec := false }
      (by decide!) (by decide!) (by decide!)).2⟩

set_option maxRecDepth 100000 in
theorem logical_operators_evaluate_both_operands_witness :
    logical_example.exec = true ∧
    _parse_logical_expression no_host 50 (parsers no_host 50) logical_example
      = .ok (.boolean true, { logical_example with tok_cache_idx := 5 }) ∧
    js_error_of (js_eval_after no_host 50 0 (js_load "false && 1"))
      = some (.throw "Operators && || require right operand be boolean") ∧
    js_error_of (js_eval_after no_host 50 0 (js_load "true || 1"))
      = some (.throw "Operators && || require right operand be boolean") :=
  ⟨by decide!,
    (logical_operators_evaluate_both_operands no_host 50 (parsers no_host 50) logical_example
      { logical_example with tok_cache_idx := 1 } (by decide!)).1 true
      [(.ts_and, false, { logical_example with tok_cache_idx := 3 }),
       (.ts_or, true, { logical_example with tok_cache_idx := 5 })]
      (by decide!)
      (by unfold logical_chain logical_chain logical_chain; decide!)
      (by decide),
    by decide!, by decide!⟩

set_option maxRecDepth 100000 in
theorem equality_never_raises_and_ordering_needs_numbers_or_strings_witness :
    equality_example.exec = true ∧
    _parse_additive_expression no_host 50 (parsers no_host 50) equality_example
      = .ok (.null, { equality_example with tok_cache_idx := 1 }) ∧
    _parse_relational_expression no_host 50 (parsers no_host 50) equality_example
      = .ok (.boolean (js_value_eq .null .null), { equality_example with tok_cache_idx := 3 }) :=
  ⟨by decide!, by decide!,
    ((equality_never_raises_and_ordering_needs_numbers_or_strings no_host 50 (parsers no_host 50)
      equality_example { equality_example with tok_cache_idx := 1 } .null .ts_equal_to
      (by decide!) (by decide!) (by decide!)).1 .null { equality_example with tok_cache_idx := 3 }
      (by decide!)).1 rfl⟩

set_option maxRecDepth 100000 in
theorem do_while_runs_body_first_and_break_skims_condition_witness :
    (parsers no_host 50)._parse_statement do_break_example
      = .ok ((), { do_break_example with tok_cache_idx := 5, mark_break := true }) ∧
    _parse_do_while no_host 50 (parsers no_host 50) do_break_example
      = .ok ((), { do_break_example with tok_cache_idx := 10 }) :=
  ⟨by decide!,
    (do_while_runs_body_first_and_break_skims_condition no_host 50 do_break_example).2.1
      [({ do_break_example with tok_cache_idx := 5, mark_break := true }, .undefined,
        { do_break_example with tok_cache_idx := 8, mark_break := true })]
      (by unfold do_while_rounds do_while_round do_while_again; decide!)
      (by decide) (by decide!)⟩

/-! ## A function value that escapes by assignment -/

theorem parse_function_exec (n : Nat) (rec : Parsers) (s : js) (h : s.exec = true) :
    _parse_function n rec s = (do
      _parse_formals n rec
      _expect .ts_left_brace "Expect \x7b"
      _parse_statements n rec
      _next_token : Parse Unit) s := by
  unfold _parse_function _parse_formals
  simp only [run_bind, run_require_exec, h, if_true, run_ite]
  cases h1 : _expect .ts_left_parenthesis "Expect (" s with
  | error e => rfl
  | ok r1 =>
    obtain ⟨u, s1⟩ := r1
    simp only []
    cases h2 : _accept .ts_right_parenthesis s1 with
    | error e => rfl
    | ok r2 =>
      obtain ⟨b, s2⟩ := r2
      cases b with
      | true => rfl
      | false =>
        simp only [Bool.not_false, if_true, run_bind]
        rfl

theorem js_value_map_put_put (m : js_value_map) (k : Bytes) (d a : js_value) :
    js_value_map_put (js_value_map_put m k d) k a = js_value_map_put m k a := by
  induction m with
  | nil => simp [js_value_map_put]
  | cons e m ih =>
    obtain ⟨k1, v1⟩ := e
    by_cases hk : k1 = k
    · simp [js_value_map_put, hk]
    · simp [js_value_map_put, hk, ih]

theorem run_token_some {s : js} {t : js_token} (ht : s.tok = some t) :
    _get_token_state s = .ok (t.stat, s) ∧ _get_token_head s = .ok (s.src.drop t.h, s) ∧
    _get_token_length s = .ok (t.t - t.h, s) := by
  simp only [_get_token_state, _get_token_head, _get_token_length, _tok_field, ht, and_self]

theorem run_token_none {s : js} (ht : s.tok = none) :
    _get_token_state s = .ok (.ts_end_of_file, s) := by
  simp only [_get_token_state, ht]

theorem run_declare (k : Bytes) (kl : Nat) (v : js_value) (s : js) (fr : js_stack_frame)
    (rest : List js_stack_frame) (hs : s.stack = fr :: rest) :
    js_variable_declare k kl v s = .ok ((),
      { s with stack := { fr with vars := js_value_map_put fr.vars (k.take kl) v } :: rest }) := by
  simp only [js_variable_declare, hs]

theorem run_declare_nil (k : Bytes) (kl : Nat) (v : js_value) (s : js) (hs : s.stack = []) :
    js_variable_declare k kl v s = .error .out_of_range := by
  simp only [js_variable_declare, hs]

theorem run_parameter_get (i : Nat) (s : js) (fr : js_stack_frame) (rest : List js_stack_frame)
    (hs : s.stack = fr :: rest) : js_parameter_get i s = .ok (fr.params.getD i .null, s) := by
  simp only [js_parameter_get, run_bind, js_stack_peek, hs, run_pure]

theorem run_assign_top (k : Bytes) (kl : Nat) (v w : js_value) (s : js) (fr : js_stack_frame)
    (rest : List js_stack_frame) (hs : s.stack = fr :: rest)
    (hk : js_value_map_get fr.vars (k.take kl) = some w) :
    js_variable_assign k kl v s = .ok ((),
      { s with stack := { fr with vars := js_value_map_put fr.vars (k.take kl) v } :: rest }) := by
  simp only [js_variable_assign, hs, stack_assign, hk]
  cases v <;> simp [hk]

theorem stack_cases (st : List js_stack_frame) :
    (∃ fr rest, st = fr :: rest) ∨ st = [] := by
  cases st with
  | nil => exact Or.inr rfl
  | cons fr rest => exact Or.inl ⟨fr, rest, rfl⟩

theorem formal_binding_tail (i : Nat) (k : Bytes) (kl : Nat) (d : js_value) (sd s2 : js)
    (r : Nat ⊕ Unit) (fr : js_stack_frame) (rest : List js_stack_frame)
    (hst : sd.stack = fr :: rest)
    (h : (do
      js_variable_declare k kl d
      let param ← js_parameter_get i
      if param.type ≠ .vt_null then
        js_variable_assign k kl param
      if (← _accept .ts_comma) then
        pure (.inl (i + 1))
      else if (← _accept .ts_right_parenthesis) then
        pure (.inr ())
      else
        js_throw "Expect , or )" : Parse (Nat ⊕ Unit)) sd = .ok (r, s2)) :
    s2 = { sd with
      tok_cache_idx := s2.tok_cache_idx
      stack := { fr with
        vars := js_value_map_put fr.vars (k.take kl)
          (if (fr.params.getD i .null).type ≠ .vt_null then fr.params.getD i .null
           else d) } :: rest } := by
  rw [run_bind, run_declare _ _ _ _ fr rest hst] at h
  simp only [] at h
  rw [run_bind, run_parameter_get i _ _ rest rfl] at h
  simp only [] at h
  by_cases hp : (fr.params.getD i .null).type ≠ .vt_null
  · rw [if_pos hp] at h ⊢
    rw [run_bind, run_assign_top _ _ _ d _ _ rest rfl (js_value_map_get_put_same _ _ _)] at h
    simp only [js_value_map_put_put] at h
    obtain ⟨c, s3, hc, h⟩ := bind_ok h
    have f1 := accept_frame hc
    split at h
    · cases h
      rw [f1]
    · obtain ⟨c2, s4, hc2, h⟩ := bind_ok h
      have f2 := accept_frame hc2
      split at h
      · cases h
        rw [f2, f1]
      · cases h
  · rw [if_neg hp] at h ⊢
    rw [run_bind, run_pure] at h
    simp only [] at h
    obtain ⟨c, s3, hc, h⟩ := bind_ok h
    have f1 := accept_frame hc
    split at h
    · cases h
      rw [f1]
    · obtain ⟨c2, s4, hc2, h⟩ := bind_ok h
      have f2 := accept_frame hc2
      split at h
      · cases h
        rw [f2, f1]
      · cases h

theorem formal_binding (rec : Parsers) (i : Nat) (s s1 : js) (r : Nat ⊕ Unit)
    (h : _parse_formal rec i s = .ok (r, s1)) :
    ∃ t d sd fr rest, s.tok = some t ∧ t.stat = .ts_identifier ∧
      ((_get_token_state { s with tok_cache_idx := s.tok_cache_idx + 1 }
          = .ok (.ts_assignment, { s with tok_cache_idx := s.tok_cache_idx + 1 }) ∧
        rec.js_parse_expression { s with tok_cache_idx := s.tok_cache_idx + 1 + 1 }
          = .ok (d, sd)) ∨
       (_get_token_state { s with tok_cache_idx := s.tok_cache_idx + 1 }
          ≠ .ok (.ts_assignment, { s with tok_cache_idx := s.tok_cache_idx + 1 }) ∧
        d = .null ∧ sd = { s with tok_cache_idx := s.tok_cache_idx + 1 })) ∧
      sd.stack = fr :: rest ∧
      s1 = { sd with
        tok_cache_idx := s1.tok_cache_idx
        stack := { fr with
          vars := js_value_map_put fr.vars ((s.src.drop t.h).take (t.t - t.h))
            (if (fr.params.getD i .null).type ≠ .vt_null then fr.params.getD i .null
             else d) } :: rest } := by
  unfold _parse_formal at h
  cases ht : s.tok with
  | none =>
    rw [run_bind, run_token_none ht] at h
    have hne : js_token_state.ts_end_of_file ≠ .ts_identifier := by decide
    simp only [hne, ne_eq, not_false_eq_true, if_true] at h
    cases h
  | some t =>
    obtain ⟨e1, e2, e3⟩ := run_token_some ht
    rw [run_bind, e1] at h
    by_cases hid : t.stat = .ts_identifier
    · simp only [hid, ne_eq, not_true_eq_false, if_false] at h
      rw [run_bind, run_pure] at h
      simp only [] at h
      rw [run_bind, e2] at h
      simp only [] at h
      rw [run_bind, e3] at h
      simp only [] at h
      rw [run_bind, run_next_token] at h
      simp only [] at h
      obtain ⟨c, s2, hc, h⟩ := bind_ok h
      obtain ⟨k1, hk1⟩ := get_token_state_total { s with tok_cache_idx := s.tok_cache_idx + 1 }
      by_cases ha : k1 = .ts_assignment
      · subst ha
        rw [accept_eq hk1] at hc
        cases hc
        simp only [if_true] at h
        obtain ⟨d, sd, hd, h⟩ := bind_ok h
        rcases stack_cases sd.stack with ⟨fr, rest, hst⟩ | hst
        · exact ⟨t, d, sd, fr, rest, rfl, hid, Or.inl ⟨hk1, hd⟩, hst,
            formal_binding_tail i _ _ d sd s1 r fr rest hst h⟩
        · rw [run_bind, run_declare_nil _ _ _ _ hst] at h
          cases h
      · rw [accept_ne hk1 ha] at hc
        cases hc
        simp only [Bool.false_eq_true, if_false] at h
        rcases stack_cases s.stack with ⟨fr, rest, hst⟩ | hst
        · refine ⟨t, .null, _, fr, rest, rfl, hid, Or.inr ⟨?_, rfl, rfl⟩, hst,
            formal_binding_tail i _ _ .null _ s1 r fr rest hst h⟩
          rw [hk1]
          intro e
          injection e with e
          injection e with e _
          exact ha e
        · rw [run_bind, run_declare_nil _ _ _ _ (show ({ s with tok_cache_idx :=
            s.tok_cache_idx + 1 } : js).stack = [] from hst)] at h
          cases h
    · simp only [hid, ne_eq, not_false_eq_true, if_true] at h
      cases h

theorem run_declare_loop (closure : js_value_map) :
    ∀ (s : js) (fr : js_stack_frame) (rest : List js_stack_frame), s.stack = fr :: rest →
      js_value_map_for_each closure (fun k kl v => js_variable_declare k kl v) s
        = .ok ((), { s with
            stack := { fr with vars := closure_capture fr.vars closure } :: rest }) := by
  induction closure with
  | nil =>
    intro s fr rest hs
    simp only [js_value_map_for_each, run_pure, closure_capture, List.foldl_nil]
    rw [← hs]
  | cons e closure ih =>
    intro s fr rest hs
    obtain ⟨k, v⟩ := e
    simp only [js_value_map_for_each]
    rw [run_bind, run_declare _ _ _ _ fr rest hs]
    simp only []
    rw [ih _ _ rest rfl]
    simp only [closure_capture, List.foldl_cons, List.take_length]

theorem run_function_cell (f index : Nat) (closure : js_value_map) (s : js)
    (hcell : s.heap.get? f = some (.function index closure)) :
    js_function_cell (.function f) s = .ok ((f, index, closure), s) := by
  simp only [js_function_cell, hcell]

theorem call_callee_script (host : Host) (n : Nat) (rec : Parsers) (f index : Nat)
    (closure : js_value_map) (s : js) (fr : js_stack_frame) (rest : List js_stack_frame)
    (hcell : s.heap.get? f = some (.function index closure)) (hst : s.stack = fr :: rest) :
    _call_callee host n rec (.function f) s =
      match _parse_function n rec { s with
          tok_cache_idx := index
          stack := { fr with vars := closure_capture fr.vars closure } :: rest } with
      | .ok ((), sb) => .ok ((), { sb with tok_cache_idx := s.tok_cache_idx })
      | .error e => .error e := by
  unfold _call_callee
  simp only [js_value.type, if_true, run_bind, run_get, run_function_cell f index closure s hcell,
    run_set_tok_cache_idx]
  rw [run_declare_loop closure { s with tok_cache_idx := index } fr rest hst]
  simp only []
  cases hp : _parse_function n rec { s with
      tok_cache_idx := index
      stack := { fr with vars := closure_capture fr.vars closure } :: rest } with
  | error e => rfl
  | ok p =>
    obtain ⟨u, sb⟩ := p
    rfl

/-! ## The value a formal parameter takes -/

/-- C11, counterexample: an actual that is null does not bind the formal to null
when the formal has a default: `f(null)` of `function f(a = 5) { return a; }` yields
the default 5. -/
theorem null_actual_takes_default :
    js_value_of (js_eval_after no_host 50 1 (js_load "function f(a = 5) { return a; } f(null)"))
      = some (.number 5) := by
  decide!

/-- C11 (amended): in execute mode `_parse_function` binds its formals by
`_parse_formals`, and each formal that is not a rest parameter is bound so: the
default expression, when there is one, is always evaluated (to `d`, null without
a default), the name is declared in the top frame, and it holds the actual at
position `i` of the parameter buffer when that actual is not null, otherwise `d`. -/
theorem formal_takes_actual_unless_null (n : Nat) (rec : Parsers) (i : Nat) (s s1 : js)
    (r : Nat ⊕ Unit) (h : _parse_formal rec i s = .ok (r, s1)) :
    (∀ s0 : js, s0.exec = true → _parse_function n rec s0 = (do
        _parse_formals n rec
        _expect .ts_left_brace "Expect \x7b"
        _parse_statements n rec
        _next_token : Parse Unit) s0) ∧
    ∃ t d sd fr rest, s.tok = some t ∧ t.stat = .ts_identifier ∧
      ((_get_token_state { s with tok_cache_idx := s.tok_cache_idx + 1 }
          = .ok (.ts_assignment, { s with tok_cache_idx := s.tok_cache_idx + 1 }) ∧
        rec.js_parse_expression { s with tok_cache_idx := s.tok_cache_idx + 1 + 1 }
          = .ok (d, sd)) ∨
       (_get_token_state { s with tok_cache_idx := s.tok_cache_idx + 1 }
          ≠ .ok (.ts_assignment, { s with tok_cache_idx := s.tok_cache_idx + 1 }) ∧
        d = .null ∧ sd = { s with tok_cache_idx := s.tok_cache_idx + 1 })) ∧
      sd.stack = fr :: rest ∧
      s1.stack = { fr with
          vars := js_value_map_put fr.vars ((s.src.drop t.h).take (t.t - t.h))
            (if (fr.params.getD i .null).type ≠ .vt_null then fr.params.getD i .null
             else d) } :: rest ∧
      stack_fetch s1.stack ((s.src.drop t.h).take (t.t - t.h))
        = some (if (fr.params.getD i .null).type ≠ .vt_null then fr.params.getD i .null
                else d) := by
  refine ⟨fun s0 h0 => parse_function_exec n rec s0 h0, ?_⟩
  obtain ⟨t, d, sd, fr, rest, h1, h2, h3, h4, h5⟩ := formal_binding rec i s s1 r h
  have h6 : s1.stack = { fr with
      vars := js_value_map_put fr.vars ((s.src.drop t.h).take (t.t - t.h))
        (if (fr.params.getD i .null).type ≠ .vt_null then fr.params.getD i .null
         else d) } :: rest := by
    rw [h5]
  refine ⟨t, d, sd, fr, rest, h1, h2, h3, h4, h6, ?_⟩
  rw [h6]
  simp only [stack_fetch, js_value_map_get_put_same]

set_option maxRecDepth 100000 in
theorem formal_takes_actual_unless_null_witness :
    _parse_formal (parsers no_host 50) 0 formal_example
      = .ok (.inr (), { formal_example with
          tok_cache_idx := 7
          stack := [⟨0, 0, [(sz "a", .number 7)], [.number 7]⟩,
            ⟨0, 0, [(sz "f", .function 0)], []⟩] }) ∧
    ∃ t d sd fr rest, formal_example.tok = some t ∧ t.stat = .ts_identifier ∧
      ((_get_token_state { formal_example with tok_cache_idx := formal_example.tok_cache_idx + 1 }
          = .ok (.ts_assignment,
              { formal_example with tok_cache_idx := formal_example.tok_cache_idx + 1 }) ∧
        (parsers no_host 50).js_parse_expression
            { formal_example with tok_cache_idx := formal_example.tok_cache_idx + 1 + 1 }
          = .ok (d, sd)) ∨
       (_get_token_state { formal_example with tok_cache_idx := formal_example.tok_cache_idx + 1 }
          ≠ .ok (.ts_assignment,
              { formal_example with tok_cache_idx := formal_example.tok_cache_idx + 1 }) ∧
        d = .null ∧
        sd = { formal_example with tok_cache_idx := formal_example.tok_cache_idx + 1 })) ∧
      sd.stack = fr :: rest ∧
      ({ formal_example with
          tok_cache_idx := 7
          stack := [⟨0, 0, [(sz "a", .number 7)], [.number 7]⟩,
            ⟨0, 0, [(sz "f", .function 0)], []⟩] } : js).stack = { fr with
          vars := js_value_map_put fr.vars
            ((formal_example.src.drop t.h).take (t.t - t.h))
            (if (fr.params.getD 0 .null).type ≠ .vt_null then fr.params.getD 0 .null
             else d) } :: rest ∧
      stack_fetch ({ formal_example with
          tok_cache_idx := 7
          stack := [⟨0, 0, [(sz "a", .number 7)], [.number 7]⟩,
            ⟨0, 0, [(sz "f", .function 0)], []⟩] } : js).stack
          ((formal_example.src.drop t.h).take (t.t - t.h))
        = some (if (fr.params.getD 0 .null).type ≠ .vt_null then fr.params.getD 0 .null
                else d) :=
  ⟨by decide!,
    (formal_takes_actual_unless_null 50 (parsers no_host 50) 0 formal_example _ (.inr ())
      (by decide!)).2⟩

/-! ## Closure bindings and formal parameters of a call -/

set_option maxRecDepth 100000 in
/-- C12, counterexample: a formal with the name of a closure binding does not hold
the supplied actual when that actual is null and the formal has a default.  In `let
mk = function(x){ return function(x = 5){ return x; }; }; let f = mk(1); f(null)`
the function `f` has captured `x` with 1, and in the body of `f(null)` the formal
`x` holds 5, its default, not the supplied null. -/
theorem null_actual_over_closure_binding_takes_default :
    (js_final (js_run no_host 50 2 (js_load
      "let mk = function(x){ return function(x = 5){ return x; }; }; let f = mk(1); f(null)"))).map
      (fun s => (s.var "f", s.heap.get? 1))
      = some (some (.function 1), some (.function 10 [(sz "x", .number 1)])) ∧
    js_value_of (js_eval_after no_host 50 2 (js_load
      "let mk = function(x){ return function(x = 5){ return x; }; }; let f = mk(1); f(null)"))
      = some (.number 5) := by
  decide!

/-- C12 (amended): a call of a script function whose cell holds the closure map
`closure` runs `_parse_function` from the state in which every closure binding is
already declared in the frame of the call, so the formals are bound after them; each
closure binding is then in the frame with its captured value; and binding a formal
overwrites the entry of its own name with the value the formal takes, which is the
supplied actual when that is not null and else the value of the default expression
(null when the formal has none), and changes no other entry of the frame. -/
theorem closure_declared_before_formals (host : Host) (n : Nat) (rec : Parsers)
    (f index : Nat) (closure : js_value_map) (s : js) (fr : js_stack_frame)
    (rest : List js_stack_frame)
    (hcell : s.heap.get? f = some (.function index closure)) (hst : s.stack = fr :: rest) :
    (_call_callee host n rec (.function f) s =
      match _parse_function n rec { s with
          tok_cache_idx := index
          stack := { fr with vars := closure_capture fr.vars closure } :: rest } with
      | .ok ((), sb) => .ok ((), { sb with tok_cache_idx := s.tok_cache_idx })
      | .error e => .error e) ∧
    (∀ k v, (closure.map Prod.fst).Nodup → (k, v) ∈ closure →
      js_value_map_get (closure_capture fr.vars closure) k = some v) ∧
    (∀ (i : Nat) (sf s1 : js) (r : Nat ⊕ Unit), _parse_formal rec i sf = .ok (r, s1) →
      ∃ t d sd fr1 rest1, sf.tok = some t ∧
        ((_get_token_state { sf with tok_cache_idx := sf.tok_cache_idx + 1 }
            = .ok (.ts_assignment, { sf with tok_cache_idx := sf.tok_cache_idx + 1 }) ∧
          rec.js_parse_expression { sf with tok_cache_idx := sf.tok_cache_idx + 1 + 1 }
            = .ok (d, sd)) ∨
         (_get_token_state { sf with tok_cache_idx := sf.tok_cache_idx + 1 }
            ≠ .ok (.ts_assignment, { sf with tok_cache_idx := sf.tok_cache_idx + 1 }) ∧
          d = .null ∧ sd = { sf with tok_cache_idx := sf.tok_cache_idx + 1 })) ∧
        sd.stack = fr1 :: rest1 ∧
        ∃ vars1, s1.stack = { fr1 with vars := vars1 } :: rest1 ∧
          js_value_map_get vars1 ((sf.src.drop t.h).take (t.t - t.h))
            = some (if (fr1.params.getD i .null).type ≠ .vt_null then fr1.params.getD i .null
                    else d) ∧
          ∀ k, k ≠ (sf.src.drop t.h).take (t.t - t.h) →
            js_value_map_get vars1 k = js_value_map_get fr1.vars k) := by
  refine ⟨call_callee_script host n rec f index closure s fr rest hcell hst, ?_, ?_⟩
  · intro k v hnd hmem
    exact closure_capture_get closure fr.vars k v hnd hmem
  · intro i sf s1 r h
    obtain ⟨t, d, sd, fr1, rest1, h1, _, h3, h4, h5⟩ := formal_binding rec i sf s1 r h
    refine ⟨t, d, sd, fr1, rest1, h1, h3, h4, _, ?_, js_value_map_get_put_same _ _ _,
      fun k hk => js_value_map_get_put_other _ _ _ _ hk⟩
    rw [h5]

set_option maxRecDepth 100000 in
theorem closure_declared_before_formals_witness :
    closure_shadow_example.heap.get? 1
      = some (.function 12 [(sz "x", .number 1), (sz "y", .number 10)]) ∧
    js_value_map_get (closure_capture [] [(sz "x", .number 1), (sz "y", .number 10)]) (sz "y")
      = some (.number 10) ∧
    _call_callee no_host 50 (parsers no_host 50) (.function 1) closure_shadow_example
      = .ok ((), { closure_shadow_example with
          mark_return := true
          result := .number 15
          stack := [⟨0, 0, [(sz "x", .number 5), (sz "y", .number 10)], [.number 5]⟩,
            ⟨0, 0, [(sz "mk", .function 0), (sz "f", .function 1)], []⟩] }) ∧
    js_value_of (js_eval_after no_host 50 2 (js_load closure_shadow_src)) = some (.number 15) :=
  ⟨by decide!,
    (closure_declared_before_formals no_host 50 (parsers no_host 50) 1 12
      [(sz "x", .number 1), (sz "y", .number 10)] closure_shadow_example
      ⟨0, 0, [], [.number 5]⟩ [⟨0, 0, [(sz "mk", .function 0), (sz "f", .function 1)], []⟩]
      (by decide!) (by decide!)).2.1 (sz "y") (.number 10) (by decide!) (by decide!),
    by decide!, by decide!⟩

/-! ## The `for in` and `for of` loops -/

theorem array_cell_state {val : js_value} {s s1 : js} {x : Nat × List js_value}
    (h : js_array_cell val s = .ok (x, s1)) : s1 = s := by
  unfold js_array_cell at h
  split at h
  · split at h
    · cases h
      rfl
    · cases h
  · cases h

theorem object_cell_state {val : js_value} {s s1 : js} {x : Nat × js_value_map}
    (h : js_object_cell val s = .ok (x, s1)) : s1 = s := by
  unfold js_object_cell at h
  split at h
  · split at h
    · cases h
      rfl
    · cases h
  · cases h

theorem for_array_loop (rec : Parsers) (for_type : _for_type) (acc : _value_accessor)
    (val : js_value) (b : Nat) (rounds : List (Option (js × js))) :
    ∀ (fuel i c : Nat) (s : js),
      for_array_rounds rec._parse_statement for_type acc val b i s rounds →
      rounds.length < fuel →
      js_loop (fun (x : Nat × Nat) => (do
        let (_, p) ← js_array_cell val
        if x.1 < p.length then
          let v := p.getD x.1 .null
          if v.type ≠ .vt_null then -- skip null
            set_tok_cache_idx b
            if for_type = .for_in then
              _accessor_put acc (.number (x.1 : ℚ))
            else
              _accessor_put acc v
            rec._parse_statement
            set_mark_continue false
            if (← js_get).mark_break then
              pure (.inr (x.2 + 1))
            else
              pure (.inl (x.1 + 1, x.2 + 1))
          else
            pure (.inl (x.1 + 1, x.2))
        else
          pure (.inr x.2) : Parse ((Nat × Nat) ⊕ Nat))) fuel (i, c) s
      = .ok (c + for_rounds_count rounds, for_rounds_exit s rounds) := by
  induction rounds with
  | nil =>
    intro fuel i c s hr hlen
    obtain ⟨m, rfl⟩ : ∃ m, fuel = m + 1 := ⟨fuel - 1, by simp at hlen; omega⟩
    unfold for_array_rounds at hr
    cases hcell : js_array_cell val s with
    | error e => simp only [hcell, Returns] at hr
    | ok x =>
      obtain ⟨⟨a, p⟩, s1⟩ := x
      obtain rfl := array_cell_state hcell
      simp only [hcell, Returns] at hr
      rw [run_loop]
      simp only [run_bind, hcell, hr, if_false, run_pure]
      rfl
  | cons r rest ih =>
    intro fuel i c s hr hlen
    obtain ⟨m, rfl⟩ : ∃ m, fuel = m + 1 := ⟨fuel - 1, by simp at hlen; omega⟩
    have hlen1 : rest.length < m := by simpa using hlen
    cases hcell : js_array_cell val s with
    | error e =>
      cases r with
      | none =>
        unfold for_array_rounds at hr
        simp only [hcell, Returns, false_and] at hr
      | some q =>
        obtain ⟨s1, s2⟩ := q
        unfold for_array_rounds at hr
        simp only [hcell, Returns, false_and] at hr
    | ok x =>
      obtain ⟨⟨a, p⟩, s1⟩ := x
      obtain rfl := array_cell_state hcell
      cases r with
      | none =>
        unfold for_array_rounds at hr
        simp only [hcell, Returns] at hr
        obtain ⟨⟨hlt, hnull⟩, hrest⟩ := hr
        rw [run_loop]
        simp only [run_bind, hcell, hlt, if_true, hnull, ne_eq, not_true_eq_false, if_false,
          run_pure]
        exact ih m (i + 1) c _ hrest hlen1
      | some q =>
        obtain ⟨s1, s2⟩ := q
        unfold for_array_rounds at hr
        simp only [hcell, Returns] at hr
        obtain ⟨⟨hlt, hnn, hput⟩, hbody, hrest⟩ := hr
        rw [run_loop]
        simp only [run_bind, hcell, hlt, if_true, hnn, ne_eq, not_false_eq_true,
          run_set_tok_cache_idx, run_ite]
        by_cases hft : for_type = .for_in
        · rw [if_pos hft] at hput ⊢
          simp only [hput, hbody, run_set_mark_continue, run_get, run_pure]
          by_cases hbr : s2.mark_break = true
          · rw [if_pos hbr] at hrest ⊢
            subst hrest
            simp only [for_rounds_count, for_rounds_exit]
          · rw [if_neg hbr] at hrest ⊢
            simp only [for_rounds_count, for_rounds_exit]
            rw [ih m (i + 1) (c + 1) _ hrest hlen1, Nat.add_right_comm c 1]
            rfl
        · rw [if_neg hft] at hput ⊢
          simp only [hput, hbody, run_set_mark_continue, run_get, run_pure]
          by_cases hbr : s2.mark_break = true
          · rw [if_pos hbr] at hrest ⊢
            subst hrest
            simp only [for_rounds_count, for_rounds_exit]
          · rw [if_neg hbr] at hrest ⊢
            simp only [for_rounds_count, for_rounds_exit]
            rw [ih m (i + 1) (c + 1) _ hrest hlen1, Nat.add_right_comm c 1]
            rfl

theorem for_object_loop (rec : Parsers) (for_type : _for_type) (acc : _value_accessor)
    (val : js_value) (b : Nat) (rounds : List (Option (js × js))) :
    ∀ (fuel i c : Nat) (s : js),
      for_object_rounds rec._parse_statement for_type acc val b i s rounds →
      rounds.length < fuel →
      js_loop (fun (x : Nat × Nat) => (do
        let (_, p) ← js_object_cell val
        if x.1 < p.length then
          let (k, v) := p.getD x.1 ([], .null)
          if v.type ≠ .vt_null then -- skip null
            set_tok_cache_idx b
            if for_type = .for_in then
              _accessor_put acc (js_string k k.length)
            else
              _accessor_put acc v
            rec._parse_statement
            set_mark_continue false
            if (← js_get).mark_break then
              pure (.inr (x.2 + 1))
            else
              pure (.inl (x.1 + 1, x.2 + 1))
          else
            pure (.inl (x.1 + 1, x.2))
        else
          pure (.inr x.2) : Parse ((Nat × Nat) ⊕ Nat))) fuel (i, c) s
      = .ok (c + for_rounds_count rounds, for_rounds_exit s rounds) := by
  induction rounds with
  | nil =>
    intro fuel i c s hr hlen
    obtain ⟨m, rfl⟩ : ∃ m, fuel = m + 1 := ⟨fuel - 1, by simp at hlen; omega⟩
    unfold for_object_rounds at hr
    cases hcell : js_object_cell val s with
    | error e => simp only [hcell, Returns] at hr
    | ok x =>
      obtain ⟨⟨a, p⟩, s1⟩ := x
      obtain rfl := object_cell_state hcell
      simp only [hcell, Returns] at hr
      rw [run_loop]
      simp only [run_bind, hcell, hr, if_false, run_pure]
      rfl
  | cons r rest ih =>
    intro fuel i c s hr hlen
    obtain ⟨m, rfl⟩ : ∃ m, fuel = m + 1 := ⟨fuel - 1, by simp at hlen; omega⟩
    have hlen1 : rest.length < m := by simpa using hlen
    cases hcell : js_object_cell val s with
    | error e =>
      cases r with
      | none =>
        unfold for_object_rounds at hr
        simp only [hcell, Returns, false_and] at hr
      | some q =>
        obtain ⟨s1, s2⟩ := q
        unfold for_object_rounds at hr
        simp only [hcell, Returns, false_and] at hr
    | ok x =>
      obtain ⟨⟨a, p⟩, s1⟩ := x
      obtain rfl := object_cell_state hcell
      cases r with
      | none =>
        unfold for_object_rounds at hr
        simp only [hcell, Returns] at hr
        obtain ⟨⟨hlt, hnull⟩, hrest⟩ := hr
        rw [run_loop]
        simp only [run_bind, hcell, hlt, if_true, hnull, ne_eq, not_true_eq_false, if_false,
          run_pure]
        exact ih m (i + 1) c _ hrest hlen1
      | some q =>
        obtain ⟨s1, s2⟩ := q
        unfold for_object_rounds at hr
        simp only [hcell, Returns] at hr
        obtain ⟨⟨hlt, hnn, hput⟩, hbody, hrest⟩ := hr
        rw [run_loop]
        simp only [run_bind, hcell, hlt, if_true, hnn, ne_eq, not_false_eq_true,
          run_set_tok_cache_idx, run_ite]
        by_cases hft : for_type = .for_in
        · rw [if_pos hft] at hput ⊢
          simp only [hput, hbody, run_set_mark_continue, run_get, run_pure]
          by_cases hbr : s2.mark_break = true
          · rw [if_pos hbr] at hrest ⊢
            subst hrest
            simp only [for_rounds_count, for_rounds_exit]
          · rw [if_neg hbr] at hrest ⊢
            simp only [for_rounds_count, for_rounds_exit]
            rw [ih m (i + 1) (c + 1) _ hrest hlen1, Nat.add_right_comm c 1]
            rfl
        · rw [if_neg hft] at hput ⊢
          simp only [hput, hbody, run_set_mark_continue, run_get, run_pure]
          by_cases hbr : s2.mark_break = true
          · rw [if_pos hbr] at hrest ⊢
            subst hrest
            simp only [for_rounds_count, for_rounds_exit]
          · rw [if_neg hbr] at hrest ⊢
            simp only [for_rounds_count, for_rounds_exit]
            rw [ih m (i + 1) (c + 1) _ hrest hlen1, Nat.add_right_comm c 1]
            rfl

/-- C16: `for (x in|of e) body` from `e` on, where `e` yields `val` and `)` follows.
Over an array and over an object the loop goes through the positions of the
container in order, reading it anew each round: a null element is passed over; at
any other element the loop variable is put, the index for `in` over an array, the
key as a string for `in` over an object, the element for `of`, and then the body
runs once, the loop ending early only when the body leaves `mark_break` set.
Afterwards `mark_break` is cleared and, when no round ran the body, the body is
walked through once in skim mode.  A value that is neither array nor object raises
an error. -/
theorem for_in_of_runs_body_per_non_null_element (host : Host) (n : Nat) (rec : Parsers)
    (for_type : _for_type) (acc : _value_accessor) (s s1 : js) (val : js_value)
    (hv : _parse_access_call_expression host n rec s = .ok (val, s1))
    (hp : _get_token_state s1 = .ok (.ts_right_parenthesis, s1)) :
    (∀ rounds, val.type = .vt_array →
      for_array_rounds rec._parse_statement for_type acc val (s1.tok_cache_idx + 1) 0
        { s1 with tok_cache_idx := s1.tok_cache_idx + 1 } rounds →
      rounds.length < n →
      _parse_for_in_of host n rec for_type acc s =
        for_in_of_finish rec (for_rounds_count rounds)
          { for_rounds_exit { s1 with tok_cache_idx := s1.tok_cache_idx + 1 } rounds with
            mark_break := false }) ∧
    (∀ rounds, val.type = .vt_object →
      for_object_rounds rec._parse_statement for_type acc val (s1.tok_cache_idx + 1) 0
        { s1 with tok_cache_idx := s1.tok_cache_idx + 1 } rounds →
      rounds.length < n →
      _parse_for_in_of host n rec for_type acc s =
        for_in_of_finish rec (for_rounds_count rounds)
          { for_rounds_exit { s1 with tok_cache_idx := s1.tok_cache_idx + 1 } rounds with
            mark_break := false }) ∧
    (val.type ≠ .vt_array → val.type ≠ .vt_object →
      _parse_for_in_of host n rec for_type acc s
        = .error (.throw "For in/of loop require array or object")) ∧
    (∀ s2 : js, for_in_of_finish rec 0 s2 =
      match rec._parse_statement { s2 with parse_exec := false } with
      | .ok ((), s3) => .ok ((), { s3 with parse_exec := true })
      | .error e => .error e) ∧
    (∀ (c : Nat) (s2 : js), c ≠ 0 → for_in_of_finish rec c s2 = .ok ((), s2)) := by
  refine ⟨?_, ?_, ?_, ?_, ?_⟩
  · intro rounds harr hr hlen
    unfold _parse_for_in_of
    simp only [run_bind, hv, run_expect, run_accept, hp, if_true, run_get]
    rw [if_pos harr]
    simp only [run_bind]
    rw [for_array_loop rec for_type acc val _ rounds n 0 0 _ hr hlen]
    simp only [run_set_mark_break, run_pure, Nat.zero_add]
    rfl
  · intro rounds hobj hr hlen
    have harr : ¬ val.type = .vt_array := by
      rw [hobj]
      decide
    unfold _parse_for_in_of
    simp only [run_bind, hv, run_expect, run_accept, hp, if_true, run_get]
    rw [if_neg harr, if_pos hobj]
    simp only [run_bind]
    rw [for_object_loop rec for_type acc val _ rounds n 0 0 _ hr hlen]
    simp only [run_set_mark_break, run_pure, Nat.zero_add]
    rfl
  · intro harr hobj
    unfold _parse_for_in_of
    simp only [run_bind, hv, run_expect, run_accept, hp, if_true, run_get]
    rw [if_neg harr, if_neg hobj]
    rfl
  · intro s2
    unfold for_in_of_finish
    simp only [if_true, run_bind, run_set_parse_exec]
    cases rec._parse_statement { s2 with parse_exec := false } with
    | error e => rfl
    | ok x => rfl
  · intro c s2 hc
    unfold for_in_of_finish
    rw [if_neg hc]
    rfl

set_option maxRecDepth 100000 in
theorem for_in_of_runs_body_per_non_null_element_witness :
    _parse_access_call_expression no_host 50 (parsers no_host 50) for_of_example
      = .ok (.object 0, { for_of_example with tok_cache_idx := 24 }) ∧
    _parse_for_in_of no_host 50 (parsers no_host 50) .for_of for_of_acc for_of_example
      = for_in_of_finish (parsers no_host 50) 2
          { for_of_example with
            tok_cache_idx := 31
            stack := for_of_frames (.number 2) (.number 3) } ∧
    js_value_of (js_eval_after no_host 50 3 (js_load for_of_src)) = some (.number 3) ∧
    js_value_of (js_eval_after no_host 50 3 (js_load
      "let a = [5, null, 7]; let r = 0; for (let i in a) { r = r * 10 + i + 1; } r"))
      = some (.number 13) ∧
    js_value_of (js_eval_after no_host 50 2 (js_load
      "let r = \"\"; for (let i in {a: 1, b: null, c: 4}) { r += i; } r"))
      = some (.string (sz "ac")) ∧
    js_value_of (js_eval_after no_host 50 2 (js_load
      "let r = 0; for (let i of [null]) { r = r + 1; } r")) = some (.number 0) ∧
    js_error_of (js_eval_after no_host 50 2 (js_load
      "let r = 0; for (let i of 5) { r = r + 1; } r"))
      = some (.throw "For in/of loop require array or object") :=
  ⟨by decide!,
    (for_in_of_runs_body_per_non_null_element no_host 50 (parsers no_host 50) .for_of for_of_acc
      for_of_example { for_of_example with tok_cache_idx := 24 } (.object 0)
      (by decide!) (by decide!)).2.1
      [some ({ for_of_example with
                tok_cache_idx := 25
                stack := for_of_frames (.number 1) (.number 0) },
             { for_of_example with
                tok_cache_idx := 31
                stack := for_of_frames (.number 1) (.number 1) }),
       some ({ for_of_example with
                tok_cache_idx := 25
                stack := for_of_frames (.number 2) (.number 1) },
             { for_of_example with
                tok_cache_idx := 31
                stack := for_of_frames (.number 2) (.number 3) })]
      (by decide)
      (by unfold for_object_rounds for_object_rounds for_object_rounds; decide!)
      (by decide),
    by decide!, by decide!, by decide!, by decide!, by decide!⟩

/-! ## The classic `for` loop -/

theorem classic_for_round_run (host : Host) (n : Nat) (rec : Parsers) (b : Nat) (s : js)
    (r : Bool × js × js × js × js) (ht : (s.parse_exec && !s.mark_break) = true)
    (h : classic_for_round host n rec b s r) :
    (do
      let s ← js_get
      if s.parse_exec && !s.mark_break then
        set_tok_cache_idx b
        let cond ← (do
          if (← _accept .ts_semicolon) then
            pure true
          else
            let cond ← js_parse_expression host n rec
            match cond with
            | .boolean b =>
              _expect .ts_semicolon "Expect ;"
              pure b
            | _ => js_throw "Condition must be boolean" : Parse Bool)
        let tok_idx_backup_2 := (← js_get).tok_cache_idx
        set_parse_exec false -- first, skip the 3rd part
        if !(← _accept .ts_right_parenthesis) then
          _parse_assignment_expression host n rec
          _expect .ts_right_parenthesis "Expect )"
        set_parse_exec cond
        rec._parse_statement
        set_mark_continue false
        let tok_idx_backup_3 := (← js_get).tok_cache_idx
        set_tok_cache_idx tok_idx_backup_2 -- then, exec the 3rd pard
        if !(← _accept .ts_right_parenthesis) then
          _parse_assignment_expression host n rec
        set_tok_cache_idx tok_idx_backup_3
        pure (.inl ())
      else
        pure (.inr ()) : Parse (Unit ⊕ Unit)) s = .ok (.inl (), classic_for_next r) := by
  obtain ⟨c, s1, s2, s3, s4⟩ := r
  obtain ⟨h1, h2, h3, h4⟩ := h
  simp only [] at h1 h2 h3 h4
  refine (bind_eq (run_get s)).trans ?_
  simp only []
  rw [if_pos ht]
  refine (bind_eq (run_set_tok_cache_idx b s)).trans ?_
  refine (bind_eq h1).trans ?_
  refine (bind_eq (run_get _)).trans ?_
  unfold classic_for_skim_step at h2
  obtain ⟨_, sa, ha, h2⟩ := bind_ok h2
  refine (bind_eq ha).trans ?_
  obtain ⟨c1, sb, hb, h2⟩ := bind_ok h2
  refine (bind_eq hb).trans ?_
  have tail : ∀ (k : Unit → Parse (Unit ⊕ Unit)),
      k = (fun _ => (do
        set_parse_exec c
        rec._parse_statement
        set_mark_continue false
        let tok_idx_backup_3 := (← js_get).tok_cache_idx
        set_tok_cache_idx s1.tok_cache_idx
        if !(← _accept .ts_right_parenthesis) then
          _parse_assignment_expression host n rec
        set_tok_cache_idx tok_idx_backup_3
        pure (.inl ()) : Parse (Unit ⊕ Unit))) →
      k () s2 = .ok (.inl (), classic_for_next (c, s1, s2, s3, s4)) := by
    intro k hk
    subst hk
    refine (bind_eq (run_set_parse_exec c s2)).trans ?_
    refine (bind_eq h3).trans ?_
    refine (bind_eq (run_set_mark_continue false s3)).trans ?_
    refine (bind_eq (run_get _)).trans ?_
    refine (bind_eq (run_set_tok_cache_idx _ _)).trans ?_
    unfold classic_for_step at h4
    obtain ⟨c2, sc, hc, h4⟩ := bind_ok h4
    refine (bind_eq hc).trans ?_
    cases c2 with
    | true =>
      simp only [Bool.not_true, Bool.false_eq_true, if_false] at h4 ⊢
      cases h4
      rfl
    | false =>
      simp only [Bool.not_false, if_true] at h4 ⊢
      refine (bind_eq h4).trans ?_
      rfl
  cases c1 with
  | true =>
    simp only [Bool.not_true, Bool.false_eq_true, if_false] at h2 ⊢
    cases h2
    exact tail _ rfl
  | false =>
    simp only [Bool.not_false, if_true] at h2 ⊢
    obtain ⟨_, sc, hc, h2⟩ := bind_ok h2
    refine (bind_eq hc).trans ?_
    refine (bind_eq h2).trans ?_
    exact tail _ rfl

theorem classic_for_loop (host : Host) (n : Nat) (rec : Parsers) (b : Nat) :
    ∀ (fuel : Nat) (rounds : List (Bool × js × js × js × js)) (s : js),
      classic_for_rounds host n rec b s rounds → rounds.length < fuel →
      js_loop (fun (_ : Unit) => (do
        let s ← js_get
        if s.parse_exec && !s.mark_break then
          set_tok_cache_idx b
          let cond ← (do
            if (← _accept .ts_semicolon) then
              pure true
            else
              let cond ← js_parse_expression host n rec
              match cond with
              | .boolean b =>
                _expect .ts_semicolon "Expect ;"
                pure b
              | _ => js_throw "Condition must be boolean" : Parse Bool)
          let tok_idx_backup_2 := (← js_get).tok_cache_idx
          set_parse_exec false -- first, skip the 3rd part
          if !(← _accept .ts_right_parenthesis) then
            _parse_assignment_expression host n rec
            _expect .ts_right_parenthesis "Expect )"
          set_parse_exec cond
          rec._parse_statement
          set_mark_continue false
          let tok_idx_backup_3 := (← js_get).tok_cache_idx
          set_tok_cache_idx tok_idx_backup_2 -- then, exec the 3rd pard
          if !(← _accept .ts_right_parenthesis) then
            _parse_assignment_expression host n rec
          set_tok_cache_idx tok_idx_backup_3
          pure (.inl ())
        else
          pure (.inr ()) : Parse (Unit ⊕ Unit))) fuel () s
      = .ok ((), classic_for_exit s rounds) := by
  intro fuel
  induction fuel with
  | zero =>
    intro rounds s hr hlen
    cases hlen
  | succ m ih =>
    intro rounds s hr hlen
    cases rounds with
    | nil =>
      have ht : (s.parse_exec && !s.mark_break) = false := hr
      rw [run_loop]
      simp only [run_bind, run_get, ht, Bool.false_eq_true, if_false, run_pure]
      rfl
    | cons r rest =>
      obtain ⟨ht, h1, h2⟩ := hr
      rw [run_loop, classic_for_round_run host n rec b s r ht h1]
      exact ih rest _ h2 (by simpa using hlen)

theorem classic_for_exit_append (r : Bool × js × js × js × js) :
    ∀ (rounds : List (Bool × js × js × js × js)) (s : js),
      classic_for_exit s (rounds ++ [r]) = classic_for_next r
  | [], _ => rfl
  | r1 :: rest, _ => classic_for_exit_append r rest (classic_for_next r1)

theorem classic_for_false_round (host : Host) (n : Nat) (b : Nat) (s : js)
    (r : Bool × js × js × js × js)
    (h : classic_for_round host n (parsers host n) b s r) (hc : r.1 = false) :
    r.2.2.2.1 = { r.2.2.1 with
      parse_exec := false
      tok_cache_idx := r.2.2.2.1.tok_cache_idx } ∧
    (classic_for_next r).parse_exec = false := by
  obtain ⟨c, s1, s2, s3, s4⟩ := r
  obtain ⟨h1, h2, h3, h4⟩ := h
  simp only [] at h1 h2 h3 h4 hc ⊢
  subst hc
  have e3 := skim_state (skim_parsers host n).statement h3
    (by simp only [js.exec, Bool.false_and])
  simp only [] at e3
  refine ⟨e3, ?_⟩
  have hp3 : s3.parse_exec = false := by rw [e3]
  unfold classic_for_step at h4
  obtain ⟨c2, sc, hc, h4⟩ := bind_ok h4
  have ec := accept_frame hc
  have hpc : sc.parse_exec = false := by
    rw [ec]
    exact hp3
  cases c2 with
  | true =>
    simp only [Bool.not_true, Bool.false_eq_true, if_false] at h4
    cases h4
    exact hpc
  | false =>
    simp only [Bool.not_false, if_true] at h4
    have e4 := skim_state (skim_parse_assignment_expression host n _ (skim_parsers host n)) h4
      (by simp only [js.exec, hpc, Bool.false_and])
    show s4.parse_exec = false
    rw [e4]
    exact hpc

theorem for_statement_exec (host : Host) (n : Nat) (rec : Parsers) (s : js)
    (hexec : s.exec = true) (ht : _get_token_state s = .ok (.ts_for, s)) :
    _parse_statement host n rec s = (do
      _stack_forward
      _next_token
      _expect .ts_left_parenthesis "Expect ("
      let (for_type, acc) ← for_header host n rec
      if for_type = .classic_for then
        _parse_classic_for host n rec
      else
        _parse_for_in_of host n rec for_type acc
      js_stack_backward : Parse Unit) s := by
  unfold _parse_statement
  refine (bind_eq (run_require_exec s)).trans ?_
  rw [hexec, if_pos rfl]
  refine (bind_eq (accept_ne ht (by decide))).trans ?_
  rw [if_neg (by decide)]
  refine (bind_eq ht).trans ?_
  rw [if_neg (by decide)]
  refine (bind_eq (accept_ne ht (by decide))).trans ?_
  rw [if_neg (by decide)]
  refine (bind_eq (accept_ne ht (by decide))).trans ?_
  rw [if_neg (by decide)]
  refine (bind_eq (accept_ne ht (by decide))).trans ?_
  rw [if_neg (by decide)]
  refine (bind_eq ht).trans ?_
  rw [if_pos rfl]
  rfl

set_option maxRecDepth 100000 in
theorem for_x_scan :
    js_scan for_x_src = for_x_tokens 3 ∧ sz for_x_src = for_x_bytes := by
  decide!

theorem for_x_load (n : ℚ) :
    js_load_with for_x_src [0, n, 1] = for_x_state n 0 true [⟨0, 0, [], []⟩] := by
  simp only [js_load_with, js_load, for_x_scan.1, for_x_scan.2]
  rfl

set_option maxRecDepth 100000 in
set_option smartUnfolding false in
theorem for_x_init (m : Nat) (n : ℚ) :
    _parse_statement no_host (m + 10) (parsers no_host (m + 10))
      (for_x_state n 0 true [⟨0, 0, [], []⟩]) =
    .ok ((), for_x_state n 5 true [⟨0, 0, [(sz "s", .string [])], []⟩]) := by
  rfl

set_option maxRecDepth 100000 in
set_option smartUnfolding false in
theorem for_x_header (m : Nat) (n : ℚ) :
    (do
      _stack_forward
      _next_token
      _expect .ts_left_parenthesis "Expect ("
      for_header no_host (m + 10) (parsers no_host (m + 10)) :
        Parse (_for_type × _value_accessor))
      (for_x_state n 5 true [⟨0, 0, [(sz "s", .string [])], []⟩]) =
    .ok ((.classic_for, ⟨.at_identifier, .undefined, for_x_bytes.drop 21, 1⟩),
      for_x_state n 12 true (for_x_frames 0 [])) := by
  rfl

set_option maxRecDepth 100000 in
set_option smartUnfolding false in
theorem for_x_cond (m : Nat) (n k : ℚ) (str : Bytes) (idx : Nat) :
    classic_for_cond no_host (m + 10) (parsers no_host (m + 10))
      { for_x_state n idx true (for_x_frames k str) with tok_cache_idx := 12 } =
    .ok (decide (k < n), for_x_state n 16 true (for_x_frames k str)) := by
  refine (show _ = Except.ok (decide (double.fin k < double.fin n),
    for_x_state n 16 true (for_x_frames k str)) from rfl).trans ?_
  rw [double.decide_fin_lt]

set_option maxRecDepth 100000 in
set_option smartUnfolding false in
theorem for_x_skim_step (m : Nat) (n k : ℚ) (str : Bytes) :
    classic_for_skim_step no_host (m + 10) (parsers no_host (m + 10))
      (for_x_state n 16 true (for_x_frames k str)) =
    .ok ((), for_x_state n 20 false (for_x_frames k str)) := by
  rfl

set_option maxRecDepth 100000 in
set_option smartUnfolding false in
theorem for_x_body (m : Nat) (n k : ℚ) (str : Bytes) :
    (parsers no_host (m + 10))._parse_statement
      { for_x_state n 20 false (for_x_frames k str) with parse_exec := true } =
    .ok ((), for_x_state n 26 true (for_x_frames k (str ++ [120]))) := by
  rfl

set_option maxRecDepth 100000 in
set_option smartUnfolding false in
theorem for_x_body_skim (m : Nat) (n k : ℚ) (str : Bytes) :
    (parsers no_host (m + 10))._parse_statement
      { for_x_state n 20 false (for_x_frames k str) with parse_exec := false } =
    .ok ((), for_x_state n 26 false (for_x_frames k str)) := by
  rfl

set_option maxRecDepth 100000 in
set_option smartUnfolding false in
theorem for_x_step (m : Nat) (n k : ℚ) (str : Bytes) :
    classic_for_step no_host (m + 10) (parsers no_host (m + 10))
      { for_x_state n 26 true (for_x_frames k str) with
        mark_continue := false
        tok_cache_idx := 16 } =
    .ok ((), for_x_state n 19 true (for_x_frames (k + 1) str)) := by
  rfl

set_option maxRecDepth 100000 in
set_option smartUnfolding false in
theorem for_x_step_skim (m : Nat) (n k : ℚ) (str : Bytes) :
    classic_for_step no_host (m + 10) (parsers no_host (m + 10))
      { for_x_state n 26 false (for_x_frames k str) with
        mark_continue := false
        tok_cache_idx := 16 } =
    .ok ((), for_x_state n 19 false (for_x_frames k str)) := by
  rfl

theorem for_x_rounds_run (m n : Nat) :
    ∀ (j k idx : Nat), k + j = n →
      classic_for_rounds no_host (m + 10) (parsers no_host (m + 10)) 12
        (for_x_state n idx true (for_x_frames k (List.replicate k 120))) (for_x_rounds n j k)
  | 0, k, idx, h => by
    have hk : k = n := h
    subst hk
    refine ⟨rfl, ⟨?_, for_x_skim_step m _ _ _, for_x_body_skim m _ _ _, for_x_step_skim m _ _ _⟩,
      rfl⟩
    rw [for_x_cond m]
    simp only [for_x_round_false, lt_self_iff_false, decide_False]
  | j + 1, k, idx, h => by
    have hk : (k : ℚ) < n := by
      have : k < n := by omega
      exact_mod_cast this
    refine ⟨rfl, ⟨?_, for_x_skim_step m _ _ _, for_x_body m _ _ _, for_x_step m _ _ _⟩, ?_⟩
    · rw [for_x_cond m]
      simp only [for_x_round_true, hk, decide_True]
    · have e : classic_for_next (for_x_round_true n k (List.replicate k 120))
          = for_x_state n 26 true (for_x_frames ((k + 1 : Nat) : ℚ) (List.replicate (k + 1) 120)) := by
        rw [List.replicate_succ', Nat.cast_succ]
        rfl
      rw [e]
      exact for_x_rounds_run m n j (k + 1) 26 (by omega)

theorem classic_for_run (host : Host) (n : Nat) (rec : Parsers) (s : js)
    (rounds : List (Bool × js × js × js × js))
    (hr : classic_for_rounds host n rec s.tok_cache_idx s rounds) (hlen : rounds.length < n) :
    _parse_classic_for host n rec s = .ok ((),
      { classic_for_exit s rounds with
        parse_exec := true
        mark_break := false
        mark_continue := false }) := by
  unfold _parse_classic_for
  refine (bind_eq (run_get s)).trans ?_
  refine (bind_eq (classic_for_loop host n rec s.tok_cache_idx n rounds s hr hlen)).trans ?_
  rfl

theorem for_x_count (n : Nat) :
    ∀ (j k : Nat), ((for_x_rounds n j k).filter fun r => r.1).length = j
  | 0, _ => rfl
  | j + 1, k => by
    simp only [for_x_rounds, for_x_round_true, List.filter_cons_of_pos, List.length_cons,
      for_x_count n j (k + 1)]

theorem for_x_length (n : Nat) : ∀ (j k : Nat), (for_x_rounds n j k).length = j + 1
  | 0, _ => rfl
  | j + 1, k => by
    simp only [for_x_rounds, List.length_cons, for_x_length n j (k + 1)]

theorem for_x_exit (n : Nat) :
    ∀ (j k : Nat) (s : js), k + j = n →
      classic_for_exit s (for_x_rounds n j k)
        = for_x_state n 26 false (for_x_frames n (List.replicate n 120))
  | 0, k, s, h => by
    have hk : k = n := h
    subst hk
    rfl
  | j + 1, k, s, h => for_x_exit n j (k + 1) _ (by omega)

theorem for_x_run (n : Nat) :
    js_run no_host (n + 20) 2 (js_load_with for_x_src [0, n, 1]) =
    .ok ((), for_x_state n 26 true [⟨0, 0, [(sz "s", .string (List.replicate n 120))], []⟩]) := by
  show js_run no_host (n + 10 + 10) 2 (js_load_with for_x_src [0, n, 1]) = _
  rw [for_x_load, js_run_step 1 (for_x_init (n + 10) n)]
  suffices h2 : _parse_statement no_host (n + 10 + 10) (parsers no_host (n + 10 + 10))
      (for_x_state n 5 true [⟨0, 0, [(sz "s", .string [])], []⟩]) = .ok ((),
        for_x_state n 26 true [⟨0, 0, [(sz "s", .string (List.replicate n 120))], []⟩]) by
    rw [js_run_step 0 h2]
    rfl
  rw [for_statement_exec no_host _ _
    (for_x_state n 5 true [⟨0, 0, [(sz "s", .string [])], []⟩]) rfl rfl]
  obtain ⟨_, sa, ha, h⟩ := bind_ok (for_x_header (n + 10) n)
  refine (bind_eq ha).trans ?_
  obtain ⟨_, sb, hb, h⟩ := bind_ok h
  refine (bind_eq hb).trans ?_
  obtain ⟨_, sc, hc, h⟩ := bind_ok h
  refine (bind_eq hc).trans ?_
  refine (bind_eq h).trans ?_
  simp only []
  rw [if_pos True.intro]
  have hl := classic_for_run no_host (n + 10 + 10) (parsers no_host (n + 10 + 10))
    (for_x_state n 12 true (for_x_frames 0 [])) (for_x_rounds n n 0)
    (for_x_rounds_run (n + 10) n n 0 12 (by omega))
    (by
      have := for_x_length n n 0
      omega)
  refine (bind_eq hl).trans ?_
  rw [for_x_exit n n 0 _ (by omega)]
  rfl

/-- C15: the classic `for`.  In execute mode the `for` statement pushes a frame,
runs the header with the initialization once, then the loop, then pops the frame.
The loop runs in rounds: each round evaluates the condition, skims the step, runs
the body with `parse_exec` set to the condition, clears `mark_continue`, runs the
step, and puts the cursor at the end of the body; a round follows while
`parse_exec` is set and `mark_break` is not; after the last round `parse_exec` is
set again and both marks are cleared, the cursor staying just after the body.  In a
round whose condition is false the body is skimmed and `parse_exec` is left false,
so the round is the last.  For every natural `k` the counting loop with bound `k`
has `k` rounds with a true condition, followed by one with a false condition, and
leaves `s` equal to the string of `k` characters `x`. -/
theorem classic_for_evaluates_cond_then_body_then_step (host : Host) (n : Nat) :
    (∀ (rec : Parsers) (s : js), s.exec = true → _get_token_state s = .ok (.ts_for, s) →
      _parse_statement host n rec s = (do
        _stack_forward
        _next_token
        _expect .ts_left_parenthesis "Expect ("
        let (for_type, acc) ← for_header host n rec
        if for_type = .classic_for then
          _parse_classic_for host n rec
        else
          _parse_for_in_of host n rec for_type acc
        js_stack_backward : Parse Unit) s) ∧
    (∀ (rec : Parsers) (s : js) (rounds : List (Bool × js × js × js × js)),
      classic_for_rounds host n rec s.tok_cache_idx s rounds → rounds.length < n →
      _parse_classic_for host n rec s = .ok ((),
        { classic_for_exit s rounds with
          parse_exec := true
          mark_break := false
          mark_continue := false })) ∧
    (∀ (s : js) (rounds : List (Bool × js × js × js × js)) (r : Bool × js × js × js × js),
      classic_for_exit s (rounds ++ [r]) = classic_for_next r ∧
      (classic_for_next r).tok_cache_idx = r.2.2.2.1.tok_cache_idx) ∧
    (∀ (b : Nat) (s : js) (r : Bool × js × js × js × js)
      (rest : List (Bool × js × js × js × js)),
      classic_for_rounds host n (parsers host n) b s (r :: rest) → r.1 = false →
      r.2.2.2.1 = { r.2.2.1 with
        parse_exec := false
        tok_cache_idx := r.2.2.2.1.tok_cache_idx } ∧
      rest = []) ∧
    (∀ k : Nat,
      classic_for_rounds no_host (k + 20) (parsers no_host (k + 20)) 12
        (for_x_state k 12 true (for_x_frames 0 [])) (for_x_rounds k k 0) ∧
      ((for_x_rounds k k 0).filter fun r => r.1).length = k ∧
      js_run no_host (k + 20) 2 (js_load_with for_x_src [0, k, 1]) =
        .ok ((), for_x_state k 26 true
          [⟨0, 0, [(sz "s", .string (List.replicate k 120))], []⟩])) := by
  refine ⟨fun rec s => for_statement_exec host n rec s,
    fun rec s rounds => classic_for_run host n rec s rounds,
    fun s rounds r => ⟨classic_for_exit_append r rounds s, rfl⟩, ?_, ?_⟩
  · intro b s r rest hr hc
    obtain ⟨_, h1, h2⟩ := hr
    obtain ⟨e1, e2⟩ := classic_for_false_round host n b s r h1 hc
    refine ⟨e1, ?_⟩
    cases rest with
    | nil => rfl
    | cons r1 rest1 =>
      have ht : ((classic_for_next r).parse_exec && !(classic_for_next r).mark_break) = true :=
        h2.1
      rw [e2] at ht
      cases ht
  · intro k
    exact ⟨for_x_rounds_run (k + 10) k k 0 12 (by omega), for_x_count k k 0, for_x_run k⟩

set_option maxRecDepth 100000 in
theorem classic_for_evaluates_cond_then_body_then_step_witness :
    js_run no_host (3 + 20) 2 (js_load_with for_x_src [0, ((3 : Nat) : ℚ), 1]) =
      .ok ((), for_x_state ((3 : Nat) : ℚ) 26 true
        [⟨0, 0, [(sz "s", .string (List.replicate 3 120))], []⟩]) ∧
    js_value_of (js_eval_after no_host 50 2 (js_load
      "let s = \"\"; for (let i = 0; i < 3; i += 1) \x7b s += \"x\"; \x7d s"))
      = some (.string (sz "xxx")) :=
  ⟨((classic_for_evaluates_cond_then_body_then_step no_host 0).2.2.2.2 3).2.2, by decide!⟩

/-! ## The factorial program -/

theorem bind_at {α β : Type} {m : Parse α} {f : α → Parse β} {s : js} (a : α) (s1 : js)
    (h : m s = .ok (a, s1)) : (m >>= f) s = f a s1 :=
  bind_eq h

theorem loop_inl {σ α : Type} {body : σ → Parse (σ ⊕ α)} {k : Nat} {x : σ} {s : js} (x1 : σ)
    (s1 : js) (h : body x s = .ok (.inl x1, s1)) :
    js_loop body (k + 1) x s = js_loop body k x1 s1 := by
  rw [run_loop, h]

theorem loop_inr {σ α : Type} {body : σ → Parse (σ ⊕ α)} {k : Nat} {x : σ} {s : js} (a : α)
    (s1 : js) (h : body x s = .ok (.inr a, s1)) : js_loop body (k + 1) x s = .ok (a, s1) := by
  rw [run_loop, h]

set_option maxRecDepth 100000 in
theorem fact_scan :
    js_scan fact_src = fact_tokens 5 ∧ sz fact_src = fact_bytes := by
  decide!

set_option maxRecDepth 100000 in
set_option smartUnfolding false in
theorem fact_declare (m : Nat) (x : ℚ) :
    _parse_statement no_host (m + 10) (parsers no_host (m + 10))
      (js_load_with fact_src [1, 1, 1, x]) =
    .ok ((), fact_state x 28 true false .undefined [⟨0, 0, [(sz "fact", .function 0)], []⟩]) := by
  simp only [js_load_with, js_load, fact_scan.1, fact_scan.2]
  rfl

set_option maxRecDepth 100000 in
set_option smartUnfolding false in
/-- The call `fact(1)`: the body returns 1 from the block of the `if`, and the second
`return` is skimmed. -/
theorem fact_call_one (m : Nat) (x : ℚ) (h t idx : Nat) (rest : List js_stack_frame) :
    _call_callee no_host (m + 10) (parsers no_host (m + 10)) (.function 0)
      (fact_state x idx true false .undefined (⟨h, t, [], [.number 1]⟩ :: rest)) =
    .ok ((), fact_state x idx true true (.number 1) (fact_frame h t 1 :: rest)) := by
  rfl

theorem fact_fetch (x q : ℚ) (h t idx : Nat) (rest : List js_stack_frame)
    (hfetch : stack_fetch rest (sz "fact") = some (.function 0)) :
    _accessor_get ⟨.at_identifier, .undefined, fact_bytes.drop 56, 4⟩
      (fact_state x idx true false .undefined (fact_frame h t q :: rest)) =
    .ok (.function 0, fact_state x idx true false .undefined (fact_frame h t q :: rest)) := by
  have e : stack_fetch (fact_frame h t q :: rest) ((fact_bytes.drop 56).take 4)
      = some (.function 0) := hfetch
  show (match stack_fetch (fact_frame h t q :: rest) ((fact_bytes.drop 56).take 4) with
    | some v => Except.ok (v, fact_state x idx true false .undefined (fact_frame h t q :: rest))
    | none => Except.error (js_error.throw "Variable not found")) = _
  rw [e]

set_option maxRecDepth 100000 in
set_option smartUnfolding false in
theorem fact_arguments (m : Nat) (x q : ℚ) (h t : Nat) (rest : List js_stack_frame) :
    _parse_call_arguments (m + 10) (parsers no_host (m + 10))
      (fact_state x 22 true false .undefined (⟨60, 61, [], []⟩ :: fact_frame h t q :: rest)) =
    .ok ((), fact_state x 26 true false .undefined
      (⟨60, 61, [], [.number (q - 1)]⟩ :: fact_frame h t q :: rest)) := by
  rfl

set_option maxRecDepth 100000 in
set_option smartUnfolding false in
theorem fact_accessor (m : Nat) (x q r : ℚ) (h t : Nat) (rest : List js_stack_frame)
    (hfetch : stack_fetch rest (sz "fact") = some (.function 0))
    (hinner : _call_callee no_host (m + 10) (parsers no_host (m + 10)) (.function 0)
      (fact_state x 26 true false .undefined
        (⟨60, 61, [], [.number (q - 1)]⟩ :: fact_frame h t q :: rest)) =
      .ok ((), fact_state x 26 true true (.number r)
        (fact_frame 60 61 (q - 1) :: fact_frame h t q :: rest))) :
    _parse_accessor no_host (m + 10) (parsers no_host (m + 10))
      (fact_state x 20 true false .undefined (fact_frame h t q :: rest)) =
    .ok (⟨.at_value, .number r, fact_bytes.drop 56, 4⟩,
      fact_state x 26 true false .undefined (fact_frame h t q :: rest)) := by
  unfold _parse_accessor
  refine (bind_eq (run_require_exec _)).trans ?_
  refine (bind_at (⟨.at_identifier, .undefined, fact_bytes.drop 56, 4⟩ : _value_accessor)
    (fact_state x 21 true false .undefined (fact_frame h t q :: rest)) rfl).trans ?_
  refine (loop_inl (⟨.at_value, .number r, fact_bytes.drop 56, 4⟩ : _value_accessor)
    (fact_state x 26 true false .undefined (fact_frame h t q :: rest)) ?_).trans ?_
  swap
  · rfl
  refine (bind_at false
    (fact_state x 21 true false .undefined (fact_frame h t q :: rest)) rfl).trans ?_
  refine (bind_at false
    (fact_state x 21 true false .undefined (fact_frame h t q :: rest)) rfl).trans ?_
  refine (bind_at false
    (fact_state x 21 true false .undefined (fact_frame h t q :: rest)) rfl).trans ?_
  refine (bind_at .ts_left_parenthesis
    (fact_state x 21 true false .undefined (fact_frame h t q :: rest)) rfl).trans ?_
  refine (bind_eq (fact_fetch x q h t 21 rest hfetch)).trans ?_
  refine (bind_at ()
    (fact_state x 21 true false .undefined (⟨60, 61, [], []⟩ :: fact_frame h t q :: rest))
    rfl).trans ?_
  refine (bind_at ()
    (fact_state x 22 true false .undefined (⟨60, 61, [], []⟩ :: fact_frame h t q :: rest))
    rfl).trans ?_
  refine (bind_eq (fact_arguments m x q h t rest)).trans ?_
  refine (bind_eq hinner).trans ?_
  rfl

theorem fact_exec (x : ℚ) (idx : Nat) (result : js_value) (stack : List js_stack_frame) :
    (fact_state x idx true false result stack).exec = true :=
  rfl

theorem fact_access_call (m : Nat) (x q r : ℚ) (h t : Nat) (rest : List js_stack_frame)
    (hfetch : stack_fetch rest (sz "fact") = some (.function 0))
    (hinner : _call_callee no_host (m + 10) (parsers no_host (m + 10)) (.function 0)
      (fact_state x 26 true false .undefined
        (⟨60, 61, [], [.number (q - 1)]⟩ :: fact_frame h t q :: rest)) =
      .ok ((), fact_state x 26 true true (.number r)
        (fact_frame 60 61 (q - 1) :: fact_frame h t q :: rest))) :
    _parse_access_call_expression no_host (m + 10) (parsers no_host (m + 10))
      (fact_state x 20 true false .undefined (fact_frame h t q :: rest)) =
    .ok (.number r, fact_state x 26 true false .undefined (fact_frame h t q :: rest)) := by
  unfold _parse_access_call_expression
  refine (bind_eq (run_require_exec _)).trans ?_
  refine (bind_eq (fact_accessor m x q r h t rest hfetch hinner)).trans ?_
  rfl

set_option maxRecDepth 100000 in
set_option smartUnfolding false in
theorem fact_left_operand (m : Nat) (x q : ℚ) (h t : Nat) (rest : List js_stack_frame) :
    _parse_prefix_expression no_host (m + 10) (parsers no_host (m + 10))
      (fact_state x 18 true false .undefined (fact_frame h t q :: rest)) =
    .ok (.number q, fact_state x 19 true false .undefined (fact_frame h t q :: rest)) := by
  rfl

set_option maxRecDepth 100000 in
set_option smartUnfolding false in
theorem fact_product (m : Nat) (x q r : ℚ) (h t : Nat) (rest : List js_stack_frame)
    (hfetch : stack_fetch rest (sz "fact") = some (.function 0))
    (hinner : _call_callee no_host (m + 10) (parsers no_host (m + 10)) (.function 0)
      (fact_state x 26 true false .undefined
        (⟨60, 61, [], [.number (q - 1)]⟩ :: fact_frame h t q :: rest)) =
      .ok ((), fact_state x 26 true true (.number r)
        (fact_frame 60 61 (q - 1) :: fact_frame h t q :: rest))) :
    js_parse_expression no_host (m + 10) (parsers no_host (m + 10))
      (fact_state x 18 true false .undefined (fact_frame h t q :: rest)) =
    .ok (.number (q * r), fact_state x 26 true false .undefined (fact_frame h t q :: rest)) := by
  have hprefix : _parse_prefix_expression no_host (m + 10) (parsers no_host (m + 10))
      (fact_state x 20 true false .undefined (fact_frame h t q :: rest)) =
      .ok (.number r, fact_state x 26 true false .undefined (fact_frame h t q :: rest)) := by
    unfold _parse_prefix_expression
    refine (bind_eq (run_require_exec _)).trans ?_
    refine (bind_at false
      (fact_state x 20 true false .undefined (fact_frame h t q :: rest)) rfl).trans ?_
    refine (bind_at false
      (fact_state x 20 true false .undefined (fact_frame h t q :: rest)) rfl).trans ?_
    refine (bind_at .ts_identifier
      (fact_state x 20 true false .undefined (fact_frame h t q :: rest)) rfl).trans ?_
    refine (bind_at (0 : ℚ)
      (fact_state x 20 true false .undefined (fact_frame h t q :: rest)) rfl).trans ?_
    refine (bind_eq (fact_access_call m x q r h t rest hfetch hinner)).trans ?_
    rfl
  have hmult : _parse_multiplicative_expression no_host (m + 10) (parsers no_host (m + 10))
      (fact_state x 18 true false .undefined (fact_frame h t q :: rest)) =
      .ok (.number (q * r),
        fact_state x 26 true false .undefined (fact_frame h t q :: rest)) := by
    unfold _parse_multiplicative_expression
    refine (bind_eq (run_require_exec _)).trans ?_
    refine (bind_eq (fact_left_operand m x q h t rest)).trans ?_
    refine (loop_inl (.number (q * r))
      (fact_state x 26 true false .undefined (fact_frame h t q :: rest)) ?_).trans ?_
    swap
    · rfl
    refine (bind_at .ts_multiplication
      (fact_state x 19 true false .undefined (fact_frame h t q :: rest)) rfl).trans ?_
    refine (bind_at ()
      (fact_state x 19 true false .undefined (fact_frame h t q :: rest)) rfl).trans ?_
    refine (bind_at ()
      (fact_state x 20 true false .undefined (fact_frame h t q :: rest)) rfl).trans ?_
    refine (bind_eq hprefix).trans ?_
    rfl
  have hadd : _parse_additive_expression no_host (m + 10) (parsers no_host (m + 10))
      (fact_state x 18 true false .undefined (fact_frame h t q :: rest)) =
      .ok (.number (q * r),
        fact_state x 26 true false .undefined (fact_frame h t q :: rest)) := by
    unfold _parse_additive_expression
    refine (bind_eq (run_require_exec _)).trans ?_
    refine (bind_eq hmult).trans ?_
    rfl
  have hrel : _parse_relational_expression no_host (m + 10) (parsers no_host (m + 10))
      (fact_state x 18 true false .undefined (fact_frame h t q :: rest)) =
      .ok (.number (q * r),
        fact_state x 26 true false .undefined (fact_frame h t q :: rest)) := by
    unfold _parse_relational_expression
    refine (bind_eq (run_require_exec _)).trans ?_
    refine (bind_eq hadd).trans ?_
    rfl
  have hlog : _parse_logical_expression no_host (m + 10) (parsers no_host (m + 10))
      (fact_state x 18 true false .undefined (fact_frame h t q :: rest)) =
      .ok (.number (q * r),
        fact_state x 26 true false .undefined (fact_frame h t q :: rest)) := by
    unfold _parse_logical_expression
    refine (bind_eq (run_require_exec _)).trans ?_
    refine (bind_eq hrel).trans ?_
    rfl
  unfold js_parse_expression
  refine (bind_eq (run_require_exec _)).trans ?_
  rw [fact_exec, if_pos rfl]
  refine (bind_eq hlog).trans ?_
  rfl

set_option maxRecDepth 100000 in
set_option smartUnfolding false in
theorem fact_condition (m : Nat) (x q : ℚ) (h t : Nat) (rest : List js_stack_frame) :
    js_parse_expression no_host (m + 10) (parsers no_host (m + 10))
      (fact_state x 8 true false .undefined (fact_frame h t q :: rest)) =
    .ok (.boolean (decide (q ≤ 1)),
      fact_state x 11 true false .undefined (fact_frame h t q :: rest)) := by
  refine (show _ = Except.ok (js_value.boolean (decide (double.fin q ≤ double.fin 1)),
    fact_state x 11 true false .undefined (fact_frame h t q :: rest)) from rfl).trans ?_
  rw [double.decide_fin_le]

set_option maxRecDepth 100000 in
set_option smartUnfolding false in
theorem fact_skim_block (m : Nat) (x q : ℚ) (h t : Nat) (rest : List js_stack_frame) :
    (parsers no_host (m + 10))._parse_statement
      (fact_state x 12 false false .undefined (fact_frame h t q :: rest)) =
    .ok ((), fact_state x 17 false false .undefined (fact_frame h t q :: rest)) := by
  rfl

set_option maxRecDepth 100000 in
set_option smartUnfolding false in
/-- The statement `if (n <= 1) ...` of the body when `n` is greater than 1: the block
is skimmed. -/
theorem fact_if (m : Nat) (x q : ℚ) (h t : Nat) (rest : List js_stack_frame)
    (hq : decide (q ≤ 1) = false) :
    _parse_statement no_host (m + 10) (parsers no_host (m + 10))
      (fact_state x 6 true false .undefined (fact_frame h t q :: rest)) =
    .ok ((), fact_state x 17 true false .undefined (fact_frame h t q :: rest)) := by
  unfold _parse_statement
  refine (bind_eq (run_require_exec _)).trans ?_
  rw [fact_exec, if_pos rfl]
  refine (bind_at false
    (fact_state x 6 true false .undefined (fact_frame h t q :: rest)) rfl).trans ?_
  refine (bind_at .ts_if
    (fact_state x 6 true false .undefined (fact_frame h t q :: rest)) rfl).trans ?_
  refine (bind_at true
    (fact_state x 7 true false .undefined (fact_frame h t q :: rest)) rfl).trans ?_
  refine (bind_at ()
    (fact_state x 8 true false .undefined (fact_frame h t q :: rest)) rfl).trans ?_
  refine (bind_eq (fact_condition m x q h t rest)).trans ?_
  rw [hq]
  refine (bind_at ()
    (fact_state x 12 true false .undefined (fact_frame h t q :: rest)) rfl).trans ?_
  refine (bind_at ()
    (fact_state x 12 false false .undefined (fact_frame h t q :: rest)) rfl).trans ?_
  refine (bind_eq (fact_skim_block m x q h t rest)).trans ?_
  rfl

set_option maxRecDepth 100000 in
set_option smartUnfolding false in
/-- The statement `return n * fact(n - 1);` of the body, given the inner call. -/
theorem fact_return (m : Nat) (x q r : ℚ) (h t : Nat) (rest : List js_stack_frame)
    (hfetch : stack_fetch rest (sz "fact") = some (.function 0))
    (hinner : _call_callee no_host (m + 10) (parsers no_host (m + 10)) (.function 0)
      (fact_state x 26 true false .undefined
        (⟨60, 61, [], [.number (q - 1)]⟩ :: fact_frame h t q :: rest)) =
      .ok ((), fact_state x 26 true true (.number r)
        (fact_frame 60 61 (q - 1) :: fact_frame h t q :: rest))) :
    _parse_statement no_host (m + 10) (parsers no_host (m + 10))
      (fact_state x 17 true false .undefined (fact_frame h t q :: rest)) =
    .ok ((), fact_state x 27 true true (.number (q * r)) (fact_frame h t q :: rest)) := by
  unfold _parse_statement
  refine (bind_eq (run_require_exec _)).trans ?_
  rw [fact_exec, if_pos rfl]
  refine (bind_at false
    (fact_state x 17 true false .undefined (fact_frame h t q :: rest)) rfl).trans ?_
  rw [if_neg Bool.false_ne_true]
  refine (bind_at .ts_return
    (fact_state x 17 true false .undefined (fact_frame h t q :: rest)) rfl).trans ?_
  rw [if_neg (by decide)]
  refine (bind_at false
    (fact_state x 17 true false .undefined (fact_frame h t q :: rest)) rfl).trans ?_
  rw [if_neg Bool.false_ne_true]
  refine (bind_at false
    (fact_state x 17 true false .undefined (fact_frame h t q :: rest)) rfl).trans ?_
  rw [if_neg Bool.false_ne_true]
  refine (bind_at false
    (fact_state x 17 true false .undefined (fact_frame h t q :: rest)) rfl).trans ?_
  rw [if_neg Bool.false_ne_true]
  refine (bind_at .ts_return
    (fact_state x 17 true false .undefined (fact_frame h t q :: rest)) rfl).trans ?_
  rw [if_neg (by decide)]
  refine (bind_at false
    (fact_state x 17 true false .undefined (fact_frame h t q :: rest)) rfl).trans ?_
  rw [if_neg Bool.false_ne_true]
  refine (bind_at false
    (fact_state x 17 true false .undefined (fact_frame h t q :: rest)) rfl).trans ?_
  rw [if_neg Bool.false_ne_true]
  refine (bind_at .ts_return
    (fact_state x 17 true false .undefined (fact_frame h t q :: rest)) rfl).trans ?_
  rw [if_neg (by decide)]
  refine (bind_at true
    (fact_state x 18 true false .undefined (fact_frame h t q :: rest)) rfl).trans ?_
  rw [if_pos rfl]
  refine (bind_at false
    (fact_state x 18 true false .undefined (fact_frame h t q :: rest)) rfl).trans ?_
  rw [if_pos (by decide)]
  refine (bind_eq (fact_product m x q r h t rest hfetch hinner)).trans ?_
  rfl

theorem parsers_statement (host : Host) (n : Nat) :
    (parsers host (n + 1))._parse_statement = _parse_statement host n (parsers host n) :=
  rfl

set_option maxRecDepth 100000 in
set_option smartUnfolding false in
theorem fact_formals (m : Nat) (x q : ℚ) (h t : Nat) (rest : List js_stack_frame) :
    _parse_formals (m + 10) (parsers no_host (m + 10))
      (fact_state x 2 true false .undefined (⟨h, t, [], [.number q]⟩ :: rest)) =
    .ok ((), fact_state x 5 true false .undefined (fact_frame h t q :: rest)) := by
  rfl

set_option maxRecDepth 100000 in
set_option smartUnfolding false in
/-- A call of `fact` with an actual greater than 1, given the inner call: the formal
is bound in the frame of the call, the `if` is passed, and the `return` multiplies
the actual with the value of the inner call. -/
theorem fact_call_step (m : Nat) (x q r : ℚ) (h t idx : Nat) (rest : List js_stack_frame)
    (hq : decide (q ≤ 1) = false)
    (hfetch : stack_fetch rest (sz "fact") = some (.function 0))
    (hinner : _call_callee no_host (m + 10) (parsers no_host (m + 10)) (.function 0)
      (fact_state x 26 true false .undefined
        (⟨60, 61, [], [.number (q - 1)]⟩ :: fact_frame h t q :: rest)) =
      .ok ((), fact_state x 26 true true (.number r)
        (fact_frame 60 61 (q - 1) :: fact_frame h t q :: rest))) :
    _call_callee no_host (m + 10 + 1) (parsers no_host (m + 10 + 1)) (.function 0)
      (fact_state x idx true false .undefined (⟨h, t, [], [.number q]⟩ :: rest)) =
    .ok ((), fact_state x idx true true (.number (q * r)) (fact_frame h t q :: rest)) := by
  have hstmts : _parse_statements (m + 10 + 1) (parsers no_host (m + 10 + 1))
      (fact_state x 6 true false .undefined (fact_frame h t q :: rest)) =
      .ok ((), fact_state x 27 true true (.number (q * r)) (fact_frame h t q :: rest)) := by
    unfold _parse_statements
    rw [parsers_statement]
    refine (loop_inl ()
      (fact_state x 17 true false .undefined (fact_frame h t q :: rest)) ?_).trans ?_
    · refine (bind_at .ts_if
        (fact_state x 6 true false .undefined (fact_frame h t q :: rest)) rfl).trans ?_
      rw [if_pos (by decide)]
      refine (bind_eq (fact_if m x q h t rest hq)).trans ?_
      rfl
    refine (loop_inl ()
      (fact_state x 27 true true (.number (q * r)) (fact_frame h t q :: rest)) ?_).trans ?_
    · refine (bind_at .ts_return
        (fact_state x 17 true false .undefined (fact_frame h t q :: rest)) rfl).trans ?_
      rw [if_pos (by decide)]
      refine (bind_eq (fact_return m x q r h t rest hfetch hinner)).trans ?_
      rfl
    rfl
  have hfn : _parse_function (m + 10 + 1) (parsers no_host (m + 10 + 1))
      (fact_state x 2 true false .undefined (⟨h, t, [], [.number q]⟩ :: rest)) =
      .ok ((), fact_state x 28 true true (.number (q * r)) (fact_frame h t q :: rest)) := by
    rw [parse_function_exec _ _ _ (fact_exec x 2 _ _)]
    refine (bind_eq (fact_formals (m + 1) x q h t rest)).trans ?_
    refine (bind_at ()
      (fact_state x 6 true false .undefined (fact_frame h t q :: rest)) rfl).trans ?_
    refine (bind_eq hstmts).trans ?_
    rfl
  unfold _call_callee
  rw [if_pos (show (js_value.function 0).type = js_value_type.vt_function from rfl)]
  refine (bind_at (fact_state x idx true false .undefined (⟨h, t, [], [.number q]⟩ :: rest))
    (fact_state x idx true false .undefined (⟨h, t, [], [.number q]⟩ :: rest)) rfl).trans ?_
  refine (bind_at ((0, 2, []) : Nat × Nat × js_value_map)
    (fact_state x idx true false .undefined (⟨h, t, [], [.number q]⟩ :: rest)) rfl).trans ?_
  show (set_tok_cache_idx 2 >>= _) _ = _
  refine (bind_at ()
    (fact_state x 2 true false .undefined (⟨h, t, [], [.number q]⟩ :: rest)) rfl).trans ?_
  refine (bind_at ()
    (fact_state x 2 true false .undefined (⟨h, t, [], [.number q]⟩ :: rest)) rfl).trans ?_
  refine (bind_eq hfn).trans ?_
  rfl

/-- Every call of `fact` with a natural actual `j + 1`, from any cursor and above any
frames in which `fact` is bound to the function: the call returns with the formal
`n` bound to the actual in its own frame, the frames below as they were, `mark_return`
set and the factorial of the actual in the result slot. -/
theorem fact_call : ∀ (j m : Nat) (x : ℚ) (h t idx : Nat) (rest : List js_stack_frame),
    stack_fetch rest (sz "fact") = some (.function 0) →
    _call_callee no_host (j + m + 10) (parsers no_host (j + m + 10)) (.function 0)
      (fact_state x idx true false .undefined
        (⟨h, t, [], [.number ((j + 1 : Nat) : ℚ)]⟩ :: rest)) =
    .ok ((), fact_state x idx true true (.number ((Nat.factorial (j + 1) : Nat) : ℚ))
      (fact_frame h t ((j + 1 : Nat) : ℚ) :: rest))
  | 0, m, x, h, t, idx, rest, _ => by
    rw [show ((0 + 1 : Nat) : ℚ) = 1 by norm_num,
      show ((Nat.factorial (0 + 1) : Nat) : ℚ) = 1 by norm_num [Nat.factorial], Nat.zero_add]
    exact fact_call_one m x h t idx rest
  | j + 1, m, x, h, t, idx, rest, hfetch => by
    have hlt : (1 : ℚ) < ((j + 1 + 1 : Nat) : ℚ) := by
      exact_mod_cast (by omega : 1 < j + 1 + 1)
    have hq : decide (((j + 1 + 1 : Nat) : ℚ) ≤ 1) = false := decide_eq_false (not_le.mpr hlt)
    have hfetch1 : stack_fetch (fact_frame h t ((j + 1 + 1 : Nat) : ℚ) :: rest) (sz "fact")
        = some (.function 0) := hfetch
    have ih := fact_call j m x 60 61 26 (fact_frame h t ((j + 1 + 1 : Nat) : ℚ) :: rest) hfetch1
    have e1 : ((j + 1 : Nat) : ℚ) = ((j + 1 + 1 : Nat) : ℚ) - 1 := by
      push_cast
      ring
    rw [e1] at ih
    have e2 : ((Nat.factorial (j + 1 + 1) : Nat) : ℚ)
        = ((j + 1 + 1 : Nat) : ℚ) * ((Nat.factorial (j + 1) : Nat) : ℚ) := by
      rw [Nat.factorial_succ (j + 1)]
      push_cast
      ring
    rw [e2, ← double.fin_mul_fin _ _ (Nat.cast_nonneg _) (Nat.cast_nonneg _),
      show j + 1 + m + 10 = j + m + 10 + 1 by omega]
    exact fact_call_step (j + m) x _ _ h t idx rest hq hfetch ih

set_option maxRecDepth 100000 in
set_option smartUnfolding false in
theorem fact_top_arguments (m : Nat) (x : ℚ) :
    _parse_call_arguments (m + 10) (parsers no_host (m + 10))
      (fact_state x 30 true false .undefined [⟨75, 76, [], []⟩, fact_global]) =
    .ok ((), fact_state x 32 true false .undefined
      [⟨75, 76, [], [.number x]⟩, fact_global]) := by
  rfl

set_option maxRecDepth 100000 in
set_option smartUnfolding false in
/-- The expression `fact(x)` after the declaration, given the call. -/
theorem fact_top (m : Nat) (x r : ℚ)
    (hcall : _call_callee no_host (m + 10) (parsers no_host (m + 10)) (.function 0)
      (fact_state x 32 true false .undefined [⟨75, 76, [], [.number x]⟩, fact_global]) =
      .ok ((), fact_state x 32 true true (.number r) [fact_frame 75 76 x, fact_global])) :
    js_parse_expression no_host (m + 10) (parsers no_host (m + 10))
      (fact_state x 28 true false .undefined [fact_global]) =
    .ok (.number r, fact_state x 32 true false .undefined [fact_global]) := by
  have hacc : _parse_accessor no_host (m + 10) (parsers no_host (m + 10))
      (fact_state x 28 true false .undefined [fact_global]) =
      .ok (⟨.at_value, .number r, fact_bytes.drop 71, 4⟩,
        fact_state x 32 true false .undefined [fact_global]) := by
    unfold _parse_accessor
    refine (bind_eq (run_require_exec _)).trans ?_
    rw [fact_exec, if_pos rfl]
    refine (bind_at (⟨.at_identifier, .undefined, fact_bytes.drop 71, 4⟩ : _value_accessor)
      (fact_state x 29 true false .undefined [fact_global]) rfl).trans ?_
    refine (loop_inl (⟨.at_value, .number r, fact_bytes.drop 71, 4⟩ : _value_accessor)
      (fact_state x 32 true false .undefined [fact_global]) ?_).trans ?_
    swap
    · rfl
    refine (bind_at false (fact_state x 29 true false .undefined [fact_global]) rfl).trans ?_
    rw [if_neg Bool.false_ne_true]
    refine (bind_at false (fact_state x 29 true false .undefined [fact_global]) rfl).trans ?_
    rw [if_neg Bool.false_ne_true]
    refine (bind_at false (fact_state x 29 true false .undefined [fact_global]) rfl).trans ?_
    rw [if_neg Bool.false_ne_true]
    refine (bind_at .ts_left_parenthesis
      (fact_state x 29 true false .undefined [fact_global]) rfl).trans ?_
    rw [if_pos rfl]
    refine (bind_at (.function 0)
      (fact_state x 29 true false .undefined [fact_global]) rfl).trans ?_
    refine (bind_at ()
      (fact_state x 29 true false .undefined [⟨75, 76, [], []⟩, fact_global]) rfl).trans ?_
    refine (bind_at ()
      (fact_state x 30 true false .undefined [⟨75, 76, [], []⟩, fact_global]) rfl).trans ?_
    refine (bind_eq (fact_top_arguments m x)).trans ?_
    refine (bind_eq hcall).trans ?_
    rfl
  have hac : _parse_access_call_expression no_host (m + 10) (parsers no_host (m + 10))
      (fact_state x 28 true false .undefined [fact_global]) =
      .ok (.number r, fact_state x 32 true false .undefined [fact_global]) := by
    unfold _parse_access_call_expression
    refine (bind_eq (run_require_exec _)).trans ?_
    rw [fact_exec, if_pos rfl]
    refine (bind_eq hacc).trans ?_
    rfl
  have hprefix : _parse_prefix_expression no_host (m + 10) (parsers no_host (m + 10))
      (fact_state x 28 true false .undefined [fact_global]) =
      .ok (.number r, fact_state x 32 true false .undefined [fact_global]) := by
    unfold _parse_prefix_expression
    refine (bind_eq (run_require_exec _)).trans ?_
    rw [fact_exec, if_pos rfl]
    refine (bind_at false (fact_state x 28 true false .undefined [fact_global]) rfl).trans ?_
    rw [if_neg Bool.false_ne_true]
    refine (bind_at false (fact_state x 28 true false .undefined [fact_global]) rfl).trans ?_
    rw [if_neg Bool.false_ne_true]
    refine (bind_at .ts_identifier
      (fact_state x 28 true false .undefined [fact_global]) rfl).trans ?_
    refine (bind_at (0 : ℚ) (fact_state x 28 true false .undefined [fact_global]) rfl).trans ?_
    refine (bind_eq hac).trans ?_
    rfl
  have hmult : _parse_multiplicative_expression no_host (m + 10) (parsers no_host (m + 10))
      (fact_state x 28 true false .undefined [fact_global]) =
      .ok (.number r, fact_state x 32 true false .undefined [fact_global]) := by
    unfold _parse_multiplicative_expression
    refine (bind_eq (run_require_exec _)).trans ?_
    rw [fact_exec, if_pos rfl]
    refine (bind_eq hprefix).trans ?_
    rfl
  have hadd : _parse_additive_expression no_host (m + 10) (parsers no_host (m + 10))
      (fact_state x 28 true false .undefined [fact_global]) =
      .ok (.number r, fact_state x 32 true false .undefined [fact_global]) := by
    unfold _parse_additive_expression
    refine (bind_eq (run_require_exec _)).trans ?_
    rw [fact_exec, if_pos rfl]
    refine (bind_eq hmult).trans ?_
    rfl
  have hrel : _parse_relational_expression no_host (m + 10) (parsers no_host (m + 10))
      (fact_state x 28 true false .undefined [fact_global]) =
      .ok (.number r, fact_state x 32 true false .undefined [fact_global]) := by
    unfold _parse_relational_expression
    refine (bind_eq (run_require_exec _)).trans ?_
    rw [fact_exec, if_pos rfl]
    refine (bind_eq hadd).trans ?_
    rfl
  have hlog : _parse_logical_expression no_host (m + 10) (parsers no_host (m + 10))
      (fact_state x 28 true false .undefined [fact_global]) =
      .ok (.number r, fact_state x 32 true false .undefined [fact_global]) := by
    unfold _parse_logical_expression
    refine (bind_eq (run_require_exec _)).trans ?_
    rw [fact_exec, if_pos rfl]
    refine (bind_eq hrel).trans ?_
    rfl
  unfold js_parse_expression
  refine (bind_eq (run_require_exec _)).trans ?_
  rw [fact_exec, if_pos rfl]
  refine (bind_eq hlog).trans ?_
  rfl

/-- The factorial program with the natural actual `j + 1` in place of the 5: with
fuel `j + m + 10` the run returns the factorial of `j + 1`, leaving the global frame
as the declaration left it, `mark_return` cleared and the result slot undefined. -/
theorem fact_run (j m : Nat) :
    js_eval_after no_host (j + m + 10) 1
      (js_load_with fact_src [1, 1, 1, ((j + 1 : Nat) : ℚ)]) =
    .ok (.number ((Nat.factorial (j + 1) : Nat) : ℚ),
      fact_state ((j + 1 : Nat) : ℚ) 32 true false .undefined [fact_global]) := by
  unfold js_eval_after
  refine (bind_at ()
    (fact_state ((j + 1 : Nat) : ℚ) 28 true false .undefined [fact_global]) ?_).trans ?_
  · rw [js_run_step 0 (fact_declare (j + m) _)]
    rfl
  exact fact_top (j + m) _ _ (fact_call j m _ 75 76 32 [fact_global] rfl)

set_option maxRecDepth 100000 in
/-- C14: with `function fact(n) { if (n <= 1) { return 1; } return n * fact(n - 1); }`
declared, `fact(5)` yields 120; for every natural `n ≥ 1` in place of the 5 the run
returns, with any fuel from `n + 9` on, the factorial of `n`, with `mark_return`
cleared, the result slot undefined and the global frame as the declaration left it.
Every call of `fact`, from any cursor and above any frames that bind `fact`, binds
`n` in its own frame and leaves the frames below as they were; and the inner call
`fact(n - 1)`, evaluated inside a call whose `n` is `j + 2`, yields the factorial of
`j + 1` and leaves the frame of the outer call, `mark_return` and the result slot
as they were before it. -/
theorem fact_yields_factorial :
    js_value_of (js_eval_after no_host 50 1 (js_load fact_src)) = some (.number 120) ∧
    (∀ n fuel : Nat, 1 ≤ n → n + 9 ≤ fuel →
      js_eval_after no_host fuel 1 (js_load_with fact_src [1, 1, 1, (n : ℚ)]) =
      .ok (.number ((Nat.factorial n : Nat) : ℚ),
        fact_state (n : ℚ) 32 true false .undefined [fact_global])) ∧
    (∀ (j m : Nat) (x : ℚ) (h t idx : Nat) (rest : List js_stack_frame),
      stack_fetch rest (sz "fact") = some (.function 0) →
      _call_callee no_host (j + m + 10) (parsers no_host (j + m + 10)) (.function 0)
        (fact_state x idx true false .undefined
          (⟨h, t, [], [.number ((j + 1 : Nat) : ℚ)]⟩ :: rest)) =
      .ok ((), fact_state x idx true true (.number ((Nat.factorial (j + 1) : Nat) : ℚ))
        (fact_frame h t ((j + 1 : Nat) : ℚ) :: rest))) ∧
    (∀ (j m : Nat) (x : ℚ) (h t : Nat) (rest : List js_stack_frame),
      stack_fetch rest (sz "fact") = some (.function 0) →
      _parse_access_call_expression no_host (j + m + 10) (parsers no_host (j + m + 10))
        (fact_state x 20 true false .undefined
          (fact_frame h t ((j + 1 + 1 : Nat) : ℚ) :: rest)) =
      .ok (.number ((Nat.factorial (j + 1) : Nat) : ℚ),
        fact_state x 26 true false .undefined
          (fact_frame h t ((j + 1 + 1 : Nat) : ℚ) :: rest))) := by
  refine ⟨by decide!, ?_, fact_call, ?_⟩
  · intro n fuel hn hfuel
    obtain ⟨j, rfl⟩ : ∃ j, n = j + 1 := ⟨n - 1, by omega⟩
    obtain ⟨m, rfl⟩ : ∃ m, fuel = j + m + 10 := ⟨fuel - j - 10, by omega⟩
    exact fact_run j m
  · intro j m x h t rest hfetch
    have hfetch1 : stack_fetch (fact_frame h t ((j + 1 + 1 : Nat) : ℚ) :: rest) (sz "fact")
        = some (.function 0) := hfetch
    have ih := fact_call j m x 60 61 26 (fact_frame h t ((j + 1 + 1 : Nat) : ℚ) :: rest) hfetch1
    have e1 : ((j + 1 : Nat) : ℚ) = ((j + 1 + 1 : Nat) : ℚ) - 1 := by
      push_cast
      ring
    rw [e1] at ih
    exact fact_access_call (j + m) x _ _ h t rest hfetch ih

set_option maxRecDepth 100000 in
theorem fact_yields_factorial_witness :
    1 ≤ 3 ∧ 3 + 9 ≤ 12 ∧
    js_eval_after no_host 12 1 (js_load_with fact_src [1, 1, 1, ((3 : Nat) : ℚ)]) =
      .ok (.number ((Nat.factorial 3 : Nat) : ℚ),
        fact_state ((3 : Nat) : ℚ) 32 true false .undefined [fact_global]) ∧
    js_value_of (js_eval_after no_host 12 1 (js_load_with fact_src [1, 1, 1, 3]))
      = some (.number 6) :=
  ⟨by decide, by decide, fact_yields_factorial.2.1 3 12 (by decide) (by decide), by decide!⟩

/-! ## Equality of strings -/

theorem strncmp_nul_free (l r : Bytes) (hl : 0 ∉ l) (hr : 0 ∉ r) :
    ∀ n, l.length ≤ n → r.length ≤ n → (strncmp l r n = 0 ↔ l = r) := by
  intro n
  induction n generalizing l r with
  | zero =>
    intro h1 h2
    have e1 : l = [] := List.length_eq_zero.mp (Nat.le_zero.mp h1)
    have e2 : r = [] := List.length_eq_zero.mp (Nat.le_zero.mp h2)
    subst e1
    subst e2
    simp [strncmp]
  | succ n ih =>
    intro h1 h2
    unfold strncmp
    cases l with
    | nil =>
      cases r with
      | nil => simp
      | cons b r =>
        have hb : b ≠ 0 := fun e => hr (by simp [e])
        have hb2 : ¬ (0 = b) := fun e => hb e.symm
        simp [hb, hb2]
    | cons a l =>
      have ha : a ≠ 0 := fun e => hl (by simp [e])
      cases r with
      | nil => simp [ha]
      | cons b r =>
        have hb : b ≠ 0 := fun e => hr (by simp [e])
        simp only [List.headD_cons, List.tail_cons, ne_eq, List.cons.injEq]
        by_cases hab : a = b
        · subst hab
          simp only [not_true_eq_false, if_false, if_neg ha, true_and]
          exact ih l r (fun h => hl (List.mem_cons_of_mem _ h))
            (fun h => hr (List.mem_cons_of_mem _ h))
            (Nat.le_of_succ_le_succ h1) (Nat.le_of_succ_le_succ h2)
        · simp only [hab, not_false_eq_true, if_true, false_and, iff_false]
          intro h
          apply hab
          have : (a : Int) = (b : Int) := by omega
          exact_mod_cast this

theorem js_value_eq_string (s t : Bytes) :
    js_value_eq (.string s) (.string t) = true ↔ s = t ∨ _strcmp s s.length t t.length = 0 := by
  unfold js_value_eq js_value_memcmp_eq
  by_cases h : s = t
  · simp [h]
  · simp [h, js_value.type]

/-- C21, as amended: for all strings `s` and `t` without a NUL byte, `s == t` (the
test `js_value_eq`) is true if and only if `s` and `t` have the same length and the
same byte at every position; and a string with any bytes is equal to a string of
the same bytes. -/
theorem string_equality_without_nul (s t : Bytes) (hs : 0 ∉ s) (ht : 0 ∉ t) :
    (js_value_eq (.string s) (.string t) = true
      ↔ s.length = t.length ∧ ∀ i, s.get? i = t.get? i) ∧
    (∀ u : Bytes, js_value_eq (.string u) (.string u) = true) := by
  refine ⟨?_, ?_⟩
  · rw [js_value_eq_string]
    have key : _strcmp s s.length t t.length = 0 ↔ s = t := by
      unfold _strcmp
      rw [List.take_length, List.take_length]
      apply strncmp_nul_free s t hs ht
      · split <;> omega
      · split <;> omega
    rw [key, or_self]
    constructor
    · intro h
      subst h
      exact ⟨rfl, fun _ => rfl⟩
    · intro h
      exact List.ext_get? h.2
  · intro u
    simp [js_value_eq, js_value_memcmp_eq]

theorem string_equality_without_nul_witness :
    (js_value_eq (.string [97, 98]) (.string [97, 99]) = true
      ↔ [97, 98].length = [97, 99].length ∧ ∀ i, [97, 98].get? i = [97, 99].get? i) ∧
    js_value_eq (.string [97, 98]) (.string [97, 99]) = false :=
  ⟨(string_equality_without_nul [97, 98] [97, 99] (by decide) (by decide)).1, by decide!⟩

/-- C21, the claim as written fails for strings with a NUL byte, where `strncmp`
stops: the strings `a\0b` and `a\0c` have the same length and differ in their
last byte, and `==` is true of them; the strings `a\0` and `a` differ in length,
and `==` is true of them. -/
theorem string_equality_stops_at_nul :
    (js_value_eq (.string [97, 0, 98]) (.string [97, 0, 99]) = true
      ∧ [97, 0, 98].length = [97, 0, 99].length
      ∧ [97, 0, 98].get? 2 ≠ [97, 0, 99].get? 2) ∧
    (js_value_eq (.string [97, 0]) (.string [97]) = true ∧ [97, 0].length ≠ [97].length) := by
  decide!

/-! ## The additive operators -/

/-- C22: `l + r` and `l - r` in execute mode, `l` and `r` being the values of the two
operands and no further `+` or `-` following.  `+` yields the sum of two numbers
and, for two strings, the string of the bytes of `l` followed by the bytes of `r`
(a new value: the state is the one the evaluation of `r` left, and the values `l`
and `r` are not touched); `-` yields the difference of two numbers.  `+` raises an
error when `l` is neither a number nor a string, `-` when `l` is not a number (the
right operand is then not parsed), and both raise an error when `r` is not of the
kind of `l`. -/
theorem additive_needs_two_numbers_or_two_strings
    (host : Host) (n : Nat) (rec : Parsers) (s s1 : js) (l : js_value) (k : js_token_state)
    (hexec : s.exec = true)
    (hl : _parse_multiplicative_expression host (n + 2) rec s = .ok (l, s1))
    (hk : _get_token_state s1 = .ok (k, s1)) :
    (k = .ts_plus → l.type ≠ .vt_number → l.type ≠ .vt_string →
      _parse_additive_expression host (n + 2) rec s
        = .error (.throw "Operator + requires left operand be number or string")) ∧
    (k = .ts_minus → l.type ≠ .vt_number →
      _parse_additive_expression host (n + 2) rec s
        = .error (.throw "Operator - requires left operand be number")) ∧
    (∀ (r : js_value) (s2 : js) (k2 : js_token_state),
      _parse_multiplicative_expression host (n + 2) rec
        { s1 with tok_cache_idx := s1.tok_cache_idx + 1 } = .ok (r, s2) →
      _get_token_state s2 = .ok (k2, s2) → k2 ≠ .ts_plus → k2 ≠ .ts_minus →
      (∀ x y, k = .ts_plus → l = .number x → r = .number y →
        _parse_additive_expression host (n + 2) rec s = .ok (.number (x + y), s2)) ∧
      (∀ x y, k = .ts_plus → l = .string x → r = .string y →
        _parse_additive_expression host (n + 2) rec s = .ok (.string (x ++ y), s2)) ∧
      (∀ x y, k = .ts_minus → l = .number x → r = .number y →
        _parse_additive_expression host (n + 2) rec s = .ok (.number (x - y), s2)) ∧
      (k = .ts_plus → l.type = .vt_number ∨ l.type = .vt_string → r.type ≠ l.type →
        _parse_additive_expression host (n + 2) rec s
          = .error (.throw "Operators + - require right operand be same type")) ∧
      (k = .ts_minus → l.type = .vt_number → r.type ≠ l.type →
        _parse_additive_expression host (n + 2) rec s
          = .error (.throw "Operators + - require right operand be same type"))) := by
  have start : _parse_additive_expression host (n + 2) rec s = js_loop (fun (ret : js_value) => do
      let stat ← _get_token_state
      if stat = .ts_plus then
        if ret.type ≠ .vt_number ∧ ret.type ≠ .vt_string then
          js_throw "Operator + requires left operand be number or string"
        _next_token
        let val_r ← _parse_multiplicative_expression host (n + 2) rec
        match ret, val_r with
        | .number l, .number r => pure (.inl (.number (l + r)))
        | .string l, .string r => pure (.inl (js_string_concat l r))
        | _, _ => js_throw "Operators + - require right operand be same type"
      else if stat = .ts_minus then
        if ret.type ≠ .vt_number then
          js_throw "Operator - requires left operand be number"
        _next_token
        let val_r ← _parse_multiplicative_expression host (n + 2) rec
        match ret, val_r with
        | .number l, .number r => pure (.inl (.number (l - r)))
        | _, _ => js_throw "Operators + - require right operand be same type"
      else
        pure (.inr ret)) (n + 2) l s1 := by
    unfold _parse_additive_expression
    simp only [run_bind, run_require_exec, hexec, if_true, hl] <;> rfl
  rw [start]
  refine ⟨?_, ?_, ?_⟩
  · intro hk1 h1 h2
    subst hk1
    rw [run_loop]
    simp only [run_bind, hk, if_true, run_ite, h1, h2, ne_eq, not_false_eq_true, and_self,
      run_throw]
  · intro hk1 h1
    subst hk1
    rw [run_loop]
    simp [run_bind, hk, run_ite, h1, run_throw]
  · intro r s2 k2 hr hk2 hp hm
    refine ⟨?_, ?_, ?_, ?_, ?_⟩
    · intro x y hk1 hx hy
      subst hk1
      subst hx
      subst hy
      rw [run_loop]
      simp only [run_bind, hk, run_ite, run_next_token, hr, run_pure, js_value.type, ne_eq,
        not_true_eq_false, false_and, and_false, if_false, if_true, reduceCtorEq]
      rw [run_loop]
      simp only [run_bind, hk2, run_ite, hp, hm, run_pure, if_false]
    · intro x y hk1 hx hy
      subst hk1
      subst hx
      subst hy
      rw [run_loop]
      simp only [run_bind, hk, run_ite, run_next_token, hr, run_pure, js_value.type, ne_eq,
        not_true_eq_false, false_and, and_false, if_false, if_true, reduceCtorEq,
        js_string_concat]
      rw [run_loop]
      simp only [run_bind, hk2, run_ite, hp, hm, run_pure, if_false]
    · intro x y hk1 hx hy
      subst hk1
      subst hx
      subst hy
      rw [run_loop]
      simp only [run_bind, hk, run_ite, run_next_token, hr, run_pure, js_value.type, ne_eq,
        not_true_eq_false, false_and, and_false, if_false, if_true, reduceCtorEq]
      rw [run_loop]
      simp only [run_bind, hk2, run_ite, hp, hm, run_pure, if_false]
    · intro hk1 hlt hrt
      subst hk1
      rw [run_loop]
      cases l <;> cases r <;>
        simp only [js_value.type, ne_eq, not_true_eq_false, reduceCtorEq, or_self, or_false,
          false_or] at hlt hrt <;>
        simp only [run_bind, hk, run_ite, run_next_token, hr, run_pure, run_throw, js_value.type,
          ne_eq, not_true_eq_false, false_and, and_false, if_false, if_true, reduceCtorEq]
    · intro hk1 hlt hrt
      subst hk1
      rw [run_loop]
      cases l <;> cases r <;>
        simp only [js_value.type, ne_eq, not_true_eq_false, reduceCtorEq, or_self, or_false,
          false_or] at hlt hrt <;>
        simp only [run_bind, hk, run_ite, run_next_token, hr, run_pure, run_throw, js_value.type,
          ne_eq, not_true_eq_false, false_and, and_false, if_false, if_true, reduceCtorEq]

set_option maxRecDepth 100000 in
theorem additive_needs_two_numbers_or_two_strings_witness :
    _parse_additive_expression no_host 10 (parsers no_host 10) (js_load "\"ab\" + \"cd\"")
      = .ok (.string ([97, 98] ++ [99, 100]),
        { js_load "\"ab\" + \"cd\"" with tok_cache_idx := 3 }) ∧
    js_value_of (js_eval_after no_host 20 0 (js_load "1 + 2")) = some (.number 3) ∧
    js_value_of (js_eval_after no_host 20 0 (js_load "3 - 2")) = some (.number 1) ∧
    js_error_of (js_eval_after no_host 20 0 (js_load "1 + \"a\""))
      = some (.throw "Operators + - require right operand be same type") ∧
    js_error_of (js_eval_after no_host 20 0 (js_load "\"a\" + 1"))
      = some (.throw "Operators + - require right operand be same type") ∧
    js_error_of (js_eval_after no_host 20 0 (js_load "\"a\" - \"b\""))
      = some (.throw "Operator - requires left operand be number") ∧
    js_error_of (js_eval_after no_host 20 0 (js_load "1 - \"b\""))
      = some (.throw "Operators + - require right operand be same type") ∧
    js_error_of (js_eval_after no_host 20 0 (js_load "null + null"))
      = some (.throw "Operator + requires left operand be number or string") ∧
    js_error_of (js_eval_after no_host 20 0 (js_load "true + true"))
      = some (.throw "Operator + requires left operand be number or string") ∧
    js_error_of (js_eval_after no_host 20 0 (js_load "[1] + [2]"))
      = some (.throw "Operator + requires left operand be number or string") :=
  ⟨((additive_needs_two_numbers_or_two_strings no_host 8 (parsers no_host 10)
      (js_load "\"ab\" + \"cd\"") { js_load "\"ab\" + \"cd\"" with tok_cache_idx := 1 }
      (.string [97, 98]) .ts_plus (by decide!) (by decide!) (by decide!)).2.2
      (.string [99, 100]) { js_load "\"ab\" + \"cd\"" with tok_cache_idx := 3 }
      .ts_end_of_file (by decide!) (by decide!) (by decide) (by decide)).2.1
      [97, 98] [99, 100] rfl rfl rfl,
    by decide!, by decide!, by decide!, by decide!, by decide!, by decide!, by decide!,
    by decide!, by decide!⟩

/-! ## Precedence and associativity of the arithmetic operators -/

theorem binary_scan :
    js_scan "1 + 2 * 3" = binary_tokens .ts_plus .ts_multiplication 1 2 3 ∧
    js_scan "1 * 2 + 3" = binary_tokens .ts_multiplication .ts_plus 1 2 3 ∧
    js_scan "1 - 2 - 3" = binary_tokens .ts_minus .ts_minus 1 2 3 ∧
    js_scan "1 - 2 + 3" = binary_tokens .ts_minus .ts_plus 1 2 3 := by
  decide!

set_option maxRecDepth 100000 in
set_option smartUnfolding false in
theorem binary_sum_product (m : Nat) (a b c : ℚ) (src : Bytes) :
    js_value_of (js_parse_expression no_host (m + 10) (parsers no_host (m + 10))
      { src := src, tok_cache := binary_tokens .ts_plus .ts_multiplication a b c,
        tok_cache_idx := 0, parse_exec := true, mark_break := false, mark_continue := false,
        mark_return := false, heap := [], stack := [⟨0, 0, [], []⟩], result := .undefined })
      = some (.number (a + b * c)) := by
  rfl

set_option maxRecDepth 100000 in
set_option smartUnfolding false in
theorem binary_product_sum (m : Nat) (a b c : ℚ) (src : Bytes) :
    js_value_of (js_parse_expression no_host (m + 10) (parsers no_host (m + 10))
      { src := src, tok_cache := binary_tokens .ts_multiplication .ts_plus a b c,
        tok_cache_idx := 0, parse_exec := true, mark_break := false, mark_continue := false,
        mark_return := false, heap := [], stack := [⟨0, 0, [], []⟩], result := .undefined })
      = some (.number (a * b + c)) := by
  rfl

set_option maxRecDepth 100000 in
set_option smartUnfolding false in
theorem binary_difference_difference (m : Nat) (a b c : ℚ) (src : Bytes) :
    js_value_of (js_parse_expression no_host (m + 10) (parsers no_host (m + 10))
      { src := src, tok_cache := binary_tokens .ts_minus .ts_minus a b c,
        tok_cache_idx := 0, parse_exec := true, mark_break := false, mark_continue := false,
        mark_return := false, heap := [], stack := [⟨0, 0, [], []⟩], result := .undefined })
      = some (.number (a - b - c)) := by
  rfl

set_option maxRecDepth 100000 in
set_option smartUnfolding false in
theorem binary_difference_sum (m : Nat) (a b c : ℚ) (src : Bytes) :
    js_value_of (js_parse_expression no_host (m + 10) (parsers no_host (m + 10))
      { src := src, tok_cache := binary_tokens .ts_minus .ts_plus a b c,
        tok_cache_idx := 0, parse_exec := true, mark_break := false, mark_continue := false,
        mark_return := false, heap := [], stack := [⟨0, 0, [], []⟩], result := .undefined })
      = some (.number (a - b + c)) := by
  rfl

/-- C23: for all numeric literals `a`, `b`, `c` and every fuel from 10 on, the
expression `a + b * c` evaluates to `a + (b * c)` and `a * b + c` to `(a * b) + c`
(the multiplicative operators bind tighter than the additive ones), `a - b - c`
evaluates to `(a - b) - c` and `a - b + c` to `(a - b) + c` (the additive level
associates to the left); `8 / 4 / 2` evaluates to 1 and `7 % 4 % 2` to 1 (the
multiplicative level associates to the left), and `let a = 2 + 3 * 4;` binds `a`
to 14. -/
theorem multiplicative_binds_tighter_and_both_levels_associate_left (m : Nat) (a b c : ℚ) :
    js_value_of (js_parse_expression no_host (m + 10) (parsers no_host (m + 10))
      (js_load_with "1 + 2 * 3" [a, b, c])) = some (.number (a + b * c)) ∧
    js_value_of (js_parse_expression no_host (m + 10) (parsers no_host (m + 10))
      (js_load_with "1 * 2 + 3" [a, b, c])) = some (.number (a * b + c)) ∧
    js_value_of (js_parse_expression no_host (m + 10) (parsers no_host (m + 10))
      (js_load_with "1 - 2 - 3" [a, b, c])) = some (.number (a - b - c)) ∧
    js_value_of (js_parse_expression no_host (m + 10) (parsers no_host (m + 10))
      (js_load_with "1 - 2 + 3" [a, b, c])) = some (.number (a - b + c)) ∧
    js_value_of (js_eval_after no_host 20 0 (js_load "8 / 4 / 2")) = some (.number 1) ∧
    js_value_of (js_eval_after no_host 20 0 (js_load "7 % 4 % 2")) = some (.number 1) ∧
    (js_final (js_parse_script no_host 20 (js_load "let a = 2 + 3 * 4;"))).bind
      (fun s => s.var "a") = some (.number 14) := by
  refine ⟨?_, ?_, ?_, ?_, ?_, ?_, ?_⟩
  · simp only [js_load_with, js_load, binary_scan.1]
    exact binary_sum_product m a b c _
  · simp only [js_load_with, js_load, binary_scan.2.1]
    exact binary_product_sum m a b c _
  · simp only [js_load_with, js_load, binary_scan.2.2.1]
    exact binary_difference_difference m a b c _
  · simp only [js_load_with, js_load, binary_scan.2.2.2]
    exact binary_difference_sum m a b c _
  · decide!
  · decide!
  · decide!

/-! ## The fragments of `_parse_value` and `_parse_accessor` -/

theorem parse_value_array (n : Nat) (rec : Parsers) (s : js) (hexec : s.exec = true)
    (htok : _get_token_state s = .ok (.ts_left_bracket, s)) :
    _parse_value n rec s = (do
      _next_token
      let ret ← js_array
      if !(← _accept .ts_right_bracket) then
        js_loop (fun (_ : Unit) => array_literal_round n rec ret) n ()
      pure ret : Parse js_value) s := by
  unfold _parse_value
  simp only [run_bind, run_require_exec, hexec, htok, if_true]
  rfl

theorem parse_value_object (n : Nat) (rec : Parsers) (s : js) (hexec : s.exec = true)
    (htok : _get_token_state s = .ok (.ts_left_brace, s)) :
    _parse_value n rec s = (do
      _next_token
      let ret ← js_object
      if !(← _accept .ts_right_brace) then
        js_loop (fun (_ : Unit) => object_literal_round rec ret) n ()
      pure ret : Parse js_value) s := by
  unfold _parse_value
  simp only [run_bind, run_require_exec, hexec, htok, if_true]
  rfl

theorem parse_value_skim_array (n : Nat) (rec : Parsers) (s : js) (hexec : s.exec = false)
    (htok : _get_token_state s = .ok (.ts_left_bracket, s)) :
    _parse_value n rec s = (do
      _next_token
      if !(← _accept .ts_right_bracket) then
        js_loop (fun (_ : Unit) => skim_array_literal_round rec) n ()
      pure .undefined : Parse js_value) s := by
  unfold _parse_value
  simp only [run_bind, run_require_exec, hexec, Bool.false_eq_true, if_false, htok]
  rfl

theorem parse_value_skim_object (n : Nat) (rec : Parsers) (s : js) (hexec : s.exec = false)
    (htok : _get_token_state s = .ok (.ts_left_brace, s)) :
    _parse_value n rec s = (do
      _next_token
      if !(← _accept .ts_right_brace) then
        js_loop (fun (_ : Unit) => skim_object_literal_round rec) n ()
      pure .undefined : Parse js_value) s := by
  unfold _parse_value
  simp only [run_bind, run_require_exec, hexec, Bool.false_eq_true, if_false, htok]
  rfl

theorem parse_call_arguments_rounds (n : Nat) (rec : Parsers) :
    _parse_call_arguments n rec = (do
      if !(← _accept .ts_right_parenthesis) then
        js_loop (fun (_ : Unit) => call_arguments_round n rec) n () : Parse Unit) := rfl

theorem parse_accessor_exec (host : Host) (n : Nat) (rec : Parsers) (s : js)
    (hexec : s.exec = true) :
    _parse_accessor host n rec s = (do
      let acc ← accessor_primary n rec
      js_loop (accessor_round host n rec) n acc : Parse _value_accessor) s := by
  unfold _parse_accessor
  simp only [run_bind, run_require_exec, hexec, if_true]
  rfl

theorem parse_accessor_skim (host : Host) (n : Nat) (rec : Parsers) (s : js)
    (hexec : s.exec = false) :
    _parse_accessor host n rec s = (do
      if (← _accept .ts_left_parenthesis) then
        let _ ← rec.js_parse_expression
        _expect .ts_right_parenthesis "Expect )"
      else if (← _accept .ts_identifier) then
        pure ()
      else
        let _ ← _parse_value n rec
      js_loop (fun (_ : Unit) => skim_accessor_round n rec) n ()
      pure ⟨.at_value, .undefined, [], 0⟩ : Parse _value_accessor) s := by
  unfold _parse_accessor
  simp only [run_bind, run_require_exec, hexec, Bool.false_eq_true, if_false]
  rfl

theorem accessor_round_bracket (host : Host) (n : Nat) (rec : Parsers) (acc : _value_accessor)
    (s : js) (htok : _get_token_state s = .ok (.ts_left_bracket, s)) :
    accessor_round host n rec acc s
      = accessor_index rec acc { s with tok_cache_idx := s.tok_cache_idx + 1 } := by
  unfold accessor_round
  simp only [run_bind, run_accept, htok, if_true]

/-! ## Accessors by value and by optional key -/

/-- C26: `_accessor_put` on a by-value accessor raises an error and `_accessor_get`
returns the held value and leaves the state alone; on a by-optional-key accessor
whose holder is not an object `_accessor_get` returns null without an error and
`_accessor_put` raises an error, and when the holder is an object both are the
`_accessor_get` and `_accessor_put` of the by-object-key accessor with the same
holder and key.  The statements `f() = 1;`, `(x) = 1;` and `1 = 2;` raise the error
of the by-value put; with `x` holding 5, `x?.a` is null and `x?.a = 1;` raises an
error; with `o` an object, `o?.a = 2;` stores 2 under the key `a`. -/
theorem by_value_put_fails_and_optional_key_yields_null (acc : _value_accessor) (v : js_value)
    (s : js) :
    (acc.type = .at_value →
      _accessor_put acc v s = .error (.throw "Can not put value to accessor value type") ∧
      _accessor_get acc s = .ok (acc.v, s)) ∧
    (acc.type = .at_optional_member → acc.v.type ≠ .vt_object →
      _accessor_get acc s = .ok (.null, s) ∧
      _accessor_put acc v s = .error (.throw "Not object")) ∧
    (acc.type = .at_optional_member → acc.v.type = .vt_object →
      _accessor_get acc s = _accessor_get { acc with type := .at_object_member } s ∧
      _accessor_put acc v s = _accessor_put { acc with type := .at_object_member } v s) ∧
    js_error_of (js_parse_script no_host 20 (js_load "function f()\x7b\x7d f() = 1;"))
      = some (.throw "Can not put value to accessor value type") ∧
    js_error_of (js_parse_script no_host 20 (js_load "let x = 0; (x) = 1;"))
      = some (.throw "Can not put value to accessor value type") ∧
    js_error_of (js_parse_script no_host 20 (js_load "1 = 2;"))
      = some (.throw "Can not put value to accessor value type") ∧
    js_value_of (js_eval_after no_host 20 1 (js_load "let x = 5; x?.a")) = some .null ∧
    js_error_of (js_parse_script no_host 20 (js_load "let x = 5; x?.a = 1;"))
      = some (.throw "Not object") ∧
    js_value_of (js_eval_after no_host 20 2 (js_load "let o = \x7ba: 1\x7d; o?.a = 2; o.a"))
      = some (.number 2) := by
  refine ⟨?_, ?_, ?_, ?_, ?_, ?_, ?_, ?_, ?_⟩
  · intro h
    unfold _accessor_put _accessor_get
    rw [h]
    exact ⟨rfl, rfl⟩
  · intro h hv
    unfold _accessor_put _accessor_get
    rw [h]
    simp only [if_neg hv]
    exact ⟨rfl, rfl⟩
  · intro h hv
    unfold _accessor_put _accessor_get
    rw [h]
    simp only [if_pos hv]
    exact ⟨trivial, trivial⟩
  · decide!
  · decide!
  · decide!
  · decide!
  · decide!
  · decide!

theorem by_value_put_fails_and_optional_key_yields_null_witness :
    (_accessor_get ⟨.at_optional_member, .number 5, sz "a", 1⟩ (js_load "x?.a")
        = .ok (.null, js_load "x?.a") ∧
      _accessor_put ⟨.at_optional_member, .number 5, sz "a", 1⟩ (.number 1) (js_load "x?.a")
        = .error (.throw "Not object")) ∧
    (_accessor_put ⟨.at_value, .number 5, [], 0⟩ (.number 1) (js_load "5 = 1")
        = .error (.throw "Can not put value to accessor value type") ∧
      _accessor_get ⟨.at_value, .number 5, [], 0⟩ (js_load "5 = 1")
        = .ok (.number 5, js_load "5 = 1")) :=
  ⟨(by_value_put_fails_and_optional_key_yields_null
      ⟨.at_optional_member, .number 5, sz "a", 1⟩ (.number 1) (js_load "x?.a")).2.1 rfl
      (by decide),
    (by_value_put_fails_and_optional_key_yields_null
      ⟨.at_value, .number 5, [], 0⟩ (.number 1) (js_load "5 = 1")).1 rfl⟩

/-! ## The postfix `[e]` -/

theorem to_size_cast (k : Nat) (h : k < 2 ^ 64) : (double.fin (k : ℚ)).to_size = k := by
  have e : (Int.tdiv (k : ℚ).num (k : ℚ).den).toNat = k := by simp
  show (Int.tdiv (k : ℚ).num (k : ℚ).den).toNat % 2 ^ 64 = k
  rw [e, Nat.mod_eq_of_lt h]

theorem number_cases (x : ℚ) :
    (∃ k : Nat, k < 2 ^ 64 ∧ x = (k : ℚ)) ∨ x < 0 ∨ x.den ≠ 1 ∨ (2 : ℚ) ^ 64 ≤ x := by
  by_cases h1 : x < 0
  · exact .inr (.inl h1)
  by_cases h2 : x.den = 1
  · by_cases h3 : (2 : ℚ) ^ 64 ≤ x
    · exact .inr (.inr (.inr h3))
    · left
      have hx : x = (x.num : ℚ) := (Rat.den_eq_one_iff x).mp h2 |>.symm
      have h0 : 0 ≤ x.num := Rat.num_nonneg.mpr (not_lt.mp h1)
      refine ⟨x.num.toNat, ?_, ?_⟩
      · have : ((x.num.toNat : Nat) : ℚ) < (2 : ℚ) ^ 64 := by
          have e : ((x.num.toNat : Nat) : ℚ) = x := by
            rw [hx]
            have : ((x.num.toNat : Nat) : Int) = x.num := Int.toNat_of_nonneg h0
            simp
            exact_mod_cast this
          rw [e]
          exact not_le.mp h3
        exact_mod_cast this
      · have : ((x.num.toNat : Nat) : Int) = x.num := Int.toNat_of_nonneg h0
        rw [hx]
        simp
        exact_mod_cast this.symm
  · exact .inr (.inr (.inl h2))

theorem to_size_lt (x : double) : x.to_size < 2 ^ 64 := by
  cases x <;> simp only [double.to_size]
  · exact Nat.mod_lt _ (by decide)
  all_goals decide

theorem to_size_ne (x : ℚ) (h : x < 0 ∨ x.den ≠ 1 ∨ (2 : ℚ) ^ 64 ≤ x) :
    double.ne ((double.fin x).to_size : Nat) (double.fin x) = true := by
  have key : (((double.fin x).to_size : Nat) : ℚ) ≠ x := by
    intro e
    rcases h with h | h | h
    · have : (0 : ℚ) ≤ (((double.fin x).to_size : Nat) : ℚ) := Nat.cast_nonneg _
      rw [e] at this
      exact absurd h (not_lt.mpr this)
    · apply h
      rw [← e]
      exact Rat.den_natCast _
    · have h1 : (((double.fin x).to_size : Nat) : ℚ) < (2 : ℚ) ^ 64 := by
        have := to_size_lt (double.fin x)
        exact_mod_cast this
      rw [e] at h1
      exact absurd h (not_le.mpr h1)
  show (!decide ((((double.fin x).to_size : Nat) : ℚ) = x)) = true
  simp [key]

theorem double_cases (d : double) :
    (∃ k : Nat, k < 2 ^ 64 ∧ d = double.fin (k : ℚ)) ∨ d = .nzero ∨
    (∃ x : ℚ, d = .fin x ∧ (x < 0 ∨ x.den ≠ 1 ∨ (2 : ℚ) ^ 64 ≤ x)) ∨
    (∃ neg, d = .inf neg) ∨ d = .nan := by
  cases d with
  | fin x =>
    rcases number_cases x with ⟨k, hk, e⟩ | h
    · exact .inl ⟨k, hk, by rw [e]⟩
    · exact .inr (.inr (.inl ⟨x, rfl, h⟩))
  | nzero => exact .inr (.inl rfl)
  | inf neg => exact .inr (.inr (.inr (.inl ⟨neg, rfl⟩)))
  | nan => exact .inr (.inr (.inr (.inr rfl)))

set_option maxRecDepth 100000 in
/-- C27, counterexample: 18446744073709551616, which is 2^64, is a number equal to a
non-negative integer, and as the index of an array it does not make the accessor
by-array-index: the conversion to `size_t` of line 413 does not give the number
back and "Invalid array index, must be positive integer" is raised. -/
theorem array_index_from_two_pow_64_raises :
    js_error_of (js_eval_after no_host 20 1
        (js_load "let a = [7, 8, 9]; a[18446744073709551616]"))
      = some (.throw "Invalid array index, must be positive integer") ∧
    js_value_of (js_eval_after no_host 20 1
        (js_load "let a = [7, 8, 9]; a[18446744073709551616]")) = none := by
  decide!

/-- C27 (amended): one round of the postfix loop of `_parse_accessor` in execute
mode at a `[`, where `holder` is the value read through the accessor so far, `idx`
the value of the expression between the brackets, and a `]` follows.  When the
holder is an array and `idx` is the number of a natural number `k` below 2^64 (0
included, and the zero of negative sign as 0), the accessor becomes by-array-index
with the holder and `k`; when the holder is an array and `idx` is a negative number,
not an integer, a number from 2^64 on, an infinity or NaN, an error is raised (every
number is of one of these kinds); when the holder is an object and `idx` is a
string, the accessor becomes by-object-key with the holder and that string; every
other pairing raises an error. -/
theorem bracket_postfix_takes_array_index_or_object_key (host : Host) (n : Nat) (rec : Parsers)
    (acc : _value_accessor) (s s1 s2 : js) (holder idx : js_value)
    (htok : _get_token_state s = .ok (.ts_left_bracket, s))
    (hget : _accessor_get acc { s with tok_cache_idx := s.tok_cache_idx + 1 } = .ok (holder, s1))
    (hidx : rec._parse_additive_expression s1 = .ok (idx, s2))
    (hclose : _get_token_state s2 = .ok (.ts_right_bracket, s2)) :
    (∀ (a k : Nat), holder = .array a → idx = .number (.fin (k : ℚ)) → k < 2 ^ 64 →
      accessor_round host n rec acc s = .ok (.inl ⟨.at_array_member, holder, acc.p, k⟩,
        { s2 with tok_cache_idx := s2.tok_cache_idx + 1 })) ∧
    (∀ (a : Nat), holder = .array a → idx = .number .nzero →
      accessor_round host n rec acc s = .ok (.inl ⟨.at_array_member, holder, acc.p, 0⟩,
        { s2 with tok_cache_idx := s2.tok_cache_idx + 1 })) ∧
    (∀ (a : Nat) (x : ℚ), holder = .array a → idx = .number (.fin x) →
      x < 0 ∨ x.den ≠ 1 ∨ (2 : ℚ) ^ 64 ≤ x →
      accessor_round host n rec acc s
        = .error (.throw "Invalid array index, must be positive integer")) ∧
    (∀ (a : Nat), holder = .array a → (∃ neg, idx = .number (.inf neg)) ∨ idx = .number .nan →
      accessor_round host n rec acc s
        = .error (.throw "Invalid array index, must be positive integer")) ∧
    (∀ d : double, idx = .number d →
      (∃ k : Nat, k < 2 ^ 64 ∧ d = .fin (k : ℚ)) ∨ d = .nzero ∨
      (∃ x : ℚ, d = .fin x ∧ (x < 0 ∨ x.den ≠ 1 ∨ (2 : ℚ) ^ 64 ≤ x)) ∨
      (∃ neg, d = .inf neg) ∨ d = .nan) ∧
    (∀ (o : Nat) (str : Bytes), holder = .object o → idx = .string str →
      accessor_round host n rec acc s = .ok (.inl ⟨.at_object_member, holder, str, str.length⟩,
        { s2 with tok_cache_idx := s2.tok_cache_idx + 1 })) ∧
    (¬ (holder.type = .vt_array ∧ idx.type = .vt_number) →
      ¬ (holder.type = .vt_object ∧ idx.type = .vt_string) →
      accessor_round host n rec acc s
        = .error (.throw "Must be array[number] or object[string]")) := by
  rw [accessor_round_bracket host n rec acc s htok]
  unfold accessor_index
  simp only [run_bind, hget, hidx]
  refine ⟨?_, ?_, ?_, ?_, fun d _ => double_cases d, ?_, ?_⟩
  · intro a k ha hk hlt
    subst ha
    subst hk
    have e : double.ne ((k : Nat) : double) (double.fin (k : ℚ)) = false := by
      show (!decide ((k : ℚ) = (k : ℚ))) = false
      simp
    simp only [to_size_cast k hlt, e, Bool.false_eq_true, if_false, run_pure,
      run_expect, run_accept, hclose, if_true]
  · intro a ha hk
    subst ha
    subst hk
    have e : double.ne ((double.nzero).to_size : Nat) double.nzero = false := by decide!
    simp only [e, Bool.false_eq_true, if_false, run_pure, run_expect, run_accept, hclose,
      if_true]
    rfl
  · intro a x ha hx hneg
    subst ha
    subst hx
    simp only [to_size_ne x hneg, if_true, run_throw]
  · intro a ha hk
    subst ha
    rcases hk with ⟨neg, hk⟩ | hk
    · subst hk
      have e : double.ne ((double.inf neg).to_size : Nat) (double.inf neg) = true := by
        cases neg <;> decide!
      simp only [e, if_true, run_throw]
    · subst hk
      have e : double.ne ((double.nan).to_size : Nat) double.nan = true := by decide!
      simp only [e, if_true, run_throw]
  · intro o str ho hstr
    subst ho
    subst hstr
    simp only [run_pure, run_expect, run_accept, hclose, if_true]
  · intro h1 h2
    cases holder <;> cases idx <;>
      first
      | rfl
      | (exfalso; apply h1; constructor <;> rfl)
      | (exfalso; apply h2; constructor <;> rfl)

set_option maxRecDepth 100000 in
theorem bracket_postfix_takes_array_index_or_object_key_witness :
    accessor_round no_host 10 (parsers no_host 10)
        ⟨.at_identifier, .undefined, (sz index_example_src).drop 19, 1⟩ (index_example 12)
      = .ok (.inl ⟨.at_array_member, .array 0, (sz index_example_src).drop 19, 1⟩,
        index_example 15) ∧
    js_value_of (js_eval_after no_host 20 1 (js_load index_example_src)) = some (.number 8) ∧
    js_value_of (js_eval_after no_host 20 1 (js_load "let a = [7, 8, 9]; a[0]"))
      = some (.number 7) ∧
    js_error_of (js_eval_after no_host 20 1 (js_load "let a = [7, 8, 9]; a[0 - 1]"))
      = some (.throw "Invalid array index, must be positive integer") ∧
    js_error_of (js_eval_after no_host 20 1 (js_load "let a = [7, 8, 9]; a[1 / 2]"))
      = some (.throw "Invalid array index, must be positive integer") ∧
    js_error_of (js_eval_after no_host 20 1 (js_load "let a = [7, 8, 9]; a[1 / 0]"))
      = some (.throw "Invalid array index, must be positive integer") ∧
    js_value_of (js_eval_after no_host 20 1 (js_load "let a = [7, 8, 9]; a[-0]"))
      = some (.number 7) ∧
    js_value_of (js_eval_after no_host 20 1 (js_load "let o = \x7bk: 7\x7d; o[\"k\"]"))
      = some (.number 7) ∧
    js_error_of (js_eval_after no_host 20 1 (js_load "let a = [7, 8, 9]; a[\"k\"]"))
      = some (.throw "Must be array[number] or object[string]") ∧
    js_error_of (js_eval_after no_host 20 1 (js_load "let o = \x7bk: 7\x7d; o[0]"))
      = some (.throw "Must be array[number] or object[string]") ∧
    js_error_of (js_eval_after no_host 20 1 (js_load "let n = 5; n[0]"))
      = some (.throw "Must be array[number] or object[string]") :=
  ⟨(bracket_postfix_takes_array_index_or_object_key no_host 10 (parsers no_host 10)
      ⟨.at_identifier, .undefined, (sz index_example_src).drop 19, 1⟩ (index_example 12)
      (index_example 13) (index_example 14) (.array 0) (.number 1)
      (by decide!) (by decide!) (by decide!) (by decide!)).1 0 1 rfl (by decide!) (by decide),
    by decide!, by decide!, by decide!, by decide!, by decide!, by decide!, by decide!,
    by decide!, by decide!, by decide!⟩

/-! ## Assignment, compound assignment, `++` and `--` -/

set_option maxHeartbeats 1000000 in
theorem compound_right_kind
    (host : Host) (n : Nat) (rec : Parsers) (s s1 s2 s3 : js) (acc : _value_accessor)
    (k : js_token_state) (v w : js_value) (hexec : s.exec = true)
    (hacc : _parse_accessor host n rec s = .ok (acc, s1))
    (hk : _get_token_state s1 = .ok (k, s1))
    (hk1 : k = .ts_plus_assignment ∨ k = .ts_minus_assignment ∨ k = .ts_multiplication_assignment
        ∨ k = .ts_division_assignment ∨ k = .ts_mod_assignment)
    (he : js_parse_expression host n rec { s1 with tok_cache_idx := s1.tok_cache_idx + 1 }
        = .ok (v, s2))
    (hget : _accessor_get acc s2 = .ok (w, s3))
    (hw : w.type = .vt_number ∨ (k = .ts_plus_assignment ∧ w.type = .vt_string))
    (hv : v.type ≠ w.type) :
    _parse_assignment_expression host n rec s
      = .error (.throw "Operators += -= *= /= %= require right operand be same type") := by
  unfold _parse_assignment_expression
  rcases hk1 with hk1 | hk1 | hk1 | hk1 | hk1 <;> subst hk1 <;>
    simp only [run_bind, run_ite, run_next_token, run_require_exec, hexec, hacc, hk, he, hget,
      reduceCtorEq, false_or, or_false, or_true, true_or, if_true, if_false] <;>
    cases w <;> cases v <;>
    first
    | rfl
    | exact absurd rfl hv
    | (exfalso
       rcases hw with h | ⟨h1, h2⟩
       · cases h
       · first
         | (cases h1; done)
         | (cases h2; done))

theorem increment_needs_number
    (host : Host) (n : Nat) (rec : Parsers) (s s1 s2 : js) (acc : _value_accessor)
    (k : js_token_state) (w : js_value) (hexec : s.exec = true)
    (hacc : _parse_accessor host n rec s = .ok (acc, s1))
    (hk : _get_token_state s1 = .ok (k, s1))
    (hk1 : k = .ts_plus_plus ∨ k = .ts_minus_minus)
    (hget : _accessor_get acc s1 = .ok (w, s2)) (hw : w.type ≠ .vt_number) :
    _parse_assignment_expression host n rec s
      = .error (.throw "Operators ++ -- require operand be number") := by
  unfold _parse_assignment_expression
  rcases hk1 with hk1 | hk1 <;> subst hk1 <;>
    simp only [run_bind, run_ite, run_require_exec, hexec, hacc, hk, hget, reduceCtorEq,
      false_or, or_false, or_true, true_or, or_self, if_true, if_false] <;>
    cases w <;>
    first
    | rfl
    | exact absurd rfl hw

set_option maxHeartbeats 1000000 in
/-- C28: an expression statement in execute mode whose target parsed to the
accessor `acc`, followed by the token `k`.  For `=` the value of `e` is put through
the accessor.  For `+=`, `-=`, `*=`, `/=` and `%=` the expression `e` is evaluated
first and the target is read through the accessor in the state that `e` left; when
both values are numbers the sum, difference, product, quotient or remainder of the
value read and the value of `e` is put through the accessor (the operations of
`double`: with a divisor 0 the quotient is an infinity or NaN and the remainder
NaN), for `+=` on two strings the concatenation is put, and in every other case an
error is raised and nothing is put.  For `++` and `--` the value read plus or minus 1 is put and the operator is
consumed, and an error is raised when the value read is not a number. -/
theorem compound_assignment_reads_after_its_operand
    (host : Host) (n : Nat) (rec : Parsers) (s s1 : js) (acc : _value_accessor)
    (k : js_token_state) (hexec : s.exec = true)
    (hacc : _parse_accessor host n rec s = .ok (acc, s1))
    (hk : _get_token_state s1 = .ok (k, s1)) :
    (k = .ts_assignment → ∀ v s2,
      js_parse_expression host n rec { s1 with tok_cache_idx := s1.tok_cache_idx + 1 }
        = .ok (v, s2) →
      _parse_assignment_expression host n rec s = _accessor_put acc v s2) ∧
    (k = .ts_plus_assignment ∨ k = .ts_minus_assignment ∨ k = .ts_multiplication_assignment
        ∨ k = .ts_division_assignment ∨ k = .ts_mod_assignment →
      ∀ v s2 w s3,
      js_parse_expression host n rec { s1 with tok_cache_idx := s1.tok_cache_idx + 1 }
        = .ok (v, s2) →
      _accessor_get acc s2 = .ok (w, s3) →
      (∀ x y, w = .number x → v = .number y →
        (k = .ts_plus_assignment → _parse_assignment_expression host n rec s
          = _accessor_put acc (.number (x + y)) s3) ∧
        (k = .ts_minus_assignment → _parse_assignment_expression host n rec s
          = _accessor_put acc (.number (x - y)) s3) ∧
        (k = .ts_multiplication_assignment → _parse_assignment_expression host n rec s
          = _accessor_put acc (.number (x * y)) s3) ∧
        (k = .ts_division_assignment → _parse_assignment_expression host n rec s
          = _accessor_put acc (.number (x / y)) s3) ∧
        (k = .ts_mod_assignment → _parse_assignment_expression host n rec s
          = _accessor_put acc (.number (double.fmod x y)) s3)) ∧
      (∀ a b, k = .ts_plus_assignment → w = .string a → v = .string b →
        _parse_assignment_expression host n rec s = _accessor_put acc (.string (a ++ b)) s3) ∧
      (k = .ts_plus_assignment → w.type ≠ .vt_number → w.type ≠ .vt_string →
        _parse_assignment_expression host n rec s
          = .error (.throw "Operator += requires left operand be number or string")) ∧
      (k ≠ .ts_plus_assignment → w.type ≠ .vt_number →
        _parse_assignment_expression host n rec s
          = .error (.throw "Operators -= *= /= %= require left operand be number")) ∧
      (w.type = .vt_number ∨ (k = .ts_plus_assignment ∧ w.type = .vt_string) →
        v.type ≠ w.type →
        _parse_assignment_expression host n rec s
          = .error (.throw "Operators += -= *= /= %= require right operand be same type"))) ∧
    (k = .ts_plus_plus ∨ k = .ts_minus_minus → ∀ w s2, _accessor_get acc s1 = .ok (w, s2) →
      (∀ x, w = .number x →
        (k = .ts_plus_plus → _parse_assignment_expression host n rec s
          = (do _accessor_put acc (.number (x + 1)); _next_token : Parse Unit) s2) ∧
        (k = .ts_minus_minus → _parse_assignment_expression host n rec s
          = (do _accessor_put acc (.number (x - 1)); _next_token : Parse Unit) s2)) ∧
      (w.type ≠ .vt_number → _parse_assignment_expression host n rec s
        = .error (.throw "Operators ++ -- require operand be number"))) := by
  refine ⟨?_, ?_, ?_⟩
  · intro hk1 v s2 he
    subst hk1
    unfold _parse_assignment_expression
    simp only [run_bind, run_ite, run_next_token, run_require_exec, hexec, hacc, hk, he,
      true_or, if_true]
  · intro hk1 v s2 w s3 he hget
    refine ⟨?_, ?_, ?_, ?_, ?_⟩
    · intro x y hw hv
      subst hw
      subst hv
      refine ⟨?_, ?_, ?_, ?_, ?_⟩
      · intro hk2
        subst hk2
        unfold _parse_assignment_expression
        simp only [run_bind, run_ite, run_pure, run_next_token, run_require_exec, hexec, hacc, hk,
          he, hget, js_value.type, ne_eq, not_true_eq_false, reduceCtorEq, false_or, or_false,
          or_true, true_or, false_and, if_true, if_false]
      · intro hk2
        subst hk2
        unfold _parse_assignment_expression
        simp only [run_bind, run_ite, run_pure, run_next_token, run_require_exec, hexec, hacc, hk,
          he, hget, js_value.type, ne_eq, not_true_eq_false, reduceCtorEq, false_or, or_false,
          or_true, true_or, false_and, if_true, if_false]
      · intro hk2
        subst hk2
        unfold _parse_assignment_expression
        simp only [run_bind, run_ite, run_pure, run_next_token, run_require_exec, hexec, hacc, hk,
          he, hget, js_value.type, ne_eq, not_true_eq_false, reduceCtorEq, false_or, or_false,
          or_true, true_or, false_and, if_true, if_false]
      · intro hk2
        subst hk2
        unfold _parse_assignment_expression
        simp only [run_bind, run_ite, run_pure, run_next_token, run_require_exec, hexec, hacc, hk,
          he, hget, js_value.type, ne_eq, not_true_eq_false, reduceCtorEq, false_or, or_false,
          or_true, true_or, false_and, if_true, if_false]
      · intro hk2
        subst hk2
        unfold _parse_assignment_expression
        simp only [run_bind, run_ite, run_pure, run_next_token, run_require_exec, hexec, hacc, hk,
          he, hget, js_value.type, ne_eq, not_true_eq_false, reduceCtorEq, false_or, or_false,
          or_true, true_or, false_and, if_true, if_false]
    · intro a b hk2 hw hv
      subst hk2
      subst hw
      subst hv
      unfold _parse_assignment_expression
      simp only [run_bind, run_ite, run_pure, run_next_token, run_require_exec, hexec, hacc, hk,
        he, hget, js_value.type, ne_eq, not_true_eq_false, reduceCtorEq, false_or, or_false,
        or_true, true_or, false_and, and_false, if_true, if_false, js_string_concat]
    · intro hk2 h1 h2
      subst hk2
      unfold _parse_assignment_expression
      simp only [run_bind, run_ite, run_pure, run_throw, run_next_token, run_require_exec, hexec,
        hacc, hk, he, hget, ne_eq, h1, h2, not_false_eq_true, and_self, reduceCtorEq, false_or,
        or_false, or_true, true_or, if_true, if_false]
    · intro hk2 h1
      unfold _parse_assignment_expression
      rcases hk1 with hk1 | hk1 | hk1 | hk1 | hk1
      · exact absurd hk1 hk2
      · subst hk1
        simp only [run_bind, run_ite, run_pure, run_throw, run_next_token, run_require_exec, hexec,
          hacc, hk, he, hget, ne_eq, h1, not_false_eq_true, reduceCtorEq, false_or,
          or_false, or_true, true_or, if_true, if_false]
      · subst hk1
        simp only [run_bind, run_ite, run_pure, run_throw, run_next_token, run_require_exec, hexec,
          hacc, hk, he, hget, ne_eq, h1, not_false_eq_true, reduceCtorEq, false_or,
          or_false, or_true, true_or, if_true, if_false]
      · subst hk1
        simp only [run_bind, run_ite, run_pure, run_throw, run_next_token, run_require_exec, hexec,
          hacc, hk, he, hget, ne_eq, h1, not_false_eq_true, reduceCtorEq, false_or,
          or_false, or_true, true_or, if_true, if_false]
      · subst hk1
        simp only [run_bind, run_ite, run_pure, run_throw, run_next_token, run_require_exec, hexec,
          hacc, hk, he, hget, ne_eq, h1, not_false_eq_true, reduceCtorEq, false_or,
          or_false, or_true, true_or, if_true, if_false]
    · intro hw hv
      exact compound_right_kind host n rec s s1 s2 s3 acc k v w hexec hacc hk hk1 he hget hw hv
  · intro hk1 w s2 hget
    refine ⟨?_, ?_⟩
    · intro x hw
      subst hw
      refine ⟨?_, ?_⟩
      · intro hk2
        subst hk2
        unfold _parse_assignment_expression
        simp only [run_bind, run_ite, run_pure, run_next_token, run_require_exec, hexec, hacc, hk,
          hget, reduceCtorEq, false_or, or_false, or_true, true_or, or_self, if_true, if_false]
      · intro hk2
        subst hk2
        unfold _parse_assignment_expression
        simp only [run_bind, run_ite, run_pure, run_next_token, run_require_exec, hexec, hacc, hk,
          hget, reduceCtorEq, false_or, or_false, or_true, true_or, or_self, if_true, if_false]
    · intro hw
      exact increment_needs_number host n rec s s1 s2 acc k w hexec hacc hk hk1 hget hw

set_option maxRecDepth 100000 in
theorem compound_assignment_reads_after_its_operand_witness :
    _parse_assignment_expression no_host 10 (parsers no_host 10) (compound_example 5)
      = _accessor_put ⟨.at_identifier, .undefined, (sz compound_example_src).drop 11, 1⟩
          (.number (1 + 2)) (compound_example 8) ∧
    js_var_after compound_example_src "x" = some (.number 3) ∧
    js_var_after "let x = 1; function f()\x7b x = 10; return 1; \x7d x += f();" "x"
      = some (.number 11) ∧
    js_var_after "let x = 7; x -= 2;" "x" = some (.number 5) ∧
    js_var_after "let x = 7; x *= 2;" "x" = some (.number 14) ∧
    js_var_after "let x = 7; x /= 2;" "x" = some (.number (7 / 2)) ∧
    js_var_after "let x = 7; x %= 2;" "x" = some (.number 1) ∧
    js_var_after "let x = 7; x /= 0;" "x" = some (.number (.inf false)) ∧
    js_var_after "let x = 7; x /= -0;" "x" = some (.number (.inf true)) ∧
    js_var_after "let x = 0; x /= 0;" "x" = some (.number .nan) ∧
    js_var_after "let x = 7; x %= 0;" "x" = some (.number .nan) ∧
    js_var_after "let x = 0 - 6; x %= 3;" "x" = some (.number .nzero) ∧
    js_var_after "let x = 7; x /= 0; x += 1;" "x" = some (.number (.inf false)) ∧
    js_var_after "let s = \"a\"; s += \"b\";" "s" = some (.string [97, 98]) ∧
    js_var_after "let x = 7; x++;" "x" = some (.number 8) ∧
    js_var_after "let x = 7; x--;" "x" = some (.number 6) ∧
    js_var_after "let x = 7; x = \"a\";" "x" = some (.string [97]) ∧
    js_error_of (js_parse_script no_host 30 (js_load "let s = \"a\"; s -= \"b\";"))
      = some (.throw "Operators -= *= /= %= require left operand be number") ∧
    js_error_of (js_parse_script no_host 30 (js_load "let x = 7; x += \"b\";"))
      = some (.throw "Operators += -= *= /= %= require right operand be same type") ∧
    js_error_of (js_parse_script no_host 30 (js_load "let x = null; x += 1;"))
      = some (.throw "Operator += requires left operand be number or string") ∧
    js_error_of (js_parse_script no_host 30 (js_load "let s = \"a\"; s++;"))
      = some (.throw "Operators ++ -- require operand be number") :=
  ⟨(((compound_assignment_reads_after_its_operand no_host 10 (parsers no_host 10)
      (compound_example 5) (compound_example 6)
      ⟨.at_identifier, .undefined, (sz compound_example_src).drop 11, 1⟩ .ts_plus_assignment
      (by decide!) (by decide!) (by decide!)).2.1 (Or.inl rfl) (.number 2) (compound_example 8)
      (.number 1) (compound_example 8) (by decide!) (by decide!)).1 1 2 rfl rfl).1 rfl,
    by decide!, by decide!, by decide!, by decide!, by decide!, by decide!, by decide!,
    by decide!, by decide!, by decide!, by decide!, by decide!, by decide!, by decide!,
    by decide!, by decide!, by decide!, by decide!, by decide!, by decide!⟩

/-! ## Arrays, the parameter buffer and the rest formal -/

theorem run_array (s : js) :
    js_array s = .ok (.array s.heap.length, { s with heap := s.heap ++ [.array []] }) := rfl

theorem run_array_cell (a : Nat) (p : List js_value) (s : js)
    (h : s.heap.get? a = some (.array p)) : js_array_cell (.array a) s = .ok ((a, p), s) := by
  simp only [js_array_cell, h]

theorem run_array_push (a : Nat) (p : List js_value) (v : js_value) (s : js)
    (h : s.heap.get? a = some (.array p)) :
    js_array_push (.array a) v s
      = .ok ((), { s with heap := s.heap.set a (.array (p ++ [v])) }) := by
  simp only [js_array_push, run_bind, run_array_cell a p s h, js_heap_set, run_modify]

theorem run_array_get (a : Nat) (p : List js_value) (i : Nat) (s : js)
    (h : s.heap.get? a = some (.array p)) :
    js_array_get (.array a) i s = .ok (p.getD i .null, s) := by
  simp only [js_array_get, run_bind, run_array_cell a p s h, run_pure]

theorem run_parameter_length (s : js) (fr : js_stack_frame) (rest : List js_stack_frame)
    (hs : s.stack = fr :: rest) : js_parameter_length s = .ok (fr.params.length, s) := by
  simp only [js_parameter_length, run_bind, js_stack_peek, hs, run_pure]

theorem run_parameter_push (v : js_value) (s : js) (fr : js_stack_frame)
    (rest : List js_stack_frame) (hs : s.stack = fr :: rest) :
    js_parameter_push v s
      = .ok ((), { s with stack := { fr with params := fr.params ++ [v] } :: rest }) := by
  simp only [js_parameter_push, hs]

theorem heap_get_set (heap : List js_managed) (a : Nat) (c d : js_managed)
    (h : heap.get? a = some c) : (heap.set a d).get? a = some d := by
  have hlt : a < heap.length := by
    rcases Nat.lt_or_ge a heap.length with h1 | h1
    · exact h1
    · rw [List.get?_eq_none.mpr h1] at h
      cases h
  simp [List.getElem?_set, hlt]

theorem drop_eq_getD_cons (l : List js_value) (j : Nat) (h : j < l.length) :
    l.drop j = l.getD j .null :: l.drop (j + 1) := by
  rw [List.drop_eq_getElem_cons h]
  simp [List.getD, List.getElem?_eq_getElem h]

theorem rest_formal_loop (a : Nat) (fr : js_stack_frame) (rest : List js_stack_frame) :
    ∀ (fuel j : Nat) (q : List js_value) (s : js),
      s.heap.get? a = some (.array q) → s.stack = fr :: rest → fr.params.length - j < fuel →
      js_loop (fun (j : Nat) => (do
        if j < (← js_parameter_length) then
          js_array_push (.array a) (← js_parameter_get j)
          pure (.inl (j + 1))
        else
          pure (.inr ()) : Parse (Nat ⊕ Unit))) fuel j s
      = .ok ((), { s with heap := s.heap.set a (.array (q ++ fr.params.drop j)) }) := by
  intro fuel
  induction fuel with
  | zero =>
    intro j q s _ _ h
    omega
  | succ m ih =>
    intro j q s hcell hst hfuel
    rw [run_loop]
    by_cases hj : j < fr.params.length
    · have hcell1 : ({ s with heap := s.heap.set a (.array (q ++ [fr.params.getD j .null])) } : js).heap.get? a
          = some (.array (q ++ [fr.params.getD j .null])) := heap_get_set _ _ _ _ hcell
      simp only [run_bind, run_parameter_length s fr rest hst, if_pos hj,
        run_parameter_get j s fr rest hst, run_array_push a q _ s hcell, run_pure]
      rw [ih (j + 1) (q ++ [fr.params.getD j .null]) _ hcell1 hst (by omega)]
      simp only [List.set_set, List.append_assoc, List.singleton_append,
        ← drop_eq_getD_cons fr.params j hj]
    · simp only [run_bind, run_parameter_length s fr rest hst, if_neg hj, run_pure]
      have hq : fr.params.drop j = [] := List.drop_eq_nil_of_le (by omega)
      rw [hq, List.append_nil]
      have hs : s.heap.set a (.array q) = s.heap := by
        apply List.ext_get?
        intro i
        by_cases hi : i = a
        · subst hi
          rw [heap_get_set _ _ _ _ hcell, hcell]
        · simp only [List.get?_eq_getElem?] at hcell ⊢
          rw [List.getElem?_set_ne (fun e => hi e.symm)]
      rw [hs]

theorem parse_formals_rest (n : Nat) (rec : Parsers) :
    _parse_formals n rec = (do
      _expect .ts_left_parenthesis "Expect ("
      if !(← _accept .ts_right_parenthesis) then
        js_loop (fun (i : Nat) => do
          if (← _accept .ts_spread) then
            _parse_rest_formal n i
          else
            _parse_formal rec i) n 0 : Parse Unit) := rfl

theorem formal_count_step (rec : Parsers) (i j : Nat) (s s1 : js)
    (h : _parse_formal rec i s = .ok (.inl j, s1)) : j = i + 1 := by
  unfold _parse_formal at h
  simp only [run_bind, run_ite, run_pure, run_throw] at h
  repeat' (first
    | (cases h; done)
    | (injection h with h; injection h with h1 h2; injection h1 with h1; exact h1.symm)
    | split at h)

/-- C29: the rest formal `...name` of a script function in execute mode, after `i`
ordinary formals, in a call whose frame `fr` holds the actuals `fr.params`, with
fuel for the copy loop: `name` is bound in the frame of the call to a new array
(the handle after the last of the heap) that holds the actuals from position `i`
on in their order, `fr.params.drop i`, which is the empty array when there are at
most `i` actuals; the formals end with the `)` that follows.  The count `i` starts
at 0 in `_parse_formals` and an ordinary formal that is followed by a `,` moves it
to `i + 1`. -/
theorem rest_formal_binds_remaining_actuals (n i : Nat) (s : js) (t : js_token)
    (fr : js_stack_frame) (rest : List js_stack_frame)
    (ht : s.tok = some t) (hid : t.stat = .ts_identifier) (hst : s.stack = fr :: rest)
    (hclose : _get_token_state { s with tok_cache_idx := s.tok_cache_idx + 1 }
      = .ok (.ts_right_parenthesis, { s with tok_cache_idx := s.tok_cache_idx + 1 }))
    (hfuel : fr.params.length - i < n) :
    _parse_rest_formal n i s = .ok (.inr (), { s with
      tok_cache_idx := s.tok_cache_idx + 1 + 1
      heap := s.heap ++ [.array (fr.params.drop i)]
      stack := { fr with
        vars := js_value_map_put fr.vars ((s.src.drop t.h).take (t.t - t.h))
          (.array s.heap.length) } :: rest }) ∧
    (fr.params.length ≤ i → fr.params.drop i = []) ∧
    (∀ j, (fr.params.drop i).get? j = fr.params.get? (i + j)) ∧
    (∀ (rec : Parsers) (j : Nat) (s0 s1 : js),
      _parse_formal rec i s0 = .ok (.inl j, s1) → j = i + 1) := by
  refine ⟨?_, fun h => List.drop_eq_nil_of_le h, fun j => by simp,
    fun rec j s0 s1 h => formal_count_step rec i j s0 s1 h⟩
  obtain ⟨e1, e2, e3⟩ := run_token_some ht
  unfold _parse_rest_formal
  simp only [run_bind, e1, hid, ne_eq, not_true_eq_false, if_false, run_ite, run_pure, e2, e3,
    run_next_token, run_array]
  have hcell : ({ s with tok_cache_idx := s.tok_cache_idx + 1, heap := s.heap ++ [.array []] } : js).heap.get?
      s.heap.length = some (.array []) := by
    simp
  rw [rest_formal_loop s.heap.length fr rest n i [] _ hcell hst hfuel]
  simp only [List.nil_append, run_declare _ _ _ _ fr rest, hst, run_expect, run_accept]
  rw [get_token_state_of { s with
    tok_cache_idx := s.tok_cache_idx + 1
    heap := (s.heap ++ [js_managed.array []]).set s.heap.length
      (js_managed.array (fr.params.drop i))
    stack := { fr with
      vars := js_value_map_put fr.vars ((s.src.drop t.h).take (t.t - t.h))
        (.array s.heap.length) } :: rest } hclose rfl rfl]
  simp

set_option maxRecDepth 100000 in
theorem rest_formal_binds_remaining_actuals_witness :
    _parse_rest_formal 10 2 rest_example = .ok (.inr (), { rest_example with
      tok_cache_idx := 10
      heap := [.function 2 [], .array [.number 3, .number 4, .number 5]]
      stack := [⟨0, 0, [(sz "b", .number 2), (sz "a", .number 1), (sz "r", .array 1)],
          [.number 1, .number 2, .number 3, .number 4, .number 5]⟩,
        ⟨0, 0, [(sz "f", .function 0)], []⟩] }) ∧
    js_array_of (js_eval_after no_host 30 1 (js_load rest_example_src))
      = some [.number 3, .number 4, .number 5] ∧
    js_array_of (js_eval_after no_host 30 1
      (js_load "function f(a, b, ...r) \x7b return r; \x7d f(1, 2, 3)")) = some [.number 3] ∧
    js_array_of (js_eval_after no_host 30 1
      (js_load "function f(a, b, ...r) \x7b return r; \x7d f(1, 2)")) = some [] ∧
    js_array_of (js_eval_after no_host 30 1
      (js_load "function f(a, b, ...r) \x7b return r; \x7d f(1)")) = some [] ∧
    js_array_of (js_eval_after no_host 30 1
      (js_load "function f(...r) \x7b return r; \x7d f(1, null, 3)"))
      = some [.number 1, .null, .number 3] :=
  ⟨(rest_formal_binds_remaining_actuals 10 2 rest_example ⟨.ts_identifier, 20, 21, 1, 0⟩ _ _
      (by decide!) rfl rfl (by decide!) (by decide)).1,
    by decide!, by decide!, by decide!, by decide!, by decide!⟩

/-! ## Spread -/

theorem heap_get_set_ne (heap : List js_managed) (a r : Nat) (d : js_managed) (h : r ≠ a) :
    (heap.set r d).get? a = heap.get? a := by
  simp only [List.get?_eq_getElem?]
  rw [List.getElem?_set_ne h]

theorem spread_push_loop (a r : Nat) (p : List js_value) (har : r ≠ a) :
    ∀ (fuel i : Nat) (q : List js_value) (s : js),
      s.heap.get? a = some (.array p) → s.heap.get? r = some (.array q) → p.length - i < fuel →
      js_loop (fun (i : Nat) => (do
        let (_, p) ← js_array_cell (.array a)
        if i < p.length then
          (fun v => js_array_push (.array r) v) (← js_array_get (.array a) i)
          pure (.inl (i + 1))
        else
          pure (.inr ()) : Parse (Nat ⊕ Unit))) fuel i s
      = .ok ((), { s with heap := s.heap.set r (.array (q ++ p.drop i)) }) := by
  intro fuel
  induction fuel with
  | zero =>
    intro i q s _ _ h
    omega
  | succ m ih =>
    intro i q s ha hr hfuel
    rw [run_loop]
    by_cases hi : i < p.length
    · have hr1 : ({ s with heap := s.heap.set r (.array (q ++ [p.getD i .null])) } : js).heap.get? r
          = some (.array (q ++ [p.getD i .null])) := heap_get_set _ _ _ _ hr
      have ha1 : ({ s with heap := s.heap.set r (.array (q ++ [p.getD i .null])) } : js).heap.get? a
          = some (.array p) := (heap_get_set_ne _ _ _ _ har).trans ha
      simp only [run_bind, run_array_cell a p s ha, if_pos hi, run_array_get a p i s ha,
        run_array_push r q _ s hr, run_pure]
      rw [ih (i + 1) (q ++ [p.getD i .null]) _ ha1 hr1 (by omega)]
      simp only [List.set_set, List.append_assoc, List.singleton_append,
        ← drop_eq_getD_cons p i hi]
    · simp only [run_bind, run_array_cell a p s ha, if_neg hi, run_pure]
      have hq : p.drop i = [] := List.drop_eq_nil_of_le (by omega)
      rw [hq, List.append_nil]
      have hs : s.heap.set r (.array q) = s.heap := by
        apply List.ext_get?
        intro j
        by_cases hj : j = r
        · subst hj
          rw [heap_get_set _ _ _ _ hr, hr]
        · rw [heap_get_set_ne _ _ _ _ (fun e => hj e.symm)]
      rw [hs]

theorem spread_parameter_loop (a : Nat) (p : List js_value) (rest : List js_stack_frame) :
    ∀ (fuel i : Nat) (fr : js_stack_frame) (s : js),
      s.heap.get? a = some (.array p) → s.stack = fr :: rest → p.length - i < fuel →
      js_loop (fun (i : Nat) => (do
        let (_, p) ← js_array_cell (.array a)
        if i < p.length then
          (fun v => js_parameter_push v) (← js_array_get (.array a) i)
          pure (.inl (i + 1))
        else
          pure (.inr ()) : Parse (Nat ⊕ Unit))) fuel i s
      = .ok ((), { s with stack := { fr with params := fr.params ++ p.drop i } :: rest }) := by
  intro fuel
  induction fuel with
  | zero =>
    intro i fr s _ _ h
    omega
  | succ m ih =>
    intro i fr s ha hst hfuel
    rw [run_loop]
    by_cases hi : i < p.length
    · simp only [run_bind, run_array_cell a p s ha, if_pos hi, run_array_get a p i s ha,
        run_parameter_push _ s fr rest hst, run_pure]
      rw [ih (i + 1) { fr with params := fr.params ++ [p.getD i .null] }
        { s with stack := { fr with params := fr.params ++ [p.getD i .null] } :: rest } ha rfl
        (by omega)]
      simp only [List.append_assoc, List.singleton_append, ← drop_eq_getD_cons p i hi]
    · simp only [run_bind, run_array_cell a p s ha, if_neg hi, run_pure]
      have hq : p.drop i = [] := List.drop_eq_nil_of_le (by omega)
      rw [hq, List.append_nil, ← hst]

theorem for_each_spread_push (n a r : Nat) (p q : List js_value) (s : js) (har : r ≠ a)
    (ha : s.heap.get? a = some (.array p)) (hr : s.heap.get? r = some (.array q))
    (hfuel : p.length < n) :
    _for_each_spread n (.array a) (fun v => js_array_push (.array r) v) s
      = .ok ((), { s with heap := s.heap.set r (.array (q ++ p)) }) := by
  unfold _for_each_spread
  exact spread_push_loop a r p har n 0 q s ha hr (by omega)

theorem for_each_spread_parameter (n a : Nat) (p : List js_value) (s : js) (fr : js_stack_frame)
    (rest : List js_stack_frame) (ha : s.heap.get? a = some (.array p))
    (hst : s.stack = fr :: rest) (hfuel : p.length < n) :
    _for_each_spread n (.array a) (fun v => js_parameter_push v) s
      = .ok ((), { s with stack := { fr with params := fr.params ++ p } :: rest }) := by
  unfold _for_each_spread
  exact spread_parameter_loop a p rest n 0 fr s ha hst (by omega)

/-- C24: one round of the loop of an array literal and of a call argument list in
execute mode at a `...`, where `v` is the value of the expression after it.  When
`v` is not an array both raise an error.  When `v` is an array with the elements
`p` (and fuel for the copy loop), the array literal under construction, which held
`q`, holds `q ++ p` afterwards, and the parameter buffer, which held `fr.params`,
holds `fr.params ++ p`: the elements in index order, after what the items before
have contributed; the round goes on with the `,` or the closing token, so that the
items after the spread contribute after it.  An item without `...` contributes its
value in the same way, `q ++ [v]` and `fr.params ++ [v]`. -/
theorem spread_contributes_the_elements_in_order (n : Nat) (rec : Parsers) (s s1 : js)
    (v : js_value) (k : js_token_state)
    (htok : _get_token_state s = .ok (k, s))
    (hv : rec.js_parse_expression
      (if k = .ts_spread then { s with tok_cache_idx := s.tok_cache_idx + 1 } else s)
        = .ok (v, s1)) :
    (k = .ts_spread → v.type ≠ .vt_array → ∀ ret,
      array_literal_round n rec ret s
        = .error (.throw "Operator ... requires array operand") ∧
      call_arguments_round n rec s
        = .error (.throw "Operator ... requires array operand")) ∧
    (k = .ts_spread → ∀ a p, v = .array a → s1.heap.get? a = some (.array p) → p.length < n →
      (∀ r q, r ≠ a → s1.heap.get? r = some (.array q) →
        array_literal_round n rec (.array r) s = (do
          if (← _accept .ts_comma) then
            pure (.inl ())
          else if (← _accept .ts_right_bracket) then
            pure (.inr ())
          else
            js_throw "Expect , or ]" : Parse (Unit ⊕ Unit))
          { s1 with heap := s1.heap.set r (.array (q ++ p)) }) ∧
      (∀ fr rest, s1.stack = fr :: rest →
        call_arguments_round n rec s = (do
          if (← _accept .ts_comma) then
            pure (.inl ())
          else if (← _accept .ts_right_parenthesis) then
            pure (.inr ())
          else
            js_throw "Expect , or )" : Parse (Unit ⊕ Unit))
          { s1 with stack := { fr with params := fr.params ++ p } :: rest })) ∧
    (k ≠ .ts_spread →
      (∀ r q, s1.heap.get? r = some (.array q) →
        array_literal_round n rec (.array r) s = (do
          if (← _accept .ts_comma) then
            pure (.inl ())
          else if (← _accept .ts_right_bracket) then
            pure (.inr ())
          else
            js_throw "Expect , or ]" : Parse (Unit ⊕ Unit))
          { s1 with heap := s1.heap.set r (.array (q ++ [v])) }) ∧
      (∀ fr rest, s1.stack = fr :: rest →
        call_arguments_round n rec s = (do
          if (← _accept .ts_comma) then
            pure (.inl ())
          else if (← _accept .ts_right_parenthesis) then
            pure (.inr ())
          else
            js_throw "Expect , or )" : Parse (Unit ⊕ Unit))
          { s1 with stack := { fr with params := fr.params ++ [v] } :: rest })) := by
  refine ⟨?_, ?_, ?_⟩
  · intro hk hty ret
    subst hk
    rw [if_pos rfl] at hv
    unfold array_literal_round call_arguments_round
    simp only [run_bind, run_accept, htok, if_true, run_ite, hv, ne_eq, hty, not_false_eq_true,
      run_throw, and_self]
  · intro hk a p hva ha hfuel
    subst hk
    subst hva
    rw [if_pos rfl] at hv
    refine ⟨?_, ?_⟩
    · intro r q har hr
      unfold array_literal_round
      simp only [run_bind, run_accept, htok, if_true, run_ite, hv, js_value.type, ne_eq,
        not_true_eq_false, if_false, run_pure, for_each_spread_push n a r p q s1 har ha hr hfuel]
    · intro fr rest hst
      unfold call_arguments_round
      simp only [run_bind, run_accept, htok, if_true, run_ite, hv, js_value.type, ne_eq,
        not_true_eq_false, if_false, run_pure,
        for_each_spread_parameter n a p s1 fr rest ha hst hfuel]
  · intro hk
    rw [if_neg hk] at hv
    refine ⟨?_, ?_⟩
    · intro r q hr
      unfold array_literal_round
      simp only [run_bind, run_accept, htok, if_neg hk, run_ite, Bool.false_eq_true, if_false, hv,
        run_array_push r q v s1 hr]
    · intro fr rest hst
      unfold call_arguments_round
      simp only [run_bind, run_accept, htok, if_neg hk, run_ite, Bool.false_eq_true, if_false, hv,
        run_parameter_push v s1 fr rest hst]

set_option maxRecDepth 100000 in
theorem spread_contributes_the_elements_in_order_witness :
    array_literal_round 10 (parsers no_host 10) (.array 1)
        (spread_example 17 [.number 0] [⟨0, 0, [(sz "xs", .array 0)], []⟩])
      = .ok (.inl (), spread_example 20 [.number 0, .number 1, .number 2, .number 3]
          [⟨0, 0, [(sz "xs", .array 0)], []⟩]) ∧
    js_run no_host 30 2 (js_load spread_example_src)
      = .ok ((), spread_example 23 [.number 0, .number 1, .number 2, .number 3, .number 4]
          [⟨0, 0, [(sz "xs", .array 0), (sz "ys", .array 1)], []⟩]) ∧
    _parse_call_arguments 10 (parsers no_host 10)
        (spread_example 25 [.number 0, .number 1, .number 2, .number 3, .number 4]
          [⟨45, 46, [], []⟩, ⟨0, 0, [(sz "xs", .array 0), (sz "ys", .array 1)], []⟩])
      = .ok ((), spread_example 32 [.number 0, .number 1, .number 2, .number 3, .number 4]
          [⟨45, 46, [], [.number 0, .number 1, .number 2, .number 3, .number 4]⟩,
            ⟨0, 0, [(sz "xs", .array 0), (sz "ys", .array 1)], []⟩]) ∧
    js_array_of (js_eval_after no_host 30 1
      (js_load "function f(...r) \x7b return r; \x7d f(0, ...[1, 2, 3], 4)"))
      = some [.number 0, .number 1, .number 2, .number 3, .number 4] ∧
    js_error_of (js_eval_after no_host 30 0 (js_load "[0, ...5]"))
      = some (.throw "Operator ... requires array operand") ∧
    js_error_of (js_eval_after no_host 30 1 (js_load "function f() \x7b \x7d f(...5)"))
      = some (.throw "Operator ... requires array operand") ∧
    js_error_of (js_eval_after no_host 30 1 (js_load "let o = \x7b\x7d; [...o]"))
      = some (.throw "Operator ... requires array operand") :=
  ⟨((((spread_contributes_the_elements_in_order 10 (parsers no_host 10)
      (spread_example 17 [.number 0] [⟨0, 0, [(sz "xs", .array 0)], []⟩])
      (spread_example 19 [.number 0] [⟨0, 0, [(sz "xs", .array 0)], []⟩]) (.array 0) .ts_spread
      (by decide!) (by decide!)).2.1 rfl 0 [.number 1, .number 2, .number 3] rfl (by decide!)
      (by decide)).1 1 [.number 0] (by decide) (by decide!)).trans (by decide!)),
    by decide!, by decide!, by decide!, by decide!, by decide!, by decide!⟩

/-! ## A closing token is not an expression -/

theorem closing_not_value (n : Nat) (rec : Parsers) (s : js) (k : js_token_state)
    (htok : _get_token_state s = .ok (k, s))
    (hk : k = .ts_right_bracket ∨ k = .ts_right_parenthesis ∨ k = .ts_right_brace) :
    _parse_value n rec s = .error (.throw "Not a value literal") := by
  unfold _parse_value
  cases hx : s.exec <;> rcases hk with hk | hk | hk <;> subst hk <;>
    simp only [run_bind, run_require_exec, hx, htok, Bool.false_eq_true, if_false, if_true] <;>
    rfl

theorem closing_not_accessor (host : Host) (n : Nat) (rec : Parsers) (s : js)
    (k : js_token_state) (htok : _get_token_state s = .ok (k, s))
    (hk : k = .ts_right_bracket ∨ k = .ts_right_parenthesis ∨ k = .ts_right_brace) :
    _parse_accessor host n rec s = .error (.throw "Not a value literal") := by
  have hv := closing_not_value n rec s k htok hk
  unfold _parse_accessor
  cases hx : s.exec <;> rcases hk with hk | hk | hk <;> subst hk <;>
    simp only [run_bind, run_require_exec, hx, run_accept, htok, reduceCtorEq, hv,
      Bool.false_eq_true, if_false, if_true, run_ite]

theorem closing_not_access_call (host : Host) (n : Nat) (rec : Parsers) (s : js)
    (k : js_token_state) (htok : _get_token_state s = .ok (k, s))
    (hk : k = .ts_right_bracket ∨ k = .ts_right_parenthesis ∨ k = .ts_right_brace) :
    _parse_access_call_expression host n rec s = .error (.throw "Not a value literal") := by
  have hv := closing_not_accessor host n rec s k htok hk
  unfold _parse_access_call_expression
  cases hx : s.exec <;>
    simp only [run_bind, run_require_exec, hx, hv, Bool.false_eq_true, if_false, if_true, run_ite]

theorem closing_not_prefix_expression (host : Host) (n : Nat) (rec : Parsers) (s : js)
    (k : js_token_state) (htok : _get_token_state s = .ok (k, s))
    (hk : k = .ts_right_bracket ∨ k = .ts_right_parenthesis ∨ k = .ts_right_brace) :
    _parse_prefix_expression host n rec s = .error (.throw "Not a value literal") := by
  have hv := closing_not_access_call host n rec s k htok hk
  unfold _parse_prefix_expression
  cases hx : s.exec <;> rcases hk with hk | hk | hk <;> subst hk <;>
    simp only [run_bind, run_require_exec, hx, run_accept, htok, reduceCtorEq, hv, or_self,
      Bool.false_eq_true, if_false, if_true, run_ite, run_pure]

theorem closing_not_multiplicative (host : Host) (n : Nat) (rec : Parsers) (s : js)
    (k : js_token_state) (htok : _get_token_state s = .ok (k, s))
    (hk : k = .ts_right_bracket ∨ k = .ts_right_parenthesis ∨ k = .ts_right_brace) :
    _parse_multiplicative_expression host n rec s = .error (.throw "Not a value literal") := by
  have hv := closing_not_prefix_expression host n rec s k htok hk
  unfold _parse_multiplicative_expression
  cases hx : s.exec <;>
    simp only [run_bind, run_require_exec, hx, hv, Bool.false_eq_true, if_false, if_true, run_ite]

theorem closing_not_additive (host : Host) (n : Nat) (rec : Parsers) (s : js)
    (k : js_token_state) (htok : _get_token_state s = .ok (k, s))
    (hk : k = .ts_right_bracket ∨ k = .ts_right_parenthesis ∨ k = .ts_right_brace) :
    _parse_additive_expression host n rec s = .error (.throw "Not a value literal") := by
  have hv := closing_not_multiplicative host n rec s k htok hk
  unfold _parse_additive_expression
  cases hx : s.exec <;>
    simp only [run_bind, run_require_exec, hx, hv, Bool.false_eq_true, if_false, if_true, run_ite]

theorem closing_not_relational (host : Host) (n : Nat) (rec : Parsers) (s : js)
    (k : js_token_state) (htok : _get_token_state s = .ok (k, s))
    (hk : k = .ts_right_bracket ∨ k = .ts_right_parenthesis ∨ k = .ts_right_brace) :
    _parse_relational_expression host n rec s = .error (.throw "Not a value literal") := by
  have hv := closing_not_additive host n rec s k htok hk
  unfold _parse_relational_expression
  cases hx : s.exec <;>
    simp only [run_bind, run_require_exec, hx, hv, Bool.false_eq_true, if_false, if_true, run_ite]

theorem closing_not_logical (host : Host) (n : Nat) (rec : Parsers) (s : js)
    (k : js_token_state) (htok : _get_token_state s = .ok (k, s))
    (hk : k = .ts_right_bracket ∨ k = .ts_right_parenthesis ∨ k = .ts_right_brace) :
    _parse_logical_expression host n rec s = .error (.throw "Not a value literal") := by
  have hv := closing_not_relational host n rec s k htok hk
  unfold _parse_logical_expression
  cases hx : s.exec <;>
    simp only [run_bind, run_require_exec, hx, hv, Bool.false_eq_true, if_false, if_true, run_ite]

theorem closing_not_expression (host : Host) (n : Nat) (rec : Parsers) (s : js)
    (k : js_token_state) (htok : _get_token_state s = .ok (k, s))
    (hk : k = .ts_right_bracket ∨ k = .ts_right_parenthesis ∨ k = .ts_right_brace) :
    js_parse_expression host n rec s = .error (.throw "Not a value literal") := by
  have hv := closing_not_logical host n rec s k htok hk
  unfold js_parse_expression
  cases hx : s.exec <;>
    simp only [run_bind, run_require_exec, hx, hv, Bool.false_eq_true, if_false, if_true, run_ite]

/-! ## Trailing commas -/

theorem accept_true {stat : js_token_state} {s s1 : js} (h : _accept stat s = .ok (true, s1)) :
    _get_token_state s = .ok (stat, s) ∧
    s1 = { s with tok_cache_idx := s.tok_cache_idx + 1 } := by
  obtain ⟨k, hk⟩ := get_token_state_total s
  by_cases hks : k = stat
  · subst hks
    rw [accept_eq hk] at h
    cases h
    exact ⟨hk, rfl⟩
  · rw [accept_ne hk hks] at h
    cases h

theorem separator_continues {close : js_token_state} {msg : String} {s s1 : js}
    (h : (do
      if (← _accept .ts_comma) then
        pure (.inl ())
      else if (← _accept close) then
        pure (.inr ())
      else
        js_throw msg : Parse (Unit ⊕ Unit)) s = .ok (.inl (), s1)) :
    ∃ s0, _get_token_state s0 = .ok (.ts_comma, s0) ∧
      s1 = { s0 with tok_cache_idx := s0.tok_cache_idx + 1 } := by
  obtain ⟨c, s2, hc, h⟩ := bind_ok h
  cases c with
  | true =>
    cases h
    exact ⟨s, accept_true hc⟩
  | false =>
    simp only [Bool.false_eq_true, if_false] at h
    obtain ⟨c2, s3, _, h⟩ := bind_ok h
    cases c2 <;> cases h

theorem array_literal_round_continues {n : Nat} {rec : Parsers} {ret : js_value} {s s1 : js}
    (h : array_literal_round n rec ret s = .ok (.inl (), s1)) :
    ∃ s0, _get_token_state s0 = .ok (.ts_comma, s0) ∧
      s1 = { s0 with tok_cache_idx := s0.tok_cache_idx + 1 } := by
  unfold array_literal_round at h
  repeat' (first
    | exact separator_continues h
    | (cases h; done)
    | (obtain ⟨_, _, _, h⟩ := bind_ok h)
    | split at h)

theorem object_literal_round_continues {rec : Parsers} {ret : js_value} {s s1 : js}
    (h : object_literal_round rec ret s = .ok (.inl (), s1)) :
    ∃ s0, _get_token_state s0 = .ok (.ts_comma, s0) ∧
      s1 = { s0 with tok_cache_idx := s0.tok_cache_idx + 1 } := by
  unfold object_literal_round at h
  repeat' (first
    | exact separator_continues h
    | (cases h; done)
    | (obtain ⟨_, _, _, h⟩ := bind_ok h)
    | split at h)

theorem call_arguments_round_continues {n : Nat} {rec : Parsers} {s s1 : js}
    (h : call_arguments_round n rec s = .ok (.inl (), s1)) :
    ∃ s0, _get_token_state s0 = .ok (.ts_comma, s0) ∧
      s1 = { s0 with tok_cache_idx := s0.tok_cache_idx + 1 } := by
  unfold call_arguments_round at h
  repeat' (first
    | exact separator_continues h
    | (cases h; done)
    | (obtain ⟨_, _, _, h⟩ := bind_ok h)
    | split at h)

theorem skim_array_literal_round_continues {rec : Parsers} {s s1 : js}
    (h : skim_array_literal_round rec s = .ok (.inl (), s1)) :
    ∃ s0, _get_token_state s0 = .ok (.ts_comma, s0) ∧
      s1 = { s0 with tok_cache_idx := s0.tok_cache_idx + 1 } := by
  unfold skim_array_literal_round at h
  repeat' (first
    | exact separator_continues h
    | (cases h; done)
    | (obtain ⟨_, _, _, h⟩ := bind_ok h)
    | split at h)

theorem skim_object_literal_round_continues {rec : Parsers} {s s1 : js}
    (h : skim_object_literal_round rec s = .ok (.inl (), s1)) :
    ∃ s0, _get_token_state s0 = .ok (.ts_comma, s0) ∧
      s1 = { s0 with tok_cache_idx := s0.tok_cache_idx + 1 } := by
  unfold skim_object_literal_round at h
  repeat' (first
    | exact separator_continues h
    | (cases h; done)
    | (obtain ⟨_, _, _, h⟩ := bind_ok h)
    | split at h)

theorem skim_call_arguments_round_continues {rec : Parsers} {s s1 : js}
    (h : skim_call_arguments_round rec s = .ok (.inl (), s1)) :
    ∃ s0, _get_token_state s0 = .ok (.ts_comma, s0) ∧
      s1 = { s0 with tok_cache_idx := s0.tok_cache_idx + 1 } := by
  unfold skim_call_arguments_round at h
  repeat' (first
    | exact separator_continues h
    | (cases h; done)
    | (obtain ⟨_, _, _, h⟩ := bind_ok h)
    | split at h)

theorem parsers_expression (host : Host) (n : Nat) :
    (parsers host (n + 1)).js_parse_expression = js_parse_expression host n (parsers host n) :=
  rfl

theorem rounds_at_closing (host : Host) (j n : Nat) (ret : js_value) (s : js) (k : js_token_state)
    (htok : _get_token_state s = .ok (k, s)) :
    (k = .ts_right_bracket →
      array_literal_round n (parsers host (j + 1)) ret s
        = .error (.throw "Not a value literal") ∧
      skim_array_literal_round (parsers host (j + 1)) s
        = .error (.throw "Not a value literal")) ∧
    (k = .ts_right_brace →
      object_literal_round (parsers host (j + 1)) ret s
        = .error (.throw "Expect string or identifier") ∧
      skim_object_literal_round (parsers host (j + 1)) s
        = .error (.throw "Expect string or identifier")) ∧
    (k = .ts_right_parenthesis →
      call_arguments_round n (parsers host (j + 1)) s
        = .error (.throw "Not a value literal") ∧
      skim_call_arguments_round (parsers host (j + 1)) s
        = .error (.throw "Not a value literal")) := by
  refine ⟨?_, ?_, ?_⟩
  · intro hk
    have he := closing_not_expression host j (parsers host j) s k htok (Or.inl hk)
    subst hk
    unfold array_literal_round skim_array_literal_round
    simp only [parsers_expression, run_bind, run_accept, htok, reduceCtorEq, if_false, run_ite,
      Bool.false_eq_true, he, and_self]
  · intro hk
    subst hk
    unfold object_literal_round skim_object_literal_round
    simp only [run_bind, htok, reduceCtorEq, if_false, run_ite, run_throw, ne_eq,
      not_false_eq_true, and_self, if_true]
  · intro hk
    have he := closing_not_expression host j (parsers host j) s k htok (Or.inr (Or.inl hk))
    subst hk
    unfold call_arguments_round skim_call_arguments_round
    simp only [parsers_expression, run_bind, run_accept, htok, reduceCtorEq, if_false, run_ite,
      Bool.false_eq_true, he, and_self]

theorem loop_error {σ α : Type} {body : σ → Parse (σ ⊕ α)} {k : Nat} {x : σ} {s : js}
    {e : js_error} (h : body x s = .error e) : js_loop body (k + 1) x s = .error e := by
  rw [run_loop, h]

/-- C25: the loops of an array literal, an object literal and a call argument list,
in execute mode and in skim mode, with the expressions parsed by `js_parse_expression`
and fuel for two rounds.  A round continues the loop only after it has consumed a
`,`; when the token after that `,` is the closing token of the list (`]` for an
array literal, a closing brace for an object literal, `)` for an argument list), the
next round raises an error and so does the loop: no expression starts with a closing
token, and no key of an object literal is one. -/
theorem trailing_comma_is_rejected (host : Host) (j n fuel : Nat) (ret : js_value) (s s1 : js)
    (k : js_token_state) (hclose : _get_token_state s1 = .ok (k, s1)) :
    (k = .ts_right_bracket →
      (array_literal_round n (parsers host (j + 1)) ret s = .ok (.inl (), s1) →
        js_loop (fun (_ : Unit) => array_literal_round n (parsers host (j + 1)) ret)
          (fuel + 2) () s = .error (.throw "Not a value literal")) ∧
      (skim_array_literal_round (parsers host (j + 1)) s = .ok (.inl (), s1) →
        js_loop (fun (_ : Unit) => skim_array_literal_round (parsers host (j + 1)))
          (fuel + 2) () s = .error (.throw "Not a value literal"))) ∧
    (k = .ts_right_brace →
      (object_literal_round (parsers host (j + 1)) ret s = .ok (.inl (), s1) →
        js_loop (fun (_ : Unit) => object_literal_round (parsers host (j + 1)) ret)
          (fuel + 2) () s = .error (.throw "Expect string or identifier")) ∧
      (skim_object_literal_round (parsers host (j + 1)) s = .ok (.inl (), s1) →
        js_loop (fun (_ : Unit) => skim_object_literal_round (parsers host (j + 1)))
          (fuel + 2) () s = .error (.throw "Expect string or identifier"))) ∧
    (k = .ts_right_parenthesis →
      (call_arguments_round n (parsers host (j + 1)) s = .ok (.inl (), s1) →
        js_loop (fun (_ : Unit) => call_arguments_round n (parsers host (j + 1)))
          (fuel + 2) () s = .error (.throw "Not a value literal")) ∧
      (skim_call_arguments_round (parsers host (j + 1)) s = .ok (.inl (), s1) →
        js_loop (fun (_ : Unit) => skim_call_arguments_round (parsers host (j + 1)))
          (fuel + 2) () s = .error (.throw "Not a value literal"))) ∧
    ((array_literal_round n (parsers host (j + 1)) ret s = .ok (.inl (), s1)
        ∨ skim_array_literal_round (parsers host (j + 1)) s = .ok (.inl (), s1)
        ∨ object_literal_round (parsers host (j + 1)) ret s = .ok (.inl (), s1)
        ∨ skim_object_literal_round (parsers host (j + 1)) s = .ok (.inl (), s1)
        ∨ call_arguments_round n (parsers host (j + 1)) s = .ok (.inl (), s1)
        ∨ skim_call_arguments_round (parsers host (j + 1)) s = .ok (.inl (), s1)) →
      ∃ s0, _get_token_state s0 = .ok (.ts_comma, s0) ∧
        s1 = { s0 with tok_cache_idx := s0.tok_cache_idx + 1 }) := by
  obtain ⟨h1, h2, h3⟩ := rounds_at_closing host j n ret s1 k hclose
  refine ⟨?_, ?_, ?_, ?_⟩
  · intro hk
    exact ⟨fun h => (loop_inl () s1 h).trans (loop_error (h1 hk).1),
      fun h => (loop_inl () s1 h).trans (loop_error (h1 hk).2)⟩
  · intro hk
    exact ⟨fun h => (loop_inl () s1 h).trans (loop_error (h2 hk).1),
      fun h => (loop_inl () s1 h).trans (loop_error (h2 hk).2)⟩
  · intro hk
    exact ⟨fun h => (loop_inl () s1 h).trans (loop_error (h3 hk).1),
      fun h => (loop_inl () s1 h).trans (loop_error (h3 hk).2)⟩
  · intro h
    rcases h with h | h | h | h | h | h
    · exact array_literal_round_continues h
    · exact skim_array_literal_round_continues h
    · exact object_literal_round_continues h
    · exact skim_object_literal_round_continues h
    · exact call_arguments_round_continues h
    · exact skim_call_arguments_round_continues h

set_option maxRecDepth 100000 in
theorem trailing_comma_is_rejected_witness :
    js_loop (fun (_ : Unit) => array_literal_round 10 (parsers no_host (9 + 1)) (.array 0))
        (0 + 2) () (trailing_comma_example 1 [])
      = .error (.throw "Not a value literal") ∧
    js_error_of (js_parse_script no_host 30 (js_load "let a = [1,];"))
      = some (.throw "Not a value literal") ∧
    js_error_of (js_parse_script no_host 30 (js_load "let o = \x7ba:1,\x7d;"))
      = some (.throw "Expect string or identifier") ∧
    js_error_of (js_parse_script no_host 30 (js_load "function f() \x7b \x7d f(1,);"))
      = some (.throw "Not a value literal") ∧
    js_error_of (js_parse_script no_host 30 (js_load "if (false) \x7b let a = [1,]; \x7d"))
      = some (.throw "Not a value literal") ∧
    js_error_of (js_parse_script no_host 30 (js_load "if (false) \x7b let o = \x7ba:1,\x7d; \x7d"))
      = some (.throw "Expect string or identifier") ∧
    js_error_of (js_parse_script no_host 30 (js_load "if (false) \x7b f(1,); \x7d"))
      = some (.throw "Not a value literal") ∧
    js_error_of (js_parse_script no_host 30
      (js_load "if (false) \x7b let a = [1]; let o = \x7ba:1\x7d; f(1); \x7d")) = none :=
  ⟨((trailing_comma_is_rejected no_host 9 10 0 (.array 0) (trailing_comma_example 1 [])
      (trailing_comma_example 3 [.number 1]) .ts_right_bracket (by decide!)).1 rfl).1
      (by decide!),
    by decide!, by decide!, by decide!, by decide!, by decide!, by decide!, by decide!⟩

/-! ## `mark_break` and `mark_continue` are never both set -/

theorem not_both_cursor {α : Type} {m : Parse α} [CursorOnly m] : Triple NotBoth m NotBoth :=
  triple_of_pres (fun s s1 hs h => by
    have h : s1 = { s with tok_cache_idx := s1.tok_cache_idx } := h
    rw [h]
    exact hs) CursorOnly.pres

theorem not_both_store {α : Type} {m : Parse α} [StoreOnly m] : Triple NotBoth m NotBoth :=
  triple_of_pres (fun s s1 hs h => by
    have h : s1 = { s with heap := s1.heap, stack := s1.stack } := h.1
    rw [h]
    exact hs) StoreOnly.pres

theorem not_both_modify {f : js → js} (h : ∀ s, NotBoth s → NotBoth (f s)) :
    Triple NotBoth (js_modify f) NotBoth := by
  constructor
  intro s a s1 hs hm
  cases hm
  exact h s hs

theorem not_both_clear_break : Triple NotBoth (set_mark_break false) NotBoth :=
  not_both_modify fun _ _ h => Bool.false_ne_true h.1

theorem not_both_clear_continue : Triple NotBoth (set_mark_continue false) NotBoth :=
  not_both_modify fun _ _ h => Bool.false_ne_true h.2

theorem not_both_mark_return (b : Bool) : Triple NotBoth (set_mark_return b) NotBoth :=
  not_both_modify fun _ hs => hs

theorem not_both_result (v : js_value) : Triple NotBoth (set_result v) NotBoth :=
  not_both_modify fun _ hs => hs

theorem not_both_parse_exec (b : Bool) : Triple NotBoth (set_parse_exec b) NotBoth :=
  not_both_modify fun _ hs => hs

theorem not_both_stack_forward : Triple NotBoth _stack_forward NotBoth := by
  unfold _stack_forward
  apply triple_bind_same triple_read_only
  intro h
  apply triple_bind_same triple_read_only
  intro t
  exact not_both_modify fun _ hs => hs

theorem not_both_stack_backward : Triple NotBoth js_stack_backward NotBoth := by
  constructor
  intro s a s1 hs hm
  simp only [js_stack_backward] at hm
  split at hm
  · cases hm
  · cases hm
    exact hs

theorem not_both_parameter_push (v : js_value) :
    Triple NotBoth (js_parameter_push v) NotBoth := by
  constructor
  intro s a s1 hs hm
  simp only [js_parameter_push] at hm
  split at hm
  · cases hm
  · cases hm
    exact hs

theorem not_both_call_result (acc : _value_accessor) :
    Triple NotBoth (_call_result acc) NotBoth := by
  constructor
  intro s a s1 hs hm
  have hp := call_result_post acc a s s1 hm
  intro h
  apply hs
  rw [← hp.2.2.2.2.2.2.2.1, ← hp.2.2.2.2.2.2.2.2]
  exact h

theorem exec_flags {s : js} (h : Exec s) :
    s.parse_exec = true ∧ s.mark_break = false ∧ s.mark_continue = false ∧
    s.mark_return = false := by
  unfold Exec js.exec at h
  revert h
  cases s.parse_exec <;> cases s.mark_break <;> cases s.mark_continue <;>
    cases s.mark_return <;> simp

theorem exec_branch {α : Type} {C : js → Prop} {a b : Parse α}
    (ha : Triple Exec a C) (hb : Triple NotBoth b C) :
    Triple NotBoth (_require_exec >>= fun c => if c = true then a else b) C := by
  constructor
  intro s x s1 hs h
  rw [run_bind, run_require_exec] at h
  by_cases hx : s.exec = true
  · simp only [hx, if_true] at h
    exact ha.run s x s1 hx h
  · simp only [hx, Bool.false_eq_true, if_false] at h
    exact hb.run s x s1 hs h

theorem exec_cursor {α : Type} {m : Parse α} [CursorOnly m] : Triple Exec m Exec :=
  triple_of_pres (fun s s1 hs h => by
    have h : s1 = { s with tok_cache_idx := s1.tok_cache_idx } := h
    rw [h]
    exact hs) CursorOnly.pres

theorem exec_accept {β : Type} {C : js → Prop} {stat : js_token_state} {f : Bool → Parse β}
    (hf : ∀ c, Triple Exec (f c) C) : Triple Exec (_accept stat >>= f) C :=
  triple_bind exec_cursor hf

theorem exec_token {β : Type} {C : js → Prop} {f : js_token_state → Parse β}
    (hf : ∀ k, Triple Exec (f k) C) : Triple Exec (_get_token_state >>= f) C :=
  triple_bind triple_read_only hf

theorem exec_break {β : Type} {C : js → Prop} {f : Unit → Parse β}
    (hf : ∀ u, Triple NotBoth (f u) C) : Triple Exec (set_mark_break true >>= f) C := by
  refine triple_bind ?_ hf
  constructor
  intro s a s1 hs hm
  cases hm
  intro h
  exact Bool.false_ne_true ((exec_flags hs).2.2.1.symm.trans h.2)

theorem exec_continue {β : Type} {C : js → Prop} {f : Unit → Parse β}
    (hf : ∀ u, Triple NotBoth (f u) C) : Triple Exec (set_mark_continue true >>= f) C := by
  refine triple_bind ?_ hf
  constructor
  intro s a s1 hs hm
  cases hm
  intro h
  exact Bool.false_ne_true ((exec_flags hs).2.1.symm.trans h.1)

theorem exec_ite {α : Type} {C : js → Prop} {c : Prop} [Decidable c] {a b : Parse α}
    (ha : Triple Exec a C) (hb : Triple Exec b C) : Triple Exec (if c then a else b) C :=
  triple_ite ha hb

theorem exec_weaken {α : Type} {C : js → Prop} {m : Parse α} (h : Triple NotBoth m C) :
    Triple Exec m C := by
  constructor
  intro s a s1 hs hm
  refine h.run s a s1 ?_ hm
  intro hb
  exact Bool.false_ne_true ((exec_flags hs).2.1.symm.trans hb.1)
theorem not_both_parse_statements (n : Nat) (rec : Parsers)
    (hrec : rec.NotBoth) :
    Triple NotBoth (_parse_statements n rec) NotBoth := by
  unfold _parse_statements
  with_reducible repeat' (first
    | intro _
    | exact triple_pure | exact triple_throw | exact triple_stop
    | exact triple_read_only
    | exact not_both_cursor | exact not_both_store
    | exact not_both_clear_break | exact not_both_clear_continue
    | exact not_both_mark_return _ | exact not_both_result _
    | exact not_both_parse_exec _
    | exact not_both_stack_forward | exact not_both_stack_backward
    | exact not_both_parameter_push _ | exact not_both_call_result _
    | exact hrec.statement | exact hrec.expression | exact hrec.additive
    | apply for_each_spread_triple | apply map_for_each_triple
    | apply triple_loop
    | apply triple_bind_same | apply triple_ite | split)

theorem not_both_parse_function (n : Nat) (rec : Parsers)
    (hrec : rec.NotBoth) :
    Triple NotBoth (_parse_function n rec) NotBoth := by
  unfold _parse_function
  with_reducible repeat' (first
    | intro _
    | exact triple_pure | exact triple_throw | exact triple_stop
    | exact triple_read_only
    | exact not_both_cursor | exact not_both_store
    | exact not_both_clear_break | exact not_both_clear_continue
    | exact not_both_mark_return _ | exact not_both_result _
    | exact not_both_parse_exec _
    | exact not_both_stack_forward | exact not_both_stack_backward
    | exact not_both_parameter_push _ | exact not_both_call_result _
    | exact hrec.statement | exact hrec.expression | exact hrec.additive
    | exact not_both_parse_statements n rec hrec
    | apply for_each_spread_triple | apply map_for_each_triple
    | apply triple_loop
    | apply triple_bind_same | apply triple_ite | split)

theorem not_both_parse_value (n : Nat) (rec : Parsers)
    (hrec : rec.NotBoth) :
    Triple NotBoth (_parse_value n rec) NotBoth := by
  unfold _parse_value
  with_reducible repeat' (first
    | intro _
    | exact triple_pure | exact triple_throw | exact triple_stop
    | exact triple_read_only
    | exact not_both_cursor | exact not_both_store
    | exact not_both_clear_break | exact not_both_clear_continue
    | exact not_both_mark_return _ | exact not_both_result _
    | exact not_both_parse_exec _
    | exact not_both_stack_forward | exact not_both_stack_backward
    | exact not_both_parameter_push _ | exact not_both_call_result _
    | exact hrec.statement | exact hrec.expression | exact hrec.additive
    | exact not_both_parse_statements n rec hrec
    | exact not_both_parse_function n rec hrec
    | apply for_each_spread_triple | apply map_for_each_triple
    | apply triple_loop
    | apply triple_bind_same | apply triple_ite | split)

theorem not_both_parse_call_arguments (n : Nat) (rec : Parsers)
    (hrec : rec.NotBoth) :
    Triple NotBoth (_parse_call_arguments n rec) NotBoth := by
  unfold _parse_call_arguments
  with_reducible repeat' (first
    | intro _
    | exact triple_pure | exact triple_throw | exact triple_stop
    | exact triple_read_only
    | exact not_both_cursor | exact not_both_store
    | exact not_both_clear_break | exact not_both_clear_continue
    | exact not_both_mark_return _ | exact not_both_result _
    | exact not_both_parse_exec _
    | exact not_both_stack_forward | exact not_both_stack_backward
    | exact not_both_parameter_push _ | exact not_both_call_result _
    | exact hrec.statement | exact hrec.expression | exact hrec.additive
    | exact not_both_parse_statements n rec hrec
    | exact not_both_parse_function n rec hrec
    | exact not_both_parse_value n rec hrec
    | apply for_each_spread_triple | apply map_for_each_triple
    | apply triple_loop
    | apply triple_bind_same | apply triple_ite | split)

theorem not_both_call_callee (host : Host) (n : Nat) (rec : Parsers) (callee : js_value)
    (hrec : rec.NotBoth) (hhost : HostNotBoth host) :
    Triple NotBoth (_call_callee host n rec callee) NotBoth := by
  unfold _call_callee
  with_reducible repeat' (first
    | intro _
    | exact triple_pure | exact triple_throw | exact triple_stop
    | exact triple_read_only
    | exact not_both_cursor | exact not_both_store
    | exact not_both_clear_break | exact not_both_clear_continue
    | exact not_both_mark_return _ | exact not_both_result _
    | exact not_both_parse_exec _
    | exact not_both_stack_forward | exact not_both_stack_backward
    | exact not_both_parameter_push _ | exact not_both_call_result _
    | exact hrec.statement | exact hrec.expression | exact hrec.additive
    | exact hhost.run _
    | exact not_both_parse_statements n rec hrec
    | exact not_both_parse_function n rec hrec
    | exact not_both_parse_value n rec hrec
    | exact not_both_parse_call_arguments n rec hrec
    | apply for_each_spread_triple | apply map_for_each_triple
    | apply triple_loop
    | apply triple_bind_same | apply triple_ite | split)

theorem not_both_parse_accessor (host : Host) (n : Nat) (rec : Parsers)
    (hrec : rec.NotBoth) (hhost : HostNotBoth host) :
    Triple NotBoth (_parse_accessor host n rec) NotBoth := by
  unfold _parse_accessor
  with_reducible repeat' (first
    | intro _
    | exact triple_pure | exact triple_throw | exact triple_stop
    | exact triple_read_only
    | exact not_both_cursor | exact not_both_store
    | exact not_both_clear_break | exact not_both_clear_continue
    | exact not_both_mark_return _ | exact not_both_result _
    | exact not_both_parse_exec _
    | exact not_both_stack_forward | exact not_both_stack_backward
    | exact not_both_parameter_push _ | exact not_both_call_result _
    | exact hrec.statement | exact hrec.expression | exact hrec.additive
    | exact hhost.run _
    | exact not_both_parse_statements n rec hrec
    | exact not_both_parse_function n rec hrec
    | exact not_both_parse_value n rec hrec
    | exact not_both_parse_call_arguments n rec hrec
    | exact not_both_call_callee host n rec _ hrec hhost
    | apply for_each_spread_triple | apply map_for_each_triple
    | apply triple_loop
    | apply triple_bind_same | apply triple_ite | split)

theorem not_both_parse_access_call_expression (host : Host) (n : Nat) (rec : Parsers)
    (hrec : rec.NotBoth) (hhost : HostNotBoth host) :
    Triple NotBoth (_parse_access_call_expression host n rec) NotBoth := by
  unfold _parse_access_call_expression
  with_reducible repeat' (first
    | intro _
    | exact triple_pure | exact triple_throw | exact triple_stop
    | exact triple_read_only
    | exact not_both_cursor | exact not_both_store
    | exact not_both_clear_break | exact not_both_clear_continue
    | exact not_both_mark_return _ | exact not_both_result _
    | exact not_both_parse_exec _
    | exact not_both_stack_forward | exact not_both_stack_backward
    | exact not_both_parameter_push _ | exact not_both_call_result _
    | exact hrec.statement | exact hrec.expression | exact hrec.additive
    | exact hhost.run _
    | exact not_both_parse_statements n rec hrec
    | exact not_both_parse_function n rec hrec
    | exact not_both_parse_value n rec hrec
    | exact not_both_parse_call_arguments n rec hrec
    | exact not_both_call_callee host n rec _ hrec hhost
    | exact not_both_parse_accessor host n rec hrec hhost
    | apply for_each_spread_triple | apply map_for_each_triple
    | apply triple_loop
    | apply triple_bind_same | apply triple_ite | split)

theorem not_both_parse_prefix_expression (host : Host) (n : Nat) (rec : Parsers)
    (hrec : rec.NotBoth) (hhost : HostNotBoth host) :
    Triple NotBoth (_parse_prefix_expression host n rec) NotBoth := by
  unfold _parse_prefix_expression
  with_reducible repeat' (first
    | intro _
    | exact triple_pure | exact triple_throw | exact triple_stop
    | exact triple_read_only
    | exact not_both_cursor | exact not_both_store
    | exact not_both_clear_break | exact not_both_clear_continue
    | exact not_both_mark_return _ | exact not_both_result _
    | exact not_both_parse_exec _
    | exact not_both_stack_forward | exact not_both_stack_backward
    | exact not_both_parameter_push _ | exact not_both_call_result _
    | exact hrec.statement | exact hrec.expression | exact hrec.additive
    | exact hhost.run _
    | exact not_both_parse_statements n rec hrec
    | exact not_both_parse_function n rec hrec
    | exact not_both_parse_value n rec hrec
    | exact not_both_parse_call_arguments n rec hrec
    | exact not_both_call_callee host n rec _ hrec hhost
    | exact not_both_parse_accessor host n rec hrec hhost
    | exact not_both_parse_access_call_expression host n rec hrec hhost
    | apply for_each_spread_triple | apply map_for_each_triple
    | apply triple_loop
    | apply triple_bind_same | apply triple_ite | split)

theorem not_both_parse_multiplicative_expression (host : Host) (n : Nat) (rec : Parsers)
    (hrec : rec.NotBoth) (hhost : HostNotBoth host) :
    Triple NotBoth (_parse_multiplicative_expression host n rec) NotBoth := by
  unfold _parse_multiplicative_expression
  with_reducible repeat' (first
    | intro _
    | exact triple_pure | exact triple_throw | exact triple_stop
    | exact triple_read_only
    | exact not_both_cursor | exact not_both_store
    | exact not_both_clear_break | exact not_both_clear_continue
    | exact not_both_mark_return _ | exact not_both_result _
    | exact not_both_parse_exec _
    | exact not_both_stack_forward | exact not_both_stack_backward
    | exact not_both_parameter_push _ | exact not_both_call_result _
    | exact hrec.statement | exact hrec.expression | exact hrec.additive
    | exact hhost.run _
    | exact not_both_parse_statements n rec hrec
    | exact not_both_parse_function n rec hrec
    | exact not_both_parse_value n rec hrec
    | exact not_both_parse_call_arguments n rec hrec
    | exact not_both_call_callee host n rec _ hrec hhost
    | exact not_both_parse_accessor host n rec hrec hhost
    | exact not_both_parse_access_call_expression host n rec hrec hhost
    | exact not_both_parse_prefix_expression host n rec hrec hhost
    | apply for_each_spread_triple | apply map_for_each_triple
    | apply triple_loop
    | apply triple_bind_same | apply triple_ite | split)

theorem not_both_parse_additive_expression (host : Host) (n : Nat) (rec : Parsers)
    (hrec : rec.NotBoth) (hhost : HostNotBoth host) :
    Triple NotBoth (_parse_additive_expression host n rec) NotBoth := by
  unfold _parse_additive_expression
  with_reducible repeat' (first
    | intro _
    | exact triple_pure | exact triple_throw | exact triple_stop
    | exact triple_read_only
    | exact not_both_cursor | exact not_both_store
    | exact not_both_clear_break | exact not_both_clear_continue
    | exact not_both_mark_return _ | exact not_both_result _
    | exact not_both_parse_exec _
    | exact not_both_stack_forward | exact not_both_stack_backward
    | exact not_both_parameter_push _ | exact not_both_call_result _
    | exact hrec.statement | exact hrec.expression | exact hrec.additive
    | exact hhost.run _
    | exact not_both_parse_statements n rec hrec
    | exact not_both_parse_function n rec hrec
    | exact not_both_parse_value n rec hrec
    | exact not_both_parse_call_arguments n rec hrec
    | exact not_both_call_callee host n rec _ hrec hhost
    | exact not_both_parse_accessor host n rec hrec hhost
    | exact not_both_parse_access_call_expression host n rec hrec hhost
    | exact not_both_parse_prefix_expression host n rec hrec hhost
    | exact not_both_parse_multiplicative_expression host n rec hrec hhost
    | apply for_each_spread_triple | apply map_for_each_triple
    | apply triple_loop
    | apply triple_bind_same | apply triple_ite | split)

theorem not_both_parse_relational_expression (host : Host) (n : Nat) (rec : Parsers)
    (hrec : rec.NotBoth) (hhost : HostNotBoth host) :
    Triple NotBoth (_parse_relational_expression host n rec) NotBoth := by
  unfold _parse_relational_expression
  with_reducible repeat' (first
    | intro _
    | exact triple_pure | exact triple_throw | exact triple_stop
    | exact triple_read_only
    | exact not_both_cursor | exact not_both_store
    | exact not_both_clear_break | exact not_both_clear_continue
    | exact not_both_mark_return _ | exact not_both_result _
    | exact not_both_parse_exec _
    | exact not_both_stack_forward | exact not_both_stack_backward
    | exact not_both_parameter_push _ | exact not_both_call_result _
    | exact hrec.statement | exact hrec.expression | exact hrec.additive
    | exact hhost.run _
    | exact not_both_parse_statements n rec hrec
    | exact not_both_parse_function n rec hrec
    | exact not_both_parse_value n rec hrec
    | exact not_both_parse_call_arguments n rec hrec
    | exact not_both_call_callee host n rec _ hrec hhost
    | exact not_both_parse_accessor host n rec hrec hhost
    | exact not_both_parse_access_call_expression host n rec hrec hhost
    | exact not_both_parse_prefix_expression host n rec hrec hhost
    | exact not_both_parse_multiplicative_expression host n rec hrec hhost
    | exact not_both_parse_additive_expression host n rec hrec hhost
    | apply for_each_spread_triple | apply map_for_each_triple
    | apply triple_loop
    | apply triple_bind_same | apply triple_ite | split)

theorem not_both_parse_logical_expression (host : Host) (n : Nat) (rec : Parsers)
    (hrec : rec.NotBoth) (hhost : HostNotBoth host) :
    Triple NotBoth (_parse_logical_expression host n rec) NotBoth := by
  unfold _parse_logical_expression
  with_reducible repeat' (first
    | intro _
    | exact triple_pure | exact triple_throw | exact triple_stop
    | exact triple_read_only
    | exact not_both_cursor | exact not_both_store
    | exact not_both_clear_break | exact not_both_clear_continue
    | exact not_both_mark_return _ | exact not_both_result _
    | exact not_both_parse_exec _
    | exact not_both_stack_forward | exact not_both_stack_backward
    | exact not_both_parameter_push _ | exact not_both_call_result _
    | exact hrec.statement | exact hrec.expression | exact hrec.additive
    | exact hhost.run _
    | exact not_both_parse_statements n rec hrec
    | exact not_both_parse_function n rec hrec
    | exact not_both_parse_value n rec hrec
    | exact not_both_parse_call_arguments n rec hrec
    | exact not_both_call_callee host n rec _ hrec hhost
    | exact not_both_parse_accessor host n rec hrec hhost
    | exact not_both_parse_access_call_expression host n rec hrec hhost
    | exact not_both_parse_prefix_expression host n rec hrec hhost
    | exact not_both_parse_multiplicative_expression host n rec hrec hhost
    | exact not_both_parse_additive_expression host n rec hrec hhost
    | exact not_both_parse_relational_expression host n rec hrec hhost
    | apply for_each_spread_triple | apply map_for_each_triple
    | apply triple_loop
    | apply triple_bind_same | apply triple_ite | split)

theorem not_both_js_parse_expression (host : Host) (n : Nat) (rec : Parsers)
    (hrec : rec.NotBoth) (hhost : HostNotBoth host) :
    Triple NotBoth (js_parse_expression host n rec) NotBoth := by
  unfold js_parse_expression
  with_reducible repeat' (first
    | intro _
    | exact triple_pure | exact triple_throw | exact triple_stop
    | exact triple_read_only
    | exact not_both_cursor | exact not_both_store
    | exact not_both_clear_break | exact not_both_clear_continue
    | exact not_both_mark_return _ | exact not_both_result _
    | exact not_both_parse_exec _
    | exact not_both_stack_forward | exact not_both_stack_backward
    | exact not_both_parameter_push _ | exact not_both_call_result _
    | exact hrec.statement | exact hrec.expression | exact hrec.additive
    | exact hhost.run _
    | exact not_both_parse_statements n rec hrec
    | exact not_both_parse_function n rec hrec
    | exact not_both_parse_value n rec hrec
    | exact not_both_parse_call_arguments n rec hrec
    | exact not_both_call_callee host n rec _ hrec hhost
    | exact not_both_parse_accessor host n rec hrec hhost
    | exact not_both_parse_access_call_expression host n rec hrec hhost
    | exact not_both_parse_prefix_expression host n rec hrec hhost
    | exact not_both_parse_multiplicative_expression host n rec hrec hhost
    | exact not_both_parse_additive_expression host n rec hrec hhost
    | exact not_both_parse_relational_expression host n rec hrec hhost
    | exact not_both_parse_logical_expression host n rec hrec hhost
    | apply for_each_spread_triple | apply map_for_each_triple
    | apply triple_loop
    | apply triple_bind_same | apply triple_ite | split)

theorem not_both_parse_assignment_expression (host : Host) (n : Nat) (rec : Parsers)
    (hrec : rec.NotBoth) (hhost : HostNotBoth host) :
    Triple NotBoth (_parse_assignment_expression host n rec) NotBoth := by
  unfold _parse_assignment_expression
  with_reducible repeat' (first
    | intro _
    | exact triple_pure | exact triple_throw | exact triple_stop
    | exact triple_read_only
    | exact not_both_cursor | exact not_both_store
    | exact not_both_clear_break | exact not_both_clear_continue
    | exact not_both_mark_return _ | exact not_both_result _
    | exact not_both_parse_exec _
    | exact not_both_stack_forward | exact not_both_stack_backward
    | exact not_both_parameter_push _ | exact not_both_call_result _
    | exact hrec.statement | exact hrec.expression | exact hrec.additive
    | exact hhost.run _
    | exact not_both_parse_statements n rec hrec
    | exact not_both_parse_function n rec hrec
    | exact not_both_parse_value n rec hrec
    | exact not_both_parse_call_arguments n rec hrec
    | exact not_both_call_callee host n rec _ hrec hhost
    | exact not_both_parse_accessor host n rec hrec hhost
    | exact not_both_parse_access_call_expression host n rec hrec hhost
    | exact not_both_parse_prefix_expression host n rec hrec hhost
    | exact not_both_parse_multiplicative_expression host n rec hrec hhost
    | exact not_both_parse_additive_expression host n rec hrec hhost
    | exact not_both_parse_relational_expression host n rec hrec hhost
    | exact not_both_parse_logical_expression host n rec hrec hhost
    | exact not_both_js_parse_expression host n rec hrec hhost
    | apply for_each_spread_triple | apply map_for_each_triple
    | apply triple_loop
    | apply triple_bind_same | apply triple_ite | split)

theorem not_both_parse_declaration_expression (host : Host) (n : Nat) (rec : Parsers)
    (hrec : rec.NotBoth) (hhost : HostNotBoth host) :
    Triple NotBoth (_parse_declaration_expression host n rec) NotBoth := by
  unfold _parse_declaration_expression
  with_reducible repeat' (first
    | intro _
    | exact triple_pure | exact triple_throw | exact triple_stop
    | exact triple_read_only
    | exact not_both_cursor | exact not_both_store
    | exact not_both_clear_break | exact not_both_clear_continue
    | exact not_both_mark_return _ | exact not_both_result _
    | exact not_both_parse_exec _
    | exact not_both_stack_forward | exact not_both_stack_backward
    | exact not_both_parameter_push _ | exact not_both_call_result _
    | exact hrec.statement | exact hrec.expression | exact hrec.additive
    | exact hhost.run _
    | exact not_both_parse_statements n rec hrec
    | exact not_both_parse_function n rec hrec
    | exact not_both_parse_value n rec hrec
    | exact not_both_parse_call_arguments n rec hrec
    | exact not_both_call_callee host n rec _ hrec hhost
    | exact not_both_parse_accessor host n rec hrec hhost
    | exact not_both_parse_access_call_expression host n rec hrec hhost
    | exact not_both_parse_prefix_expression host n rec hrec hhost
    | exact not_both_parse_multiplicative_expression host n rec hrec hhost
    | exact not_both_parse_additive_expression host n rec hrec hhost
    | exact not_both_parse_relational_expression host n rec hrec hhost
    | exact not_both_parse_logical_expression host n rec hrec hhost
    | exact not_both_js_parse_expression host n rec hrec hhost
    | exact not_both_parse_assignment_expression host n rec hrec hhost
    | apply for_each_spread_triple | apply map_for_each_triple
    | apply triple_loop
    | apply triple_bind_same | apply triple_ite | split)

theorem not_both_parse_classic_for (host : Host) (n : Nat) (rec : Parsers)
    (hrec : rec.NotBoth) (hhost : HostNotBoth host) :
    Triple NotBoth (_parse_classic_for host n rec) NotBoth := by
  unfold _parse_classic_for
  with_reducible repeat' (first
    | intro _
    | exact triple_pure | exact triple_throw | exact triple_stop
    | exact triple_read_only
    | exact not_both_cursor | exact not_both_store
    | exact not_both_clear_break | exact not_both_clear_continue
    | exact not_both_mark_return _ | exact not_both_result _
    | exact not_both_parse_exec _
    | exact not_both_stack_forward | exact not_both_stack_backward
    | exact not_both_parameter_push _ | exact not_both_call_result _
    | exact hrec.statement | exact hrec.expression | exact hrec.additive
    | exact hhost.run _
    | exact not_both_parse_statements n rec hrec
    | exact not_both_parse_function n rec hrec
    | exact not_both_parse_value n rec hrec
    | exact not_both_parse_call_arguments n rec hrec
    | exact not_both_call_callee host n rec _ hrec hhost
    | exact not_both_parse_accessor host n rec hrec hhost
    | exact not_both_parse_access_call_expression host n rec hrec hhost
    | exact not_both_parse_prefix_expression host n rec hrec hhost
    | exact not_both_parse_multiplicative_expression host n rec hrec hhost
    | exact not_both_parse_additive_expression host n rec hrec hhost
    | exact not_both_parse_relational_expression host n rec hrec hhost
    | exact not_both_parse_logical_expression host n rec hrec hhost
    | exact not_both_js_parse_expression host n rec hrec hhost
    | exact not_both_parse_assignment_expression host n rec hrec hhost
    | exact not_both_parse_declaration_expression host n rec hrec hhost
    | apply for_each_spread_triple | apply map_for_each_triple
    | apply triple_loop
    | apply triple_bind_same | apply triple_ite | split)

theorem not_both_parse_for_in_of (host : Host) (n : Nat) (rec : Parsers) (for_type : _for_type) (acc : _value_accessor)
    (hrec : rec.NotBoth) (hhost : HostNotBoth host) :
    Triple NotBoth (_parse_for_in_of host n rec for_type acc) NotBoth := by
  unfold _parse_for_in_of
  with_reducible repeat' (first
    | intro _
    | exact triple_pure | exact triple_throw | exact triple_stop
    | exact triple_read_only
    | exact not_both_cursor | exact not_both_store
    | exact not_both_clear_break | exact not_both_clear_continue
    | exact not_both_mark_return _ | exact not_both_result _
    | exact not_both_parse_exec _
    | exact not_both_stack_forward | exact not_both_stack_backward
    | exact not_both_parameter_push _ | exact not_both_call_result _
    | exact hrec.statement | exact hrec.expression | exact hrec.additive
    | exact hhost.run _
    | exact not_both_parse_statements n rec hrec
    | exact not_both_parse_function n rec hrec
    | exact not_both_parse_value n rec hrec
    | exact not_both_parse_call_arguments n rec hrec
    | exact not_both_call_callee host n rec _ hrec hhost
    | exact not_both_parse_accessor host n rec hrec hhost
    | exact not_both_parse_access_call_expression host n rec hrec hhost
    | exact not_both_parse_prefix_expression host n rec hrec hhost
    | exact not_both_parse_multiplicative_expression host n rec hrec hhost
    | exact not_both_parse_additive_expression host n rec hrec hhost
    | exact not_both_parse_relational_expression host n rec hrec hhost
    | exact not_both_parse_logical_expression host n rec hrec hhost
    | exact not_both_js_parse_expression host n rec hrec hhost
    | exact not_both_parse_assignment_expression host n rec hrec hhost
    | exact not_both_parse_declaration_expression host n rec hrec hhost
    | exact not_both_parse_classic_for host n rec hrec hhost
    | apply for_each_spread_triple | apply map_for_each_triple
    | apply triple_loop
    | apply triple_bind_same | apply triple_ite | split)

theorem not_both_parse_while (host : Host) (n : Nat) (rec : Parsers)
    (hrec : rec.NotBoth) (hhost : HostNotBoth host) :
    Triple NotBoth (_parse_while host n rec) NotBoth := by
  unfold _parse_while
  with_reducible repeat' (first
    | intro _
    | exact triple_pure | exact triple_throw | exact triple_stop
    | exact triple_read_only
    | exact not_both_cursor | exact not_both_store
    | exact not_both_clear_break | exact not_both_clear_continue
    | exact not_both_mark_return _ | exact not_both_result _
    | exact not_both_parse_exec _
    | exact not_both_stack_forward | exact not_both_stack_backward
    | exact not_both_parameter_push _ | exact not_both_call_result _
    | exact hrec.statement | exact hrec.expression | exact hrec.additive
    | exact hhost.run _
    | exact not_both_parse_statements n rec hrec
    | exact not_both_parse_function n rec hrec
    | exact not_both_parse_value n rec hrec
    | exact not_both_parse_call_arguments n rec hrec
    | exact not_both_call_callee host n rec _ hrec hhost
    | exact not_both_parse_accessor host n rec hrec hhost
    | exact not_both_parse_access_call_expression host n rec hrec hhost
    | exact not_both_parse_prefix_expression host n rec hrec hhost
    | exact not_both_parse_multiplicative_expression host n rec hrec hhost
    | exact not_both_parse_additive_expression host n rec hrec hhost
    | exact not_both_parse_relational_expression host n rec hrec hhost
    | exact not_both_parse_logical_expression host n rec hrec hhost
    | exact not_both_js_parse_expression host n rec hrec hhost
    | exact not_both_parse_assignment_expression host n rec hrec hhost
    | exact not_both_parse_declaration_expression host n rec hrec hhost
    | exact not_both_parse_classic_for host n rec hrec hhost
    | exact not_both_parse_for_in_of host n rec _ _ hrec hhost
    | apply for_each_spread_triple | apply map_for_each_triple
    | apply triple_loop
    | apply triple_bind_same | apply triple_ite | split)

theorem not_both_parse_do_while (host : Host) (n : Nat) (rec : Parsers)
    (hrec : rec.NotBoth) (hhost : HostNotBoth host) :
    Triple NotBoth (_parse_do_while host n rec) NotBoth := by
  unfold _parse_do_while
  with_reducible repeat' (first
    | intro _
    | exact triple_pure | exact triple_throw | exact triple_stop
    | exact triple_read_only
    | exact not_both_cursor | exact not_both_store
    | exact not_both_clear_break | exact not_both_clear_continue
    | exact not_both_mark_return _ | exact not_both_result _
    | exact not_both_parse_exec _
    | exact not_both_stack_forward | exact not_both_stack_backward
    | exact not_both_parameter_push _ | exact not_both_call_result _
    | exact hrec.statement | exact hrec.expression | exact hrec.additive
    | exact hhost.run _
    | exact not_both_parse_statements n rec hrec
    | exact not_both_parse_function n rec hrec
    | exact not_both_parse_value n rec hrec
    | exact not_both_parse_call_arguments n rec hrec
    | exact not_both_call_callee host n rec _ hrec hhost
    | exact not_both_parse_accessor host n rec hrec hhost
    | exact not_both_parse_access_call_expression host n rec hrec hhost
    | exact not_both_parse_prefix_expression host n rec hrec hhost
    | exact not_both_parse_multiplicative_expression host n rec hrec hhost
    | exact not_both_parse_additive_expression host n rec hrec hhost
    | exact not_both_parse_relational_expression host n rec hrec hhost
    | exact not_both_parse_logical_expression host n rec hrec hhost
    | exact not_both_js_parse_expression host n rec hrec hhost
    | exact not_both_parse_assignment_expression host n rec hrec hhost
    | exact not_both_parse_declaration_expression host n rec hrec hhost
    | exact not_both_parse_classic_for host n rec hrec hhost
    | exact not_both_parse_for_in_of host n rec _ _ hrec hhost
    | exact not_both_parse_while host n rec hrec hhost
    | apply for_each_spread_triple | apply map_for_each_triple
    | apply triple_loop
    | apply triple_bind_same | apply triple_ite | split)

set_option maxHeartbeats 4000000 in
theorem not_both_parse_statement (host : Host) (n : Nat) (rec : Parsers)
    (hrec : rec.NotBoth) (hhost : HostNotBoth host) :
    Triple NotBoth (_parse_statement host n rec) NotBoth := by
  unfold _parse_statement
  with_reducible repeat' (first
    | intro _
    | apply exec_branch | apply exec_accept | apply exec_token
    | apply exec_break | apply exec_continue | apply exec_ite
    | apply exec_weaken
    | exact triple_pure | exact triple_throw | exact triple_stop
    | exact triple_read_only
    | exact not_both_cursor | exact not_both_store
    | exact not_both_clear_break | exact not_both_clear_continue
    | exact not_both_mark_return _ | exact not_both_result _
    | exact not_both_parse_exec _
    | exact not_both_stack_forward | exact not_both_stack_backward
    | exact not_both_parameter_push _ | exact not_both_call_result _
    | exact hrec.statement | exact hrec.expression | exact hrec.additive
    | exact hhost.run _
    | exact not_both_parse_statements n rec hrec
    | exact not_both_parse_function n rec hrec
    | exact not_both_parse_value n rec hrec
    | exact not_both_parse_call_arguments n rec hrec
    | exact not_both_call_callee host n rec _ hrec hhost
    | exact not_both_parse_accessor host n rec hrec hhost
    | exact not_both_parse_access_call_expression host n rec hrec hhost
    | exact not_both_parse_prefix_expression host n rec hrec hhost
    | exact not_both_parse_multiplicative_expression host n rec hrec hhost
    | exact not_both_parse_additive_expression host n rec hrec hhost
    | exact not_both_parse_relational_expression host n rec hrec hhost
    | exact not_both_parse_logical_expression host n rec hrec hhost
    | exact not_both_js_parse_expression host n rec hrec hhost
    | exact not_both_parse_assignment_expression host n rec hrec hhost
    | exact not_both_parse_declaration_expression host n rec hrec hhost
    | exact not_both_parse_classic_for host n rec hrec hhost
    | exact not_both_parse_for_in_of host n rec _ _ hrec hhost
    | exact not_both_parse_while host n rec hrec hhost
    | exact not_both_parse_do_while host n rec hrec hhost
    | apply for_each_spread_triple | apply map_for_each_triple
    | apply triple_loop
    | apply triple_bind_same | apply triple_ite | split)

theorem host_not_both (host : Host)
    (hhost : ∀ c s s1, host c s = .ok s1 →
      s1.mark_break = s.mark_break ∧ s1.mark_continue = s.mark_continue
        ∧ s1.mark_return = s.mark_return) :
    HostNotBoth host := by
  constructor
  intro c
  constructor
  intro s a s1 hs hm
  obtain ⟨h1, h2, _⟩ := hhost c s s1 (host_ok hm)
  intro h
  apply hs
  rw [← h1, ← h2]
  exact h

theorem not_both_parsers (host : Host) (hhost : HostNotBoth host) :
    ∀ n, (parsers host n).NotBoth
  | 0 => ⟨triple_stop, triple_stop, triple_stop⟩
  | n + 1 =>
    ⟨not_both_parse_statement host n _ (not_both_parsers host hhost n) hhost,
     not_both_parse_additive_expression host n _ (not_both_parsers host hhost n) hhost,
     not_both_js_parse_expression host n _ (not_both_parsers host hhost n) hhost⟩

theorem not_both_js_parse_script (host : Host) (hhost : HostNotBoth host) (n : Nat) :
    Triple NotBoth (js_parse_script host n) NotBoth := by
  unfold js_parse_script
  apply triple_loop
  intro _
  apply triple_bind_same triple_read_only
  intro k
  apply triple_ite
  · apply triple_bind_same
      (not_both_parse_statement host n _ (not_both_parsers host hhost n) hhost)
    intro _
    exact triple_pure
  · exact triple_pure

/-- C30, as amended: host callables not touching the flags, a run of
`js_parse_script`, of a statement, of an expression or of an additive expression
that starts in a state where `mark_break` and `mark_continue` are not both set
(such as a state with the three flags clear) returns in such a state; the same
holds for every parse function these call, so `mark_break` and `mark_continue` are
never set together.  `mark_return` is not part of it: it can be set while
`mark_break` or `mark_continue` is. -/
theorem break_and_continue_are_never_both_set (host : Host)
    (hhost : ∀ c s s1, host c s = .ok s1 →
      s1.mark_break = s.mark_break ∧ s1.mark_continue = s.mark_continue
        ∧ s1.mark_return = s.mark_return)
    (n : Nat) (s s1 : js) (hs : NotBoth s) :
    (js_parse_script host n s = .ok ((), s1) → NotBoth s1) ∧
    (_parse_statement host n (parsers host n) s = .ok ((), s1) → NotBoth s1) ∧
    (∀ v, js_parse_expression host n (parsers host n) s = .ok (v, s1) → NotBoth s1) ∧
    (∀ v, _parse_additive_expression host n (parsers host n) s = .ok (v, s1) → NotBoth s1) ∧
    (s.mark_break = false ∧ s.mark_continue = false ∧ s.mark_return = false → NotBoth s) := by
  have hh := host_not_both host hhost
  have hp := not_both_parsers host hh n
  exact ⟨fun h => (not_both_js_parse_script host hh n).run s () s1 hs h,
    fun h => (not_both_parse_statement host n _ hp hh).run s () s1 hs h,
    fun v h => (not_both_js_parse_expression host n _ hp hh).run s v s1 hs h,
    fun v h => (not_both_parse_additive_expression host n _ hp hh).run s v s1 hs h,
    fun h hb => Bool.false_ne_true (h.1.symm.trans hb.1)⟩

set_option maxRecDepth 100000 in
theorem break_and_continue_are_never_both_set_witness :
    NotBoth { js_load break_then_return_src with
      tok_cache_idx := 13
      mark_break := true
      mark_return := true
      heap := [.function 2 []]
      stack := [⟨0, 0, [(sz "f", .function 0)], []⟩]
      result := .null } :=
  (break_and_continue_are_never_both_set no_host (fun _ _ _ h => nomatch h) 30
    (js_load break_then_return_src) _ (fun h => Bool.false_ne_true h.1)).1 (by decide!)

set_option maxRecDepth 100000 in
/-- C30, the claim as written fails: from the state of `js_load`, where the three
flags are clear, the run of `function f(){ break; } return f();` ends with
`mark_break` and `mark_return` both set, and with `continue` in place of `break`
it ends with `mark_continue` and `mark_return` both set. -/
theorem return_is_set_next_to_break_or_continue :
    (js_load break_then_return_src).marks = (false, false, false) ∧
    (js_final (js_parse_script no_host 30 (js_load break_then_return_src))).map js.marks
      = some (true, false, true) ∧
    (js_load continue_then_return_src).marks = (false, false, false) ∧
    (js_final (js_parse_script no_host 30 (js_load continue_then_return_src))).map js.marks
      = some (false, true, true) := by
  decide!

/-! ## The error message -/

/-- C31: `js_parser_print_error` reads the line of the token under the cursor
without an end check.  With the cursor inside the token array it returns the line and
the kind of that token; with the cursor at or past the end the kind is end-of-file,
obtained with the end check of `_get_token_state`, and the read of the line is
outside the token array.  The program `let x = 1` raises "Expect ;" with the cursor
at the end of its four tokens, and the message for it makes that read. -/
theorem print_error_reads_the_line_past_the_end :
    (∀ (s : js) (t : js_token), s.tok = some t →
      js_parser_print_error s = .ok ((t.line, t.stat), s)) ∧
    (∀ s : js, s.tok_cache.length ≤ s.tok_cache_idx →
      _get_token_state s = .ok (.ts_end_of_file, s) ∧
      _get_token_line s = .error .token_out_of_range ∧
      js_parser_print_error s = .error .token_out_of_range) ∧
    (_parse_declaration_expression no_host 10 (parsers no_host 10) (js_load "let x = 1")
        = .ok ((), missing_semicolon_example 4 [(sz "x", .number 1)]) ∧
      (missing_semicolon_example 4 [(sz "x", .number 1)]).tok_cache.length = 4 ∧
      _expect .ts_semicolon "Expect ;" (missing_semicolon_example 4 [(sz "x", .number 1)])
        = .error (.throw "Expect ;") ∧
      _parse_statement no_host 10 (parsers no_host 10) (js_load "let x = 1")
        = .error (.throw "Expect ;") ∧
      js_parser_print_error (missing_semicolon_example 4 [(sz "x", .number 1)])
        = .error .token_out_of_range) := by
  refine ⟨?_, ?_, ?_⟩
  · intro s t ht
    simp only [js_parser_print_error, _get_token_line, _tok_field, run_bind, ht,
      (run_token_some ht).1, run_pure]
  · intro s hs
    have ht : s.tok = none := by
      unfold js.tok
      exact List.get?_eq_none.mpr hs
    simp only [js_parser_print_error, _get_token_line, _tok_field, run_bind, ht,
      run_token_none ht, and_self]
  · decide!

/-! ## `parse_exec` is restored -/

theorem exec_parse_exec {s : js} (h : s.exec = true) : s.parse_exec = true := by
  unfold js.exec at h
  revert h
  cases s.parse_exec <;> simp

theorem parse_exec_kept {α : Type} {m : Parse α} (hskim : Pres skim_rel m)
    (hexec : Triple ExecOn m ExecOn) (s s1 : js) (a : α) (h : m s = .ok (a, s1)) :
    s1.parse_exec = s.parse_exec := by
  cases hx : s.exec with
  | false =>
    have e := hskim.run s a s1 h hx
    rw [e]
  | true =>
    have hp := exec_parse_exec hx
    rw [hp]
    exact hexec.run s a s1 hp h

/-- C33: host callables leaving `parse_exec` set when they are called with it set,
every call of `_parse_statement`, `js_parse_expression`, `_parse_accessor`,
`_parse_value` and `_parse_function` that returns normally leaves `parse_exec` as it
was on entry; a statement entered with `parse_exec` true returns with it true. -/
theorem parse_exec_is_restored (host : Host)
    (hhost : ∀ c s s1, host c s = .ok s1 → s.parse_exec = true → s1.parse_exec = true)
    (n : Nat) (s s1 : js) :
    (∀ a, _parse_statement host n (parsers host n) s = .ok (a, s1) →
      s1.parse_exec = s.parse_exec) ∧
    (∀ v, js_parse_expression host n (parsers host n) s = .ok (v, s1) →
      s1.parse_exec = s.parse_exec) ∧
    (∀ acc, _parse_accessor host n (parsers host n) s = .ok (acc, s1) →
      s1.parse_exec = s.parse_exec) ∧
    (∀ v, _parse_value n (parsers host n) s = .ok (v, s1) → s1.parse_exec = s.parse_exec) ∧
    (∀ a, _parse_function n (parsers host n) s = .ok (a, s1) →
      s1.parse_exec = s.parse_exec) ∧
    (∀ a, s.parse_exec = true → _parse_statement host n (parsers host n) s = .ok (a, s1) →
      s1.parse_exec = true) := by
  have hh := host_exec_on host hhost
  have he := exec_on_parsers host hh n
  have hk := skim_parsers host n
  refine ⟨?_, ?_, ?_, ?_, ?_, ?_⟩
  · intro a h
    exact parse_exec_kept (skim_parse_statement host n _ hk)
      (exec_on_parse_statement host n _ he hh) s s1 a h
  · intro v h
    exact parse_exec_kept (skim_js_parse_expression host n _ hk)
      (exec_on_js_parse_expression host n _ he hh) s s1 v h
  · intro acc h
    exact parse_exec_kept (skim_parse_accessor host n _ hk)
      (exec_on_parse_accessor host n _ he hh) s s1 acc h
  · intro v h
    exact parse_exec_kept (skim_parse_value n _ hk) (exec_on_parse_value n _ he) s s1 v h
  · intro a h
    exact parse_exec_kept (skim_parse_function n _ hk) (exec_on_parse_function n _ he) s s1 a h
  · intro a hp h
    exact (exec_on_parse_statement host n _ he hh).run s a s1 hp h

set_option maxRecDepth 100000 in
theorem parse_exec_is_restored_witness :
    ({ js_load parse_exec_example_src with
        tok_cache_idx := 22
        heap := [.function 16 []] } : js).parse_exec
      = (js_load parse_exec_example_src).parse_exec :=
  (parse_exec_is_restored no_host (fun _ _ _ h => nomatch h) 30
    (js_load parse_exec_example_src) _).1 () (by decide!)

/-! ## The call mechanism and the loop flags -/

/-- C36: a call of a script function (lines 471–493) whose body returned in the
state `sb`: after the call `mark_return` is false, and `mark_break` and
`mark_continue` are as the body left them.  With `function f(){ break; }`, the loop
`while (true) { f(); n += 1; }` ends with `n` equal to 0; with
`function f(){ continue; }`, the loop `while (i < 3) { i += 1; f(); n += 1; }` ends
with `i` equal to 3 and `n` equal to 0; and after the statements `f(); n += 1;`
outside a loop `mark_break` is set and `n` is 0. -/
theorem call_clears_only_mark_return (host : Host) (n : Nat) (rec : Parsers)
    (acc r : _value_accessor) (s sb s1 : js) (f index : Nat) (closure : js_value_map)
    (fr : js_stack_frame) (rest : List js_stack_frame)
    (hcell : s.heap.get? f = some (.function index closure)) (hst : s.stack = fr :: rest)
    (hbody : _parse_function n rec { s with
        tok_cache_idx := index
        stack := { fr with vars := closure_capture fr.vars closure } :: rest } = .ok ((), sb))
    (h : _call_result acc { sb with tok_cache_idx := s.tok_cache_idx } = .ok (r, s1)) :
    (do _call_callee host n rec (.function f); _call_result acc : Parse _value_accessor) s
      = .ok (r, s1) ∧
    s1.mark_return = false ∧ s1.mark_break = sb.mark_break ∧
    s1.mark_continue = sb.mark_continue ∧
    js_var_after call_break_src "n" = some (.number 0) ∧
    js_var_after call_continue_src "n" = some (.number 0) ∧
    js_var_after call_continue_src "i" = some (.number 3) ∧
    (js_final (js_parse_script no_host 30
        (js_load "function f()\x7b break; \x7d let n = 0; f(); n += 1;"))).map
      (fun s => (s.mark_break, s.var "n")) = some (true, some (.number 0)) := by
  have hp := call_result_post acc r _ s1 h
  refine ⟨?_, hp.2.2.2.1, hp.2.2.2.2.2.2.2.1, hp.2.2.2.2.2.2.2.2, ?_, ?_, ?_, ?_⟩
  · rw [run_bind, call_callee_script host n rec f index closure s fr rest hcell hst, hbody]
    exact h
  · decide!
  · decide!
  · decide!
  · decide!

set_option maxRecDepth 100000 in
theorem call_clears_only_mark_return_witness :
    (do _call_callee no_host 10 (parsers no_host 10) (.function 0)
        _call_result ⟨.at_identifier, .undefined, [], 0⟩ : Parse _value_accessor)
      (call_break_example 11 false [⟨24, 25, [], []⟩, ⟨0, 0, [(sz "f", .function 0)], []⟩])
      = .ok (⟨.at_value, .null, [], 0⟩,
        call_break_example 11 true [⟨0, 0, [(sz "f", .function 0)], []⟩]) :=
  (call_clears_only_mark_return no_host 10 (parsers no_host 10)
    ⟨.at_identifier, .undefined, [], 0⟩ ⟨.at_value, .null, [], 0⟩
    (call_break_example 11 false [⟨24, 25, [], []⟩, ⟨0, 0, [(sz "f", .function 0)], []⟩])
    (call_break_example 8 true [⟨24, 25, [], []⟩, ⟨0, 0, [(sz "f", .function 0)], []⟩])
    (call_break_example 11 true [⟨0, 0, [(sz "f", .function 0)], []⟩])
    0 2 [] ⟨24, 25, [], []⟩ [⟨0, 0, [(sz "f", .function 0)], []⟩]
    (by decide!) rfl (by decide!) (by decide!)).1

/-! ## Expression statements -/

set_option maxRecDepth 100000 in
set_option maxHeartbeats 1000000 in
/-- C37: a statement, in execute mode or in skim mode, that starts with none of the
tokens of the other statement forms and whose accessor chain has been parsed, the
token `k` following.  When `k` is `;` the statement returns without an error, the
`;` consumed; when `k` is neither `;` nor an assignment operator nor `++` or `--`
(an operator such as `+`, `==` or `?`), the statement raises "Expect ;".  So do
`1 + 2;`, `a == b;` and `c ? f() : g();`, run or skimmed inside `if (false) { }`;
the statement `x;` with `x` not declared returns without an error, run or skimmed. -/
theorem expression_statement_is_one_accessor_chain (host : Host) (n : Nat) (rec : Parsers)
    (s s1 : js) (acc : _value_accessor) (k0 k : js_token_state)
    (hk0 : _get_token_state s = .ok (k0, s))
    (hstart : k0 ≠ .ts_semicolon ∧ k0 ≠ .ts_left_brace ∧ k0 ≠ .ts_if ∧ k0 ≠ .ts_while
      ∧ k0 ≠ .ts_do ∧ k0 ≠ .ts_for ∧ k0 ≠ .ts_break ∧ k0 ≠ .ts_continue ∧ k0 ≠ .ts_function
      ∧ k0 ≠ .ts_return ∧ k0 ≠ .ts_delete ∧ k0 ≠ .ts_let)
    (hacc : _parse_accessor host n rec s = .ok (acc, s1))
    (hk : _get_token_state s1 = .ok (k, s1))
    (hop : k ≠ .ts_assignment ∧ k ≠ .ts_plus_assignment ∧ k ≠ .ts_minus_assignment
      ∧ k ≠ .ts_multiplication_assignment ∧ k ≠ .ts_division_assignment
      ∧ k ≠ .ts_mod_assignment ∧ k ≠ .ts_plus_plus ∧ k ≠ .ts_minus_minus) :
    (k = .ts_semicolon → _parse_statement host n rec s
      = .ok ((), { s1 with tok_cache_idx := s1.tok_cache_idx + 1 })) ∧
    (k ≠ .ts_semicolon → _parse_statement host n rec s = .error (.throw "Expect ;")) ∧
    js_error_of (js_parse_script no_host 30 (js_load "1 + 2;")) = some (.throw "Expect ;") ∧
    js_error_of (js_parse_script no_host 30 (js_load "a == b;")) = some (.throw "Expect ;") ∧
    js_error_of (js_parse_script no_host 30 (js_load "c ? f() : g();"))
      = some (.throw "Expect ;") ∧
    js_error_of (js_parse_script no_host 30 (js_load "if (false) \x7b 1 + 2; \x7d"))
      = some (.throw "Expect ;") ∧
    js_error_of (js_parse_script no_host 30 (js_load "if (false) \x7b a == b; \x7d"))
      = some (.throw "Expect ;") ∧
    js_error_of (js_parse_script no_host 30 (js_load "if (false) \x7b c ? f() : g(); \x7d"))
      = some (.throw "Expect ;") ∧
    js_parse_script no_host 30 (js_load "x;")
      = .ok ((), { js_load "x;" with tok_cache_idx := 2 }) ∧
    js_error_of (js_parse_script no_host 30 (js_load "if (false) \x7b x; \x7d")) = none := by
  obtain ⟨a1, a2, a3, a4, a5, a6, a7, a8, a9, a10, a11, a12⟩ := hstart
  obtain ⟨b1, b2, b3, b4, b5, b6, b7, b8⟩ := hop
  have hassign : _parse_assignment_expression host n rec s = .ok ((), s1) := by
    unfold _parse_assignment_expression
    cases hx : s.exec <;>
      simp only [run_bind, run_require_exec, hx, Bool.false_eq_true, if_false, if_true, run_ite,
        hacc, hk, b1, b2, b3, b4, b5, b6, b7, b8, or_self, run_pure]
  have hst : _parse_statement host n rec s
      = (do _parse_assignment_expression host n rec; _expect .ts_semicolon "Expect ;" :
        Parse Unit) s := by
    unfold _parse_statement
    cases hx : s.exec <;>
      simp only [run_bind, run_require_exec, hx, Bool.false_eq_true, if_false, if_true, run_ite,
        run_accept, hk0, a1, a2, a3, a4, a5, a6, a7, a8, a9, a10, a11, a12]
  refine ⟨?_, ?_, by decide!, by decide!, by decide!, by decide!, by decide!, by decide!,
    by decide!, by decide!⟩
  · intro h
    subst h
    rw [hst, run_bind, hassign]
    simp only [run_expect, run_accept, hk, if_true]
  · intro h
    rw [hst, run_bind, hassign]
    simp only [run_expect, run_accept, hk, h, if_false]

set_option maxRecDepth 100000 in
theorem expression_statement_is_one_accessor_chain_witness :
    _parse_statement no_host 10 (parsers no_host 10) (js_load "1 + 2;")
      = .error (.throw "Expect ;") :=
  (expression_statement_is_one_accessor_chain no_host 10 (parsers no_host 10)
      (js_load "1 + 2;") { js_load "1 + 2;" with tok_cache_idx := 1 }
      ⟨.at_value, .number 1, [], 0⟩ .ts_number .ts_plus (by decide!) (by decide) (by decide!)
      (by decide!) (by decide)).2.1 (by decide)

/-! ## A classic `for` without a condition, after a `return` -/

theorem bind_error {α β : Type} {m : Parse α} {f : α → Parse β} {s : js} {e : js_error}
    (h : m s = .error e) : (m >>= f) s = .error e := by
  rw [run_bind, h]

theorem skim_classic_for_step (host : Host) (n : Nat) :
    Pres skim_rel (classic_for_step host n (parsers host n)) := by
  unfold classic_for_step
  with_reducible repeat' (first
    | intro _
    | exact pres_pure | exact skim_accept _
    | exact skim_parse_assignment_expression host n _ (skim_parsers host n)
    | apply pres_bind | apply pres_ite | split)

theorem skim_classic_for_skim_step (host : Host) (n : Nat) :
    Pres skim_rel (do
      if !(← _accept .ts_right_parenthesis) then
        _parse_assignment_expression host n (parsers host n)
        _expect .ts_right_parenthesis "Expect )" : Parse Unit) := by
  with_reducible repeat' (first
    | intro _
    | exact pres_pure | exact skim_accept _ | exact skim_expect _ _
    | exact skim_parse_assignment_expression host n _ (skim_parsers host n)
    | apply pres_bind | apply pres_ite | split)

/-- A statement that starts with none of the tokens of the other statement forms is
an assignment expression and a `;`. -/
theorem expression_statement_run (host : Host) (n : Nat) (rec : Parsers) (s : js)
    (k0 : js_token_state) (hk0 : _get_token_state s = .ok (k0, s))
    (hstart : k0 ≠ .ts_semicolon ∧ k0 ≠ .ts_left_brace ∧ k0 ≠ .ts_if ∧ k0 ≠ .ts_while
      ∧ k0 ≠ .ts_do ∧ k0 ≠ .ts_for ∧ k0 ≠ .ts_break ∧ k0 ≠ .ts_continue ∧ k0 ≠ .ts_function
      ∧ k0 ≠ .ts_return ∧ k0 ≠ .ts_delete ∧ k0 ≠ .ts_let) :
    _parse_statement host n rec s
      = (do _parse_assignment_expression host n rec; _expect .ts_semicolon "Expect ;" :
        Parse Unit) s := by
  obtain ⟨a1, a2, a3, a4, a5, a6, a7, a8, a9, a10, a11, a12⟩ := hstart
  unfold _parse_statement
  cases hx : s.exec <;>
    simp only [run_bind, run_require_exec, hx, Bool.false_eq_true, if_false, if_true, run_ite,
      run_accept, hk0, a1, a2, a3, a4, a5, a6, a7, a8, a9, a10, a11, a12]

/-- A round of a classic `for` with an empty condition from a state in which
`mark_return` is set: the condition counts as true, step and body are skimmed, and
the state afterwards is the state before with the cursor at the end of the body. -/
theorem classic_for_round_after_return (host : Host) (n : Nat) (b : Nat) (s : js)
    (r : Bool × js × js × js × js)
    (hp : s.parse_exec = true) (hc : s.mark_continue = false) (hr : s.mark_return = true)
    (hsemi : _get_token_state { s with tok_cache_idx := b }
      = .ok (.ts_semicolon, { s with tok_cache_idx := b }))
    (h : classic_for_round host n (parsers host n) b s r) :
    r.1 = true ∧
    r.2.1 = { s with tok_cache_idx := b + 1 } ∧
    r.2.2.1 = { s with tok_cache_idx := r.2.2.1.tok_cache_idx, parse_exec := false } ∧
    r.2.2.2.1 = { s with tok_cache_idx := r.2.2.2.1.tok_cache_idx } ∧
    classic_for_next r = { s with tok_cache_idx := r.2.2.2.1.tok_cache_idx } := by
  obtain ⟨c, s1, s2, s3, s4⟩ := r
  obtain ⟨h1, h2, h3, h4⟩ := h
  simp only [] at h1 h2 h3 h4 ⊢
  unfold classic_for_cond at h1
  rw [bind_eq (accept_eq hsemi)] at h1
  simp only [if_true, run_pure] at h1
  cases h1
  have e2 : s2 = { s with tok_cache_idx := s2.tok_cache_idx, parse_exec := false } := by
    unfold classic_for_skim_step at h2
    rw [run_bind, run_set_parse_exec] at h2
    simp only [] at h2
    have := skim_state (skim_classic_for_skim_step host n) h2
      (by simp only [js.exec, Bool.false_and])
    rw [this]
  have e3 : s3 = { s with tok_cache_idx := s3.tok_cache_idx } := by
    have := skim_state (skim_parsers host n).statement h3
      (by rw [e2]; simp only [js.exec, hr, Bool.not_true, Bool.and_false])
    rw [this, e2]
    simp only [hp]
  have e4 : s4 = { s with tok_cache_idx := s4.tok_cache_idx } := by
    have := skim_state (skim_classic_for_step host n) h4
      (by rw [e3]; simp only [js.exec, hr, Bool.not_true, Bool.and_false])
    rw [this, e3]
    simp only [hc]
  refine ⟨rfl, rfl, e2, e3, ?_⟩
  unfold classic_for_next
  simp only []
  rw [e4]

theorem classic_for_loop_after_return (host : Host) (n : Nat) (b : Nat) (s : js)
    (r : Bool × js × js × js × js)
    (hp : s.parse_exec = true) (hb : s.mark_break = false) (hc : s.mark_continue = false)
    (hr : s.mark_return = true)
    (hsemi : _get_token_state { s with tok_cache_idx := b }
      = .ok (.ts_semicolon, { s with tok_cache_idx := b }))
    (h : classic_for_round host n (parsers host n) b s r) :
    ∀ (fuel i : Nat),
      js_loop (classic_for_body host n (parsers host n) b) fuel ()
        { s with tok_cache_idx := i }
      = .error .out_of_fuel := by
  intro fuel
  induction fuel with
  | zero =>
    intro i
    rfl
  | succ k ih =>
    intro i
    have hnext := (classic_for_round_after_return host n b s r hp hc hr hsemi h).2.2.2.2
    have ht : (({ s with tok_cache_idx := i } : js).parse_exec
        && !({ s with tok_cache_idx := i } : js).mark_break) = true := by
      simp only [hp, hb, Bool.not_false, Bool.and_self]
    have hround : classic_for_round host n (parsers host n) b { s with tok_cache_idx := i } r := h
    refine (loop_inl () (classic_for_next r)
      (classic_for_round_run host n (parsers host n) b _ r ht hround)).trans ?_
    rw [hnext]
    exact ih _

/-! ## The run of `for_return_src` -/

set_option maxRecDepth 100000 in
theorem for_return_scan :
    js_scan for_return_src = for_return_tokens ∧ sz for_return_src = for_return_bytes := by
  decide!

set_option maxRecDepth 100000 in
set_option smartUnfolding false in
theorem for_return_declare (m : Nat) :
    _parse_statement no_host (m + 10) (parsers no_host (m + 10)) (js_load for_return_src) =
    .ok ((), for_return_state 16 true false .undefined [⟨0, 0, [(sz "f", .function 0)], []⟩]) := by
  simp only [js_load, for_return_scan.1, for_return_scan.2]
  rfl

set_option maxRecDepth 100000 in
set_option smartUnfolding false in
/-- The first round of the `for` of `f`: the body executes `return 1`. -/
theorem for_return_first_round (m : Nat) :
    classic_for_round no_host (m + 9) (parsers no_host (m + 9)) 8
      (for_return_state 8 true false .undefined for_return_frames)
      (true, for_return_state 9 true false .undefined for_return_frames,
        for_return_state 10 false false .undefined for_return_frames,
        for_return_state 15 true true (.number 1) for_return_frames,
        for_return_state 10 true true (.number 1) for_return_frames) :=
  ⟨rfl, rfl, rfl, rfl⟩

set_option maxRecDepth 100000 in
set_option smartUnfolding false in
/-- A later round of the `for` of `f`: step and body are skimmed. -/
theorem for_return_later_round (m : Nat) :
    classic_for_round no_host (m + 9) (parsers no_host (m + 9)) 8
      (for_return_state 15 true true (.number 1) for_return_frames)
      (true, for_return_state 9 true true (.number 1) for_return_frames,
        for_return_state 10 false true (.number 1) for_return_frames,
        for_return_state 15 true true (.number 1) for_return_frames,
        for_return_state 10 true true (.number 1) for_return_frames) :=
  ⟨rfl, rfl, rfl, rfl⟩


theorem for_return_exec (idx : Nat) (result : js_value) (stack : List js_stack_frame) :
    (for_return_state idx true false result stack).exec = true := rfl

set_option maxRecDepth 100000 in
set_option smartUnfolding false in
/-- The `for` of `f` from its condition on, in the call: no bound on the rounds is
enough. -/
theorem for_return_loop (m : Nat) :
    _parse_classic_for no_host (m + 9) (parsers no_host (m + 9))
      (for_return_state 8 true false .undefined for_return_frames) = .error .out_of_fuel := by
  unfold _parse_classic_for
  refine (bind_eq (run_get _)).trans ?_
  refine bind_error ?_
  refine (loop_inl () (for_return_state 15 true true (.number 1) for_return_frames)
    (classic_for_round_run no_host (m + 9) (parsers no_host (m + 9)) 8
      (for_return_state 8 true false .undefined for_return_frames) _ rfl
      (for_return_first_round m))).trans ?_
  exact classic_for_loop_after_return no_host (m + 9) 8
    (for_return_state 15 true true (.number 1) for_return_frames) _ rfl rfl rfl rfl rfl
    (for_return_later_round m) (m + 8) 15

set_option maxRecDepth 100000 in
set_option smartUnfolding false in
theorem for_return_for_statement (m : Nat) :
    _parse_statement no_host (m + 9) (parsers no_host (m + 9))
      (for_return_state 5 true false .undefined
        [⟨40, 41, [], []⟩, ⟨0, 0, [(sz "f", .function 0)], []⟩]) = .error .out_of_fuel := by
  rw [for_statement_exec no_host (m + 9) _
    (for_return_state 5 true false .undefined
      [⟨40, 41, [], []⟩, ⟨0, 0, [(sz "f", .function 0)], []⟩]) rfl rfl]
  refine (bind_at () (for_return_state 5 true false .undefined for_return_frames) rfl).trans ?_
  refine (bind_at () (for_return_state 6 true false .undefined for_return_frames) rfl).trans ?_
  refine (bind_at () (for_return_state 7 true false .undefined for_return_frames) rfl).trans ?_
  refine (bind_at ((.classic_for, ⟨.at_value, .undefined, [], 0⟩) : _for_type × _value_accessor)
    (for_return_state 8 true false .undefined for_return_frames) rfl).trans ?_
  simp only []
  rw [if_pos True.intro]
  exact bind_error (for_return_loop m)


set_option maxRecDepth 100000 in
set_option smartUnfolding false in
/-- The call of `f` with the actuals bound: the body does not return. -/
theorem for_return_call (m : Nat) :
    _call_callee no_host (m + 10) (parsers no_host (m + 10)) (.function 0)
      (for_return_state 19 true false .undefined
        [⟨40, 41, [], []⟩, ⟨0, 0, [(sz "f", .function 0)], []⟩]) = .error .out_of_fuel := by
  have hstmts : _parse_statements (m + 10) (parsers no_host (m + 10))
      (for_return_state 5 true false .undefined
        [⟨40, 41, [], []⟩, ⟨0, 0, [(sz "f", .function 0)], []⟩]) = .error .out_of_fuel := by
    unfold _parse_statements
    rw [parsers_statement]
    refine loop_error ?_
    refine (bind_at .ts_for (for_return_state 5 true false .undefined
      [⟨40, 41, [], []⟩, ⟨0, 0, [(sz "f", .function 0)], []⟩]) rfl).trans ?_
    rw [if_pos (by decide)]
    exact bind_error (for_return_for_statement m)
  have hfn : _parse_function (m + 10) (parsers no_host (m + 10))
      (for_return_state 2 true false .undefined
        [⟨40, 41, [], []⟩, ⟨0, 0, [(sz "f", .function 0)], []⟩]) = .error .out_of_fuel := by
    rw [parse_function_exec _ _ _ (for_return_exec 2 _ _)]
    refine (bind_at () (for_return_state 4 true false .undefined
      [⟨40, 41, [], []⟩, ⟨0, 0, [(sz "f", .function 0)], []⟩]) rfl).trans ?_
    refine (bind_at () (for_return_state 5 true false .undefined
      [⟨40, 41, [], []⟩, ⟨0, 0, [(sz "f", .function 0)], []⟩]) rfl).trans ?_
    exact bind_error hstmts
  rw [call_callee_script no_host (m + 10) _ 0 2 []
    (for_return_state 19 true false .undefined
      [⟨40, 41, [], []⟩, ⟨0, 0, [(sz "f", .function 0)], []⟩])
    ⟨40, 41, [], []⟩ [⟨0, 0, [(sz "f", .function 0)], []⟩] rfl rfl]
  have hfn1 : _parse_function (m + 10) (parsers no_host (m + 10))
      { for_return_state 19 true false .undefined
          [⟨40, 41, [], []⟩, ⟨0, 0, [(sz "f", .function 0)], []⟩] with
        tok_cache_idx := 2
        stack := { (⟨40, 41, [], []⟩ : js_stack_frame) with
          vars := closure_capture (⟨40, 41, [], []⟩ : js_stack_frame).vars [] } ::
            [⟨0, 0, [(sz "f", .function 0)], []⟩] } = .error .out_of_fuel := hfn
  rw [hfn1]

set_option maxRecDepth 100000 in
set_option smartUnfolding false in
/-- The statement `f();` after the declaration. -/
theorem for_return_statement (m : Nat) :
    _parse_statement no_host (m + 10) (parsers no_host (m + 10))
      (for_return_state 16 true false .undefined [⟨0, 0, [(sz "f", .function 0)], []⟩])
      = .error .out_of_fuel := by
  have hacc : _parse_accessor no_host (m + 10) (parsers no_host (m + 10))
      (for_return_state 16 true false .undefined [⟨0, 0, [(sz "f", .function 0)], []⟩])
      = .error .out_of_fuel := by
    unfold _parse_accessor
    refine (bind_eq (run_require_exec _)).trans ?_
    rw [for_return_exec, if_pos rfl]
    refine (bind_at (⟨.at_identifier, .undefined, for_return_bytes.drop 39, 1⟩ : _value_accessor)
      (for_return_state 17 true false .undefined [⟨0, 0, [(sz "f", .function 0)], []⟩])
      rfl).trans ?_
    refine loop_error ?_
    refine (bind_at false (for_return_state 17 true false .undefined
      [⟨0, 0, [(sz "f", .function 0)], []⟩]) rfl).trans ?_
    rw [if_neg Bool.false_ne_true]
    refine (bind_at false (for_return_state 17 true false .undefined
      [⟨0, 0, [(sz "f", .function 0)], []⟩]) rfl).trans ?_
    rw [if_neg Bool.false_ne_true]
    refine (bind_at false (for_return_state 17 true false .undefined
      [⟨0, 0, [(sz "f", .function 0)], []⟩]) rfl).trans ?_
    rw [if_neg Bool.false_ne_true]
    refine (bind_at .ts_left_parenthesis (for_return_state 17 true false .undefined
      [⟨0, 0, [(sz "f", .function 0)], []⟩]) rfl).trans ?_
    rw [if_pos rfl]
    refine (bind_at (.function 0) (for_return_state 17 true false .undefined
      [⟨0, 0, [(sz "f", .function 0)], []⟩]) rfl).trans ?_
    refine (bind_at () (for_return_state 17 true false .undefined
      [⟨40, 41, [], []⟩, ⟨0, 0, [(sz "f", .function 0)], []⟩]) rfl).trans ?_
    refine (bind_at () (for_return_state 18 true false .undefined
      [⟨40, 41, [], []⟩, ⟨0, 0, [(sz "f", .function 0)], []⟩]) rfl).trans ?_
    refine (bind_at () (for_return_state 19 true false .undefined
      [⟨40, 41, [], []⟩, ⟨0, 0, [(sz "f", .function 0)], []⟩]) rfl).trans ?_
    exact bind_error (for_return_call m)
  have hassign : _parse_assignment_expression no_host (m + 10) (parsers no_host (m + 10))
      (for_return_state 16 true false .undefined [⟨0, 0, [(sz "f", .function 0)], []⟩])
      = .error .out_of_fuel := by
    unfold _parse_assignment_expression
    refine (bind_eq (run_require_exec _)).trans ?_
    rw [for_return_exec, if_pos rfl]
    exact bind_error hacc
  rw [expression_statement_run no_host (m + 10) _
    (for_return_state 16 true false .undefined [⟨0, 0, [(sz "f", .function 0)], []⟩])
    .ts_identifier rfl (by decide)]
  exact bind_error hassign

/-- The run of `for_return_src`: with no fuel does it return. -/
theorem for_return_run (n : Nat) :
    js_parse_script no_host n (js_load for_return_src) = .error .out_of_fuel := by
  by_cases h : n < 10
  · interval_cases n <;> decide!
  · obtain ⟨m, rfl⟩ : ∃ m, n = m + 10 := ⟨n - 10, by omega⟩
    unfold js_parse_script
    refine (loop_inl ()
      (for_return_state 16 true false .undefined [⟨0, 0, [(sz "f", .function 0)], []⟩])
      ?_).trans ?_
    · refine (bind_at .ts_function (js_load for_return_src) (by decide!)).trans ?_
      rw [if_pos (by decide)]
      refine (bind_eq (for_return_declare m)).trans ?_
      rfl
    refine loop_error ?_
    refine (bind_at .ts_identifier
      (for_return_state 16 true false .undefined [⟨0, 0, [(sz "f", .function 0)], []⟩])
      rfl).trans ?_
    rw [if_pos (by decide)]
    exact bind_error (for_return_statement m)

/-- C35: a classic `for` whose condition, starting at token `b`, is empty (the token
at `b` is the `;`), in a state `s` with `parse_exec` set, `mark_break` and
`mark_continue` clear and `mark_return` set, as after a round whose body executed a
`return`; `r` is a round from `s`.  The condition of the round counts as true, its
step and its body are skimmed (they leave the state as it was but for the cursor and,
during the step, `parse_exec`), and the state after the round is `s` with the cursor
at the end of the body.  So the loop of the statement (`classic_for_body`, which is
the loop of `_parse_classic_for`) does not exit within any number `fuel` of rounds,
from whatever cursor, and `_parse_classic_for` does not return.  The run of
`function f(){ for (;;) { return 1; } } f();` does not return with any fuel. -/
theorem classic_for_without_condition_never_exits_after_return (host : Host) (n : Nat)
    (b : Nat) (s : js) (r : Bool × js × js × js × js)
    (hp : s.parse_exec = true) (hb : s.mark_break = false) (hc : s.mark_continue = false)
    (hr : s.mark_return = true)
    (hsemi : _get_token_state { s with tok_cache_idx := b }
      = .ok (.ts_semicolon, { s with tok_cache_idx := b }))
    (h : classic_for_round host n (parsers host n) b s r) :
    r.1 = true ∧
    r.2.2.1 = { s with tok_cache_idx := r.2.2.1.tok_cache_idx, parse_exec := false } ∧
    r.2.2.2.1 = { s with tok_cache_idx := r.2.2.2.1.tok_cache_idx } ∧
    classic_for_next r = { s with tok_cache_idx := r.2.2.2.1.tok_cache_idx } ∧
    (∀ fuel i : Nat, js_loop (classic_for_body host n (parsers host n) b) fuel ()
      { s with tok_cache_idx := i } = .error .out_of_fuel) ∧
    (∀ (rec : Parsers) (s0 : js), _parse_classic_for host n rec s0 = (do
      js_loop (classic_for_body host n rec s0.tok_cache_idx) n ()
      set_parse_exec true
      set_mark_break false
      set_mark_continue false : Parse Unit) s0) ∧
    _parse_classic_for host n (parsers host n) { s with tok_cache_idx := b }
      = .error .out_of_fuel ∧
    (∀ fuel : Nat, js_parse_script no_host fuel (js_load for_return_src)
      = .error .out_of_fuel) := by
  have h1 := classic_for_round_after_return host n b s r hp hc hr hsemi h
  have h2 := classic_for_loop_after_return host n b s r hp hb hc hr hsemi h
  refine ⟨h1.1, h1.2.2.1, h1.2.2.2.1, h1.2.2.2.2, h2, fun rec s0 => rfl, ?_, for_return_run⟩
  unfold _parse_classic_for
  refine (bind_eq (run_get _)).trans ?_
  exact bind_error (h2 n b)

set_option maxRecDepth 100000 in
theorem classic_for_without_condition_never_exits_after_return_witness :
    classic_for_round no_host 9 (parsers no_host 9) 8
      (for_return_state 15 true true (.number 1) for_return_frames)
      (true, for_return_state 9 true true (.number 1) for_return_frames,
        for_return_state 10 false true (.number 1) for_return_frames,
        for_return_state 15 true true (.number 1) for_return_frames,
        for_return_state 10 true true (.number 1) for_return_frames) ∧
    _parse_classic_for no_host 9 (parsers no_host 9)
      (for_return_state 8 true true (.number 1) for_return_frames) = .error .out_of_fuel :=
  ⟨for_return_later_round 0,
    (classic_for_without_condition_never_exits_after_return no_host 9 8
      (for_return_state 15 true true (.number 1) for_return_frames)
      (true, for_return_state 9 true true (.number 1) for_return_frames,
        for_return_state 10 false true (.number 1) for_return_frames,
        for_return_state 15 true true (.number 1) for_return_frames,
        for_return_state 10 true true (.number 1) for_return_frames)
      rfl rfl rfl rfl (by decide!) (for_return_later_round 0)).2.2.2.2.2.2.1⟩

/-! ## Skimming: the cursor only moves on, and the skim ends -/

theorem skim_after {s s1 : js}
    (h : s1 = { s with tok_cache_idx := s1.tok_cache_idx } ∧ s.tok_cache_idx ≤ s1.tok_cache_idx)
    (hs : s.exec = false) :
    s1.exec = false ∧ s1.tok_cache = s.tok_cache ∧ s1.remaining ≤ s.remaining := by
  obtain ⟨h1, h2⟩ := h
  have he : s1.exec = s.exec := by rw [h1]; rfl
  have ht : s1.tok_cache = s.tok_cache := by rw [h1]
  refine ⟨he.trans hs, ht, ?_⟩
  unfold js.remaining
  rw [ht]
  omega

theorem skim_then {s s1 s2 : js}
    (h1 : s1 = { s with tok_cache_idx := s1.tok_cache_idx } ∧ s.tok_cache_idx ≤ s1.tok_cache_idx)
    (h2 : s2 = { s1 with tok_cache_idx := s2.tok_cache_idx }
      ∧ s1.tok_cache_idx ≤ s2.tok_cache_idx) :
    s2 = { s with tok_cache_idx := s2.tok_cache_idx } ∧ s.tok_cache_idx ≤ s2.tok_cache_idx := by
  refine ⟨?_, h1.2.trans h2.2⟩
  have e1 := h1.1
  have e2 := h2.1
  rw [e2, e1]

theorem consumed_remaining {s s1 : js} {d : Nat}
    (h : s1 = { s with tok_cache_idx := s1.tok_cache_idx })
    (hin : s.tok_cache_idx < s.tok_cache.length) (hlt : s.tok_cache_idx < s1.tok_cache_idx)
    (hd : s.remaining < d + 1) : s1.remaining < d := by
  have ht : s1.tok_cache = s.tok_cache := by rw [h]
  unfold js.remaining at hd ⊢
  rw [ht]
  omega

theorem skims_pure {α : Type} {d : Nat} {a : α} : Skims d (pure a : Parse α) := by
  constructor
  · intro s b s1 _ h
    cases h
    exact ⟨rfl, le_refl _⟩
  · intro s _ _ h
    cases h

theorem skims_throw {α : Type} {d : Nat} {msg : String} : Skims d (js_throw msg : Parse α) := by
  constructor
  · intro s b s1 _ h
    cases h
  · intro s _ _ h
    cases h

theorem skims_weaken {α : Type} {d e : Nat} {m : Parse α} (h : Skims d m) (he : e ≤ d) :
    Skims e m :=
  ⟨h.run, fun s hs hr => h.fuel s hs (lt_of_lt_of_le hr he)⟩

theorem skims_bind {α β : Type} {d : Nat} {m : Parse α} {f : α → Parse β}
    (hm : Skims d m) (hf : ∀ a, Skims d (f a)) : Skims d (m >>= f) := by
  constructor
  · intro s b s2 hs h
    obtain ⟨a, s1, h1, h2⟩ := bind_ok h
    have r1 := hm.run s a s1 hs h1
    exact skim_then r1 ((hf a).run s1 b s2 (skim_after r1 hs).1 h2)
  · intro s hs hr h
    rw [run_bind] at h
    cases h1 : m s with
    | error e =>
      rw [h1] at h
      cases h
      exact hm.fuel s hs hr h1
    | ok p =>
      obtain ⟨a, s1⟩ := p
      rw [h1] at h
      have r1 := hm.run s a s1 hs h1
      have a1 := skim_after r1 hs
      exact (hf a).fuel s1 a1.1 (lt_of_le_of_lt a1.2.2 hr) h

theorem skims_bind_consumed {α β : Type} {d : Nat} {m : Parse α} {f : α → Parse β}
    (hc : Consumes (fun _ => True) m) (hm : Skims (d + 1) m) (hf : ∀ a, Skims d (f a)) :
    Skims (d + 1) (m >>= f) := by
  constructor
  · intro s b s2 hs h
    obtain ⟨a, s1, h1, h2⟩ := bind_ok h
    have r1 := hm.run s a s1 hs h1
    exact skim_then r1 ((hf a).run s1 b s2 (skim_after r1 hs).1 h2)
  · intro s hs hr h
    rw [run_bind] at h
    cases h1 : m s with
    | error e =>
      rw [h1] at h
      cases h
      exact hm.fuel s hs hr h1
    | ok p =>
      obtain ⟨a, s1⟩ := p
      rw [h1] at h
      have r1 := hm.run s a s1 hs h1
      have a1 := skim_after r1 hs
      have c1 := hc.run s a s1 hs h1 True.intro
      exact (hf a).fuel s1 a1.1 (consumed_remaining r1.1 c1.1 c1.2 hr) h

theorem skims_ite {α : Type} {d : Nat} {c : Prop} [Decidable c] {a b : Parse α}
    (ha : Skims d a) (hb : Skims d b) : Skims d (if c then a else b) := by
  split
  · exact ha
  · exact hb

theorem skims_get_token_state {d : Nat} : Skims d _get_token_state := by
  constructor
  · intro s a s1 _ h
    obtain ⟨k, hk⟩ := get_token_state_total s
    rw [hk] at h
    cases h
    exact ⟨rfl, le_refl _⟩
  · intro s _ _ h
    obtain ⟨k, hk⟩ := get_token_state_total s
    rw [hk] at h
    cases h

theorem skims_next_token {d : Nat} : Skims d _next_token := by
  constructor
  · intro s a s1 _ h
    rw [run_next_token] at h
    cases h
    exact ⟨rfl, Nat.le_succ _⟩
  · intro s _ _ h
    rw [run_next_token] at h
    cases h

/-- What `_accept` does: with the kind under the cursor it advances, which needs the
cursor inside the token array when the kind is not end-of-file; otherwise it
leaves the state. -/
theorem accept_cases (stat : js_token_state) (s : js) :
    (_accept stat s = .ok (false, s)) ∨
    (_accept stat s = .ok (true, { s with tok_cache_idx := s.tok_cache_idx + 1 }) ∧
      (stat ≠ .ts_end_of_file → s.tok_cache_idx < s.tok_cache.length)) := by
  rw [run_accept]
  cases ht : s.tok with
  | none =>
    rw [run_token_none ht]
    by_cases hk : js_token_state.ts_end_of_file = stat
    · right
      subst hk
      simp only [if_true, true_and]
      intro hne
      exact absurd rfl hne
    · left
      simp only [hk, if_false]
  | some t =>
    rw [(run_token_some ht).1]
    by_cases hk : t.stat = stat
    · right
      simp only [hk, if_true, true_and]
      intro _
      unfold js.tok at ht
      exact (List.get?_eq_some.mp ht).1
    · left
      simp only [hk, if_false]

theorem skims_accept {d : Nat} (stat : js_token_state) : Skims d (_accept stat) := by
  constructor
  · intro s a s1 _ h
    rcases accept_cases stat s with hc | ⟨hc, _⟩ <;>
    · rw [hc] at h
      cases h
      first | exact ⟨rfl, le_refl _⟩ | exact ⟨rfl, Nat.le_succ _⟩
  · intro s _ _ h
    rcases accept_cases stat s with hc | ⟨hc, _⟩ <;>
    · rw [hc] at h
      cases h

theorem skims_expect {d : Nat} (stat : js_token_state) (msg : String) :
    Skims d (_expect stat msg) := by
  unfold _expect
  apply skims_bind (skims_accept stat)
  intro a
  split
  · exact skims_throw
  · exact skims_pure

theorem consumes_expect (stat : js_token_state) (msg : String)
    (hstat : stat ≠ .ts_end_of_file) {Q : Unit → Prop} :
    Consumes Q (_expect stat msg) := by
  constructor
  intro s a s1 _ h _
  unfold _expect at h
  obtain ⟨b, s2, h1, h2⟩ := bind_ok h
  rcases accept_cases stat s with hc | ⟨hc, hin⟩
  · rw [hc] at h1
    cases h1
    simp only [Bool.not_false, if_true] at h2
    cases h2
  · rw [hc] at h1
    cases h1
    simp only [Bool.not_true, Bool.false_eq_true, if_false] at h2
    cases h2
    exact ⟨hin hstat, Nat.lt_succ_self _⟩

theorem skims_dispatch {α : Type} {d : Nat} {A B : Parse α} (hB : Skims d B) :
    Skims d (_require_exec >>= fun c => if c = true then A else B) := by
  constructor
  · intro s a s1 hs h
    rw [skim_branch A B s hs] at h
    exact hB.run s a s1 hs h
  · intro s hs hr
    rw [skim_branch A B s hs]
    exact hB.fuel s hs hr

theorem consumes_dispatch {α : Type} {Q : α → Prop} {A B : Parse α} (hB : Consumes Q B) :
    Consumes Q (_require_exec >>= fun c => if c = true then A else B) := by
  constructor
  intro s a s1 hs h
  rw [skim_branch A B s hs] at h
  exact hB.run s a s1 hs h

/-- After `_accept` of a kind other than end-of-file has consumed its token, one
token less is left. -/
theorem skims_accept_bind {β : Type} {d : Nat} {stat : js_token_state} {f : Bool → Parse β}
    (hstat : stat ≠ .ts_end_of_file) (ht : Skims d (f true)) (hf : Skims (d + 1) (f false)) :
    Skims (d + 1) (_accept stat >>= f) := by
  constructor
  · intro s b s2 hs h
    obtain ⟨a, s1, h1, h2⟩ := bind_ok h
    have r1 := (skims_accept stat : Skims 0 (_accept stat)).run s a s1 hs h1
    have a1 := skim_after r1 hs
    cases a with
    | true => exact skim_then r1 (ht.run s1 b s2 a1.1 h2)
    | false => exact skim_then r1 (hf.run s1 b s2 a1.1 h2)
  · intro s hs hr h
    rw [run_bind] at h
    rcases accept_cases stat s with hc | ⟨hc, hin⟩
    · rw [hc] at h
      exact hf.fuel s hs hr h
    · rw [hc] at h
      exact ht.fuel { s with tok_cache_idx := s.tok_cache_idx + 1 } hs
        (consumed_remaining rfl (hin hstat) (Nat.lt_succ_self _) hr) h

theorem consumes_accept_bind {β : Type} {Q : β → Prop} {stat : js_token_state}
    {f : Bool → Parse β} (hstat : stat ≠ .ts_end_of_file) (ht : Skims 0 (f true))
    (hf : Consumes Q (f false)) : Consumes Q (_accept stat >>= f) := by
  constructor
  intro s b s2 hs h hq
  rw [run_bind] at h
  rcases accept_cases stat s with hc | ⟨hc, hin⟩
  · rw [hc] at h
    exact hf.run s b s2 hs h hq
  · rw [hc] at h
    have r := ht.run { s with tok_cache_idx := s.tok_cache_idx + 1 } b s2 hs h
    exact ⟨hin hstat, lt_of_lt_of_le (Nat.lt_succ_self _) r.2⟩

theorem consumes_bind_left {α β : Type} {Q : β → Prop} {m : Parse α} {f : α → Parse β}
    (hm : Consumes (fun _ => True) m) (hs0 : Skims 0 m) (hf : ∀ a, Skims 0 (f a)) :
    Consumes Q (m >>= f) := by
  constructor
  intro s b s2 hs h _
  obtain ⟨a, s1, h1, h2⟩ := bind_ok h
  have c1 := hm.run s a s1 hs h1 True.intro
  have r1 := hs0.run s a s1 hs h1
  have r2 := (hf a).run s1 b s2 (skim_after r1 hs).1 h2
  exact ⟨c1.1, lt_of_lt_of_le c1.2 r2.2⟩

theorem consumes_bind_right {α β : Type} {Q : β → Prop} {m : Parse α} {f : α → Parse β}
    (hs0 : Skims 0 m) (hf : ∀ a, Consumes Q (f a)) : Consumes Q (m >>= f) := by
  constructor
  intro s b s2 hs h hq
  obtain ⟨a, s1, h1, h2⟩ := bind_ok h
  have r1 := hs0.run s a s1 hs h1
  have a1 := skim_after r1 hs
  have c2 := (hf a).run s1 b s2 a1.1 h2 hq
  rw [a1.2.1] at c2
  exact ⟨lt_of_le_of_lt r1.2 c2.1, lt_of_le_of_lt r1.2 c2.2⟩

theorem consumes_ite {α : Type} {Q : α → Prop} {c : Prop} [Decidable c] {a b : Parse α}
    (ha : Consumes Q a) (hb : Consumes Q b) : Consumes Q (if c then a else b) := by
  split
  · exact ha
  · exact hb

theorem consumes_throw {α : Type} {Q : α → Prop} {msg : String} :
    Consumes Q (js_throw msg : Parse α) := by
  constructor
  intro s a s1 _ h
  cases h

theorem consumes_pure_inr {σ α : Type} {a : α} :
    Consumes continues (pure (.inr a) : Parse (σ ⊕ α)) := by
  constructor
  intro s b s1 _ h hq
  cases h
  exact hq.elim

/-- A loop whose rounds skim and ask for another round only after they have
consumed a token ends within as many rounds as tokens are left, and one more. -/
theorem skims_loop {σ α : Type} {d n : Nat} {body : σ → Parse (σ ⊕ α)} (hd : d ≤ n)
    (hb : ∀ x, Skims d (body x)) (hc : ∀ x, Consumes continues (body x)) :
    ∀ x, Skims d (js_loop body n x) := by
  have hrun : ∀ k x s a s1, s.exec = false → js_loop body k x s = .ok (a, s1) →
      s1 = { s with tok_cache_idx := s1.tok_cache_idx }
        ∧ s.tok_cache_idx ≤ s1.tok_cache_idx := by
    intro k
    induction k with
    | zero =>
      intro x s a s1 _ h
      cases h
    | succ k ih =>
      intro x s a s1 hs h
      rw [run_loop] at h
      cases h1 : body x s with
      | error e =>
        rw [h1] at h
        cases h
      | ok p =>
        obtain ⟨r, s2⟩ := p
        rw [h1] at h
        have r1 := (hb x).run s r s2 hs h1
        cases r with
        | inl x1 => exact skim_then r1 (ih x1 s2 a s1 (skim_after r1 hs).1 h)
        | inr b =>
          cases h
          exact r1
  have hfuel : ∀ k b x s, b ≤ k → b ≤ d → s.exec = false → s.remaining < b →
      js_loop body k x s ≠ .error .out_of_fuel := by
    intro k
    induction k with
    | zero =>
      intro b x s hbk _ _ hr
      omega
    | succ k ih =>
      intro b x s hbk hbd hs hr h
      rw [run_loop] at h
      cases h1 : body x s with
      | error e =>
        rw [h1] at h
        cases h
        exact (hb x).fuel s hs (lt_of_lt_of_le hr hbd) h1
      | ok p =>
        obtain ⟨r, s2⟩ := p
        rw [h1] at h
        have r1 := (hb x).run s r s2 hs h1
        cases r with
        | inl x1 =>
          have c1 := (hc x).run s _ s2 hs h1 True.intro
          obtain ⟨b1, rfl⟩ : ∃ b1, b = b1 + 1 := ⟨b - 1, by omega⟩
          exact ih b1 x1 s2 (by omega) (by omega) (skim_after r1 hs).1
            (consumed_remaining r1.1 c1.1 c1.2 hr) h
        | inr a => cases h
  intro x
  exact ⟨fun s a s1 hs h => hrun n x s a s1 hs h,
    fun s hs hr => hfuel n d x s hd (le_refl _) hs hr⟩

theorem skims_loop_zero {σ α : Type} {n : Nat} {body : σ → Parse (σ ⊕ α)}
    (hb : ∀ x, Skims 0 (body x)) : ∀ x, Skims 0 (js_loop body n x) := by
  have hrun : ∀ k x s a s1, s.exec = false → js_loop body k x s = .ok (a, s1) →
      s1 = { s with tok_cache_idx := s1.tok_cache_idx }
        ∧ s.tok_cache_idx ≤ s1.tok_cache_idx := by
    intro k
    induction k with
    | zero =>
      intro x s a s1 _ h
      cases h
    | succ k ih =>
      intro x s a s1 hs h
      rw [run_loop] at h
      cases h1 : body x s with
      | error e =>
        rw [h1] at h
        cases h
      | ok p =>
        obtain ⟨r, s2⟩ := p
        rw [h1] at h
        have r1 := (hb x).run s r s2 hs h1
        cases r with
        | inl x1 => exact skim_then r1 (ih x1 s2 a s1 (skim_after r1 hs).1 h)
        | inr b =>
          cases h
          exact r1
  intro x
  exact ⟨fun s a s1 hs h => hrun n x s a s1 hs h, fun s _ hr => absurd hr (Nat.not_lt_zero _)⟩

/-! ### After a test of the kind under the cursor -/

theorem skimsin_throw {α : Type} {d : Nat} {msg : String} :
    SkimsIn d (js_throw msg : Parse α) := by
  constructor
  · intro s b s1 _ _ h
    cases h
  · intro s _ _ _ h
    cases h

theorem skimsin_of_skims {α : Type} {d : Nat} {m : Parse α} (h : Skims (d + 1) m) :
    SkimsIn d m :=
  ⟨fun s a s1 hs _ hm => h.run s a s1 hs hm, fun s hs _ hr => h.fuel s hs hr⟩

theorem skimsin_next_bind {β : Type} {d : Nat} {f : Unit → Parse β} (hf : Skims d (f ())) :
    SkimsIn d (_next_token >>= f) := by
  constructor
  · intro s b s2 hs _ h
    rw [run_bind, run_next_token] at h
    have r := hf.run { s with tok_cache_idx := s.tok_cache_idx + 1 } b s2 hs h
    have r0 : ({ s with tok_cache_idx := s.tok_cache_idx + 1 } : js)
        = { s with tok_cache_idx := s.tok_cache_idx + 1 }
        ∧ s.tok_cache_idx ≤ s.tok_cache_idx + 1 := ⟨rfl, Nat.le_succ _⟩
    exact skim_then r0 r
  · intro s hs hin hr h
    rw [run_bind, run_next_token] at h
    exact hf.fuel { s with tok_cache_idx := s.tok_cache_idx + 1 } hs
      (consumed_remaining rfl hin (Nat.lt_succ_self _) hr) h

/-- After `_get_token_state` has yielded a kind other than end-of-file the cursor is
inside the token array. -/
theorem skims_token_bind {β : Type} {d : Nat} {f : js_token_state → Parse β}
    (hf : ∀ k, k ≠ .ts_end_of_file → SkimsIn d (f k))
    (he : Skims (d + 1) (f .ts_end_of_file)) : Skims (d + 1) (_get_token_state >>= f) := by
  constructor
  · intro s b s2 hs h
    rw [run_bind] at h
    cases ht : s.tok with
    | none =>
      rw [run_token_none ht] at h
      exact he.run s b s2 hs h
    | some t =>
      rw [(run_token_some ht).1] at h
      by_cases hk : t.stat = .ts_end_of_file
      · rw [hk] at h
        exact he.run s b s2 hs h
      · exact (hf t.stat hk).run s b s2 hs (List.get?_eq_some.mp ht).1 h
  · intro s hs hr h
    rw [run_bind] at h
    cases ht : s.tok with
    | none =>
      rw [run_token_none ht] at h
      exact he.fuel s hs hr h
    | some t =>
      rw [(run_token_some ht).1] at h
      by_cases hk : t.stat = .ts_end_of_file
      · rw [hk] at h
        exact he.fuel s hs hr h
      · exact (hf t.stat hk).fuel s hs (List.get?_eq_some.mp ht).1 hr h

theorem consumesin_throw {α : Type} {Q : α → Prop} {msg : String} :
    ConsumesIn Q (js_throw msg : Parse α) := by
  constructor
  intro s b s1 _ _ h
  cases h

theorem consumesin_next_bind {β : Type} {Q : β → Prop} {f : Unit → Parse β}
    (hf : Skims 0 (f ())) : ConsumesIn Q (_next_token >>= f) := by
  constructor
  intro s b s2 hs _ h _
  rw [run_bind, run_next_token] at h
  have r := hf.run { s with tok_cache_idx := s.tok_cache_idx + 1 } b s2 hs h
  exact lt_of_lt_of_le (Nat.lt_succ_self _) r.2

theorem consumes_token_bind {β : Type} {Q : β → Prop} {f : js_token_state → Parse β}
    (hf : ∀ k, k ≠ .ts_end_of_file → ConsumesIn Q (f k))
    (he : Consumes Q (f .ts_end_of_file)) : Consumes Q (_get_token_state >>= f) := by
  constructor
  intro s b s2 hs h hq
  rw [run_bind] at h
  cases ht : s.tok with
  | none =>
    rw [run_token_none ht] at h
    exact he.run s b s2 hs h hq
  | some t =>
    rw [(run_token_some ht).1] at h
    by_cases hk : t.stat = .ts_end_of_file
    · rw [hk] at h
      exact he.run s b s2 hs h hq
    · have hin := (List.get?_eq_some.mp ht).1
      exact ⟨hin, (hf t.stat hk).run s b s2 hs hin h hq⟩

theorem consumesin_of_consumes {α : Type} {Q : α → Prop} {m : Parse α} (h : Consumes Q m) :
    ConsumesIn Q m :=
  ⟨fun s a s1 hs _ hm hq => (h.run s a s1 hs hm hq).2⟩

theorem skimsin_pure_bind {α β : Type} {d : Nat} {a : α} {f : α → Parse β}
    (h : Skims (d + 1) (f a)) : SkimsIn d (pure a >>= f) :=
  skimsin_of_skims h

theorem skimsin_throw_bind {α β : Type} {d : Nat} {msg : String} {f : α → Parse β} :
    SkimsIn d (js_throw msg >>= f) := by
  constructor
  · intro s b s1 _ _ h
    cases h
  · intro s _ _ _ h
    cases h

theorem consumesin_pure_bind {α β : Type} {Q : β → Prop} {a : α} {f : α → Parse β}
    (h : Consumes Q (f a)) : ConsumesIn Q (pure a >>= f) :=
  consumesin_of_consumes h

theorem consumesin_throw_bind {α β : Type} {Q : β → Prop} {msg : String} {f : α → Parse β} :
    ConsumesIn Q (js_throw msg >>= f) := by
  constructor
  intro s b s1 _ _ h
  cases h

theorem consumes_throw_bind {α β : Type} {Q : β → Prop} {msg : String} {f : α → Parse β} :
    Consumes Q (js_throw msg >>= f) := by
  constructor
  intro s b s1 _ h
  cases h

/-! ### The parse functions in skim mode -/

set_option maxHeartbeats 4000000 in
theorem skims_parse_statements (n d : Nat) (rec : Parsers) (h : rec.Skims d) (hd : d ≤ n) :
    Skims (d) (_parse_statements n rec) := by
  unfold _parse_statements
  apply skims_loop hd
  all_goals with_reducible repeat' (first
    | intro _
    | exact skims_pure | exact skims_throw | exact skims_get_token_state
    | exact skims_next_token | exact skims_accept _ | exact skims_expect _ _
    | exact h.statement | exact h.expression | exact h.additive
    | exact skims_weaken h.statement (Nat.zero_le _)
    | exact skims_weaken h.expression (Nat.zero_le _)
    | exact skims_weaken h.additive (Nat.zero_le _)
    | exact consumes_throw | exact consumes_throw_bind | exact consumes_pure_inr
    | exact consumes_expect _ _ (by decide)
    | rw [if_pos (rfl : true = true)] | rw [if_neg Bool.false_ne_true]
    | rw [if_neg (by decide : ¬ (!true) = true)] | rw [if_pos (by decide : (!false) = true)]
    | apply skims_accept_bind (by decide)
    | refine skims_bind_consumed (by first
        | exact consumes_expect _ _ (by decide)
        | exact h.statement_consumes
        | exact h.expression_consumes
        | exact h.additive_consumes) ?_ ?_
    | apply skims_loop hd | apply skims_loop_zero
    | apply skims_bind | apply skims_ite
    | apply consumes_accept_bind (by decide)
    | refine consumes_bind_left (by first
        | exact consumes_expect _ _ (by decide)
        | exact h.statement_consumes
        | exact h.expression_consumes
        | exact h.additive_consumes) ?_ ?_
    | apply consumes_bind_right | apply consumes_ite
    | split)

set_option maxHeartbeats 4000000 in
theorem skims_parse_function (n d : Nat) (rec : Parsers) (h : rec.Skims d) (hd : d ≤ n) :
    Skims (d) (_parse_function n rec) := by
  unfold _parse_function
  apply skims_dispatch
  all_goals with_reducible repeat' (first
    | intro _
    | exact skims_pure | exact skims_throw | exact skims_get_token_state
    | exact skims_next_token | exact skims_accept _ | exact skims_expect _ _
    | exact h.statement | exact h.expression | exact h.additive
    | exact skims_weaken h.statement (Nat.zero_le _)
    | exact skims_weaken h.expression (Nat.zero_le _)
    | exact skims_weaken h.additive (Nat.zero_le _)
    | exact skims_parse_statements n d rec h hd
    | exact skims_weaken (skims_parse_statements n d rec h hd) (Nat.zero_le _)
    | exact consumes_throw | exact consumes_throw_bind | exact consumes_pure_inr
    | exact consumes_expect _ _ (by decide)
    | rw [if_pos (rfl : true = true)] | rw [if_neg Bool.false_ne_true]
    | rw [if_neg (by decide : ¬ (!true) = true)] | rw [if_pos (by decide : (!false) = true)]
    | apply skims_accept_bind (by decide)
    | refine skims_bind_consumed (by first
        | exact consumes_expect _ _ (by decide)
        | exact h.statement_consumes
        | exact h.expression_consumes
        | exact h.additive_consumes) ?_ ?_
    | apply skims_loop hd | apply skims_loop_zero
    | apply skims_bind | apply skims_ite
    | apply consumes_accept_bind (by decide)
    | refine consumes_bind_left (by first
        | exact consumes_expect _ _ (by decide)
        | exact h.statement_consumes
        | exact h.expression_consumes
        | exact h.additive_consumes) ?_ ?_
    | apply consumes_bind_right | apply consumes_ite
    | split)

set_option maxHeartbeats 4000000 in
theorem skims_parse_value (n d : Nat) (rec : Parsers) (h : rec.Skims d) (hd : d ≤ n) :
    Skims (d + 1) (_parse_value n rec) := by
  unfold _parse_value
  apply skims_dispatch
  all_goals with_reducible repeat' (first
    | intro _
    | exact skims_pure | exact skims_throw | exact skims_get_token_state
    | exact skims_next_token | exact skims_accept _ | exact skims_expect _ _
    | exact h.statement | exact h.expression | exact h.additive
    | exact skims_weaken h.statement (Nat.zero_le _)
    | exact skims_weaken h.expression (Nat.zero_le _)
    | exact skims_weaken h.additive (Nat.zero_le _)
    | exact skims_parse_statements n d rec h hd
    | exact skims_weaken (skims_parse_statements n d rec h hd) (Nat.zero_le _)
    | exact skims_parse_function n d rec h hd
    | exact skims_weaken (skims_parse_function n d rec h hd) (Nat.zero_le _)
    | exact consumes_throw | exact consumes_throw_bind | exact consumes_pure_inr
    | exact consumes_expect _ _ (by decide)
    | exact skimsin_throw | exact consumesin_throw
    | apply skimsin_next_bind | apply consumesin_next_bind
    | exact skimsin_throw_bind | exact consumesin_throw_bind
    | apply skimsin_pure_bind | apply consumesin_pure_bind
    | apply skims_token_bind | apply consumes_token_bind
    | rw [if_pos (rfl : true = true)] | rw [if_neg Bool.false_ne_true]
    | rw [if_neg (by decide : ¬ (!true) = true)] | rw [if_pos (by decide : (!false) = true)]
    | apply skims_accept_bind (by decide)
    | refine skims_bind_consumed (by first
        | exact consumes_expect _ _ (by decide)
        | exact h.statement_consumes
        | exact h.expression_consumes
        | exact h.additive_consumes) ?_ ?_
    | apply skims_loop hd | apply skims_loop_zero
    | apply skims_bind | apply skims_ite
    | apply consumes_accept_bind (by decide)
    | refine consumes_bind_left (by first
        | exact consumes_expect _ _ (by decide)
        | exact h.statement_consumes
        | exact h.expression_consumes
        | exact h.additive_consumes) ?_ ?_
    | apply consumes_bind_right | apply consumes_ite
    | split)

set_option maxHeartbeats 4000000 in
theorem consumes_parse_value (n d : Nat) (rec : Parsers) (h : rec.Skims d) (hd : d ≤ n) :
    Consumes (fun _ => True) (_parse_value n rec) := by
  unfold _parse_value
  apply consumes_dispatch
  all_goals with_reducible repeat' (first
    | intro _
    | exact skims_pure | exact skims_throw | exact skims_get_token_state
    | exact skims_next_token | exact skims_accept _ | exact skims_expect _ _
    | exact h.statement | exact h.expression | exact h.additive
    | exact skims_weaken h.statement (Nat.zero_le _)
    | exact skims_weaken h.expression (Nat.zero_le _)
    | exact skims_weaken h.additive (Nat.zero_le _)
    | exact skims_parse_statements n d rec h hd
    | exact skims_weaken (skims_parse_statements n d rec h hd) (Nat.zero_le _)
    | exact skims_parse_function n d rec h hd
    | exact skims_weaken (skims_parse_function n d rec h hd) (Nat.zero_le _)
    | exact skims_parse_value n d rec h hd
    | exact skims_weaken (skims_parse_value n d rec h hd) (Nat.le_succ _)
    | exact skims_weaken (skims_parse_value n d rec h hd) (Nat.zero_le _)
    | exact consumes_throw | exact consumes_throw_bind | exact consumes_pure_inr
    | exact consumes_expect _ _ (by decide)
    | exact skimsin_throw | exact consumesin_throw
    | apply skimsin_next_bind | apply consumesin_next_bind
    | exact skimsin_throw_bind | exact consumesin_throw_bind
    | apply skimsin_pure_bind | apply consumesin_pure_bind
    | apply skims_token_bind | apply consumes_token_bind
    | rw [if_pos (rfl : true = true)] | rw [if_neg Bool.false_ne_true]
    | rw [if_neg (by decide : ¬ (!true) = true)] | rw [if_pos (by decide : (!false) = true)]
    | apply skims_accept_bind (by decide)
    | refine skims_bind_consumed (by first
        | exact consumes_expect _ _ (by decide)
        | exact h.statement_consumes
        | exact h.expression_consumes
        | exact h.additive_consumes) ?_ ?_
    | apply skims_loop hd | apply skims_loop_zero
    | apply skims_bind | apply skims_ite
    | apply consumes_accept_bind (by decide)
    | refine consumes_bind_left (by first
        | exact consumes_expect _ _ (by decide)
        | exact h.statement_consumes
        | exact h.expression_consumes
        | exact h.additive_consumes) ?_ ?_
    | apply consumes_bind_right | apply consumes_ite
    | split)

set_option maxHeartbeats 4000000 in
theorem skims_parse_accessor (host : Host) (n d : Nat) (rec : Parsers) (h : rec.Skims d) (hd : d ≤ n) :
    Skims (d + 1) (_parse_accessor host n rec) := by
  unfold _parse_accessor
  apply skims_dispatch
  all_goals with_reducible repeat' (first
    | intro _
    | exact skims_pure | exact skims_throw | exact skims_get_token_state
    | exact skims_next_token | exact skims_accept _ | exact skims_expect _ _
    | exact h.statement | exact h.expression | exact h.additive
    | exact skims_weaken h.statement (Nat.zero_le _)
    | exact skims_weaken h.expression (Nat.zero_le _)
    | exact skims_weaken h.additive (Nat.zero_le _)
    | exact skims_parse_statements n d rec h hd
    | exact skims_weaken (skims_parse_statements n d rec h hd) (Nat.zero_le _)
    | exact skims_parse_function n d rec h hd
    | exact skims_weaken (skims_parse_function n d rec h hd) (Nat.zero_le _)
    | exact skims_parse_value n d rec h hd
    | exact skims_weaken (skims_parse_value n d rec h hd) (Nat.le_succ _)
    | exact skims_weaken (skims_parse_value n d rec h hd) (Nat.zero_le _)
    | exact consumes_throw | exact consumes_throw_bind | exact consumes_pure_inr
    | exact consumes_expect _ _ (by decide)
    | exact consumes_parse_value n d rec h hd
    | rw [if_pos (rfl : true = true)] | rw [if_neg Bool.false_ne_true]
    | rw [if_neg (by decide : ¬ (!true) = true)] | rw [if_pos (by decide : (!false) = true)]
    | apply skims_accept_bind (by decide)
    | refine skims_bind_consumed (by first
        | exact consumes_expect _ _ (by decide)
        | exact h.statement_consumes
        | exact h.expression_consumes
        | exact h.additive_consumes
        | exact consumes_parse_value n d rec h hd) ?_ ?_
    | apply skims_loop hd | apply skims_loop_zero
    | apply skims_bind | apply skims_ite
    | apply consumes_accept_bind (by decide)
    | refine consumes_bind_left (by first
        | exact consumes_expect _ _ (by decide)
        | exact h.statement_consumes
        | exact h.expression_consumes
        | exact h.additive_consumes
        | exact consumes_parse_value n d rec h hd) ?_ ?_
    | apply consumes_bind_right | apply consumes_ite
    | split)

set_option maxHeartbeats 4000000 in
theorem consumes_parse_accessor (host : Host) (n d : Nat) (rec : Parsers) (h : rec.Skims d) (hd : d ≤ n) :
    Consumes (fun _ => True) (_parse_accessor host n rec) := by
  unfold _parse_accessor
  apply consumes_dispatch
  all_goals with_reducible repeat' (first
    | intro _
    | exact skims_pure | exact skims_throw | exact skims_get_token_state
    | exact skims_next_token | exact skims_accept _ | exact skims_expect _ _
    | exact h.statement | exact h.expression | exact h.additive
    | exact skims_weaken h.statement (Nat.zero_le _)
    | exact skims_weaken h.expression (Nat.zero_le _)
    | exact skims_weaken h.additive (Nat.zero_le _)
    | exact skims_parse_statements n d rec h hd
    | exact skims_weaken (skims_parse_statements n d rec h hd) (Nat.zero_le _)
    | exact skims_parse_function n d rec h hd
    | exact skims_weaken (skims_parse_function n d rec h hd) (Nat.zero_le _)
    | exact skims_parse_value n d rec h hd
    | exact skims_weaken (skims_parse_value n d rec h hd) (Nat.le_succ _)
    | exact skims_weaken (skims_parse_value n d rec h hd) (Nat.zero_le _)
    | exact skims_parse_accessor host n d rec h hd
    | exact skims_weaken (skims_parse_accessor host n d rec h hd) (Nat.le_succ _)
    | exact skims_weaken (skims_parse_accessor host n d rec h hd) (Nat.zero_le _)
    | exact consumes_throw | exact consumes_throw_bind | exact consumes_pure_inr
    | exact consumes_expect _ _ (by decide)
    | exact consumes_parse_value n d rec h hd
    | rw [if_pos (rfl : true = true)] | rw [if_neg Bool.false_ne_true]
    | rw [if_neg (by decide : ¬ (!true) = true)] | rw [if_pos (by decide : (!false) = true)]
    | apply skims_accept_bind (by decide)
    | refine skims_bind_consumed (by first
        | exact consumes_expect _ _ (by decide)
        | exact h.statement_consumes
        | exact h.expression_consumes
        | exact h.additive_consumes
        | exact consumes_parse_value n d rec h hd) ?_ ?_
    | apply skims_loop hd | apply skims_loop_zero
    | apply skims_bind | apply skims_ite
    | apply consumes_accept_bind (by decide)
    | refine consumes_bind_left (by first
        | exact consumes_expect _ _ (by decide)
        | exact h.statement_consumes
        | exact h.expression_consumes
        | exact h.additive_consumes
        | exact consumes_parse_value n d rec h hd) ?_ ?_
    | apply consumes_bind_right | apply consumes_ite
    | split)

set_option maxHeartbeats 4000000 in
theorem skims_parse_access_call_expression (host : Host) (n d : Nat) (rec : Parsers) (h : rec.Skims d) (hd : d ≤ n) :
    Skims (d + 1) (_parse_access_call_expression host n rec) := by
  unfold _parse_access_call_expression
  apply skims_dispatch
  all_goals with_reducible repeat' (first
    | intro _
    | exact skims_pure | exact skims_throw | exact skims_get_token_state
    | exact skims_next_token | exact skims_accept _ | exact skims_expect _ _
    | exact h.statement | exact h.expression | exact h.additive
    | exact skims_weaken h.statement (Nat.zero_le _)
    | exact skims_weaken h.expression (Nat.zero_le _)
    | exact skims_weaken h.additive (Nat.zero_le _)
    | exact skims_parse_statements n d rec h hd
    | exact skims_weaken (skims_parse_statements n d rec h hd) (Nat.zero_le _)
    | exact skims_parse_function n d rec h hd
    | exact skims_weaken (skims_parse_function n d rec h hd) (Nat.zero_le _)
    | exact skims_parse_value n d rec h hd
    | exact skims_weaken (skims_parse_value n d rec h hd) (Nat.le_succ _)
    | exact skims_weaken (skims_parse_value n d rec h hd) (Nat.zero_le _)
    | exact skims_parse_accessor host n d rec h hd
    | exact skims_weaken (skims_parse_accessor host n d rec h hd) (Nat.le_succ _)
    | exact skims_weaken (skims_parse_accessor host n d rec h hd) (Nat.zero_le _)
    | exact consumes_throw | exact consumes_throw_bind | exact consumes_pure_inr
    | exact consumes_expect _ _ (by decide)
    | exact consumes_parse_value n d rec h hd
    | exact consumes_parse_accessor host n d rec h hd
    | rw [if_pos (rfl : true = true)] | rw [if_neg Bool.false_ne_true]
    | rw [if_neg (by decide : ¬ (!true) = true)] | rw [if_pos (by decide : (!false) = true)]
    | apply skims_accept_bind (by decide)
    | refine skims_bind_consumed (by first
        | exact consumes_expect _ _ (by decide)
        | exact h.statement_consumes
        | exact h.expression_consumes
        | exact h.additive_consumes
        | exact consumes_parse_value n d rec h hd
        | exact consumes_parse_accessor host n d rec h hd) ?_ ?_
    | apply skims_loop hd | apply skims_loop_zero
    | apply skims_bind | apply skims_ite
    | apply consumes_accept_bind (by decide)
    | refine consumes_bind_left (by first
        | exact consumes_expect _ _ (by decide)
        | exact h.statement_consumes
        | exact h.expression_consumes
        | exact h.additive_consumes
        | exact consumes_parse_value n d rec h hd
        | exact consumes_parse_accessor host n d rec h hd) ?_ ?_
    | apply consumes_bind_right | apply consumes_ite
    | split)

set_option maxHeartbeats 4000000 in
theorem consumes_parse_access_call_expression (host : Host) (n d : Nat) (rec : Parsers) (h : rec.Skims d) (hd : d ≤ n) :
    Consumes (fun _ => True) (_parse_access_call_expression host n rec) := by
  unfold _parse_access_call_expression
  apply consumes_dispatch
  all_goals with_reducible repeat' (first
    | intro _
    | exact skims_pure | exact skims_throw | exact skims_get_token_state
    | exact skims_next_token | exact skims_accept _ | exact skims_expect _ _
    | exact h.statement | exact h.expression | exact h.additive
    | exact skims_weaken h.statement (Nat.zero_le _)
    | exact skims_weaken h.expression (Nat.zero_le _)
    | exact skims_weaken h.additive (Nat.zero_le _)
    | exact skims_parse_statements n d rec h hd
    | exact skims_weaken (skims_parse_statements n d rec h hd) (Nat.zero_le _)
    | exact skims_parse_function n d rec h hd
    | exact skims_weaken (skims_parse_function n d rec h hd) (Nat.zero_le _)
    | exact skims_parse_value n d rec h hd
    | exact skims_weaken (skims_parse_value n d rec h hd) (Nat.le_succ _)
    | exact skims_weaken (skims_parse_value n d rec h hd) (Nat.zero_le _)
    | exact skims_parse_accessor host n d rec h hd
    | exact skims_weaken (skims_parse_accessor host n d rec h hd) (Nat.le_succ _)
    | exact skims_weaken (skims_parse_accessor host n d rec h hd) (Nat.zero_le _)
    | exact skims_parse_access_call_expression host n d rec h hd
    | exact skims_weaken (skims_parse_access_call_expression host n d rec h hd) (Nat.le_succ _)
    | exact skims_weaken (skims_parse_access_call_expression host n d rec h hd) (Nat.zero_le _)
    | exact consumes_throw | exact consumes_throw_bind | exact consumes_pure_inr
    | exact consumes_expect _ _ (by decide)
    | exact consumes_parse_value n d rec h hd
    | exact consumes_parse_accessor host n d rec h hd
    | rw [if_pos (rfl : true = true)] | rw [if_neg Bool.false_ne_true]
    | rw [if_neg (by decide : ¬ (!true) = true)] | rw [if_pos (by decide : (!false) = true)]
    | apply skims_accept_bind (by decide)
    | refine skims_bind_consumed (by first
        | exact consumes_expect _ _ (by decide)
        | exact h.statement_consumes
        | exact h.expression_consumes
        | exact h.additive_consumes
        | exact consumes_parse_value n d rec h hd
        | exact consumes_parse_accessor host n d rec h hd) ?_ ?_
    | apply skims_loop hd | apply skims_loop_zero
    | apply skims_bind | apply skims_ite
    | apply consumes_accept_bind (by decide)
    | refine consumes_bind_left (by first
        | exact consumes_expect _ _ (by decide)
        | exact h.statement_consumes
        | exact h.expression_consumes
        | exact h.additive_consumes
        | exact consumes_parse_value n d rec h hd
        | exact consumes_parse_accessor host n d rec h hd) ?_ ?_
    | apply consumes_bind_right | apply consumes_ite
    | split)

set_option maxHeartbeats 4000000 in
theorem skims_parse_prefix_expression (host : Host) (n d : Nat) (rec : Parsers) (h : rec.Skims d) (hd : d ≤ n) :
    Skims (d + 1) (_parse_prefix_expression host n rec) := by
  unfold _parse_prefix_expression
  apply skims_dispatch
  all_goals with_reducible repeat' (first
    | intro _
    | exact skims_pure | exact skims_throw | exact skims_get_token_state
    | exact skims_next_token | exact skims_accept _ | exact skims_expect _ _
    | exact h.statement | exact h.expression | exact h.additive
    | exact skims_weaken h.statement (Nat.zero_le _)
    | exact skims_weaken h.expression (Nat.zero_le _)
    | exact skims_weaken h.additive (Nat.zero_le _)
    | exact skims_parse_statements n d rec h hd
    | exact skims_weaken (skims_parse_statements n d rec h hd) (Nat.zero_le _)
    | exact skims_parse_function n d rec h hd
    | exact skims_weaken (skims_parse_function n d rec h hd) (Nat.zero_le _)
    | exact skims_parse_value n d rec h hd
    | exact skims_weaken (skims_parse_value n d rec h hd) (Nat.le_succ _)
    | exact skims_weaken (skims_parse_value n d rec h hd) (Nat.zero_le _)
    | exact skims_parse_accessor host n d rec h hd
    | exact skims_weaken (skims_parse_accessor host n d rec h hd) (Nat.le_succ _)
    | exact skims_weaken (skims_parse_accessor host n d rec h hd) (Nat.zero_le _)
    | exact skims_parse_access_call_expression host n d rec h hd
    | exact skims_weaken (skims_parse_access_call_expression host n d rec h hd) (Nat.le_succ _)
    | exact skims_weaken (skims_parse_access_call_expression host n d rec h hd) (Nat.zero_le _)
    | exact consumes_throw | exact consumes_throw_bind | exact consumes_pure_inr
    | exact consumes_expect _ _ (by decide)
    | exact consumes_parse_value n d rec h hd
    | exact consumes_parse_accessor host n d rec h hd
    | exact consumes_parse_access_call_expression host n d rec h hd
    | rw [if_pos (rfl : true = true)] | rw [if_neg Bool.false_ne_true]
    | rw [if_neg (by decide : ¬ (!true) = true)] | rw [if_pos (by decide : (!false) = true)]
    | apply skims_accept_bind (by decide)
    | refine skims_bind_consumed (by first
        | exact consumes_expect _ _ (by decide)
        | exact h.statement_consumes
        | exact h.expression_consumes
        | exact h.additive_consumes
        | exact consumes_parse_value n d rec h hd
        | exact consumes_parse_accessor host n d rec h hd
        | exact consumes_parse_access_call_expression host n d rec h hd) ?_ ?_
    | apply skims_loop hd | apply skims_loop_zero
    | apply skims_bind | apply skims_ite
    | apply consumes_accept_bind (by decide)
    | refine consumes_bind_left (by first
        | exact consumes_expect _ _ (by decide)
        | exact h.statement_consumes
        | exact h.expression_consumes
        | exact h.additive_consumes
        | exact consumes_parse_value n d rec h hd
        | exact consumes_parse_accessor host n d rec h hd
        | exact consumes_parse_access_call_expression host n d rec h hd) ?_ ?_
    | apply consumes_bind_right | apply consumes_ite
    | split)

set_option maxHeartbeats 4000000 in
theorem consumes_parse_prefix_expression (host : Host) (n d : Nat) (rec : Parsers) (h : rec.Skims d) (hd : d ≤ n) :
    Consumes (fun _ => True) (_parse_prefix_expression host n rec) := by
  unfold _parse_prefix_expression
  apply consumes_dispatch
  all_goals with_reducible repeat' (first
    | intro _
    | exact skims_pure | exact skims_throw | exact skims_get_token_state
    | exact skims_next_token | exact skims_accept _ | exact skims_expect _ _
    | exact h.statement | exact h.expression | exact h.additive
    | exact skims_weaken h.statement (Nat.zero_le _)
    | exact skims_weaken h.expression (Nat.zero_le _)
    | exact skims_weaken h.additive (Nat.zero_le _)
    | exact skims_parse_statements n d rec h hd
    | exact skims_weaken (skims_parse_statements n d rec h hd) (Nat.zero_le _)
    | exact skims_parse_function n d rec h hd
    | exact skims_weaken (skims_parse_function n d rec h hd) (Nat.zero_le _)
    | exact skims_parse_value n d rec h hd
    | exact skims_weaken (skims_parse_value n d rec h hd) (Nat.le_succ _)
    | exact skims_weaken (skims_parse_value n d rec h hd) (Nat.zero_le _)
    | exact skims_parse_accessor host n d rec h hd
    | exact skims_weaken (skims_parse_accessor host n d rec h hd) (Nat.le_succ _)
    | exact skims_weaken (skims_parse_accessor host n d rec h hd) (Nat.zero_le _)
    | exact skims_parse_access_call_expression host n d rec h hd
    | exact skims_weaken (skims_parse_access_call_expression host n d rec h hd) (Nat.le_succ _)
    | exact skims_weaken (skims_parse_access_call_expression host n d rec h hd) (Nat.zero_le _)
    | exact skims_parse_prefix_expression host n d rec h hd
    | exact skims_weaken (skims_parse_prefix_expression host n d rec h hd) (Nat.le_succ _)
    | exact skims_weaken (skims_parse_prefix_expression host n d rec h hd) (Nat.zero_le _)
    | exact consumes_throw | exact consumes_throw_bind | exact consumes_pure_inr
    | exact consumes_expect _ _ (by decide)
    | exact consumes_parse_value n d rec h hd
    | exact consumes_parse_accessor host n d rec h hd
    | exact consumes_parse_access_call_expression host n d rec h hd
    | rw [if_pos (rfl : true = true)] | rw [if_neg Bool.false_ne_true]
    | rw [if_neg (by decide : ¬ (!true) = true)] | rw [if_pos (by decide : (!false) = true)]
    | apply skims_accept_bind (by decide)
    | refine skims_bind_consumed (by first
        | exact consumes_expect _ _ (by decide)
        | exact h.statement_consumes
        | exact h.expression_consumes
        | exact h.additive_consumes
        | exact consumes_parse_value n d rec h hd
        | exact consumes_parse_accessor host n d rec h hd
        | exact consumes_parse_access_call_expression host n d rec h hd) ?_ ?_
    | apply skims_loop hd | apply skims_loop_zero
    | apply skims_bind | apply skims_ite
    | apply consumes_accept_bind (by decide)
    | refine consumes_bind_left (by first
        | exact consumes_expect _ _ (by decide)
        | exact h.statement_consumes
        | exact h.expression_consumes
        | exact h.additive_consumes
        | exact consumes_parse_value n d rec h hd
        | exact consumes_parse_accessor host n d rec h hd
        | exact consumes_parse_access_call_expression host n d rec h hd) ?_ ?_
    | apply consumes_bind_right | apply consumes_ite
    | split)

set_option maxHeartbeats 4000000 in
theorem skims_parse_multiplicative_expression (host : Host) (n d : Nat) (rec : Parsers) (h : rec.Skims d) (hd : d ≤ n) :
    Skims (d + 1) (_parse_multiplicative_expression host n rec) := by
  unfold _parse_multiplicative_expression
  apply skims_dispatch
  all_goals with_reducible repeat' (first
    | intro _
    | exact skims_pure | exact skims_throw | exact skims_get_token_state
    | exact skims_next_token | exact skims_accept _ | exact skims_expect _ _
    | exact h.statement | exact h.expression | exact h.additive
    | exact skims_weaken h.statement (Nat.zero_le _)
    | exact skims_weaken h.expression (Nat.zero_le _)
    | exact skims_weaken h.additive (Nat.zero_le _)
    | exact skims_parse_statements n d rec h hd
    | exact skims_weaken (skims_parse_statements n d rec h hd) (Nat.zero_le _)
    | exact skims_parse_function n d rec h hd
    | exact skims_weaken (skims_parse_function n d rec h hd) (Nat.zero_le _)
    | exact skims_parse_value n d rec h hd
    | exact skims_weaken (skims_parse_value n d rec h hd) (Nat.le_succ _)
    | exact skims_weaken (skims_parse_value n d rec h hd) (Nat.zero_le _)
    | exact skims_parse_accessor host n d rec h hd
    | exact skims_weaken (skims_parse_accessor host n d rec h hd) (Nat.le_succ _)
    | exact skims_weaken (skims_parse_accessor host n d rec h hd) (Nat.zero_le _)
    | exact skims_parse_access_call_expression host n d rec h hd
    | exact skims_weaken (skims_parse_access_call_expression host n d rec h hd) (Nat.le_succ _)
    | exact skims_weaken (skims_parse_access_call_expression host n d rec h hd) (Nat.zero_le _)
    | exact skims_parse_prefix_expression host n d rec h hd
    | exact skims_weaken (skims_parse_prefix_expression host n d rec h hd) (Nat.le_succ _)
    | exact skims_weaken (skims_parse_prefix_expression host n d rec h hd) (Nat.zero_le _)
    | exact consumes_throw | exact consumes_throw_bind | exact consumes_pure_inr
    | exact consumes_expect _ _ (by decide)
    | exact consumes_parse_value n d rec h hd
    | exact consumes_parse_accessor host n d rec h hd
    | exact consumes_parse_access_call_expression host n d rec h hd
    | exact consumes_parse_prefix_expression host n d rec h hd
    | rw [if_pos (rfl : true = true)] | rw [if_neg Bool.false_ne_true]
    | rw [if_neg (by decide : ¬ (!true) = true)] | rw [if_pos (by decide : (!false) = true)]
    | apply skims_accept_bind (by decide)
    | refine skims_bind_consumed (by first
        | exact consumes_expect _ _ (by decide)
        | exact h.statement_consumes
        | exact h.expression_consumes
        | exact h.additive_consumes
        | exact consumes_parse_value n d rec h hd
        | exact consumes_parse_accessor host n d rec h hd
        | exact consumes_parse_access_call_expression host n d rec h hd
        | exact consumes_parse_prefix_expression host n d rec h hd) ?_ ?_
    | apply skims_loop hd | apply skims_loop_zero
    | apply skims_bind | apply skims_ite
    | apply consumes_accept_bind (by decide)
    | refine consumes_bind_left (by first
        | exact consumes_expect _ _ (by decide)
        | exact h.statement_consumes
        | exact h.expression_consumes
        | exact h.additive_consumes
        | exact consumes_parse_value n d rec h hd
        | exact consumes_parse_accessor host n d rec h hd
        | exact consumes_parse_access_call_expression host n d rec h hd
        | exact consumes_parse_prefix_expression host n d rec h hd) ?_ ?_
    | apply consumes_bind_right | apply consumes_ite
    | split)

set_option maxHeartbeats 4000000 in
theorem consumes_parse_multiplicative_expression (host : Host) (n d : Nat) (rec : Parsers) (h : rec.Skims d) (hd : d ≤ n) :
    Consumes (fun _ => True) (_parse_multiplicative_expression host n rec) := by
  unfold _parse_multiplicative_expression
  apply consumes_dispatch
  all_goals with_reducible repeat' (first
    | intro _
    | exact skims_pure | exact skims_throw | exact skims_get_token_state
    | exact skims_next_token | exact skims_accept _ | exact skims_expect _ _
    | exact h.statement | exact h.expression | exact h.additive
    | exact skims_weaken h.statement (Nat.zero_le _)
    | exact skims_weaken h.expression (Nat.zero_le _)
    | exact skims_weaken h.additive (Nat.zero_le _)
    | exact skims_parse_statements n d rec h hd
    | exact skims_weaken (skims_parse_statements n d rec h hd) (Nat.zero_le _)
    | exact skims_parse_function n d rec h hd
    | exact skims_weaken (skims_parse_function n d rec h hd) (Nat.zero_le _)
    | exact skims_parse_value n d rec h hd
    | exact skims_weaken (skims_parse_value n d rec h hd) (Nat.le_succ _)
    | exact skims_weaken (skims_parse_value n d rec h hd) (Nat.zero_le _)
    | exact skims_parse_accessor host n d rec h hd
    | exact skims_weaken (skims_parse_accessor host n d rec h hd) (Nat.le_succ _)
    | exact skims_weaken (skims_parse_accessor host n d rec h hd) (Nat.zero_le _)
    | exact skims_parse_access_call_expression host n d rec h hd
    | exact skims_weaken (skims_parse_access_call_expression host n d rec h hd) (Nat.le_succ _)
    | exact skims_weaken (skims_parse_access_call_expression host n d rec h hd) (Nat.zero_le _)
    | exact skims_parse_prefix_expression host n d rec h hd
    | exact skims_weaken (skims_parse_prefix_expression host n d rec h hd) (Nat.le_succ _)
    | exact skims_weaken (skims_parse_prefix_expression host n d rec h hd) (Nat.zero_le _)
    | exact skims_parse_multiplicative_expression host n d rec h hd
    | exact skims_weaken (skims_parse_multiplicative_expression host n d rec h hd) (Nat.le_succ _)
    | exact skims_weaken (skims_parse_multiplicative_expression host n d rec h hd) (Nat.zero_le _)
    | exact consumes_throw | exact consumes_throw_bind | exact consumes_pure_inr
    | exact consumes_expect _ _ (by decide)
    | exact consumes_parse_value n d rec h hd
    | exact consumes_parse_accessor host n d rec h hd
    | exact consumes_parse_access_call_expression host n d rec h hd
    | exact consumes_parse_prefix_expression host n d rec h hd
    | rw [if_pos (rfl : true = true)] | rw [if_neg Bool.false_ne_true]
    | rw [if_neg (by decide : ¬ (!true) = true)] | rw [if_pos (by decide : (!false) = true)]
    | apply skims_accept_bind (by decide)
    | refine skims_bind_consumed (by first
        | exact consumes_expect _ _ (by decide)
        | exact h.statement_consumes
        | exact h.expression_consumes
        | exact h.additive_consumes
        | exact consumes_parse_value n d rec h hd
        | exact consumes_parse_accessor host n d rec h hd
        | exact consumes_parse_access_call_expression host n d rec h hd
        | exact consumes_parse_prefix_expression host n d rec h hd) ?_ ?_
    | apply skims_loop hd | apply skims_loop_zero
    | apply skims_bind | apply skims_ite
    | apply consumes_accept_bind (by decide)
    | refine consumes_bind_left (by first
        | exact consumes_expect _ _ (by decide)
        | exact h.statement_consumes
        | exact h.expression_consumes
        | exact h.additive_consumes
        | exact consumes_parse_value n d rec h hd
        | exact consumes_parse_accessor host n d rec h hd
        | exact consumes_parse_access_call_expression host n d rec h hd
        | exact consumes_parse_prefix_expression host n d rec h hd) ?_ ?_
    | apply consumes_bind_right | apply consumes_ite
    | split)

set_option maxHeartbeats 4000000 in
theorem skims_parse_additive_expression (host : Host) (n d : Nat) (rec : Parsers) (h : rec.Skims d) (hd : d ≤ n) :
    Skims (d + 1) (_parse_additive_expression host n rec) := by
  unfold _parse_additive_expression
  apply skims_dispatch
  all_goals with_reducible repeat' (first
    | intro _
    | exact skims_pure | exact skims_throw | exact skims_get_token_state
    | exact skims_next_token | exact skims_accept _ | exact skims_expect _ _
    | exact h.statement | exact h.expression | exact h.additive
    | exact skims_weaken h.statement (Nat.zero_le _)
    | exact skims_weaken h.expression (Nat.zero_le _)
    | exact skims_weaken h.additive (Nat.zero_le _)
    | exact skims_parse_statements n d rec h hd
    | exact skims_weaken (skims_parse_statements n d rec h hd) (Nat.zero_le _)
    | exact skims_parse_function n d rec h hd
    | exact skims_weaken (skims_parse_function n d rec h hd) (Nat.zero_le _)
    | exact skims_parse_value n d rec h hd
    | exact skims_weaken (skims_parse_value n d rec h hd) (Nat.le_succ _)
    | exact skims_weaken (skims_parse_value n d rec h hd) (Nat.zero_le _)
    | exact skims_parse_accessor host n d rec h hd
    | exact skims_weaken (skims_parse_accessor host n d rec h hd) (Nat.le_succ _)
    | exact skims_weaken (skims_parse_accessor host n d rec h hd) (Nat.zero_le _)
    | exact skims_parse_access_call_expression host n d rec h hd
    | exact skims_weaken (skims_parse_access_call_expression host n d rec h hd) (Nat.le_succ _)
    | exact skims_weaken (skims_parse_access_call_expression host n d rec h hd) (Nat.zero_le _)
    | exact skims_parse_prefix_expression host n d rec h hd
    | exact skims_weaken (skims_parse_prefix_expression host n d rec h hd) (Nat.le_succ _)
    | exact skims_weaken (skims_parse_prefix_expression host n d rec h hd) (Nat.zero_le _)
    | exact skims_parse_multiplicative_expression host n d rec h hd
    | exact skims_weaken (skims_parse_multiplicative_expression host n d rec h hd) (Nat.le_succ _)
    | exact skims_weaken (skims_parse_multiplicative_expression host n d rec h hd) (Nat.zero_le _)
    | exact consumes_throw | exact consumes_throw_bind | exact consumes_pure_inr
    | exact consumes_expect _ _ (by decide)
    | exact consumes_parse_value n d rec h hd
    | exact consumes_parse_accessor host n d rec h hd
    | exact consumes_parse_access_call_expression host n d rec h hd
    | exact consumes_parse_prefix_expression host n d rec h hd
    | exact consumes_parse_multiplicative_expression host n d rec h hd
    | rw [if_pos (rfl : true = true)] | rw [if_neg Bool.false_ne_true]
    | rw [if_neg (by decide : ¬ (!true) = true)] | rw [if_pos (by decide : (!false) = true)]
    | apply skims_accept_bind (by decide)
    | refine skims_bind_consumed (by first
        | exact consumes_expect _ _ (by decide)
        | exact h.statement_consumes
        | exact h.expression_consumes
        | exact h.additive_consumes
        | exact consumes_parse_value n d rec h hd
        | exact consumes_parse_accessor host n d rec h hd
        | exact consumes_parse_access_call_expression host n d rec h hd
        | exact consumes_parse_prefix_expression host n d rec h hd
        | exact consumes_parse_multiplicative_expression host n d rec h hd) ?_ ?_
    | apply skims_loop hd | apply skims_loop_zero
    | apply skims_bind | apply skims_ite
    | apply consumes_accept_bind (by decide)
    | refine consumes_bind_left (by first
        | exact consumes_expect _ _ (by decide)
        | exact h.statement_consumes
        | exact h.expression_consumes
        | exact h.additive_consumes
        | exact consumes_parse_value n d rec h hd
        | exact consumes_parse_accessor host n d rec h hd
        | exact consumes_parse_access_call_expression host n d rec h hd
        | exact consumes_parse_prefix_expression host n d rec h hd
        | exact consumes_parse_multiplicative_expression host n d rec h hd) ?_ ?_
    | apply consumes_bind_right | apply consumes_ite
    | split)

set_option maxHeartbeats 4000000 in
theorem consumes_parse_additive_expression (host : Host) (n d : Nat) (rec : Parsers) (h : rec.Skims d) (hd : d ≤ n) :
    Consumes (fun _ => True) (_parse_additive_expression host n rec) := by
  unfold _parse_additive_expression
  apply consumes_dispatch
  all_goals with_reducible repeat' (first
    | intro _
    | exact skims_pure | exact skims_throw | exact skims_get_token_state
    | exact skims_next_token | exact skims_accept _ | exact skims_expect _ _
    | exact h.statement | exact h.expression | exact h.additive
    | exact skims_weaken h.statement (Nat.zero_le _)
    | exact skims_weaken h.expression (Nat.zero_le _)
    | exact skims_weaken h.additive (Nat.zero_le _)
    | exact skims_parse_statements n d rec h hd
    | exact skims_weaken (skims_parse_statements n d rec h hd) (Nat.zero_le _)
    | exact skims_parse_function n d rec h hd
    | exact skims_weaken (skims_parse_function n d rec h hd) (Nat.zero_le _)
    | exact skims_parse_value n d rec h hd
    | exact skims_weaken (skims_parse_value n d rec h hd) (Nat.le_succ _)
    | exact skims_weaken (skims_parse_value n d rec h hd) (Nat.zero_le _)
    | exact skims_parse_accessor host n d rec h hd
    | exact skims_weaken (skims_parse_accessor host n d rec h hd) (Nat.le_succ _)
    | exact skims_weaken (skims_parse_accessor host n d rec h hd) (Nat.zero_le _)
    | exact skims_parse_access_call_expression host n d rec h hd
    | exact skims_weaken (skims_parse_access_call_expression host n d rec h hd) (Nat.le_succ _)
    | exact skims_weaken (skims_parse_access_call_expression host n d rec h hd) (Nat.zero_le _)
    | exact skims_parse_prefix_expression host n d rec h hd
    | exact skims_weaken (skims_parse_prefix_expression host n d rec h hd) (Nat.le_succ _)
    | exact skims_weaken (skims_parse_prefix_expression host n d rec h hd) (Nat.zero_le _)
    | exact skims_parse_multiplicative_expression host n d rec h hd
    | exact skims_weaken (skims_parse_multiplicative_expression host n d rec h hd) (Nat.le_succ _)
    | exact skims_weaken (skims_parse_multiplicative_expression host n d rec h hd) (Nat.zero_le _)
    | exact skims_parse_additive_expression host n d rec h hd
    | exact skims_weaken (skims_parse_additive_expression host n d rec h hd) (Nat.le_succ _)
    | exact skims_weaken (skims_parse_additive_expression host n d rec h hd) (Nat.zero_le _)
    | exact consumes_throw | exact consumes_throw_bind | exact consumes_pure_inr
    | exact consumes_expect _ _ (by decide)
    | exact consumes_parse_value n d rec h hd
    | exact consumes_parse_accessor host n d rec h hd
    | exact consumes_parse_access_call_expression host n d rec h hd
    | exact consumes_parse_prefix_expression host n d rec h hd
    | exact consumes_parse_multiplicative_expression host n d rec h hd
    | rw [if_pos (rfl : true = true)] | rw [if_neg Bool.false_ne_true]
    | rw [if_neg (by decide : ¬ (!true) = true)] | rw [if_pos (by decide : (!false) = true)]
    | apply skims_accept_bind (by decide)
    | refine skims_bind_consumed (by first
        | exact consumes_expect _ _ (by decide)
        | exact h.statement_consumes
        | exact h.expression_consumes
        | exact h.additive_consumes
        | exact consumes_parse_value n d rec h hd
        | exact consumes_parse_accessor host n d rec h hd
        | exact consumes_parse_access_call_expression host n d rec h hd
        | exact consumes_parse_prefix_expression host n d rec h hd
        | exact consumes_parse_multiplicative_expression host n d rec h hd) ?_ ?_
    | apply skims_loop hd | apply skims_loop_zero
    | apply skims_bind | apply skims_ite
    | apply consumes_accept_bind (by decide)
    | refine consumes_bind_left (by first
        | exact consumes_expect _ _ (by decide)
        | exact h.statement_consumes
        | exact h.expression_consumes
        | exact h.additive_consumes
        | exact consumes_parse_value n d rec h hd
        | exact consumes_parse_accessor host n d rec h hd
        | exact consumes_parse_access_call_expression host n d rec h hd
        | exact consumes_parse_prefix_expression host n d rec h hd
        | exact consumes_parse_multiplicative_expression host n d rec h hd) ?_ ?_
    | apply consumes_bind_right | apply consumes_ite
    | split)

set_option maxHeartbeats 4000000 in
theorem skims_parse_relational_expression (host : Host) (n d : Nat) (rec : Parsers) (h : rec.Skims d) (hd : d ≤ n) :
    Skims (d + 1) (_parse_relational_expression host n rec) := by
  unfold _parse_relational_expression
  apply skims_dispatch
  all_goals with_reducible repeat' (first
    | intro _
    | exact skims_pure | exact skims_throw | exact skims_get_token_state
    | exact skims_next_token | exact skims_accept _ | exact skims_expect _ _
    | exact h.statement | exact h.expression | exact h.additive
    | exact skims_weaken h.statement (Nat.zero_le _)
    | exact skims_weaken h.expression (Nat.zero_le _)
    | exact skims_weaken h.additive (Nat.zero_le _)
    | exact skims_parse_statements n d rec h hd
    | exact skims_weaken (skims_parse_statements n d rec h hd) (Nat.zero_le _)
    | exact skims_parse_function n d rec h hd
    | exact skims_weaken (skims_parse_function n d rec h hd) (Nat.zero_le _)
    | exact skims_parse_value n d rec h hd
    | exact skims_weaken (skims_parse_value n d rec h hd) (Nat.le_succ _)
    | exact skims_weaken (skims_parse_value n d rec h hd) (Nat.zero_le _)
    | exact skims_parse_accessor host n d rec h hd
    | exact skims_weaken (skims_parse_accessor host n d rec h hd) (Nat.le_succ _)
    | exact skims_weaken (skims_parse_accessor host n d rec h hd) (Nat.zero_le _)
    | exact skims_parse_access_call_expression host n d rec h hd
    | exact skims_weaken (skims_parse_access_call_expression host n d rec h hd) (Nat.le_succ _)
    | exact skims_weaken (skims_parse_access_call_expression host n d rec h hd) (Nat.zero_le _)
    | exact skims_parse_prefix_expression host n d rec h hd
    | exact skims_weaken (skims_parse_prefix_expression host n d rec h hd) (Nat.le_succ _)
    | exact skims_weaken (skims_parse_prefix_expression host n d rec h hd) (Nat.zero_le _)
    | exact skims_parse_multiplicative_expression host n d rec h hd
    | exact skims_weaken (skims_parse_multiplicative_expression host n d rec h hd) (Nat.le_succ _)
    | exact skims_weaken (skims_parse_multiplicative_expression host n d rec h hd) (Nat.zero_le _)
    | exact skims_parse_additive_expression host n d rec h hd
    | exact skims_weaken (skims_parse_additive_expression host n d rec h hd) (Nat.le_succ _)
    | exact skims_weaken (skims_parse_additive_expression host n d rec h hd) (Nat.zero_le _)
    | exact consumes_throw | exact consumes_throw_bind | exact consumes_pure_inr
    | exact consumes_expect _ _ (by decide)
    | exact consumes_parse_value n d rec h hd
    | exact consumes_parse_accessor host n d rec h hd
    | exact consumes_parse_access_call_expression host n d rec h hd
    | exact consumes_parse_prefix_expression host n d rec h hd
    | exact consumes_parse_multiplicative_expression host n d rec h hd
    | exact consumes_parse_additive_expression host n d rec h hd
    | rw [if_pos (rfl : true = true)] | rw [if_neg Bool.false_ne_true]
    | rw [if_neg (by decide : ¬ (!true) = true)] | rw [if_pos (by decide : (!false) = true)]
    | apply skims_accept_bind (by decide)
    | refine skims_bind_consumed (by first
        | exact consumes_expect _ _ (by decide)
        | exact h.statement_consumes
        | exact h.expression_consumes
        | exact h.additive_consumes
        | exact consumes_parse_value n d rec h hd
        | exact consumes_parse_accessor host n d rec h hd
        | exact consumes_parse_access_call_expression host n d rec h hd
        | exact consumes_parse_prefix_expression host n d rec h hd
        | exact consumes_parse_multiplicative_expression host n d rec h hd
        | exact consumes_parse_additive_expression host n d rec h hd) ?_ ?_
    | apply skims_loop hd | apply skims_loop_zero
    | apply skims_bind | apply skims_ite
    | apply consumes_accept_bind (by decide)
    | refine consumes_bind_left (by first
        | exact consumes_expect _ _ (by decide)
        | exact h.statement_consumes
        | exact h.expression_consumes
        | exact h.additive_consumes
        | exact consumes_parse_value n d rec h hd
        | exact consumes_parse_accessor host n d rec h hd
        | exact consumes_parse_access_call_expression host n d rec h hd
        | exact consumes_parse_prefix_expression host n d rec h hd
        | exact consumes_parse_multiplicative_expression host n d rec h hd
        | exact consumes_parse_additive_expression host n d rec h hd) ?_ ?_
    | apply consumes_bind_right | apply consumes_ite
    | split)

set_option maxHeartbeats 4000000 in
theorem consumes_parse_relational_expression (host : Host) (n d : Nat) (rec : Parsers) (h : rec.Skims d) (hd : d ≤ n) :
    Consumes (fun _ => True) (_parse_relational_expression host n rec) := by
  unfold _parse_relational_expression
  apply consumes_dispatch
  all_goals with_reducible repeat' (first
    | intro _
    | exact skims_pure | exact skims_throw | exact skims_get_token_state
    | exact skims_next_token | exact skims_accept _ | exact skims_expect _ _
    | exact h.statement | exact h.expression | exact h.additive
    | exact skims_weaken h.statement (Nat.zero_le _)
    | exact skims_weaken h.expression (Nat.zero_le _)
    | exact skims_weaken h.additive (Nat.zero_le _)
    | exact skims_parse_statements n d rec h hd
    | exact skims_weaken (skims_parse_statements n d rec h hd) (Nat.zero_le _)
    | exact skims_parse_function n d rec h hd
    | exact skims_weaken (skims_parse_function n d rec h hd) (Nat.zero_le _)
    | exact skims_parse_value n d rec h hd
    | exact skims_weaken (skims_parse_value n d rec h hd) (Nat.le_succ _)
    | exact skims_weaken (skims_parse_value n d rec h hd) (Nat.zero_le _)
    | exact skims_parse_accessor host n d rec h hd
    | exact skims_weaken (skims_parse_accessor host n d rec h hd) (Nat.le_succ _)
    | exact skims_weaken (skims_parse_accessor host n d rec h hd) (Nat.zero_le _)
    | exact skims_parse_access_call_expression host n d rec h hd
    | exact skims_weaken (skims_parse_access_call_expression host n d rec h hd) (Nat.le_succ _)
    | exact skims_weaken (skims_parse_access_call_expression host n d rec h hd) (Nat.zero_le _)
    | exact skims_parse_prefix_expression host n d rec h hd
    | exact skims_weaken (skims_parse_prefix_expression host n d rec h hd) (Nat.le_succ _)
    | exact skims_weaken (skims_parse_prefix_expression host n d rec h hd) (Nat.zero_le _)
    | exact skims_parse_multiplicative_expression host n d rec h hd
    | exact skims_weaken (skims_parse_multiplicative_expression host n d rec h hd) (Nat.le_succ _)
    | exact skims_weaken (skims_parse_multiplicative_expression host n d rec h hd) (Nat.zero_le _)
    | exact skims_parse_additive_expression host n d rec h hd
    | exact skims_weaken (skims_parse_additive_expression host n d rec h hd) (Nat.le_succ _)
    | exact skims_weaken (skims_parse_additive_expression host n d rec h hd) (Nat.zero_le _)
    | exact skims_parse_relational_expression host n d rec h hd
    | exact skims_weaken (skims_parse_relational_expression host n d rec h hd) (Nat.le_succ _)
    | exact skims_weaken (skims_parse_relational_expression host n d rec h hd) (Nat.zero_le _)
    | exact consumes_throw | exact consumes_throw_bind | exact consumes_pure_inr
    | exact consumes_expect _ _ (by decide)
    | exact consumes_parse_value n d rec h hd
    | exact consumes_parse_accessor host n d rec h hd
    | exact consumes_parse_access_call_expression host n d rec h hd
    | exact consumes_parse_prefix_expression host n d rec h hd
    | exact consumes_parse_multiplicative_expression host n d rec h hd
    | exact consumes_parse_additive_expression host n d rec h hd
    | rw [if_pos (rfl : true = true)] | rw [if_neg Bool.false_ne_true]
    | rw [if_neg (by decide : ¬ (!true) = true)] | rw [if_pos (by decide : (!false) = true)]
    | apply skims_accept_bind (by decide)
    | refine skims_bind_consumed (by first
        | exact consumes_expect _ _ (by decide)
        | exact h.statement_consumes
        | exact h.expression_consumes
        | exact h.additive_consumes
        | exact consumes_parse_value n d rec h hd
        | exact consumes_parse_accessor host n d rec h hd
        | exact consumes_parse_access_call_expression host n d rec h hd
        | exact consumes_parse_prefix_expression host n d rec h hd
        | exact consumes_parse_multiplicative_expression host n d rec h hd
        | exact consumes_parse_additive_expression host n d rec h hd) ?_ ?_
    | apply skims_loop hd | apply skims_loop_zero
    | apply skims_bind | apply skims_ite
    | apply consumes_accept_bind (by decide)
    | refine consumes_bind_left (by first
        | exact consumes_expect _ _ (by decide)
        | exact h.statement_consumes
        | exact h.expression_consumes
        | exact h.additive_consumes
        | exact consumes_parse_value n d rec h hd
        | exact consumes_parse_accessor host n d rec h hd
        | exact consumes_parse_access_call_expression host n d rec h hd
        | exact consumes_parse_prefix_expression host n d rec h hd
        | exact consumes_parse_multiplicative_expression host n d rec h hd
        | exact consumes_parse_additive_expression host n d rec h hd) ?_ ?_
    | apply consumes_bind_right | apply consumes_ite
    | split)

set_option maxHeartbeats 4000000 in
theorem skims_parse_logical_expression (host : Host) (n d : Nat) (rec : Parsers) (h : rec.Skims d) (hd : d ≤ n) :
    Skims (d + 1) (_parse_logical_expression host n rec) := by
  unfold _parse_logical_expression
  apply skims_dispatch
  all_goals with_reducible repeat' (first
    | intro _
    | exact skims_pure | exact skims_throw | exact skims_get_token_state
    | exact skims_next_token | exact skims_accept _ | exact skims_expect _ _
    | exact h.statement | exact h.expression | exact h.additive
    | exact skims_weaken h.statement (Nat.zero_le _)
    | exact skims_weaken h.expression (Nat.zero_le _)
    | exact skims_weaken h.additive (Nat.zero_le _)
    | exact skims_parse_statements n d rec h hd
    | exact skims_weaken (skims_parse_statements n d rec h hd) (Nat.zero_le _)
    | exact skims_parse_function n d rec h hd
    | exact skims_weaken (skims_parse_function n d rec h hd) (Nat.zero_le _)
    | exact skims_parse_value n d rec h hd
    | exact skims_weaken (skims_parse_value n d rec h hd) (Nat.le_succ _)
    | exact skims_weaken (skims_parse_value n d rec h hd) (Nat.zero_le _)
    | exact skims_parse_accessor host n d rec h hd
    | exact skims_weaken (skims_parse_accessor host n d rec h hd) (Nat.le_succ _)
    | exact skims_weaken (skims_parse_accessor host n d rec h hd) (Nat.zero_le _)
    | exact skims_parse_access_call_expression host n d rec h hd
    | exact skims_weaken (skims_parse_access_call_expression host n d rec h hd) (Nat.le_succ _)
    | exact skims_weaken (skims_parse_access_call_expression host n d rec h hd) (Nat.zero_le _)
    | exact skims_parse_prefix_expression host n d rec h hd
    | exact skims_weaken (skims_parse_prefix_expression host n d rec h hd) (Nat.le_succ _)
    | exact skims_weaken (skims_parse_prefix_expression host n d rec h hd) (Nat.zero_le _)
    | exact skims_parse_multiplicative_expression host n d rec h hd
    | exact skims_weaken (skims_parse_multiplicative_expression host n d rec h hd) (Nat.le_succ _)
    | exact skims_weaken (skims_parse_multiplicative_expression host n d rec h hd) (Nat.zero_le _)
    | exact skims_parse_additive_expression host n d rec h hd
    | exact skims_weaken (skims_parse_additive_expression host n d rec h hd) (Nat.le_succ _)
    | exact skims_weaken (skims_parse_additive_expression host n d rec h hd) (Nat.zero_le _)
    | exact skims_parse_relational_expression host n d rec h hd
    | exact skims_weaken (skims_parse_relational_expression host n d rec h hd) (Nat.le_succ _)
    | exact skims_weaken (skims_parse_relational_expression host n d rec h hd) (Nat.zero_le _)
    | exact consumes_throw | exact consumes_throw_bind | exact consumes_pure_inr
    | exact consumes_expect _ _ (by decide)
    | exact consumes_parse_value n d rec h hd
    | exact consumes_parse_accessor host n d rec h hd
    | exact consumes_parse_access_call_expression host n d rec h hd
    | exact consumes_parse_prefix_expression host n d rec h hd
    | exact consumes_parse_multiplicative_expression host n d rec h hd
    | exact consumes_parse_additive_expression host n d rec h hd
    | exact consumes_parse_relational_expression host n d rec h hd
    | rw [if_pos (rfl : true = true)] | rw [if_neg Bool.false_ne_true]
    | rw [if_neg (by decide : ¬ (!true) = true)] | rw [if_pos (by decide : (!false) = true)]
    | apply skims_accept_bind (by decide)
    | refine skims_bind_consumed (by first
        | exact consumes_expect _ _ (by decide)
        | exact h.statement_consumes
        | exact h.expression_consumes
        | exact h.additive_consumes
        | exact consumes_parse_value n d rec h hd
        | exact consumes_parse_accessor host n d rec h hd
        | exact consumes_parse_access_call_expression host n d rec h hd
        | exact consumes_parse_prefix_expression host n d rec h hd
        | exact consumes_parse_multiplicative_expression host n d rec h hd
        | exact consumes_parse_additive_expression host n d rec h hd
        | exact consumes_parse_relational_expression host n d rec h hd) ?_ ?_
    | apply skims_loop hd | apply skims_loop_zero
    | apply skims_bind | apply skims_ite
    | apply consumes_accept_bind (by decide)
    | refine consumes_bind_left (by first
        | exact consumes_expect _ _ (by decide)
        | exact h.statement_consumes
        | exact h.expression_consumes
        | exact h.additive_consumes
        | exact consumes_parse_value n d rec h hd
        | exact consumes_parse_accessor host n d rec h hd
        | exact consumes_parse_access_call_expression host n d rec h hd
        | exact consumes_parse_prefix_expression host n d rec h hd
        | exact consumes_parse_multiplicative_expression host n d rec h hd
        | exact consumes_parse_additive_expression host n d rec h hd
        | exact consumes_parse_relational_expression host n d rec h hd) ?_ ?_
    | apply consumes_bind_right | apply consumes_ite
    | split)

set_option maxHeartbeats 4000000 in
theorem consumes_parse_logical_expression (host : Host) (n d : Nat) (rec : Parsers) (h : rec.Skims d) (hd : d ≤ n) :
    Consumes (fun _ => True) (_parse_logical_expression host n rec) := by
  unfold _parse_logical_expression
  apply consumes_dispatch
  all_goals with_reducible repeat' (first
    | intro _
    | exact skims_pure | exact skims_throw | exact skims_get_token_state
    | exact skims_next_token | exact skims_accept _ | exact skims_expect _ _
    | exact h.statement | exact h.expression | exact h.additive
    | exact skims_weaken h.statement (Nat.zero_le _)
    | exact skims_weaken h.expression (Nat.zero_le _)
    | exact skims_weaken h.additive (Nat.zero_le _)
    | exact skims_parse_statements n d rec h hd
    | exact skims_weaken (skims_parse_statements n d rec h hd) (Nat.zero_le _)
    | exact skims_parse_function n d rec h hd
    | exact skims_weaken (skims_parse_function n d rec h hd) (Nat.zero_le _)
    | exact skims_parse_value n d rec h hd
    | exact skims_weaken (skims_parse_value n d rec h hd) (Nat.le_succ _)
    | exact skims_weaken (skims_parse_value n d rec h hd) (Nat.zero_le _)
    | exact skims_parse_accessor host n d rec h hd
    | exact skims_weaken (skims_parse_accessor host n d rec h hd) (Nat.le_succ _)
    | exact skims_weaken (skims_parse_accessor host n d rec h hd) (Nat.zero_le _)
    | exact skims_parse_access_call_expression host n d rec h hd
    | exact skims_weaken (skims_parse_access_call_expression host n d rec h hd) (Nat.le_succ _)
    | exact skims_weaken (skims_parse_access_call_expression host n d rec h hd) (Nat.zero_le _)
    | exact skims_parse_prefix_expression host n d rec h hd
    | exact skims_weaken (skims_parse_prefix_expression host n d rec h hd) (Nat.le_succ _)
    | exact skims_weaken (skims_parse_prefix_expression host n d rec h hd) (Nat.zero_le _)
    | exact skims_parse_multiplicative_expression host n d rec h hd
    | exact skims_weaken (skims_parse_multiplicative_expression host n d rec h hd) (Nat.le_succ _)
    | exact skims_weaken (skims_parse_multiplicative_expression host n d rec h hd) (Nat.zero_le _)
    | exact skims_parse_additive_expression host n d rec h hd
    | exact skims_weaken (skims_parse_additive_expression host n d rec h hd) (Nat.le_succ _)
    | exact skims_weaken (skims_parse_additive_expression host n d rec h hd) (Nat.zero_le _)
    | exact skims_parse_relational_expression host n d rec h hd
    | exact skims_weaken (skims_parse_relational_expression host n d rec h hd) (Nat.le_succ _)
    | exact skims_weaken (skims_parse_relational_expression host n d rec h hd) (Nat.zero_le _)
    | exact skims_parse_logical_expression host n d rec h hd
    | exact skims_weaken (skims_parse_logical_expression host n d rec h hd) (Nat.le_succ _)
    | exact skims_weaken (skims_parse_logical_expression host n d rec h hd) (Nat.zero_le _)
    | exact consumes_throw | exact consumes_throw_bind | exact consumes_pure_inr
    | exact consumes_expect _ _ (by decide)
    | exact consumes_parse_value n d rec h hd
    | exact consumes_parse_accessor host n d rec h hd
    | exact consumes_parse_access_call_expression host n d rec h hd
    | exact consumes_parse_prefix_expression host n d rec h hd
    | exact consumes_parse_multiplicative_expression host n d rec h hd
    | exact consumes_parse_additive_expression host n d rec h hd
    | exact consumes_parse_relational_expression host n d rec h hd
    | rw [if_pos (rfl : true = true)] | rw [if_neg Bool.false_ne_true]
    | rw [if_neg (by decide : ¬ (!true) = true)] | rw [if_pos (by decide : (!false) = true)]
    | apply skims_accept_bind (by decide)
    | refine skims_bind_consumed (by first
        | exact consumes_expect _ _ (by decide)
        | exact h.statement_consumes
        | exact h.expression_consumes
        | exact h.additive_consumes
        | exact consumes_parse_value n d rec h hd
        | exact consumes_parse_accessor host n d rec h hd
        | exact consumes_parse_access_call_expression host n d rec h hd
        | exact consumes_parse_prefix_expression host n d rec h hd
        | exact consumes_parse_multiplicative_expression host n d rec h hd
        | exact consumes_parse_additive_expression host n d rec h hd
        | exact consumes_parse_relational_expression host n d rec h hd) ?_ ?_
    | apply skims_loop hd | apply skims_loop_zero
    | apply skims_bind | apply skims_ite
    | apply consumes_accept_bind (by decide)
    | refine consumes_bind_left (by first
        | exact consumes_expect _ _ (by decide)
        | exact h.statement_consumes
        | exact h.expression_consumes
        | exact h.additive_consumes
        | exact consumes_parse_value n d rec h hd
        | exact consumes_parse_accessor host n d rec h hd
        | exact consumes_parse_access_call_expression host n d rec h hd
        | exact consumes_parse_prefix_expression host n d rec h hd
        | exact consumes_parse_multiplicative_expression host n d rec h hd
        | exact consumes_parse_additive_expression host n d rec h hd
        | exact consumes_parse_relational_expression host n d rec h hd) ?_ ?_
    | apply consumes_bind_right | apply consumes_ite
    | split)

set_option maxHeartbeats 4000000 in
theorem skims_js_parse_expression (host : Host) (n d : Nat) (rec : Parsers) (h : rec.Skims d) (hd : d ≤ n) :
    Skims (d + 1) (js_parse_expression host n rec) := by
  unfold js_parse_expression
  apply skims_dispatch
  all_goals with_reducible repeat' (first
    | intro _
    | exact skims_pure | exact skims_throw | exact skims_get_token_state
    | exact skims_next_token | exact skims_accept _ | exact skims_expect _ _
    | exact h.statement | exact h.expression | exact h.additive
    | exact skims_weaken h.statement (Nat.zero_le _)
    | exact skims_weaken h.expression (Nat.zero_le _)
    | exact skims_weaken h.additive (Nat.zero_le _)
    | exact skims_parse_statements n d rec h hd
    | exact skims_weaken (skims_parse_statements n d rec h hd) (Nat.zero_le _)
    | exact skims_parse_function n d rec h hd
    | exact skims_weaken (skims_parse_function n d rec h hd) (Nat.zero_le _)
    | exact skims_parse_value n d rec h hd
    | exact skims_weaken (skims_parse_value n d rec h hd) (Nat.le_succ _)
    | exact skims_weaken (skims_parse_value n d rec h hd) (Nat.zero_le _)
    | exact skims_parse_accessor host n d rec h hd
    | exact skims_weaken (skims_parse_accessor host n d rec h hd) (Nat.le_succ _)
    | exact skims_weaken (skims_parse_accessor host n d rec h hd) (Nat.zero_le _)
    | exact skims_parse_access_call_expression host n d rec h hd
    | exact skims_weaken (skims_parse_access_call_expression host n d rec h hd) (Nat.le_succ _)
    | exact skims_weaken (skims_parse_access_call_expression host n d rec h hd) (Nat.zero_le _)
    | exact skims_parse_prefix_expression host n d rec h hd
    | exact skims_weaken (skims_parse_prefix_expression host n d rec h hd) (Nat.le_succ _)
    | exact skims_weaken (skims_parse_prefix_expression host n d rec h hd) (Nat.zero_le _)
    | exact skims_parse_multiplicative_expression host n d rec h hd
    | exact skims_weaken (skims_parse_multiplicative_expression host n d rec h hd) (Nat.le_succ _)
    | exact skims_weaken (skims_parse_multiplicative_expression host n d rec h hd) (Nat.zero_le _)
    | exact skims_parse_additive_expression host n d rec h hd
    | exact skims_weaken (skims_parse_additive_expression host n d rec h hd) (Nat.le_succ _)
    | exact skims_weaken (skims_parse_additive_expression host n d rec h hd) (Nat.zero_le _)
    | exact skims_parse_relational_expression host n d rec h hd
    | exact skims_weaken (skims_parse_relational_expression host n d rec h hd) (Nat.le_succ _)
    | exact skims_weaken (skims_parse_relational_expression host n d rec h hd) (Nat.zero_le _)
    | exact skims_parse_logical_expression host n d rec h hd
    | exact skims_weaken (skims_parse_logical_expression host n d rec h hd) (Nat.le_succ _)
    | exact skims_weaken (skims_parse_logical_expression host n d rec h hd) (Nat.zero_le _)
    | exact consumes_throw | exact consumes_throw_bind | exact consumes_pure_inr
    | exact consumes_expect _ _ (by decide)
    | exact consumes_parse_value n d rec h hd
    | exact consumes_parse_accessor host n d rec h hd
    | exact consumes_parse_access_call_expression host n d rec h hd
    | exact consumes_parse_prefix_expression host n d rec h hd
    | exact consumes_parse_multiplicative_expression host n d rec h hd
    | exact consumes_parse_additive_expression host n d rec h hd
    | exact consumes_parse_relational_expression host n d rec h hd
    | exact consumes_parse_logical_expression host n d rec h hd
    | rw [if_pos (rfl : true = true)] | rw [if_neg Bool.false_ne_true]
    | rw [if_neg (by decide : ¬ (!true) = true)] | rw [if_pos (by decide : (!false) = true)]
    | apply skims_accept_bind (by decide)
    | refine skims_bind_consumed (by first
        | exact consumes_expect _ _ (by decide)
        | exact h.statement_consumes
        | exact h.expression_consumes
        | exact h.additive_consumes
        | exact consumes_parse_value n d rec h hd
        | exact consumes_parse_accessor host n d rec h hd
        | exact consumes_parse_access_call_expression host n d rec h hd
        | exact consumes_parse_prefix_expression host n d rec h hd
        | exact consumes_parse_multiplicative_expression host n d rec h hd
        | exact consumes_parse_additive_expression host n d rec h hd
        | exact consumes_parse_relational_expression host n d rec h hd
        | exact consumes_parse_logical_expression host n d rec h hd) ?_ ?_
    | apply skims_loop hd | apply skims_loop_zero
    | apply skims_bind | apply skims_ite
    | apply consumes_accept_bind (by decide)
    | refine consumes_bind_left (by first
        | exact consumes_expect _ _ (by decide)
        | exact h.statement_consumes
        | exact h.expression_consumes
        | exact h.additive_consumes
        | exact consumes_parse_value n d rec h hd
        | exact consumes_parse_accessor host n d rec h hd
        | exact consumes_parse_access_call_expression host n d rec h hd
        | exact consumes_parse_prefix_expression host n d rec h hd
        | exact consumes_parse_multiplicative_expression host n d rec h hd
        | exact consumes_parse_additive_expression host n d rec h hd
        | exact consumes_parse_relational_expression host n d rec h hd
        | exact consumes_parse_logical_expression host n d rec h hd) ?_ ?_
    | apply consumes_bind_right | apply consumes_ite
    | split)

set_option maxHeartbeats 4000000 in
theorem consumes_js_parse_expression (host : Host) (n d : Nat) (rec : Parsers) (h : rec.Skims d) (hd : d ≤ n) :
    Consumes (fun _ => True) (js_parse_expression host n rec) := by
  unfold js_parse_expression
  apply consumes_dispatch
  all_goals with_reducible repeat' (first
    | intro _
    | exact skims_pure | exact skims_throw | exact skims_get_token_state
    | exact skims_next_token | exact skims_accept _ | exact skims_expect _ _
    | exact h.statement | exact h.expression | exact h.additive
    | exact skims_weaken h.statement (Nat.zero_le _)
    | exact skims_weaken h.expression (Nat.zero_le _)
    | exact skims_weaken h.additive (Nat.zero_le _)
    | exact skims_parse_statements n d rec h hd
    | exact skims_weaken (skims_parse_statements n d rec h hd) (Nat.zero_le _)
    | exact skims_parse_function n d rec h hd
    | exact skims_weaken (skims_parse_function n d rec h hd) (Nat.zero_le _)
    | exact skims_parse_value n d rec h hd
    | exact skims_weaken (skims_parse_value n d rec h hd) (Nat.le_succ _)
    | exact skims_weaken (skims_parse_value n d rec h hd) (Nat.zero_le _)
    | exact skims_parse_accessor host n d rec h hd
    | exact skims_weaken (skims_parse_accessor host n d rec h hd) (Nat.le_succ _)
    | exact skims_weaken (skims_parse_accessor host n d rec h hd) (Nat.zero_le _)
    | exact skims_parse_access_call_expression host n d rec h hd
    | exact skims_weaken (skims_parse_access_call_expression host n d rec h hd) (Nat.le_succ _)
    | exact skims_weaken (skims_parse_access_call_expression host n d rec h hd) (Nat.zero_le _)
    | exact skims_parse_prefix_expression host n d rec h hd
    | exact skims_weaken (skims_parse_prefix_expression host n d rec h hd) (Nat.le_succ _)
    | exact skims_weaken (skims_parse_prefix_expression host n d rec h hd) (Nat.zero_le _)
    | exact skims_parse_multiplicative_expression host n d rec h hd
    | exact skims_weaken (skims_parse_multiplicative_expression host n d rec h hd) (Nat.le_succ _)
    | exact skims_weaken (skims_parse_multiplicative_expression host n d rec h hd) (Nat.zero_le _)
    | exact skims_parse_additive_expression host n d rec h hd
    | exact skims_weaken (skims_parse_additive_expression host n d rec h hd) (Nat.le_succ _)
    | exact skims_weaken (skims_parse_additive_expression host n d rec h hd) (Nat.zero_le _)
    | exact skims_parse_relational_expression host n d rec h hd
    | exact skims_weaken (skims_parse_relational_expression host n d rec h hd) (Nat.le_succ _)
    | exact skims_weaken (skims_parse_relational_expression host n d rec h hd) (Nat.zero_le _)
    | exact skims_parse_logical_expression host n d rec h hd
    | exact skims_weaken (skims_parse_logical_expression host n d rec h hd) (Nat.le_succ _)
    | exact skims_weaken (skims_parse_logical_expression host n d rec h hd) (Nat.zero_le _)
    | exact skims_js_parse_expression host n d rec h hd
    | exact skims_weaken (skims_js_parse_expression host n d rec h hd) (Nat.le_succ _)
    | exact skims_weaken (skims_js_parse_expression host n d rec h hd) (Nat.zero_le _)
    | exact consumes_throw | exact consumes_throw_bind | exact consumes_pure_inr
    | exact consumes_expect _ _ (by decide)
    | exact consumes_parse_value n d rec h hd
    | exact consumes_parse_accessor host n d rec h hd
    | exact consumes_parse_access_call_expression host n d rec h hd
    | exact consumes_parse_prefix_expression host n d rec h hd
    | exact consumes_parse_multiplicative_expression host n d rec h hd
    | exact consumes_parse_additive_expression host n d rec h hd
    | exact consumes_parse_relational_expression host n d rec h hd
    | exact consumes_parse_logical_expression host n d rec h hd
    | rw [if_pos (rfl : true = true)] | rw [if_neg Bool.false_ne_true]
    | rw [if_neg (by decide : ¬ (!true) = true)] | rw [if_pos (by decide : (!false) = true)]
    | apply skims_accept_bind (by decide)
    | refine skims_bind_consumed (by first
        | exact consumes_expect _ _ (by decide)
        | exact h.statement_consumes
        | exact h.expression_consumes
        | exact h.additive_consumes
        | exact consumes_parse_value n d rec h hd
        | exact consumes_parse_accessor host n d rec h hd
        | exact consumes_parse_access_call_expression host n d rec h hd
        | exact consumes_parse_prefix_expression host n d rec h hd
        | exact consumes_parse_multiplicative_expression host n d rec h hd
        | exact consumes_parse_additive_expression host n d rec h hd
        | exact consumes_parse_relational_expression host n d rec h hd
        | exact consumes_parse_logical_expression host n d rec h hd) ?_ ?_
    | apply skims_loop hd | apply skims_loop_zero
    | apply skims_bind | apply skims_ite
    | apply consumes_accept_bind (by decide)
    | refine consumes_bind_left (by first
        | exact consumes_expect _ _ (by decide)
        | exact h.statement_consumes
        | exact h.expression_consumes
        | exact h.additive_consumes
        | exact consumes_parse_value n d rec h hd
        | exact consumes_parse_accessor host n d rec h hd
        | exact consumes_parse_access_call_expression host n d rec h hd
        | exact consumes_parse_prefix_expression host n d rec h hd
        | exact consumes_parse_multiplicative_expression host n d rec h hd
        | exact consumes_parse_additive_expression host n d rec h hd
        | exact consumes_parse_relational_expression host n d rec h hd
        | exact consumes_parse_logical_expression host n d rec h hd) ?_ ?_
    | apply consumes_bind_right | apply consumes_ite
    | split)

set_option maxHeartbeats 4000000 in
theorem skims_parse_assignment_expression (host : Host) (n d : Nat) (rec : Parsers) (h : rec.Skims d) (hd : d ≤ n) :
    Skims (d + 1) (_parse_assignment_expression host n rec) := by
  unfold _parse_assignment_expression
  apply skims_dispatch
  all_goals with_reducible repeat' (first
    | intro _
    | exact skims_pure | exact skims_throw | exact skims_get_token_state
    | exact skims_next_token | exact skims_accept _ | exact skims_expect _ _
    | exact h.statement | exact h.expression | exact h.additive
    | exact skims_weaken h.statement (Nat.zero_le _)
    | exact skims_weaken h.expression (Nat.zero_le _)
    | exact skims_weaken h.additive (Nat.zero_le _)
    | exact skims_parse_statements n d rec h hd
    | exact skims_weaken (skims_parse_statements n d rec h hd) (Nat.zero_le _)
    | exact skims_parse_function n d rec h hd
    | exact skims_weaken (skims_parse_function n d rec h hd) (Nat.zero_le _)
    | exact skims_parse_value n d rec h hd
    | exact skims_weaken (skims_parse_value n d rec h hd) (Nat.le_succ _)
    | exact skims_weaken (skims_parse_value n d rec h hd) (Nat.zero_le _)
    | exact skims_parse_accessor host n d rec h hd
    | exact skims_weaken (skims_parse_accessor host n d rec h hd) (Nat.le_succ _)
    | exact skims_weaken (skims_parse_accessor host n d rec h hd) (Nat.zero_le _)
    | exact skims_parse_access_call_expression host n d rec h hd
    | exact skims_weaken (skims_parse_access_call_expression host n d rec h hd) (Nat.le_succ _)
    | exact skims_weaken (skims_parse_access_call_expression host n d rec h hd) (Nat.zero_le _)
    | exact skims_parse_prefix_expression host n d rec h hd
    | exact skims_weaken (skims_parse_prefix_expression host n d rec h hd) (Nat.le_succ _)
    | exact skims_weaken (skims_parse_prefix_expression host n d rec h hd) (Nat.zero_le _)
    | exact skims_parse_multiplicative_expression host n d rec h hd
    | exact skims_weaken (skims_parse_multiplicative_expression host n d rec h hd) (Nat.le_succ _)
    | exact skims_weaken (skims_parse_multiplicative_expression host n d rec h hd) (Nat.zero_le _)
    | exact skims_parse_additive_expression host n d rec h hd
    | exact skims_weaken (skims_parse_additive_expression host n d rec h hd) (Nat.le_succ _)
    | exact skims_weaken (skims_parse_additive_expression host n d rec h hd) (Nat.zero_le _)
    | exact skims_parse_relational_expression host n d rec h hd
    | exact skims_weaken (skims_parse_relational_expression host n d rec h hd) (Nat.le_succ _)
    | exact skims_weaken (skims_parse_relational_expression host n d rec h hd) (Nat.zero_le _)
    | exact skims_parse_logical_expression host n d rec h hd
    | exact skims_weaken (skims_parse_logical_expression host n d rec h hd) (Nat.le_succ _)
    | exact skims_weaken (skims_parse_logical_expression host n d rec h hd) (Nat.zero_le _)
    | exact skims_js_parse_expression host n d rec h hd
    | exact skims_weaken (skims_js_parse_expression host n d rec h hd) (Nat.le_succ _)
    | exact skims_weaken (skims_js_parse_expression host n d rec h hd) (Nat.zero_le _)
    | exact consumes_throw | exact consumes_throw_bind | exact consumes_pure_inr
    | exact consumes_expect _ _ (by decide)
    | exact consumes_parse_value n d rec h hd
    | exact consumes_parse_accessor host n d rec h hd
    | exact consumes_parse_access_call_expression host n d rec h hd
    | exact consumes_parse_prefix_expression host n d rec h hd
    | exact consumes_parse_multiplicative_expression host n d rec h hd
    | exact consumes_parse_additive_expression host n d rec h hd
    | exact consumes_parse_relational_expression host n d rec h hd
    | exact consumes_parse_logical_expression host n d rec h hd
    | exact consumes_js_parse_expression host n d rec h hd
    | rw [if_pos (rfl : true = true)] | rw [if_neg Bool.false_ne_true]
    | rw [if_neg (by decide : ¬ (!true) = true)] | rw [if_pos (by decide : (!false) = true)]
    | apply skims_accept_bind (by decide)
    | refine skims_bind_consumed (by first
        | exact consumes_expect _ _ (by decide)
        | exact h.statement_consumes
        | exact h.expression_consumes
        | exact h.additive_consumes
        | exact consumes_parse_value n d rec h hd
        | exact consumes_parse_accessor host n d rec h hd
        | exact consumes_parse_access_call_expression host n d rec h hd
        | exact consumes_parse_prefix_expression host n d rec h hd
        | exact consumes_parse_multiplicative_expression host n d rec h hd
        | exact consumes_parse_additive_expression host n d rec h hd
        | exact consumes_parse_relational_expression host n d rec h hd
        | exact consumes_parse_logical_expression host n d rec h hd
        | exact consumes_js_parse_expression host n d rec h hd) ?_ ?_
    | apply skims_loop hd | apply skims_loop_zero
    | apply skims_bind | apply skims_ite
    | apply consumes_accept_bind (by decide)
    | refine consumes_bind_left (by first
        | exact consumes_expect _ _ (by decide)
        | exact h.statement_consumes
        | exact h.expression_consumes
        | exact h.additive_consumes
        | exact consumes_parse_value n d rec h hd
        | exact consumes_parse_accessor host n d rec h hd
        | exact consumes_parse_access_call_expression host n d rec h hd
        | exact consumes_parse_prefix_expression host n d rec h hd
        | exact consumes_parse_multiplicative_expression host n d rec h hd
        | exact consumes_parse_additive_expression host n d rec h hd
        | exact consumes_parse_relational_expression host n d rec h hd
        | exact consumes_parse_logical_expression host n d rec h hd
        | exact consumes_js_parse_expression host n d rec h hd) ?_ ?_
    | apply consumes_bind_right | apply consumes_ite
    | split)

set_option maxHeartbeats 4000000 in
theorem consumes_parse_assignment_expression (host : Host) (n d : Nat) (rec : Parsers) (h : rec.Skims d) (hd : d ≤ n) :
    Consumes (fun _ => True) (_parse_assignment_expression host n rec) := by
  unfold _parse_assignment_expression
  apply consumes_dispatch
  all_goals with_reducible repeat' (first
    | intro _
    | exact skims_pure | exact skims_throw | exact skims_get_token_state
    | exact skims_next_token | exact skims_accept _ | exact skims_expect _ _
    | exact h.statement | exact h.expression | exact h.additive
    | exact skims_weaken h.statement (Nat.zero_le _)
    | exact skims_weaken h.expression (Nat.zero_le _)
    | exact skims_weaken h.additive (Nat.zero_le _)
    | exact skims_parse_statements n d rec h hd
    | exact skims_weaken (skims_parse_statements n d rec h hd) (Nat.zero_le _)
    | exact skims_parse_function n d rec h hd
    | exact skims_weaken (skims_parse_function n d rec h hd) (Nat.zero_le _)
    | exact skims_parse_value n d rec h hd
    | exact skims_weaken (skims_parse_value n d rec h hd) (Nat.le_succ _)
    | exact skims_weaken (skims_parse_value n d rec h hd) (Nat.zero_le _)
    | exact skims_parse_accessor host n d rec h hd
    | exact skims_weaken (skims_parse_accessor host n d rec h hd) (Nat.le_succ _)
    | exact skims_weaken (skims_parse_accessor host n d rec h hd) (Nat.zero_le _)
    | exact skims_parse_access_call_expression host n d rec h hd
    | exact skims_weaken (skims_parse_access_call_expression host n d rec h hd) (Nat.le_succ _)
    | exact skims_weaken (skims_parse_access_call_expression host n d rec h hd) (Nat.zero_le _)
    | exact skims_parse_prefix_expression host n d rec h hd
    | exact skims_weaken (skims_parse_prefix_expression host n d rec h hd) (Nat.le_succ _)
    | exact skims_weaken (skims_parse_prefix_expression host n d rec h hd) (Nat.zero_le _)
    | exact skims_parse_multiplicative_expression host n d rec h hd
    | exact skims_weaken (skims_parse_multiplicative_expression host n d rec h hd) (Nat.le_succ _)
    | exact skims_weaken (skims_parse_multiplicative_expression host n d rec h hd) (Nat.zero_le _)
    | exact skims_parse_additive_expression host n d rec h hd
    | exact skims_weaken (skims_parse_additive_expression host n d rec h hd) (Nat.le_succ _)
    | exact skims_weaken (skims_parse_additive_expression host n d rec h hd) (Nat.zero_le _)
    | exact skims_parse_relational_expression host n d rec h hd
    | exact skims_weaken (skims_parse_relational_expression host n d rec h hd) (Nat.le_succ _)
    | exact skims_weaken (skims_parse_relational_expression host n d rec h hd) (Nat.zero_le _)
    | exact skims_parse_logical_expression host n d rec h hd
    | exact skims_weaken (skims_parse_logical_expression host n d rec h hd) (Nat.le_succ _)
    | exact skims_weaken (skims_parse_logical_expression host n d rec h hd) (Nat.zero_le _)
    | exact skims_js_parse_expression host n d rec h hd
    | exact skims_weaken (skims_js_parse_expression host n d rec h hd) (Nat.le_succ _)
    | exact skims_weaken (skims_js_parse_expression host n d rec h hd) (Nat.zero_le _)
    | exact skims_parse_assignment_expression host n d rec h hd
    | exact skims_weaken (skims_parse_assignment_expression host n d rec h hd) (Nat.le_succ _)
    | exact skims_weaken (skims_parse_assignment_expression host n d rec h hd) (Nat.zero_le _)
    | exact consumes_throw | exact consumes_throw_bind | exact consumes_pure_inr
    | exact consumes_expect _ _ (by decide)
    | exact consumes_parse_value n d rec h hd
    | exact consumes_parse_accessor host n d rec h hd
    | exact consumes_parse_access_call_expression host n d rec h hd
    | exact consumes_parse_prefix_expression host n d rec h hd
    | exact consumes_parse_multiplicative_expression host n d rec h hd
    | exact consumes_parse_additive_expression host n d rec h hd
    | exact consumes_parse_relational_expression host n d rec h hd
    | exact consumes_parse_logical_expression host n d rec h hd
    | exact consumes_js_parse_expression host n d rec h hd
    | rw [if_pos (rfl : true = true)] | rw [if_neg Bool.false_ne_true]
    | rw [if_neg (by decide : ¬ (!true) = true)] | rw [if_pos (by decide : (!false) = true)]
    | apply skims_accept_bind (by decide)
    | refine skims_bind_consumed (by first
        | exact consumes_expect _ _ (by decide)
        | exact h.statement_consumes
        | exact h.expression_consumes
        | exact h.additive_consumes
        | exact consumes_parse_value n d rec h hd
        | exact consumes_parse_accessor host n d rec h hd
        | exact consumes_parse_access_call_expression host n d rec h hd
        | exact consumes_parse_prefix_expression host n d rec h hd
        | exact consumes_parse_multiplicative_expression host n d rec h hd
        | exact consumes_parse_additive_expression host n d rec h hd
        | exact consumes_parse_relational_expression host n d rec h hd
        | exact consumes_parse_logical_expression host n d rec h hd
        | exact consumes_js_parse_expression host n d rec h hd) ?_ ?_
    | apply skims_loop hd | apply skims_loop_zero
    | apply skims_bind | apply skims_ite
    | apply consumes_accept_bind (by decide)
    | refine consumes_bind_left (by first
        | exact consumes_expect _ _ (by decide)
        | exact h.statement_consumes
        | exact h.expression_consumes
        | exact h.additive_consumes
        | exact consumes_parse_value n d rec h hd
        | exact consumes_parse_accessor host n d rec h hd
        | exact consumes_parse_access_call_expression host n d rec h hd
        | exact consumes_parse_prefix_expression host n d rec h hd
        | exact consumes_parse_multiplicative_expression host n d rec h hd
        | exact consumes_parse_additive_expression host n d rec h hd
        | exact consumes_parse_relational_expression host n d rec h hd
        | exact consumes_parse_logical_expression host n d rec h hd
        | exact consumes_js_parse_expression host n d rec h hd) ?_ ?_
    | apply consumes_bind_right | apply consumes_ite
    | split)

set_option maxHeartbeats 4000000 in
theorem skims_parse_declaration_expression (host : Host) (n d : Nat) (rec : Parsers) (h : rec.Skims d) (hd : d ≤ n) :
    Skims (d + 1) (_parse_declaration_expression host n rec) := by
  unfold _parse_declaration_expression
  apply skims_dispatch
  all_goals with_reducible repeat' (first
    | intro _
    | exact skims_pure | exact skims_throw | exact skims_get_token_state
    | exact skims_next_token | exact skims_accept _ | exact skims_expect _ _
    | exact h.statement | exact h.expression | exact h.additive
    | exact skims_weaken h.statement (Nat.zero_le _)
    | exact skims_weaken h.expression (Nat.zero_le _)
    | exact skims_weaken h.additive (Nat.zero_le _)
    | exact skims_parse_statements n d rec h hd
    | exact skims_weaken (skims_parse_statements n d rec h hd) (Nat.zero_le _)
    | exact skims_parse_function n d rec h hd
    | exact skims_weaken (skims_parse_function n d rec h hd) (Nat.zero_le _)
    | exact skims_parse_value n d rec h hd
    | exact skims_weaken (skims_parse_value n d rec h hd) (Nat.le_succ _)
    | exact skims_weaken (skims_parse_value n d rec h hd) (Nat.zero_le _)
    | exact skims_parse_accessor host n d rec h hd
    | exact skims_weaken (skims_parse_accessor host n d rec h hd) (Nat.le_succ _)
    | exact skims_weaken (skims_parse_accessor host n d rec h hd) (Nat.zero_le _)
    | exact skims_parse_access_call_expression host n d rec h hd
    | exact skims_weaken (skims_parse_access_call_expression host n d rec h hd) (Nat.le_succ _)
    | exact skims_weaken (skims_parse_access_call_expression host n d rec h hd) (Nat.zero_le _)
    | exact skims_parse_prefix_expression host n d rec h hd
    | exact skims_weaken (skims_parse_prefix_expression host n d rec h hd) (Nat.le_succ _)
    | exact skims_weaken (skims_parse_prefix_expression host n d rec h hd) (Nat.zero_le _)
    | exact skims_parse_multiplicative_expression host n d rec h hd
    | exact skims_weaken (skims_parse_multiplicative_expression host n d rec h hd) (Nat.le_succ _)
    | exact skims_weaken (skims_parse_multiplicative_expression host n d rec h hd) (Nat.zero_le _)
    | exact skims_parse_additive_expression host n d rec h hd
    | exact skims_weaken (skims_parse_additive_expression host n d rec h hd) (Nat.le_succ _)
    | exact skims_weaken (skims_parse_additive_expression host n d rec h hd) (Nat.zero_le _)
    | exact skims_parse_relational_expression host n d rec h hd
    | exact skims_weaken (skims_parse_relational_expression host n d rec h hd) (Nat.le_succ _)
    | exact skims_weaken (skims_parse_relational_expression host n d rec h hd) (Nat.zero_le _)
    | exact skims_parse_logical_expression host n d rec h hd
    | exact skims_weaken (skims_parse_logical_expression host n d rec h hd) (Nat.le_succ _)
    | exact skims_weaken (skims_parse_logical_expression host n d rec h hd) (Nat.zero_le _)
    | exact skims_js_parse_expression host n d rec h hd
    | exact skims_weaken (skims_js_parse_expression host n d rec h hd) (Nat.le_succ _)
    | exact skims_weaken (skims_js_parse_expression host n d rec h hd) (Nat.zero_le _)
    | exact skims_parse_assignment_expression host n d rec h hd
    | exact skims_weaken (skims_parse_assignment_expression host n d rec h hd) (Nat.le_succ _)
    | exact skims_weaken (skims_parse_assignment_expression host n d rec h hd) (Nat.zero_le _)
    | exact consumes_throw | exact consumes_throw_bind | exact consumes_pure_inr
    | exact consumes_expect _ _ (by decide)
    | exact consumes_parse_value n d rec h hd
    | exact consumes_parse_accessor host n d rec h hd
    | exact consumes_parse_access_call_expression host n d rec h hd
    | exact consumes_parse_prefix_expression host n d rec h hd
    | exact consumes_parse_multiplicative_expression host n d rec h hd
    | exact consumes_parse_additive_expression host n d rec h hd
    | exact consumes_parse_relational_expression host n d rec h hd
    | exact consumes_parse_logical_expression host n d rec h hd
    | exact consumes_js_parse_expression host n d rec h hd
    | exact consumes_parse_assignment_expression host n d rec h hd
    | rw [if_pos (rfl : true = true)] | rw [if_neg Bool.false_ne_true]
    | rw [if_neg (by decide : ¬ (!true) = true)] | rw [if_pos (by decide : (!false) = true)]
    | apply skims_accept_bind (by decide)
    | refine skims_bind_consumed (by first
        | exact consumes_expect _ _ (by decide)
        | exact h.statement_consumes
        | exact h.expression_consumes
        | exact h.additive_consumes
        | exact consumes_parse_value n d rec h hd
        | exact consumes_parse_accessor host n d rec h hd
        | exact consumes_parse_access_call_expression host n d rec h hd
        | exact consumes_parse_prefix_expression host n d rec h hd
        | exact consumes_parse_multiplicative_expression host n d rec h hd
        | exact consumes_parse_additive_expression host n d rec h hd
        | exact consumes_parse_relational_expression host n d rec h hd
        | exact consumes_parse_logical_expression host n d rec h hd
        | exact consumes_js_parse_expression host n d rec h hd
        | exact consumes_parse_assignment_expression host n d rec h hd) ?_ ?_
    | apply skims_loop hd | apply skims_loop_zero
    | apply skims_bind | apply skims_ite
    | apply consumes_accept_bind (by decide)
    | refine consumes_bind_left (by first
        | exact consumes_expect _ _ (by decide)
        | exact h.statement_consumes
        | exact h.expression_consumes
        | exact h.additive_consumes
        | exact consumes_parse_value n d rec h hd
        | exact consumes_parse_accessor host n d rec h hd
        | exact consumes_parse_access_call_expression host n d rec h hd
        | exact consumes_parse_prefix_expression host n d rec h hd
        | exact consumes_parse_multiplicative_expression host n d rec h hd
        | exact consumes_parse_additive_expression host n d rec h hd
        | exact consumes_parse_relational_expression host n d rec h hd
        | exact consumes_parse_logical_expression host n d rec h hd
        | exact consumes_js_parse_expression host n d rec h hd
        | exact consumes_parse_assignment_expression host n d rec h hd) ?_ ?_
    | apply consumes_bind_right | apply consumes_ite
    | split)

set_option maxHeartbeats 4000000 in
theorem consumes_parse_declaration_expression (host : Host) (n d : Nat) (rec : Parsers) (h : rec.Skims d) (hd : d ≤ n) :
    Consumes (fun _ => True) (_parse_declaration_expression host n rec) := by
  unfold _parse_declaration_expression
  apply consumes_dispatch
  all_goals with_reducible repeat' (first
    | intro _
    | exact skims_pure | exact skims_throw | exact skims_get_token_state
    | exact skims_next_token | exact skims_accept _ | exact skims_expect _ _
    | exact h.statement | exact h.expression | exact h.additive
    | exact skims_weaken h.statement (Nat.zero_le _)
    | exact skims_weaken h.expression (Nat.zero_le _)
    | exact skims_weaken h.additive (Nat.zero_le _)
    | exact skims_parse_statements n d rec h hd
    | exact skims_weaken (skims_parse_statements n d rec h hd) (Nat.zero_le _)
    | exact skims_parse_function n d rec h hd
    | exact skims_weaken (skims_parse_function n d rec h hd) (Nat.zero_le _)
    | exact skims_parse_value n d rec h hd
    | exact skims_weaken (skims_parse_value n d rec h hd) (Nat.le_succ _)
    | exact skims_weaken (skims_parse_value n d rec h hd) (Nat.zero_le _)
    | exact skims_parse_accessor host n d rec h hd
    | exact skims_weaken (skims_parse_accessor host n d rec h hd) (Nat.le_succ _)
    | exact skims_weaken (skims_parse_accessor host n d rec h hd) (Nat.zero_le _)
    | exact skims_parse_access_call_expression host n d rec h hd
    | exact skims_weaken (skims_parse_access_call_expression host n d rec h hd) (Nat.le_succ _)
    | exact skims_weaken (skims_parse_access_call_expression host n d rec h hd) (Nat.zero_le _)
    | exact skims_parse_prefix_expression host n d rec h hd
    | exact skims_weaken (skims_parse_prefix_expression host n d rec h hd) (Nat.le_succ _)
    | exact skims_weaken (skims_parse_prefix_expression host n d rec h hd) (Nat.zero_le _)
    | exact skims_parse_multiplicative_expression host n d rec h hd
    | exact skims_weaken (skims_parse_multiplicative_expression host n d rec h hd) (Nat.le_succ _)
    | exact skims_weaken (skims_parse_multiplicative_expression host n d rec h hd) (Nat.zero_le _)
    | exact skims_parse_additive_expression host n d rec h hd
    | exact skims_weaken (skims_parse_additive_expression host n d rec h hd) (Nat.le_succ _)
    | exact skims_weaken (skims_parse_additive_expression host n d rec h hd) (Nat.zero_le _)
    | exact skims_parse_relational_expression host n d rec h hd
    | exact skims_weaken (skims_parse_relational_expression host n d rec h hd) (Nat.le_succ _)
    | exact skims_weaken (skims_parse_relational_expression host n d rec h hd) (Nat.zero_le _)
    | exact skims_parse_logical_expression host n d rec h hd
    | exact skims_weaken (skims_parse_logical_expression host n d rec h hd) (Nat.le_succ _)
    | exact skims_weaken (skims_parse_logical_expression host n d rec h hd) (Nat.zero_le _)
    | exact skims_js_parse_expression host n d rec h hd
    | exact skims_weaken (skims_js_parse_expression host n d rec h hd) (Nat.le_succ _)
    | exact skims_weaken (skims_js_parse_expression host n d rec h hd) (Nat.zero_le _)
    | exact skims_parse_assignment_expression host n d rec h hd
    | exact skims_weaken (skims_parse_assignment_expression host n d rec h hd) (Nat.le_succ _)
    | exact skims_weaken (skims_parse_assignment_expression host n d rec h hd) (Nat.zero_le _)
    | exact skims_parse_declaration_expression host n d rec h hd
    | exact skims_weaken (skims_parse_declaration_expression host n d rec h hd) (Nat.le_succ _)
    | exact skims_weaken (skims_parse_declaration_expression host n d rec h hd) (Nat.zero_le _)
    | exact consumes_throw | exact consumes_throw_bind | exact consumes_pure_inr
    | exact consumes_expect _ _ (by decide)
    | exact consumes_parse_value n d rec h hd
    | exact consumes_parse_accessor host n d rec h hd
    | exact consumes_parse_access_call_expression host n d rec h hd
    | exact consumes_parse_prefix_expression host n d rec h hd
    | exact consumes_parse_multiplicative_expression host n d rec h hd
    | exact consumes_parse_additive_expression host n d rec h hd
    | exact consumes_parse_relational_expression host n d rec h hd
    | exact consumes_parse_logical_expression host n d rec h hd
    | exact consumes_js_parse_expression host n d rec h hd
    | exact consumes_parse_assignment_expression host n d rec h hd
    | rw [if_pos (rfl : true = true)] | rw [if_neg Bool.false_ne_true]
    | rw [if_neg (by decide : ¬ (!true) = true)] | rw [if_pos (by decide : (!false) = true)]
    | apply skims_accept_bind (by decide)
    | refine skims_bind_consumed (by first
        | exact consumes_expect _ _ (by decide)
        | exact h.statement_consumes
        | exact h.expression_consumes
        | exact h.additive_consumes
        | exact consumes_parse_value n d rec h hd
        | exact consumes_parse_accessor host n d rec h hd
        | exact consumes_parse_access_call_expression host n d rec h hd
        | exact consumes_parse_prefix_expression host n d rec h hd
        | exact consumes_parse_multiplicative_expression host n d rec h hd
        | exact consumes_parse_additive_expression host n d rec h hd
        | exact consumes_parse_relational_expression host n d rec h hd
        | exact consumes_parse_logical_expression host n d rec h hd
        | exact consumes_js_parse_expression host n d rec h hd
        | exact consumes_parse_assignment_expression host n d rec h hd) ?_ ?_
    | apply skims_loop hd | apply skims_loop_zero
    | apply skims_bind | apply skims_ite
    | apply consumes_accept_bind (by decide)
    | refine consumes_bind_left (by first
        | exact consumes_expect _ _ (by decide)
        | exact h.statement_consumes
        | exact h.expression_consumes
        | exact h.additive_consumes
        | exact consumes_parse_value n d rec h hd
        | exact consumes_parse_accessor host n d rec h hd
        | exact consumes_parse_access_call_expression host n d rec h hd
        | exact consumes_parse_prefix_expression host n d rec h hd
        | exact consumes_parse_multiplicative_expression host n d rec h hd
        | exact consumes_parse_additive_expression host n d rec h hd
        | exact consumes_parse_relational_expression host n d rec h hd
        | exact consumes_parse_logical_expression host n d rec h hd
        | exact consumes_js_parse_expression host n d rec h hd
        | exact consumes_parse_assignment_expression host n d rec h hd) ?_ ?_
    | apply consumes_bind_right | apply consumes_ite
    | split)

set_option maxHeartbeats 4000000 in
theorem skims_parse_statement (host : Host) (n d : Nat) (rec : Parsers) (h : rec.Skims d) (hd : d ≤ n) :
    Skims (d + 1) (_parse_statement host n rec) := by
  unfold _parse_statement
  apply skims_dispatch
  all_goals with_reducible repeat' (first
    | intro _
    | exact skims_pure | exact skims_throw | exact skims_get_token_state
    | exact skims_next_token | exact skims_accept _ | exact skims_expect _ _
    | exact h.statement | exact h.expression | exact h.additive
    | exact skims_weaken h.statement (Nat.zero_le _)
    | exact skims_weaken h.expression (Nat.zero_le _)
    | exact skims_weaken h.additive (Nat.zero_le _)
    | exact skims_parse_statements n d rec h hd
    | exact skims_weaken (skims_parse_statements n d rec h hd) (Nat.zero_le _)
    | exact skims_parse_function n d rec h hd
    | exact skims_weaken (skims_parse_function n d rec h hd) (Nat.zero_le _)
    | exact skims_parse_value n d rec h hd
    | exact skims_weaken (skims_parse_value n d rec h hd) (Nat.le_succ _)
    | exact skims_weaken (skims_parse_value n d rec h hd) (Nat.zero_le _)
    | exact skims_parse_accessor host n d rec h hd
    | exact skims_weaken (skims_parse_accessor host n d rec h hd) (Nat.le_succ _)
    | exact skims_weaken (skims_parse_accessor host n d rec h hd) (Nat.zero_le _)
    | exact skims_parse_access_call_expression host n d rec h hd
    | exact skims_weaken (skims_parse_access_call_expression host n d rec h hd) (Nat.le_succ _)
    | exact skims_weaken (skims_parse_access_call_expression host n d rec h hd) (Nat.zero_le _)
    | exact skims_parse_prefix_expression host n d rec h hd
    | exact skims_weaken (skims_parse_prefix_expression host n d rec h hd) (Nat.le_succ _)
    | exact skims_weaken (skims_parse_prefix_expression host n d rec h hd) (Nat.zero_le _)
    | exact skims_parse_multiplicative_expression host n d rec h hd
    | exact skims_weaken (skims_parse_multiplicative_expression host n d rec h hd) (Nat.le_succ _)
    | exact skims_weaken (skims_parse_multiplicative_expression host n d rec h hd) (Nat.zero_le _)
    | exact skims_parse_additive_expression host n d rec h hd
    | exact skims_weaken (skims_parse_additive_expression host n d rec h hd) (Nat.le_succ _)
    | exact skims_weaken (skims_parse_additive_expression host n d rec h hd) (Nat.zero_le _)
    | exact skims_parse_relational_expression host n d rec h hd
    | exact skims_weaken (skims_parse_relational_expression host n d rec h hd) (Nat.le_succ _)
    | exact skims_weaken (skims_parse_relational_expression host n d rec h hd) (Nat.zero_le _)
    | exact skims_parse_logical_expression host n d rec h hd
    | exact skims_weaken (skims_parse_logical_expression host n d rec h hd) (Nat.le_succ _)
    | exact skims_weaken (skims_parse_logical_expression host n d rec h hd) (Nat.zero_le _)
    | exact skims_js_parse_expression host n d rec h hd
    | exact skims_weaken (skims_js_parse_expression host n d rec h hd) (Nat.le_succ _)
    | exact skims_weaken (skims_js_parse_expression host n d rec h hd) (Nat.zero_le _)
    | exact skims_parse_assignment_expression host n d rec h hd
    | exact skims_weaken (skims_parse_assignment_expression host n d rec h hd) (Nat.le_succ _)
    | exact skims_weaken (skims_parse_assignment_expression host n d rec h hd) (Nat.zero_le _)
    | exact skims_parse_declaration_expression host n d rec h hd
    | exact skims_weaken (skims_parse_declaration_expression host n d rec h hd) (Nat.le_succ _)
    | exact skims_weaken (skims_parse_declaration_expression host n d rec h hd) (Nat.zero_le _)
    | exact consumes_throw | exact consumes_throw_bind | exact consumes_pure_inr
    | exact consumes_expect _ _ (by decide)
    | exact consumes_parse_value n d rec h hd
    | exact consumes_parse_accessor host n d rec h hd
    | exact consumes_parse_access_call_expression host n d rec h hd
    | exact consumes_parse_prefix_expression host n d rec h hd
    | exact consumes_parse_multiplicative_expression host n d rec h hd
    | exact consumes_parse_additive_expression host n d rec h hd
    | exact consumes_parse_relational_expression host n d rec h hd
    | exact consumes_parse_logical_expression host n d rec h hd
    | exact consumes_js_parse_expression host n d rec h hd
    | exact consumes_parse_assignment_expression host n d rec h hd
    | exact consumes_parse_declaration_expression host n d rec h hd
    | rw [if_pos (rfl : true = true)] | rw [if_neg Bool.false_ne_true]
    | rw [if_neg (by decide : ¬ (!true) = true)] | rw [if_pos (by decide : (!false) = true)]
    | apply skims_accept_bind (by decide)
    | refine skims_bind_consumed (by first
        | exact consumes_expect _ _ (by decide)
        | exact h.statement_consumes
        | exact h.expression_consumes
        | exact h.additive_consumes
        | exact consumes_parse_value n d rec h hd
        | exact consumes_parse_accessor host n d rec h hd
        | exact consumes_parse_access_call_expression host n d rec h hd
        | exact consumes_parse_prefix_expression host n d rec h hd
        | exact consumes_parse_multiplicative_expression host n d rec h hd
        | exact consumes_parse_additive_expression host n d rec h hd
        | exact consumes_parse_relational_expression host n d rec h hd
        | exact consumes_parse_logical_expression host n d rec h hd
        | exact consumes_js_parse_expression host n d rec h hd
        | exact consumes_parse_assignment_expression host n d rec h hd
        | exact consumes_parse_declaration_expression host n d rec h hd) ?_ ?_
    | apply skims_loop hd | apply skims_loop_zero
    | apply skims_bind | apply skims_ite
    | apply consumes_accept_bind (by decide)
    | refine consumes_bind_left (by first
        | exact consumes_expect _ _ (by decide)
        | exact h.statement_consumes
        | exact h.expression_consumes
        | exact h.additive_consumes
        | exact consumes_parse_value n d rec h hd
        | exact consumes_parse_accessor host n d rec h hd
        | exact consumes_parse_access_call_expression host n d rec h hd
        | exact consumes_parse_prefix_expression host n d rec h hd
        | exact consumes_parse_multiplicative_expression host n d rec h hd
        | exact consumes_parse_additive_expression host n d rec h hd
        | exact consumes_parse_relational_expression host n d rec h hd
        | exact consumes_parse_logical_expression host n d rec h hd
        | exact consumes_js_parse_expression host n d rec h hd
        | exact consumes_parse_assignment_expression host n d rec h hd
        | exact consumes_parse_declaration_expression host n d rec h hd) ?_ ?_
    | apply consumes_bind_right | apply consumes_ite
    | split)

set_option maxHeartbeats 4000000 in
theorem consumes_parse_statement (host : Host) (n d : Nat) (rec : Parsers) (h : rec.Skims d) (hd : d ≤ n) :
    Consumes (fun _ => True) (_parse_statement host n rec) := by
  unfold _parse_statement
  apply consumes_dispatch
  all_goals with_reducible repeat' (first
    | intro _
    | exact skims_pure | exact skims_throw | exact skims_get_token_state
    | exact skims_next_token | exact skims_accept _ | exact skims_expect _ _
    | exact h.statement | exact h.expression | exact h.additive
    | exact skims_weaken h.statement (Nat.zero_le _)
    | exact skims_weaken h.expression (Nat.zero_le _)
    | exact skims_weaken h.additive (Nat.zero_le _)
    | exact skims_parse_statements n d rec h hd
    | exact skims_weaken (skims_parse_statements n d rec h hd) (Nat.zero_le _)
    | exact skims_parse_function n d rec h hd
    | exact skims_weaken (skims_parse_function n d rec h hd) (Nat.zero_le _)
    | exact skims_parse_value n d rec h hd
    | exact skims_weaken (skims_parse_value n d rec h hd) (Nat.le_succ _)
    | exact skims_weaken (skims_parse_value n d rec h hd) (Nat.zero_le _)
    | exact skims_parse_accessor host n d rec h hd
    | exact skims_weaken (skims_parse_accessor host n d rec h hd) (Nat.le_succ _)
    | exact skims_weaken (skims_parse_accessor host n d rec h hd) (Nat.zero_le _)
    | exact skims_parse_access_call_expression host n d rec h hd
    | exact skims_weaken (skims_parse_access_call_expression host n d rec h hd) (Nat.le_succ _)
    | exact skims_weaken (skims_parse_access_call_expression host n d rec h hd) (Nat.zero_le _)
    | exact skims_parse_prefix_expression host n d rec h hd
    | exact skims_weaken (skims_parse_prefix_expression host n d rec h hd) (Nat.le_succ _)
    | exact skims_weaken (skims_parse_prefix_expression host n d rec h hd) (Nat.zero_le _)
    | exact skims_parse_multiplicative_expression host n d rec h hd
    | exact skims_weaken (skims_parse_multiplicative_expression host n d rec h hd) (Nat.le_succ _)
    | exact skims_weaken (skims_parse_multiplicative_expression host n d rec h hd) (Nat.zero_le _)
    | exact skims_parse_additive_expression host n d rec h hd
    | exact skims_weaken (skims_parse_additive_expression host n d rec h hd) (Nat.le_succ _)
    | exact skims_weaken (skims_parse_additive_expression host n d rec h hd) (Nat.zero_le _)
    | exact skims_parse_relational_expression host n d rec h hd
    | exact skims_weaken (skims_parse_relational_expression host n d rec h hd) (Nat.le_succ _)
    | exact skims_weaken (skims_parse_relational_expression host n d rec h hd) (Nat.zero_le _)
    | exact skims_parse_logical_expression host n d rec h hd
    | exact skims_weaken (skims_parse_logical_expression host n d rec h hd) (Nat.le_succ _)
    | exact skims_weaken (skims_parse_logical_expression host n d rec h hd) (Nat.zero_le _)
    | exact skims_js_parse_expression host n d rec h hd
    | exact skims_weaken (skims_js_parse_expression host n d rec h hd) (Nat.le_succ _)
    | exact skims_weaken (skims_js_parse_expression host n d rec h hd) (Nat.zero_le _)
    | exact skims_parse_assignment_expression host n d rec h hd
    | exact skims_weaken (skims_parse_assignment_expression host n d rec h hd) (Nat.le_succ _)
    | exact skims_weaken (skims_parse_assignment_expression host n d rec h hd) (Nat.zero_le _)
    | exact skims_parse_declaration_expression host n d rec h hd
    | exact skims_weaken (skims_parse_declaration_expression host n d rec h hd) (Nat.le_succ _)
    | exact skims_weaken (skims_parse_declaration_expression host n d rec h hd) (Nat.zero_le _)
    | exact skims_parse_statement host n d rec h hd
    | exact skims_weaken (skims_parse_statement host n d rec h hd) (Nat.le_succ _)
    | exact skims_weaken (skims_parse_statement host n d rec h hd) (Nat.zero_le _)
    | exact consumes_throw | exact consumes_throw_bind | exact consumes_pure_inr
    | exact consumes_expect _ _ (by decide)
    | exact consumes_parse_value n d rec h hd
    | exact consumes_parse_accessor host n d rec h hd
    | exact consumes_parse_access_call_expression host n d rec h hd
    | exact consumes_parse_prefix_expression host n d rec h hd
    | exact consumes_parse_multiplicative_expression host n d rec h hd
    | exact consumes_parse_additive_expression host n d rec h hd
    | exact consumes_parse_relational_expression host n d rec h hd
    | exact consumes_parse_logical_expression host n d rec h hd
    | exact consumes_js_parse_expression host n d rec h hd
    | exact consumes_parse_assignment_expression host n d rec h hd
    | exact consumes_parse_declaration_expression host n d rec h hd
    | rw [if_pos (rfl : true = true)] | rw [if_neg Bool.false_ne_true]
    | rw [if_neg (by decide : ¬ (!true) = true)] | rw [if_pos (by decide : (!false) = true)]
    | apply skims_accept_bind (by decide)
    | refine skims_bind_consumed (by first
        | exact consumes_expect _ _ (by decide)
        | exact h.statement_consumes
        | exact h.expression_consumes
        | exact h.additive_consumes
        | exact consumes_parse_value n d rec h hd
        | exact consumes_parse_accessor host n d rec h hd
        | exact consumes_parse_access_call_expression host n d rec h hd
        | exact consumes_parse_prefix_expression host n d rec h hd
        | exact consumes_parse_multiplicative_expression host n d rec h hd
        | exact consumes_parse_additive_expression host n d rec h hd
        | exact consumes_parse_relational_expression host n d rec h hd
        | exact consumes_parse_logical_expression host n d rec h hd
        | exact consumes_js_parse_expression host n d rec h hd
        | exact consumes_parse_assignment_expression host n d rec h hd
        | exact consumes_parse_declaration_expression host n d rec h hd) ?_ ?_
    | apply skims_loop hd | apply skims_loop_zero
    | apply skims_bind | apply skims_ite
    | apply consumes_accept_bind (by decide)
    | refine consumes_bind_left (by first
        | exact consumes_expect _ _ (by decide)
        | exact h.statement_consumes
        | exact h.expression_consumes
        | exact h.additive_consumes
        | exact consumes_parse_value n d rec h hd
        | exact consumes_parse_accessor host n d rec h hd
        | exact consumes_parse_access_call_expression host n d rec h hd
        | exact consumes_parse_prefix_expression host n d rec h hd
        | exact consumes_parse_multiplicative_expression host n d rec h hd
        | exact consumes_parse_additive_expression host n d rec h hd
        | exact consumes_parse_relational_expression host n d rec h hd
        | exact consumes_parse_logical_expression host n d rec h hd
        | exact consumes_js_parse_expression host n d rec h hd
        | exact consumes_parse_assignment_expression host n d rec h hd
        | exact consumes_parse_declaration_expression host n d rec h hd) ?_ ?_
    | apply consumes_bind_right | apply consumes_ite
    | split)

theorem skims_parsers (host : Host) : ∀ n, (parsers host n).Skims n
  | 0 =>
    ⟨⟨fun _ _ _ _ h => (nomatch h), fun _ _ hr => absurd hr (Nat.not_lt_zero _)⟩,
     ⟨fun _ _ _ _ h => (nomatch h), fun _ _ hr => absurd hr (Nat.not_lt_zero _)⟩,
     ⟨fun _ _ _ _ h => (nomatch h), fun _ _ hr => absurd hr (Nat.not_lt_zero _)⟩,
     ⟨fun _ _ _ _ h => (nomatch h)⟩, ⟨fun _ _ _ _ h => (nomatch h)⟩, ⟨fun _ _ _ _ h => (nomatch h)⟩⟩
  | n + 1 =>
    ⟨skims_parse_statement host n n _ (skims_parsers host n) (le_refl _),
     skims_parse_additive_expression host n n _ (skims_parsers host n) (le_refl _),
     skims_js_parse_expression host n n _ (skims_parsers host n) (le_refl _),
     consumes_parse_statement host n n _ (skims_parsers host n) (le_refl _),
     consumes_parse_additive_expression host n n _ (skims_parsers host n) (le_refl _),
     consumes_js_parse_expression host n n _ (skims_parsers host n) (le_refl _)⟩

/-- C34: `_parse_statement` from a state `s` in skim mode, with any token array and
any cursor, and with fuel `n` at least the number of tokens from the cursor to the
end.  The run does not stop at the iteration bound: it returns or raises an error.
When it returns, the state is `s` but for the cursor, the cursor was inside the
token array and is strictly further on.  The functions it calls, `js_parse_expression`,
`_parse_accessor` and `_parse_value`, do not stop at the iteration bound either, and
when they return the cursor is not before where it was. -/
theorem skim_statement_ends_and_advances (host : Host) (n : Nat) (s : js)
    (hs : s.exec = false) (hr : s.remaining ≤ n) :
    _parse_statement host n (parsers host n) s ≠ .error .out_of_fuel ∧
    (∀ s1, _parse_statement host n (parsers host n) s = .ok ((), s1) →
      s1 = { s with tok_cache_idx := s1.tok_cache_idx } ∧
      s.tok_cache_idx < s.tok_cache.length ∧ s.tok_cache_idx < s1.tok_cache_idx) ∧
    js_parse_expression host n (parsers host n) s ≠ .error .out_of_fuel ∧
    _parse_accessor host n (parsers host n) s ≠ .error .out_of_fuel ∧
    _parse_value n (parsers host n) s ≠ .error .out_of_fuel ∧
    (∀ v s1, js_parse_expression host n (parsers host n) s = .ok (v, s1) →
      s.tok_cache_idx ≤ s1.tok_cache_idx) ∧
    (∀ acc s1, _parse_accessor host n (parsers host n) s = .ok (acc, s1) →
      s.tok_cache_idx ≤ s1.tok_cache_idx) ∧
    (∀ v s1, _parse_value n (parsers host n) s = .ok (v, s1) →
      s.tok_cache_idx ≤ s1.tok_cache_idx) := by
  have hp := skims_parsers host n
  have hlt : s.remaining < n + 1 := Nat.lt_succ_of_le hr
  have h1 := skims_parse_statement host n n _ hp (le_refl _)
  have h2 := consumes_parse_statement host n n _ hp (le_refl _)
  have h3 := skims_js_parse_expression host n n _ hp (le_refl _)
  have h4 := skims_parse_accessor host n n _ hp (le_refl _)
  have h5 := skims_parse_value n n _ hp (le_refl _)
  refine ⟨h1.fuel s hs hlt, ?_, h3.fuel s hs hlt, h4.fuel s hs hlt, h5.fuel s hs hlt,
    fun v s1 h => (h3.run s v s1 hs h).2, fun v s1 h => (h4.run s v s1 hs h).2,
    fun v s1 h => (h5.run s v s1 hs h).2⟩
  intro s1 h
  have c := h2.run s () s1 hs h True.intro
  exact ⟨(h1.run s () s1 hs h).1, c.1, c.2⟩

set_option maxRecDepth 100000 in
theorem skim_statement_ends_and_advances_witness :
    _parse_statement no_host 19 (parsers no_host 19)
      { js_load "if (x) \x7b y = [1, 2]; \x7d else z();" with parse_exec := false }
      ≠ .error .out_of_fuel ∧
    _parse_statement no_host 19 (parsers no_host 19)
      { js_load "if (x) \x7b y = [1, 2]; \x7d else z();" with parse_exec := false }
      = .ok ((), { js_load "if (x) \x7b y = [1, 2]; \x7d else z();" with
          parse_exec := false, tok_cache_idx := 19 }) :=
  ⟨(skim_statement_ends_and_advances no_host 19
      { js_load "if (x) \x7b y = [1, 2]; \x7d else z();" with parse_exec := false }
      rfl (by decide!)).1, by decide!⟩

/-! ## Token reads inside the token array -/

theorem at_token_total {T : List js_token} {s : js} (h : InTokens T s) :
    ∃ k, AtToken T k s := by
  obtain ⟨k, hk⟩ := get_token_state_total s
  exact ⟨k, h, hk⟩

theorem at_token_in_range {T : List js_token} {k : js_token_state} {s : js}
    (h : AtToken T k s) (hk : k ≠ .ts_end_of_file) :
    s.tok_cache_idx < s.tok_cache.length := by
  cases ht : s.tok with
  | none =>
    have := h.kind
    rw [run_token_none ht] at this
    cases this
    exact absurd rfl hk
  | some t =>
    unfold js.tok at ht
    exact (List.get?_eq_some.mp ht).1

theorem at_token_steady {T : List js_token} {k : js_token_state} {s s1 : js}
    (h : AtToken T k s) (h1 : InTokens T s1) (hi : s1.tok_cache_idx = s.tok_cache_idx) :
    AtToken T k s1 := by
  refine ⟨h1, ?_⟩
  have hk := h.kind
  have ht : s1.tok = s.tok := by
    unfold js.tok
    rw [h1.tokens, h.inv.tokens, hi]
  cases hs : s.tok with
  | none =>
    rw [run_token_none hs] at hk
    cases hk
    exact run_token_none (ht.trans hs)
  | some t =>
    rw [(run_token_some hs).1] at hk
    cases hk
    exact (run_token_some (ht.trans hs)).1

theorem in_tokens_next {T : List js_token} {k : js_token_state} {s : js}
    (h : AtToken T k s) (hk : k ≠ .ts_end_of_file) :
    InTokens T { s with tok_cache_idx := s.tok_cache_idx + 1 } := by
  have hr := at_token_in_range h hk
  rw [h.inv.tokens] at hr
  exact ⟨h.inv.tokens, hr, h.inv.cells⟩

theorem in_tokens_steady {T : List js_token} {s s1 : js} (h : InTokens T s)
    (r : s1.tok_cache = s.tok_cache ∧ s1.tok_cache_idx = s.tok_cache_idx ∧
      ∀ i c, js_managed.function i c ∈ s1.heap → ∃ c0, js_managed.function i c0 ∈ s.heap) :
    InTokens T s1 ∧ s1.tok_cache_idx = s.tok_cache_idx := by
  obtain ⟨h1, h2, h3⟩ := r
  refine ⟨⟨h1.trans h.tokens, h2 ▸ h.cursor, ?_⟩, h2⟩
  intro i c hc
  obtain ⟨c0, hc0⟩ := h3 i c hc
  exact h.cells i c0 hc0

theorem guarded_pure {α : Type} {T : List js_token} {k : js_token_state} {a : α} :
    Guarded T k (pure a : Parse α) := by
  constructor
  · intro s b s1 h hm
    cases hm
    exact h.inv
  · intro s _ hm
    cases hm

theorem guarded_throw {α : Type} {T : List js_token} {k : js_token_state} {msg : String} :
    Guarded T k (js_throw msg : Parse α) := by
  constructor
  · intro s b s1 _ hm
    cases hm
  · intro s _ hm
    cases hm

theorem guarded_throw_bind {α β : Type} {T : List js_token} {k : js_token_state}
    {msg : String} {f : α → Parse β} : Guarded T k (js_throw msg >>= f) := by
  constructor
  · intro s b s1 _ hm
    cases hm
  · intro s _ hm
    cases hm

theorem guarded_stop_fuel {α : Type} {T : List js_token} {k : js_token_state} :
    Guarded T k (js_stop .out_of_fuel : Parse α) := by
  constructor
  · intro s b s1 _ hm
    cases hm
  · intro s _ hm
    cases hm

theorem guarded_bind {α β : Type} {T : List js_token} {k : js_token_state} {m : Parse α}
    {f : α → Parse β} (hm : Guarded T k m) (hf : ∀ a j, Guarded T j (f a)) :
    Guarded T k (m >>= f) := by
  constructor
  · intro s b s2 h hb
    obtain ⟨a, s1, h1, h2⟩ := bind_ok hb
    obtain ⟨j, hj⟩ := at_token_total (hm.run s a s1 h h1)
    exact (hf a j).run s1 b s2 hj h2
  · intro s h hb
    rw [run_bind] at hb
    cases h1 : m s with
    | error e =>
      rw [h1] at hb
      cases hb
      exact hm.safe s h h1
    | ok p =>
      obtain ⟨a, s1⟩ := p
      rw [h1] at hb
      obtain ⟨j, hj⟩ := at_token_total (hm.run s a s1 h h1)
      exact (hf a j).safe s1 hj hb

theorem guarded_bind_steady {α β : Type} {T : List js_token} {k : js_token_state}
    {m : Parse α} {f : α → Parse β} [hm : Steady m] (hf : ∀ a, Guarded T k (f a)) :
    Guarded T k (m >>= f) := by
  constructor
  · intro s b s2 h hb
    obtain ⟨a, s1, h1, h2⟩ := bind_ok hb
    have r := in_tokens_steady h.inv (hm.run s a s1 h1)
    exact (hf a).run s1 b s2 (at_token_steady h r.1 r.2) h2
  · intro s h hb
    rw [run_bind] at hb
    cases h1 : m s with
    | error e =>
      rw [h1] at hb
      cases hb
      exact hm.safe s h1
    | ok p =>
      obtain ⟨a, s1⟩ := p
      rw [h1] at hb
      have r := in_tokens_steady h.inv (hm.run s a s1 h1)
      exact (hf a).safe s1 (at_token_steady h r.1 r.2) hb

theorem guarded_bind_read {α β : Type} {T : List js_token} {k : js_token_state}
    {m : Parse α} {f : α → Parse β} [hm : Reads m] (hk : k ≠ .ts_end_of_file)
    (hf : ∀ a, Guarded T k (f a)) : Guarded T k (m >>= f) := by
  constructor
  · intro s b s2 h hb
    obtain ⟨a, s1, h1, h2⟩ := bind_ok hb
    have r := in_tokens_steady h.inv (hm.run s a s1 h1)
    exact (hf a).run s1 b s2 (at_token_steady h r.1 r.2) h2
  · intro s h hb
    rw [run_bind] at hb
    cases h1 : m s with
    | error e =>
      rw [h1] at hb
      cases hb
      exact hm.safe s (at_token_in_range h hk) h1
    | ok p =>
      obtain ⟨a, s1⟩ := p
      rw [h1] at hb
      have r := in_tokens_steady h.inv (hm.run s a s1 h1)
      exact (hf a).safe s1 (at_token_steady h r.1 r.2) hb

theorem guarded_of_steady {α : Type} {T : List js_token} {k : js_token_state}
    {m : Parse α} [hm : Steady m] : Guarded T k m :=
  ⟨fun s a s1 h h1 => (in_tokens_steady h.inv (hm.run s a s1 h1)).1, fun s _ => hm.safe s⟩

theorem guarded_of_read {α : Type} {T : List js_token} {k : js_token_state}
    {m : Parse α} [hm : Reads m] (hk : k ≠ .ts_end_of_file) : Guarded T k m :=
  ⟨fun s a s1 h h1 => (in_tokens_steady h.inv (hm.run s a s1 h1)).1,
    fun s h => hm.safe s (at_token_in_range h hk)⟩

theorem guarded_token {β : Type} {T : List js_token} {k : js_token_state}
    {f : js_token_state → Parse β} (hf : Guarded T k (f k)) :
    Guarded T k (_get_token_state >>= f) := by
  constructor
  · intro s b s2 h hb
    rw [run_bind, h.kind] at hb
    exact hf.run s b s2 h hb
  · intro s h hb
    rw [run_bind, h.kind] at hb
    exact hf.safe s h hb

theorem guarded_next {T : List js_token} {k : js_token_state} (hk : k ≠ .ts_end_of_file) :
    Guarded T k _next_token := by
  constructor
  · intro s a s1 h hm
    rw [run_next_token] at hm
    cases hm
    exact in_tokens_next h hk
  · intro s _ hm
    rw [run_next_token] at hm
    cases hm

theorem accept_at {T : List js_token} {k : js_token_state} {s : js} (stat : js_token_state)
    (h : AtToken T k s) :
    _accept stat s = if k = stat
      then .ok (true, { s with tok_cache_idx := s.tok_cache_idx + 1 }) else .ok (false, s) := by
  rw [run_accept, h.kind]

theorem guarded_accept {T : List js_token} {k : js_token_state} (stat : js_token_state)
    (hstat : stat ≠ .ts_end_of_file) : Guarded T k (_accept stat) := by
  constructor
  · intro s a s1 h hm
    rw [accept_at stat h] at hm
    split at hm
    · rename_i hk
      cases hm
      exact in_tokens_next h (hk ▸ hstat)
    · cases hm
      exact h.inv
  · intro s h hm
    rw [accept_at stat h] at hm
    split at hm <;> cases hm

theorem guarded_accept_bind {β : Type} {T : List js_token} {k : js_token_state}
    {stat : js_token_state} {f : Bool → Parse β} (hstat : stat ≠ .ts_end_of_file)
    (ht : ∀ j, Guarded T j (f true)) (hf : Guarded T k (f false)) :
    Guarded T k (_accept stat >>= f) := by
  constructor
  · intro s b s2 h hb
    rw [run_bind, accept_at stat h] at hb
    by_cases hk : k = stat
    · rw [if_pos hk] at hb
      obtain ⟨j, hj⟩ := at_token_total (in_tokens_next h (hk ▸ hstat))
      exact (ht j).run _ b s2 hj hb
    · rw [if_neg hk] at hb
      exact hf.run s b s2 h hb
  · intro s h hb
    rw [run_bind, accept_at stat h] at hb
    by_cases hk : k = stat
    · rw [if_pos hk] at hb
      obtain ⟨j, hj⟩ := at_token_total (in_tokens_next h (hk ▸ hstat))
      exact (ht j).safe _ hj hb
    · rw [if_neg hk] at hb
      exact hf.safe s h hb

theorem guarded_expect {T : List js_token} {k : js_token_state} (stat : js_token_state)
    (msg : String) (hstat : stat ≠ .ts_end_of_file) : Guarded T k (_expect stat msg) := by
  unfold _expect
  apply guarded_bind (guarded_accept stat hstat)
  intro a j
  split
  · exact guarded_throw
  · exact guarded_pure

theorem guarded_ite {α : Type} {T : List js_token} {k : js_token_state} {c : Prop}
    [Decidable c] {a b : Parse α} (ha : c → Guarded T k a) (hb : ¬c → Guarded T k b) :
    Guarded T k (if c then a else b) := by
  split
  · rename_i h
    exact ha h
  · rename_i h
    exact hb h

theorem guarded_loop {σ α : Type} {T : List js_token} {body : σ → Parse (σ ⊕ α)}
    (hb : ∀ x j, Guarded T j (body x)) : ∀ n x k, Guarded T k (js_loop body n x) := by
  intro n
  induction n with
  | zero =>
    intro x k
    exact guarded_stop_fuel
  | succ n ih =>
    intro x k
    unfold js_loop
    apply guarded_bind (hb x k)
    intro r j
    cases r with
    | inl x1 => exact ih x1 j
    | inr a => exact guarded_pure

theorem guarded_get {β : Type} {T : List js_token} {k : js_token_state} {f : js → Parse β}
    (hf : ∀ s0, InTokens T s0 → Guarded T k (f s0)) : Guarded T k (js_get >>= f) := by
  constructor
  · intro s b s2 h hb
    exact (hf s h.inv).run s b s2 h hb
  · intro s h hb
    exact (hf s h.inv).safe s h hb

theorem guarded_set_idx {T : List js_token} {k : js_token_state} {i : Nat}
    (hi : i ≤ T.length) : Guarded T k (set_tok_cache_idx i) := by
  constructor
  · intro s a s1 h hm
    cases hm
    exact ⟨h.inv.tokens, hi, h.inv.cells⟩
  · intro s _ hm
    cases hm

theorem guarded_function_cell {β : Type} {T : List js_token} {k : js_token_state}
    {v : js_value} {f : Nat × Nat × js_value_map → Parse β}
    (hf : ∀ p, p.2.1 ≤ T.length → Guarded T k (f p)) :
    Guarded T k (js_function_cell v >>= f) := by
  have hcell : ∀ s p s1, InTokens T s → js_function_cell v s = .ok (p, s1) →
      s1 = s ∧ p.2.1 ≤ T.length := by
    intro s p s1 h hm
    simp only [js_function_cell] at hm
    split at hm
    · rename_i fn
      split at hm
      · rename_i index closure hc
        cases hm
        exact ⟨rfl, h.cells index closure (List.get?_mem hc)⟩
      · cases hm
    · cases hm
  constructor
  · intro s b s2 h hb
    obtain ⟨p, s1, h1, h2⟩ := bind_ok hb
    obtain ⟨e, hp⟩ := hcell s p s1 h.inv h1
    subst e
    exact (hf p hp).run _ b s2 h h2
  · intro s h hb
    rw [run_bind] at hb
    cases h1 : js_function_cell v s with
    | error e =>
      rw [h1] at hb
      cases hb
      simp only [js_function_cell] at h1
      split at h1
      · split at h1 <;> cases h1
      · cases h1
    | ok q =>
      obtain ⟨p, s1⟩ := q
      rw [h1] at hb
      obtain ⟨e, hp⟩ := hcell s p s1 h.inv h1
      subst e
      exact (hf p hp).safe _ h hb

theorem guarded_host {T : List js_token} {k : js_token_state} {host : Host} (c : Nat)
    (hh : HostGuarded T host) : Guarded T k (js_call_cfunction host c) := by
  constructor
  · intro s a s1 h hm
    simp only [js_call_cfunction] at hm
    split at hm
    · rename_i s2 hs
      cases hm
      exact hh.run c s _ h.inv hs
    · cases hm
  · intro s h hm
    simp only [js_call_cfunction] at hm
    split at hm
    · cases hm
    · rename_i e hs
      cases hm
      exact hh.safe c s h.inv hs

theorem bind_assoc_run {α β γ : Type} (m : Parse α) (g : α → Parse β) (f : β → Parse γ) :
    ((m >>= g) >>= f) = (m >>= fun a => g a >>= f) := by
  funext s
  rw [run_bind, run_bind, run_bind]
  cases m s with
  | error e => rfl
  | ok p =>
    obtain ⟨a, s1⟩ := p
    simp only [run_bind]

theorem guarded_bind_assoc {α β γ : Type} {T : List js_token} {k : js_token_state}
    {m : Parse α} {g : α → Parse β} {f : β → Parse γ}
    (h : Guarded T k (m >>= fun a => g a >>= f)) : Guarded T k ((m >>= g) >>= f) := by
  rw [bind_assoc_run]
  exact h

theorem guarded_ite_bind {α β : Type} {T : List js_token} {k : js_token_state} {c : Prop}
    [Decidable c] {a b : Parse α} {f : α → Parse β}
    (ha : c → Guarded T k (a >>= f)) (hb : ¬c → Guarded T k (b >>= f)) :
    Guarded T k ((if c then a else b) >>= f) := by
  split
  · rename_i h
    exact ha h
  · rename_i h
    exact hb h

/-! ### Primitives that keep the cursor -/

theorem steady_of_read_only {α : Type} {m : Parse α} [hm : ReadOnly m]
    (hsafe : ∀ s, m s ≠ .error .token_out_of_range) : Steady m := by
  refine ⟨?_, hsafe⟩
  intro s a s1 h
  have e : s1 = s := hm.pres.run s a s1 h
  subst e
  exact ⟨rfl, rfl, fun i c hc => ⟨c, hc⟩⟩

theorem steady_of_flags_only {α : Type} {m : Parse α} [hm : FlagsOnly m]
    (hsafe : ∀ s, m s ≠ .error .token_out_of_range) : Steady m := by
  refine ⟨?_, hsafe⟩
  intro s a s1 h
  have e := hm.pres.run s a s1 h
  have e1 : s1.tok_cache = s.tok_cache := by rw [e]
  have e2 : s1.tok_cache_idx = s.tok_cache_idx := by rw [e]
  have e3 : s1.heap = s.heap := by rw [e]
  exact ⟨e1, e2, fun i c hc => ⟨c, e3 ▸ hc⟩⟩

theorem reads_of_read_only {α : Type} {m : Parse α} [hm : ReadOnly m]
    (hsafe : ∀ s, s.tok_cache_idx < s.tok_cache.length → m s ≠ .error .token_out_of_range) :
    Reads m := by
  refine ⟨?_, hsafe⟩
  intro s a s1 h
  have e : s1 = s := hm.pres.run s a s1 h
  subst e
  exact ⟨rfl, rfl, fun i c hc => ⟨c, hc⟩⟩

theorem steady_pure {α : Type} {a : α} : Steady (pure a : Parse α) :=
  ⟨fun s b s1 h => by
      cases h
      exact ⟨rfl, rfl, fun i c hc => ⟨c, hc⟩⟩,
    fun s h => by cases h⟩

theorem steady_throw {α : Type} {msg : String} : Steady (js_throw msg : Parse α) :=
  ⟨fun s b s1 h => (nomatch h), fun s h => (nomatch h)⟩

theorem steady_then {s s1 s2 : js}
    (r1 : s1.tok_cache = s.tok_cache ∧ s1.tok_cache_idx = s.tok_cache_idx ∧
      ∀ i c, js_managed.function i c ∈ s1.heap → ∃ c0, js_managed.function i c0 ∈ s.heap)
    (r2 : s2.tok_cache = s1.tok_cache ∧ s2.tok_cache_idx = s1.tok_cache_idx ∧
      ∀ i c, js_managed.function i c ∈ s2.heap → ∃ c0, js_managed.function i c0 ∈ s1.heap) :
    s2.tok_cache = s.tok_cache ∧ s2.tok_cache_idx = s.tok_cache_idx ∧
      ∀ i c, js_managed.function i c ∈ s2.heap → ∃ c0, js_managed.function i c0 ∈ s.heap := by
  refine ⟨r2.1.trans r1.1, r2.2.1.trans r1.2.1, ?_⟩
  intro i c hc
  obtain ⟨c1, hc1⟩ := r2.2.2 i c hc
  exact r1.2.2 i c1 hc1

theorem steady_bind {α β : Type} {m : Parse α} {f : α → Parse β}
    (hm : Steady m) (hf : ∀ a, Steady (f a)) : Steady (m >>= f) := by
  constructor
  · intro s b s2 hb
    obtain ⟨a, s1, h1, h2⟩ := bind_ok hb
    exact steady_then (hm.run s a s1 h1) ((hf a).run s1 b s2 h2)
  · intro s hb
    rw [run_bind] at hb
    cases h1 : m s with
    | error e =>
      rw [h1] at hb
      cases hb
      exact hm.safe s h1
    | ok p =>
      obtain ⟨a, s1⟩ := p
      rw [h1] at hb
      exact (hf a).safe s1 hb

theorem reads_bind {α β : Type} {m : Parse α} {f : α → Parse β}
    (hm : Reads m) (hf : ∀ a, Reads (f a)) : Reads (m >>= f) := by
  constructor
  · intro s b s2 hb
    obtain ⟨a, s1, h1, h2⟩ := bind_ok hb
    exact steady_then (hm.run s a s1 h1) ((hf a).run s1 b s2 h2)
  · intro s hr hb
    rw [run_bind] at hb
    cases h1 : m s with
    | error e =>
      rw [h1] at hb
      cases hb
      exact hm.safe s hr h1
    | ok p =>
      obtain ⟨a, s1⟩ := p
      rw [h1] at hb
      have r1 := hm.run s a s1 h1
      exact (hf a).safe s1 (by rw [r1.1, r1.2.1]; exact hr) hb

theorem reads_of_steady {α : Type} {m : Parse α} (h : Steady m) : Reads m :=
  ⟨h.run, fun s _ => h.safe s⟩

theorem steady_ite {α : Type} {c : Prop} [Decidable c] {a b : Parse α}
    (ha : Steady a) (hb : Steady b) : Steady (if c then a else b) := by
  split
  · exact ha
  · exact hb

theorem steady_map_for_each {f : Bytes → Nat → js_value → Parse Unit}
    (hf : ∀ k kl v, Steady (f k kl v)) : ∀ m, Steady (js_value_map_for_each m f) := by
  intro m
  induction m with
  | nil => exact steady_pure
  | cons p rest ih =>
    obtain ⟨k, v⟩ := p
    unfold js_value_map_for_each
    exact steady_bind (hf k k.length v) (fun _ => ih)

/-! The primitives. -/

instance {α : Type} (a : α) : Steady (pure a : Parse α) := steady_pure


instance : Steady _require_exec := steady_of_read_only (fun s h => by cases h)
instance : Steady js_get := steady_of_read_only (fun s h => by cases h)
instance : Steady _get_token_state :=
  steady_of_read_only (fun s h => by
    obtain ⟨k, hk⟩ := get_token_state_total s
    rw [hk] at h
    cases h)

instance : Steady js_stack_peek :=
  steady_of_read_only (fun s h => by
    simp only [js_stack_peek] at h
    split at h <;> cases h)

instance (k : Bytes) (kl : Nat) : Steady (js_variable_fetch k kl) :=
  steady_of_read_only (fun s h => by
    simp only [js_variable_fetch] at h
    split at h <;> cases h)

instance (v : js_value) : Steady (js_array_cell v) :=
  steady_of_read_only (fun s h => by
    simp only [js_array_cell] at h
    split at h
    · split at h <;> cases h
    · cases h)

instance (v : js_value) : Steady (js_object_cell v) :=
  steady_of_read_only (fun s h => by
    simp only [js_object_cell] at h
    split at h
    · split at h <;> cases h
    · cases h)

instance (v : js_value) : Steady (js_function_cell v) :=
  steady_of_read_only (fun s h => by
    simp only [js_function_cell] at h
    split at h
    · split at h <;> cases h
    · cases h)

instance (b : Bool) : Steady (set_parse_exec b) := steady_of_flags_only (fun s h => by cases h)
instance (b : Bool) : Steady (set_mark_break b) := steady_of_flags_only (fun s h => by cases h)
instance (b : Bool) : Steady (set_mark_continue b) :=
  steady_of_flags_only (fun s h => by cases h)
instance (b : Bool) : Steady (set_mark_return b) := steady_of_flags_only (fun s h => by cases h)
instance (v : js_value) : Steady (set_result v) := steady_of_flags_only (fun s h => by cases h)

instance {α : Type} (f : js_token → α) : Reads (_tok_field f) :=
  reads_of_read_only (fun s hr h => by
    simp only [_tok_field] at h
    split at h
    · cases h
    · rename_i ht
      unfold js.tok at ht
      rw [List.get?_eq_none] at ht
      omega)

instance : Reads _get_token_head :=
  reads_of_read_only (fun s hr h => by
    simp only [_get_token_head] at h
    split at h
    · cases h
    · rename_i ht
      unfold js.tok at ht
      rw [List.get?_eq_none] at ht
      omega)

instance : Reads _get_token_length := by unfold _get_token_length; infer_instance
instance : Reads _get_token_line := by unfold _get_token_line; infer_instance
instance : Reads _get_token_number := by unfold _get_token_number; infer_instance

instance : Reads _get_token_string_head := by
  unfold _get_token_string_head
  exact reads_bind inferInstance (fun _ => reads_of_steady steady_pure)

instance : Reads _get_token_string_length := by
  unfold _get_token_string_length
  exact reads_bind inferInstance (fun _ => reads_of_steady steady_pure)

theorem steady_stack {α : Type} {m : Parse α}
    (h : ∀ s a s1, m s = .ok (a, s1) → s1 = { s with stack := s1.stack })
    (hsafe : ∀ s, m s ≠ .error .token_out_of_range) : Steady m := by
  refine ⟨?_, hsafe⟩
  intro s a s1 hm
  have e := h s a s1 hm
  have e1 : s1.tok_cache = s.tok_cache := by rw [e]
  have e2 : s1.tok_cache_idx = s.tok_cache_idx := by rw [e]
  have e3 : s1.heap = s.heap := by rw [e]
  exact ⟨e1, e2, fun i c hc => ⟨c, e3 ▸ hc⟩⟩

instance (h t : Nat) : Steady (js_stack_forward h t) :=
  steady_stack (fun s a s1 hm => by cases hm; rfl) (fun s hm => by cases hm)

instance : Steady js_stack_backward :=
  steady_stack
    (fun s a s1 hm => by
      simp only [js_stack_backward] at hm
      split at hm <;> cases hm
      rfl)
    (fun s hm => by
      simp only [js_stack_backward] at hm
      split at hm <;> cases hm)

instance (v : js_value) : Steady (js_parameter_push v) :=
  steady_stack
    (fun s a s1 hm => by
      simp only [js_parameter_push] at hm
      split at hm <;> cases hm
      rfl)
    (fun s hm => by
      simp only [js_parameter_push] at hm
      split at hm <;> cases hm)

instance (k : Bytes) (kl : Nat) (v : js_value) : Steady (js_variable_declare k kl v) :=
  steady_stack
    (fun s a s1 hm => by
      simp only [js_variable_declare] at hm
      split at hm <;> cases hm
      rfl)
    (fun s hm => by
      simp only [js_variable_declare] at hm
      split at hm <;> cases hm)

instance (k : Bytes) (kl : Nat) (v : js_value) : Steady (js_variable_assign k kl v) := by
  refine ⟨?_, variable_assign_safe k kl v⟩
  intro s a s1 h
  obtain ⟨st, hst, e, hh⟩ := variable_assign_state k kl v s s1 h
  refine ⟨by rw [e], by rw [e], ?_⟩
  intro i c hc
  rcases hh with hh | ⟨f, vars, hh⟩
  · exact ⟨c, hh ▸ hc⟩
  · rw [hh] at hc
    exact heap_capture_function _ _ _ _ _ hc

instance (k : Bytes) (kl : Nat) : Steady (js_variable_erase k kl) :=
  steady_stack
    (fun s a s1 hm => by
      simp only [js_variable_erase] at hm
      split at hm <;> cases hm
      rfl)
    (fun s hm => by
      simp only [js_variable_erase] at hm
      split at hm <;> cases hm)

instance : Reads _stack_forward := by
  unfold _stack_forward
  exact reads_bind inferInstance (fun _ =>
    reads_bind inferInstance (fun _ => reads_of_steady inferInstance))

theorem steady_alloc (c : js_managed) (hc : ∀ i cl, c ≠ .function i cl) : Steady (js_alloc c) := by
  refine ⟨?_, fun s h => by cases h⟩
  intro s a s1 hm
  cases hm
  refine ⟨rfl, rfl, ?_⟩
  intro i cl hmem
  simp only [List.mem_append, List.mem_singleton] at hmem
  rcases hmem with hmem | hmem
  · exact ⟨cl, hmem⟩
  · exact absurd hmem.symm (hc i cl)

theorem steady_heap_set (h : Nat) (c : js_managed) (hc : ∀ i cl, c ≠ .function i cl) :
    Steady (js_heap_set h c) := by
  refine ⟨?_, fun s hm => by cases hm⟩
  intro s a s1 hm
  cases hm
  refine ⟨rfl, rfl, ?_⟩
  intro i cl hmem
  rcases List.mem_or_eq_of_mem_set hmem with hmem | hmem
  · exact ⟨cl, hmem⟩
  · exact absurd hmem.symm (hc i cl)

instance (h : Nat) (p : List js_value) : Steady (js_heap_set h (.array p)) :=
  steady_heap_set h _ (fun _ _ e => nomatch e)

instance (h : Nat) (p : js_value_map) : Steady (js_heap_set h (.object p)) :=
  steady_heap_set h _ (fun _ _ e => nomatch e)

instance : Steady js_array := by
  unfold js_array
  exact steady_bind (steady_alloc _ (fun _ _ e => nomatch e)) (fun _ => steady_pure)

instance : Steady js_object := by
  unfold js_object
  exact steady_bind (steady_alloc _ (fun _ _ e => nomatch e)) (fun _ => steady_pure)

instance : Steady (js_parameter_length) := by
  unfold js_parameter_length
  repeat' (first
    | intro _ | exact steady_pure | exact steady_throw | infer_instance
    | apply steady_bind | apply steady_ite | split)

instance (i : Nat) : Steady (js_parameter_get i) := by
  unfold js_parameter_get
  repeat' (first
    | intro _ | exact steady_pure | exact steady_throw | infer_instance
    | apply steady_bind | apply steady_ite | split)

instance (v : js_value) (i : Nat) : Steady (js_array_get v i) := by
  unfold js_array_get
  repeat' (first
    | intro _ | exact steady_pure | exact steady_throw | infer_instance
    | apply steady_bind | apply steady_ite | split)

instance (v : js_value) (k : Bytes) (kl : Nat) : Steady (js_object_get v k kl) := by
  unfold js_object_get
  repeat' (first
    | intro _ | exact steady_pure | exact steady_throw | infer_instance
    | apply steady_bind | apply steady_ite | split)

instance (acc : _value_accessor) : Steady (_accessor_get acc) := by
  unfold _accessor_get
  repeat' (first
    | intro _ | exact steady_pure | exact steady_throw | infer_instance
    | apply steady_bind | apply steady_ite | split)

instance (a v : js_value) : Steady (js_array_push a v) := by
  unfold js_array_push
  repeat' (first
    | intro _ | exact steady_pure | exact steady_throw | infer_instance
    | apply steady_bind | apply steady_ite | split)

instance (a v : js_value) (i : Nat) : Steady (js_array_put a i v) := by
  unfold js_array_put
  repeat' (first
    | intro _ | exact steady_pure | exact steady_throw | infer_instance
    | apply steady_bind | apply steady_ite | split)

instance (o v : js_value) (k : Bytes) (kl : Nat) : Steady (js_object_put o k kl v) := by
  unfold js_object_put
  repeat' (first
    | intro _ | exact steady_pure | exact steady_throw | infer_instance
    | apply steady_bind | apply steady_ite | split)

instance (acc : _value_accessor) (v : js_value) : Steady (_accessor_put acc v) := by
  unfold _accessor_put
  repeat' (first
    | intro _ | exact steady_pure | exact steady_throw | infer_instance
    | apply steady_bind | apply steady_ite | split)

theorem steady_closure_put (v : js_value) (k : Bytes) (kl : Nat) (w : js_value) :
    Steady (do
      let (f, index, closure) ← js_function_cell v
      js_heap_set f (.function index (js_value_map_put closure (k.take kl) w)) : Parse Unit) := by
  constructor
  · intro s a s1 hm
    obtain ⟨p, s0, h1, h2⟩ := bind_ok hm
    obtain ⟨f, index, closure⟩ := p
    simp only [js_function_cell] at h1
    split at h1
    · rename_i fn
      split at h1
      · rename_i index0 closure0 hc
        cases h1
        cases h2
        refine ⟨rfl, rfl, ?_⟩
        intro i cl hmem
        rcases List.mem_or_eq_of_mem_set hmem with hmem | hmem
        · exact ⟨cl, hmem⟩
        · cases hmem
          exact ⟨_, List.get?_mem hc⟩
      · cases h1
    · cases h1
  · intro s hm
    rw [run_bind] at hm
    cases h1 : js_function_cell v s with
    | error e =>
      rw [h1] at hm
      cases hm
      exact Steady.safe s h1
    | ok q =>
      rw [h1] at hm
      cases hm

instance (acc : _value_accessor) : Steady (_call_result acc) := by
  unfold _call_result
  repeat' (first
    | intro _ | exact steady_pure | exact steady_throw | infer_instance
    | exact steady_closure_put _ _ _ _
    | apply steady_map_for_each
    | apply steady_bind | apply steady_ite | split)

/-- A new function cell with an entry index inside the bounds keeps the state in
`InTokens T`, at the same cursor. -/
theorem guarded_function_bind {β : Type} {T : List js_token} {k : js_token_state} {i : Nat}
    {f : js_value → Parse β} (hi : i ≤ T.length) (hf : ∀ v, Guarded T k (f v)) :
    Guarded T k (js_function i >>= f) := by
  have hstep : ∀ s, AtToken T k s →
      js_function i s = .ok (.function s.heap.length,
        { s with heap := s.heap ++ [.function i []] }) ∧
      AtToken T k { s with heap := s.heap ++ [.function i []] } := by
    intro s h
    refine ⟨rfl, at_token_steady h ⟨h.inv.tokens, h.inv.cursor, ?_⟩ rfl⟩
    intro index closure hmem
    simp only [List.mem_append, List.mem_singleton] at hmem
    rcases hmem with hmem | hmem
    · exact h.inv.cells index closure hmem
    · cases hmem
      exact hi
  constructor
  · intro s b s2 h hb
    rw [run_bind, (hstep s h).1] at hb
    exact (hf _).run _ b s2 (hstep s h).2 hb
  · intro s h hb
    rw [run_bind, (hstep s h).1] at hb
    exact (hf _).safe _ (hstep s h).2 hb

/-! ### Loops -/

theorem guarded_map_for_each {T : List js_token} {f : Bytes → Nat → js_value → Parse Unit}
    (hf : ∀ k kl v j, Guarded T j (f k kl v)) :
    ∀ m k, Guarded T k (js_value_map_for_each m f) := by
  intro m
  induction m with
  | nil =>
    intro k
    exact guarded_pure
  | cons p rest ih =>
    intro k
    obtain ⟨key, v⟩ := p
    unfold js_value_map_for_each
    exact guarded_bind (hf key key.length v k) (fun _ j => ih j)

theorem guarded_for_each_spread {T : List js_token} {n : Nat} {spread : js_value}
    {f : js_value → Parse Unit} (hf : ∀ v j, Guarded T j (f v)) :
    ∀ k, Guarded T k (_for_each_spread n spread f) := by
  intro k
  unfold _for_each_spread
  apply guarded_loop
  with_reducible repeat' (first
    | intro _
    | exact guarded_pure | exact guarded_throw | exact guarded_of_steady
    | exact hf _ _
    | apply guarded_bind_steady | apply guarded_bind | apply guarded_ite | split)

/-- The statements of a block: the loop is left with the `}` under the cursor. -/
theorem guarded_statements_exit {T : List js_token} (rec : Parsers) (hrec : rec.Guarded T) :
    ∀ (n : Nat) (x : Unit) (k : js_token_state) (s : js) (a : Unit) (s1 : js), AtToken T k s →
      js_loop (fun (_ : Unit) => (do
        if (← _get_token_state) ≠ .ts_right_brace then
          rec._parse_statement
          pure (.inl ())
        else
          pure (.inr ()) : Parse (Unit ⊕ Unit))) n x s = .ok (a, s1) →
      AtToken T .ts_right_brace s1 := by
  intro n
  induction n with
  | zero =>
    intro x k s a s1 _ h
    cases h
  | succ n ih =>
    intro x k s a s1 hs h
    rw [run_loop, run_bind, hs.kind] at h
    simp only [] at h
    by_cases hk : k = .ts_right_brace
    · subst hk
      simp only [ne_eq, not_true_eq_false, if_false, run_pure] at h
      cases h
      exact hs
    · simp only [ne_eq, hk, not_false_eq_true, if_true] at h
      rw [run_bind] at h
      cases h1 : rec._parse_statement s with
      | error e =>
        rw [h1] at h
        cases h
      | ok p =>
        obtain ⟨u, s2⟩ := p
        rw [h1] at h
        simp only [run_bind, run_pure] at h
        obtain ⟨j, hj⟩ := at_token_total ((hrec.statement k).run s u s2 hs h1)
        exact ih () j s2 a s1 hj h

set_option maxHeartbeats 4000000 in
theorem guarded_parse_statements (T : List js_token) (n : Nat) (rec : Parsers)
    (hrec : rec.Guarded T) :
    ∀ k, Guarded T k (_parse_statements n rec) := by
  intro k
  unfold _parse_statements
  with_reducible repeat' (first
    | (show _ ≠ js_token_state.ts_end_of_file; first | decide | with_unfolding_all (intro e; subst e; simp_all; done))
    | (show _ ≤ List.length _; first | assumption | exact InTokens.cursor (by assumption))
    | intro _
    | exact guarded_pure | exact guarded_throw | exact guarded_throw_bind
    | exact guarded_stop_fuel
    | exact guarded_of_steady
    | exact guarded_accept _ (by decide) | exact guarded_expect _ _ (by decide)
    | exact hrec.statement _ | exact hrec.expression _ | exact hrec.additive _
    | rw [if_pos (rfl : true = true)] | rw [if_neg Bool.false_ne_true]
    | rw [if_neg (by decide : ¬ (!true) = true)] | rw [if_pos (by decide : (!false) = true)]
    | apply guarded_of_read | apply guarded_next | apply guarded_set_idx
    | apply guarded_token | apply guarded_get
    | apply guarded_function_cell | apply guarded_function_bind
    | apply guarded_accept_bind (by decide)
    | apply guarded_statements_bind _ hrec
    | apply guarded_bind_steady | apply guarded_bind_read
    | apply guarded_for_each_spread | apply guarded_map_for_each
    | apply guarded_loop
    | apply guarded_bind | apply guarded_ite | split)

theorem guarded_statements_bind {β : Type} {T : List js_token} {k : js_token_state} (n : Nat)
    {rec : Parsers} {f : Unit → Parse β} (hrec : rec.Guarded T)
    (hf : ∀ a, Guarded T .ts_right_brace (f a)) :
    Guarded T k (_parse_statements n rec >>= f) := by
  constructor
  · intro s b s2 h hb
    obtain ⟨a, s1, h1, h2⟩ := bind_ok hb
    exact (hf a).run s1 b s2 (guarded_statements_exit rec hrec n () k s a s1 h h1) h2
  · intro s h hb
    rw [run_bind] at hb
    cases h1 : _parse_statements n rec s with
    | error e =>
      rw [h1] at hb
      cases hb
      exact (guarded_parse_statements T n rec hrec k).safe s h h1
    | ok p =>
      obtain ⟨a, s1⟩ := p
      rw [h1] at hb
      exact (hf a).safe s1 (guarded_statements_exit rec hrec n () k s a s1 h h1) hb

set_option maxHeartbeats 4000000 in
theorem guarded_parse_function (T : List js_token) (n : Nat) (rec : Parsers)
    (hrec : rec.Guarded T) :
    ∀ k, Guarded T k (_parse_function n rec) := by
  intro k
  unfold _parse_function
  with_reducible repeat' (first
    | (show _ ≠ js_token_state.ts_end_of_file; first | decide | with_unfolding_all (intro e; subst e; simp_all; done))
    | (show _ ≤ List.length _; first | assumption | exact InTokens.cursor (by assumption))
    | intro _
    | exact guarded_pure | exact guarded_throw | exact guarded_throw_bind
    | exact guarded_stop_fuel
    | exact guarded_of_steady
    | exact guarded_accept _ (by decide) | exact guarded_expect _ _ (by decide)
    | exact hrec.statement _ | exact hrec.expression _ | exact hrec.additive _
    | exact guarded_parse_statements T n rec hrec _
    | rw [if_pos (rfl : true = true)] | rw [if_neg Bool.false_ne_true]
    | rw [if_neg (by decide : ¬ (!true) = true)] | rw [if_pos (by decide : (!false) = true)]
    | apply guarded_of_read | apply guarded_next | apply guarded_set_idx
    | apply guarded_token | apply guarded_get
    | apply guarded_function_cell | apply guarded_function_bind
    | apply guarded_accept_bind (by decide)
    | apply guarded_statements_bind _ hrec
    | apply guarded_bind_steady | apply guarded_bind_read
    | apply guarded_for_each_spread | apply guarded_map_for_each
    | apply guarded_loop
    | apply guarded_bind | apply guarded_ite | split)

set_option maxHeartbeats 4000000 in
theorem guarded_parse_value (T : List js_token) (n : Nat) (rec : Parsers)
    (hrec : rec.Guarded T) :
    ∀ k, Guarded T k (_parse_value n rec) := by
  intro k
  unfold _parse_value
  with_reducible repeat' (first
    | (show _ ≠ js_token_state.ts_end_of_file; first | decide | with_unfolding_all (intro e; subst e; simp_all; done))
    | (show _ ≤ List.length _; first | assumption | exact InTokens.cursor (by assumption))
    | intro _
    | exact guarded_pure | exact guarded_throw | exact guarded_throw_bind
    | exact guarded_stop_fuel
    | exact guarded_of_steady
    | exact guarded_accept _ (by decide) | exact guarded_expect _ _ (by decide)
    | exact hrec.statement _ | exact hrec.expression _ | exact hrec.additive _
    | exact guarded_parse_statements T n rec hrec _
    | exact guarded_parse_function T n rec hrec _
    | rw [if_pos (rfl : true = true)] | rw [if_neg Bool.false_ne_true]
    | rw [if_neg (by decide : ¬ (!true) = true)] | rw [if_pos (by decide : (!false) = true)]
    | apply guarded_of_read | apply guarded_next | apply guarded_set_idx
    | apply guarded_token | apply guarded_get
    | apply guarded_function_cell | apply guarded_function_bind
    | apply guarded_accept_bind (by decide)
    | apply guarded_statements_bind _ hrec
    | apply guarded_bind_steady | apply guarded_bind_read
    | apply guarded_for_each_spread | apply guarded_map_for_each
    | apply guarded_loop
    | apply guarded_ite_bind | apply guarded_bind_assoc
    | apply guarded_bind | apply guarded_ite | split)

set_option maxHeartbeats 4000000 in
theorem guarded_parse_call_arguments (T : List js_token) (n : Nat) (rec : Parsers)
    (hrec : rec.Guarded T) :
    ∀ k, Guarded T k (_parse_call_arguments n rec) := by
  intro k
  unfold _parse_call_arguments
  with_reducible repeat' (first
    | (show _ ≠ js_token_state.ts_end_of_file; first | decide | with_unfolding_all (intro e; subst e; simp_all; done))
    | (show _ ≤ List.length _; first | assumption | exact InTokens.cursor (by assumption))
    | intro _
    | exact guarded_pure | exact guarded_throw | exact guarded_throw_bind
    | exact guarded_stop_fuel
    | exact guarded_of_steady
    | exact guarded_accept _ (by decide) | exact guarded_expect _ _ (by decide)
    | exact hrec.statement _ | exact hrec.expression _ | exact hrec.additive _
    | exact guarded_parse_statements T n rec hrec _
    | exact guarded_parse_function T n rec hrec _
    | exact guarded_parse_value T n rec hrec _
    | rw [if_pos (rfl : true = true)] | rw [if_neg Bool.false_ne_true]
    | rw [if_neg (by decide : ¬ (!true) = true)] | rw [if_pos (by decide : (!false) = true)]
    | apply guarded_of_read | apply guarded_next | apply guarded_set_idx
    | apply guarded_token | apply guarded_get
    | apply guarded_function_cell | apply guarded_function_bind
    | apply guarded_accept_bind (by decide)
    | apply guarded_statements_bind _ hrec
    | apply guarded_bind_steady | apply guarded_bind_read
    | apply guarded_for_each_spread | apply guarded_map_for_each
    | apply guarded_loop
    | apply guarded_bind | apply guarded_ite | split)

set_option maxHeartbeats 4000000 in
theorem guarded_call_callee (T : List js_token) (host : Host) (n : Nat) (rec : Parsers) (callee : js_value)
    (hrec : rec.Guarded T) (hhost : HostGuarded T host) :
    ∀ k, Guarded T k (_call_callee host n rec callee) := by
  intro k
  unfold _call_callee
  with_reducible repeat' (first
    | (show _ ≠ js_token_state.ts_end_of_file; first | decide | with_unfolding_all (intro e; subst e; simp_all; done))
    | (show _ ≤ List.length _; first | assumption | exact InTokens.cursor (by assumption))
    | intro _
    | exact guarded_pure | exact guarded_throw | exact guarded_throw_bind
    | exact guarded_stop_fuel
    | exact guarded_of_steady
    | exact guarded_accept _ (by decide) | exact guarded_expect _ _ (by decide)
    | exact hrec.statement _ | exact hrec.expression _ | exact hrec.additive _
    | exact guarded_host _ hhost
    | exact guarded_parse_statements T n rec hrec _
    | exact guarded_parse_function T n rec hrec _
    | exact guarded_parse_value T n rec hrec _
    | exact guarded_parse_call_arguments T n rec hrec _
    | rw [if_pos (rfl : true = true)] | rw [if_neg Bool.false_ne_true]
    | rw [if_neg (by decide : ¬ (!true) = true)] | rw [if_pos (by decide : (!false) = true)]
    | apply guarded_of_read | apply guarded_next | apply guarded_set_idx
    | apply guarded_token | apply guarded_get
    | apply guarded_function_cell | apply guarded_function_bind
    | apply guarded_accept_bind (by decide)
    | apply guarded_statements_bind _ hrec
    | apply guarded_bind_steady | apply guarded_bind_read
    | apply guarded_for_each_spread | apply guarded_map_for_each
    | apply guarded_loop
    | apply guarded_bind | apply guarded_ite | split)

set_option maxHeartbeats 4000000 in
theorem guarded_parse_accessor (T : List js_token) (host : Host) (n : Nat) (rec : Parsers)
    (hrec : rec.Guarded T) (hhost : HostGuarded T host) :
    ∀ k, Guarded T k (_parse_accessor host n rec) := by
  intro k
  unfold _parse_accessor
  with_reducible repeat' (first
    | (show _ ≠ js_token_state.ts_end_of_file; first | decide | with_unfolding_all (intro e; subst e; simp_all; done))
    | (show _ ≤ List.length _; first | assumption | exact InTokens.cursor (by assumption))
    | intro _
    | exact guarded_pure | exact guarded_throw | exact guarded_throw_bind
    | exact guarded_stop_fuel
    | exact guarded_of_steady
    | exact guarded_accept _ (by decide) | exact guarded_expect _ _ (by decide)
    | exact hrec.statement _ | exact hrec.expression _ | exact hrec.additive _
    | exact guarded_host _ hhost
    | exact guarded_parse_statements T n rec hrec _
    | exact guarded_parse_function T n rec hrec _
    | exact guarded_parse_value T n rec hrec _
    | exact guarded_parse_call_arguments T n rec hrec _
    | exact guarded_call_callee T host n rec _ hrec hhost _
    | rw [if_pos (rfl : true = true)] | rw [if_neg Bool.false_ne_true]
    | rw [if_neg (by decide : ¬ (!true) = true)] | rw [if_pos (by decide : (!false) = true)]
    | apply guarded_of_read | apply guarded_next | apply guarded_set_idx
    | apply guarded_token | apply guarded_get
    | apply guarded_function_cell | apply guarded_function_bind
    | apply guarded_accept_bind (by decide)
    | apply guarded_statements_bind _ hrec
    | apply guarded_bind_steady | apply guarded_bind_read
    | apply guarded_for_each_spread | apply guarded_map_for_each
    | apply guarded_loop
    | apply guarded_bind | apply guarded_ite | split)

set_option maxHeartbeats 4000000 in
theorem guarded_parse_access_call_expression (T : List js_token) (host : Host) (n : Nat) (rec : Parsers)
    (hrec : rec.Guarded T) (hhost : HostGuarded T host) :
    ∀ k, Guarded T k (_parse_access_call_expression host n rec) := by
  intro k
  unfold _parse_access_call_expression
  with_reducible repeat' (first
    | (show _ ≠ js_token_state.ts_end_of_file; first | decide | with_unfolding_all (intro e; subst e; simp_all; done))
    | (show _ ≤ List.length _; first | assumption | exact InTokens.cursor (by assumption))
    | intro _
    | exact guarded_pure | exact guarded_throw | exact guarded_throw_bind
    | exact guarded_stop_fuel
    | exact guarded_of_steady
    | exact guarded_accept _ (by decide) | exact guarded_expect _ _ (by decide)
    | exact hrec.statement _ | exact hrec.expression _ | exact hrec.additive _
    | exact guarded_host _ hhost
    | exact guarded_parse_statements T n rec hrec _
    | exact guarded_parse_function T n rec hrec _
    | exact guarded_parse_value T n rec hrec _
    | exact guarded_parse_call_arguments T n rec hrec _
    | exact guarded_call_callee T host n rec _ hrec hhost _
    | exact guarded_parse_accessor T host n rec hrec hhost _
    | rw [if_pos (rfl : true = true)] | rw [if_neg Bool.false_ne_true]
    | rw [if_neg (by decide : ¬ (!true) = true)] | rw [if_pos (by decide : (!false) = true)]
    | apply guarded_of_read | apply guarded_next | apply guarded_set_idx
    | apply guarded_token | apply guarded_get
    | apply guarded_function_cell | apply guarded_function_bind
    | apply guarded_accept_bind (by decide)
    | apply guarded_statements_bind _ hrec
    | apply guarded_bind_steady | apply guarded_bind_read
    | apply guarded_for_each_spread | apply guarded_map_for_each
    | apply guarded_loop
    | apply guarded_bind | apply guarded_ite | split)

set_option maxHeartbeats 4000000 in
theorem guarded_parse_prefix_expression (T : List js_token) (host : Host) (n : Nat) (rec : Parsers)
    (hrec : rec.Guarded T) (hhost : HostGuarded T host) :
    ∀ k, Guarded T k (_parse_prefix_expression host n rec) := by
  intro k
  unfold _parse_prefix_expression
  with_reducible repeat' (first
    | (show _ ≠ js_token_state.ts_end_of_file; first | decide | with_unfolding_all (intro e; subst e; simp_all; done))
    | (show _ ≤ List.length _; first | assumption | exact InTokens.cursor (by assumption))
    | intro _
    | exact guarded_pure | exact guarded_throw | exact guarded_throw_bind
    | exact guarded_stop_fuel
    | exact guarded_of_steady
    | exact guarded_accept _ (by decide) | exact guarded_expect _ _ (by decide)
    | exact hrec.statement _ | exact hrec.expression _ | exact hrec.additive _
    | exact guarded_host _ hhost
    | exact guarded_parse_statements T n rec hrec _
    | exact guarded_parse_function T n rec hrec _
    | exact guarded_parse_value T n rec hrec _
    | exact guarded_parse_call_arguments T n rec hrec _
    | exact guarded_call_callee T host n rec _ hrec hhost _
    | exact guarded_parse_accessor T host n rec hrec hhost _
    | exact guarded_parse_access_call_expression T host n rec hrec hhost _
    | rw [if_pos (rfl : true = true)] | rw [if_neg Bool.false_ne_true]
    | rw [if_neg (by decide : ¬ (!true) = true)] | rw [if_pos (by decide : (!false) = true)]
    | apply guarded_of_read | apply guarded_next | apply guarded_set_idx
    | apply guarded_token | apply guarded_get
    | apply guarded_function_cell | apply guarded_function_bind
    | apply guarded_accept_bind (by decide)
    | apply guarded_statements_bind _ hrec
    | apply guarded_bind_steady | apply guarded_bind_read
    | apply guarded_for_each_spread | apply guarded_map_for_each
    | apply guarded_loop
    | apply guarded_bind | apply guarded_ite | split)

set_option maxHeartbeats 4000000 in
theorem guarded_parse_multiplicative_expression (T : List js_token) (host : Host) (n : Nat) (rec : Parsers)
    (hrec : rec.Guarded T) (hhost : HostGuarded T host) :
    ∀ k, Guarded T k (_parse_multiplicative_expression host n rec) := by
  intro k
  unfold _parse_multiplicative_expression
  with_reducible repeat' (first
    | (show _ ≠ js_token_state.ts_end_of_file; first | decide | with_unfolding_all (intro e; subst e; simp_all; done))
    | (show _ ≤ List.length _; first | assumption | exact InTokens.cursor (by assumption))
    | intro _
    | exact guarded_pure | exact guarded_throw | exact guarded_throw_bind
    | exact guarded_stop_fuel
    | exact guarded_of_steady
    | exact guarded_accept _ (by decide) | exact guarded_expect _ _ (by decide)
    | exact hrec.statement _ | exact hrec.expression _ | exact hrec.additive _
    | exact guarded_host _ hhost
    | exact guarded_parse_statements T n rec hrec _
    | exact guarded_parse_function T n rec hrec _
    | exact guarded_parse_value T n rec hrec _
    | exact guarded_parse_call_arguments T n rec hrec _
    | exact guarded_call_callee T host n rec _ hrec hhost _
    | exact guarded_parse_accessor T host n rec hrec hhost _
    | exact guarded_parse_access_call_expression T host n rec hrec hhost _
    | exact guarded_parse_prefix_expression T host n rec hrec hhost _
    | rw [if_pos (rfl : true = true)] | rw [if_neg Bool.false_ne_true]
    | rw [if_neg (by decide : ¬ (!true) = true)] | rw [if_pos (by decide : (!false) = true)]
    | apply guarded_of_read | apply guarded_next | apply guarded_set_idx
    | apply guarded_token | apply guarded_get
    | apply guarded_function_cell | apply guarded_function_bind
    | apply guarded_accept_bind (by decide)
    | apply guarded_statements_bind _ hrec
    | apply guarded_bind_steady | apply guarded_bind_read
    | apply guarded_for_each_spread | apply guarded_map_for_each
    | apply guarded_loop
    | apply guarded_bind | apply guarded_ite | split)

set_option maxHeartbeats 4000000 in
theorem guarded_parse_additive_expression (T : List js_token) (host : Host) (n : Nat) (rec : Parsers)
    (hrec : rec.Guarded T) (hhost : HostGuarded T host) :
    ∀ k, Guarded T k (_parse_additive_expression host n rec) := by
  intro k
  unfold _parse_additive_expression
  with_reducible repeat' (first
    | (show _ ≠ js_token_state.ts_end_of_file; first | decide | with_unfolding_all (intro e; subst e; simp_all; done))
    | (show _ ≤ List.length _; first | assumption | exact InTokens.cursor (by assumption))
    | intro _
    | exact guarded_pure | exact guarded_throw | exact guarded_throw_bind
    | exact guarded_stop_fuel
    | exact guarded_of_steady
    | exact guarded_accept _ (by decide) | exact guarded_expect _ _ (by decide)
    | exact hrec.statement _ | exact hrec.expression _ | exact hrec.additive _
    | exact guarded_host _ hhost
    | exact guarded_parse_statements T n rec hrec _
    | exact guarded_parse_function T n rec hrec _
    | exact guarded_parse_value T n rec hrec _
    | exact guarded_parse_call_arguments T n rec hrec _
    | exact guarded_call_callee T host n rec _ hrec hhost _
    | exact guarded_parse_accessor T host n rec hrec hhost _
    | exact guarded_parse_access_call_expression T host n rec hrec hhost _
    | exact guarded_parse_prefix_expression T host n rec hrec hhost _
    | exact guarded_parse_multiplicative_expression T host n rec hrec hhost _
    | rw [if_pos (rfl : true = true)] | rw [if_neg Bool.false_ne_true]
    | rw [if_neg (by decide : ¬ (!true) = true)] | rw [if_pos (by decide : (!false) = true)]
    | apply guarded_of_read | apply guarded_next | apply guarded_set_idx
    | apply guarded_token | apply guarded_get
    | apply guarded_function_cell | apply guarded_function_bind
    | apply guarded_accept_bind (by decide)
    | apply guarded_statements_bind _ hrec
    | apply guarded_bind_steady | apply guarded_bind_read
    | apply guarded_for_each_spread | apply guarded_map_for_each
    | apply guarded_loop
    | apply guarded_bind | apply guarded_ite | split)

set_option maxHeartbeats 4000000 in
theorem guarded_parse_relational_expression (T : List js_token) (host : Host) (n : Nat) (rec : Parsers)
    (hrec : rec.Guarded T) (hhost : HostGuarded T host) :
    ∀ k, Guarded T k (_parse_relational_expression host n rec) := by
  intro k
  unfold _parse_relational_expression
  with_reducible repeat' (first
    | (show _ ≠ js_token_state.ts_end_of_file; first | decide | with_unfolding_all (intro e; subst e; simp_all; done))
    | (show _ ≤ List.length _; first | assumption | exact InTokens.cursor (by assumption))
    | intro _
    | exact guarded_pure | exact guarded_throw | exact guarded_throw_bind
    | exact guarded_stop_fuel
    | exact guarded_of_steady
    | exact guarded_accept _ (by decide) | exact guarded_expect _ _ (by decide)
    | exact hrec.statement _ | exact hrec.expression _ | exact hrec.additive _
    | exact guarded_host _ hhost
    | exact guarded_parse_statements T n rec hrec _
    | exact guarded_parse_function T n rec hrec _
    | exact guarded_parse_value T n rec hrec _
    | exact guarded_parse_call_arguments T n rec hrec _
    | exact guarded_call_callee T host n rec _ hrec hhost _
    | exact guarded_parse_accessor T host n rec hrec hhost _
    | exact guarded_parse_access_call_expression T host n rec hrec hhost _
    | exact guarded_parse_prefix_expression T host n rec hrec hhost _
    | exact guarded_parse_multiplicative_expression T host n rec hrec hhost _
    | exact guarded_parse_additive_expression T host n rec hrec hhost _
    | rw [if_pos (rfl : true = true)] | rw [if_neg Bool.false_ne_true]
    | rw [if_neg (by decide : ¬ (!true) = true)] | rw [if_pos (by decide : (!false) = true)]
    | apply guarded_of_read | apply guarded_next | apply guarded_set_idx
    | apply guarded_token | apply guarded_get
    | apply guarded_function_cell | apply guarded_function_bind
    | apply guarded_accept_bind (by decide)
    | apply guarded_statements_bind _ hrec
    | apply guarded_bind_steady | apply guarded_bind_read
    | apply guarded_for_each_spread | apply guarded_map_for_each
    | apply guarded_loop
    | apply guarded_bind | apply guarded_ite | split)

set_option maxHeartbeats 4000000 in
theorem guarded_parse_logical_expression (T : List js_token) (host : Host) (n : Nat) (rec : Parsers)
    (hrec : rec.Guarded T) (hhost : HostGuarded T host) :
    ∀ k, Guarded T k (_parse_logical_expression host n rec) := by
  intro k
  unfold _parse_logical_expression
  with_reducible repeat' (first
    | (show _ ≠ js_token_state.ts_end_of_file; first | decide | with_unfolding_all (intro e; subst e; simp_all; done))
    | (show _ ≤ List.length _; first | assumption | exact InTokens.cursor (by assumption))
    | intro _
    | exact guarded_pure | exact guarded_throw | exact guarded_throw_bind
    | exact guarded_stop_fuel
    | exact guarded_of_steady
    | exact guarded_accept _ (by decide) | exact guarded_expect _ _ (by decide)
    | exact hrec.statement _ | exact hrec.expression _ | exact hrec.additive _
    | exact guarded_host _ hhost
    | exact guarded_parse_statements T n rec hrec _
    | exact guarded_parse_function T n rec hrec _
    | exact guarded_parse_value T n rec hrec _
    | exact guarded_parse_call_arguments T n rec hrec _
    | exact guarded_call_callee T host n rec _ hrec hhost _
    | exact guarded_parse_accessor T host n rec hrec hhost _
    | exact guarded_parse_access_call_expression T host n rec hrec hhost _
    | exact guarded_parse_prefix_expression T host n rec hrec hhost _
    | exact guarded_parse_multiplicative_expression T host n rec hrec hhost _
    | exact guarded_parse_additive_expression T host n rec hrec hhost _
    | exact guarded_parse_relational_expression T host n rec hrec hhost _
    | rw [if_pos (rfl : true = true)] | rw [if_neg Bool.false_ne_true]
    | rw [if_neg (by decide : ¬ (!true) = true)] | rw [if_pos (by decide : (!false) = true)]
    | apply guarded_of_read | apply guarded_next | apply guarded_set_idx
    | apply guarded_token | apply guarded_get
    | apply guarded_function_cell | apply guarded_function_bind
    | apply guarded_accept_bind (by decide)
    | apply guarded_statements_bind _ hrec
    | apply guarded_bind_steady | apply guarded_bind_read
    | apply guarded_for_each_spread | apply guarded_map_for_each
    | apply guarded_loop
    | apply guarded_bind | apply guarded_ite | split)

set_option maxHeartbeats 4000000 in
theorem guarded_js_parse_expression (T : List js_token) (host : Host) (n : Nat) (rec : Parsers)
    (hrec : rec.Guarded T) (hhost : HostGuarded T host) :
    ∀ k, Guarded T k (js_parse_expression host n rec) := by
  intro k
  unfold js_parse_expression
  with_reducible repeat' (first
    | (show _ ≠ js_token_state.ts_end_of_file; first | decide | with_unfolding_all (intro e; subst e; simp_all; done))
    | (show _ ≤ List.length _; first | assumption | exact InTokens.cursor (by assumption))
    | intro _
    | exact guarded_pure | exact guarded_throw | exact guarded_throw_bind
    | exact guarded_stop_fuel
    | exact guarded_of_steady
    | exact guarded_accept _ (by decide) | exact guarded_expect _ _ (by decide)
    | exact hrec.statement _ | exact hrec.expression _ | exact hrec.additive _
    | exact guarded_host _ hhost
    | exact guarded_parse_statements T n rec hrec _
    | exact guarded_parse_function T n rec hrec _
    | exact guarded_parse_value T n rec hrec _
    | exact guarded_parse_call_arguments T n rec hrec _
    | exact guarded_call_callee T host n rec _ hrec hhost _
    | exact guarded_parse_accessor T host n rec hrec hhost _
    | exact guarded_parse_access_call_expression T host n rec hrec hhost _
    | exact guarded_parse_prefix_expression T host n rec hrec hhost _
    | exact guarded_parse_multiplicative_expression T host n rec hrec hhost _
    | exact guarded_parse_additive_expression T host n rec hrec hhost _
    | exact guarded_parse_relational_expression T host n rec hrec hhost _
    | exact guarded_parse_logical_expression T host n rec hrec hhost _
    | rw [if_pos (rfl : true = true)] | rw [if_neg Bool.false_ne_true]
    | rw [if_neg (by decide : ¬ (!true) = true)] | rw [if_pos (by decide : (!false) = true)]
    | apply guarded_of_read | apply guarded_next | apply guarded_set_idx
    | apply guarded_token | apply guarded_get
    | apply guarded_function_cell | apply guarded_function_bind
    | apply guarded_accept_bind (by decide)
    | apply guarded_statements_bind _ hrec
    | apply guarded_bind_steady | apply guarded_bind_read
    | apply guarded_for_each_spread | apply guarded_map_for_each
    | apply guarded_loop
    | apply guarded_bind | apply guarded_ite | split)

set_option maxHeartbeats 4000000 in
theorem guarded_parse_assignment_expression (T : List js_token) (host : Host) (n : Nat) (rec : Parsers)
    (hrec : rec.Guarded T) (hhost : HostGuarded T host) :
    ∀ k, Guarded T k (_parse_assignment_expression host n rec) := by
  intro k
  unfold _parse_assignment_expression
  with_reducible repeat' (first
    | (show _ ≠ js_token_state.ts_end_of_file; first | decide | with_unfolding_all (intro e; subst e; simp_all; done))
    | (show _ ≤ List.length _; first | assumption | exact InTokens.cursor (by assumption))
    | intro _
    | exact guarded_pure | exact guarded_throw | exact guarded_throw_bind
    | exact guarded_stop_fuel
    | exact guarded_of_steady
    | exact guarded_accept _ (by decide) | exact guarded_expect _ _ (by decide)
    | exact hrec.statement _ | exact hrec.expression _ | exact hrec.additive _
    | exact guarded_host _ hhost
    | exact guarded_parse_statements T n rec hrec _
    | exact guarded_parse_function T n rec hrec _
    | exact guarded_parse_value T n rec hrec _
    | exact guarded_parse_call_arguments T n rec hrec _
    | exact guarded_call_callee T host n rec _ hrec hhost _
    | exact guarded_parse_accessor T host n rec hrec hhost _
    | exact guarded_parse_access_call_expression T host n rec hrec hhost _
    | exact guarded_parse_prefix_expression T host n rec hrec hhost _
    | exact guarded_parse_multiplicative_expression T host n rec hrec hhost _
    | exact guarded_parse_additive_expression T host n rec hrec hhost _
    | exact guarded_parse_relational_expression T host n rec hrec hhost _
    | exact guarded_parse_logical_expression T host n rec hrec hhost _
    | exact guarded_js_parse_expression T host n rec hrec hhost _
    | rw [if_pos (rfl : true = true)] | rw [if_neg Bool.false_ne_true]
    | rw [if_neg (by decide : ¬ (!true) = true)] | rw [if_pos (by decide : (!false) = true)]
    | apply guarded_of_read | apply guarded_next | apply guarded_set_idx
    | apply guarded_token | apply guarded_get
    | apply guarded_function_cell | apply guarded_function_bind
    | apply guarded_accept_bind (by decide)
    | apply guarded_statements_bind _ hrec
    | apply guarded_bind_steady | apply guarded_bind_read
    | apply guarded_for_each_spread | apply guarded_map_for_each
    | apply guarded_loop
    | apply guarded_bind | apply guarded_ite | split)

set_option maxHeartbeats 4000000 in
theorem guarded_parse_declaration_expression (T : List js_token) (host : Host) (n : Nat) (rec : Parsers)
    (hrec : rec.Guarded T) (hhost : HostGuarded T host) :
    ∀ k, Guarded T k (_parse_declaration_expression host n rec) := by
  intro k
  unfold _parse_declaration_expression
  with_reducible repeat' (first
    | (show _ ≠ js_token_state.ts_end_of_file; first | decide | with_unfolding_all (intro e; subst e; simp_all; done))
    | (show _ ≤ List.length _; first | assumption | exact InTokens.cursor (by assumption))
    | intro _
    | exact guarded_pure | exact guarded_throw | exact guarded_throw_bind
    | exact guarded_stop_fuel
    | exact guarded_of_steady
    | exact guarded_accept _ (by decide) | exact guarded_expect _ _ (by decide)
    | exact hrec.statement _ | exact hrec.expression _ | exact hrec.additive _
    | exact guarded_host _ hhost
    | exact guarded_parse_statements T n rec hrec _
    | exact guarded_parse_function T n rec hrec _
    | exact guarded_parse_value T n rec hrec _
    | exact guarded_parse_call_arguments T n rec hrec _
    | exact guarded_call_callee T host n rec _ hrec hhost _
    | exact guarded_parse_accessor T host n rec hrec hhost _
    | exact guarded_parse_access_call_expression T host n rec hrec hhost _
    | exact guarded_parse_prefix_expression T host n rec hrec hhost _
    | exact guarded_parse_multiplicative_expression T host n rec hrec hhost _
    | exact guarded_parse_additive_expression T host n rec hrec hhost _
    | exact guarded_parse_relational_expression T host n rec hrec hhost _
    | exact guarded_parse_logical_expression T host n rec hrec hhost _
    | exact guarded_js_parse_expression T host n rec hrec hhost _
    | exact guarded_parse_assignment_expression T host n rec hrec hhost _
    | rw [if_pos (rfl : true = true)] | rw [if_neg Bool.false_ne_true]
    | rw [if_neg (by decide : ¬ (!true) = true)] | rw [if_pos (by decide : (!false) = true)]
    | apply guarded_of_read | apply guarded_next | apply guarded_set_idx
    | apply guarded_token | apply guarded_get
    | apply guarded_function_cell | apply guarded_function_bind
    | apply guarded_accept_bind (by decide)
    | apply guarded_statements_bind _ hrec
    | apply guarded_bind_steady | apply guarded_bind_read
    | apply guarded_for_each_spread | apply guarded_map_for_each
    | apply guarded_loop
    | apply guarded_bind | apply guarded_ite | split)

set_option maxHeartbeats 4000000 in
theorem guarded_parse_classic_for (T : List js_token) (host : Host) (n : Nat) (rec : Parsers)
    (hrec : rec.Guarded T) (hhost : HostGuarded T host) :
    ∀ k, Guarded T k (_parse_classic_for host n rec) := by
  intro k
  unfold _parse_classic_for
  with_reducible repeat' (first
    | (show _ ≠ js_token_state.ts_end_of_file; first | decide | with_unfolding_all (intro e; subst e; simp_all; done))
    | (show _ ≤ List.length _; first | assumption | exact InTokens.cursor (by assumption))
    | intro _
    | exact guarded_pure | exact guarded_throw | exact guarded_throw_bind
    | exact guarded_stop_fuel
    | exact guarded_of_steady
    | exact guarded_accept _ (by decide) | exact guarded_expect _ _ (by decide)
    | exact hrec.statement _ | exact hrec.expression _ | exact hrec.additive _
    | exact guarded_host _ hhost
    | exact guarded_parse_statements T n rec hrec _
    | exact guarded_parse_function T n rec hrec _
    | exact guarded_parse_value T n rec hrec _
    | exact guarded_parse_call_arguments T n rec hrec _
    | exact guarded_call_callee T host n rec _ hrec hhost _
    | exact guarded_parse_accessor T host n rec hrec hhost _
    | exact guarded_parse_access_call_expression T host n rec hrec hhost _
    | exact guarded_parse_prefix_expression T host n rec hrec hhost _
    | exact guarded_parse_multiplicative_expression T host n rec hrec hhost _
    | exact guarded_parse_additive_expression T host n rec hrec hhost _
    | exact guarded_parse_relational_expression T host n rec hrec hhost _
    | exact guarded_parse_logical_expression T host n rec hrec hhost _
    | exact guarded_js_parse_expression T host n rec hrec hhost _
    | exact guarded_parse_assignment_expression T host n rec hrec hhost _
    | exact guarded_parse_declaration_expression T host n rec hrec hhost _
    | rw [if_pos (rfl : true = true)] | rw [if_neg Bool.false_ne_true]
    | rw [if_neg (by decide : ¬ (!true) = true)] | rw [if_pos (by decide : (!false) = true)]
    | apply guarded_of_read | apply guarded_next | apply guarded_set_idx
    | apply guarded_token | apply guarded_get
    | apply guarded_function_cell | apply guarded_function_bind
    | apply guarded_accept_bind (by decide)
    | apply guarded_statements_bind _ hrec
    | apply guarded_bind_steady | apply guarded_bind_read
    | apply guarded_for_each_spread | apply guarded_map_for_each
    | apply guarded_loop
    | apply guarded_bind | apply guarded_ite | split)

set_option maxHeartbeats 4000000 in
theorem guarded_parse_for_in_of (T : List js_token) (host : Host) (n : Nat) (rec : Parsers) (for_type : _for_type) (acc : _value_accessor)
    (hrec : rec.Guarded T) (hhost : HostGuarded T host) :
    ∀ k, Guarded T k (_parse_for_in_of host n rec for_type acc) := by
  intro k
  unfold _parse_for_in_of
  with_reducible repeat' (first
    | (show _ ≠ js_token_state.ts_end_of_file; first | decide | with_unfolding_all (intro e; subst e; simp_all; done))
    | (show _ ≤ List.length _; first | assumption | exact InTokens.cursor (by assumption))
    | intro _
    | exact guarded_pure | exact guarded_throw | exact guarded_throw_bind
    | exact guarded_stop_fuel
    | exact guarded_of_steady
    | exact guarded_accept _ (by decide) | exact guarded_expect _ _ (by decide)
    | exact hrec.statement _ | exact hrec.expression _ | exact hrec.additive _
    | exact guarded_host _ hhost
    | exact guarded_parse_statements T n rec hrec _
    | exact guarded_parse_function T n rec hrec _
    | exact guarded_parse_value T n rec hrec _
    | exact guarded_parse_call_arguments T n rec hrec _
    | exact guarded_call_callee T host n rec _ hrec hhost _
    | exact guarded_parse_accessor T host n rec hrec hhost _
    | exact guarded_parse_access_call_expression T host n rec hrec hhost _
    | exact guarded_parse_prefix_expression T host n rec hrec hhost _
    | exact guarded_parse_multiplicative_expression T host n rec hrec hhost _
    | exact guarded_parse_additive_expression T host n rec hrec hhost _
    | exact guarded_parse_relational_expression T host n rec hrec hhost _
    | exact guarded_parse_logical_expression T host n rec hrec hhost _
    | exact guarded_js_parse_expression T host n rec hrec hhost _
    | exact guarded_parse_assignment_expression T host n rec hrec hhost _
    | exact guarded_parse_declaration_expression T host n rec hrec hhost _
    | exact guarded_parse_classic_for T host n rec hrec hhost _
    | rw [if_pos (rfl : true = true)] | rw [if_neg Bool.false_ne_true]
    | rw [if_neg (by decide : ¬ (!true) = true)] | rw [if_pos (by decide : (!false) = true)]
    | apply guarded_of_read | apply guarded_next | apply guarded_set_idx
    | apply guarded_token | apply guarded_get
    | apply guarded_function_cell | apply guarded_function_bind
    | apply guarded_accept_bind (by decide)
    | apply guarded_statements_bind _ hrec
    | apply guarded_bind_steady | apply guarded_bind_read
    | apply guarded_for_each_spread | apply guarded_map_for_each
    | apply guarded_loop
    | apply guarded_bind | apply guarded_ite | split)

set_option maxHeartbeats 4000000 in
theorem guarded_parse_while (T : List js_token) (host : Host) (n : Nat) (rec : Parsers)
    (hrec : rec.Guarded T) (hhost : HostGuarded T host) :
    ∀ k, Guarded T k (_parse_while host n rec) := by
  intro k
  unfold _parse_while
  with_reducible repeat' (first
    | (show _ ≠ js_token_state.ts_end_of_file; first | decide | with_unfolding_all (intro e; subst e; simp_all; done))
    | (show _ ≤ List.length _; first | assumption | exact InTokens.cursor (by assumption))
    | intro _
    | exact guarded_pure | exact guarded_throw | exact guarded_throw_bind
    | exact guarded_stop_fuel
    | exact guarded_of_steady
    | exact guarded_accept _ (by decide) | exact guarded_expect _ _ (by decide)
    | exact hrec.statement _ | exact hrec.expression _ | exact hrec.additive _
    | exact guarded_host _ hhost
    | exact guarded_parse_statements T n rec hrec _
    | exact guarded_parse_function T n rec hrec _
    | exact guarded_parse_value T n rec hrec _
    | exact guarded_parse_call_arguments T n rec hrec _
    | exact guarded_call_callee T host n rec _ hrec hhost _
    | exact guarded_parse_accessor T host n rec hrec hhost _
    | exact guarded_parse_access_call_expression T host n rec hrec hhost _
    | exact guarded_parse_prefix_expression T host n rec hrec hhost _
    | exact guarded_parse_multiplicative_expression T host n rec hrec hhost _
    | exact guarded_parse_additive_expression T host n rec hrec hhost _
    | exact guarded_parse_relational_expression T host n rec hrec hhost _
    | exact guarded_parse_logical_expression T host n rec hrec hhost _
    | exact guarded_js_parse_expression T host n rec hrec hhost _
    | exact guarded_parse_assignment_expression T host n rec hrec hhost _
    | exact guarded_parse_declaration_expression T host n rec hrec hhost _
    | exact guarded_parse_classic_for T host n rec hrec hhost _
    | exact guarded_parse_for_in_of T host n rec _ _ hrec hhost _
    | rw [if_pos (rfl : true = true)] | rw [if_neg Bool.false_ne_true]
    | rw [if_neg (by decide : ¬ (!true) = true)] | rw [if_pos (by decide : (!false) = true)]
    | apply guarded_of_read | apply guarded_next | apply guarded_set_idx
    | apply guarded_token | apply guarded_get
    | apply guarded_function_cell | apply guarded_function_bind
    | apply guarded_accept_bind (by decide)
    | apply guarded_statements_bind _ hrec
    | apply guarded_bind_steady | apply guarded_bind_read
    | apply guarded_for_each_spread | apply guarded_map_for_each
    | apply guarded_loop
    | apply guarded_bind | apply guarded_ite | split)

set_option maxHeartbeats 4000000 in
theorem guarded_parse_do_while (T : List js_token) (host : Host) (n : Nat) (rec : Parsers)
    (hrec : rec.Guarded T) (hhost : HostGuarded T host) :
    ∀ k, Guarded T k (_parse_do_while host n rec) := by
  intro k
  unfold _parse_do_while
  with_reducible repeat' (first
    | (show _ ≠ js_token_state.ts_end_of_file; first | decide | with_unfolding_all (intro e; subst e; simp_all; done))
    | (show _ ≤ List.length _; first | assumption | exact InTokens.cursor (by assumption))
    | intro _
    | exact guarded_pure | exact guarded_throw | exact guarded_throw_bind
    | exact guarded_stop_fuel
    | exact guarded_of_steady
    | exact guarded_accept _ (by decide) | exact guarded_expect _ _ (by decide)
    | exact hrec.statement _ | exact hrec.expression _ | exact hrec.additive _
    | exact guarded_host _ hhost
    | exact guarded_parse_statements T n rec hrec _
    | exact guarded_parse_function T n rec hrec _
    | exact guarded_parse_value T n rec hrec _
    | exact guarded_parse_call_arguments T n rec hrec _
    | exact guarded_call_callee T host n rec _ hrec hhost _
    | exact guarded_parse_accessor T host n rec hrec hhost _
    | exact guarded_parse_access_call_expression T host n rec hrec hhost _
    | exact guarded_parse_prefix_expression T host n rec hrec hhost _
    | exact guarded_parse_multiplicative_expression T host n rec hrec hhost _
    | exact guarded_parse_additive_expression T host n rec hrec hhost _
    | exact guarded_parse_relational_expression T host n rec hrec hhost _
    | exact guarded_parse_logical_expression T host n rec hrec hhost _
    | exact guarded_js_parse_expression T host n rec hrec hhost _
    | exact guarded_parse_assignment_expression T host n rec hrec hhost _
    | exact guarded_parse_declaration_expression T host n rec hrec hhost _
    | exact guarded_parse_classic_for T host n rec hrec hhost _
    | exact guarded_parse_for_in_of T host n rec _ _ hrec hhost _
    | exact guarded_parse_while T host n rec hrec hhost _
    | rw [if_pos (rfl : true = true)] | rw [if_neg Bool.false_ne_true]
    | rw [if_neg (by decide : ¬ (!true) = true)] | rw [if_pos (by decide : (!false) = true)]
    | apply guarded_of_read | apply guarded_next | apply guarded_set_idx
    | apply guarded_token | apply guarded_get
    | apply guarded_function_cell | apply guarded_function_bind
    | apply guarded_accept_bind (by decide)
    | apply guarded_statements_bind _ hrec
    | apply guarded_bind_steady | apply guarded_bind_read
    | apply guarded_for_each_spread | apply guarded_map_for_each
    | apply guarded_loop
    | apply guarded_bind | apply guarded_ite | split)

set_option maxHeartbeats 4000000 in
theorem guarded_parse_statement (T : List js_token) (host : Host) (n : Nat) (rec : Parsers)
    (hrec : rec.Guarded T) (hhost : HostGuarded T host) :
    ∀ k, Guarded T k (_parse_statement host n rec) := by
  intro k
  unfold _parse_statement
  with_reducible repeat' (first
    | (show _ ≠ js_token_state.ts_end_of_file; first | decide | with_unfolding_all (intro e; subst e; simp_all; done))
    | (show _ ≤ List.length _; first | assumption | exact InTokens.cursor (by assumption))
    | intro _
    | exact guarded_pure | exact guarded_throw | exact guarded_throw_bind
    | exact guarded_stop_fuel
    | exact guarded_of_steady
    | exact guarded_accept _ (by decide) | exact guarded_expect _ _ (by decide)
    | exact hrec.statement _ | exact hrec.expression _ | exact hrec.additive _
    | exact guarded_host _ hhost
    | exact guarded_parse_statements T n rec hrec _
    | exact guarded_parse_function T n rec hrec _
    | exact guarded_parse_value T n rec hrec _
    | exact guarded_parse_call_arguments T n rec hrec _
    | exact guarded_call_callee T host n rec _ hrec hhost _
    | exact guarded_parse_accessor T host n rec hrec hhost _
    | exact guarded_parse_access_call_expression T host n rec hrec hhost _
    | exact guarded_parse_prefix_expression T host n rec hrec hhost _
    | exact guarded_parse_multiplicative_expression T host n rec hrec hhost _
    | exact guarded_parse_additive_expression T host n rec hrec hhost _
    | exact guarded_parse_relational_expression T host n rec hrec hhost _
    | exact guarded_parse_logical_expression T host n rec hrec hhost _
    | exact guarded_js_parse_expression T host n rec hrec hhost _
    | exact guarded_parse_assignment_expression T host n rec hrec hhost _
    | exact guarded_parse_declaration_expression T host n rec hrec hhost _
    | exact guarded_parse_classic_for T host n rec hrec hhost _
    | exact guarded_parse_for_in_of T host n rec _ _ hrec hhost _
    | exact guarded_parse_while T host n rec hrec hhost _
    | exact guarded_parse_do_while T host n rec hrec hhost _
    | rw [if_pos (rfl : true = true)] | rw [if_neg Bool.false_ne_true]
    | rw [if_neg (by decide : ¬ (!true) = true)] | rw [if_pos (by decide : (!false) = true)]
    | apply guarded_of_read | apply guarded_next | apply guarded_set_idx
    | apply guarded_token | apply guarded_get
    | apply guarded_function_cell | apply guarded_function_bind
    | apply guarded_accept_bind (by decide)
    | apply guarded_statements_bind _ hrec
    | apply guarded_bind_steady | apply guarded_bind_read
    | apply guarded_for_each_spread | apply guarded_map_for_each
    | apply guarded_loop
    | apply guarded_bind | apply guarded_ite | split)

theorem guarded_parsers (T : List js_token) (host : Host) (hhost : HostGuarded T host) :
    ∀ n, (parsers host n).Guarded T
  | 0 => ⟨fun _ => guarded_stop_fuel, fun _ => guarded_stop_fuel, fun _ => guarded_stop_fuel⟩
  | n + 1 =>
    ⟨guarded_parse_statement T host n _ (guarded_parsers T host hhost n) hhost,
     guarded_parse_additive_expression T host n _ (guarded_parsers T host hhost n) hhost,
     guarded_js_parse_expression T host n _ (guarded_parsers T host hhost n) hhost⟩

theorem guarded_js_parse_script (T : List js_token) (host : Host) (n : Nat)
    (hhost : HostGuarded T host) : ∀ k, Guarded T k (js_parse_script host n) := by
  intro k
  unfold js_parse_script
  apply guarded_loop
  with_reducible repeat' (first
    | intro _
    | exact guarded_pure | exact guarded_of_steady
    | exact guarded_parse_statement T host n _ (guarded_parsers T host hhost n) hhost _
    | apply guarded_token | apply guarded_bind_steady | apply guarded_bind | apply guarded_ite
    | split)

theorem no_host_guarded (T : List js_token) : HostGuarded T no_host :=
  ⟨fun _ _ _ _ h => (nomatch h), fun _ _ _ h => (nomatch h)⟩

/-- C32: a run from a state `s` that works on the token array `T`, with the cursor
not beyond the token count and the entry index of every function cell of the heap
not beyond it, and with host callables that keep such states and read no token
outside the array.  A read of the head, the length, the line or the number of the
current token, and `_stack_forward`, stop with `token_out_of_range` exactly when
the cursor is not inside the token array; there the current kind is end-of-file.
`js_parse_script`, `_parse_statement`, `js_parse_expression` and `_parse_accessor`
do not stop with `token_out_of_range`: every read they make is made with the cursor
inside the array.  When they return, the state works on `T`, the cursor does not
exceed the token count, and no function cell has an entry index beyond it. -/
theorem token_reads_stay_inside_the_array (T : List js_token) (host : Host) (n : Nat) (s : js)
    (hhost : HostGuarded T host) (hs : InTokens T s) :
    (s.tok_cache_idx < s.tok_cache.length ↔ _get_token_head s ≠ .error .token_out_of_range) ∧
    (s.tok_cache_idx < s.tok_cache.length ↔ _get_token_length s ≠ .error .token_out_of_range) ∧
    (s.tok_cache_idx < s.tok_cache.length ↔ _get_token_line s ≠ .error .token_out_of_range) ∧
    (s.tok_cache_idx < s.tok_cache.length ↔ _get_token_number s ≠ .error .token_out_of_range) ∧
    (s.tok_cache_idx < s.tok_cache.length ↔ _stack_forward s ≠ .error .token_out_of_range) ∧
    (s.tok_cache.length ≤ s.tok_cache_idx → _get_token_state s = .ok (.ts_end_of_file, s)) ∧
    js_parse_script host n s ≠ .error .token_out_of_range ∧
    _parse_statement host n (parsers host n) s ≠ .error .token_out_of_range ∧
    js_parse_expression host n (parsers host n) s ≠ .error .token_out_of_range ∧
    _parse_accessor host n (parsers host n) s ≠ .error .token_out_of_range ∧
    (∀ s1, js_parse_script host n s = .ok ((), s1) → InTokens T s1) ∧
    (∀ s1, _parse_statement host n (parsers host n) s = .ok ((), s1) → InTokens T s1) ∧
    (∀ v s1, js_parse_expression host n (parsers host n) s = .ok (v, s1) → InTokens T s1) ∧
    (∀ acc s1, _parse_accessor host n (parsers host n) s = .ok (acc, s1) → InTokens T s1) := by
  obtain ⟨k, hk⟩ := at_token_total hs
  have hp := guarded_parsers T host hhost n
  have h1 := guarded_js_parse_script T host n hhost k
  have h2 := guarded_parse_statement T host n _ hp hhost k
  have h3 := guarded_js_parse_expression T host n _ hp hhost k
  have h4 := guarded_parse_accessor T host n _ hp hhost k
  have hread : ∀ {α : Type} (f : js_token → α),
      (s.tok_cache_idx < s.tok_cache.length ↔ _tok_field f s ≠ .error .token_out_of_range) := by
    intro α f
    cases ht : s.tok with
    | none =>
      have hlen : s.tok_cache.length ≤ s.tok_cache_idx := by
        unfold js.tok at ht
        exact List.get?_eq_none.mp ht
      simp only [_tok_field, ht, ne_eq, not_true_eq_false, iff_false, not_lt]
      exact hlen
    | some t =>
      have hlen : s.tok_cache_idx < s.tok_cache.length := by
        unfold js.tok at ht
        exact (List.get?_eq_some.mp ht).1
      simp only [_tok_field, ht, hlen, ne_eq, reduceCtorEq, not_false_eq_true]
  refine ⟨?_, hread _, hread _, hread _, ?_, ?_, h1.safe s hk, h2.safe s hk, h3.safe s hk,
    h4.safe s hk, fun s1 h => h1.run s () s1 hk h, fun s1 h => h2.run s () s1 hk h,
    fun v s1 h => h3.run s v s1 hk h, fun acc s1 h => h4.run s acc s1 hk h⟩
  · cases ht : s.tok with
    | none =>
      have hlen : s.tok_cache.length ≤ s.tok_cache_idx := by
        unfold js.tok at ht
        exact List.get?_eq_none.mp ht
      simp only [_get_token_head, ht, ne_eq, not_true_eq_false, iff_false, not_lt]
      exact hlen
    | some t =>
      have hlen : s.tok_cache_idx < s.tok_cache.length := by
        unfold js.tok at ht
        exact (List.get?_eq_some.mp ht).1
      simp only [_get_token_head, ht, hlen, ne_eq, reduceCtorEq, not_false_eq_true]
  · cases ht : s.tok with
    | none =>
      have hlen : s.tok_cache.length ≤ s.tok_cache_idx := by
        unfold js.tok at ht
        exact List.get?_eq_none.mp ht
      have e : _stack_forward s = .error .token_out_of_range := by
        simp only [_stack_forward, run_bind, _tok_field, ht]
      simp only [e, ne_eq, not_true_eq_false, iff_false, not_lt]
      exact hlen
    | some t =>
      have hlen : s.tok_cache_idx < s.tok_cache.length := by
        unfold js.tok at ht
        exact (List.get?_eq_some.mp ht).1
      have e : _stack_forward s = .ok ((), { s with stack := ⟨t.h, t.t, [], []⟩ :: s.stack }) := by
        simp only [_stack_forward, run_bind, _tok_field, ht]
        rfl
      simp only [e, hlen, ne_eq, reduceCtorEq, not_false_eq_true]
  · intro hlen
    apply run_token_none
    unfold js.tok
    exact List.get?_eq_none.mpr hlen

set_option maxRecDepth 100000 in
theorem token_reads_stay_inside_the_array_witness :
    js_parse_script no_host 30
      (js_load "function f(a) \x7b return a; \x7d let x = f(1); let y = \x7b k: [x")
      ≠ .error .token_out_of_range :=
  (token_reads_stay_inside_the_array
    (js_scan "function f(a) \x7b return a; \x7d let x = f(1); let y = \x7b k: [x") no_host 30
    (js_load "function f(a) \x7b return a; \x7d let x = f(1); let y = \x7b k: [x")
    (no_host_guarded _) ⟨rfl, Nat.zero_le _, fun _ _ h => (nomatch h)⟩).2.2.2.2.2.2.1

/-! ## A `break` ends the loop it is in -/

theorem loop_rounds {σ α : Type} (body : σ → Parse (σ ⊕ α)) (k : Nat) :
    ∀ (j : Nat) (x x1 : σ) (s s1 : js), js_rounds body j x s = some (x1, s1) →
      js_loop body (j + k) x s = js_loop body k x1 s1 := by
  intro j
  induction j with
  | zero =>
    intro x x1 s s1 h
    simp only [js_rounds] at h
    cases h
    rw [Nat.zero_add]
  | succ j ih =>
    intro x x1 s s1 h
    simp only [js_rounds] at h
    split at h
    · rename_i x2 s2 hb
      rw [show j + 1 + k = (j + k) + 1 by omega, loop_inl x2 s2 hb]
      exact ih x2 x1 s2 s1 h
    · cases h

theorem parse_while_eq (host : Host) (n : Nat) (rec : Parsers) :
    _parse_while host n rec = (do
      _expect .ts_left_parenthesis "Expect ("
      let tok_idx_backup := (← js_get).tok_cache_idx
      js_loop (while_body host n rec tok_idx_backup) n ()
      set_parse_exec true
      set_mark_break false
      set_mark_continue false) := rfl

theorem parse_do_while_eq (host : Host) (n : Nat) (rec : Parsers) :
    _parse_do_while host n rec = (do
      let tok_idx_backup := (← js_get).tok_cache_idx
      js_loop (do_while_body host n rec tok_idx_backup) n ()
      set_mark_break false
      set_mark_continue false
      _expect .ts_semicolon "Expect ;") := rfl

theorem parse_classic_for_eq (host : Host) (n : Nat) (rec : Parsers) :
    _parse_classic_for host n rec = (do
      let tok_idx_backup := (← js_get).tok_cache_idx
      js_loop (classic_for_body host n rec tok_idx_backup) n ()
      set_parse_exec true
      set_mark_break false
      set_mark_continue false) := rfl

theorem parse_for_in_of_eq (host : Host) (n : Nat) (rec : Parsers) (for_type : _for_type)
    (acc : _value_accessor) :
    _parse_for_in_of host n rec for_type acc = (do
      let val ← _parse_access_call_expression host n rec
      _expect .ts_right_parenthesis "Expect )"
      let tok_idx_backup := (← js_get).tok_cache_idx
      let loop_count ← (do
        if val.type = .vt_array then
          let loop_count ← js_loop (for_array_body rec for_type acc val tok_idx_backup) n (0, 0)
          set_mark_break false
          pure loop_count
        else if val.type = .vt_object then
          let loop_count ← js_loop (for_object_body rec for_type acc val tok_idx_backup) n (0, 0)
          set_mark_break false
          pure loop_count
        else
          js_throw "For in/of loop require array or object" : Parse Nat)
      if loop_count = 0 then
        set_parse_exec false
        rec._parse_statement
        set_parse_exec true) := rfl

theorem while_break_round (host : Host) (n : Nat) (rec : Parsers) (b k : Nat) (s s1 s2 : js)
    (c : Bool) (hg : (s.parse_exec && !s.mark_break) = true)
    (hc : js_parse_expression host n rec { s with tok_cache_idx := b } = .ok (.boolean c, s1))
    (hp : _get_token_state s1 = .ok (.ts_right_parenthesis, s1))
    (hb : rec._parse_statement
        { s1 with tok_cache_idx := s1.tok_cache_idx + 1, parse_exec := c } = .ok ((), s2))
    (hbr : s2.mark_break = true) :
    js_loop (while_body host n rec b) (k + 2) () s = .ok ((), { s2 with mark_continue := false }) := by
  have h1 : while_body host n rec b () s = .ok (.inl (), { s2 with mark_continue := false }) := by
    unfold while_body
    simp only [run_bind, run_get, hg, if_true, run_set_tok_cache_idx, hc, run_expect, run_accept,
      hp, run_set_parse_exec, hb, run_set_mark_continue, run_pure]
  have h2 : while_body host n rec b () { s2 with mark_continue := false }
      = .ok (.inr (), { s2 with mark_continue := false }) := by
    unfold while_body
    simp only [run_bind, run_get, hbr, Bool.not_true, Bool.and_false, Bool.false_eq_true,
      if_false, run_pure]
  rw [loop_inl _ _ h1, loop_inr _ _ h2]

theorem while_break (host : Host) (n : Nat) (rec : Parsers) (j : Nat) (s0 s s1 s2 : js)
    (c : Bool)
    (hopen : _get_token_state s0 = .ok (.ts_left_parenthesis, s0))
    (hrounds : js_rounds (while_body host n rec (s0.tok_cache_idx + 1)) j ()
        { s0 with tok_cache_idx := s0.tok_cache_idx + 1 } = some ((), s))
    (hg : (s.parse_exec && !s.mark_break) = true)
    (hc : js_parse_expression host n rec { s with tok_cache_idx := s0.tok_cache_idx + 1 }
        = .ok (.boolean c, s1))
    (hp : _get_token_state s1 = .ok (.ts_right_parenthesis, s1))
    (hb : rec._parse_statement
        { s1 with tok_cache_idx := s1.tok_cache_idx + 1, parse_exec := c } = .ok ((), s2))
    (hbr : s2.mark_break = true) (hn : j + 2 ≤ n) :
    _parse_while host n rec s0 = .ok ((),
      { s2 with parse_exec := true, mark_break := false, mark_continue := false }) := by
  obtain ⟨k, rfl⟩ : ∃ k, n = j + (k + 2) := ⟨n - (j + 2), by omega⟩
  rw [parse_while_eq]
  simp only [run_bind, run_expect, run_accept, hopen, if_true, run_get]
  rw [loop_rounds _ _ j _ _ _ _ hrounds,
    while_break_round host _ rec _ k s s1 s2 c hg hc hp hb hbr]
  rfl

theorem do_while_break (host : Host) (n : Nat) (j : Nat) (s0 s s1 s2 : js) (v : js_value)
    (hrounds : js_rounds (do_while_body host n (parsers host n) s0.tok_cache_idx) j () s0
        = some ((), s))
    (hb : (parsers host n)._parse_statement { s with tok_cache_idx := s0.tok_cache_idx }
        = .ok ((), s1))
    (hbr : s1.mark_break = true)
    (hw : _get_token_state s1 = .ok (.ts_while, s1))
    (hopen : _get_token_state { s1 with tok_cache_idx := s1.tok_cache_idx + 1 }
        = .ok (.ts_left_parenthesis, { s1 with tok_cache_idx := s1.tok_cache_idx + 1 }))
    (hc : js_parse_expression host n (parsers host n)
        { s1 with mark_continue := false, tok_cache_idx := s1.tok_cache_idx + 2 } = .ok (v, s2))
    (hclose : _get_token_state s2 = .ok (.ts_right_parenthesis, s2))
    (hsemi : _get_token_state { s2 with tok_cache_idx := s2.tok_cache_idx + 1 }
        = .ok (.ts_semicolon, { s2 with tok_cache_idx := s2.tok_cache_idx + 1 }))
    (hn : j + 1 ≤ n) :
    v = .undefined ∧
    _parse_do_while host n (parsers host n) s0 = .ok ((),
      { s1 with
        mark_break := false
        mark_continue := false
        tok_cache_idx := s2.tok_cache_idx + 2 }) := by
  have hx : ({ s1 with mark_continue := false, tok_cache_idx := s1.tok_cache_idx + 2 } : js).exec
      = false := by simp [js.exec, hbr]
  have hv := skim_value_js_parse_expression host n _ _ _ _ hx hc
  have hs := skim_state (skim_js_parse_expression host n _ (skim_parsers host n)) hc hx
  refine ⟨hv, ?_⟩
  subst hv
  obtain ⟨k, rfl⟩ : ∃ k, n = j + (k + 1) := ⟨n - (j + 1), by omega⟩
  have hround : do_while_round (parsers host (j + (k + 1)))._parse_statement
      (js_parse_expression host (j + (k + 1)) (parsers host (j + (k + 1)))) s0.tok_cache_idx s
      (s1, .undefined, s2) :=
    ⟨hb, get_token_state_of _ hw rfl rfl, get_token_state_of _ hopen rfl rfl, hc, .inl rfl, hclose⟩
  have h1 : do_while_body host (j + (k + 1)) (parsers host (j + (k + 1))) s0.tok_cache_idx () s
      = .ok (.inr (), { s2 with tok_cache_idx := s2.tok_cache_idx + 1 }) := by
    have := do_while_round_run host _ _ _ s _ hround
    simp only [reduceCtorEq, false_and, if_false] at this
    exact this
  rw [parse_do_while_eq]
  simp only [run_bind, run_get]
  rw [loop_rounds _ _ j _ _ _ _ hrounds, loop_inr _ _ h1]
  simp only [run_set_mark_break, run_set_mark_continue, run_expect, run_accept]
  have hsemi' := get_token_state_of
    { s2 with tok_cache_idx := s2.tok_cache_idx + 1, mark_break := false, mark_continue := false }
    hsemi rfl rfl
  simp only [hsemi', if_true]
  rw [hs]

theorem classic_for_break (host : Host) (n : Nat) (j : Nat) (s0 s : js)
    (r : Bool × js × js × js × js)
    (hrounds : js_rounds (classic_for_body host n (parsers host n) s0.tok_cache_idx) j () s0
        = some ((), s))
    (hg : (s.parse_exec && !s.mark_break) = true)
    (hround : classic_for_round host n (parsers host n) s0.tok_cache_idx s r)
    (hbr : r.2.2.2.1.mark_break = true) (hn : j + 2 ≤ n) :
    classic_for_next r = { r.2.2.2.1 with mark_continue := false } ∧
    _parse_classic_for host n (parsers host n) s0 = .ok ((),
      { r.2.2.2.1 with parse_exec := true, mark_break := false, mark_continue := false }) := by
  obtain ⟨c, s1, s2, s3, s4⟩ := r
  have hstep := hround.2.2.2
  simp only [] at hstep hbr
  have hx : ({ s3 with mark_continue := false, tok_cache_idx := s1.tok_cache_idx } : js).exec
      = false := by simp [js.exec, hbr]
  have hs := skim_state (skim_classic_for_step host n) hstep hx
  have hnext : classic_for_next (c, s1, s2, s3, s4) = { s3 with mark_continue := false } := by
    simp only [classic_for_next]
    rw [hs]
  refine ⟨hnext, ?_⟩
  obtain ⟨k, rfl⟩ : ∃ k, n = j + (k + 2) := ⟨n - (j + 2), by omega⟩
  have h1 : classic_for_body host (j + (k + 2)) (parsers host (j + (k + 2))) s0.tok_cache_idx () s
      = .ok (.inl (), { s3 with mark_continue := false }) := by
    rw [← hnext]
    exact classic_for_round_run host _ _ _ s _ hg hround
  have h2 : classic_for_body host (j + (k + 2)) (parsers host (j + (k + 2))) s0.tok_cache_idx ()
      { s3 with mark_continue := false } = .ok (.inr (), { s3 with mark_continue := false }) := by
    unfold classic_for_body
    simp only [run_bind, run_get, hbr, Bool.not_true, Bool.and_false, Bool.false_eq_true,
      if_false, run_pure]
  rw [parse_classic_for_eq]
  simp only [run_bind, run_get]
  rw [loop_rounds _ _ j _ _ _ _ hrounds, loop_inl _ _ h1, loop_inr _ _ h2]
  rfl

theorem for_array_break (host : Host) (n : Nat) (rec : Parsers) (for_type : _for_type)
    (acc : _value_accessor) (j a i c : Nat) (p : List js_value) (s0 sv s s1 s2 : js)
    (hval : _parse_access_call_expression host n rec s0 = .ok (.array a, sv))
    (hclose : _get_token_state sv = .ok (.ts_right_parenthesis, sv))
    (hrounds : js_rounds (for_array_body rec for_type acc (.array a) (sv.tok_cache_idx + 1)) j
        (0, 0) { sv with tok_cache_idx := sv.tok_cache_idx + 1 } = some ((i, c), s))
    (hcell : s.heap.get? a = some (.array p)) (hi : i < p.length)
    (hnull : (p.getD i .null).type ≠ .vt_null)
    (hput : _accessor_put acc (if for_type = .for_in then .number (i : ℚ) else p.getD i .null)
        { s with tok_cache_idx := sv.tok_cache_idx + 1 } = .ok ((), s1))
    (hb : rec._parse_statement s1 = .ok ((), s2))
    (hbr : s2.mark_break = true) (hn : j + 1 ≤ n) :
    _parse_for_in_of host n rec for_type acc s0 = .ok ((),
      { s2 with mark_break := false, mark_continue := false }) := by
  obtain ⟨k, rfl⟩ : ∃ k, n = j + (k + 1) := ⟨n - (j + 1), by omega⟩
  have h1 : for_array_body rec for_type acc (.array a) (sv.tok_cache_idx + 1) (i, c) s
      = .ok (.inr (c + 1), { s2 with mark_continue := false }) := by
    unfold for_array_body
    simp only [run_bind, js_array_cell, hcell, hi, if_true, hnull, ne_eq, not_false_eq_true,
      run_set_tok_cache_idx, run_ite]
    by_cases hf : for_type = .for_in
    · simp only [hf, if_true] at hput ⊢
      simp only [hput, hb, run_set_mark_continue, run_get, hbr, if_true, run_pure]
    · simp only [hf, if_false] at hput ⊢
      simp only [hput, hb, run_set_mark_continue, run_get, hbr, if_true, run_pure]
  rw [parse_for_in_of_eq]
  simp only [run_bind, hval, run_expect, run_accept, hclose, if_true, run_get, js_value.type,
    run_ite]
  rw [loop_rounds _ _ j _ _ _ _ hrounds, loop_inr _ _ h1]
  simp only [run_set_mark_break, run_pure, Nat.succ_ne_zero, if_false]

theorem for_object_break (host : Host) (n : Nat) (rec : Parsers) (for_type : _for_type)
    (acc : _value_accessor) (j o i c : Nat) (p : js_value_map) (s0 sv s s1 s2 : js)
    (hval : _parse_access_call_expression host n rec s0 = .ok (.object o, sv))
    (hclose : _get_token_state sv = .ok (.ts_right_parenthesis, sv))
    (hrounds : js_rounds (for_object_body rec for_type acc (.object o) (sv.tok_cache_idx + 1)) j
        (0, 0) { sv with tok_cache_idx := sv.tok_cache_idx + 1 } = some ((i, c), s))
    (hcell : s.heap.get? o = some (.object p)) (hi : i < p.length)
    (hnull : (p.getD i ([], .null)).2.type ≠ .vt_null)
    (hput : _accessor_put acc
        (if for_type = .for_in then
          js_string (p.getD i ([], .null)).1 (p.getD i ([], .null)).1.length
         else (p.getD i ([], .null)).2)
        { s with tok_cache_idx := sv.tok_cache_idx + 1 } = .ok ((), s1))
    (hb : rec._parse_statement s1 = .ok ((), s2))
    (hbr : s2.mark_break = true) (hn : j + 1 ≤ n) :
    _parse_for_in_of host n rec for_type acc s0 = .ok ((),
      { s2 with mark_break := false, mark_continue := false }) := by
  obtain ⟨k, rfl⟩ : ∃ k, n = j + (k + 1) := ⟨n - (j + 1), by omega⟩
  have h1 : for_object_body rec for_type acc (.object o) (sv.tok_cache_idx + 1) (i, c) s
      = .ok (.inr (c + 1), { s2 with mark_continue := false }) := by
    unfold for_object_body
    simp only [run_bind, js_object_cell, hcell, hi, if_true, hnull, ne_eq, not_false_eq_true,
      run_set_tok_cache_idx, run_ite]
    by_cases hf : for_type = .for_in
    · simp only [hf, if_true] at hput ⊢
      simp only [hput, hb, run_set_mark_continue, run_get, hbr, if_true, run_pure]
    · simp only [hf, if_false] at hput ⊢
      simp only [hput, hb, run_set_mark_continue, run_get, hbr, if_true, run_pure]
  rw [parse_for_in_of_eq]
  simp only [run_bind, hval, run_expect, run_accept, hclose, if_true, run_get, js_value.type,
    run_ite, reduceCtorEq, if_false]
  rw [loop_rounds _ _ j _ _ _ _ hrounds, loop_inr _ _ h1]
  simp only [run_set_mark_break, run_pure, Nat.succ_ne_zero, if_false]

theorem while_statement_exec (host : Host) (n : Nat) (rec : Parsers) (s : js)
    (hexec : s.exec = true) (ht : _get_token_state s = .ok (.ts_while, s)) :
    _parse_statement host n rec s
      = _parse_while host n rec { s with tok_cache_idx := s.tok_cache_idx + 1 } := by
  unfold _parse_statement
  simp only [run_bind, run_require_exec, hexec, if_true, run_ite, run_accept, ht, reduceCtorEq,
    if_false]

theorem do_statement_exec (host : Host) (n : Nat) (rec : Parsers) (s : js)
    (hexec : s.exec = true) (ht : _get_token_state s = .ok (.ts_do, s)) :
    _parse_statement host n rec s
      = _parse_do_while host n rec { s with tok_cache_idx := s.tok_cache_idx + 1 } := by
  unfold _parse_statement
  simp only [run_bind, run_require_exec, hexec, if_true, run_ite, run_accept, ht, reduceCtorEq,
    if_false]

theorem break_statement_exec (host : Host) (n : Nat) (rec : Parsers) (s : js)
    (hexec : s.exec = true) (ht : _get_token_state s = .ok (.ts_break, s))
    (hsemi : _get_token_state { s with tok_cache_idx := s.tok_cache_idx + 1 }
      = .ok (.ts_semicolon, { s with tok_cache_idx := s.tok_cache_idx + 1 })) :
    _parse_statement host n rec s
      = .ok ((), { s with mark_break := true, tok_cache_idx := s.tok_cache_idx + 2 }) := by
  have hsemi' := get_token_state_of
    { s with tok_cache_idx := s.tok_cache_idx + 1, mark_break := true } hsemi rfl rfl
  unfold _parse_statement
  simp only [run_bind, run_require_exec, hexec, if_true, run_ite, run_accept, ht, reduceCtorEq,
    if_false, run_set_mark_break, run_expect, hsemi']

set_option maxRecDepth 100000 in
/-- C10: the round of a loop in which `break` executes is its last, for each of the
five loop forms and wherever the loop stands, so also in the body of another loop.
The statement `break;` in execute mode sets `mark_break` and changes nothing else
but the cursor.  A `while`, `do` or `for` statement in execute mode is
`_parse_while`, `_parse_do_while`, or the header of the `for` followed by
`_parse_classic_for` or `_parse_for_in_of`.  Each of these, whenever it returns
normally, returns with `mark_break` false.  For each of them, after any number
`j` of rounds that went round again (`js_rounds`), when the body of the next round
returns with `mark_break` set and the iteration bound is not reached, the loop
starts no further round and the statement returns normally in the state the body
left, with `mark_break` and `mark_continue` false (and `parse_exec` true after
`while` and the classic `for`); after `do` the condition was parsed in skim mode,
yielded undefined and moved the cursor only, after the classic `for` the step was
parsed in skim mode.  That state is in execute mode when the body left `parse_exec`
set and `mark_return` clear, so the statement after the loop executes and the tests
`parse_exec && !mark_break` and `!mark_break` of an enclosing loop hold.  In each of
the seven programs the inner loop ends at its `break` (`m` counts one round per
outer round, the `m += 10` after the `break` never runs, and in the last two the
loop variable keeps the index or the element of the round that executed `break`),
the statement `n += 1` after the inner loop runs, and the outer loop makes all its
three rounds. -/
theorem break_ends_only_the_innermost_loop :
    (∀ (host : Host) (n : Nat) (rec : Parsers) (s : js), s.exec = true →
      _get_token_state s = .ok (.ts_break, s) →
      _get_token_state { s with tok_cache_idx := s.tok_cache_idx + 1 }
        = .ok (.ts_semicolon, { s with tok_cache_idx := s.tok_cache_idx + 1 }) →
      _parse_statement host n rec s
        = .ok ((), { s with mark_break := true, tok_cache_idx := s.tok_cache_idx + 2 })) ∧
    (∀ (host : Host) (n : Nat) (rec : Parsers) (s : js), s.exec = true →
      (_get_token_state s = .ok (.ts_while, s) →
        _parse_statement host n rec s
          = _parse_while host n rec { s with tok_cache_idx := s.tok_cache_idx + 1 }) ∧
      (_get_token_state s = .ok (.ts_do, s) →
        _parse_statement host n rec s
          = _parse_do_while host n rec { s with tok_cache_idx := s.tok_cache_idx + 1 }) ∧
      (_get_token_state s = .ok (.ts_for, s) →
        _parse_statement host n rec s = (do
          _stack_forward
          _next_token
          _expect .ts_left_parenthesis "Expect ("
          let (for_type, acc) ← for_header host n rec
          if for_type = .classic_for then
            _parse_classic_for host n rec
          else
            _parse_for_in_of host n rec for_type acc
          js_stack_backward : Parse Unit) s)) ∧
    (∀ (host : Host) (n : Nat) (s s1 : js),
      _parse_while host n (parsers host n) s = .ok ((), s1) →
      s1.mark_break = false ∧ s1.mark_continue = false ∧ s1.parse_exec = true) ∧
    (∀ (host : Host) (n : Nat) (s s1 : js),
      _parse_do_while host n (parsers host n) s = .ok ((), s1) →
      s1.mark_break = false ∧ s1.mark_continue = false) ∧
    (∀ (host : Host) (n : Nat) (s s1 : js),
      _parse_classic_for host n (parsers host n) s = .ok ((), s1) →
      s1.mark_break = false ∧ s1.mark_continue = false ∧ s1.parse_exec = true) ∧
    (∀ (host : Host) (n : Nat) (for_type : _for_type) (acc : _value_accessor) (s s1 : js),
      _parse_for_in_of host n (parsers host n) for_type acc s = .ok ((), s1) →
      s1.mark_break = false) ∧
    (∀ (host : Host) (n : Nat) (rec : Parsers) (j : Nat) (s0 s s1 s2 : js) (c : Bool),
      _get_token_state s0 = .ok (.ts_left_parenthesis, s0) →
      js_rounds (while_body host n rec (s0.tok_cache_idx + 1)) j ()
        { s0 with tok_cache_idx := s0.tok_cache_idx + 1 } = some ((), s) →
      (s.parse_exec && !s.mark_break) = true →
      js_parse_expression host n rec { s with tok_cache_idx := s0.tok_cache_idx + 1 }
        = .ok (.boolean c, s1) →
      _get_token_state s1 = .ok (.ts_right_parenthesis, s1) →
      rec._parse_statement { s1 with tok_cache_idx := s1.tok_cache_idx + 1, parse_exec := c }
        = .ok ((), s2) →
      s2.mark_break = true → j + 2 ≤ n →
      _parse_while host n rec s0 = .ok ((),
        { s2 with parse_exec := true, mark_break := false, mark_continue := false })) ∧
    (∀ (host : Host) (n : Nat) (j : Nat) (s0 s s1 s2 : js) (v : js_value),
      js_rounds (do_while_body host n (parsers host n) s0.tok_cache_idx) j () s0
        = some ((), s) →
      (parsers host n)._parse_statement { s with tok_cache_idx := s0.tok_cache_idx }
        = .ok ((), s1) →
      s1.mark_break = true →
      _get_token_state s1 = .ok (.ts_while, s1) →
      _get_token_state { s1 with tok_cache_idx := s1.tok_cache_idx + 1 }
        = .ok (.ts_left_parenthesis, { s1 with tok_cache_idx := s1.tok_cache_idx + 1 }) →
      js_parse_expression host n (parsers host n)
        { s1 with mark_continue := false, tok_cache_idx := s1.tok_cache_idx + 2 }
        = .ok (v, s2) →
      _get_token_state s2 = .ok (.ts_right_parenthesis, s2) →
      _get_token_state { s2 with tok_cache_idx := s2.tok_cache_idx + 1 }
        = .ok (.ts_semicolon, { s2 with tok_cache_idx := s2.tok_cache_idx + 1 }) →
      j + 1 ≤ n →
      v = .undefined ∧
      _parse_do_while host n (parsers host n) s0 = .ok ((),
        { s1 with
          mark_break := false
          mark_continue := false
          tok_cache_idx := s2.tok_cache_idx + 2 })) ∧
    (∀ (host : Host) (n : Nat) (j : Nat) (s0 s : js) (r : Bool × js × js × js × js),
      js_rounds (classic_for_body host n (parsers host n) s0.tok_cache_idx) j () s0
        = some ((), s) →
      (s.parse_exec && !s.mark_break) = true →
      classic_for_round host n (parsers host n) s0.tok_cache_idx s r →
      r.2.2.2.1.mark_break = true → j + 2 ≤ n →
      classic_for_next r = { r.2.2.2.1 with mark_continue := false } ∧
      _parse_classic_for host n (parsers host n) s0 = .ok ((),
        { r.2.2.2.1 with parse_exec := true, mark_break := false, mark_continue := false })) ∧
    (∀ (host : Host) (n : Nat) (rec : Parsers) (for_type : _for_type) (acc : _value_accessor)
      (j a i c : Nat) (p : List js_value) (s0 sv s s1 s2 : js),
      _parse_access_call_expression host n rec s0 = .ok (.array a, sv) →
      _get_token_state sv = .ok (.ts_right_parenthesis, sv) →
      js_rounds (for_array_body rec for_type acc (.array a) (sv.tok_cache_idx + 1)) j
        (0, 0) { sv with tok_cache_idx := sv.tok_cache_idx + 1 } = some ((i, c), s) →
      s.heap.get? a = some (.array p) → i < p.length →
      (p.getD i .null).type ≠ .vt_null →
      _accessor_put acc (if for_type = .for_in then .number (i : ℚ) else p.getD i .null)
        { s with tok_cache_idx := sv.tok_cache_idx + 1 } = .ok ((), s1) →
      rec._parse_statement s1 = .ok ((), s2) →
      s2.mark_break = true → j + 1 ≤ n →
      _parse_for_in_of host n rec for_type acc s0 = .ok ((),
        { s2 with mark_break := false, mark_continue := false })) ∧
    (∀ (host : Host) (n : Nat) (rec : Parsers) (for_type : _for_type) (acc : _value_accessor)
      (j o i c : Nat) (p : js_value_map) (s0 sv s s1 s2 : js),
      _parse_access_call_expression host n rec s0 = .ok (.object o, sv) →
      _get_token_state sv = .ok (.ts_right_parenthesis, sv) →
      js_rounds (for_object_body rec for_type acc (.object o) (sv.tok_cache_idx + 1)) j
        (0, 0) { sv with tok_cache_idx := sv.tok_cache_idx + 1 } = some ((i, c), s) →
      s.heap.get? o = some (.object p) → i < p.length →
      (p.getD i ([], .null)).2.type ≠ .vt_null →
      _accessor_put acc
        (if for_type = .for_in then
          js_string (p.getD i ([], .null)).1 (p.getD i ([], .null)).1.length
         else (p.getD i ([], .null)).2)
        { s with tok_cache_idx := sv.tok_cache_idx + 1 } = .ok ((), s1) →
      rec._parse_statement s1 = .ok ((), s2) →
      s2.mark_break = true → j + 1 ≤ n →
      _parse_for_in_of host n rec for_type acc s0 = .ok ((),
        { s2 with mark_break := false, mark_continue := false })) ∧
    (∀ s2 : js, s2.mark_return = false →
      ({ s2 with parse_exec := true, mark_break := false, mark_continue := false } : js).exec
        = true ∧
      (s2.parse_exec = true →
        ({ s2 with mark_break := false, mark_continue := false } : js).exec = true)) ∧
    (js_final (js_parse_script no_host 200 (js_load
      "let n = 0; let m = 0; for (let i = 0; i < 3; i += 1) { while (true) { m += 1; break; m += 10; } n += 1; }"))).map
      (fun s => (s.var "n", s.var "m", s.mark_break))
      = some (some (.number 3), some (.number 3), false) ∧
    (js_final (js_parse_script no_host 200 (js_load
      "let n = 0; let m = 0; for (let i = 0; i < 3; i += 1) { do { m += 1; break; m += 10; } while (true); n += 1; }"))).map
      (fun s => (s.var "n", s.var "m", s.mark_break))
      = some (some (.number 3), some (.number 3), false) ∧
    (js_final (js_parse_script no_host 200 (js_load
      "let n = 0; let m = 0; for (let i = 0; i < 3; i += 1) { for (let j = 0; j < 5; j += 1) { m += 1; break; m += 10; } n += 1; }"))).map
      (fun s => (s.var "n", s.var "m", s.mark_break))
      = some (some (.number 3), some (.number 3), false) ∧
    (js_final (js_parse_script no_host 200 (js_load
      "let n = 0; let m = 0; let i = 0; while (i < 3) { for (let j in [7, 8]) { m += 1; break; m += 10; } n += 1; i += 1; }"))).map
      (fun s => (s.var "n", s.var "m", s.mark_break))
      = some (some (.number 3), some (.number 3), false) ∧
    (js_final (js_parse_script no_host 200 (js_load
      "let n = 0; let m = 0; let i = 0; do { for (let j of {a: 1, b: 2}) { m += 1; break; m += 10; } n += 1; i += 1; } while (i < 3);"))).map
      (fun s => (s.var "n", s.var "m", s.mark_break))
      = some (some (.number 3), some (.number 3), false) ∧
    (js_final (js_parse_script no_host 200 (js_load
      "let n = 0; let m = 0; let j; let i = 0; while (i < 3) { for (j in [7, 8]) { m += 1; break; m += 10; } n += 1; i += 1; }"))).map
      (fun s => (s.var "n", s.var "m", s.var "j", s.mark_break))
      = some (some (.number 3), some (.number 3), some (.number 0), false) ∧
    (js_final (js_parse_script no_host 200 (js_load
      "let n = 0; let m = 0; let j; let i = 0; do { for (j of {a: 1, b: 2}) { m += 1; break; m += 10; } n += 1; i += 1; } while (i < 3);"))).map
      (fun s => (s.var "n", s.var "m", s.var "j", s.mark_break))
      = some (some (.number 3), some (.number 3), some (.number 1), false) :=
  ⟨break_statement_exec,
    fun host n rec s hs =>
      ⟨while_statement_exec host n rec s hs, do_statement_exec host n rec s hs,
        for_statement_exec host n rec s hs⟩,
    fun host n s s1 h => while_clears_flags host n _ s s1 h,
    fun host n s s1 h => do_while_clears_flags host n _ s s1 h,
    fun host n s s1 h => classic_for_clears_flags host n _ s s1 h,
    fun host n for_type acc s s1 h =>
      for_in_of_clears_break host n _ (skim_parsers host n) for_type acc s s1 h,
    while_break, do_while_break, classic_for_break, for_array_break, for_object_break,
    fun s2 h => ⟨by simp [js.exec, h], fun hp => by simp [js.exec, h, hp]⟩,
    by decide!, by decide!, by decide!, by decide!, by decide!, by decide!, by decide!⟩

set_option maxRecDepth 100000 in
theorem break_ends_only_the_innermost_loop_witness :
    _parse_while no_host 50 (parsers no_host 50) while_break_example =
      .ok ((),
        { ({ while_break_example with tok_cache_idx := 8, mark_break := true } : js) with
          parse_exec := true, mark_break := false, mark_continue := false }) ∧
    _parse_for_in_of no_host 50 (parsers no_host 50) .for_of
        ⟨.at_identifier, .undefined, (sz for_of_break_src).drop 12, 1⟩
        (for_of_break_state 7 [] .null false) =
      .ok ((),
        { for_of_break_state 27 [.array [.number 1, .number 2, .number 3]] (.number 2) true with
          mark_break := false, mark_continue := false }) :=
  ⟨break_ends_only_the_innermost_loop.2.2.2.2.2.2.1 no_host 50 (parsers no_host 50) 0
      while_break_example { while_break_example with tok_cache_idx := 2 }
      { while_break_example with tok_cache_idx := 3 }
      { while_break_example with tok_cache_idx := 8, mark_break := true } true
      (by decide!) (by decide!) (by decide!) (by decide!) (by decide!) (by decide!) (by decide!)
      (by decide),
    break_ends_only_the_innermost_loop.2.2.2.2.2.2.2.2.2.1 no_host 50 (parsers no_host 50) .for_of
      ⟨.at_identifier, .undefined, (sz for_of_break_src).drop 12, 1⟩ 1 0 1 1
      [.number 1, .number 2, .number 3]
      (for_of_break_state 7 [] .null false)
      (for_of_break_state 14 [.array [.number 1, .number 2, .number 3]] .null false)
      (for_of_break_state 27 [.array [.number 1, .number 2, .number 3]] (.number 1) false)
      (for_of_break_state 15 [.array [.number 1, .number 2, .number 3]] (.number 2) false)
      (for_of_break_state 27 [.array [.number 1, .number 2, .number 3]] (.number 2) true)
      (by decide!) (by decide!) (by decide!) (by decide!) (by decide) (by decide!) (by decide!)
      (by decide!) (by decide!) (by decide)⟩

end BananaJs
